import Mathlib

/-!
# Shallow embedding of the OrderBook engine (src/impl/src/order_book.cpp)

This file translates the C++ order-book engine and its sliding-window trade
statistics into Lean, and proves/refutes the frozen claims about it.

Modelling conventions:
* machine integers are `Nat`/`Int`; where the C++ arithmetic can wrap
  (`uint32_t`/`uint64_t` additions, subtractions, multiplications and casts)
  we reduce modulo `2^32`/`2^64` explicitly;
* C++ raw pointers into the two memory pools become `Nat` slot handles; a
  `T*` that may be null becomes `Option Nat`; dereferencing goes through the
  pool storage with a default record for the (invariant-excluded) null case;
* the `MemoryPoolV3` index-stack allocator is translated field by field
  (`storage_`, `free_`, `free_count_`);
* unbounded C++ loops over the circular linked lists are written with a fuel
  argument; call sites pass fuel no smaller than the capacity bound that the
  C++ data structure guarantees (`MAX_ORDERS`, `MAX_PRICE_LEVELS`), so the
  fuel never runs out on states the loops are actually run on.
-/

namespace impl

/-- `MAX_PRICE_LEVELS` from order_book.hpp. -/
def MAX_PRICE_LEVELS : Nat := 2048

/-- `MAX_ORDERS` from order_book.hpp. -/
def MAX_ORDERS : Nat := 65536

/-- `SlidingWindowStats::MAX_TRADES`. -/
def MAX_TRADES : Nat := 65536

/-- `SlidingWindowStats::WINDOW_SECONDS`. -/
def WINDOW_SECONDS : Nat := 600

/-- `SlidingWindowStats::SECONDARY_BUCKETS`. -/
def SECONDARY_BUCKETS : Nat := 601

/-- Modulus of `uint64_t` arithmetic. -/
def U64MOD : Nat := 2 ^ 64

/-- Modulus of `uint32_t` arithmetic. -/
def U32MOD : Nat := 2 ^ 32

/-- `uint64_t` addition (wraps modulo `2^64`). -/
def u64add (a b : Nat) : Nat := (a + b) % U64MOD

/-- `uint64_t` subtraction (wraps modulo `2^64`). -/
def u64sub (a b : Nat) : Nat := (a + (U64MOD - b % U64MOD)) % U64MOD

/-- `uint64_t` multiplication (wraps modulo `2^64`). -/
def u64mul (a b : Nat) : Nat := (a * b) % U64MOD

/-- `static_cast<uint64_t>` of a signed value (two's complement reinterpretation). -/
def u64ofInt (x : Int) : Nat := (x % (U64MOD : Int)).toNat

/-- `uint32_t` addition (wraps modulo `2^32`). -/
def u32add (a b : Nat) : Nat := (a + b) % U32MOD

/-- `uint32_t` subtraction (wraps modulo `2^32`). -/
def u32sub (a b : Nat) : Nat := (a + (U32MOD - b % U32MOD)) % U32MOD

/-- Adding a signed `int32_t` difference to a `uint32_t`, as in
`level->total_qty += qty_diff` in `OrderBook::modifyOrder`: the result is the
sum reduced modulo `2^32`. -/
def u32addInt (a : Nat) (d : Int) : Nat := ((a + d) % (U32MOD : Int)).toNat

/-- `nanosecondsToUnixSeconds` from order_book.cpp: integer division by 10^9. -/
def nanosecondsToUnixSeconds (nanoseconds : Nat) : Nat :=
  nanoseconds / 1000000000

/-- Days from the Unix epoch of a civil UTC date (the classical
days-from-civil computation, with `1 ≤ m ≤ 12`); this is the calendar core of
`mktime` run in a UTC environment, which `yyyymmddhhmmssToUnixSeconds`
relies on ("assuming the system timezone is UTC"). -/
def daysFromCivil (y m d : Int) : Int :=
  let y2 := if m ≤ 2 then y - 1 else y
  let era := Int.fdiv y2 400
  let yoe := y2 - era * 400
  let mp := if 2 < m then m - 3 else m + 9
  let doy := (153 * mp + 2) / 5 + d - 1
  let doe := yoe * 365 + yoe / 4 - yoe / 100 + doy
  era * 146097 + doe - 719468

/-- UTC `mktime`/`timegm` on a broken-down time: out-of-range months are
normalised by floor division, the remaining fields contribute linearly. -/
def timegmModel (year month day hour minute second : Int) : Int :=
  let mm := month - 1
  let yAdj := year + Int.fdiv mm 12
  let mAdj := Int.fmod mm 12
  daysFromCivil yAdj (mAdj + 1) day * 86400 + hour * 3600 + minute * 60 + second

/-- `yyyymmddhhmmssToUnixSeconds` from order_book.cpp: decompose the decimal
grid time into calendar components and convert assuming UTC. `mktime`
returning `-1` maps to `0`; any other (possibly negative) `time_t` is cast to
`uint64_t`. -/
def yyyymmddhhmmssToUnixSeconds (v : Nat) : Nat :=
  let sec := v % 100
  let min := (v / 100) % 100
  let hour := (v / 10000) % 100
  let day := (v / 1000000) % 100
  let month := (v / 100000000) % 100
  let year := v / 10000000000
  let timestamp := timegmModel (year : Int) (month : Int) (day : Int) (hour : Int)
    (min : Int) (sec : Int)
  if timestamp = -1 then 0 else u64ofInt timestamp

/-- `INT32_MAX`, the initial `min_price_`. -/
def INT32_MAX : Int := 2147483647

/-- `INT32_MIN`, the initial `max_price_`. -/
def INT32_MIN : Int := -2147483648

/-- State of `SlidingWindowStats` (order_book.hpp).  The fixed-size member
arrays become functions from the slot number; the `SIZE_MAX` sentinel used in
`sec_index_`, `max_heap_pos_` and `min_heap_pos_` becomes `none`. -/
structure SlidingWindowStats where
  timestamps_ : Nat → Nat
  prices_ : Nat → Int
  quantities_ : Nat → Nat
  amounts_ : Nat → Nat
  head_ : Nat
  count_ : Nat
  sum_qty_ : Nat
  sum_amount_ : Nat
  min_price_ : Int
  max_price_ : Int
  sec_index_ : Nat → Option Nat
  sec_count_ : Nat → Nat
  base_timestamp_ : Nat
  max_heap_ : Nat → Nat
  min_heap_ : Nat → Nat
  max_heap_size_ : Nat
  min_heap_size_ : Nat
  max_heap_pos_ : Nat → Option Nat
  min_heap_pos_ : Nat → Option Nat
  valid_ : Nat → Bool

/-- `SlidingWindowStats::SlidingWindowStats()`: zero-initialised counters,
`sec_index_`/heap positions filled with the `SIZE_MAX` sentinel, `valid_`
filled with `false`.  (The data arrays are uninitialised in C++ and never
read before being written; they are set to zeros here.) -/
def SlidingWindowStats.init : SlidingWindowStats where
  timestamps_ := fun _ => 0
  prices_ := fun _ => 0
  quantities_ := fun _ => 0
  amounts_ := fun _ => 0
  head_ := 0
  count_ := 0
  sum_qty_ := 0
  sum_amount_ := 0
  min_price_ := INT32_MAX
  max_price_ := INT32_MIN
  sec_index_ := fun _ => none
  sec_count_ := fun _ => 0
  base_timestamp_ := 0
  max_heap_ := fun _ => 0
  min_heap_ := fun _ => 0
  max_heap_size_ := 0
  min_heap_size_ := 0
  max_heap_pos_ := fun _ => none
  min_heap_pos_ := fun _ => none
  valid_ := fun _ => false

/-- Bubble-up loop of `SlidingWindowStats::pushToMaxHeap`, acting on the
heap array and the position map.  The cursor moves to the parent
`(pos-1)/2 < pos` on every iteration, so fuel equal to the starting
position reproduces the C++ loop exactly (when both hit zero, the loop
breaks anyway). -/
def bubbleUpMax (prices : Nat → Int) :
    Nat → (Nat → Nat) → (Nat → Option Nat) → Nat → ((Nat → Nat) × (Nat → Option Nat))
  | 0, heap, hpos, _ => (heap, hpos)
  | fuel + 1, heap, hpos, pos =>
    if pos = 0 then (heap, hpos)
    else
      let parent := (pos - 1) / 2
      if prices (heap pos) ≤ prices (heap parent) then (heap, hpos)
      else
        let a := heap parent
        let b := heap pos
        let heap2 := Function.update (Function.update heap parent b) pos a
        let hpos2 := Function.update (Function.update hpos b parent) a pos
        bubbleUpMax prices fuel heap2 hpos2 parent

/-- Bubble-up loop of `SlidingWindowStats::pushToMinHeap`. -/
def bubbleUpMin (prices : Nat → Int) :
    Nat → (Nat → Nat) → (Nat → Option Nat) → Nat → ((Nat → Nat) × (Nat → Option Nat))
  | 0, heap, hpos, _ => (heap, hpos)
  | fuel + 1, heap, hpos, pos =>
    if pos = 0 then (heap, hpos)
    else
      let parent := (pos - 1) / 2
      if prices (heap parent) ≤ prices (heap pos) then (heap, hpos)
      else
        let a := heap parent
        let b := heap pos
        let heap2 := Function.update (Function.update heap parent b) pos a
        let hpos2 := Function.update (Function.update hpos b parent) a pos
        bubbleUpMin prices fuel heap2 hpos2 parent

/-- `SlidingWindowStats::pushToMaxHeap`. -/
def SlidingWindowStats.pushToMaxHeap (s : SlidingWindowStats) (trade_idx : Nat) :
    SlidingWindowStats :=
  let pos := s.max_heap_size_
  let heap := Function.update s.max_heap_ pos trade_idx
  let hpos := Function.update s.max_heap_pos_ trade_idx (some pos)
  let r := bubbleUpMax s.prices_ pos heap hpos pos
  { s with max_heap_ := r.1, max_heap_pos_ := r.2, max_heap_size_ := s.max_heap_size_ + 1 }

/-- `SlidingWindowStats::pushToMinHeap`. -/
def SlidingWindowStats.pushToMinHeap (s : SlidingWindowStats) (trade_idx : Nat) :
    SlidingWindowStats :=
  let pos := s.min_heap_size_
  let heap := Function.update s.min_heap_ pos trade_idx
  let hpos := Function.update s.min_heap_pos_ trade_idx (some pos)
  let r := bubbleUpMin s.prices_ pos heap hpos pos
  { s with min_heap_ := r.1, min_heap_pos_ := r.2, min_heap_size_ := s.min_heap_size_ + 1 }

/-- Sift-down loop of `SlidingWindowStats::removeFromMaxHeap`.  The cursor
strictly increases and is bounded by the heap size, so fuel `size` suffices;
the fuel-exhausted branch is unreachable at the call sites. -/
def siftDownMax (prices : Nat → Int) (size : Nat) :
    Nat → (Nat → Nat) → (Nat → Option Nat) → Nat → ((Nat → Nat) × (Nat → Option Nat))
  | 0, heap, hpos, _ => (heap, hpos)
  | fuel + 1, heap, hpos, cur =>
    let left := 2 * cur + 1
    let right := 2 * cur + 2
    let l1 := if left < size ∧ prices (heap cur) < prices (heap left) then left else cur
    let largest := if right < size ∧ prices (heap l1) < prices (heap right) then right else l1
    if largest = cur then (heap, hpos)
    else
      let a := heap cur
      let b := heap largest
      let heap2 := Function.update (Function.update heap cur b) largest a
      let hpos2 := Function.update (Function.update hpos b cur) a largest
      siftDownMax prices size fuel heap2 hpos2 largest

/-- Sift-down loop of `SlidingWindowStats::removeFromMinHeap`. -/
def siftDownMin (prices : Nat → Int) (size : Nat) :
    Nat → (Nat → Nat) → (Nat → Option Nat) → Nat → ((Nat → Nat) × (Nat → Option Nat))
  | 0, heap, hpos, _ => (heap, hpos)
  | fuel + 1, heap, hpos, cur =>
    let left := 2 * cur + 1
    let right := 2 * cur + 2
    let l1 := if left < size ∧ prices (heap left) < prices (heap cur) then left else cur
    let smallest := if right < size ∧ prices (heap right) < prices (heap l1) then right else l1
    if smallest = cur then (heap, hpos)
    else
      let a := heap cur
      let b := heap smallest
      let heap2 := Function.update (Function.update heap cur b) smallest a
      let hpos2 := Function.update (Function.update hpos b cur) a smallest
      siftDownMin prices size fuel heap2 hpos2 smallest

/-- `SlidingWindowStats::removeFromMaxHeap`. -/
def SlidingWindowStats.removeFromMaxHeap (s : SlidingWindowStats) (trade_idx : Nat) :
    SlidingWindowStats :=
  match s.max_heap_pos_ trade_idx with
  | none => s
  | some pos =>
    if pos ≥ s.max_heap_size_ then s
    else
      let hpos := Function.update s.max_heap_pos_ trade_idx none
      if pos = s.max_heap_size_ - 1 then
        { s with max_heap_pos_ := hpos, max_heap_size_ := s.max_heap_size_ - 1 }
      else
        let last_idx := s.max_heap_ (s.max_heap_size_ - 1)
        let heap := Function.update s.max_heap_ pos last_idx
        let hpos2 := Function.update hpos last_idx (some pos)
        let size := s.max_heap_size_ - 1
        let r := siftDownMax s.prices_ size size heap hpos2 pos
        { s with max_heap_ := r.1, max_heap_pos_ := r.2, max_heap_size_ := size }

/-- `SlidingWindowStats::removeFromMinHeap`. -/
def SlidingWindowStats.removeFromMinHeap (s : SlidingWindowStats) (trade_idx : Nat) :
    SlidingWindowStats :=
  match s.min_heap_pos_ trade_idx with
  | none => s
  | some pos =>
    if pos ≥ s.min_heap_size_ then s
    else
      let hpos := Function.update s.min_heap_pos_ trade_idx none
      if pos = s.min_heap_size_ - 1 then
        { s with min_heap_pos_ := hpos, min_heap_size_ := s.min_heap_size_ - 1 }
      else
        let last_idx := s.min_heap_ (s.min_heap_size_ - 1)
        let heap := Function.update s.min_heap_ pos last_idx
        let hpos2 := Function.update hpos last_idx (some pos)
        let size := s.min_heap_size_ - 1
        let r := siftDownMin s.prices_ size size heap hpos2 pos
        { s with min_heap_ := r.1, min_heap_pos_ := r.2, min_heap_size_ := size }

/-- `SlidingWindowStats::recordTrade(timestamp_ns, price, qty)`. -/
def SlidingWindowStats.recordTrade (s : SlidingWindowStats)
    (timestamp_ns : Nat) (price : Int) (qty : Nat) : SlidingWindowStats :=
  let timestamp := nanosecondsToUnixSeconds timestamp_ns
  let amount := u64mul (u64ofInt price) qty
  let idx := s.head_
  -- if this position already has a valid trade (buffer full), remove it from heaps
  let s1 := if s.valid_ idx then (s.removeFromMaxHeap idx).removeFromMinHeap idx else s
  let s2 := { s1 with
    timestamps_ := Function.update s1.timestamps_ idx timestamp
    prices_ := Function.update s1.prices_ idx price
    quantities_ := Function.update s1.quantities_ idx qty
    amounts_ := Function.update s1.amounts_ idx amount
    valid_ := Function.update s1.valid_ idx true }
  let s3 := (s2.pushToMaxHeap idx).pushToMinHeap idx
  let s4 := { s3 with
    sum_qty_ := u64add s3.sum_qty_ qty
    sum_amount_ := u64add s3.sum_amount_ amount }
  let base := if s4.base_timestamp_ = 0 then timestamp else s4.base_timestamp_
  let bucket_idx := u64sub timestamp base % SECONDARY_BUCKETS
  let s5 :=
    match s4.sec_index_ bucket_idx with
    | none =>
      { s4 with base_timestamp_ := base
                sec_index_ := Function.update s4.sec_index_ bucket_idx (some idx)
                sec_count_ := Function.update s4.sec_count_ bucket_idx 1 }
    | some _ =>
      { s4 with base_timestamp_ := base
                sec_count_ := Function.update s4.sec_count_ bucket_idx
                  (s4.sec_count_ bucket_idx + 1) }
  { s5 with
    head_ := (s5.head_ + 1) % MAX_TRADES
    count_ := if s5.count_ < MAX_TRADES then s5.count_ + 1 else s5.count_ }

/-- The ring-buffer slot the next eviction reads
(`(head_ + (MAX_TRADES - count_)) % MAX_TRADES`). -/
def tailSlot (s : SlidingWindowStats) : Nat :=
  (s.head_ + (MAX_TRADES - s.count_)) % MAX_TRADES

/-- One eviction step of `SlidingWindowStats::evictExpired`: drop the tail
trade and update sums, heaps, the secondary index and the count. -/
def evictTail (s : SlidingWindowStats) : SlidingWindowStats :=
  let tail_idx := tailSlot s
  let tail_time := s.timestamps_ tail_idx
  let qty := s.quantities_ tail_idx
  let amount := s.amounts_ tail_idx
  let s1 := { s with
    sum_qty_ := u64sub s.sum_qty_ qty
    sum_amount_ := u64sub s.sum_amount_ amount }
  let s2 :=
    if s1.valid_ tail_idx then
      let t := (s1.removeFromMaxHeap tail_idx).removeFromMinHeap tail_idx
      { t with valid_ := Function.update t.valid_ tail_idx false }
    else s1
  let s3 :=
    if 0 < s2.base_timestamp_ then
      let bucket_idx := u64sub tail_time s2.base_timestamp_ % SECONDARY_BUCKETS
      if 0 < s2.sec_count_ bucket_idx then
        let c := s2.sec_count_ bucket_idx - 1
        if c = 0 then
          { s2 with sec_count_ := Function.update s2.sec_count_ bucket_idx c
                    sec_index_ := Function.update s2.sec_index_ bucket_idx none }
        else
          { s2 with sec_count_ := Function.update s2.sec_count_ bucket_idx c }
      else s2
    else s2
  { s3 with count_ := s3.count_ - 1 }

/-- The while loop of `SlidingWindowStats::evictExpired`; each iteration
decrements `count_`, so fuel `s.count_` is enough at the call site. -/
def evictLoop (cutoff current : Nat) : Nat → SlidingWindowStats → SlidingWindowStats
  | 0, s => s
  | fuel + 1, s =>
    if s.count_ = 0 then s
    else
      let tail_idx := tailSlot s
      let tail_time := s.timestamps_ tail_idx
      if cutoff ≤ tail_time ∧ tail_time < current then s
      else evictLoop cutoff current fuel (evictTail s)

/-- `SlidingWindowStats::evictExpired(current_timestamp_yyyymmddhhmmss)`. -/
def SlidingWindowStats.evictExpired (s : SlidingWindowStats)
    (current_timestamp_yyyymmddhhmmss : Nat) : SlidingWindowStats :=
  let current_seconds := yyyymmddhhmmssToUnixSeconds current_timestamp_yyyymmddhhmmss
  let cutoff_seconds := u64sub current_seconds WINDOW_SECONDS
  evictLoop cutoff_seconds current_seconds s.count_ s

/-- `SlidingWindowStats::getTotalVolume`. -/
def SlidingWindowStats.getTotalVolume (s : SlidingWindowStats) : Nat := s.sum_qty_

/-- `SlidingWindowStats::getTotalAmount`. -/
def SlidingWindowStats.getTotalAmount (s : SlidingWindowStats) : Nat := s.sum_amount_

/-- One retained trade record, as read back from the ring buffer. -/
structure TradeView where
  ts : Nat
  price : Int
  qty : Nat
  amount : Nat
  deriving DecidableEq

/-- Ring-buffer slot of the `i`-th oldest retained trade
(`(head_ + (MAX_TRADES - count_) + i) % MAX_TRADES`, as in the C++ tail
index computation). -/
def windowSlot (s : SlidingWindowStats) (i : Nat) : Nat :=
  (s.head_ + (MAX_TRADES - s.count_) + i) % MAX_TRADES

/-- The retained trades, oldest first, read from the ring buffer. -/
def windowTrades (s : SlidingWindowStats) : List TradeView :=
  (List.range s.count_).map (fun i =>
    let j := windowSlot s i
    ⟨s.timestamps_ j, s.prices_ j, s.quantities_ j, s.amounts_ j⟩)

/-- `enum class Side` from order_book.hpp. -/
inductive Side where
  | BUY
  | SELL
  deriving DecidableEq

/-- `struct BBO`. -/
structure BBO where
  bid_price : Int
  bid_qty : Nat
  ask_price : Int
  ask_qty : Nat
  deriving DecidableEq

/-- `struct Order`; the intrusive `prev`/`next` pointers become order-pool
slot handles. -/
structure Order where
  order_id : Nat
  price : Int
  qty : Nat
  side : Side
  prev : Nat
  next : Nat
  deriving DecidableEq

/-- `struct PriceLevel`; `first_order` is an order-pool handle, `prev`/`next`
are level-pool handles. -/
structure PriceLevel where
  price : Int
  side : Side
  total_qty : Nat
  order_count : Nat
  first_order : Nat
  prev : Nat
  next : Nat
  deriving DecidableEq

/-- `MemoryPoolV3<T, N>`: object storage plus the index stack `free_` with
its `free_count_`.  Slot `i` of the stack is `freeArr i`. -/
structure Pool (α : Type) where
  storage : Nat → Option α
  freeArr : Nat → Nat
  freeCount : Nat

/-- `MemoryPoolV3` constructor: `free_[i] = i`, `free_count_ = N`, nothing
allocated. -/
def Pool.init (N : Nat) : Pool α :=
  ⟨fun _ => none, fun i => i, N⟩

/-- `MemoryPoolV3::allocate`: pop the top of the index stack and construct
the object there; `none` when the pool is exhausted.  The construction
function receives the slot handle so that the C++ constructors can set the
self-referential `prev = next = this` pointers. -/
def Pool.allocate (p : Pool α) (mk : Nat → α) : Option (Nat × Pool α) :=
  if p.freeCount = 0 then none
  else
    let idx := p.freeArr (p.freeCount - 1)
    some (idx, ⟨Function.update p.storage idx (some (mk idx)), p.freeArr, p.freeCount - 1⟩)

/-- `MemoryPoolV3::deallocate`: destroy the object and push its slot back on
the index stack. -/
def Pool.deallocate (p : Pool α) (idx : Nat) : Pool α :=
  ⟨Function.update p.storage idx none,
   Function.update p.freeArr p.freeCount idx,
   p.freeCount + 1⟩

/-- State of `class OrderBook`.  The `symbol_` character array plays no role
in any book operation and is omitted. -/
structure OrderBook where
  order_pool_ : Pool Order
  level_pool_ : Pool PriceLevel
  order_map_ : Nat → Option Nat
  price_level_map_ : Nat → Option Nat
  bids_ : Option Nat
  asks_ : Option Nat
  bbo_ : BBO
  window_stats_ : SlidingWindowStats

/-- Value read through a possibly-null `Order*`; the default is never
reached on well-formed states. -/
def defaultOrder : Order := ⟨0, 0, 0, Side.BUY, 0, 0⟩

/-- Value read through a possibly-null `PriceLevel*`. -/
def defaultLevel : PriceLevel := ⟨0, Side.BUY, 0, 0, 0, 0, 0⟩

/-- Dereference an order handle. -/
def derefOrder (s : OrderBook) (h : Nat) : Order :=
  (s.order_pool_.storage h).getD defaultOrder

/-- Dereference a level handle. -/
def derefLevel (s : OrderBook) (h : Nat) : PriceLevel :=
  (s.level_pool_.storage h).getD defaultLevel

/-- Write through an order handle (a C++ field assignment on `Order*`). -/
def setOrder (s : OrderBook) (h : Nat) (f : Order → Order) : OrderBook :=
  { s with order_pool_ :=
      { s.order_pool_ with
        storage := Function.update s.order_pool_.storage h (some (f (derefOrder s h))) } }

/-- Write through a level handle. -/
def setLevel (s : OrderBook) (h : Nat) (f : PriceLevel → PriceLevel) : OrderBook :=
  { s with level_pool_ :=
      { s.level_pool_ with
        storage := Function.update s.level_pool_.storage h (some (f (derefLevel s h))) } }

/-- `OrderBook::OrderBook`: empty maps, null list heads, zero BBO, fresh
pools and window statistics. -/
def OrderBook.init : OrderBook where
  order_pool_ := Pool.init MAX_ORDERS
  level_pool_ := Pool.init MAX_PRICE_LEVELS
  order_map_ := fun _ => none
  price_level_map_ := fun _ => none
  bids_ := none
  asks_ := none
  bbo_ := ⟨0, 0, 0, 0⟩
  window_stats_ := SlidingWindowStats.init

/-- `OrderBook::priceToIndex`: absolute value of the price modulo
`MAX_PRICE_LEVELS`. -/
def priceToIndex (price : Int) : Nat :=
  price.natAbs % MAX_PRICE_LEVELS

/-- `OrderBook::findPriceLevel`: hash lookup, then verify the stored level's
price to reject hash collisions. -/
def OrderBook.findPriceLevel (s : OrderBook) (price : Int) : Option Nat :=
  match s.price_level_map_ (priceToIndex price) with
  | none => none
  | some h => if (derefLevel s h).price = price then some h else none

/-- The sorted-position walk of `OrderBook::addPriceLevel` on the bid list:
advance while `current->next != *head && current->next->price > price`. -/
def levelWalkBids (s : OrderBook) (head : Nat) (price : Int) :
    Nat → Nat → Nat
  | 0, cur => cur
  | fuel + 1, cur =>
    let c := derefLevel s cur
    if c.next = head then cur
    else if price < (derefLevel s c.next).price then
      levelWalkBids s head price fuel c.next
    else cur

/-- The walk of `OrderBook::addPriceLevel` on the ask list:
advance while `current->next != *head && current->next->price < price`. -/
def levelWalkAsks (s : OrderBook) (head : Nat) (price : Int) :
    Nat → Nat → Nat
  | 0, cur => cur
  | fuel + 1, cur =>
    let c := derefLevel s cur
    if c.next = head then cur
    else if (derefLevel s c.next).price < price then
      levelWalkAsks s head price fuel c.next
    else cur

/-- Final splice of `OrderBook::addPriceLevel` ("insert after current"). -/
def spliceLevelAfter (s : OrderBook) (nh cur : Nat) : OrderBook :=
  let nxt := (derefLevel s cur).next
  let s1 := setLevel s nh (fun l => { l with prev := cur, next := nxt })
  let s2 := setLevel s1 nxt (fun l => { l with prev := nh })
  setLevel s2 cur (fun l => { l with next := nh })

/-- `OrderBook::addPriceLevel`: insert the freshly allocated level `nh` into
the price hash map (overwriting the slot) and into the side's sorted
circular list.  The list walks get fuel `MAX_PRICE_LEVELS`, an upper bound
on the number of live levels. -/
def OrderBook.addPriceLevel (s : OrderBook) (nh : Nat) : OrderBook :=
  let nl := derefLevel s nh
  let s0 := { s with price_level_map_ :=
      Function.update s.price_level_map_ (priceToIndex nl.price) (some nh) }
  match nl.side with
  | Side.BUY =>
    match s0.bids_ with
    | none =>
      let s1 := setLevel s0 nh (fun l => { l with prev := nh, next := nh })
      { s1 with bids_ := some nh }
    | some headH =>
      let hl := derefLevel s0 headH
      if hl.price < nl.price then
        let tailH := hl.prev
        let s1 := setLevel s0 nh (fun l => { l with prev := tailH, next := headH })
        let s2 := setLevel s1 tailH (fun l => { l with next := nh })
        let s3 := setLevel s2 headH (fun l => { l with prev := nh })
        { s3 with bids_ := some nh }
      else
        let cur := levelWalkBids s0 headH nl.price MAX_PRICE_LEVELS headH
        spliceLevelAfter s0 nh cur
  | Side.SELL =>
    match s0.asks_ with
    | none =>
      let s1 := setLevel s0 nh (fun l => { l with prev := nh, next := nh })
      { s1 with asks_ := some nh }
    | some headH =>
      let hl := derefLevel s0 headH
      if nl.price < hl.price then
        let tailH := hl.prev
        let s1 := setLevel s0 nh (fun l => { l with prev := tailH, next := headH })
        let s2 := setLevel s1 tailH (fun l => { l with next := nh })
        let s3 := setLevel s2 headH (fun l => { l with prev := nh })
        { s3 with asks_ := some nh }
      else
        let cur := levelWalkAsks s0 headH nl.price MAX_PRICE_LEVELS headH
        spliceLevelAfter s0 nh cur

/-- `OrderBook::removePriceLevel`. -/
def OrderBook.removePriceLevel (s : OrderBook) (lh : Nat) : OrderBook :=
  let l := derefLevel s lh
  let s0 := { s with price_level_map_ :=
      Function.update s.price_level_map_ (priceToIndex l.price) none }
  let s1 :=
    if l.next = lh then
      match l.side with
      | Side.BUY => { s0 with bids_ := none }
      | Side.SELL => { s0 with asks_ := none }
    else
      let t1 := setLevel s0 l.prev (fun x => { x with next := l.next })
      let t2 := setLevel t1 l.next (fun x => { x with prev := l.prev })
      match l.side with
      | Side.BUY => if t2.bids_ = some lh then { t2 with bids_ := some l.next } else t2
      | Side.SELL => if t2.asks_ = some lh then { t2 with asks_ := some l.next } else t2
  { s1 with level_pool_ := s1.level_pool_.deallocate lh }

/-- `OrderBook::updateBBO` (full update of both sides). -/
def OrderBook.updateBBO (s : OrderBook) : OrderBook :=
  let s1 :=
    match s.bids_ with
    | some h =>
      let l := derefLevel s h
      { s with bbo_ := { s.bbo_ with bid_price := l.price, bid_qty := l.total_qty } }
    | none => { s with bbo_ := { s.bbo_ with bid_price := 0, bid_qty := 0 } }
  match s1.asks_ with
  | some h =>
    let l := derefLevel s1 h
    { s1 with bbo_ := { s1.bbo_ with ask_price := l.price, ask_qty := l.total_qty } }
  | none => { s1 with bbo_ := { s1.bbo_ with ask_price := 0, ask_qty := 0 } }

/-- `OrderBook::updateBBOSide`. -/
def OrderBook.updateBBOSide (s : OrderBook) (update_bid update_ask : Bool) : OrderBook :=
  let s1 :=
    if update_bid then
      match s.bids_ with
      | some h =>
        let l := derefLevel s h
        { s with bbo_ := { s.bbo_ with bid_price := l.price, bid_qty := l.total_qty } }
      | none => { s with bbo_ := { s.bbo_ with bid_price := 0, bid_qty := 0 } }
    else s
  if update_ask then
    match s1.asks_ with
    | some h =>
      let l := derefLevel s1 h
      { s1 with bbo_ := { s1.bbo_ with ask_price := l.price, ask_qty := l.total_qty } }
    | none => { s1 with bbo_ := { s1.bbo_ with ask_price := 0, ask_qty := 0 } }
  else s1

/-- Do-while loop of `PriceLevel::updateQty`: accumulate `total_qty` (as
`uint32_t`) and `order_count` over the circular FIFO starting at `first`. -/
def updateQtyLoop (ost : Nat → Option Order) (first : Nat) :
    Nat → Nat → Nat → Nat → Nat × Nat
  | 0, _, tq, oc => (tq, oc)
  | fuel + 1, cur, tq, oc =>
    let o := (ost cur).getD defaultOrder
    let tq2 := u32add tq o.qty
    let oc2 := oc + 1
    if o.next = first then (tq2, oc2) else updateQtyLoop ost first fuel o.next tq2 oc2

/-- `OrderBook::addOrder(order_id, price, qty, side)`. -/
def OrderBook.addOrder (s : OrderBook) (order_id : Nat) (price : Int) (qty : Nat)
    (side : Side) : OrderBook :=
  let map_index := order_id % MAX_ORDERS
  if (s.order_map_ map_index).isSome then s  -- order ID already exists
  else
    match s.order_pool_.allocate (fun h => ⟨order_id, price, qty, side, h, h⟩) with
    | none => s  -- pool exhausted
    | some (oh, opool) =>
      let s1 := { s with order_pool_ := opool,
                         order_map_ := Function.update s.order_map_ map_index (some oh) }
      let update_bid : Bool :=
        match side, s1.bids_ with
        | Side.BUY, some bh => decide ((derefLevel s1 bh).price ≤ price)
        | Side.BUY, none => true
        | _, _ => false
      let update_ask : Bool :=
        match side, s1.asks_ with
        | Side.SELL, some ah => decide (price ≤ (derefLevel s1 ah).price)
        | Side.SELL, none => true
        | _, _ => false
      match s1.findPriceLevel price with
      | none =>
        match s1.level_pool_.allocate (fun h =>
            let r := updateQtyLoop s1.order_pool_.storage oh (MAX_ORDERS + 1) oh 0 0
            ⟨price, side, r.1, r.2, oh, h, h⟩) with
        | none =>
          -- rollback: deallocate the order and clear its map slot
          { s1 with order_pool_ := s1.order_pool_.deallocate oh,
                    order_map_ := Function.update s1.order_map_ map_index none }
        | some (lh, lpool) =>
          let s2 := { s1 with level_pool_ := lpool }
          let s3 := s2.addPriceLevel lh
          s3.updateBBOSide update_bid update_ask
      | some lh =>
        -- append to the existing level's FIFO, in front of first_order
        let l := derefLevel s1 lh
        let firstH := l.first_order
        let tailH := (derefOrder s1 firstH).prev
        let s2 := setOrder s1 oh (fun o => { o with prev := tailH, next := firstH })
        let s3 := setOrder s2 tailH (fun o => { o with next := oh })
        let s4 := setOrder s3 firstH (fun o => { o with prev := oh })
        let s5 := setLevel s4 lh (fun x =>
          { x with total_qty := u32add x.total_qty qty, order_count := x.order_count + 1 })
        s5.updateBBOSide update_bid update_ask

/-- `OrderBook::deleteOrder(order_id, side)`. -/
def OrderBook.deleteOrder (s : OrderBook) (order_id : Nat) (side : Side) : OrderBook :=
  let map_index := order_id % MAX_ORDERS
  match s.order_map_ map_index with
  | none => s
  | some oh =>
    let o := derefOrder s oh
    if o.order_id ≠ order_id then s  -- order not found
    else
      match s.findPriceLevel o.price with
      | none => s
      | some lh =>
        let update_bid : Bool :=
          match side, s.bids_ with
          | Side.BUY, some bh => decide ((derefLevel s bh).price = o.price)
          | _, _ => false
        let update_ask : Bool :=
          match side, s.asks_ with
          | Side.SELL, some ah => decide ((derefLevel s ah).price = o.price)
          | _, _ => false
        let s2 :=
          if o.next = oh then
            -- only order at this level
            s.removePriceLevel lh
          else
            let t1 := setOrder s o.prev (fun x => { x with next := o.next })
            let t2 := setOrder t1 o.next (fun x => { x with prev := o.prev })
            setLevel t2 lh (fun l =>
              { l with total_qty := u32sub l.total_qty o.qty,
                       order_count := l.order_count - 1,
                       first_order := if l.first_order = oh then o.next else l.first_order })
        let s3 := { s2 with
          order_map_ := Function.update s2.order_map_ map_index none,
          order_pool_ := s2.order_pool_.deallocate oh }
        s3.updateBBOSide update_bid update_ask

/-- `OrderBook::modifyOrder(order_id, price, qty, side)`. -/
def OrderBook.modifyOrder (s : OrderBook) (order_id : Nat) (price : Int) (qty : Nat)
    (side : Side) : OrderBook :=
  let map_index := order_id % MAX_ORDERS
  match s.order_map_ map_index with
  | none => s
  | some oh =>
    let o := derefOrder s oh
    if o.order_id ≠ order_id then s  -- order not found
    else
      if o.price ≠ price then
        let update_bid : Bool :=
          match side, s.bids_ with
          | Side.BUY, some bh =>
            decide (o.price = (derefLevel s bh).price ∨ (derefLevel s bh).price ≤ price)
          | _, _ => false
        let update_ask : Bool :=
          match side, s.asks_ with
          | Side.SELL, some ah =>
            decide (o.price = (derefLevel s ah).price ∨ price ≤ (derefLevel s ah).price)
          | _, _ => false
        let s2 := (s.deleteOrder order_id side).addOrder order_id price qty side
        s2.updateBBOSide update_bid update_ask
      else
        match s.findPriceLevel price with
        | some lh =>
          let qty_diff : Int := (qty : Int) - (o.qty : Int)
          let t1 := setOrder s oh (fun x => { x with qty := qty })
          let s2 := setLevel t1 lh (fun l =>
            { l with total_qty := u32addInt l.total_qty qty_diff })
          let update_bid : Bool :=
            match side, s.bids_ with
            | Side.BUY, some bh => decide ((derefLevel s bh).price = price)
            | _, _ => false
          let update_ask : Bool :=
            match side, s.asks_ with
            | Side.SELL, some ah => decide ((derefLevel s ah).price = price)
            | _, _ => false
          s2.updateBBOSide update_bid update_ask
        | none => s.updateBBOSide false false

/-- `OrderBook::processTrade(order_id, trade_id, price, qty, side, timestamp)`.
The trade id is unused, as in the source. -/
def OrderBook.processTrade (s : OrderBook) (order_id _trade_id : Nat) (price : Int)
    (qty : Nat) (side : Side) (timestamp : Nat) : OrderBook :=
  let map_index := order_id % MAX_ORDERS
  match s.order_map_ map_index with
  | none => s
  | some oh =>
    let o := derefOrder s oh
    if o.order_id ≠ order_id then s  -- order not found
    else
      -- record trade for time window statistics
      let s1 := { s with window_stats_ := s.window_stats_.recordTrade timestamp price qty }
      let update_bid : Bool :=
        match side, s1.bids_ with
        | Side.BUY, some bh => decide ((derefLevel s1 bh).price = price)
        | _, _ => false
      let update_ask : Bool :=
        match side, s1.asks_ with
        | Side.SELL, some ah => decide ((derefLevel s1 ah).price = price)
        | _, _ => false
      let s2 :=
        if o.qty ≤ qty then s1.deleteOrder order_id side
        else
          -- partial fill (exact subtraction: the branch guard gives qty < o.qty)
          let t1 := setOrder s1 oh (fun x => { x with qty := x.qty - qty })
          match t1.findPriceLevel price with
          | some lh => setLevel t1 lh (fun l => { l with total_qty := u32sub l.total_qty qty })
          | none => t1
      s2.updateBBOSide update_bid update_ask

/-- The predecessor walk of `OrderBook::getOrderRank`, counting FIFO members
until the walk returns to the starting order. -/
def rankWalk (s : OrderBook) (start : Nat) : Nat → Nat → Nat → Nat
  | 0, _, acc => acc
  | fuel + 1, cur, acc =>
    if cur = start then acc
    else rankWalk s start fuel (derefOrder s cur).prev (acc + 1)

/-- `OrderBook::getOrderRank(order_id)` (returns 0 when the id is not live). -/
def OrderBook.getOrderRank (s : OrderBook) (order_id : Nat) : Nat :=
  let map_index := order_id % MAX_ORDERS
  match s.order_map_ map_index with
  | none => 0
  | some oh =>
    let o := derefOrder s oh
    if o.order_id ≠ order_id then 0
    else rankWalk s oh MAX_ORDERS o.prev 1

/-- The predecessor walk of `OrderBook::getQtyAhead`, accumulating `qty` as
`uint32_t`. -/
def qtyAheadWalk (s : OrderBook) (start : Nat) : Nat → Nat → Nat → Nat
  | 0, _, acc => acc
  | fuel + 1, cur, acc =>
    if cur = start then acc
    else qtyAheadWalk s start fuel (derefOrder s cur).prev (u32add acc (derefOrder s cur).qty)

/-- `OrderBook::getQtyAhead(order_id)`. -/
def OrderBook.getQtyAhead (s : OrderBook) (order_id : Nat) : Nat :=
  let map_index := order_id % MAX_ORDERS
  match s.order_map_ map_index with
  | none => 0
  | some oh =>
    let o := derefOrder s oh
    if o.order_id ≠ order_id then 0
    else qtyAheadWalk s oh MAX_ORDERS o.prev 0

/-- The `while (bids_)` deallocation loop of `OrderBook::clear`. -/
def clearBidsLoop : Nat → OrderBook → OrderBook
  | 0, s => s
  | fuel + 1, s =>
    match s.bids_ with
    | none => s
    | some b =>
      let bl := derefLevel s b
      let nxt := bl.next
      if nxt = b then
        clearBidsLoop fuel { s with level_pool_ := s.level_pool_.deallocate b, bids_ := none }
      else
        let t1 := setLevel s bl.prev (fun x => { x with next := bl.next })
        let t2 := setLevel t1 bl.next (fun x => { x with prev := bl.prev })
        clearBidsLoop fuel
          { t2 with bids_ := some nxt, level_pool_ := t2.level_pool_.deallocate b }

/-- The `while (asks_)` deallocation loop of `OrderBook::clear`. -/
def clearAsksLoop : Nat → OrderBook → OrderBook
  | 0, s => s
  | fuel + 1, s =>
    match s.asks_ with
    | none => s
    | some b =>
      let bl := derefLevel s b
      let nxt := bl.next
      if nxt = b then
        clearAsksLoop fuel { s with level_pool_ := s.level_pool_.deallocate b, asks_ := none }
      else
        let t1 := setLevel s bl.prev (fun x => { x with next := bl.next })
        let t2 := setLevel t1 bl.next (fun x => { x with prev := bl.prev })
        clearAsksLoop fuel
          { t2 with asks_ := some nxt, level_pool_ := t2.level_pool_.deallocate b }

/-- `OrderBook::clear`: deallocate every order reachable from the order map,
null both maps, free all price levels, reset the window statistics, and do a
full BBO update. -/
def OrderBook.clear (s : OrderBook) : OrderBook :=
  let opool := (List.range MAX_ORDERS).foldl
    (fun p i => match s.order_map_ i with
      | some h => p.deallocate h
      | none => p) s.order_pool_
  let s1 := { s with order_pool_ := opool,
                     order_map_ := fun _ => none,
                     price_level_map_ := fun _ => none }
  let s2 := clearBidsLoop (MAX_PRICE_LEVELS + 1) s1
  let s3 := clearAsksLoop (MAX_PRICE_LEVELS + 1) s2
  let s4 := { s3 with window_stats_ := SlidingWindowStats.init }
  s4.updateBBO

/-! ## Frame lemmas for the sliding-window heap maintenance

The four heap operations only touch the heap arrays, their position maps and
their sizes; every other field of `SlidingWindowStats` passes through
unchanged. -/

/-- Fields of the window state other than the two heaps. -/
structure NonHeapView where
  timestamps_ : Nat → Nat
  prices_ : Nat → Int
  quantities_ : Nat → Nat
  amounts_ : Nat → Nat
  head_ : Nat
  count_ : Nat
  sum_qty_ : Nat
  sum_amount_ : Nat
  sec_index_ : Nat → Option Nat
  sec_count_ : Nat → Nat
  base_timestamp_ : Nat
  valid_ : Nat → Bool

/-- Projection of a window state to its non-heap fields. -/
def nonHeap (s : SlidingWindowStats) : NonHeapView :=
  ⟨s.timestamps_, s.prices_, s.quantities_, s.amounts_, s.head_, s.count_,
   s.sum_qty_, s.sum_amount_, s.sec_index_, s.sec_count_, s.base_timestamp_, s.valid_⟩

theorem nonHeap_removeFromMaxHeap (s : SlidingWindowStats) (i : Nat) :
    nonHeap (s.removeFromMaxHeap i) = nonHeap s := by
  unfold SlidingWindowStats.removeFromMaxHeap
  cases h : s.max_heap_pos_ i
  · rfl
  · dsimp only
    split
    · rfl
    · split <;> rfl

theorem nonHeap_removeFromMinHeap (s : SlidingWindowStats) (i : Nat) :
    nonHeap (s.removeFromMinHeap i) = nonHeap s := by
  unfold SlidingWindowStats.removeFromMinHeap
  cases h : s.min_heap_pos_ i
  · rfl
  · dsimp only
    split
    · rfl
    · split <;> rfl

theorem nonHeap_pushToMaxHeap (s : SlidingWindowStats) (i : Nat) :
    nonHeap (s.pushToMaxHeap i) = nonHeap s := rfl

theorem nonHeap_pushToMinHeap (s : SlidingWindowStats) (i : Nat) :
    nonHeap (s.pushToMinHeap i) = nonHeap s := rfl

theorem removeFromMaxHeap_sum_qty (s : SlidingWindowStats) (i : Nat) :
    (s.removeFromMaxHeap i).sum_qty_ = s.sum_qty_ :=
  congrArg NonHeapView.sum_qty_ (nonHeap_removeFromMaxHeap s i)

theorem removeFromMinHeap_sum_qty (s : SlidingWindowStats) (i : Nat) :
    (s.removeFromMinHeap i).sum_qty_ = s.sum_qty_ :=
  congrArg NonHeapView.sum_qty_ (nonHeap_removeFromMinHeap s i)

theorem removeFromMaxHeap_sum_amount (s : SlidingWindowStats) (i : Nat) :
    (s.removeFromMaxHeap i).sum_amount_ = s.sum_amount_ :=
  congrArg NonHeapView.sum_amount_ (nonHeap_removeFromMaxHeap s i)

theorem removeFromMinHeap_sum_amount (s : SlidingWindowStats) (i : Nat) :
    (s.removeFromMinHeap i).sum_amount_ = s.sum_amount_ :=
  congrArg NonHeapView.sum_amount_ (nonHeap_removeFromMinHeap s i)

/-- `recordTrade` adds the trade quantity to `sum_qty_` and never subtracts
anything, whether or not the overwritten ring slot held a valid trade. -/
theorem recordTrade_sum_qty (s : SlidingWindowStats) (ts : Nat) (p : Int) (q : Nat) :
    (s.recordTrade ts p q).sum_qty_ = u64add s.sum_qty_ q := by
  unfold SlidingWindowStats.recordTrade
  dsimp only
  split <;>
  · dsimp only
    by_cases hv : s.valid_ s.head_ <;>
      simp [hv, SlidingWindowStats.pushToMaxHeap, SlidingWindowStats.pushToMinHeap,
        removeFromMaxHeap_sum_qty, removeFromMinHeap_sum_qty]

/-- `recordTrade` adds the trade amount to `sum_amount_` and never subtracts
anything. -/
theorem recordTrade_sum_amount (s : SlidingWindowStats) (ts : Nat) (p : Int) (q : Nat) :
    (s.recordTrade ts p q).sum_amount_ =
      u64add s.sum_amount_ (u64mul (u64ofInt p) q) := by
  unfold SlidingWindowStats.recordTrade
  dsimp only
  split <;>
  · dsimp only
    by_cases hv : s.valid_ s.head_ <;>
      simp [hv, SlidingWindowStats.pushToMaxHeap, SlidingWindowStats.pushToMinHeap,
        removeFromMaxHeap_sum_amount, removeFromMinHeap_sum_amount]

/-! ## Frame lemmas for the book operations and the window -/

theorem window_setOrder (s : OrderBook) (h : Nat) (f : Order → Order) :
    (setOrder s h f).window_stats_ = s.window_stats_ := rfl

theorem window_setLevel (s : OrderBook) (h : Nat) (f : PriceLevel → PriceLevel) :
    (setLevel s h f).window_stats_ = s.window_stats_ := rfl

theorem window_updateBBOSide (s : OrderBook) (ub ua : Bool) :
    (s.updateBBOSide ub ua).window_stats_ = s.window_stats_ := by
  unfold OrderBook.updateBBOSide
  dsimp only
  repeat' split
  all_goals rfl

theorem window_removePriceLevel (s : OrderBook) (lh : Nat) :
    (s.removePriceLevel lh).window_stats_ = s.window_stats_ := by
  unfold OrderBook.removePriceLevel
  dsimp only
  repeat' split
  all_goals rfl

theorem window_deleteOrder (s : OrderBook) (id : Nat) (sd : Side) :
    (s.deleteOrder id sd).window_stats_ = s.window_stats_ := by
  unfold OrderBook.deleteOrder
  dsimp only
  repeat' split
  all_goals
    simp [window_updateBBOSide, window_removePriceLevel, setOrder, setLevel]

/-- C1 counterexample: on the empty book (no live order with id 5),
`process_trade(5, 1, price 100, qty 7, BUY, t)` leaves the window sums
unchanged (still 0) instead of increasing `sum_qty` by 7 — the code looks
the order up first and returns before recording when it is absent. -/
theorem processTrade_no_order_no_window_update :
    OrderBook.init.order_map_ (5 % MAX_ORDERS) = none ∧
    (OrderBook.init.processTrade 5 1 100 7 Side.BUY
        1672574400000000000).window_stats_.sum_qty_ = 0 ∧
    (OrderBook.init.processTrade 5 1 100 7 Side.BUY
        1672574400000000000).window_stats_.sum_qty_ ≠
      u64add OrderBook.init.window_stats_.sum_qty_ 7 :=
  ⟨rfl, rfl, by decide⟩

/-- C1 (amended): `process_trade` looks up the resting order first; when no
live order matches the id the call is a complete no-op (the window is *not*
updated), and when a live order matches, the trade is recorded into the
window (`sum_qty += qty`, `sum_amount += price·qty` in `uint64` arithmetic)
before the book is touched. -/
theorem processTrade_window_recording (s : OrderBook) (id tid : Nat) (p : Int)
    (q : Nat) (sd : Side) (ts : Nat) :
    (s.order_map_ (id % MAX_ORDERS) = none → s.processTrade id tid p q sd ts = s) ∧
    (∀ oh, s.order_map_ (id % MAX_ORDERS) = some oh → (derefOrder s oh).order_id ≠ id →
      s.processTrade id tid p q sd ts = s) ∧
    (∀ oh, s.order_map_ (id % MAX_ORDERS) = some oh → (derefOrder s oh).order_id = id →
      (s.processTrade id tid p q sd ts).window_stats_.sum_qty_ =
        u64add s.window_stats_.sum_qty_ q ∧
      (s.processTrade id tid p q sd ts).window_stats_.sum_amount_ =
        u64add s.window_stats_.sum_amount_ (u64mul (u64ofInt p) q)) := by
  refine ⟨?_, ?_, ?_⟩
  · intro h
    simp only [OrderBook.processTrade, h]
  · intro oh h hne
    simp only [OrderBook.processTrade, h, hne, ne_eq, not_false_eq_true, if_true]
  · intro oh h hid
    have hw : (s.processTrade id tid p q sd ts).window_stats_ =
        s.window_stats_.recordTrade ts p q := by
      simp only [OrderBook.processTrade, h, hid, ne_eq, not_true_eq_false, if_false,
        ite_false]
      split
      · simp [window_updateBBOSide, window_deleteOrder]
      · split <;>
          simp [window_updateBBOSide, window_setOrder, window_setLevel, setOrder, setLevel]
    rw [hw, recordTrade_sum_qty, recordTrade_sum_amount]
    exact ⟨rfl, rfl⟩

/-- Witness for the amended C1 theorem: a book with a live order with id 1;
`process_trade` on id 1 records the trade, while `process_trade` on the
absent id 5 leaves the state untouched. -/
theorem processTrade_window_recording_witness :
    (OrderBook.init.processTrade 5 1 100 7 Side.BUY 1000000000 = OrderBook.init) ∧
    ((OrderBook.init.addOrder 1 100 50 Side.BUY).processTrade 1 9 100 7 Side.BUY
        1000000000).window_stats_.sum_qty_ =
      u64add (OrderBook.init.addOrder 1 100 50 Side.BUY).window_stats_.sum_qty_ 7 :=
  ⟨(processTrade_window_recording OrderBook.init 5 1 100 7 Side.BUY 1000000000).1 rfl,
   ((processTrade_window_recording (OrderBook.init.addOrder 1 100 50 Side.BUY)
      1 9 100 7 Side.BUY 1000000000).2.2 65535 rfl rfl).1⟩

/-- C2: `recordTrade` updates the running sums by *adding* the new trade
only; in particular when the ring buffer is full (`valid_[head_]` holds) the
overwritten oldest trade's `qty`/`amount` are **not** subtracted (only its
heap entries are removed), so after an overwrite `sum_qty_`/`sum_amount_` no
longer equal the sums over the retained ring entries.  This proves the
divergence from the documented behaviour for every state, full or not. -/
theorem recordTrade_overwrite_never_subtracts (s : SlidingWindowStats) (ts : Nat)
    (p : Int) (q : Nat) :
    (s.recordTrade ts p q).sum_qty_ = u64add s.sum_qty_ q ∧
    (s.recordTrade ts p q).sum_amount_ = u64add s.sum_amount_ (u64mul (u64ofInt p) q) :=
  ⟨recordTrade_sum_qty s ts p q, recordTrade_sum_amount s ts p q⟩

/-- C9: the order index is a direct-mapped array indexed by
`order_id % MAX_ORDERS` with no collision resolution: when the slot of `b`
holds a live order with a different id `a ≡ b (mod 65536)`, `add_order(b,…)`
is silently ignored, and `modify_order`/`delete_order`/`process_trade`/
`order_rank`/`qty_ahead` on `b` treat it as absent. -/
theorem orderMap_direct_mapped_collision (s : OrderBook) (a b oh tid : Nat) (p : Int)
    (q ts : Nat) (sd : Side)
    (hmod : b % MAX_ORDERS = a % MAX_ORDERS)
    (hslot : s.order_map_ (a % MAX_ORDERS) = some oh)
    (hid : (derefOrder s oh).order_id = a)
    (hne : a ≠ b) :
    s.addOrder b p q sd = s ∧
    s.modifyOrder b p q sd = s ∧
    s.deleteOrder b sd = s ∧
    s.processTrade b tid p q sd ts = s ∧
    s.getOrderRank b = 0 ∧
    s.getQtyAhead b = 0 := by
  have hb : s.order_map_ (b % MAX_ORDERS) = some oh := by rw [hmod]; exact hslot
  have hter : (derefOrder s oh).order_id ≠ b := by rw [hid]; exact hne
  refine ⟨?_, ?_, ?_, ?_, ?_, ?_⟩
  · simp only [OrderBook.addOrder, hb, Option.isSome_some, if_true]
  · simp only [OrderBook.modifyOrder, hb, hter, ne_eq, not_false_eq_true, if_true]
  · simp only [OrderBook.deleteOrder, hb, hter, ne_eq, not_false_eq_true, if_true]
  · simp only [OrderBook.processTrade, hb, hter, ne_eq, not_false_eq_true, if_true]
  · simp only [OrderBook.getOrderRank, hb, hter, ne_eq, not_false_eq_true, if_true]
  · simp only [OrderBook.getQtyAhead, hb, hter, ne_eq, not_false_eq_true, if_true]

/-- Witness for the order-index collision theorem: order id 1 is live, and
id 65537 (= 1 + 65536) collides with it and is treated as absent
everywhere. -/
theorem orderMap_direct_mapped_collision_witness :
    (OrderBook.init.addOrder 1 100 10 Side.BUY).addOrder 65537 99 5 Side.BUY =
      OrderBook.init.addOrder 1 100 10 Side.BUY ∧
    (OrderBook.init.addOrder 1 100 10 Side.BUY).getOrderRank 65537 = 0 := by
  have h := orderMap_direct_mapped_collision (OrderBook.init.addOrder 1 100 10 Side.BUY)
    1 65537 65535 7 99 5 1000 Side.BUY (by decide) rfl rfl (by decide)
  exact ⟨h.1, h.2.2.2.2.1⟩

theorem findPriceLevel_congr (s t : OrderBook)
    (hm : t.price_level_map_ = s.price_level_map_)
    (hs : t.level_pool_ = s.level_pool_) (p : Int) :
    t.findPriceLevel p = s.findPriceLevel p := by
  simp [OrderBook.findPriceLevel, derefLevel, hm, hs]

/-- C7: `add_order` with an already-occupied index slot (in particular a
duplicate live id) is a silent no-op, and when the level pool is exhausted
while adding at a fresh price, the partially allocated order is rolled back
and the state is exactly unchanged. -/
theorem addOrder_duplicate_and_rollback (s : OrderBook) (id : Nat) (p : Int) (q : Nat)
    (sd : Side) :
    ((s.order_map_ (id % MAX_ORDERS)).isSome → s.addOrder id p q sd = s) ∧
    (s.order_map_ (id % MAX_ORDERS) = none →
      s.order_pool_.freeCount ≠ 0 →
      s.order_pool_.storage (s.order_pool_.freeArr (s.order_pool_.freeCount - 1)) = none →
      s.findPriceLevel p = none →
      s.level_pool_.freeCount = 0 →
      s.addOrder id p q sd = s) := by
  constructor
  · intro h
    simp only [OrderBook.addOrder, h, if_true]
  · intro hslot hfc hfree hlvl hpool
    simp only [OrderBook.addOrder, hslot, Option.isSome_none, Bool.false_eq_true, if_false,
      Pool.allocate, hfc, if_false, ite_false]
    split
    case h_2 lh ha =>
      have h2 : s.findPriceLevel p = some lh := ha
      rw [hlvl] at h2
      exact Option.noConfusion h2
    simp only [hpool, if_true, ite_true]
    show OrderBook.mk _ _ _ _ _ _ _ _ = s
    rw [show s = OrderBook.mk s.order_pool_ s.level_pool_ s.order_map_ s.price_level_map_
      s.bids_ s.asks_ s.bbo_ s.window_stats_ from rfl]
    congr 1
    · show Pool.mk _ _ _ = _
      rw [show s.order_pool_ = Pool.mk s.order_pool_.storage s.order_pool_.freeArr
        s.order_pool_.freeCount from rfl]
      congr 1
      · show Function.update (Function.update s.order_pool_.storage _ _) _ none = _
        rw [Function.update_idem, ← hfree, Function.update_eq_self]
      · show Function.update s.order_pool_.freeArr (s.order_pool_.freeCount - 1)
          (s.order_pool_.freeArr (s.order_pool_.freeCount - 1)) = _
        exact Function.update_eq_self _ _
      · show s.order_pool_.freeCount - 1 + 1 = s.order_pool_.freeCount
        omega
    · rw [Function.update_idem, ← hslot, Function.update_eq_self]

/-- A book whose level pool is exhausted (`free_count_ == 0`), used to
witness the rollback branch of `add_order`. -/
def exhaustedLevelPoolBook : OrderBook :=
  { OrderBook.init with level_pool_ := { OrderBook.init.level_pool_ with freeCount := 0 } }

/-- Witness for the `add_order` duplicate/rollback theorem: a duplicate add
of live id 1 is a no-op, and an add into a book with an exhausted level pool
is rolled back to the exact pre-state. -/
theorem addOrder_duplicate_and_rollback_witness :
    ((OrderBook.init.addOrder 1 100 10 Side.BUY).addOrder 1 101 5 Side.BUY =
      OrderBook.init.addOrder 1 100 10 Side.BUY) ∧
    exhaustedLevelPoolBook.addOrder 2 100 5 Side.BUY = exhaustedLevelPoolBook :=
  ⟨(addOrder_duplicate_and_rollback (OrderBook.init.addOrder 1 100 10 Side.BUY)
      1 101 5 Side.BUY).1 (by decide),
   (addOrder_duplicate_and_rollback exhaustedLevelPoolBook 2 100 5 Side.BUY).2
      rfl (by decide) rfl rfl rfl⟩

theorem updateBBOSide_order_pool (s : OrderBook) (ub ua : Bool) :
    (s.updateBBOSide ub ua).order_pool_ = s.order_pool_ := by
  simp only [OrderBook.updateBBOSide]
  repeat' split
  all_goals rfl

theorem updateBBOSide_level_pool (s : OrderBook) (ub ua : Bool) :
    (s.updateBBOSide ub ua).level_pool_ = s.level_pool_ := by
  simp only [OrderBook.updateBBOSide]
  repeat' split
  all_goals rfl

theorem updateBBOSide_order_map (s : OrderBook) (ub ua : Bool) :
    (s.updateBBOSide ub ua).order_map_ = s.order_map_ := by
  simp only [OrderBook.updateBBOSide]
  repeat' split
  all_goals rfl

theorem updateBBOSide_price_level_map (s : OrderBook) (ub ua : Bool) :
    (s.updateBBOSide ub ua).price_level_map_ = s.price_level_map_ := by
  simp only [OrderBook.updateBBOSide]
  repeat' split
  all_goals rfl

theorem updateBBOSide_bids (s : OrderBook) (ub ua : Bool) :
    (s.updateBBOSide ub ua).bids_ = s.bids_ := by
  simp only [OrderBook.updateBBOSide]
  repeat' split
  all_goals rfl

theorem updateBBOSide_asks (s : OrderBook) (ub ua : Bool) :
    (s.updateBBOSide ub ua).asks_ = s.asks_ := by
  simp only [OrderBook.updateBBOSide]
  repeat' split
  all_goals rfl

theorem updateBBOSide_bid_fields_false (s : OrderBook) (ua : Bool) :
    (s.updateBBOSide false ua).bbo_.bid_price = s.bbo_.bid_price ∧
    (s.updateBBOSide false ua).bbo_.bid_qty = s.bbo_.bid_qty := by
  simp only [OrderBook.updateBBOSide]
  repeat' split
  all_goals simp_all

theorem updateBBOSide_ask_fields_false (s : OrderBook) (ub : Bool) :
    (s.updateBBOSide ub false).bbo_.ask_price = s.bbo_.ask_price ∧
    (s.updateBBOSide ub false).bbo_.ask_qty = s.bbo_.ask_qty := by
  simp only [OrderBook.updateBBOSide]
  repeat' split
  all_goals simp_all

/-- The BBO cache agrees with the two list heads (the state every book
operation re-establishes through its dirty-flag discipline). -/
def bboConsistent (s : OrderBook) : Prop :=
  (match s.bids_ with
   | none => s.bbo_.bid_price = 0 ∧ s.bbo_.bid_qty = 0
   | some h => s.bbo_.bid_price = (derefLevel s h).price ∧
       s.bbo_.bid_qty = (derefLevel s h).total_qty) ∧
  (match s.asks_ with
   | none => s.bbo_.ask_price = 0 ∧ s.bbo_.ask_qty = 0
   | some h => s.bbo_.ask_price = (derefLevel s h).price ∧
       s.bbo_.ask_qty = (derefLevel s h).total_qty)

theorem OrderBook_ext (a b : OrderBook)
    (h1 : a.order_pool_ = b.order_pool_) (h2 : a.level_pool_ = b.level_pool_)
    (h3 : a.order_map_ = b.order_map_) (h4 : a.price_level_map_ = b.price_level_map_)
    (h5 : a.bids_ = b.bids_) (h6 : a.asks_ = b.asks_)
    (h7 : a.bbo_ = b.bbo_) (h8 : a.window_stats_ = b.window_stats_) : a = b := by
  cases a
  cases b
  simp_all

theorem BBO_ext (a b : BBO)
    (h1 : a.bid_price = b.bid_price) (h2 : a.bid_qty = b.bid_qty)
    (h3 : a.ask_price = b.ask_price) (h4 : a.ask_qty = b.ask_qty) : a = b := by
  cases a
  cases b
  simp_all

theorem updateBBOSide_bid_some (s : OrderBook) (ua : Bool) (bh : Nat)
    (h : s.bids_ = some bh) :
    (s.updateBBOSide true ua).bbo_.bid_price = (derefLevel s bh).price ∧
    (s.updateBBOSide true ua).bbo_.bid_qty = (derefLevel s bh).total_qty := by
  simp only [OrderBook.updateBBOSide, h]
  repeat' split
  all_goals simp_all

theorem updateBBOSide_bid_none (s : OrderBook) (ua : Bool) (h : s.bids_ = none) :
    (s.updateBBOSide true ua).bbo_.bid_price = 0 ∧
    (s.updateBBOSide true ua).bbo_.bid_qty = 0 := by
  simp only [OrderBook.updateBBOSide, h]
  repeat' split
  all_goals simp_all

theorem updateBBOSide_ask_some (s : OrderBook) (ub : Bool) (ah : Nat)
    (h : s.asks_ = some ah) :
    (s.updateBBOSide ub true).bbo_.ask_price = (derefLevel s ah).price ∧
    (s.updateBBOSide ub true).bbo_.ask_qty = (derefLevel s ah).total_qty := by
  simp only [OrderBook.updateBBOSide, h]
  repeat' split
  all_goals simp_all [derefLevel]

theorem updateBBOSide_ask_none (s : OrderBook) (ub : Bool) (h : s.asks_ = none) :
    (s.updateBBOSide ub true).bbo_.ask_price = 0 ∧
    (s.updateBBOSide ub true).bbo_.ask_qty = 0 := by
  simp only [OrderBook.updateBBOSide, h]
  repeat' split
  all_goals simp_all

/-- Recomputing with `updateBBOSide` on a state that differs from a
BBO-consistent `s` only in the cached BBO returns exactly `s`, provided the
non-recomputed sides already carry `s`'s cached values. -/
theorem updateBBOSide_restore (s : OrderBook) (B : BBO) (ub ua : Bool)
    (hcons : bboConsistent s)
    (hbid : ub = false → B.bid_price = s.bbo_.bid_price ∧ B.bid_qty = s.bbo_.bid_qty)
    (hask : ua = false → B.ask_price = s.bbo_.ask_price ∧ B.ask_qty = s.bbo_.ask_qty) :
    OrderBook.updateBBOSide { s with bbo_ := B } ub ua = s := by
  obtain ⟨hcb, hca⟩ := hcons
  apply OrderBook_ext
  · rw [updateBBOSide_order_pool]
  · rw [updateBBOSide_level_pool]
  · rw [updateBBOSide_order_map]
  · rw [updateBBOSide_price_level_map]
  · rw [updateBBOSide_bids]
  · rw [updateBBOSide_asks]
  · apply BBO_ext
    · cases ub
      · exact (updateBBOSide_bid_fields_false _ ua).1.trans (hbid rfl).1
      · rcases Option.eq_none_or_eq_some s.bids_ with hB | ⟨bh, hB⟩
        · rw [(updateBBOSide_bid_none { s with bbo_ := B } ua hB).1]
          rw [hB] at hcb
          exact hcb.1.symm
        · rw [(updateBBOSide_bid_some { s with bbo_ := B } ua bh hB).1]
          rw [hB] at hcb
          exact hcb.1.symm
    · cases ub
      · exact (updateBBOSide_bid_fields_false _ ua).2.trans (hbid rfl).2
      · rcases Option.eq_none_or_eq_some s.bids_ with hB | ⟨bh, hB⟩
        · rw [(updateBBOSide_bid_none { s with bbo_ := B } ua hB).2]
          rw [hB] at hcb
          exact hcb.2.symm
        · rw [(updateBBOSide_bid_some { s with bbo_ := B } ua bh hB).2]
          rw [hB] at hcb
          exact hcb.2.symm
    · cases ua
      · exact (updateBBOSide_ask_fields_false _ ub).1.trans (hask rfl).1
      · rcases Option.eq_none_or_eq_some s.asks_ with hA | ⟨ah, hA⟩
        · rw [(updateBBOSide_ask_none { s with bbo_ := B } ub hA).1]
          rw [hA] at hca
          exact hca.1.symm
        · rw [(updateBBOSide_ask_some { s with bbo_ := B } ub ah hA).1]
          rw [hA] at hca
          exact hca.1.symm
    · cases ua
      · exact (updateBBOSide_ask_fields_false _ ub).2.trans (hask rfl).2
      · rcases Option.eq_none_or_eq_some s.asks_ with hA | ⟨ah, hA⟩
        · rw [(updateBBOSide_ask_none { s with bbo_ := B } ub hA).2]
          rw [hA] at hca
          exact hca.2.symm
        · rw [(updateBBOSide_ask_some { s with bbo_ := B } ub ah hA).2]
          rw [hA] at hca
          exact hca.2.symm
  · rw [window_updateBBOSide]

theorem findPriceLevel_inv (s : OrderBook) (p : Int) (lh : Nat)
    (h : s.findPriceLevel p = some lh) :
    s.price_level_map_ (priceToIndex p) = some lh ∧ (derefLevel s lh).price = p := by
  unfold OrderBook.findPriceLevel at h
  rcases hm : s.price_level_map_ (priceToIndex p) with _ | lh0
  · rw [hm] at h
    exact Option.noConfusion h
  · rw [hm] at h
    by_cases hp : (derefLevel s lh0).price = p
    · simp only [hp, ite_true] at h
      injection h with h2
      subst h2
      exact ⟨rfl, hp⟩
    · simp only [hp, ite_false] at h
      exact Option.noConfusion h

theorem u32addInt_add_cancel (t : Nat) (a b : Int) (ht : t < U32MOD) (hab : a + b = 0) :
    u32addInt (u32addInt t a) b = t := by
  unfold u32addInt U32MOD at *
  omega

/-- Computation of `modifyOrder` in the qty-only branch (price unchanged):
the order's qty is overwritten, the level found at that price gets the signed
difference, and the BBO is recomputed for the side iff its head sits at that
price. -/
theorem modifyOrder_same_price_eq (s : OrderBook) (id oh lh : Nat) (o : Order)
    (p : Int) (q : Nat) (sd : Side)
    (hslot : s.order_map_ (id % MAX_ORDERS) = some oh)
    (hos : s.order_pool_.storage oh = some o)
    (hid : o.order_id = id)
    (hp : o.price = p)
    (hfind : s.findPriceLevel p = some lh) :
    s.modifyOrder id p q sd =
      OrderBook.updateBBOSide
        (setLevel (setOrder s oh (fun x => { x with qty := q })) lh
          (fun l => { l with total_qty := u32addInt l.total_qty ((q : Int) - (o.qty : Int)) }))
        (match sd, s.bids_ with
         | Side.BUY, some bh => decide ((derefLevel s bh).price = p)
         | _, _ => false)
        (match sd, s.asks_ with
         | Side.SELL, some ah => decide ((derefLevel s ah).price = p)
         | _, _ => false) := by
  have hdo : derefOrder s oh = o := by simp [derefOrder, hos]
  simp only [OrderBook.modifyOrder, hslot, hdo, hid, hp, ne_eq, not_true_eq_false, if_false,
    ite_false, not_false_eq_true, if_true, ite_true, hfind]

theorem Pool_ext {α : Type} (a b : Pool α)
    (h1 : a.storage = b.storage) (h2 : a.freeArr = b.freeArr)
    (h3 : a.freeCount = b.freeCount) : a = b := by
  cases a
  cases b
  simp_all

theorem Order_requt (o : Order) (q : Nat) :
    ({ ({ o with qty := q } : Order) with qty := o.qty } : Order) = o := by
  cases o
  rfl

theorem PriceLevel_eta (L : PriceLevel) :
    ({ L with total_qty := L.total_qty } : PriceLevel) = L := by
  cases L
  rfl

theorem PriceLevel_ext (a b : PriceLevel)
    (h1 : a.price = b.price) (h2 : a.side = b.side) (h3 : a.total_qty = b.total_qty)
    (h4 : a.order_count = b.order_count) (h5 : a.first_order = b.first_order)
    (h6 : a.prev = b.prev) (h7 : a.next = b.next) : a = b := by
  cases a
  cases b
  simp_all

/-- C8: for a live order (id, price `o.price`, qty `o.qty`, side `sd`),
`modify_order(id, o.price, q, sd)` only overwrites the order's qty and moves
its level's `total_qty` by the signed difference `q − o.qty` (all other pool
slots and the order index unchanged), and a second
`modify_order(id, o.price, o.qty, sd)` restores the book state exactly. -/
theorem modifyOrder_qty_roundtrip (s : OrderBook) (id oh lh : Nat) (o : Order)
    (L : PriceLevel) (q : Nat) (sd : Side)
    (hslot : s.order_map_ (id % MAX_ORDERS) = some oh)
    (hos : s.order_pool_.storage oh = some o)
    (hid : o.order_id = id)
    (hside : o.side = sd)
    (hfind : s.findPriceLevel o.price = some lh)
    (hls : s.level_pool_.storage lh = some L)
    (hLq : L.total_qty < U32MOD)
    (hcons : bboConsistent s) :
    (derefOrder (s.modifyOrder id o.price q sd) oh).qty = q ∧
    (derefLevel (s.modifyOrder id o.price q sd) lh).total_qty
        = u32addInt L.total_qty ((q : Int) - (o.qty : Int)) ∧
    (∀ h2, h2 ≠ oh →
      (s.modifyOrder id o.price q sd).order_pool_.storage h2 = s.order_pool_.storage h2) ∧
    (∀ h2, h2 ≠ lh →
      (s.modifyOrder id o.price q sd).level_pool_.storage h2 = s.level_pool_.storage h2) ∧
    (s.modifyOrder id o.price q sd).order_map_ = s.order_map_ ∧
    (s.modifyOrder id o.price q sd).modifyOrder id o.price o.qty sd = s := by
  have h1 := modifyOrder_same_price_eq s id oh lh o o.price q sd hslot hos hid rfl hfind
  have hdl : derefLevel s lh = L := by simp [derefLevel, hls]
  obtain ⟨hm, hpr⟩ := findPriceLevel_inv s o.price lh hfind
  -- the modified pools
  have hop : (s.modifyOrder id o.price q sd).order_pool_ =
      { s.order_pool_ with
        storage := Function.update s.order_pool_.storage oh (some { o with qty := q }) } := by
    rw [h1, updateBBOSide_order_pool]
    show (setOrder s oh fun x => { x with qty := q }).order_pool_ = _
    unfold setOrder
    simp [derefOrder, hos]
  have hlp : (s.modifyOrder id o.price q sd).level_pool_ =
      { s.level_pool_ with
        storage := Function.update s.level_pool_.storage lh
          (some { L with total_qty := u32addInt L.total_qty ((q : Int) - (o.qty : Int)) }) } := by
    rw [h1, updateBBOSide_level_pool]
    unfold setLevel
    apply Pool_ext
    · have hdX : derefLevel (setOrder s oh fun x => { x with qty := q }) lh = L := hdl
      show Function.update (setOrder s oh fun x => { x with qty := q }).level_pool_.storage
        lh _ = _
      rw [hdX]
      rfl
    · rfl
    · rfl
  have hmap : (s.modifyOrder id o.price q sd).order_map_ = s.order_map_ := by
    rw [h1, updateBBOSide_order_map]
    rfl
  have hpmap : (s.modifyOrder id o.price q sd).price_level_map_ = s.price_level_map_ := by
    rw [h1, updateBBOSide_price_level_map]
    rfl
  have hbids : (s.modifyOrder id o.price q sd).bids_ = s.bids_ := by
    rw [h1, updateBBOSide_bids]
    rfl
  have hasks : (s.modifyOrder id o.price q sd).asks_ = s.asks_ := by
    rw [h1, updateBBOSide_asks]
    rfl
  have hwin : (s.modifyOrder id o.price q sd).window_stats_ = s.window_stats_ := by
    rw [h1, window_updateBBOSide]
    rfl
  have hos2 : (s.modifyOrder id o.price q sd).order_pool_.storage oh =
      some { o with qty := q } := by
    rw [hop]
    simp
  have hls2 : (s.modifyOrder id o.price q sd).level_pool_.storage lh =
      some { L with total_qty := u32addInt L.total_qty ((q : Int) - (o.qty : Int)) } := by
    rw [hlp]
    simp
  refine ⟨by simp [derefOrder, hos2], by simp [derefLevel, hls2], ?_, ?_, hmap, ?_⟩
  · intro h2 hne
    rw [hop]
    simp [Function.update_noteq hne]
  · intro h2 hne
    rw [hlp]
    simp [Function.update_noteq hne]
  -- the round trip
  have hslot2 : (s.modifyOrder id o.price q sd).order_map_ (id % MAX_ORDERS) = some oh := by
    rw [hmap]
    exact hslot
  have hfind2 : (s.modifyOrder id o.price q sd).findPriceLevel o.price = some lh := by
    unfold OrderBook.findPriceLevel
    rw [hpmap, hm]
    have hp2 : (derefLevel (s.modifyOrder id o.price q sd) lh).price = o.price := by
      simp only [derefLevel, hls2]
      rw [hdl] at hpr
      simpa using hpr
    simp only [hp2, ite_true]
  have h2 := modifyOrder_same_price_eq (s.modifyOrder id o.price q sd) id oh lh
    ({ o with qty := q }) o.price o.qty sd hslot2 hos2 hid rfl hfind2
  rw [h2]
  -- the second modify computes the same dirty flags as the first
  have hprall : ∀ bh, (derefLevel (s.modifyOrder id o.price q sd) bh).price =
      (derefLevel s bh).price := by
    intro bh
    by_cases hb : bh = lh
    · subst hb
      simp only [derefLevel, hls2, hls]
      rfl
    · have hfr : (s.modifyOrder id o.price q sd).level_pool_.storage bh =
          s.level_pool_.storage bh := by
        rw [hlp]
        simp [Function.update_noteq hb]
      simp [derefLevel, hfr]
  have hub : (match sd, (s.modifyOrder id o.price q sd).bids_ with
      | Side.BUY, some bh =>
        decide ((derefLevel (s.modifyOrder id o.price q sd) bh).price = o.price)
      | _, _ => false) =
      (match sd, s.bids_ with
       | Side.BUY, some bh => decide ((derefLevel s bh).price = o.price)
       | _, _ => false) := by
    rw [hbids]
    cases sd
    · cases s.bids_ with
      | none => rfl
      | some bh => simp [hprall bh]
    · rfl
  have hua : (match sd, (s.modifyOrder id o.price q sd).asks_ with
      | Side.SELL, some ah =>
        decide ((derefLevel (s.modifyOrder id o.price q sd) ah).price = o.price)
      | _, _ => false) =
      (match sd, s.asks_ with
       | Side.SELL, some ah => decide ((derefLevel s ah).price = o.price)
       | _, _ => false) := by
    rw [hasks]
    cases sd
    · rfl
    · cases s.asks_ with
      | none => rfl
      | some ah => simp [hprall ah]
  rw [hub, hua]
  -- undoing both writes gives back s except for the cached BBO
  have hS2 : setLevel (setOrder (s.modifyOrder id o.price q sd) oh
        (fun x => { x with qty := o.qty })) lh
        (fun l => { l with total_qty := u32addInt l.total_qty ((o.qty : Int) - (({ o with qty := q } : Order).qty : Int)) })
      = { s with bbo_ := (s.modifyOrder id o.price q sd).bbo_ } := by
    apply OrderBook_ext
    · show (setOrder (s.modifyOrder id o.price q sd) oh
        (fun x => { x with qty := o.qty })).order_pool_ = _
      unfold setOrder
      apply Pool_ext
      · have hd2 : derefOrder (s.modifyOrder id o.price q sd) oh = { o with qty := q } := by
          simp [derefOrder, hos2]
        show Function.update (s.modifyOrder id o.price q sd).order_pool_.storage oh
          (some { derefOrder (s.modifyOrder id o.price q sd) oh with qty := o.qty })
            = s.order_pool_.storage
        rw [hd2, Order_requt, hop]
        show Function.update (Function.update s.order_pool_.storage oh _) oh _ = _
        rw [Function.update_idem, ← hos, Function.update_eq_self]
      · show (s.modifyOrder id o.price q sd).order_pool_.freeArr = s.order_pool_.freeArr
        rw [hop]
      · show (s.modifyOrder id o.price q sd).order_pool_.freeCount = s.order_pool_.freeCount
        rw [hop]
    · have hd3 : derefLevel (setOrder (s.modifyOrder id o.price q sd) oh
          (fun x => { x with qty := o.qty })) lh =
          { L with total_qty := u32addInt L.total_qty ((q : Int) - (o.qty : Int)) } := by
        show derefLevel (s.modifyOrder id o.price q sd) lh = _
        simp [derefLevel, hls2]
      apply Pool_ext
      · show Function.update (setOrder (s.modifyOrder id o.price q sd) oh
            (fun x => { x with qty := o.qty })).level_pool_.storage lh _ =
          s.level_pool_.storage
        rw [hd3]
        show Function.update (s.modifyOrder id o.price q sd).level_pool_.storage lh _ = _
        rw [hlp]
        show Function.update (Function.update s.level_pool_.storage lh _) lh _ = _
        rw [Function.update_idem]
        have hYL : ∀ Y : PriceLevel, Y = L →
            Function.update s.level_pool_.storage lh (some Y) = s.level_pool_.storage := by
          intro Y hy
          rw [hy, ← hls]
          exact Function.update_eq_self _ _
        apply hYL
        apply PriceLevel_ext
        · rfl
        · rfl
        · show u32addInt (u32addInt L.total_qty _) _ = L.total_qty
          apply u32addInt_add_cancel _ _ _ hLq
          have hq2 : (({ o with qty := q } : Order)).qty = q := rfl
          rw [hq2]
          ring
        · rfl
        · rfl
        · rfl
        · rfl
      · show (s.modifyOrder id o.price q sd).level_pool_.freeArr = s.level_pool_.freeArr
        rw [hlp]
      · show (s.modifyOrder id o.price q sd).level_pool_.freeCount = s.level_pool_.freeCount
        rw [hlp]
    · show (s.modifyOrder id o.price q sd).order_map_ = s.order_map_
      exact hmap
    · show (s.modifyOrder id o.price q sd).price_level_map_ = s.price_level_map_
      exact hpmap
    · show (s.modifyOrder id o.price q sd).bids_ = s.bids_
      exact hbids
    · show (s.modifyOrder id o.price q sd).asks_ = s.asks_
      exact hasks
    · rfl
    · show (s.modifyOrder id o.price q sd).window_stats_ = s.window_stats_
      exact hwin
  rw [hS2]
  -- recomputing the dirty sides restores the cached BBO
  apply updateBBOSide_restore _ _ _ _ hcons
  · intro hubf
    rw [h1, hubf]
    exact updateBBOSide_bid_fields_false _ _
  · intro huaf
    rw [h1, huaf]
    exact updateBBOSide_ask_fields_false _ _

/-- Witness for the modify-round-trip theorem: on a book with one BUY order
(id 1, price 100, qty 10), modifying the qty to 25 and back to 10 restores
the exact state. -/
theorem modifyOrder_qty_roundtrip_witness :
    ((OrderBook.init.addOrder 1 100 10 Side.BUY).modifyOrder 1 100 25 Side.BUY).modifyOrder
        1 100 10 Side.BUY = OrderBook.init.addOrder 1 100 10 Side.BUY :=
  (modifyOrder_qty_roundtrip (OrderBook.init.addOrder 1 100 10 Side.BUY) 1 65535 2047
    ⟨1, 100, 10, Side.BUY, 65535, 65535⟩ ⟨100, Side.BUY, 10, 1, 65535, 2047, 2047⟩
    25 Side.BUY rfl rfl rfl rfl rfl rfl (by decide)
    ⟨⟨rfl, rfl⟩, ⟨rfl, rfl⟩⟩).2.2.2.2.2

/-- C10: in a partial fill, the level whose `total_qty` is decremented is
the one found by the *trade's* price argument: when a level at the trade
price exists it alone is decremented (by the trade qty, in `uint32`
arithmetic) while every other level slot is untouched, and when no level
matches the trade price no level is touched at all; the resting order's qty
decreases by the trade qty in both cases. -/
theorem processTrade_partial_uses_trade_price (s : OrderBook) (id tid : Nat) (p : Int)
    (q ts : Nat) (sd : Side) (oh : Nat) (o : Order)
    (hslot : s.order_map_ (id % MAX_ORDERS) = some oh)
    (hos : s.order_pool_.storage oh = some o)
    (hid : o.order_id = id)
    (hq : q < o.qty) :
    (∀ lh, s.findPriceLevel p = some lh →
      (derefLevel (s.processTrade id tid p q sd ts) lh).total_qty
          = u32sub (derefLevel s lh).total_qty q ∧
      (derefOrder (s.processTrade id tid p q sd ts) oh).qty = o.qty - q ∧
      ∀ lh2, lh2 ≠ lh →
        (s.processTrade id tid p q sd ts).level_pool_.storage lh2 =
          s.level_pool_.storage lh2) ∧
    (s.findPriceLevel p = none →
      (s.processTrade id tid p q sd ts).level_pool_ = s.level_pool_ ∧
      (derefOrder (s.processTrade id tid p q sd ts) oh).qty = o.qty - q) := by
  have hdo : derefOrder s oh = o := by simp [derefOrder, hos]
  have hqle : ¬ o.qty ≤ q := Nat.not_le.mpr hq
  constructor
  · intro lh hfind
    simp only [OrderBook.processTrade, hslot, hdo, hid, ne_eq, not_true_eq_false, if_false,
      ite_false, hqle]
    split
    case h_1 lh0 hsome =>
      have heq : s.findPriceLevel p = some lh0 := hsome
      rw [hfind] at heq
      injection heq with heq
      subst heq
      refine ⟨?_, ?_, ?_⟩
      · simp only [derefLevel, updateBBOSide_level_pool, setLevel, Function.update_same,
          Option.getD_some]
        rfl
      · simp only [derefOrder, updateBBOSide_order_pool, setLevel, setOrder,
          Function.update_same, Option.getD_some]
        show ((s.order_pool_.storage oh).getD defaultOrder).qty - q = o.qty - q
        rw [hos]
        rfl
      · intro lh2 hne
        rw [updateBBOSide_level_pool]
        show (setLevel _ lh _).level_pool_.storage lh2 = _
        simp only [setLevel, Function.update_noteq hne]
        rfl
    case h_2 hnone =>
      have heq : s.findPriceLevel p = none := hnone
      rw [hfind] at heq
      exact Option.noConfusion heq
  · intro hnone
    simp only [OrderBook.processTrade, hslot, hdo, hid, ne_eq, not_true_eq_false, if_false,
      ite_false, hqle]
    split
    case h_1 lh0 hsome =>
      have heq : s.findPriceLevel p = some lh0 := hsome
      rw [hnone] at heq
      exact Option.noConfusion heq
    case h_2 _ =>
      constructor
      · rw [updateBBOSide_level_pool]
        rfl
      · simp only [derefOrder, updateBBOSide_order_pool, setOrder,
          Function.update_same, Option.getD_some]
        show ((s.order_pool_.storage oh).getD defaultOrder).qty - q = o.qty - q
        rw [hos]
        rfl

/-- Witness for the partial-fill theorem: with a live SELL order (id 1,
price 100, qty 50), a trade of qty 20 at price 100 decrements the level at
100 to 30, and a trade of qty 20 at price 999 (no such level) leaves all
levels untouched while the order qty still falls. -/
theorem processTrade_partial_uses_trade_price_witness :
    (derefLevel ((OrderBook.init.addOrder 1 100 50 Side.SELL).processTrade 1 7 100 20
        Side.SELL 1000000000) 2047).total_qty
      = u32sub (derefLevel (OrderBook.init.addOrder 1 100 50 Side.SELL) 2047).total_qty 20 ∧
    ((OrderBook.init.addOrder 1 100 50 Side.SELL).processTrade 1 8 999 20
        Side.SELL 1000000000).level_pool_
      = (OrderBook.init.addOrder 1 100 50 Side.SELL).level_pool_ :=
  ⟨((processTrade_partial_uses_trade_price (OrderBook.init.addOrder 1 100 50 Side.SELL)
      1 7 100 20 1000000000 Side.SELL 65535 ⟨1, 100, 50, Side.SELL, 65535, 65535⟩
      rfl rfl rfl (by decide)).1 2047 rfl).1,
   ((processTrade_partial_uses_trade_price (OrderBook.init.addOrder 1 100 50 Side.SELL)
      1 8 999 20 1000000000 Side.SELL 65535 ⟨1, 100, 50, Side.SELL, 65535, 65535⟩
      rfl rfl rfl (by decide)).2 rfl).1⟩

/-- The ring-data fields of the window state (trade arrays and the write
cursor), which eviction never modifies. -/
structure RingView where
  timestamps_ : Nat → Nat
  prices_ : Nat → Int
  quantities_ : Nat → Nat
  amounts_ : Nat → Nat
  head_ : Nat

/-- Restriction of the non-heap view to the ring data. -/
def ringOf (v : NonHeapView) : RingView :=
  ⟨v.timestamps_, v.prices_, v.quantities_, v.amounts_, v.head_⟩

/-- Projection of a window state to its ring data. -/
def ringView (s : SlidingWindowStats) : RingView :=
  ⟨s.timestamps_, s.prices_, s.quantities_, s.amounts_, s.head_⟩

theorem ringView_removeFromMaxHeap (s : SlidingWindowStats) (i : Nat) :
    ringView (s.removeFromMaxHeap i) = ringView s :=
  congrArg ringOf (nonHeap_removeFromMaxHeap s i)

theorem ringView_removeFromMinHeap (s : SlidingWindowStats) (i : Nat) :
    ringView (s.removeFromMinHeap i) = ringView s :=
  congrArg ringOf (nonHeap_removeFromMinHeap s i)

theorem count_removeFromMaxHeap (s : SlidingWindowStats) (i : Nat) :
    (s.removeFromMaxHeap i).count_ = s.count_ :=
  congrArg NonHeapView.count_ (nonHeap_removeFromMaxHeap s i)

theorem count_removeFromMinHeap (s : SlidingWindowStats) (i : Nat) :
    (s.removeFromMinHeap i).count_ = s.count_ :=
  congrArg NonHeapView.count_ (nonHeap_removeFromMinHeap s i)

theorem timestamps_removeFromMaxHeap (s : SlidingWindowStats) (i : Nat) :
    (s.removeFromMaxHeap i).timestamps_ = s.timestamps_ :=
  congrArg NonHeapView.timestamps_ (nonHeap_removeFromMaxHeap s i)

theorem timestamps_removeFromMinHeap (s : SlidingWindowStats) (i : Nat) :
    (s.removeFromMinHeap i).timestamps_ = s.timestamps_ :=
  congrArg NonHeapView.timestamps_ (nonHeap_removeFromMinHeap s i)

theorem prices_removeFromMaxHeap (s : SlidingWindowStats) (i : Nat) :
    (s.removeFromMaxHeap i).prices_ = s.prices_ :=
  congrArg NonHeapView.prices_ (nonHeap_removeFromMaxHeap s i)

theorem prices_removeFromMinHeap (s : SlidingWindowStats) (i : Nat) :
    (s.removeFromMinHeap i).prices_ = s.prices_ :=
  congrArg NonHeapView.prices_ (nonHeap_removeFromMinHeap s i)

theorem quantities_removeFromMaxHeap (s : SlidingWindowStats) (i : Nat) :
    (s.removeFromMaxHeap i).quantities_ = s.quantities_ :=
  congrArg NonHeapView.quantities_ (nonHeap_removeFromMaxHeap s i)

theorem quantities_removeFromMinHeap (s : SlidingWindowStats) (i : Nat) :
    (s.removeFromMinHeap i).quantities_ = s.quantities_ :=
  congrArg NonHeapView.quantities_ (nonHeap_removeFromMinHeap s i)

theorem amounts_removeFromMaxHeap (s : SlidingWindowStats) (i : Nat) :
    (s.removeFromMaxHeap i).amounts_ = s.amounts_ :=
  congrArg NonHeapView.amounts_ (nonHeap_removeFromMaxHeap s i)

theorem amounts_removeFromMinHeap (s : SlidingWindowStats) (i : Nat) :
    (s.removeFromMinHeap i).amounts_ = s.amounts_ :=
  congrArg NonHeapView.amounts_ (nonHeap_removeFromMinHeap s i)

theorem head_removeFromMaxHeap (s : SlidingWindowStats) (i : Nat) :
    (s.removeFromMaxHeap i).head_ = s.head_ :=
  congrArg NonHeapView.head_ (nonHeap_removeFromMaxHeap s i)

theorem head_removeFromMinHeap (s : SlidingWindowStats) (i : Nat) :
    (s.removeFromMinHeap i).head_ = s.head_ :=
  congrArg NonHeapView.head_ (nonHeap_removeFromMinHeap s i)

/-- What one eviction step does to the observable window state: the ring
data is untouched, the count drops by one, and the tail trade's qty and
amount are subtracted (in `uint64` arithmetic) from the running sums. -/
theorem evictTail_spec (s : SlidingWindowStats) :
    ringView (evictTail s) = ringView s ∧
    (evictTail s).count_ = s.count_ - 1 ∧
    (evictTail s).sum_qty_ = u64sub s.sum_qty_ (s.quantities_ (tailSlot s)) ∧
    (evictTail s).sum_amount_ = u64sub s.sum_amount_ (s.amounts_ (tailSlot s)) := by
  unfold evictTail
  by_cases hv : s.valid_ (tailSlot s) <;>
    simp only [hv, ite_true, ite_false, if_true, if_false] <;>
    repeat' split
  all_goals
    refine ⟨?_, ?_, ?_, ?_⟩ <;>
      simp [ringView,
        count_removeFromMaxHeap, count_removeFromMinHeap,
        removeFromMaxHeap_sum_qty, removeFromMinHeap_sum_qty,
        removeFromMaxHeap_sum_amount, removeFromMinHeap_sum_amount,
        timestamps_removeFromMaxHeap, timestamps_removeFromMinHeap,
        prices_removeFromMaxHeap, prices_removeFromMinHeap,
        quantities_removeFromMaxHeap, quantities_removeFromMinHeap,
        amounts_removeFromMaxHeap, amounts_removeFromMinHeap,
        head_removeFromMaxHeap, head_removeFromMinHeap]

/-- A trade the eviction loop wants to drop: older than the cutoff or not
strictly before the current grid second. -/
def outOfWindow (cutoff current : Nat) (t : TradeView) : Bool :=
  decide (¬(cutoff ≤ t.ts ∧ t.ts < current))

theorem windowTrades_eq_nil (s : SlidingWindowStats) (h : s.count_ = 0) :
    windowTrades s = [] := by
  simp [windowTrades, h]

theorem u64sub_zero (a : Nat) (h : a < U64MOD) : u64sub a 0 = a := by
  unfold u64sub U64MOD at *
  omega

theorem u64sub_lt (a b : Nat) : u64sub a b < U64MOD := by
  unfold u64sub U64MOD
  omega

theorem u64sub_u64sub (a b c : Nat) : u64sub (u64sub a b) c = u64sub a (b + c) := by
  unfold u64sub U64MOD
  omega

theorem windowSlot_zero (s : SlidingWindowStats) : windowSlot s 0 = tailSlot s := by
  simp [windowSlot, tailSlot]

/-- Decomposition of the retained-trades list at the tail. -/
theorem windowTrades_cons (s : SlidingWindowStats) (h : s.count_ ≠ 0) :
    windowTrades s =
      ⟨s.timestamps_ (tailSlot s), s.prices_ (tailSlot s), s.quantities_ (tailSlot s),
        s.amounts_ (tailSlot s)⟩ ::
      (List.range (s.count_ - 1)).map (fun i =>
        let j := windowSlot s (i + 1)
        ⟨s.timestamps_ j, s.prices_ j, s.quantities_ j, s.amounts_ j⟩) := by
  have hc1 : s.count_ = (s.count_ - 1) + 1 := by omega
  rw [windowTrades, hc1, List.range_succ_eq_map, List.map_cons, List.map_map]
  congr 1

/-- After one eviction step the retained trades are the tail of the previous
list. -/
theorem windowTrades_evictTail (s : SlidingWindowStats)
    (h0 : s.count_ ≠ 0) (hc : s.count_ ≤ MAX_TRADES) :
    windowTrades (evictTail s) =
      (List.range (s.count_ - 1)).map (fun i =>
        let j := windowSlot s (i + 1)
        ⟨s.timestamps_ j, s.prices_ j, s.quantities_ j, s.amounts_ j⟩) := by
  obtain ⟨hring, hcnt, -, -⟩ := evictTail_spec s
  have hts : (evictTail s).timestamps_ = s.timestamps_ := congrArg RingView.timestamps_ hring
  have hpr : (evictTail s).prices_ = s.prices_ := congrArg RingView.prices_ hring
  have hqt : (evictTail s).quantities_ = s.quantities_ := congrArg RingView.quantities_ hring
  have ham : (evictTail s).amounts_ = s.amounts_ := congrArg RingView.amounts_ hring
  have hhd : (evictTail s).head_ = s.head_ := congrArg RingView.head_ hring
  rw [windowTrades, hcnt]
  apply List.map_congr_left
  intro i _
  have hslot : windowSlot (evictTail s) i = windowSlot s (i + 1) := by
    unfold windowSlot
    rw [hcnt, hhd]
    congr 1
    omega
  rw [hslot, hts, hpr, hqt, ham]

/-- Invariant characterisation of the eviction loop: it drops the longest
out-of-window prefix (oldest first) of the retained trades, subtracting each
dropped trade's qty and amount from the running sums. -/
theorem evictLoop_spec (cutoff current : Nat) : ∀ fuel (s : SlidingWindowStats),
    s.count_ ≤ fuel → s.count_ ≤ MAX_TRADES →
    s.sum_qty_ < U64MOD → s.sum_amount_ < U64MOD →
    windowTrades (evictLoop cutoff current fuel s) =
      (windowTrades s).dropWhile (outOfWindow cutoff current) ∧
    (evictLoop cutoff current fuel s).sum_qty_ = u64sub s.sum_qty_
      (List.sum (((windowTrades s).takeWhile (outOfWindow cutoff current)).map TradeView.qty)) ∧
    (evictLoop cutoff current fuel s).sum_amount_ = u64sub s.sum_amount_
      (List.sum (((windowTrades s).takeWhile (outOfWindow cutoff current)).map TradeView.amount))
  | 0, s, hf, hc, hq, ha => by
    have hc0 : s.count_ = 0 := Nat.le_zero.mp hf
    rw [evictLoop, windowTrades_eq_nil s hc0]
    simp [u64sub_zero _ hq, u64sub_zero _ ha, windowTrades_eq_nil s hc0]
  | fuel + 1, s, hf, hc, hq, ha => by
    rw [evictLoop]
    by_cases hc0 : s.count_ = 0
    · rw [if_pos hc0, windowTrades_eq_nil s hc0]
      simp [u64sub_zero _ hq, u64sub_zero _ ha, windowTrades_eq_nil s hc0]
    · rw [if_neg hc0]
      by_cases hin : cutoff ≤ s.timestamps_ (tailSlot s) ∧ s.timestamps_ (tailSlot s) < current
      · rw [if_pos hin, windowTrades_cons s hc0]
        have hout : outOfWindow cutoff current
            ⟨s.timestamps_ (tailSlot s), s.prices_ (tailSlot s), s.quantities_ (tailSlot s),
              s.amounts_ (tailSlot s)⟩ = false := by
          simp [outOfWindow, hin.1, hin.2]
        rw [List.dropWhile_cons, List.takeWhile_cons, hout]
        simp [u64sub_zero _ hq, u64sub_zero _ ha]
      · rw [if_neg hin]
        obtain ⟨hring, hcnt, hsq, hsa⟩ := evictTail_spec s
        have ih := evictLoop_spec cutoff current fuel (evictTail s)
          (by omega) (by omega) (by rw [hsq]; exact u64sub_lt _ _)
          (by rw [hsa]; exact u64sub_lt _ _)
        have hout : outOfWindow cutoff current
            ⟨s.timestamps_ (tailSlot s), s.prices_ (tailSlot s), s.quantities_ (tailSlot s),
              s.amounts_ (tailSlot s)⟩ = true := by
          simp only [outOfWindow, decide_eq_true_eq]
          exact hin
        refine ⟨?_, ?_, ?_⟩
        · rw [ih.1, windowTrades_evictTail s hc0 hc, windowTrades_cons s hc0,
            List.dropWhile_cons, hout]
          simp
        · rw [ih.2.1, windowTrades_evictTail s hc0 hc, hsq, u64sub_u64sub,
            windowTrades_cons s hc0, List.takeWhile_cons, hout]
          simp
        · rw [ih.2.2, windowTrades_evictTail s hc0 hc, hsa, u64sub_u64sub,
            windowTrades_cons s hc0, List.takeWhile_cons, hout]
          simp

/-- C5 counterexample: with an in-window trade (ts 1672574500) recorded
before a trade at the current grid second (ts 1672575001), eviction at grid
time 20230101121001 (current = 1672575001, cutoff = 1672574401) stops at
the in-window tail trade and *retains* the trade with ts = current, which
the claim says is evicted; both stay in the sums. -/
theorem evictExpired_retains_too_new_trade :
    yyyymmddhhmmssToUnixSeconds 20230101121001 = 1672575001 ∧
    (windowTrades (((SlidingWindowStats.init.recordTrade 1672574500000000000 100 10).recordTrade
        1672575001000000000 110 20).evictExpired 20230101121001)).map TradeView.ts =
      [1672574500, 1672575001] ∧
    (((SlidingWindowStats.init.recordTrade 1672574500000000000 100 10).recordTrade
        1672575001000000000 110 20).evictExpired 20230101121001).sum_qty_ = 30 := by
  decide

/-- C5 (amended): `evict_expired(grid)` drops retained trades from the tail
(oldest first) while they are out of the window `[current − 600, current)`,
stopping at the first in-window trade (later out-of-window trades are *not*
examined); each dropped trade's qty and amount are subtracted from the
running sums.  The boundary facts of the claim hold for the tail trade:
`ts = cutoff` is retained, `ts < cutoff` or `ts ≥ current` at the tail is
evicted. -/
theorem evictExpired_drops_out_of_window_tail (s : SlidingWindowStats) (grid : Nat)
    (hc : s.count_ ≤ MAX_TRADES)
    (hq : s.sum_qty_ < U64MOD) (ha : s.sum_amount_ < U64MOD) :
    windowTrades (s.evictExpired grid) =
      (windowTrades s).dropWhile
        (outOfWindow (u64sub (yyyymmddhhmmssToUnixSeconds grid) WINDOW_SECONDS)
          (yyyymmddhhmmssToUnixSeconds grid)) ∧
    (s.evictExpired grid).sum_qty_ = u64sub s.sum_qty_
      (List.sum (((windowTrades s).takeWhile
        (outOfWindow (u64sub (yyyymmddhhmmssToUnixSeconds grid) WINDOW_SECONDS)
          (yyyymmddhhmmssToUnixSeconds grid))).map TradeView.qty)) ∧
    (s.evictExpired grid).sum_amount_ = u64sub s.sum_amount_
      (List.sum (((windowTrades s).takeWhile
        (outOfWindow (u64sub (yyyymmddhhmmssToUnixSeconds grid) WINDOW_SECONDS)
          (yyyymmddhhmmssToUnixSeconds grid))).map TradeView.amount)) := by
  have h := evictLoop_spec (u64sub (yyyymmddhhmmssToUnixSeconds grid) WINDOW_SECONDS)
    (yyyymmddhhmmssToUnixSeconds grid) s.count_ s le_rfl hc hq ha
  exact h

/-- Witness for the eviction theorem: a single in-window trade is retained
untouched (its tail timestamp equals the cutoff), applying the theorem at a
concrete state. -/
theorem evictExpired_drops_out_of_window_tail_witness :
    windowTrades ((SlidingWindowStats.init.recordTrade 1672574401000000000 100 3).evictExpired
        20230101121001) =
      (windowTrades (SlidingWindowStats.init.recordTrade 1672574401000000000 100 3)).dropWhile
        (outOfWindow (u64sub (yyyymmddhhmmssToUnixSeconds 20230101121001) WINDOW_SECONDS)
          (yyyymmddhhmmssToUnixSeconds 20230101121001)) :=
  (evictExpired_drops_out_of_window_tail
    (SlidingWindowStats.init.recordTrade 1672574401000000000 100 3) 20230101121001
    (by decide) (by decide) (by decide)).1

/-! ## Cyclic intrusive list toolkit

A circular doubly-linked list with members `x :: xs` is captured by a
`List.Chain` that runs through the members and wraps back to the head.  The
relation argument is instantiated with "`next` of the first is the second
and `prev` of the second is the first" over the current pool storage. -/

/-- The linked-cycle predicate: the chain of `R`-steps visits `xs` and wraps
back to the head. -/
def IsCycle (R : Nat → Nat → Prop) : List Nat → Prop
  | [] => True
  | x :: xs => List.Chain R x (xs ++ [x])

theorem chain_congr_mem {R S : Nat → Nat → Prop} :
    ∀ {x : Nat} {l : List Nat}, List.Chain R x l →
      (∀ a b, a ∈ x :: l → b ∈ x :: l → R a b → S a b) → List.Chain S x l := by
  intro x l
  induction l generalizing x with
  | nil => intro _ _; exact List.Chain.nil
  | cons y ys ih =>
    intro hc hab
    rw [List.chain_cons] at hc ⊢
    refine ⟨hab x y (by simp) (by simp) hc.1, ih hc.2 ?_⟩
    intro a b ha hb hr
    exact hab a b (List.mem_cons_of_mem x ha) (List.mem_cons_of_mem x hb) hr

/-- Replace the final target of an open chain: every link into `m` turns into
a link into `w`, links whose target lies inside `zs` are preserved. -/
theorem chain_replace_end {R S : Nat → Nat → Prop} (m w : Nat) :
    ∀ (zs : List Nat) (z : Nat), List.Chain R z (zs ++ [m]) →
      (∀ a b, a ∈ z :: zs → b ∈ zs → R a b → S a b) →
      (∀ a, a ∈ z :: zs → R a m → S a w) →
      List.Chain S z (zs ++ [w]) := by
  intro zs
  induction zs with
  | nil =>
    intro z hc _ h2
    rw [List.nil_append, List.chain_cons] at hc ⊢
    exact ⟨h2 z (by simp) hc.1, List.Chain.nil⟩
  | cons u us ih =>
    intro z hc h1 h2
    rw [List.cons_append, List.chain_cons] at hc ⊢
    refine ⟨h1 z u (by simp) (by simp) hc.1, ih u hc.2 ?_ ?_⟩
    · intro a b ha hb hr
      exact h1 a b (List.mem_cons_of_mem z ha) (List.mem_cons_of_mem u hb) hr
    · intro a ha hr
      exact h2 a (List.mem_cons_of_mem z ha) hr

/-- Append one element to an open chain. -/
theorem chain_snoc {R : Nat → Nat → Prop} (w : Nat) :
    ∀ (zs : List Nat) (z : Nat), List.Chain R z zs →
      (zs = [] → R z w) →
      (∀ (l : List Nat) (e : Nat), zs = l ++ [e] → R e w) →
      List.Chain R z (zs ++ [w]) := by
  intro zs
  induction zs with
  | nil =>
    intro z _ h0 _
    rw [List.nil_append, List.chain_cons]
    exact ⟨h0 rfl, List.Chain.nil⟩
  | cons u us ih =>
    intro z hc _ h1
    rw [List.chain_cons] at hc
    rw [List.cons_append, List.chain_cons]
    refine ⟨hc.1, ih u hc.2 ?_ ?_⟩
    · intro he
      subst he
      exact h1 [] u rfl
    · intro l e he
      exact h1 (u :: l) e (by rw [he, List.cons_append])

theorem IsCycle_cons {R : Nat → Nat → Prop} (x : Nat) (xs : List Nat) :
    IsCycle R (x :: xs) = List.Chain R x (xs ++ [x]) := rfl

theorem isCycle_singleton {R : Nat → Nat → Prop} {x : Nat} (h : R x x) :
    IsCycle R [x] := by
  rw [IsCycle_cons]
  exact List.Chain.cons h List.Chain.nil

/-- Append a fresh element `y` at the end of a cycle rooted at `x`:
links into the root are redirected to `y`, and `y` links back to `x`. -/
theorem isCycle_snoc {R S : Nat → Nat → Prop} (x : Nat) (xs : List Nat) (y : Nat)
    (hc : IsCycle R (x :: xs))
    (h1 : ∀ a b, a ∈ x :: xs → b ∈ xs → R a b → S a b)
    (h2 : ∀ a, a ∈ x :: xs → R a x → S a y)
    (h3 : S y x) : IsCycle S (x :: (xs ++ [y])) := by
  rw [IsCycle_cons] at hc
  rw [IsCycle_cons]
  have hmid : List.Chain S x (xs ++ [y]) := chain_replace_end x y xs x hc h1 h2
  refine chain_snoc x (xs ++ [y]) x hmid (by simp) ?_
  intro l e he
  have h5 : e = y := by
    have := congrArg List.getLast? he
    simpa using this.symm
  subst h5
  exact h3

/-- Remove the head of a cycle with at least two elements: links into the old
head are redirected to the new head `t`. -/
theorem isCycle_eraseHead {R S : Nat → Nat → Prop} (m t : Nat) (ts : List Nat)
    (hc : IsCycle R (m :: t :: ts))
    (h1 : ∀ a b, a ∈ t :: ts → b ∈ ts → R a b → S a b)
    (h2 : ∀ a, a ∈ t :: ts → R a m → S a t) :
    IsCycle S (t :: ts) := by
  rw [IsCycle_cons] at hc
  rw [List.cons_append, List.chain_cons] at hc
  rw [IsCycle_cons]
  exact chain_replace_end m t ts t hc.2 h1 h2

/-- Remove an element `m` from the interior of a cycle rooted at `h`: the link
into `m` is redirected to `m`'s cyclic successor. -/
theorem isCycle_eraseMid {R S : Nat → Nat → Prop} (h m : Nat) (T1 T2 : List Nat)
    (hnd : (h :: (T1 ++ m :: T2)).Nodup)
    (hc : IsCycle R (h :: (T1 ++ m :: T2)))
    (hI : ∀ a b, a ∈ h :: (T1 ++ T2) → b ∈ h :: (T1 ++ T2) → R a b → S a b)
    (hJ : ∀ a, a ∈ h :: T1 → R a m → S a ((T2 ++ [h]).head (by simp))) :
    IsCycle S (h :: (T1 ++ T2)) := by
  rw [IsCycle_cons] at hc
  have hc' : List.Chain R h (T1 ++ m :: (T2 ++ [h])) := by
    have : (T1 ++ m :: T2) ++ [h] = T1 ++ m :: (T2 ++ [h]) := by simp
    rwa [this] at hc
  rw [List.chain_split] at hc'
  obtain ⟨hA, hB⟩ := hc'
  rw [IsCycle_cons]
  have hAmem : ∀ a, a ∈ h :: T1 → a ∈ h :: (T1 ++ T2) := by
    intro a ha
    rcases List.mem_cons.mp ha with h' | h'
    · simp [h']
    · simp [h']
  cases T2 with
  | nil =>
    have hA' : List.Chain S h (T1 ++ [h]) :=
      chain_replace_end m h T1 h hA
        (fun a b ha hb hr => hI a b (hAmem a ha) (by simp [hb]) hr)
        (fun a ha hr => hJ a ha hr)
    simpa using hA'
  | cons u us =>
    have hA' : List.Chain S h (T1 ++ [u]) :=
      chain_replace_end m u T1 h hA
        (fun a b ha hb hr => hI a b (hAmem a ha) (by simp [hb]) hr)
        (fun a ha hr => hJ a ha hr)
    rw [List.cons_append, List.chain_cons] at hB
    have hB' : List.Chain S u (us ++ [h]) :=
      chain_replace_end h h us u hB.2
        (fun a b ha hb hr => hI a b (by simp_all) (by simp [hb] <;> tauto) hr)
        (fun a ha hr => hI a h (by simp_all) (by simp) hr)
    have : List.Chain S h (T1 ++ u :: (us ++ [h])) :=
      List.chain_split.mpr ⟨hA', hB'⟩
    have heq : T1 ++ u :: (us ++ [h]) = (T1 ++ u :: us) ++ [h] := by simp
    rwa [heq] at this

/-- Insert a fresh element `y` right after `c` in a cycle: `c` now links to
`y` and `y` takes over `c`'s old outgoing link. -/
theorem isCycle_insertAfter {R S : Nat → Nat → Prop} (c y : Nat) (A B : List Nat)
    (hnd : (A ++ c :: B).Nodup)
    (hc : IsCycle R (A ++ c :: B))
    (hI : ∀ a b, a ∈ A ++ c :: B → b ∈ A ++ c :: B → R a b → a ≠ c → S a b)
    (hcy : S c y)
    (hyn : ∀ b, R c b → S y b) :
    IsCycle S (A ++ c :: y :: B) := by
  have hcB : c ∉ B := by
    have := List.Nodup.of_append_right hnd
    simp at this
    exact this.1
  have hcA : c ∉ A := by
    have hd := List.disjoint_of_nodup_append hnd
    intro hmem
    exact hd hmem (by simp)
  cases A with
  | nil =>
    rw [List.nil_append, IsCycle_cons] at hc
    rw [List.nil_append, IsCycle_cons, List.cons_append, List.chain_cons]
    refine ⟨hcy, ?_⟩
    cases B with
    | nil =>
      simp only [List.nil_append] at hc ⊢
      rw [List.chain_cons] at hc
      exact List.Chain.cons (hyn c hc.1) List.Chain.nil
    | cons b bs =>
      rw [List.cons_append, List.chain_cons] at hc
      refine List.Chain.cons (hyn b hc.1) ?_
      exact chain_replace_end c c bs b hc.2
        (fun a b' ha hb' hr => hI a b' (by simp_all) (by simp [hb'] <;> tauto) hr
          (by rintro rfl; exact hcB (by simp_all)))
        (fun a ha hr => hI a c (by simp_all) (by simp) hr
          (by rintro rfl; exact hcB (by simp_all)))
  | cons x A' =>
    rw [List.cons_append, IsCycle_cons] at hc
    have hc' : List.Chain R x (A' ++ c :: (B ++ [x])) := by
      have : (A' ++ c :: B) ++ [x] = A' ++ c :: (B ++ [x]) := by simp
      rwa [this] at hc
    rw [List.chain_split] at hc'
    obtain ⟨hA, hB⟩ := hc'
    have hxA : ∀ a, a ∈ x :: A' → a ≠ c := by
      intro a ha
      rintro rfl
      exact hcA ha
    have hA' : List.Chain S x (A' ++ [c]) :=
      chain_replace_end c c A' x hA
        (fun a b ha hb hr => hI a b (by simp_all <;> tauto) (by simp [hb] <;> tauto) hr (hxA a ha))
        (fun a ha hr => hI a c (by simp_all <;> tauto) (by simp) hr (hxA a ha))
    have hB' : List.Chain S c (y :: (B ++ [x])) := by
      rw [List.chain_cons]
      refine ⟨hcy, ?_⟩
      cases B with
      | nil =>
        simp only [List.nil_append] at hB ⊢
        rw [List.chain_cons] at hB
        exact List.Chain.cons (hyn x hB.1) List.Chain.nil
      | cons b bs =>
        rw [List.cons_append, List.chain_cons] at hB
        refine List.Chain.cons (hyn b hB.1) ?_
        exact chain_replace_end x x bs b hB.2
          (fun a b' ha hb' hr => hI a b' (by simp_all) (by simp [hb'] <;> tauto) hr
            (by rintro rfl; exact hcB (by simp_all)))
          (fun a ha hr => hI a x (by simp_all) (by simp) hr
            (by rintro rfl; exact hcB (by simp_all)))
    have : List.Chain S x (A' ++ c :: (y :: (B ++ [x]))) :=
      List.chain_split.mpr ⟨hA', hB'⟩
    rw [List.cons_append, IsCycle_cons]
    have heq : (A' ++ c :: y :: B) ++ [x] = A' ++ c :: (y :: (B ++ [x])) := by simp
    rwa [heq]

/-! ## Memory-pool well-formedness

The free stack of `MemoryPoolV3` holds exactly the unallocated slots below
the capacity, each once. -/

def poolWF {α : Type} (p : Pool α) (N : Nat) : Prop :=
  (∀ j, j < p.freeCount → p.freeArr j < N ∧ p.storage (p.freeArr j) = none) ∧
  (∀ j k, j < p.freeCount → k < p.freeCount → p.freeArr j = p.freeArr k → j = k) ∧
  (∀ i, i < N → p.storage i = none → ∃ j, j < p.freeCount ∧ p.freeArr j = i) ∧
  (∀ i, N ≤ i → p.storage i = none)

theorem poolWF_init {α : Type} (N : Nat) : poolWF (Pool.init N : Pool α) N := by
  refine ⟨fun j hj => ⟨hj, rfl⟩, fun j k _ _ h => h, fun i hi _ => ⟨i, hi, rfl⟩, fun _ _ => rfl⟩

theorem poolWF_allocate {α : Type} {p p' : Pool α} {N idx : Nat} {mk : Nat → α}
    (hwf : poolWF p N) (h : p.allocate mk = some (idx, p')) :
    p.storage idx = none ∧ idx < N ∧
    p' = ⟨Function.update p.storage idx (some (mk idx)), p.freeArr, p.freeCount - 1⟩ ∧
    poolWF p' N := by
  rw [Pool.allocate] at h
  by_cases hfc : p.freeCount = 0
  · simp [hfc] at h
  · simp only [hfc, if_false, Option.some.injEq, Prod.mk.injEq] at h
    obtain ⟨hidx, hp'⟩ := h
    have hlt : p.freeCount - 1 < p.freeCount := by omega
    have h1 := hwf.1 (p.freeCount - 1) hlt
    rw [hidx] at h1
    have hp2 : p' = ⟨Function.update p.storage idx (some (mk idx)), p.freeArr,
        p.freeCount - 1⟩ := by
      rw [← hp', hidx]
    refine ⟨h1.2, h1.1, hp2, ?_⟩
    rw [hp2]
    refine ⟨?_, ?_, ?_, ?_⟩
    · intro j hj
      simp only at hj ⊢
      have hj' : j < p.freeCount := by omega
      have h2 := hwf.1 j hj'
      refine ⟨h2.1, ?_⟩
      have hne : p.freeArr j ≠ idx := by
        intro he
        rw [← hidx] at he
        have := hwf.2.1 j (p.freeCount - 1) hj' hlt he
        omega
      simpa [Function.update_noteq hne] using h2.2
    · intro j k hj hk he
      simp only at hj hk
      exact hwf.2.1 j k (by omega) (by omega) he
    · intro i hi hnone
      simp only at hnone ⊢
      by_cases hi2 : i = idx
      · subst hi2
        simp [Function.update_same] at hnone
      · rw [Function.update_noteq hi2] at hnone
        obtain ⟨j, hj, hje⟩ := hwf.2.2.1 i hi hnone
        have hjne : j ≠ p.freeCount - 1 := by
          intro he
          rw [he, hidx] at hje
          exact hi2 hje.symm
        exact ⟨j, by omega, hje⟩
    · intro i hi
      simp only
      have hne : i ≠ idx := by
        intro he
        subst he
        omega
      simpa [Function.update_noteq hne] using hwf.2.2.2 i hi

theorem poolWF_deallocate {α : Type} {p : Pool α} {N idx : Nat} {v : α}
    (hwf : poolWF p N) (h : p.storage idx = some v) :
    poolWF (p.deallocate idx) N := by
  have hlt : idx < N := by
    by_contra hge
    rw [hwf.2.2.2 idx (by omega)] at h
    cases h
  rw [Pool.deallocate]
  refine ⟨?_, ?_, ?_, ?_⟩
  · intro j hj
    simp only at hj ⊢
    by_cases hje : j = p.freeCount
    · subst hje
      rw [Function.update_same, Function.update_same]
      exact ⟨hlt, rfl⟩
    · have hj' : j < p.freeCount := by omega
      have h2 := hwf.1 j hj'
      rw [Function.update_noteq hje]
      refine ⟨h2.1, ?_⟩
      have hne : p.freeArr j ≠ idx := by
        intro he
        rw [he, h] at h2
        cases h2.2
      simpa [Function.update_noteq hne] using h2.2
  · intro j k hj hk he
    simp only at hj hk he
    by_cases hje : j = p.freeCount <;> by_cases hke : k = p.freeCount
    · omega
    · subst hje
      rw [Function.update_same, Function.update_noteq hke] at he
      have h2 := (hwf.1 k (by omega)).2
      rw [← he, h] at h2
      cases h2
    · subst hke
      rw [Function.update_same, Function.update_noteq hje] at he
      have h2 := (hwf.1 j (by omega)).2
      rw [he, h] at h2
      cases h2
    · rw [Function.update_noteq hje, Function.update_noteq hke] at he
      exact hwf.2.1 j k (by omega) (by omega) he
  · intro i hi hnone
    simp only at hnone ⊢
    by_cases hie : i = idx
    · subst hie
      exact ⟨p.freeCount, by omega, by simp⟩
    · rw [Function.update_noteq hie] at hnone
      obtain ⟨j, hj, hje⟩ := hwf.2.2.1 i hi hnone
      refine ⟨j, by omega, ?_⟩
      rw [Function.update_noteq (by omega)]
      exact hje
  · intro i hi
    simp only
    have hne : i ≠ idx := by omega
    rw [Function.update_noteq hne]
    exact hwf.2.2.2 i hi

theorem poolWF_overwrite {α : Type} {p : Pool α} {N k : Nat} {w v : α}
    (hwf : poolWF p N) (hs : p.storage k = some w) :
    poolWF (⟨Function.update p.storage k (some v), p.freeArr, p.freeCount⟩ : Pool α) N := by
  refine ⟨?_, hwf.2.1, ?_, ?_⟩
  · intro j hj
    have h2 := hwf.1 j hj
    refine ⟨h2.1, ?_⟩
    have hne : p.freeArr j ≠ k := by
      intro he
      rw [he, hs] at h2
      cases h2.2
    simpa [Function.update_noteq hne] using h2.2
  · intro i hi hnone
    simp only at hnone
    by_cases hie : i = k
    · subst hie
      simp [Function.update_same] at hnone
    · rw [Function.update_noteq hie] at hnone
      exact hwf.2.2.1 i hi hnone
  · intro i hi
    simp only
    have hne : i ≠ k := by
      intro he
      rw [← he, hwf.2.2.2 i hi] at hs
      cases hs
    rw [Function.update_noteq hne]
    exact hwf.2.2.2 i hi

theorem isCycle_congr {R S : Nat → Nat → Prop} {L : List Nat} (hc : IsCycle R L)
    (h : ∀ a b, a ∈ L → b ∈ L → R a b → S a b) : IsCycle S L := by
  cases L with
  | nil => trivial
  | cons x xs =>
    rw [IsCycle_cons] at hc ⊢
    refine chain_congr_mem hc ?_
    intro a b ha hb hr
    refine h a b ?_ ?_ hr <;> simp_all <;> tauto

theorem isCycle_rotate {R : Nat → Nat → Prop} (m : Nat) (A B : List Nat)
    (hc : IsCycle R (A ++ m :: B)) : IsCycle R (m :: (B ++ A)) := by
  cases A with
  | nil =>
    simpa using hc
  | cons x A' =>
    rw [List.cons_append, IsCycle_cons] at hc
    have hc' : List.Chain R x (A' ++ m :: (B ++ [x])) := by
      have heq : (A' ++ m :: B) ++ [x] = A' ++ m :: (B ++ [x]) := by simp
      rwa [heq] at hc
    rw [List.chain_split] at hc'
    rw [IsCycle_cons]
    have heq : (B ++ x :: A') ++ [m] = B ++ x :: (A' ++ [m]) := by simp
    rw [heq]
    exact List.chain_split.mpr ⟨hc'.2, hc'.1⟩

theorem isCycle_next_mem {R : Nat → Nat → Prop} {L : List Nat} {a : Nat}
    (hc : IsCycle R L) (ha : a ∈ L) : ∃ b, b ∈ L ∧ R a b := by
  obtain ⟨A, B, rfl⟩ := List.append_of_mem ha
  have h2 := isCycle_rotate a A B hc
  rw [IsCycle_cons] at h2
  cases hBA : B ++ A with
  | nil =>
    rw [hBA] at h2
    rw [List.nil_append, List.chain_cons] at h2
    exact ⟨a, by simp, h2.1⟩
  | cons u v =>
    rw [hBA, List.cons_append, List.chain_cons] at h2
    have hu : u ∈ B ++ A := by rw [hBA]; simp
    refine ⟨u, ?_, h2.1⟩
    rcases List.mem_append.mp hu with h' | h' <;> simp [h']

theorem isCycle_reverse {R : Nat → Nat → Prop} (x : Nat) (xs : List Nat)
    (hc : IsCycle R (x :: xs)) : IsCycle (fun a b => R b a) (x :: xs.reverse) := by
  rw [IsCycle_cons] at hc ⊢
  have h1 : List.Chain' R (x :: (xs ++ [x])) := hc
  have h2 : List.Chain' (fun a b => R b a) ((x :: (xs ++ [x])).reverse) :=
    List.chain'_reverse.mpr h1
  have heq : (x :: (xs ++ [x])).reverse = x :: (xs.reverse ++ [x]) := by simp
  rw [heq] at h2
  exact h2

theorem length_le_of_nodup_lt (L : List Nat) (N : Nat) (hnd : L.Nodup)
    (hb : ∀ a ∈ L, a < N) : L.length ≤ N := by
  have h1 : L.toFinset ⊆ Finset.range N := by
    intro a ha
    rw [List.mem_toFinset] at ha
    rw [Finset.mem_range]
    exact hb a ha
  have h2 := Finset.card_le_card h1
  rwa [Finset.card_range, List.toFinset_card_of_nodup hnd] at h2

/-! ## The structural book invariant

A ghost record names the members of the two sorted level lists and of each
level's FIFO; `BookWF` states that the pools, maps, heads and intrusive
links of the book agree with it. -/

/-- Adjacency in an order FIFO: `a->next = b` and `b->prev = a`. -/
def ordRel (s : OrderBook) (a b : Nat) : Prop :=
  (derefOrder s a).next = b ∧ (derefOrder s b).prev = a

/-- Adjacency in a side's level list. -/
def lvlRel (s : OrderBook) (a b : Nat) : Prop :=
  (derefLevel s a).next = b ∧ (derefLevel s b).prev = a

/-- Ghost data: the bid levels in list order (best first), the ask levels in
list order, and each level's FIFO members (oldest first). -/
structure BookShape where
  bidsL : List Nat
  asksL : List Nat
  fifo : Nat → List Nat

/-- The level-side clauses of the invariant: side lists, heads, hash map and
level pool. -/
structure LevelsWF (s : OrderBook) (G : BookShape) : Prop where
  bidsCyc : IsCycle (lvlRel s) G.bidsL
  asksCyc : IsCycle (lvlRel s) G.asksL
  lvlNodup : (G.bidsL ++ G.asksL).Nodup
  bidsHead : s.bids_ = G.bidsL.head?
  asksHead : s.asks_ = G.asksL.head?
  lvlLive : ∀ lh, (s.level_pool_.storage lh).isSome ↔ lh ∈ G.bidsL ++ G.asksL
  bidsSide : ∀ lh ∈ G.bidsL, (derefLevel s lh).side = Side.BUY
  asksSide : ∀ lh ∈ G.asksL, (derefLevel s lh).side = Side.SELL
  mapToLvl : ∀ i lh, s.price_level_map_ i = some lh →
      (s.level_pool_.storage lh).isSome ∧ priceToIndex (derefLevel s lh).price = i
  lvlToMap : ∀ lh, (s.level_pool_.storage lh).isSome →
      s.price_level_map_ (priceToIndex (derefLevel s lh).price) = some lh
  lpool : poolWF s.level_pool_ MAX_PRICE_LEVELS

/-- Well-formedness of a book state relative to a shape. -/
structure BookWF (s : OrderBook) (G : BookShape) : Prop where
  levels : LevelsWF s G
  fifoCyc : ∀ lh, (s.level_pool_.storage lh).isSome → IsCycle (ordRel s) (G.fifo lh)
  fifoNodup : ∀ lh, (s.level_pool_.storage lh).isSome → (G.fifo lh).Nodup
  fifoHead : ∀ lh, (s.level_pool_.storage lh).isSome →
      (G.fifo lh).head? = some (derefLevel s lh).first_order
  fifoCount : ∀ lh, (s.level_pool_.storage lh).isSome →
      (derefLevel s lh).order_count = (G.fifo lh).length
  fifoLive : ∀ lh, (s.level_pool_.storage lh).isSome → ∀ oh ∈ G.fifo lh,
      (s.order_pool_.storage oh).isSome
  fifoPrice : ∀ lh, (s.level_pool_.storage lh).isSome → ∀ oh ∈ G.fifo lh,
      (derefOrder s oh).price = (derefLevel s lh).price
  fifoDisj : ∀ lh1 lh2, (s.level_pool_.storage lh1).isSome →
      (s.level_pool_.storage lh2).isSome → ∀ oh, oh ∈ G.fifo lh1 → oh ∈ G.fifo lh2 →
      lh1 = lh2
  mapToOrd : ∀ i oh, s.order_map_ i = some oh →
      (s.order_pool_.storage oh).isSome ∧ (derefOrder s oh).order_id % MAX_ORDERS = i
  ordToMap : ∀ oh, (s.order_pool_.storage oh).isSome →
      s.order_map_ ((derefOrder s oh).order_id % MAX_ORDERS) = some oh
  ordInFifo : ∀ oh, (s.order_pool_.storage oh).isSome →
      ∃ lh, (s.level_pool_.storage lh).isSome ∧ oh ∈ G.fifo lh
  opool : poolWF s.order_pool_ MAX_ORDERS

/-- The empty book is well-formed with the empty shape. -/
theorem bookWF_init : BookWF OrderBook.init ⟨[], [], fun _ => []⟩ := by
  refine ⟨⟨trivial, trivial, List.nodup_nil, rfl, rfl, ?_, ?_, ?_, ?_, ?_, poolWF_init _⟩,
    ?_, ?_, ?_, ?_, ?_, ?_, ?_, ?_, ?_, ?_, poolWF_init _⟩ <;>
    simp [OrderBook.init, Pool.init]

/-- `LevelsWF` only depends on the level pool, the price map and the heads. -/
theorem levelsWF_congr {s t : OrderBook} {G : BookShape}
    (h2 : t.level_pool_ = s.level_pool_) (h4 : t.price_level_map_ = s.price_level_map_)
    (h5 : t.bids_ = s.bids_) (h6 : t.asks_ = s.asks_)
    (hwf : LevelsWF s G) : LevelsWF t G := by
  have hl : derefLevel t = derefLevel s := by
    funext h
    rw [derefLevel, derefLevel, h2]
  have hlr : lvlRel t = lvlRel s := by
    funext a b
    rw [lvlRel, lvlRel, hl]
  exact ⟨by rw [hlr]; exact hwf.bidsCyc, by rw [hlr]; exact hwf.asksCyc, hwf.lvlNodup,
    by rw [h5]; exact hwf.bidsHead, by rw [h6]; exact hwf.asksHead,
    by rw [h2]; exact hwf.lvlLive, by rw [hl]; exact hwf.bidsSide,
    by rw [hl]; exact hwf.asksSide, by rw [h4, h2, hl]; exact hwf.mapToLvl,
    by rw [h4, h2, hl]; exact hwf.lvlToMap, by rw [h2]; exact hwf.lpool⟩

/-- `BookWF` only depends on the pools, the two maps and the two heads. -/
theorem bookWF_congr {s t : OrderBook} {G : BookShape}
    (h1 : t.order_pool_ = s.order_pool_) (h2 : t.level_pool_ = s.level_pool_)
    (h3 : t.order_map_ = s.order_map_) (h4 : t.price_level_map_ = s.price_level_map_)
    (h5 : t.bids_ = s.bids_) (h6 : t.asks_ = s.asks_)
    (hwf : BookWF s G) : BookWF t G := by
  have ho : derefOrder t = derefOrder s := by
    funext h
    rw [derefOrder, derefOrder, h1]
  have hl : derefLevel t = derefLevel s := by
    funext h
    rw [derefLevel, derefLevel, h2]
  have hor : ordRel t = ordRel s := by
    funext a b
    rw [ordRel, ordRel, ho]
  exact ⟨levelsWF_congr h2 h4 h5 h6 hwf.levels,
    by rw [h2, hor]; exact hwf.fifoCyc,
    by rw [h2]; exact hwf.fifoNodup, by rw [h2, hl]; exact hwf.fifoHead,
    by rw [h2, hl]; exact hwf.fifoCount, by rw [h2, h1]; exact hwf.fifoLive,
    by rw [h2, ho, hl]; exact hwf.fifoPrice, by rw [h2]; exact hwf.fifoDisj,
    by rw [h3, h1, ho]; exact hwf.mapToOrd, by rw [h1, ho, h3]; exact hwf.ordToMap,
    by rw [h1, h2]; exact hwf.ordInFifo, by rw [h1]; exact hwf.opool⟩

/-! ## Derived facts and observable walks -/

theorem bookWF_lvl_bound {s : OrderBook} {G : BookShape} (hwf : BookWF s G)
    {lh : Nat} (h : (s.level_pool_.storage lh).isSome) : lh < MAX_PRICE_LEVELS := by
  by_contra hge
  rw [hwf.levels.lpool.2.2.2 lh (by omega)] at h
  cases h

theorem bookWF_ord_bound {s : OrderBook} {G : BookShape} (hwf : BookWF s G)
    {oh : Nat} (h : (s.order_pool_.storage oh).isSome) : oh < MAX_ORDERS := by
  by_contra hge
  rw [hwf.opool.2.2.2 oh (by omega)] at h
  cases h

theorem bookWF_bids_length {s : OrderBook} {G : BookShape} (hwf : BookWF s G) :
    G.bidsL.length ≤ MAX_PRICE_LEVELS := by
  refine length_le_of_nodup_lt _ _ (hwf.levels.lvlNodup.sublist (List.sublist_append_left _ _)) ?_
  intro a ha
  exact bookWF_lvl_bound hwf ((hwf.levels.lvlLive a).mpr (List.mem_append_left _ ha))

theorem bookWF_asks_length {s : OrderBook} {G : BookShape} (hwf : BookWF s G) :
    G.asksL.length ≤ MAX_PRICE_LEVELS := by
  refine length_le_of_nodup_lt _ _ (hwf.levels.lvlNodup.sublist (List.sublist_append_right _ _)) ?_
  intro a ha
  exact bookWF_lvl_bound hwf ((hwf.levels.lvlLive a).mpr (List.mem_append_right _ ha))

theorem bookWF_fifo_length {s : OrderBook} {G : BookShape} (hwf : BookWF s G)
    {lh : Nat} (h : (s.level_pool_.storage lh).isSome) :
    (G.fifo lh).length ≤ MAX_ORDERS := by
  refine length_le_of_nodup_lt _ _ (hwf.fifoNodup lh h) ?_
  intro a ha
  exact bookWF_ord_bound hwf (hwf.fifoLive lh h a ha)

theorem bookWF_find {s : OrderBook} {G : BookShape} (hwf : BookWF s G)
    {lh : Nat} (h : (s.level_pool_.storage lh).isSome) :
    s.findPriceLevel (derefLevel s lh).price = some lh := by
  rw [OrderBook.findPriceLevel, hwf.levels.lvlToMap lh h]
  simp

theorem bookWF_unique_price {s : OrderBook} {G : BookShape} (hwf : BookWF s G)
    {lh1 lh2 : Nat} (h1 : (s.level_pool_.storage lh1).isSome)
    (h2 : (s.level_pool_.storage lh2).isSome)
    (hp : (derefLevel s lh1).price = (derefLevel s lh2).price) : lh1 = lh2 := by
  have e1 := hwf.levels.lvlToMap lh1 h1
  have e2 := hwf.levels.lvlToMap lh2 h2
  rw [hp, e2] at e1
  exact (Option.some.inj e1).symm

theorem bookWF_find_none {s : OrderBook} {G : BookShape} (hwf : BookWF s G)
    {p : Int} (hf : s.findPriceLevel p = none) {lh : Nat}
    (h : (s.level_pool_.storage lh).isSome) : (derefLevel s lh).price ≠ p := by
  intro he
  rw [← he, bookWF_find hwf h] at hf
  cases hf

/-- The forward orbit of the FIFO `next` pointers from `first`, stopping when
the next pointer returns to `first` (the shape of every do-while FIFO loop in
the source). -/
def nextOrbitGo (s : OrderBook) (first : Nat) : Nat → Nat → List Nat
  | 0, _ => []
  | fuel + 1, cur =>
      cur :: (if (derefOrder s cur).next = first then []
              else nextOrbitGo s first fuel (derefOrder s cur).next)

/-- The members of the FIFO of level `lh`, read off the live data structure. -/
def fifoOrbit (s : OrderBook) (lh : Nat) : List Nat :=
  nextOrbitGo s (derefLevel s lh).first_order MAX_ORDERS (derefLevel s lh).first_order

theorem nextOrbitGo_spec {s : OrderBook} {first : Nat} :
    ∀ (l : List Nat) (z fuel : Nat),
      List.Chain (ordRel s) z (l ++ [first]) →
      first ∉ l →
      l.length + 1 ≤ fuel →
      nextOrbitGo s first fuel z = z :: l := by
  intro l
  induction l with
  | nil =>
    intro z fuel hc _ hf
    rw [List.nil_append, List.chain_cons] at hc
    obtain ⟨fuel, rfl⟩ : ∃ f, fuel = f + 1 := ⟨fuel - 1, by omega⟩
    rw [nextOrbitGo, hc.1.1, if_pos rfl]
  | cons u l' ih =>
    intro z fuel hc hfirst hf
    rw [List.cons_append, List.chain_cons] at hc
    obtain ⟨fuel, rfl⟩ : ∃ f, fuel = f + 1 := ⟨fuel - 1, by omega⟩
    have hne : (derefOrder s z).next ≠ first := by
      rw [hc.1.1]
      intro he
      exact hfirst (by simp [he])
    rw [nextOrbitGo, if_neg hne, hc.1.1]
    rw [ih u fuel hc.2 (fun h => hfirst (by simp [h])) (by simp at hf; omega)]

/-- Under the invariant, the observable FIFO orbit of a live level is the
ghost FIFO list. -/
theorem bookWF_fifoOrbit {s : OrderBook} {G : BookShape} (hwf : BookWF s G)
    {lh : Nat} (h : (s.level_pool_.storage lh).isSome) :
    fifoOrbit s lh = G.fifo lh := by
  have hcyc := hwf.fifoCyc lh h
  have hhead := hwf.fifoHead lh h
  cases hF : G.fifo lh with
  | nil => rw [hF] at hhead; cases hhead
  | cons f rest =>
    rw [hF] at hcyc hhead
    have hfe : f = (derefLevel s lh).first_order := by
      simpa using hhead
    rw [IsCycle_cons] at hcyc
    have hnd := hwf.fifoNodup lh h
    rw [hF] at hnd
    have hflen := bookWF_fifo_length hwf h
    rw [hF] at hflen
    rw [fifoOrbit, ← hfe]
    exact nextOrbitGo_spec rest f MAX_ORDERS hcyc
      (by simpa using (List.nodup_cons.mp hnd).1) (by simpa using hflen)

/-- The predecessor walk of `getOrderRank` along an open `prev` chain. -/
theorem rankWalk_go {s : OrderBook} {start : Nat} :
    ∀ (l : List Nat) (z acc fuel : Nat),
      List.Chain (fun a b => (derefOrder s a).prev = b) z (l ++ [start]) →
      start ∉ z :: l →
      l.length + 2 ≤ fuel →
      rankWalk s start fuel z acc = acc + l.length + 1 := by
  intro l
  induction l with
  | nil =>
    intro z acc fuel hc hs hf
    rw [List.nil_append, List.chain_cons] at hc
    obtain ⟨f1, rfl⟩ : ∃ f, fuel = f + 1 := ⟨fuel - 1, by omega⟩
    rw [rankWalk, if_neg (by simp at hs; exact fun he => hs he.symm), hc.1]
    obtain ⟨f2, rfl⟩ : ∃ f, f1 = f + 1 := ⟨f1 - 1, by omega⟩
    rw [rankWalk, if_pos rfl]
    simp
  | cons u l' ih =>
    intro z acc fuel hc hs hf
    rw [List.cons_append, List.chain_cons] at hc
    obtain ⟨f1, rfl⟩ : ∃ f, fuel = f + 1 := ⟨fuel - 1, by omega⟩
    rw [rankWalk, if_neg (by simp at hs; exact fun he => hs.1 he.symm), hc.1]
    have := ih u (acc + 1) f1 hc.2 (by simp at hs ⊢; tauto) (by simp at hf ⊢; omega)
    rw [this]
    simp
    omega

/-- Under the invariant, the rank walk from a FIFO member counts the whole
FIFO. -/
theorem bookWF_rankWalk {s : OrderBook} {G : BookShape} (hwf : BookWF s G)
    {lh oh : Nat} (h : (s.level_pool_.storage lh).isSome) (hoh : oh ∈ G.fifo lh) :
    rankWalk s oh MAX_ORDERS (derefOrder s oh).prev 1 = (G.fifo lh).length := by
  have hcyc := hwf.fifoCyc lh h
  have hnd := hwf.fifoNodup lh h
  have hlen := bookWF_fifo_length hwf h
  obtain ⟨A, B, hF⟩ := List.append_of_mem hoh
  rw [hF] at hcyc
  have hrot := isCycle_rotate oh A B hcyc
  have hrev := isCycle_reverse oh (B ++ A) hrot
  have hndr : (oh :: (B ++ A)).Nodup := by
    have hp : List.Perm (A ++ oh :: B) (oh :: (B ++ A)) :=
      List.perm_middle.trans (List.Perm.cons _ List.perm_append_comm)
    rw [hF] at hnd
    exact hp.nodup_iff.mp hnd
  rw [IsCycle_cons] at hrev
  cases hBA : (B ++ A).reverse with
  | nil =>
    have hba : A = [] ∧ B = [] := by simpa using hBA
    obtain ⟨hA, hB⟩ := hba
    subst hA
    subst hB
    simp only [List.nil_append, List.append_nil, List.reverse_nil] at hrev hF
    rw [List.chain_cons] at hrev
    have hprev : (derefOrder s oh).prev = oh := hrev.1.2
    rw [hprev]
    obtain ⟨f, hfe⟩ : ∃ f, MAX_ORDERS = f + 1 := ⟨MAX_ORDERS - 1, by decide⟩
    rw [hfe, rankWalk, if_pos rfl, hF]
    simp
  | cons v vs =>
    rw [hBA, List.cons_append, List.chain_cons] at hrev
    have hprev : (derefOrder s oh).prev = v := hrev.1.2
    have hchain : List.Chain (fun a b => (derefOrder s a).prev = b) v (vs ++ [oh]) := by
      refine chain_congr_mem hrev.2 ?_
      intro a b _ _ hr
      exact hr.2
    have hsnot : oh ∉ v :: vs := by
      intro hmem
      have h2 : oh ∈ B ++ A := by
        have h3 : oh ∈ (B ++ A).reverse := by rw [hBA]; exact hmem
        have h4 : oh ∈ A ∨ oh ∈ B := by simpa using h3
        exact List.mem_append.mpr h4.symm
      exact (List.nodup_cons.mp hndr).1 h2
    have hlenF : (G.fifo lh).length = vs.length + 2 := by
      have h1 : A.length + B.length = vs.length + 1 := by
        simpa using congrArg List.length hBA
      rw [hF]
      simp only [List.length_append, List.length_cons]
      omega
    rw [hprev, rankWalk_go vs v 1 MAX_ORDERS hchain hsnot (by rw [hlenF] at hlen; omega),
      hlenF]
    omega

/-! ## Frame lemmas for the pointer writes -/

theorem bookWF_updateBBOSide {s : OrderBook} {G : BookShape} (hwf : BookWF s G)
    (ub ua : Bool) : BookWF (s.updateBBOSide ub ua) G :=
  bookWF_congr (updateBBOSide_order_pool s ub ua) (updateBBOSide_level_pool s ub ua)
    (updateBBOSide_order_map s ub ua) (updateBBOSide_price_level_map s ub ua)
    (updateBBOSide_bids s ub ua) (updateBBOSide_asks s ub ua) hwf

theorem derefOrder_setOrder_same (s : OrderBook) (h : Nat) (f : Order → Order) :
    derefOrder (setOrder s h f) h = f (derefOrder s h) := by
  simp [derefOrder, setOrder]

theorem derefOrder_setOrder_ne (s : OrderBook) (h : Nat) (f : Order → Order)
    {k : Nat} (hk : k ≠ h) : derefOrder (setOrder s h f) k = derefOrder s k := by
  simp [derefOrder, setOrder, Function.update_noteq hk]

theorem derefLevel_setLevel_same (s : OrderBook) (h : Nat) (f : PriceLevel → PriceLevel) :
    derefLevel (setLevel s h f) h = f (derefLevel s h) := by
  simp [derefLevel, setLevel]

theorem derefLevel_setLevel_ne (s : OrderBook) (h : Nat) (f : PriceLevel → PriceLevel)
    {k : Nat} (hk : k ≠ h) : derefLevel (setLevel s h f) k = derefLevel s k := by
  simp [derefLevel, setLevel, Function.update_noteq hk]

theorem derefLevel_setOrder (s : OrderBook) (h : Nat) (f : Order → Order) (k : Nat) :
    derefLevel (setOrder s h f) k = derefLevel s k := rfl

theorem derefOrder_setLevel (s : OrderBook) (h : Nat) (f : PriceLevel → PriceLevel)
    (k : Nat) : derefOrder (setLevel s h f) k = derefOrder s k := rfl

theorem setOrder_storage_isSome (s : OrderBook) (h : Nat) (f : Order → Order)
    (hh : (s.order_pool_.storage h).isSome) (k : Nat) :
    (((setOrder s h f).order_pool_.storage k).isSome) =
      ((s.order_pool_.storage k).isSome) := by
  by_cases hk : k = h
  · subst hk
    simp [setOrder, hh]
  · simp [setOrder, Function.update_noteq hk]

theorem setLevel_storage_isSome (s : OrderBook) (h : Nat) (f : PriceLevel → PriceLevel)
    (hh : (s.level_pool_.storage h).isSome) (k : Nat) :
    (((setLevel s h f).level_pool_.storage k).isSome) =
      ((s.level_pool_.storage k).isSome) := by
  by_cases hk : k = h
  · subst hk
    simp [setLevel, hh]
  · simp [setLevel, Function.update_noteq hk]

theorem setOrder_opool (s : OrderBook) (h : Nat) (f : Order → Order)
    (hh : (s.order_pool_.storage h).isSome) (hwf : poolWF s.order_pool_ MAX_ORDERS) :
    poolWF (setOrder s h f).order_pool_ MAX_ORDERS := by
  obtain ⟨w, hw⟩ := Option.isSome_iff_exists.mp hh
  exact poolWF_overwrite hwf hw

theorem setLevel_lpool (s : OrderBook) (h : Nat) (f : PriceLevel → PriceLevel)
    (hh : (s.level_pool_.storage h).isSome) (hwf : poolWF s.level_pool_ MAX_PRICE_LEVELS) :
    poolWF (setLevel s h f).level_pool_ MAX_PRICE_LEVELS := by
  obtain ⟨w, hw⟩ := Option.isSome_iff_exists.mp hh
  exact poolWF_overwrite hwf hw

theorem rotate_perm (m : Nat) (A B : List Nat) :
    List.Perm (A ++ m :: B) (m :: (B ++ A)) :=
  List.perm_middle.trans (List.Perm.cons _ List.perm_append_comm)

theorem nodup_rotate {m : Nat} {A B : List Nat} (h : (A ++ m :: B).Nodup) :
    (m :: (B ++ A)).Nodup :=
  (rotate_perm m A B).nodup_iff.mp h

theorem isCycle_prev_mem {R : Nat → Nat → Prop} {L : List Nat} {a : Nat}
    (hc : IsCycle R L) (ha : a ∈ L) : ∃ b, b ∈ L ∧ R b a := by
  cases L with
  | nil => cases ha
  | cons x xs =>
    have hrev := isCycle_reverse x xs hc
    have hmem : a ∈ x :: xs.reverse := by
      rcases List.mem_cons.mp ha with h' | h'
      · simp [h']
      · simp [h']
    obtain ⟨b, hb, hr⟩ := isCycle_next_mem hrev hmem
    refine ⟨b, ?_, hr⟩
    rcases List.mem_cons.mp hb with h' | h'
    · simp [h']
    · simp at h'
      simp [h']

theorem isCycle_eq_singleton {R : Nat → Nat → Prop} {L : List Nat} {a : Nat}
    (hc : IsCycle R L) (hnd : L.Nodup) (ha : a ∈ L)
    (hdet : ∀ b, R a b → b = a) : L = [a] := by
  obtain ⟨A, B, rfl⟩ := List.append_of_mem ha
  have hrot := isCycle_rotate a A B hc
  have hndr := nodup_rotate hnd
  rw [IsCycle_cons] at hrot
  cases hBA : B ++ A with
  | nil =>
    obtain ⟨hB, hA⟩ := List.append_eq_nil.mp hBA
    rw [hA, hB]
    rfl
  | cons u v =>
    rw [hBA, List.cons_append, List.chain_cons] at hrot
    have hu : u = a := hdet u hrot.1
    exfalso
    have : u ∈ B ++ A := by rw [hBA]; simp
    rw [hu] at this
    exact (List.nodup_cons.mp hndr).1 this

/-- Generic unlink of one element from a doubly-linked cycle: the element
before `lh` takes over its next pointer, the element after takes over its
prev pointer, and every other link is untouched. -/
theorem cycle_erase_update (n p n' p' : Nat → Nat) {L : List Nat} {lh : Nat}
    (hc : IsCycle (fun a b => n a = b ∧ p b = a) L)
    (hnd : L.Nodup) (hin : lh ∈ L) (hself : n lh ≠ lh)
    (hn' : n' (p lh) = n lh)
    (hp' : p' (n lh) = p lh)
    (hrn : ∀ k, k ≠ lh → k ≠ p lh → n' k = n k)
    (hrp : ∀ k, k ≠ lh → k ≠ n lh → p' k = p k) :
    p lh ∈ L ∧ n lh ∈ L ∧ n lh ≠ lh ∧
    IsCycle (fun a b => n' a = b ∧ p' b = a) (L.erase lh) ∧
    (L.head? = some lh → (L.erase lh).head? = some (n lh)) ∧
    (L.head? ≠ some lh → (L.erase lh).head? = L.head?) := by
  obtain ⟨A, B, hdec⟩ := List.append_of_mem hin
  obtain ⟨pv, hpv_mem, hpv⟩ := isCycle_prev_mem hc hin
  have hpv_eq : pv = p lh := hpv.2.symm
  obtain ⟨nx, hnx_mem, hnx⟩ := isCycle_next_mem hc hin
  have hnx_eq : nx = n lh := hnx.1.symm
  have hpmem : p lh ∈ L := hpv_eq ▸ hpv_mem
  have hnmem : n lh ∈ L := hnx_eq ▸ hnx_mem
  have hpl : n (p lh) = lh := by rw [← hpv_eq]; exact hpv.1
  have hnl : p (n lh) = lh := by rw [← hnx_eq]; exact hnx.2
  have hndDec : (A ++ lh :: B).Nodup := hdec ▸ hnd
  have hlh_notA : lh ∉ A := by
    intro ha
    exact (List.disjoint_of_nodup_append hndDec) ha (by simp)
  have hlh_notB : lh ∉ B := by
    have h2 : (lh :: B).Nodup := hndDec.sublist (List.sublist_append_right _ _)
    exact (List.nodup_cons.mp h2).1
  have hrel_transfer : ∀ a b, a ≠ lh → b ≠ lh → (n a = b ∧ p b = a) →
      n' a = b ∧ p' b = a := by
    intro a b hane hbne hr
    have hanp : a ≠ p lh := by
      intro he
      rw [he, hpl] at hr
      exact hbne hr.1.symm
    have hbnn : b ≠ n lh := by
      intro he
      rw [he, hnl] at hr
      exact hane hr.2.symm
    exact ⟨by rw [hrn a hane hanp]; exact hr.1, by rw [hrp b hbne hbnn]; exact hr.2⟩
  have hBA_ne : B ++ A ≠ [] := by
    intro hBA
    obtain ⟨hB, hA⟩ := List.append_eq_nil.mp hBA
    rw [hA, hB] at hdec
    simp only [List.nil_append] at hdec
    rw [hdec, IsCycle_cons] at hc
    rw [List.nil_append, List.chain_cons] at hc
    exact hself hc.1.1
  have hnx_head : ∀ u us, B ++ A = u :: us → n lh = u := by
    intro u us hBA
    have hrot := isCycle_rotate lh A B (hdec ▸ hc)
    rw [IsCycle_cons, hBA, List.cons_append, List.chain_cons] at hrot
    exact hrot.1.1
  refine ⟨hpmem, hnmem, hself, ?_⟩
  cases hA : A with
  | nil =>
    rw [hA, List.nil_append] at hdec
    cases hB : B with
    | nil =>
      exfalso
      apply hBA_ne
      rw [hA, hB]
      rfl
    | cons t ts =>
      rw [hB] at hdec
      have hnxt : n lh = t := by
        apply hnx_head t (ts ++ A)
        simp [hB, hA]
      have hc2 : IsCycle (fun a b => n a = b ∧ p b = a) (lh :: t :: ts) := hdec ▸ hc
      have hcy : IsCycle (fun a b => n' a = b ∧ p' b = a) (t :: ts) := by
        refine isCycle_eraseHead lh t ts hc2 ?_ ?_
        · intro a b ha hb hr
          have hlh_notB2 : lh ∉ t :: ts := hB ▸ hlh_notB
          have hane : a ≠ lh := fun he => hlh_notB2 (he ▸ ha)
          have hbne : b ≠ lh := fun he => hlh_notB2 (List.mem_cons_of_mem t (he ▸ hb))
          exact hrel_transfer a b hane hbne hr
        · intro a ha hr
          have hape : p lh = a := hr.2
          constructor
          · rw [← hape, hn', hnxt]
          · rw [← hnxt, hp', hape]
      rw [hdec]
      rw [List.erase_cons_head]
      refine ⟨hcy, ?_, ?_⟩
      · intro _
        rw [hnxt]
        rfl
      · intro hne
        exfalso
        exact hne rfl
  | cons x A' =>
    rw [hA] at hdec
    rw [List.cons_append] at hdec
    have hndx : (x :: (A' ++ lh :: B)).Nodup := hdec ▸ hnd
    have hxne : x ≠ lh := by
      intro he
      exact (List.nodup_cons.mp hndx).1 (by rw [← he]; simp)
    have hlh_notxA : lh ∉ x :: A' := by
      intro hmem2
      rcases List.mem_cons.mp hmem2 with h2 | h2
      · exact hxne h2.symm
      · rw [hA] at hlh_notA
        exact hlh_notA (List.mem_cons_of_mem x h2)
    have hhead_eq : (B ++ [x]).head (by simp) = n lh := by
      cases hB : B with
      | nil =>
        have := hnx_head x A' (by rw [hB, hA]; rfl)
        rw [this]
        rfl
      | cons u us =>
        have := hnx_head u (us ++ A) (by rw [hB, hA]; rfl)
        rw [this]
        rfl
    have hc2 : IsCycle (fun a b => n a = b ∧ p b = a) (x :: (A' ++ lh :: B)) :=
      hdec ▸ hc
    have hcy : IsCycle (fun a b => n' a = b ∧ p' b = a) (x :: (A' ++ B)) := by
      refine isCycle_eraseMid x lh A' B hndx hc2 ?_ ?_
      · intro a b ha hb hr
        have hlh_notNew : lh ∉ x :: (A' ++ B) := by
          intro hmem2
          rcases List.mem_cons.mp hmem2 with h2 | h2
          · exact hxne h2.symm
          · rcases List.mem_append.mp h2 with h3 | h3
            · rw [hA] at hlh_notA
              exact hlh_notA (List.mem_cons_of_mem x h3)
            · exact hlh_notB h3
        exact hrel_transfer a b (fun he => hlh_notNew (he ▸ ha))
          (fun he => hlh_notNew (he ▸ hb)) hr
      · intro a ha hr
        have hape : p lh = a := hr.2
        constructor
        · rw [← hape, hn', ← hhead_eq]
        · rw [hhead_eq, hp', hape]
    have herase : (x :: (A' ++ lh :: B)).erase lh = x :: (A' ++ B) := by
      have h2 : (x :: A' ++ lh :: B).erase lh = (x :: A') ++ (lh :: B).erase lh :=
        List.erase_append_right _ hlh_notxA
      rw [List.cons_append] at h2
      rw [h2, List.erase_cons_head]
      rfl
    rw [hdec, herase]
    refine ⟨hcy, ?_, ?_⟩
    · intro h2
      exfalso
      rw [List.head?_cons] at h2
      exact hxne (Option.some.inj h2)
    · intro _
      rfl

/-- What `removePriceLevel` does to the level-side state, relative to a shape
that contains the removed level. -/
def RemoveFacts (s : OrderBook) (G : BookShape) (lh : Nat) : Prop :=
  LevelsWF (s.removePriceLevel lh) ⟨G.bidsL.erase lh, G.asksL.erase lh, G.fifo⟩ ∧
  (s.removePriceLevel lh).order_pool_ = s.order_pool_ ∧
  (s.removePriceLevel lh).order_map_ = s.order_map_ ∧
  (∀ k, ((s.removePriceLevel lh).level_pool_.storage k).isSome ↔
      ((s.level_pool_.storage k).isSome ∧ k ≠ lh)) ∧
  (∀ k, k ≠ lh →
      (derefLevel (s.removePriceLevel lh) k).price = (derefLevel s k).price ∧
      (derefLevel (s.removePriceLevel lh) k).side = (derefLevel s k).side ∧
      (derefLevel (s.removePriceLevel lh) k).first_order = (derefLevel s k).first_order ∧
      (derefLevel (s.removePriceLevel lh) k).order_count = (derefLevel s k).order_count)

theorem removePriceLevel_facts_sole {s : OrderBook} {G : BookShape} {lh : Nat}
    (hwf : LevelsWF s G) (hlive : (s.level_pool_.storage lh).isSome)
    (hnext : (derefLevel s lh).next = lh) : RemoveFacts s G lh := by
  have hmem : lh ∈ G.bidsL ++ G.asksL := (hwf.lvlLive lh).mp hlive
  have hdisj := List.disjoint_of_nodup_append hwf.lvlNodup
  have hinj : ∀ k, (s.level_pool_.storage k).isSome → k ≠ lh →
      priceToIndex (derefLevel s k).price ≠ priceToIndex (derefLevel s lh).price := by
    intro k hk hkl he
    have e1 := hwf.lvlToMap k hk
    have e2 := hwf.lvlToMap lh hlive
    rw [he, e2] at e1
    exact hkl (Option.some.inj e1).symm
  obtain ⟨w, hw⟩ := Option.isSome_iff_exists.mp hlive
  rcases List.mem_append.mp hmem with hin | hin
  · have hside : (derefLevel s lh).side = Side.BUY := hwf.bidsSide lh hin
    have hndb : G.bidsL.Nodup := hwf.lvlNodup.sublist (List.sublist_append_left _ _)
    have hbl : G.bidsL = [lh] :=
      isCycle_eq_singleton hwf.bidsCyc hndb hin (fun b hr => by rw [← hr.1, hnext])
    have hnotask : lh ∉ G.asksL := hdisj hin
    have hstate : s.removePriceLevel lh = { s with
        price_level_map_ := Function.update s.price_level_map_
            (priceToIndex (derefLevel s lh).price) none,
        bids_ := none,
        level_pool_ := ⟨Function.update s.level_pool_.storage lh none,
            Function.update s.level_pool_.freeArr s.level_pool_.freeCount lh,
            s.level_pool_.freeCount + 1⟩ } := by
      simp only [OrderBook.removePriceLevel]
      rw [if_pos hnext]
      simp only [hside]
      rfl
    have hPM : (s.removePriceLevel lh).price_level_map_ =
        Function.update s.price_level_map_ (priceToIndex (derefLevel s lh).price) none := by
      rw [hstate]
    have hB : (s.removePriceLevel lh).bids_ = none := by rw [hstate]
    have hA : (s.removePriceLevel lh).asks_ = s.asks_ := by rw [hstate]
    have hOP : (s.removePriceLevel lh).order_pool_ = s.order_pool_ := by rw [hstate]
    have hOM : (s.removePriceLevel lh).order_map_ = s.order_map_ := by rw [hstate]
    have hST : ∀ k, (s.removePriceLevel lh).level_pool_.storage k =
        Function.update s.level_pool_.storage lh none k := by
      intro k
      rw [hstate]
    have hder : ∀ k, k ≠ lh → derefLevel (s.removePriceLevel lh) k = derefLevel s k := by
      intro k hk
      rw [derefLevel, hST, Function.update_noteq hk, derefLevel]
    have hlive2 : ∀ k, ((s.removePriceLevel lh).level_pool_.storage k).isSome ↔
        ((s.level_pool_.storage k).isSome ∧ k ≠ lh) := by
      intro k
      rw [hST]
      by_cases hk : k = lh
      · rw [hk, Function.update_same]
        simp
      · rw [Function.update_noteq hk]
        simp [hk]
    have hlpool : poolWF (s.removePriceLevel lh).level_pool_ MAX_PRICE_LEVELS := by
      have : (s.removePriceLevel lh).level_pool_ = s.level_pool_.deallocate lh := by
        rw [hstate]
        rfl
      rw [this]
      exact poolWF_deallocate hwf.lpool hw
    refine ⟨⟨?_, ?_, ?_, ?_, ?_, ?_, ?_, ?_, ?_, ?_, hlpool⟩, hOP, hOM, hlive2, ?_⟩
    · rw [hbl]
      simp only [List.erase_cons_head]
      trivial
    · rw [List.erase_of_not_mem hnotask]
      refine isCycle_congr hwf.asksCyc ?_
      intro a b ha hb hr
      have ha' : a ≠ lh := fun he => hnotask (he ▸ ha)
      have hb' : b ≠ lh := fun he => hnotask (he ▸ hb)
      rw [lvlRel] at hr ⊢
      rw [hder a ha', hder b hb']
      exact hr
    · rw [hbl, List.erase_of_not_mem hnotask]
      simp only [List.erase_cons_head, List.nil_append]
      exact hwf.lvlNodup.sublist (List.sublist_append_right _ _)
    · rw [hB, hbl]
      simp
    · rw [hA, List.erase_of_not_mem hnotask]
      exact hwf.asksHead
    · intro k
      rw [hlive2, hbl, List.erase_of_not_mem hnotask]
      simp only [List.erase_cons_head, List.nil_append]
      rw [hwf.lvlLive, hbl]
      constructor
      · rintro ⟨h1, h2⟩
        simpa [h2] using h1
      · intro h1
        refine ⟨by simp [h1], ?_⟩
        intro he
        rw [he] at h1
        exact hnotask h1
    · intro k hk
      rw [hbl] at hk
      simp at hk
    · intro k hk
      rw [List.erase_of_not_mem hnotask] at hk
      have hk' : k ≠ lh := fun he => hnotask (he ▸ hk)
      rw [hder k hk']
      exact hwf.asksSide k hk
    · intro i k hik
      rw [hPM] at hik
      by_cases hi : i = priceToIndex (derefLevel s lh).price
      · rw [hi, Function.update_same] at hik
        cases hik
      · rw [Function.update_noteq hi] at hik
        obtain ⟨hk1, hk2⟩ := hwf.mapToLvl i k hik
        have hkl : k ≠ lh := by
          intro he
          rw [he] at hk2
          exact hi hk2.symm
        rw [hlive2, hder k hkl]
        exact ⟨⟨hk1, hkl⟩, hk2⟩
    · intro k hk
      rw [hlive2] at hk
      rw [hPM, hder k hk.2, Function.update_noteq (hinj k hk.1 hk.2)]
      exact hwf.lvlToMap k hk.1
    · intro k hk
      rw [hder k hk]
      exact ⟨rfl, rfl, rfl, rfl⟩
  · have hside : (derefLevel s lh).side = Side.SELL := hwf.asksSide lh hin
    have hnda : G.asksL.Nodup := hwf.lvlNodup.sublist (List.sublist_append_right _ _)
    have hal : G.asksL = [lh] :=
      isCycle_eq_singleton hwf.asksCyc hnda hin (fun b hr => by rw [← hr.1, hnext])
    have hnotbid : lh ∉ G.bidsL := fun hmem2 => hdisj hmem2 hin
    have hstate : s.removePriceLevel lh = { s with
        price_level_map_ := Function.update s.price_level_map_
            (priceToIndex (derefLevel s lh).price) none,
        asks_ := none,
        level_pool_ := ⟨Function.update s.level_pool_.storage lh none,
            Function.update s.level_pool_.freeArr s.level_pool_.freeCount lh,
            s.level_pool_.freeCount + 1⟩ } := by
      simp only [OrderBook.removePriceLevel]
      rw [if_pos hnext]
      simp only [hside]
      rfl
    have hPM : (s.removePriceLevel lh).price_level_map_ =
        Function.update s.price_level_map_ (priceToIndex (derefLevel s lh).price) none := by
      rw [hstate]
    have hB : (s.removePriceLevel lh).bids_ = s.bids_ := by rw [hstate]
    have hA : (s.removePriceLevel lh).asks_ = none := by rw [hstate]
    have hOP : (s.removePriceLevel lh).order_pool_ = s.order_pool_ := by rw [hstate]
    have hOM : (s.removePriceLevel lh).order_map_ = s.order_map_ := by rw [hstate]
    have hST : ∀ k, (s.removePriceLevel lh).level_pool_.storage k =
        Function.update s.level_pool_.storage lh none k := by
      intro k
      rw [hstate]
    have hder : ∀ k, k ≠ lh → derefLevel (s.removePriceLevel lh) k = derefLevel s k := by
      intro k hk
      rw [derefLevel, hST, Function.update_noteq hk, derefLevel]
    have hlive2 : ∀ k, ((s.removePriceLevel lh).level_pool_.storage k).isSome ↔
        ((s.level_pool_.storage k).isSome ∧ k ≠ lh) := by
      intro k
      rw [hST]
      by_cases hk : k = lh
      · rw [hk, Function.update_same]
        simp
      · rw [Function.update_noteq hk]
        simp [hk]
    have hlpool : poolWF (s.removePriceLevel lh).level_pool_ MAX_PRICE_LEVELS := by
      have : (s.removePriceLevel lh).level_pool_ = s.level_pool_.deallocate lh := by
        rw [hstate]
        rfl
      rw [this]
      exact poolWF_deallocate hwf.lpool hw
    refine ⟨⟨?_, ?_, ?_, ?_, ?_, ?_, ?_, ?_, ?_, ?_, hlpool⟩, hOP, hOM, hlive2, ?_⟩
    · rw [List.erase_of_not_mem hnotbid]
      refine isCycle_congr hwf.bidsCyc ?_
      intro a b ha hb hr
      have ha' : a ≠ lh := fun he => hnotbid (he ▸ ha)
      have hb' : b ≠ lh := fun he => hnotbid (he ▸ hb)
      rw [lvlRel] at hr ⊢
      rw [hder a ha', hder b hb']
      exact hr
    · rw [hal]
      simp only [List.erase_cons_head]
      trivial
    · rw [hal, List.erase_of_not_mem hnotbid]
      simp only [List.erase_cons_head, List.append_nil]
      exact hwf.lvlNodup.sublist (List.sublist_append_left _ _)
    · rw [hB, List.erase_of_not_mem hnotbid]
      exact hwf.bidsHead
    · rw [hA, hal]
      simp
    · intro k
      rw [hlive2, hal, List.erase_of_not_mem hnotbid]
      simp only [List.erase_cons_head, List.append_nil]
      rw [hwf.lvlLive, hal]
      constructor
      · rintro ⟨h1, h2⟩
        have h3 : k ∈ G.bidsL ∨ k ∈ [lh] := List.mem_append.mp h1
        rcases h3 with h3 | h3
        · exact h3
        · simp at h3
          exact absurd h3 h2
      · intro h1
        refine ⟨List.mem_append_left _ h1, ?_⟩
        intro he
        rw [he] at h1
        exact hnotbid h1
    · intro k hk
      rw [List.erase_of_not_mem hnotbid] at hk
      have hk' : k ≠ lh := fun he => hnotbid (he ▸ hk)
      rw [hder k hk']
      exact hwf.bidsSide k hk
    · intro k hk
      rw [hal] at hk
      simp at hk
    · intro i k hik
      rw [hPM] at hik
      by_cases hi : i = priceToIndex (derefLevel s lh).price
      · rw [hi, Function.update_same] at hik
        cases hik
      · rw [Function.update_noteq hi] at hik
        obtain ⟨hk1, hk2⟩ := hwf.mapToLvl i k hik
        have hkl : k ≠ lh := by
          intro he
          rw [he] at hk2
          exact hi hk2.symm
        rw [hlive2, hder k hkl]
        exact ⟨⟨hk1, hkl⟩, hk2⟩
    · intro k hk
      rw [hlive2] at hk
      rw [hPM, hder k hk.2, Function.update_noteq (hinj k hk.1 hk.2)]
      exact hwf.lvlToMap k hk.1
    · intro k hk
      rw [hder k hk]
      exact ⟨rfl, rfl, rfl, rfl⟩

theorem removePriceLevel_facts_multi {s : OrderBook} {G : BookShape} {lh : Nat}
    (hwf : LevelsWF s G) (hlive : (s.level_pool_.storage lh).isSome)
    (hnext : (derefLevel s lh).next ≠ lh) : RemoveFacts s G lh := by
  have hmem : lh ∈ G.bidsL ++ G.asksL := (hwf.lvlLive lh).mp hlive
  have hdisj := List.disjoint_of_nodup_append hwf.lvlNodup
  have hinj : ∀ k, (s.level_pool_.storage k).isSome → k ≠ lh →
      priceToIndex (derefLevel s k).price ≠ priceToIndex (derefLevel s lh).price := by
    intro k hk hkl he
    have e1 := hwf.lvlToMap k hk
    have e2 := hwf.lvlToMap lh hlive
    rw [he, e2] at e1
    exact hkl (Option.some.inj e1).symm
  obtain ⟨w, hw⟩ := Option.isSome_iff_exists.mp hlive
  have hfieldsCH : ∀ k,
      (derefLevel (setLevel (setLevel s (derefLevel s lh).prev (fun x => { x with next := (derefLevel s lh).next })) (derefLevel s lh).next (fun x => { x with prev := (derefLevel s lh).prev })) k).price = (derefLevel s k).price ∧
      (derefLevel (setLevel (setLevel s (derefLevel s lh).prev (fun x => { x with next := (derefLevel s lh).next })) (derefLevel s lh).next (fun x => { x with prev := (derefLevel s lh).prev })) k).side = (derefLevel s k).side ∧
      (derefLevel (setLevel (setLevel s (derefLevel s lh).prev (fun x => { x with next := (derefLevel s lh).next })) (derefLevel s lh).next (fun x => { x with prev := (derefLevel s lh).prev })) k).first_order = (derefLevel s k).first_order ∧
      (derefLevel (setLevel (setLevel s (derefLevel s lh).prev (fun x => { x with next := (derefLevel s lh).next })) (derefLevel s lh).next (fun x => { x with prev := (derefLevel s lh).prev })) k).order_count = (derefLevel s k).order_count := by
    intro k
    by_cases hk1 : k = (derefLevel s lh).next
    · rw [hk1, derefLevel_setLevel_same]
      by_cases hk2 : ((derefLevel s lh).next : Nat) = (derefLevel s lh).prev
      · rw [hk2, derefLevel_setLevel_same]
        exact ⟨rfl, rfl, rfl, rfl⟩
      · rw [derefLevel_setLevel_ne _ _ _ hk2]
        exact ⟨rfl, rfl, rfl, rfl⟩
    · rw [derefLevel_setLevel_ne _ _ _ hk1]
      by_cases hk2 : k = (derefLevel s lh).prev
      · rw [hk2, derefLevel_setLevel_same]
        exact ⟨rfl, rfl, rfl, rfl⟩
      · rw [derefLevel_setLevel_ne _ _ _ hk2]
        exact ⟨rfl, rfl, rfl, rfl⟩
  have hnpvCH : (derefLevel (setLevel (setLevel s (derefLevel s lh).prev (fun x => { x with next := (derefLevel s lh).next })) (derefLevel s lh).next (fun x => { x with prev := (derefLevel s lh).prev })) (derefLevel s lh).prev).next = (derefLevel s lh).next := by
    by_cases hk2 : ((derefLevel s lh).prev : Nat) = (derefLevel s lh).next
    · rw [hk2, derefLevel_setLevel_same]
      rw [← hk2, derefLevel_setLevel_same]
    · rw [derefLevel_setLevel_ne _ _ _ hk2, derefLevel_setLevel_same]
  have hpnxCH : (derefLevel (setLevel (setLevel s (derefLevel s lh).prev (fun x => { x with next := (derefLevel s lh).next })) (derefLevel s lh).next (fun x => { x with prev := (derefLevel s lh).prev })) (derefLevel s lh).next).prev = (derefLevel s lh).prev := by
    rw [derefLevel_setLevel_same]
  have hrnCH : ∀ k, k ≠ (derefLevel s lh).prev → (derefLevel (setLevel (setLevel s (derefLevel s lh).prev (fun x => { x with next := (derefLevel s lh).next })) (derefLevel s lh).next (fun x => { x with prev := (derefLevel s lh).prev })) k).next = (derefLevel s k).next := by
    intro k hk
    by_cases hk1 : k = (derefLevel s lh).next
    · rw [hk1, derefLevel_setLevel_same, derefLevel_setLevel_ne _ _ _ (hk1 ▸ hk)]
    · rw [derefLevel_setLevel_ne _ _ _ hk1, derefLevel_setLevel_ne _ _ _ hk]
  have hrpCH : ∀ k, k ≠ (derefLevel s lh).next → (derefLevel (setLevel (setLevel s (derefLevel s lh).prev (fun x => { x with next := (derefLevel s lh).next })) (derefLevel s lh).next (fun x => { x with prev := (derefLevel s lh).prev })) k).prev = (derefLevel s k).prev := by
    intro k hk
    rw [derefLevel_setLevel_ne _ _ _ hk]
    by_cases hk2 : k = (derefLevel s lh).prev
    · rw [hk2, derefLevel_setLevel_same]
    · rw [derefLevel_setLevel_ne _ _ _ hk2]
  have hliveCH : (s.level_pool_.storage (derefLevel s lh).prev).isSome →
      (s.level_pool_.storage (derefLevel s lh).next).isSome →
      ∀ k, ((setLevel (setLevel s (derefLevel s lh).prev (fun x => { x with next := (derefLevel s lh).next })) (derefLevel s lh).next (fun x => { x with prev := (derefLevel s lh).prev })).level_pool_.storage k).isSome = (s.level_pool_.storage k).isSome := by
    intro hpv2 hnx2 k
    have h1 : (((setLevel s (derefLevel s lh).prev (fun x => { x with next := (derefLevel s lh).next })).level_pool_.storage (derefLevel s lh).next).isSome) =
        (s.level_pool_.storage (derefLevel s lh).next).isSome :=
      setLevel_storage_isSome s (derefLevel s lh).prev _ hpv2 (derefLevel s lh).next
    rw [setLevel_storage_isSome (setLevel s (derefLevel s lh).prev (fun x => { x with next := (derefLevel s lh).next })) (derefLevel s lh).next _ (by rw [h1]; exact hnx2) k]
    exact setLevel_storage_isSome s (derefLevel s lh).prev _ hpv2 k
  have hstCH : ∀ k, k ≠ (derefLevel s lh).prev → k ≠ (derefLevel s lh).next →
      (setLevel (setLevel s (derefLevel s lh).prev (fun x => { x with next := (derefLevel s lh).next })) (derefLevel s lh).next (fun x => { x with prev := (derefLevel s lh).prev })).level_pool_.storage k = s.level_pool_.storage k := by
    intro k h1 h2
    show (Function.update ((setLevel s (derefLevel s lh).prev (fun x => { x with next := (derefLevel s lh).next })).level_pool_.storage) (derefLevel s lh).next _) k = _
    rw [Function.update_noteq h2]
    show (Function.update (s.level_pool_.storage) (derefLevel s lh).prev _) k = _
    rw [Function.update_noteq h1]
  rcases List.mem_append.mp hmem with hin | hin
  · have hside : (derefLevel s lh).side = Side.BUY := hwf.bidsSide lh hin
    have hndb : (G.bidsL).Nodup := hwf.lvlNodup.sublist (List.sublist_append_left _ _)
    have hnotother : lh ∉ G.asksL := hdisj hin
    have hstate : s.removePriceLevel lh = { setLevel (setLevel s (derefLevel s lh).prev (fun x => { x with next := (derefLevel s lh).next })) (derefLevel s lh).next (fun x => { x with prev := (derefLevel s lh).prev }) with
        price_level_map_ := Function.update s.price_level_map_
            (priceToIndex (derefLevel s lh).price) none,
        bids_ := if s.bids_ = some lh then some (derefLevel s lh).next else s.bids_,
        level_pool_ := (setLevel (setLevel s (derefLevel s lh).prev (fun x => { x with next := (derefLevel s lh).next })) (derefLevel s lh).next (fun x => { x with prev := (derefLevel s lh).prev })).level_pool_.deallocate lh } := by
      simp only [OrderBook.removePriceLevel]
      rw [if_neg hnext]
      simp only [hside]
      by_cases hb : s.bids_ = some lh
      · rw [if_pos (show (setLevel (setLevel { s with price_level_map_ := Function.update s.price_level_map_ (priceToIndex (derefLevel s lh).price) none } (derefLevel s lh).prev (fun x => { x with next := (derefLevel s lh).next })) (derefLevel s lh).next (fun x => { x with prev := (derefLevel s lh).prev })).bids_ = some lh from hb), if_pos hb]
        rfl
      · rw [if_neg (show ¬ (setLevel (setLevel { s with price_level_map_ := Function.update s.price_level_map_ (priceToIndex (derefLevel s lh).price) none } (derefLevel s lh).prev (fun x => { x with next := (derefLevel s lh).next })) (derefLevel s lh).next (fun x => { x with prev := (derefLevel s lh).prev })).bids_ = some lh from hb), if_neg hb]
        rfl
    have hPM : (s.removePriceLevel lh).price_level_map_ = Function.update s.price_level_map_
        (priceToIndex (derefLevel s lh).price) none := by rw [hstate]
    have hOP : (s.removePriceLevel lh).order_pool_ = s.order_pool_ := by
      rw [hstate]
      rfl
    have hOM : (s.removePriceLevel lh).order_map_ = s.order_map_ := by
      rw [hstate]
      rfl
    have hB : (s.removePriceLevel lh).bids_ = if s.bids_ = some lh then some (derefLevel s lh).next else s.bids_ := by
      rw [hstate]
    have hA : (s.removePriceLevel lh).asks_ = s.asks_ := by
      rw [hstate]
      rfl
    have hST : ∀ k, (s.removePriceLevel lh).level_pool_.storage k =
        Function.update ((setLevel (setLevel s (derefLevel s lh).prev (fun x => { x with next := (derefLevel s lh).next })) (derefLevel s lh).next (fun x => { x with prev := (derefLevel s lh).prev })).level_pool_.storage) lh none k := by
      intro k
      rw [hstate]
      rfl
    have hder : ∀ k, k ≠ lh → derefLevel (s.removePriceLevel lh) k = derefLevel (setLevel (setLevel s (derefLevel s lh).prev (fun x => { x with next := (derefLevel s lh).next })) (derefLevel s lh).next (fun x => { x with prev := (derefLevel s lh).prev })) k := by
      intro k hk
      rw [derefLevel, hST k, Function.update_noteq hk]
      rfl
    have hfields : ∀ k, k ≠ lh →
        (derefLevel (s.removePriceLevel lh) k).price = (derefLevel s k).price ∧
        (derefLevel (s.removePriceLevel lh) k).side = (derefLevel s k).side ∧
        (derefLevel (s.removePriceLevel lh) k).first_order = (derefLevel s k).first_order ∧
        (derefLevel (s.removePriceLevel lh) k).order_count = (derefLevel s k).order_count := by
      intro k hk
      rw [hder k hk]
      exact hfieldsCH k
    have hPVlh : (derefLevel s lh).prev ≠ lh := by
      obtain ⟨pvv, hpv_mem, hpvv⟩ := isCycle_prev_mem hwf.bidsCyc hin
      have he : pvv = (derefLevel s lh).prev := hpvv.2.symm
      intro he2
      apply hnext
      have h3 : pvv = lh := he.trans he2
      rw [h3] at hpvv
      exact hpvv.1
    have herase := cycle_erase_update (fun k => (derefLevel s k).next)
      (fun k => (derefLevel s k).prev)
      (fun k => (derefLevel (s.removePriceLevel lh) k).next)
      (fun k => (derefLevel (s.removePriceLevel lh) k).prev) hwf.bidsCyc hndb hin hnext
      (by show (derefLevel (s.removePriceLevel lh) (derefLevel s lh).prev).next = (derefLevel s lh).next
          rw [hder _ hPVlh]
          exact hnpvCH)
      (by show (derefLevel (s.removePriceLevel lh) (derefLevel s lh).next).prev = (derefLevel s lh).prev
          rw [hder _ hnext]
          exact hpnxCH)
      (fun k hk1 hk2 => by
        show (derefLevel (s.removePriceLevel lh) k).next = (derefLevel s k).next
        rw [hder k hk1]
        exact hrnCH k hk2)
      (fun k hk1 hk2 => by
        show (derefLevel (s.removePriceLevel lh) k).prev = (derefLevel s k).prev
        rw [hder k hk1]
        exact hrpCH k hk2)
    obtain ⟨hpmem0, hnmem0, -, hcyc2, hhead1, hhead2⟩ := herase
    have hpmem : (derefLevel s lh).prev ∈ G.bidsL := hpmem0
    have hnmem : (derefLevel s lh).next ∈ G.bidsL := hnmem0
    have hlivePV : (s.level_pool_.storage (derefLevel s lh).prev).isSome :=
      (hwf.lvlLive _).mpr (List.mem_append_left _ hpmem)
    have hliveNX : (s.level_pool_.storage (derefLevel s lh).next).isSome :=
      (hwf.lvlLive _).mpr (List.mem_append_left _ hnmem)
    have hlive2 : ∀ k, ((s.removePriceLevel lh).level_pool_.storage k).isSome ↔
        ((s.level_pool_.storage k).isSome ∧ k ≠ lh) := by
      intro k
      rw [hST k]
      by_cases hk : k = lh
      · rw [hk, Function.update_same]
        simp
      · rw [Function.update_noteq hk, hliveCH hlivePV hliveNX k]
        simp [hk]
    have hlpool : poolWF (s.removePriceLevel lh).level_pool_ MAX_PRICE_LEVELS := by
      have e1 : (s.removePriceLevel lh).level_pool_ = (setLevel (setLevel s (derefLevel s lh).prev (fun x => { x with next := (derefLevel s lh).next })) (derefLevel s lh).next (fun x => { x with prev := (derefLevel s lh).prev })).level_pool_.deallocate lh := by rw [hstate]
      rw [e1]
      have hCHlh : (setLevel (setLevel s (derefLevel s lh).prev (fun x => { x with next := (derefLevel s lh).next })) (derefLevel s lh).next (fun x => { x with prev := (derefLevel s lh).prev })).level_pool_.storage lh = some w := by
        rw [hstCH lh (Ne.symm hPVlh) (Ne.symm hnext)]
        exact hw
      refine poolWF_deallocate ?_ hCHlh
      obtain ⟨wp, hwp⟩ := Option.isSome_iff_exists.mp hlivePV
      have hp1 : poolWF (setLevel s (derefLevel s lh).prev (fun x => { x with next := (derefLevel s lh).next })).level_pool_ MAX_PRICE_LEVELS :=
        poolWF_overwrite hwf.lpool hwp
      have hnx1 : ((setLevel s (derefLevel s lh).prev (fun x => { x with next := (derefLevel s lh).next })).level_pool_.storage (derefLevel s lh).next).isSome := by
        rw [setLevel_storage_isSome s _ _ hlivePV]
        exact hliveNX
      obtain ⟨wn, hwn⟩ := Option.isSome_iff_exists.mp hnx1
      exact poolWF_overwrite hp1 hwn
    refine ⟨⟨?_, ?_, ?_, ?_, ?_, ?_, ?_, ?_, ?_, ?_, hlpool⟩, hOP, hOM, hlive2, hfields⟩
    · exact hcyc2
    · rw [List.erase_of_not_mem hnotother]
      refine isCycle_congr hwf.asksCyc ?_
      intro a b ha hb hr
      have hana : a ≠ lh := fun he => hnotother (he ▸ ha)
      have hbna : b ≠ lh := fun he => hnotother (he ▸ hb)
      have hanp : a ≠ (derefLevel s lh).prev := fun he => hdisj hpmem (he ▸ ha)
      have hbnn : b ≠ (derefLevel s lh).next := fun he => hdisj hnmem (he ▸ hb)
      refine ⟨?_, ?_⟩
      · rw [hder a hana, hrnCH a hanp]
        exact hr.1
      · rw [hder b hbna, hrpCH b hbnn]
        exact hr.2
    · exact hwf.lvlNodup.sublist
        (List.Sublist.append (List.erase_sublist _ _) (List.erase_sublist _ _))
    · rw [hB]
      by_cases hb : s.bids_ = some lh
      · rw [if_pos hb]
        have hh : G.bidsL.head? = some lh := hwf.bidsHead.symm.trans hb
        exact (hhead1 hh).symm
      · rw [if_neg hb]
        rw [hhead2 (fun he => hb (hwf.bidsHead.trans he))]
        exact hwf.bidsHead
    · rw [hA, List.erase_of_not_mem hnotother]
      exact hwf.asksHead
    · intro k
      rw [hlive2 k, hwf.lvlLive k]
      constructor
      · rintro ⟨h1, h2⟩
        rcases List.mem_append.mp h1 with h3 | h3
        · exact List.mem_append_left _ ((List.Nodup.mem_erase_iff hndb).mpr ⟨h2, h3⟩)
        · refine List.mem_append_right _ ?_
          rw [List.erase_of_not_mem hnotother]
          exact h3
      · intro h1
        rcases List.mem_append.mp h1 with h3 | h3
        · obtain ⟨h4, h5⟩ := (List.Nodup.mem_erase_iff hndb).mp h3
          exact ⟨List.mem_append_left _ h5, h4⟩
        · rw [List.erase_of_not_mem hnotother] at h3
          exact ⟨List.mem_append_right _ h3, fun he => hnotother (he ▸ h3)⟩
    · intro k hk
      obtain ⟨h4, h5⟩ := (List.Nodup.mem_erase_iff hndb).mp hk
      rw [(hfields k h4).2.1]
      exact hwf.bidsSide k h5
    · intro k hk
      rw [List.erase_of_not_mem hnotother] at hk
      have h4 : k ≠ lh := fun he => hnotother (he ▸ hk)
      rw [(hfields k h4).2.1]
      exact hwf.asksSide k hk
    · intro i k hik
      rw [hPM] at hik
      by_cases hi : i = priceToIndex (derefLevel s lh).price
      · rw [hi, Function.update_same] at hik
        cases hik
      · rw [Function.update_noteq hi] at hik
        obtain ⟨hk1, hk2⟩ := hwf.mapToLvl i k hik
        have hkl : k ≠ lh := by
          intro he
          rw [he] at hk2
          exact hi hk2.symm
        rw [hlive2, (hfields k hkl).1]
        exact ⟨⟨hk1, hkl⟩, hk2⟩
    · intro k hk
      rw [hlive2] at hk
      rw [hPM, (hfields k hk.2).1, Function.update_noteq (hinj k hk.1 hk.2)]
      exact hwf.lvlToMap k hk.1
  · have hside : (derefLevel s lh).side = Side.SELL := hwf.asksSide lh hin
    have hndb : (G.asksL).Nodup := hwf.lvlNodup.sublist (List.sublist_append_right _ _)
    have hnotother : lh ∉ G.bidsL := fun hmem2 => hdisj hmem2 hin
    have hstate : s.removePriceLevel lh = { setLevel (setLevel s (derefLevel s lh).prev (fun x => { x with next := (derefLevel s lh).next })) (derefLevel s lh).next (fun x => { x with prev := (derefLevel s lh).prev }) with
        price_level_map_ := Function.update s.price_level_map_
            (priceToIndex (derefLevel s lh).price) none,
        asks_ := if s.asks_ = some lh then some (derefLevel s lh).next else s.asks_,
        level_pool_ := (setLevel (setLevel s (derefLevel s lh).prev (fun x => { x with next := (derefLevel s lh).next })) (derefLevel s lh).next (fun x => { x with prev := (derefLevel s lh).prev })).level_pool_.deallocate lh } := by
      simp only [OrderBook.removePriceLevel]
      rw [if_neg hnext]
      simp only [hside]
      by_cases hb : s.asks_ = some lh
      · rw [if_pos (show (setLevel (setLevel { s with price_level_map_ := Function.update s.price_level_map_ (priceToIndex (derefLevel s lh).price) none } (derefLevel s lh).prev (fun x => { x with next := (derefLevel s lh).next })) (derefLevel s lh).next (fun x => { x with prev := (derefLevel s lh).prev })).asks_ = some lh from hb), if_pos hb]
        rfl
      · rw [if_neg (show ¬ (setLevel (setLevel { s with price_level_map_ := Function.update s.price_level_map_ (priceToIndex (derefLevel s lh).price) none } (derefLevel s lh).prev (fun x => { x with next := (derefLevel s lh).next })) (derefLevel s lh).next (fun x => { x with prev := (derefLevel s lh).prev })).asks_ = some lh from hb), if_neg hb]
        rfl
    have hPM : (s.removePriceLevel lh).price_level_map_ = Function.update s.price_level_map_
        (priceToIndex (derefLevel s lh).price) none := by rw [hstate]
    have hOP : (s.removePriceLevel lh).order_pool_ = s.order_pool_ := by
      rw [hstate]
      rfl
    have hOM : (s.removePriceLevel lh).order_map_ = s.order_map_ := by
      rw [hstate]
      rfl
    have hB : (s.removePriceLevel lh).asks_ = if s.asks_ = some lh then some (derefLevel s lh).next else s.asks_ := by
      rw [hstate]
    have hA : (s.removePriceLevel lh).bids_ = s.bids_ := by
      rw [hstate]
      rfl
    have hST : ∀ k, (s.removePriceLevel lh).level_pool_.storage k =
        Function.update ((setLevel (setLevel s (derefLevel s lh).prev (fun x => { x with next := (derefLevel s lh).next })) (derefLevel s lh).next (fun x => { x with prev := (derefLevel s lh).prev })).level_pool_.storage) lh none k := by
      intro k
      rw [hstate]
      rfl
    have hder : ∀ k, k ≠ lh → derefLevel (s.removePriceLevel lh) k = derefLevel (setLevel (setLevel s (derefLevel s lh).prev (fun x => { x with next := (derefLevel s lh).next })) (derefLevel s lh).next (fun x => { x with prev := (derefLevel s lh).prev })) k := by
      intro k hk
      rw [derefLevel, hST k, Function.update_noteq hk]
      rfl
    have hfields : ∀ k, k ≠ lh →
        (derefLevel (s.removePriceLevel lh) k).price = (derefLevel s k).price ∧
        (derefLevel (s.removePriceLevel lh) k).side = (derefLevel s k).side ∧
        (derefLevel (s.removePriceLevel lh) k).first_order = (derefLevel s k).first_order ∧
        (derefLevel (s.removePriceLevel lh) k).order_count = (derefLevel s k).order_count := by
      intro k hk
      rw [hder k hk]
      exact hfieldsCH k
    have hPVlh : (derefLevel s lh).prev ≠ lh := by
      obtain ⟨pvv, hpv_mem, hpvv⟩ := isCycle_prev_mem hwf.asksCyc hin
      have he : pvv = (derefLevel s lh).prev := hpvv.2.symm
      intro he2
      apply hnext
      have h3 : pvv = lh := he.trans he2
      rw [h3] at hpvv
      exact hpvv.1
    have herase := cycle_erase_update (fun k => (derefLevel s k).next)
      (fun k => (derefLevel s k).prev)
      (fun k => (derefLevel (s.removePriceLevel lh) k).next)
      (fun k => (derefLevel (s.removePriceLevel lh) k).prev) hwf.asksCyc hndb hin hnext
      (by show (derefLevel (s.removePriceLevel lh) (derefLevel s lh).prev).next = (derefLevel s lh).next
          rw [hder _ hPVlh]
          exact hnpvCH)
      (by show (derefLevel (s.removePriceLevel lh) (derefLevel s lh).next).prev = (derefLevel s lh).prev
          rw [hder _ hnext]
          exact hpnxCH)
      (fun k hk1 hk2 => by
        show (derefLevel (s.removePriceLevel lh) k).next = (derefLevel s k).next
        rw [hder k hk1]
        exact hrnCH k hk2)
      (fun k hk1 hk2 => by
        show (derefLevel (s.removePriceLevel lh) k).prev = (derefLevel s k).prev
        rw [hder k hk1]
        exact hrpCH k hk2)
    obtain ⟨hpmem0, hnmem0, -, hcyc2, hhead1, hhead2⟩ := herase
    have hpmem : (derefLevel s lh).prev ∈ G.asksL := hpmem0
    have hnmem : (derefLevel s lh).next ∈ G.asksL := hnmem0
    have hlivePV : (s.level_pool_.storage (derefLevel s lh).prev).isSome :=
      (hwf.lvlLive _).mpr (List.mem_append_right _ hpmem)
    have hliveNX : (s.level_pool_.storage (derefLevel s lh).next).isSome :=
      (hwf.lvlLive _).mpr (List.mem_append_right _ hnmem)
    have hlive2 : ∀ k, ((s.removePriceLevel lh).level_pool_.storage k).isSome ↔
        ((s.level_pool_.storage k).isSome ∧ k ≠ lh) := by
      intro k
      rw [hST k]
      by_cases hk : k = lh
      · rw [hk, Function.update_same]
        simp
      · rw [Function.update_noteq hk, hliveCH hlivePV hliveNX k]
        simp [hk]
    have hlpool : poolWF (s.removePriceLevel lh).level_pool_ MAX_PRICE_LEVELS := by
      have e1 : (s.removePriceLevel lh).level_pool_ = (setLevel (setLevel s (derefLevel s lh).prev (fun x => { x with next := (derefLevel s lh).next })) (derefLevel s lh).next (fun x => { x with prev := (derefLevel s lh).prev })).level_pool_.deallocate lh := by rw [hstate]
      rw [e1]
      have hCHlh : (setLevel (setLevel s (derefLevel s lh).prev (fun x => { x with next := (derefLevel s lh).next })) (derefLevel s lh).next (fun x => { x with prev := (derefLevel s lh).prev })).level_pool_.storage lh = some w := by
        rw [hstCH lh (Ne.symm hPVlh) (Ne.symm hnext)]
        exact hw
      refine poolWF_deallocate ?_ hCHlh
      obtain ⟨wp, hwp⟩ := Option.isSome_iff_exists.mp hlivePV
      have hp1 : poolWF (setLevel s (derefLevel s lh).prev (fun x => { x with next := (derefLevel s lh).next })).level_pool_ MAX_PRICE_LEVELS :=
        poolWF_overwrite hwf.lpool hwp
      have hnx1 : ((setLevel s (derefLevel s lh).prev (fun x => { x with next := (derefLevel s lh).next })).level_pool_.storage (derefLevel s lh).next).isSome := by
        rw [setLevel_storage_isSome s _ _ hlivePV]
        exact hliveNX
      obtain ⟨wn, hwn⟩ := Option.isSome_iff_exists.mp hnx1
      exact poolWF_overwrite hp1 hwn
    refine ⟨⟨?_, ?_, ?_, ?_, ?_, ?_, ?_, ?_, ?_, ?_, hlpool⟩, hOP, hOM, hlive2, hfields⟩
    · rw [List.erase_of_not_mem hnotother]
      refine isCycle_congr hwf.bidsCyc ?_
      intro a b ha hb hr
      have hana : a ≠ lh := fun he => hnotother (he ▸ ha)
      have hbna : b ≠ lh := fun he => hnotother (he ▸ hb)
      have hanp : a ≠ (derefLevel s lh).prev := fun he => hdisj (he ▸ ha) hpmem
      have hbnn : b ≠ (derefLevel s lh).next := fun he => hdisj (he ▸ hb) hnmem
      refine ⟨?_, ?_⟩
      · rw [hder a hana, hrnCH a hanp]
        exact hr.1
      · rw [hder b hbna, hrpCH b hbnn]
        exact hr.2
    · exact hcyc2
    · exact hwf.lvlNodup.sublist
        (List.Sublist.append (List.erase_sublist _ _) (List.erase_sublist _ _))
    · rw [hA, List.erase_of_not_mem hnotother]
      exact hwf.bidsHead
    · rw [hB]
      by_cases hb : s.asks_ = some lh
      · rw [if_pos hb]
        have hh : G.asksL.head? = some lh := hwf.asksHead.symm.trans hb
        exact (hhead1 hh).symm
      · rw [if_neg hb]
        rw [hhead2 (fun he => hb (hwf.asksHead.trans he))]
        exact hwf.asksHead
    · intro k
      rw [hlive2 k, hwf.lvlLive k]
      constructor
      · rintro ⟨h1, h2⟩
        rcases List.mem_append.mp h1 with h3 | h3
        · refine List.mem_append_left _ ?_
          rw [List.erase_of_not_mem hnotother]
          exact h3
        · exact List.mem_append_right _ ((List.Nodup.mem_erase_iff hndb).mpr ⟨h2, h3⟩)
      · intro h1
        rcases List.mem_append.mp h1 with h3 | h3
        · rw [List.erase_of_not_mem hnotother] at h3
          exact ⟨List.mem_append_left _ h3, fun he => hnotother (he ▸ h3)⟩
        · obtain ⟨h4, h5⟩ := (List.Nodup.mem_erase_iff hndb).mp h3
          exact ⟨List.mem_append_right _ h5, h4⟩
    · intro k hk
      rw [List.erase_of_not_mem hnotother] at hk
      have h4 : k ≠ lh := fun he => hnotother (he ▸ hk)
      rw [(hfields k h4).2.1]
      exact hwf.bidsSide k hk
    · intro k hk
      obtain ⟨h4, h5⟩ := (List.Nodup.mem_erase_iff hndb).mp hk
      rw [(hfields k h4).2.1]
      exact hwf.asksSide k h5
    · intro i k hik
      rw [hPM] at hik
      by_cases hi : i = priceToIndex (derefLevel s lh).price
      · rw [hi, Function.update_same] at hik
        cases hik
      · rw [Function.update_noteq hi] at hik
        obtain ⟨hk1, hk2⟩ := hwf.mapToLvl i k hik
        have hkl : k ≠ lh := by
          intro he
          rw [he] at hk2
          exact hi hk2.symm
        rw [hlive2, (hfields k hkl).1]
        exact ⟨⟨hk1, hkl⟩, hk2⟩
    · intro k hk
      rw [hlive2] at hk
      rw [hPM, (hfields k hk.2).1, Function.update_noteq (hinj k hk.1 hk.2)]
      exact hwf.lvlToMap k hk.1

theorem removePriceLevel_facts {s : OrderBook} {G : BookShape} {lh : Nat}
    (hwf : LevelsWF s G) (hlive : (s.level_pool_.storage lh).isSome) :
    RemoveFacts s G lh := by
  by_cases hnext : (derefLevel s lh).next = lh
  · exact removePriceLevel_facts_sole hwf hlive hnext
  · exact removePriceLevel_facts_multi hwf hlive hnext

/-- Price and side of all surviving levels are unchanged by an operation. -/
def LevelFrame (s s' : OrderBook) : Prop :=
  ∀ k, (s'.level_pool_.storage k).isSome →
    (derefLevel s' k).price = (derefLevel s k).price ∧
    (derefLevel s' k).side = (derefLevel s k).side

theorem bookWF_delete_core_sole {s : OrderBook} {G : BookShape} {id oh lh0 : Nat}
    (hwf : BookWF s G) (hoh : (s.order_pool_.storage oh).isSome)
    (hmap : s.order_map_ (id % MAX_ORDERS) = some oh)
    (hlh0 : (s.level_pool_.storage lh0).isSome)
    (hfifo : G.fifo lh0 = [oh]) :
    ∃ G' : BookShape, BookWF { s.removePriceLevel lh0 with
        order_map_ := Function.update (s.removePriceLevel lh0).order_map_
          (id % MAX_ORDERS) none,
        order_pool_ := (s.removePriceLevel lh0).order_pool_.deallocate oh } G' ∧
      G'.bidsL.Sublist G.bidsL ∧ G'.asksL.Sublist G.asksL ∧
      LevelFrame s { s.removePriceLevel lh0 with
        order_map_ := Function.update (s.removePriceLevel lh0).order_map_
          (id % MAX_ORDERS) none,
        order_pool_ := (s.removePriceLevel lh0).order_pool_.deallocate oh } := by
  obtain ⟨hLwf, hOPeq, hOMeq, hlive2, hflds⟩ := removePriceLevel_facts hwf.levels hlh0
  obtain ⟨wo, hwo⟩ := Option.isSome_iff_exists.mp hoh
  refine ⟨⟨G.bidsL.erase lh0, G.asksL.erase lh0, G.fifo⟩, ?_, List.erase_sublist _ _,
    List.erase_sublist _ _, ?_⟩
  · set s3 : OrderBook := { s.removePriceLevel lh0 with
        order_map_ := Function.update (s.removePriceLevel lh0).order_map_
          (id % MAX_ORDERS) none,
        order_pool_ := (s.removePriceLevel lh0).order_pool_.deallocate oh } with hs3
    have hLP : s3.level_pool_ = (s.removePriceLevel lh0).level_pool_ := rfl
    have hPM3 : s3.price_level_map_ = (s.removePriceLevel lh0).price_level_map_ := rfl
    have hBH : s3.bids_ = (s.removePriceLevel lh0).bids_ := rfl
    have hAH : s3.asks_ = (s.removePriceLevel lh0).asks_ := rfl
    have hlive3 : ∀ k, (s3.level_pool_.storage k).isSome ↔
        ((s.level_pool_.storage k).isSome ∧ k ≠ lh0) := hlive2
    have hderL : ∀ k, derefLevel s3 k = derefLevel (s.removePriceLevel lh0) k := by
      intro k
      rw [derefLevel, derefLevel]
    have hOST : ∀ k, s3.order_pool_.storage k =
        Function.update s.order_pool_.storage oh none k := by
      intro k
      rw [hs3]
      show ((s.removePriceLevel lh0).order_pool_.deallocate oh).storage k = _
      rw [hOPeq]
      rfl
    have hderO : ∀ k, k ≠ oh → derefOrder s3 k = derefOrder s k := by
      intro k hk
      rw [derefOrder, hOST k, Function.update_noteq hk, derefOrder]
    have hliveO : ∀ k, (s3.order_pool_.storage k).isSome ↔
        ((s.order_pool_.storage k).isSome ∧ k ≠ oh) := by
      intro k
      rw [hOST k]
      by_cases hk : k = oh
      · rw [hk, Function.update_same]
        simp
      · rw [Function.update_noteq hk]
        simp [hk]
    have hOM3 : s3.order_map_ =
        Function.update s.order_map_ (id % MAX_ORDERS) none := by
      rw [hs3]
      show Function.update (s.removePriceLevel lh0).order_map_ (id % MAX_ORDERS) none = _
      rw [hOMeq]
    refine ⟨levelsWF_congr hLP hPM3 hBH hAH hLwf, ?_, ?_, ?_, ?_, ?_, ?_, ?_, ?_, ?_, ?_, ?_⟩
    · intro lh hl
      rw [hlive3] at hl
      have hne0 : lh ≠ lh0 := hl.2
      refine isCycle_congr (hwf.fifoCyc lh hl.1) ?_
      intro a b ha hb hr
      have hano : a ≠ oh := by
        intro he
        have := hwf.fifoDisj lh lh0 hl.1 hlh0 a (he ▸ ha) (by rw [hfifo, he]; simp)
        exact hne0 this
      have hbno : b ≠ oh := by
        intro he
        have := hwf.fifoDisj lh lh0 hl.1 hlh0 b (he ▸ hb) (by rw [hfifo, he]; simp)
        exact hne0 this
      rw [ordRel] at hr ⊢
      rw [hderO a hano, hderO b hbno]
      exact hr
    · intro lh hl
      rw [hlive3] at hl
      exact hwf.fifoNodup lh hl.1
    · intro lh hl
      rw [hlive3] at hl
      rw [hderL lh, (hflds lh hl.2).2.2.1]
      exact hwf.fifoHead lh hl.1
    · intro lh hl
      rw [hlive3] at hl
      rw [hderL lh, (hflds lh hl.2).2.2.2]
      exact hwf.fifoCount lh hl.1
    · intro lh hl k hk
      rw [hlive3] at hl
      have hkno : k ≠ oh := by
        intro he
        have := hwf.fifoDisj lh lh0 hl.1 hlh0 k (he ▸ hk) (by rw [hfifo, he]; simp)
        exact hl.2 this
      rw [hliveO]
      exact ⟨hwf.fifoLive lh hl.1 k hk, hkno⟩
    · intro lh hl k hk
      rw [hlive3] at hl
      have hkno : k ≠ oh := by
        intro he
        have := hwf.fifoDisj lh lh0 hl.1 hlh0 k (he ▸ hk) (by rw [hfifo, he]; simp)
        exact hl.2 this
      rw [hderO k hkno, hderL lh, (hflds lh hl.2).1]
      exact hwf.fifoPrice lh hl.1 k hk
    · intro lh1 lh2 h1 h2 k hk1 hk2
      rw [hlive3] at h1 h2
      exact hwf.fifoDisj lh1 lh2 h1.1 h2.1 k hk1 hk2
    · intro i k hik
      rw [hOM3] at hik
      by_cases hi : i = id % MAX_ORDERS
      · rw [hi, Function.update_same] at hik
        cases hik
      · rw [Function.update_noteq hi] at hik
        obtain ⟨hk1, hk2⟩ := hwf.mapToOrd i k hik
        have hkno : k ≠ oh := by
          intro he
          subst he
          exact hi (((hwf.mapToOrd _ k hmap).2.symm.trans hk2).symm)
        rw [hliveO, hderO k hkno]
        exact ⟨⟨hk1, hkno⟩, hk2⟩
    · intro k hk
      rw [hliveO] at hk
      rw [hOM3, hderO k hk.2]
      have hne : (derefOrder s k).order_id % MAX_ORDERS ≠ id % MAX_ORDERS := by
        intro he
        have h2 := hwf.ordToMap k hk.1
        rw [he, hmap] at h2
        exact hk.2 (Option.some.inj h2).symm
      rw [Function.update_noteq hne]
      exact hwf.ordToMap k hk.1
    · intro k hk
      rw [hliveO] at hk
      obtain ⟨lh, hlh, hmem⟩ := hwf.ordInFifo k hk.1
      have hne0 : lh ≠ lh0 := by
        intro he
        rw [he, hfifo] at hmem
        simp at hmem
        exact hk.2 hmem
      exact ⟨lh, (hlive3 lh).mpr ⟨hlh, hne0⟩, hmem⟩
    · have : s3.order_pool_ = s.order_pool_.deallocate oh := by
        rw [hs3]
        show (s.removePriceLevel lh0).order_pool_.deallocate oh = _
        rw [hOPeq]
      rw [this]
      exact poolWF_deallocate hwf.opool hwo
  · intro k hk
    have hk2 := (hlive2 k).mp hk
    have := hflds k hk2.2
    rw [derefLevel, derefLevel] at this ⊢
    exact ⟨this.1, this.2.1⟩

theorem bookWF_delete_core_multi {s : OrderBook} {G : BookShape} {id oh lh0 : Nat}
    (hwf : BookWF s G) (hoh : (s.order_pool_.storage oh).isSome)
    (hmap : s.order_map_ (id % MAX_ORDERS) = some oh)
    (hlh0 : (s.level_pool_.storage lh0).isSome)
    (hmemF : oh ∈ G.fifo lh0)
    (hnol : (derefOrder s oh).next ≠ oh) :
    ∃ G' : BookShape, BookWF { setLevel (setOrder (setOrder s (derefOrder s oh).prev (fun x => { x with next := (derefOrder s oh).next })) (derefOrder s oh).next (fun x => { x with prev := (derefOrder s oh).prev })) lh0 (fun l => { l with total_qty := u32sub l.total_qty (derefOrder s oh).qty, order_count := l.order_count - 1, first_order := if l.first_order = oh then (derefOrder s oh).next else l.first_order }) with order_map_ := Function.update (setLevel (setOrder (setOrder s (derefOrder s oh).prev (fun x => { x with next := (derefOrder s oh).next })) (derefOrder s oh).next (fun x => { x with prev := (derefOrder s oh).prev })) lh0 (fun l => { l with total_qty := u32sub l.total_qty (derefOrder s oh).qty, order_count := l.order_count - 1, first_order := if l.first_order = oh then (derefOrder s oh).next else l.first_order })).order_map_ (id % MAX_ORDERS) none, order_pool_ := (setLevel (setOrder (setOrder s (derefOrder s oh).prev (fun x => { x with next := (derefOrder s oh).next })) (derefOrder s oh).next (fun x => { x with prev := (derefOrder s oh).prev })) lh0 (fun l => { l with total_qty := u32sub l.total_qty (derefOrder s oh).qty, order_count := l.order_count - 1, first_order := if l.first_order = oh then (derefOrder s oh).next else l.first_order })).order_pool_.deallocate oh } G' ∧
      G'.bidsL.Sublist G.bidsL ∧ G'.asksL.Sublist G.asksL ∧
      LevelFrame s { setLevel (setOrder (setOrder s (derefOrder s oh).prev (fun x => { x with next := (derefOrder s oh).next })) (derefOrder s oh).next (fun x => { x with prev := (derefOrder s oh).prev })) lh0 (fun l => { l with total_qty := u32sub l.total_qty (derefOrder s oh).qty, order_count := l.order_count - 1, first_order := if l.first_order = oh then (derefOrder s oh).next else l.first_order }) with order_map_ := Function.update (setLevel (setOrder (setOrder s (derefOrder s oh).prev (fun x => { x with next := (derefOrder s oh).next })) (derefOrder s oh).next (fun x => { x with prev := (derefOrder s oh).prev })) lh0 (fun l => { l with total_qty := u32sub l.total_qty (derefOrder s oh).qty, order_count := l.order_count - 1, first_order := if l.first_order = oh then (derefOrder s oh).next else l.first_order })).order_map_ (id % MAX_ORDERS) none, order_pool_ := (setLevel (setOrder (setOrder s (derefOrder s oh).prev (fun x => { x with next := (derefOrder s oh).next })) (derefOrder s oh).next (fun x => { x with prev := (derefOrder s oh).prev })) lh0 (fun l => { l with total_qty := u32sub l.total_qty (derefOrder s oh).qty, order_count := l.order_count - 1, first_order := if l.first_order = oh then (derefOrder s oh).next else l.first_order })).order_pool_.deallocate oh } := by
  obtain ⟨wo, hwo⟩ := Option.isSome_iff_exists.mp hoh
  obtain ⟨wl, hwl⟩ := Option.isSome_iff_exists.mp hlh0
  have hcycF := hwf.fifoCyc lh0 hlh0
  have hndF := hwf.fifoNodup lh0 hlh0
  -- order-side facts about the two-pointer rewrite
  have hfieldsCHO : ∀ k,
      (derefOrder (setOrder (setOrder s (derefOrder s oh).prev (fun x => { x with next := (derefOrder s oh).next })) (derefOrder s oh).next (fun x => { x with prev := (derefOrder s oh).prev })) k).price = (derefOrder s k).price ∧
      (derefOrder (setOrder (setOrder s (derefOrder s oh).prev (fun x => { x with next := (derefOrder s oh).next })) (derefOrder s oh).next (fun x => { x with prev := (derefOrder s oh).prev })) k).qty = (derefOrder s k).qty ∧
      (derefOrder (setOrder (setOrder s (derefOrder s oh).prev (fun x => { x with next := (derefOrder s oh).next })) (derefOrder s oh).next (fun x => { x with prev := (derefOrder s oh).prev })) k).side = (derefOrder s k).side ∧
      (derefOrder (setOrder (setOrder s (derefOrder s oh).prev (fun x => { x with next := (derefOrder s oh).next })) (derefOrder s oh).next (fun x => { x with prev := (derefOrder s oh).prev })) k).order_id = (derefOrder s k).order_id := by
    intro k
    by_cases hk1 : k = (derefOrder s oh).next
    · rw [hk1, derefOrder_setOrder_same]
      by_cases hk2 : ((derefOrder s oh).next : Nat) = (derefOrder s oh).prev
      · rw [hk2, derefOrder_setOrder_same]
        exact ⟨rfl, rfl, rfl, rfl⟩
      · rw [derefOrder_setOrder_ne _ _ _ hk2]
        exact ⟨rfl, rfl, rfl, rfl⟩
    · rw [derefOrder_setOrder_ne _ _ _ hk1]
      by_cases hk2 : k = (derefOrder s oh).prev
      · rw [hk2, derefOrder_setOrder_same]
        exact ⟨rfl, rfl, rfl, rfl⟩
      · rw [derefOrder_setOrder_ne _ _ _ hk2]
        exact ⟨rfl, rfl, rfl, rfl⟩
  have hnpvO : (derefOrder (setOrder (setOrder s (derefOrder s oh).prev (fun x => { x with next := (derefOrder s oh).next })) (derefOrder s oh).next (fun x => { x with prev := (derefOrder s oh).prev })) (derefOrder s oh).prev).next = (derefOrder s oh).next := by
    by_cases hk2 : ((derefOrder s oh).prev : Nat) = (derefOrder s oh).next
    · rw [hk2, derefOrder_setOrder_same]
      rw [← hk2, derefOrder_setOrder_same]
    · rw [derefOrder_setOrder_ne _ _ _ hk2, derefOrder_setOrder_same]
  have hpnxO : (derefOrder (setOrder (setOrder s (derefOrder s oh).prev (fun x => { x with next := (derefOrder s oh).next })) (derefOrder s oh).next (fun x => { x with prev := (derefOrder s oh).prev })) (derefOrder s oh).next).prev = (derefOrder s oh).prev := by
    rw [derefOrder_setOrder_same]
  have hrnO : ∀ k, k ≠ (derefOrder s oh).prev → (derefOrder (setOrder (setOrder s (derefOrder s oh).prev (fun x => { x with next := (derefOrder s oh).next })) (derefOrder s oh).next (fun x => { x with prev := (derefOrder s oh).prev })) k).next = (derefOrder s k).next := by
    intro k hk
    by_cases hk1 : k = (derefOrder s oh).next
    · rw [hk1, derefOrder_setOrder_same, derefOrder_setOrder_ne _ _ _ (hk1 ▸ hk)]
    · rw [derefOrder_setOrder_ne _ _ _ hk1, derefOrder_setOrder_ne _ _ _ hk]
  have hrpO : ∀ k, k ≠ (derefOrder s oh).next → (derefOrder (setOrder (setOrder s (derefOrder s oh).prev (fun x => { x with next := (derefOrder s oh).next })) (derefOrder s oh).next (fun x => { x with prev := (derefOrder s oh).prev })) k).prev = (derefOrder s k).prev := by
    intro k hk
    rw [derefOrder_setOrder_ne _ _ _ hk]
    by_cases hk2 : k = (derefOrder s oh).prev
    · rw [hk2, derefOrder_setOrder_same]
    · rw [derefOrder_setOrder_ne _ _ _ hk2]
  -- state projection facts
  have hOST : ∀ k, ({ setLevel (setOrder (setOrder s (derefOrder s oh).prev (fun x => { x with next := (derefOrder s oh).next })) (derefOrder s oh).next (fun x => { x with prev := (derefOrder s oh).prev })) lh0 (fun l => { l with total_qty := u32sub l.total_qty (derefOrder s oh).qty, order_count := l.order_count - 1, first_order := if l.first_order = oh then (derefOrder s oh).next else l.first_order }) with order_map_ := Function.update (setLevel (setOrder (setOrder s (derefOrder s oh).prev (fun x => { x with next := (derefOrder s oh).next })) (derefOrder s oh).next (fun x => { x with prev := (derefOrder s oh).prev })) lh0 (fun l => { l with total_qty := u32sub l.total_qty (derefOrder s oh).qty, order_count := l.order_count - 1, first_order := if l.first_order = oh then (derefOrder s oh).next else l.first_order })).order_map_ (id % MAX_ORDERS) none, order_pool_ := (setLevel (setOrder (setOrder s (derefOrder s oh).prev (fun x => { x with next := (derefOrder s oh).next })) (derefOrder s oh).next (fun x => { x with prev := (derefOrder s oh).prev })) lh0 (fun l => { l with total_qty := u32sub l.total_qty (derefOrder s oh).qty, order_count := l.order_count - 1, first_order := if l.first_order = oh then (derefOrder s oh).next else l.first_order })).order_pool_.deallocate oh }).order_pool_.storage k =
      Function.update ((setOrder (setOrder s (derefOrder s oh).prev (fun x => { x with next := (derefOrder s oh).next })) (derefOrder s oh).next (fun x => { x with prev := (derefOrder s oh).prev })).order_pool_.storage) oh none k := by
    intro k
    rfl
  have hderO3 : ∀ k, k ≠ oh → derefOrder ({ setLevel (setOrder (setOrder s (derefOrder s oh).prev (fun x => { x with next := (derefOrder s oh).next })) (derefOrder s oh).next (fun x => { x with prev := (derefOrder s oh).prev })) lh0 (fun l => { l with total_qty := u32sub l.total_qty (derefOrder s oh).qty, order_count := l.order_count - 1, first_order := if l.first_order = oh then (derefOrder s oh).next else l.first_order }) with order_map_ := Function.update (setLevel (setOrder (setOrder s (derefOrder s oh).prev (fun x => { x with next := (derefOrder s oh).next })) (derefOrder s oh).next (fun x => { x with prev := (derefOrder s oh).prev })) lh0 (fun l => { l with total_qty := u32sub l.total_qty (derefOrder s oh).qty, order_count := l.order_count - 1, first_order := if l.first_order = oh then (derefOrder s oh).next else l.first_order })).order_map_ (id % MAX_ORDERS) none, order_pool_ := (setLevel (setOrder (setOrder s (derefOrder s oh).prev (fun x => { x with next := (derefOrder s oh).next })) (derefOrder s oh).next (fun x => { x with prev := (derefOrder s oh).prev })) lh0 (fun l => { l with total_qty := u32sub l.total_qty (derefOrder s oh).qty, order_count := l.order_count - 1, first_order := if l.first_order = oh then (derefOrder s oh).next else l.first_order })).order_pool_.deallocate oh }) k = derefOrder (setOrder (setOrder s (derefOrder s oh).prev (fun x => { x with next := (derefOrder s oh).next })) (derefOrder s oh).next (fun x => { x with prev := (derefOrder s oh).prev })) k := by
    intro k hk
    rw [derefOrder, hOST k, Function.update_noteq hk]
    rfl
  have hderL3same : derefLevel ({ setLevel (setOrder (setOrder s (derefOrder s oh).prev (fun x => { x with next := (derefOrder s oh).next })) (derefOrder s oh).next (fun x => { x with prev := (derefOrder s oh).prev })) lh0 (fun l => { l with total_qty := u32sub l.total_qty (derefOrder s oh).qty, order_count := l.order_count - 1, first_order := if l.first_order = oh then (derefOrder s oh).next else l.first_order }) with order_map_ := Function.update (setLevel (setOrder (setOrder s (derefOrder s oh).prev (fun x => { x with next := (derefOrder s oh).next })) (derefOrder s oh).next (fun x => { x with prev := (derefOrder s oh).prev })) lh0 (fun l => { l with total_qty := u32sub l.total_qty (derefOrder s oh).qty, order_count := l.order_count - 1, first_order := if l.first_order = oh then (derefOrder s oh).next else l.first_order })).order_map_ (id % MAX_ORDERS) none, order_pool_ := (setLevel (setOrder (setOrder s (derefOrder s oh).prev (fun x => { x with next := (derefOrder s oh).next })) (derefOrder s oh).next (fun x => { x with prev := (derefOrder s oh).prev })) lh0 (fun l => { l with total_qty := u32sub l.total_qty (derefOrder s oh).qty, order_count := l.order_count - 1, first_order := if l.first_order = oh then (derefOrder s oh).next else l.first_order })).order_pool_.deallocate oh }) lh0 =
      (fun l => { l with total_qty := u32sub l.total_qty (derefOrder s oh).qty, order_count := l.order_count - 1, first_order := if l.first_order = oh then (derefOrder s oh).next else l.first_order }) (derefLevel s lh0) := by
    show derefLevel (setLevel (setOrder (setOrder s (derefOrder s oh).prev (fun x => { x with next := (derefOrder s oh).next })) (derefOrder s oh).next (fun x => { x with prev := (derefOrder s oh).prev })) lh0 (fun l => { l with total_qty := u32sub l.total_qty (derefOrder s oh).qty, order_count := l.order_count - 1, first_order := if l.first_order = oh then (derefOrder s oh).next else l.first_order })) lh0 = _
    rw [derefLevel_setLevel_same]
    rfl
  have hderL3ne : ∀ k, k ≠ lh0 → derefLevel ({ setLevel (setOrder (setOrder s (derefOrder s oh).prev (fun x => { x with next := (derefOrder s oh).next })) (derefOrder s oh).next (fun x => { x with prev := (derefOrder s oh).prev })) lh0 (fun l => { l with total_qty := u32sub l.total_qty (derefOrder s oh).qty, order_count := l.order_count - 1, first_order := if l.first_order = oh then (derefOrder s oh).next else l.first_order }) with order_map_ := Function.update (setLevel (setOrder (setOrder s (derefOrder s oh).prev (fun x => { x with next := (derefOrder s oh).next })) (derefOrder s oh).next (fun x => { x with prev := (derefOrder s oh).prev })) lh0 (fun l => { l with total_qty := u32sub l.total_qty (derefOrder s oh).qty, order_count := l.order_count - 1, first_order := if l.first_order = oh then (derefOrder s oh).next else l.first_order })).order_map_ (id % MAX_ORDERS) none, order_pool_ := (setLevel (setOrder (setOrder s (derefOrder s oh).prev (fun x => { x with next := (derefOrder s oh).next })) (derefOrder s oh).next (fun x => { x with prev := (derefOrder s oh).prev })) lh0 (fun l => { l with total_qty := u32sub l.total_qty (derefOrder s oh).qty, order_count := l.order_count - 1, first_order := if l.first_order = oh then (derefOrder s oh).next else l.first_order })).order_pool_.deallocate oh }) k = derefLevel s k := by
    intro k hk
    show derefLevel (setLevel (setOrder (setOrder s (derefOrder s oh).prev (fun x => { x with next := (derefOrder s oh).next })) (derefOrder s oh).next (fun x => { x with prev := (derefOrder s oh).prev })) lh0 (fun l => { l with total_qty := u32sub l.total_qty (derefOrder s oh).qty, order_count := l.order_count - 1, first_order := if l.first_order = oh then (derefOrder s oh).next else l.first_order })) k = _
    rw [derefLevel_setLevel_ne _ _ _ hk]
    rfl
  have hLrel : ∀ k, (derefLevel ({ setLevel (setOrder (setOrder s (derefOrder s oh).prev (fun x => { x with next := (derefOrder s oh).next })) (derefOrder s oh).next (fun x => { x with prev := (derefOrder s oh).prev })) lh0 (fun l => { l with total_qty := u32sub l.total_qty (derefOrder s oh).qty, order_count := l.order_count - 1, first_order := if l.first_order = oh then (derefOrder s oh).next else l.first_order }) with order_map_ := Function.update (setLevel (setOrder (setOrder s (derefOrder s oh).prev (fun x => { x with next := (derefOrder s oh).next })) (derefOrder s oh).next (fun x => { x with prev := (derefOrder s oh).prev })) lh0 (fun l => { l with total_qty := u32sub l.total_qty (derefOrder s oh).qty, order_count := l.order_count - 1, first_order := if l.first_order = oh then (derefOrder s oh).next else l.first_order })).order_map_ (id % MAX_ORDERS) none, order_pool_ := (setLevel (setOrder (setOrder s (derefOrder s oh).prev (fun x => { x with next := (derefOrder s oh).next })) (derefOrder s oh).next (fun x => { x with prev := (derefOrder s oh).prev })) lh0 (fun l => { l with total_qty := u32sub l.total_qty (derefOrder s oh).qty, order_count := l.order_count - 1, first_order := if l.first_order = oh then (derefOrder s oh).next else l.first_order })).order_pool_.deallocate oh }) k).next = (derefLevel s k).next ∧
      (derefLevel ({ setLevel (setOrder (setOrder s (derefOrder s oh).prev (fun x => { x with next := (derefOrder s oh).next })) (derefOrder s oh).next (fun x => { x with prev := (derefOrder s oh).prev })) lh0 (fun l => { l with total_qty := u32sub l.total_qty (derefOrder s oh).qty, order_count := l.order_count - 1, first_order := if l.first_order = oh then (derefOrder s oh).next else l.first_order }) with order_map_ := Function.update (setLevel (setOrder (setOrder s (derefOrder s oh).prev (fun x => { x with next := (derefOrder s oh).next })) (derefOrder s oh).next (fun x => { x with prev := (derefOrder s oh).prev })) lh0 (fun l => { l with total_qty := u32sub l.total_qty (derefOrder s oh).qty, order_count := l.order_count - 1, first_order := if l.first_order = oh then (derefOrder s oh).next else l.first_order })).order_map_ (id % MAX_ORDERS) none, order_pool_ := (setLevel (setOrder (setOrder s (derefOrder s oh).prev (fun x => { x with next := (derefOrder s oh).next })) (derefOrder s oh).next (fun x => { x with prev := (derefOrder s oh).prev })) lh0 (fun l => { l with total_qty := u32sub l.total_qty (derefOrder s oh).qty, order_count := l.order_count - 1, first_order := if l.first_order = oh then (derefOrder s oh).next else l.first_order })).order_pool_.deallocate oh }) k).prev = (derefLevel s k).prev := by
    intro k
    by_cases hk : k = lh0
    · rw [hk, hderL3same]
      exact ⟨rfl, rfl⟩
    · rw [hderL3ne k hk]
      exact ⟨rfl, rfl⟩
  have hLfields : ∀ k, (derefLevel ({ setLevel (setOrder (setOrder s (derefOrder s oh).prev (fun x => { x with next := (derefOrder s oh).next })) (derefOrder s oh).next (fun x => { x with prev := (derefOrder s oh).prev })) lh0 (fun l => { l with total_qty := u32sub l.total_qty (derefOrder s oh).qty, order_count := l.order_count - 1, first_order := if l.first_order = oh then (derefOrder s oh).next else l.first_order }) with order_map_ := Function.update (setLevel (setOrder (setOrder s (derefOrder s oh).prev (fun x => { x with next := (derefOrder s oh).next })) (derefOrder s oh).next (fun x => { x with prev := (derefOrder s oh).prev })) lh0 (fun l => { l with total_qty := u32sub l.total_qty (derefOrder s oh).qty, order_count := l.order_count - 1, first_order := if l.first_order = oh then (derefOrder s oh).next else l.first_order })).order_map_ (id % MAX_ORDERS) none, order_pool_ := (setLevel (setOrder (setOrder s (derefOrder s oh).prev (fun x => { x with next := (derefOrder s oh).next })) (derefOrder s oh).next (fun x => { x with prev := (derefOrder s oh).prev })) lh0 (fun l => { l with total_qty := u32sub l.total_qty (derefOrder s oh).qty, order_count := l.order_count - 1, first_order := if l.first_order = oh then (derefOrder s oh).next else l.first_order })).order_pool_.deallocate oh }) k).price = (derefLevel s k).price ∧
      (derefLevel ({ setLevel (setOrder (setOrder s (derefOrder s oh).prev (fun x => { x with next := (derefOrder s oh).next })) (derefOrder s oh).next (fun x => { x with prev := (derefOrder s oh).prev })) lh0 (fun l => { l with total_qty := u32sub l.total_qty (derefOrder s oh).qty, order_count := l.order_count - 1, first_order := if l.first_order = oh then (derefOrder s oh).next else l.first_order }) with order_map_ := Function.update (setLevel (setOrder (setOrder s (derefOrder s oh).prev (fun x => { x with next := (derefOrder s oh).next })) (derefOrder s oh).next (fun x => { x with prev := (derefOrder s oh).prev })) lh0 (fun l => { l with total_qty := u32sub l.total_qty (derefOrder s oh).qty, order_count := l.order_count - 1, first_order := if l.first_order = oh then (derefOrder s oh).next else l.first_order })).order_map_ (id % MAX_ORDERS) none, order_pool_ := (setLevel (setOrder (setOrder s (derefOrder s oh).prev (fun x => { x with next := (derefOrder s oh).next })) (derefOrder s oh).next (fun x => { x with prev := (derefOrder s oh).prev })) lh0 (fun l => { l with total_qty := u32sub l.total_qty (derefOrder s oh).qty, order_count := l.order_count - 1, first_order := if l.first_order = oh then (derefOrder s oh).next else l.first_order })).order_pool_.deallocate oh }) k).side = (derefLevel s k).side := by
    intro k
    by_cases hk : k = lh0
    · rw [hk, hderL3same]
      exact ⟨rfl, rfl⟩
    · rw [hderL3ne k hk]
      exact ⟨rfl, rfl⟩
  have hliveL3 : ∀ k, (({ setLevel (setOrder (setOrder s (derefOrder s oh).prev (fun x => { x with next := (derefOrder s oh).next })) (derefOrder s oh).next (fun x => { x with prev := (derefOrder s oh).prev })) lh0 (fun l => { l with total_qty := u32sub l.total_qty (derefOrder s oh).qty, order_count := l.order_count - 1, first_order := if l.first_order = oh then (derefOrder s oh).next else l.first_order }) with order_map_ := Function.update (setLevel (setOrder (setOrder s (derefOrder s oh).prev (fun x => { x with next := (derefOrder s oh).next })) (derefOrder s oh).next (fun x => { x with prev := (derefOrder s oh).prev })) lh0 (fun l => { l with total_qty := u32sub l.total_qty (derefOrder s oh).qty, order_count := l.order_count - 1, first_order := if l.first_order = oh then (derefOrder s oh).next else l.first_order })).order_map_ (id % MAX_ORDERS) none, order_pool_ := (setLevel (setOrder (setOrder s (derefOrder s oh).prev (fun x => { x with next := (derefOrder s oh).next })) (derefOrder s oh).next (fun x => { x with prev := (derefOrder s oh).prev })) lh0 (fun l => { l with total_qty := u32sub l.total_qty (derefOrder s oh).qty, order_count := l.order_count - 1, first_order := if l.first_order = oh then (derefOrder s oh).next else l.first_order })).order_pool_.deallocate oh }).level_pool_.storage k).isSome =
      (s.level_pool_.storage k).isSome := by
    intro k
    show (((setLevel (setOrder (setOrder s (derefOrder s oh).prev (fun x => { x with next := (derefOrder s oh).next })) (derefOrder s oh).next (fun x => { x with prev := (derefOrder s oh).prev })) lh0 (fun l => { l with total_qty := u32sub l.total_qty (derefOrder s oh).qty, order_count := l.order_count - 1, first_order := if l.first_order = oh then (derefOrder s oh).next else l.first_order }))).level_pool_.storage k).isSome = _
    exact setLevel_storage_isSome (setOrder (setOrder s (derefOrder s oh).prev (fun x => { x with next := (derefOrder s oh).next })) (derefOrder s oh).next (fun x => { x with prev := (derefOrder s oh).prev })) lh0 _ hlh0 k
  have hPM3 : ({ setLevel (setOrder (setOrder s (derefOrder s oh).prev (fun x => { x with next := (derefOrder s oh).next })) (derefOrder s oh).next (fun x => { x with prev := (derefOrder s oh).prev })) lh0 (fun l => { l with total_qty := u32sub l.total_qty (derefOrder s oh).qty, order_count := l.order_count - 1, first_order := if l.first_order = oh then (derefOrder s oh).next else l.first_order }) with order_map_ := Function.update (setLevel (setOrder (setOrder s (derefOrder s oh).prev (fun x => { x with next := (derefOrder s oh).next })) (derefOrder s oh).next (fun x => { x with prev := (derefOrder s oh).prev })) lh0 (fun l => { l with total_qty := u32sub l.total_qty (derefOrder s oh).qty, order_count := l.order_count - 1, first_order := if l.first_order = oh then (derefOrder s oh).next else l.first_order })).order_map_ (id % MAX_ORDERS) none, order_pool_ := (setLevel (setOrder (setOrder s (derefOrder s oh).prev (fun x => { x with next := (derefOrder s oh).next })) (derefOrder s oh).next (fun x => { x with prev := (derefOrder s oh).prev })) lh0 (fun l => { l with total_qty := u32sub l.total_qty (derefOrder s oh).qty, order_count := l.order_count - 1, first_order := if l.first_order = oh then (derefOrder s oh).next else l.first_order })).order_pool_.deallocate oh }).price_level_map_ = s.price_level_map_ := rfl
  have hBH3 : ({ setLevel (setOrder (setOrder s (derefOrder s oh).prev (fun x => { x with next := (derefOrder s oh).next })) (derefOrder s oh).next (fun x => { x with prev := (derefOrder s oh).prev })) lh0 (fun l => { l with total_qty := u32sub l.total_qty (derefOrder s oh).qty, order_count := l.order_count - 1, first_order := if l.first_order = oh then (derefOrder s oh).next else l.first_order }) with order_map_ := Function.update (setLevel (setOrder (setOrder s (derefOrder s oh).prev (fun x => { x with next := (derefOrder s oh).next })) (derefOrder s oh).next (fun x => { x with prev := (derefOrder s oh).prev })) lh0 (fun l => { l with total_qty := u32sub l.total_qty (derefOrder s oh).qty, order_count := l.order_count - 1, first_order := if l.first_order = oh then (derefOrder s oh).next else l.first_order })).order_map_ (id % MAX_ORDERS) none, order_pool_ := (setLevel (setOrder (setOrder s (derefOrder s oh).prev (fun x => { x with next := (derefOrder s oh).next })) (derefOrder s oh).next (fun x => { x with prev := (derefOrder s oh).prev })) lh0 (fun l => { l with total_qty := u32sub l.total_qty (derefOrder s oh).qty, order_count := l.order_count - 1, first_order := if l.first_order = oh then (derefOrder s oh).next else l.first_order })).order_pool_.deallocate oh }).bids_ = s.bids_ := rfl
  have hAH3 : ({ setLevel (setOrder (setOrder s (derefOrder s oh).prev (fun x => { x with next := (derefOrder s oh).next })) (derefOrder s oh).next (fun x => { x with prev := (derefOrder s oh).prev })) lh0 (fun l => { l with total_qty := u32sub l.total_qty (derefOrder s oh).qty, order_count := l.order_count - 1, first_order := if l.first_order = oh then (derefOrder s oh).next else l.first_order }) with order_map_ := Function.update (setLevel (setOrder (setOrder s (derefOrder s oh).prev (fun x => { x with next := (derefOrder s oh).next })) (derefOrder s oh).next (fun x => { x with prev := (derefOrder s oh).prev })) lh0 (fun l => { l with total_qty := u32sub l.total_qty (derefOrder s oh).qty, order_count := l.order_count - 1, first_order := if l.first_order = oh then (derefOrder s oh).next else l.first_order })).order_map_ (id % MAX_ORDERS) none, order_pool_ := (setLevel (setOrder (setOrder s (derefOrder s oh).prev (fun x => { x with next := (derefOrder s oh).next })) (derefOrder s oh).next (fun x => { x with prev := (derefOrder s oh).prev })) lh0 (fun l => { l with total_qty := u32sub l.total_qty (derefOrder s oh).qty, order_count := l.order_count - 1, first_order := if l.first_order = oh then (derefOrder s oh).next else l.first_order })).order_pool_.deallocate oh }).asks_ = s.asks_ := rfl
  have hOM3 : ({ setLevel (setOrder (setOrder s (derefOrder s oh).prev (fun x => { x with next := (derefOrder s oh).next })) (derefOrder s oh).next (fun x => { x with prev := (derefOrder s oh).prev })) lh0 (fun l => { l with total_qty := u32sub l.total_qty (derefOrder s oh).qty, order_count := l.order_count - 1, first_order := if l.first_order = oh then (derefOrder s oh).next else l.first_order }) with order_map_ := Function.update (setLevel (setOrder (setOrder s (derefOrder s oh).prev (fun x => { x with next := (derefOrder s oh).next })) (derefOrder s oh).next (fun x => { x with prev := (derefOrder s oh).prev })) lh0 (fun l => { l with total_qty := u32sub l.total_qty (derefOrder s oh).qty, order_count := l.order_count - 1, first_order := if l.first_order = oh then (derefOrder s oh).next else l.first_order })).order_map_ (id % MAX_ORDERS) none, order_pool_ := (setLevel (setOrder (setOrder s (derefOrder s oh).prev (fun x => { x with next := (derefOrder s oh).next })) (derefOrder s oh).next (fun x => { x with prev := (derefOrder s oh).prev })) lh0 (fun l => { l with total_qty := u32sub l.total_qty (derefOrder s oh).qty, order_count := l.order_count - 1, first_order := if l.first_order = oh then (derefOrder s oh).next else l.first_order })).order_pool_.deallocate oh }).order_map_ = Function.update s.order_map_ (id % MAX_ORDERS) none := rfl
  obtain ⟨nxo, hnxo_mem, hnxo⟩ := isCycle_next_mem hcycF hmemF
  have hnxo_eq : nxo = (derefOrder s oh).next := hnxo.1.symm
  obtain ⟨pvo, hpvo_mem, hpvo⟩ := isCycle_prev_mem hcycF hmemF
  have hpvo_eq : pvo = (derefOrder s oh).prev := hpvo.2.symm
  have hPOmem : ((derefOrder s oh).prev : Nat) ∈ G.fifo lh0 := hpvo_eq ▸ hpvo_mem
  have hNOmem : ((derefOrder s oh).next : Nat) ∈ G.fifo lh0 := hnxo_eq ▸ hnxo_mem
  have hPOlive : (s.order_pool_.storage (derefOrder s oh).prev).isSome := hwf.fifoLive lh0 hlh0 _ hPOmem
  have hNOlive : (s.order_pool_.storage (derefOrder s oh).next).isSome := hwf.fifoLive lh0 hlh0 _ hNOmem
  have hPOne : ((derefOrder s oh).prev : Nat) ≠ oh := by
    intro he
    apply hnol
    have h2 := hpvo.1
    rw [hpvo_eq, he] at h2
    exact h2
  have hliveCHO : ∀ k, ((setOrder (setOrder s (derefOrder s oh).prev (fun x => { x with next := (derefOrder s oh).next })) (derefOrder s oh).next (fun x => { x with prev := (derefOrder s oh).prev })).order_pool_.storage k).isSome =
      (s.order_pool_.storage k).isSome := by
    intro k
    have h1 : (((setOrder s (derefOrder s oh).prev (fun x => { x with next := (derefOrder s oh).next })).order_pool_.storage (derefOrder s oh).next).isSome) =
        (s.order_pool_.storage (derefOrder s oh).next).isSome :=
      setOrder_storage_isSome s (derefOrder s oh).prev _ hPOlive (derefOrder s oh).next
    rw [setOrder_storage_isSome (setOrder s (derefOrder s oh).prev (fun x => { x with next := (derefOrder s oh).next })) (derefOrder s oh).next _ (by rw [h1]; exact hNOlive) k]
    exact setOrder_storage_isSome s (derefOrder s oh).prev _ hPOlive k
  have hstCHO : ∀ k, k ≠ (derefOrder s oh).prev → k ≠ (derefOrder s oh).next →
      (setOrder (setOrder s (derefOrder s oh).prev (fun x => { x with next := (derefOrder s oh).next })) (derefOrder s oh).next (fun x => { x with prev := (derefOrder s oh).prev })).order_pool_.storage k = s.order_pool_.storage k := by
    intro k h1 h2
    show (Function.update ((setOrder s (derefOrder s oh).prev (fun x => { x with next := (derefOrder s oh).next })).order_pool_.storage) (derefOrder s oh).next _) k = _
    rw [Function.update_noteq h2]
    show (Function.update (s.order_pool_.storage) (derefOrder s oh).prev _) k = _
    rw [Function.update_noteq h1]
  have hliveO3 : ∀ k, (({ setLevel (setOrder (setOrder s (derefOrder s oh).prev (fun x => { x with next := (derefOrder s oh).next })) (derefOrder s oh).next (fun x => { x with prev := (derefOrder s oh).prev })) lh0 (fun l => { l with total_qty := u32sub l.total_qty (derefOrder s oh).qty, order_count := l.order_count - 1, first_order := if l.first_order = oh then (derefOrder s oh).next else l.first_order }) with order_map_ := Function.update (setLevel (setOrder (setOrder s (derefOrder s oh).prev (fun x => { x with next := (derefOrder s oh).next })) (derefOrder s oh).next (fun x => { x with prev := (derefOrder s oh).prev })) lh0 (fun l => { l with total_qty := u32sub l.total_qty (derefOrder s oh).qty, order_count := l.order_count - 1, first_order := if l.first_order = oh then (derefOrder s oh).next else l.first_order })).order_map_ (id % MAX_ORDERS) none, order_pool_ := (setLevel (setOrder (setOrder s (derefOrder s oh).prev (fun x => { x with next := (derefOrder s oh).next })) (derefOrder s oh).next (fun x => { x with prev := (derefOrder s oh).prev })) lh0 (fun l => { l with total_qty := u32sub l.total_qty (derefOrder s oh).qty, order_count := l.order_count - 1, first_order := if l.first_order = oh then (derefOrder s oh).next else l.first_order })).order_pool_.deallocate oh }).order_pool_.storage k).isSome ↔
      ((s.order_pool_.storage k).isSome ∧ k ≠ oh) := by
    intro k
    rw [hOST k]
    by_cases hk : k = oh
    · rw [hk, Function.update_same]
      simp
    · rw [Function.update_noteq hk, hliveCHO k]
      simp [hk]
  refine ⟨⟨G.bidsL, G.asksL, Function.update G.fifo lh0 ((G.fifo lh0).erase oh)⟩,
    ?_, List.Sublist.refl _, List.Sublist.refl _, ?_⟩
  · have hcycE := cycle_erase_update
      (fun k => (derefOrder s k).next) (fun k => (derefOrder s k).prev)
      (fun k => (derefOrder ({ setLevel (setOrder (setOrder s (derefOrder s oh).prev (fun x => { x with next := (derefOrder s oh).next })) (derefOrder s oh).next (fun x => { x with prev := (derefOrder s oh).prev })) lh0 (fun l => { l with total_qty := u32sub l.total_qty (derefOrder s oh).qty, order_count := l.order_count - 1, first_order := if l.first_order = oh then (derefOrder s oh).next else l.first_order }) with order_map_ := Function.update (setLevel (setOrder (setOrder s (derefOrder s oh).prev (fun x => { x with next := (derefOrder s oh).next })) (derefOrder s oh).next (fun x => { x with prev := (derefOrder s oh).prev })) lh0 (fun l => { l with total_qty := u32sub l.total_qty (derefOrder s oh).qty, order_count := l.order_count - 1, first_order := if l.first_order = oh then (derefOrder s oh).next else l.first_order })).order_map_ (id % MAX_ORDERS) none, order_pool_ := (setLevel (setOrder (setOrder s (derefOrder s oh).prev (fun x => { x with next := (derefOrder s oh).next })) (derefOrder s oh).next (fun x => { x with prev := (derefOrder s oh).prev })) lh0 (fun l => { l with total_qty := u32sub l.total_qty (derefOrder s oh).qty, order_count := l.order_count - 1, first_order := if l.first_order = oh then (derefOrder s oh).next else l.first_order })).order_pool_.deallocate oh }) k).next)
      (fun k => (derefOrder ({ setLevel (setOrder (setOrder s (derefOrder s oh).prev (fun x => { x with next := (derefOrder s oh).next })) (derefOrder s oh).next (fun x => { x with prev := (derefOrder s oh).prev })) lh0 (fun l => { l with total_qty := u32sub l.total_qty (derefOrder s oh).qty, order_count := l.order_count - 1, first_order := if l.first_order = oh then (derefOrder s oh).next else l.first_order }) with order_map_ := Function.update (setLevel (setOrder (setOrder s (derefOrder s oh).prev (fun x => { x with next := (derefOrder s oh).next })) (derefOrder s oh).next (fun x => { x with prev := (derefOrder s oh).prev })) lh0 (fun l => { l with total_qty := u32sub l.total_qty (derefOrder s oh).qty, order_count := l.order_count - 1, first_order := if l.first_order = oh then (derefOrder s oh).next else l.first_order })).order_map_ (id % MAX_ORDERS) none, order_pool_ := (setLevel (setOrder (setOrder s (derefOrder s oh).prev (fun x => { x with next := (derefOrder s oh).next })) (derefOrder s oh).next (fun x => { x with prev := (derefOrder s oh).prev })) lh0 (fun l => { l with total_qty := u32sub l.total_qty (derefOrder s oh).qty, order_count := l.order_count - 1, first_order := if l.first_order = oh then (derefOrder s oh).next else l.first_order })).order_pool_.deallocate oh }) k).prev)
      hcycF hndF hmemF hnol
      (by show (derefOrder ({ setLevel (setOrder (setOrder s (derefOrder s oh).prev (fun x => { x with next := (derefOrder s oh).next })) (derefOrder s oh).next (fun x => { x with prev := (derefOrder s oh).prev })) lh0 (fun l => { l with total_qty := u32sub l.total_qty (derefOrder s oh).qty, order_count := l.order_count - 1, first_order := if l.first_order = oh then (derefOrder s oh).next else l.first_order }) with order_map_ := Function.update (setLevel (setOrder (setOrder s (derefOrder s oh).prev (fun x => { x with next := (derefOrder s oh).next })) (derefOrder s oh).next (fun x => { x with prev := (derefOrder s oh).prev })) lh0 (fun l => { l with total_qty := u32sub l.total_qty (derefOrder s oh).qty, order_count := l.order_count - 1, first_order := if l.first_order = oh then (derefOrder s oh).next else l.first_order })).order_map_ (id % MAX_ORDERS) none, order_pool_ := (setLevel (setOrder (setOrder s (derefOrder s oh).prev (fun x => { x with next := (derefOrder s oh).next })) (derefOrder s oh).next (fun x => { x with prev := (derefOrder s oh).prev })) lh0 (fun l => { l with total_qty := u32sub l.total_qty (derefOrder s oh).qty, order_count := l.order_count - 1, first_order := if l.first_order = oh then (derefOrder s oh).next else l.first_order })).order_pool_.deallocate oh }) (derefOrder s oh).prev).next = (derefOrder s oh).next
          rw [hderO3 _ hPOne]
          exact hnpvO)
      (by show (derefOrder ({ setLevel (setOrder (setOrder s (derefOrder s oh).prev (fun x => { x with next := (derefOrder s oh).next })) (derefOrder s oh).next (fun x => { x with prev := (derefOrder s oh).prev })) lh0 (fun l => { l with total_qty := u32sub l.total_qty (derefOrder s oh).qty, order_count := l.order_count - 1, first_order := if l.first_order = oh then (derefOrder s oh).next else l.first_order }) with order_map_ := Function.update (setLevel (setOrder (setOrder s (derefOrder s oh).prev (fun x => { x with next := (derefOrder s oh).next })) (derefOrder s oh).next (fun x => { x with prev := (derefOrder s oh).prev })) lh0 (fun l => { l with total_qty := u32sub l.total_qty (derefOrder s oh).qty, order_count := l.order_count - 1, first_order := if l.first_order = oh then (derefOrder s oh).next else l.first_order })).order_map_ (id % MAX_ORDERS) none, order_pool_ := (setLevel (setOrder (setOrder s (derefOrder s oh).prev (fun x => { x with next := (derefOrder s oh).next })) (derefOrder s oh).next (fun x => { x with prev := (derefOrder s oh).prev })) lh0 (fun l => { l with total_qty := u32sub l.total_qty (derefOrder s oh).qty, order_count := l.order_count - 1, first_order := if l.first_order = oh then (derefOrder s oh).next else l.first_order })).order_pool_.deallocate oh }) (derefOrder s oh).next).prev = (derefOrder s oh).prev
          rw [hderO3 _ hnol]
          exact hpnxO)
      (fun k hk1 hk2 => by
        show (derefOrder ({ setLevel (setOrder (setOrder s (derefOrder s oh).prev (fun x => { x with next := (derefOrder s oh).next })) (derefOrder s oh).next (fun x => { x with prev := (derefOrder s oh).prev })) lh0 (fun l => { l with total_qty := u32sub l.total_qty (derefOrder s oh).qty, order_count := l.order_count - 1, first_order := if l.first_order = oh then (derefOrder s oh).next else l.first_order }) with order_map_ := Function.update (setLevel (setOrder (setOrder s (derefOrder s oh).prev (fun x => { x with next := (derefOrder s oh).next })) (derefOrder s oh).next (fun x => { x with prev := (derefOrder s oh).prev })) lh0 (fun l => { l with total_qty := u32sub l.total_qty (derefOrder s oh).qty, order_count := l.order_count - 1, first_order := if l.first_order = oh then (derefOrder s oh).next else l.first_order })).order_map_ (id % MAX_ORDERS) none, order_pool_ := (setLevel (setOrder (setOrder s (derefOrder s oh).prev (fun x => { x with next := (derefOrder s oh).next })) (derefOrder s oh).next (fun x => { x with prev := (derefOrder s oh).prev })) lh0 (fun l => { l with total_qty := u32sub l.total_qty (derefOrder s oh).qty, order_count := l.order_count - 1, first_order := if l.first_order = oh then (derefOrder s oh).next else l.first_order })).order_pool_.deallocate oh }) k).next = (derefOrder s k).next
        rw [hderO3 k hk1]
        exact hrnO k hk2)
      (fun k hk1 hk2 => by
        show (derefOrder ({ setLevel (setOrder (setOrder s (derefOrder s oh).prev (fun x => { x with next := (derefOrder s oh).next })) (derefOrder s oh).next (fun x => { x with prev := (derefOrder s oh).prev })) lh0 (fun l => { l with total_qty := u32sub l.total_qty (derefOrder s oh).qty, order_count := l.order_count - 1, first_order := if l.first_order = oh then (derefOrder s oh).next else l.first_order }) with order_map_ := Function.update (setLevel (setOrder (setOrder s (derefOrder s oh).prev (fun x => { x with next := (derefOrder s oh).next })) (derefOrder s oh).next (fun x => { x with prev := (derefOrder s oh).prev })) lh0 (fun l => { l with total_qty := u32sub l.total_qty (derefOrder s oh).qty, order_count := l.order_count - 1, first_order := if l.first_order = oh then (derefOrder s oh).next else l.first_order })).order_map_ (id % MAX_ORDERS) none, order_pool_ := (setLevel (setOrder (setOrder s (derefOrder s oh).prev (fun x => { x with next := (derefOrder s oh).next })) (derefOrder s oh).next (fun x => { x with prev := (derefOrder s oh).prev })) lh0 (fun l => { l with total_qty := u32sub l.total_qty (derefOrder s oh).qty, order_count := l.order_count - 1, first_order := if l.first_order = oh then (derefOrder s oh).next else l.first_order })).order_pool_.deallocate oh }) k).prev = (derefOrder s k).prev
        rw [hderO3 k hk1]
        exact hrpO k hk2)
    obtain ⟨-, -, -, hcycF2, hh1, hh2⟩ := hcycE
    have hGf : (⟨G.bidsL, G.asksL, Function.update G.fifo lh0 ((G.fifo lh0).erase oh)⟩ :
        BookShape).fifo = Function.update G.fifo lh0 ((G.fifo lh0).erase oh) := rfl
    have hfar : ∀ lh, lh ≠ lh0 → (s.level_pool_.storage lh).isSome →
        ∀ m ∈ G.fifo lh, m ≠ oh ∧ m ≠ (derefOrder s oh).prev ∧ m ≠ (derefOrder s oh).next := by
      intro lh hne hl m hm
      refine ⟨?_, ?_, ?_⟩
      · intro he
        exact hne (hwf.fifoDisj lh lh0 hl hlh0 m hm (he ▸ hmemF))
      · intro he
        exact hne (hwf.fifoDisj lh lh0 hl hlh0 m hm (he ▸ hPOmem))
      · intro he
        exact hne (hwf.fifoDisj lh lh0 hl hlh0 m hm (he ▸ hNOmem))
    refine ⟨⟨?_, ?_, hwf.levels.lvlNodup, ?_, ?_, ?_, ?_, ?_, ?_, ?_, ?_⟩,
      ?_, ?_, ?_, ?_, ?_, ?_, ?_, ?_, ?_, ?_, ?_⟩
    · refine isCycle_congr hwf.levels.bidsCyc ?_
      intro a b _ _ hr
      exact ⟨by rw [(hLrel a).1]; exact hr.1, by rw [(hLrel b).2]; exact hr.2⟩
    · refine isCycle_congr hwf.levels.asksCyc ?_
      intro a b _ _ hr
      exact ⟨by rw [(hLrel a).1]; exact hr.1, by rw [(hLrel b).2]; exact hr.2⟩
    · rw [hBH3]
      exact hwf.levels.bidsHead
    · rw [hAH3]
      exact hwf.levels.asksHead
    · intro k
      rw [hliveL3 k]
      exact hwf.levels.lvlLive k
    · intro k hk
      rw [(hLfields k).2]
      exact hwf.levels.bidsSide k hk
    · intro k hk
      rw [(hLfields k).2]
      exact hwf.levels.asksSide k hk
    · intro i k hik
      rw [hPM3] at hik
      obtain ⟨h1, h2⟩ := hwf.levels.mapToLvl i k hik
      rw [hliveL3 k, (hLfields k).1]
      exact ⟨h1, h2⟩
    · intro k hk
      rw [hliveL3 k] at hk
      rw [hPM3, (hLfields k).1]
      exact hwf.levels.lvlToMap k hk
    · show poolWF (⟨Function.update s.level_pool_.storage lh0 _, s.level_pool_.freeArr,
        s.level_pool_.freeCount⟩ : Pool PriceLevel) MAX_PRICE_LEVELS
      exact poolWF_overwrite hwf.levels.lpool hwl
    · intro lh hl
      rw [hliveL3 lh] at hl
      rw [hGf]
      by_cases hne : lh = lh0
      · rw [hne, Function.update_same]
        exact hcycF2
      · rw [Function.update_noteq hne]
        refine isCycle_congr (hwf.fifoCyc lh hl) ?_
        intro a b ha hb hr
        obtain ⟨ha1, ha2, -⟩ := hfar lh hne hl a ha
        obtain ⟨hb1, -, hb3⟩ := hfar lh hne hl b hb
        refine ⟨?_, ?_⟩
        · rw [hderO3 a ha1, hrnO a ha2]
          exact hr.1
        · rw [hderO3 b hb1, hrpO b hb3]
          exact hr.2
    · intro lh hl
      rw [hGf]
      by_cases hne : lh = lh0
      · rw [hne, Function.update_same]
        exact hndF.erase oh
      · rw [Function.update_noteq hne]
        rw [hliveL3 lh] at hl
        exact hwf.fifoNodup lh hl
    · intro lh hl
      rw [hliveL3 lh] at hl
      rw [hGf]
      by_cases hne : lh = lh0
      · subst hne
        rw [Function.update_same, hderL3same]
        show _ = some (if (derefLevel s lh).first_order = oh then (derefOrder s oh).next
          else (derefLevel s lh).first_order)
        have hold := hwf.fifoHead lh hl
        by_cases hfo : (derefLevel s lh).first_order = oh
        · rw [if_pos hfo]
          exact hh1 (by rw [hold, hfo])
        · rw [if_neg hfo]
          rw [hh2 (by rw [hold]; intro he; exact hfo (Option.some.inj he))]
          exact hold
      · rw [Function.update_noteq hne, hderL3ne lh hne]
        exact hwf.fifoHead lh hl
    · intro lh hl
      rw [hliveL3 lh] at hl
      rw [hGf]
      by_cases hne : lh = lh0
      · subst hne
        rw [Function.update_same, hderL3same]
        show (derefLevel s lh).order_count - 1 = _
        rw [hwf.fifoCount lh hl, List.length_erase_of_mem hmemF]
      · rw [Function.update_noteq hne, hderL3ne lh hne]
        exact hwf.fifoCount lh hl
    · intro lh hl m hm
      rw [hliveL3 lh] at hl
      rw [hGf] at hm
      by_cases hne : lh = lh0
      · subst hne
        rw [Function.update_same] at hm
        obtain ⟨hm1, hm2⟩ := (List.Nodup.mem_erase_iff hndF).mp hm
        rw [hliveO3]
        exact ⟨hwf.fifoLive lh hl m hm2, hm1⟩
      · rw [Function.update_noteq hne] at hm
        obtain ⟨hm1, -, -⟩ := hfar lh hne hl m hm
        rw [hliveO3]
        exact ⟨hwf.fifoLive lh hl m hm, hm1⟩
    · intro lh hl m hm
      rw [hliveL3 lh] at hl
      rw [hGf] at hm
      by_cases hne : lh = lh0
      · subst hne
        rw [Function.update_same] at hm
        obtain ⟨hm1, hm2⟩ := (List.Nodup.mem_erase_iff hndF).mp hm
        rw [hderO3 m hm1, (hLfields lh).1, (hfieldsCHO m).1]
        exact hwf.fifoPrice lh hl m hm2
      · rw [Function.update_noteq hne] at hm
        obtain ⟨hm1, -, -⟩ := hfar lh hne hl m hm
        rw [hderO3 m hm1, (hLfields lh).1, (hfieldsCHO m).1]
        exact hwf.fifoPrice lh hl m hm
    · intro lh1 lh2 h1 h2 m hm1 hm2
      rw [hliveL3 lh1] at h1
      rw [hliveL3 lh2] at h2
      rw [hGf] at hm1 hm2
      have hred : ∀ lh,
          m ∈ Function.update G.fifo lh0 ((G.fifo lh0).erase oh) lh → m ∈ G.fifo lh := by
        intro lh hmm
        by_cases hne : lh = lh0
        · rw [hne, Function.update_same] at hmm
          rw [hne]
          exact List.mem_of_mem_erase hmm
        · rwa [Function.update_noteq hne] at hmm
      exact hwf.fifoDisj lh1 lh2 h1 h2 m (hred lh1 hm1) (hred lh2 hm2)
    · intro i k hik
      rw [hOM3] at hik
      by_cases hi : i = id % MAX_ORDERS
      · rw [hi, Function.update_same] at hik
        cases hik
      · rw [Function.update_noteq hi] at hik
        obtain ⟨hk1, hk2⟩ := hwf.mapToOrd i k hik
        have hkno : k ≠ oh := by
          intro he
          subst he
          exact hi (((hwf.mapToOrd _ k hmap).2.symm.trans hk2).symm)
        rw [hliveO3, hderO3 k hkno, (hfieldsCHO k).2.2.2]
        exact ⟨⟨hk1, hkno⟩, hk2⟩
    · intro k hk
      rw [hliveO3] at hk
      rw [hOM3, hderO3 k hk.2, (hfieldsCHO k).2.2.2]
      have hne : (derefOrder s k).order_id % MAX_ORDERS ≠ id % MAX_ORDERS := by
        intro he
        have h2 := hwf.ordToMap k hk.1
        rw [he, hmap] at h2
        exact hk.2 (Option.some.inj h2).symm
      rw [Function.update_noteq hne]
      exact hwf.ordToMap k hk.1
    · intro k hk
      rw [hliveO3] at hk
      obtain ⟨lh, hl, hm⟩ := hwf.ordInFifo k hk.1
      refine ⟨lh, by rw [hliveL3 lh]; exact hl, ?_⟩
      rw [hGf]
      by_cases hne : lh = lh0
      · subst hne
        rw [Function.update_same]
        exact (List.mem_erase_of_ne hk.2).mpr hm
      · rw [Function.update_noteq hne]
        exact hm
    · show poolWF ((⟨Function.update ((setOrder (setOrder s (derefOrder s oh).prev (fun x => { x with next := (derefOrder s oh).next })) (derefOrder s oh).next (fun x => { x with prev := (derefOrder s oh).prev })).order_pool_.storage) oh none,
        Function.update ((setOrder (setOrder s (derefOrder s oh).prev (fun x => { x with next := (derefOrder s oh).next })) (derefOrder s oh).next (fun x => { x with prev := (derefOrder s oh).prev })).order_pool_.freeArr) ((setOrder (setOrder s (derefOrder s oh).prev (fun x => { x with next := (derefOrder s oh).next })) (derefOrder s oh).next (fun x => { x with prev := (derefOrder s oh).prev })).order_pool_.freeCount) oh,
        (setOrder (setOrder s (derefOrder s oh).prev (fun x => { x with next := (derefOrder s oh).next })) (derefOrder s oh).next (fun x => { x with prev := (derefOrder s oh).prev })).order_pool_.freeCount + 1⟩ : Pool Order)) MAX_ORDERS
      have hCHOoh : (setOrder (setOrder s (derefOrder s oh).prev (fun x => { x with next := (derefOrder s oh).next })) (derefOrder s oh).next (fun x => { x with prev := (derefOrder s oh).prev })).order_pool_.storage oh = some wo := by
        rw [hstCHO oh (Ne.symm hPOne) (fun he => hnol he.symm)]
        exact hwo
      obtain ⟨wp, hwp⟩ := Option.isSome_iff_exists.mp hPOlive
      have hp1 : poolWF (setOrder s (derefOrder s oh).prev (fun x => { x with next := (derefOrder s oh).next })).order_pool_ MAX_ORDERS :=
        poolWF_overwrite hwf.opool hwp
      have hnx1 : (((setOrder s (derefOrder s oh).prev (fun x => { x with next := (derefOrder s oh).next })).order_pool_.storage (derefOrder s oh).next).isSome) := by
        rw [setOrder_storage_isSome s _ _ hPOlive]
        exact hNOlive
      obtain ⟨wn, hwn⟩ := Option.isSome_iff_exists.mp hnx1
      exact poolWF_deallocate (poolWF_overwrite hp1 hwn) hCHOoh
  · intro k hk
    rw [hliveL3 k] at hk
    exact hLfields k


theorem levelFrame_refl (s : OrderBook) : LevelFrame s s :=
  fun _ _ => ⟨rfl, rfl⟩

theorem levelFrame_updateBBOSide {s X : OrderBook} (ub ua : Bool)
    (h : LevelFrame s X) : LevelFrame s (X.updateBBOSide ub ua) := by
  intro k hk
  have e : (X.updateBBOSide ub ua).level_pool_ = X.level_pool_ :=
    updateBBOSide_level_pool X ub ua
  rw [e] at hk
  have e2 : derefLevel (X.updateBBOSide ub ua) k = derefLevel X k := by
    rw [derefLevel, e, derefLevel]
  rw [e2]
  exact h k hk

/-- `deleteOrder` preserves the invariant; the side lists only lose levels
and surviving levels keep their price and side. -/
theorem bookWF_deleteOrder {s : OrderBook} {G : BookShape} (hwf : BookWF s G)
    (id : Nat) (sd : Side) :
    ∃ G' : BookShape, BookWF (s.deleteOrder id sd) G' ∧
      G'.bidsL.Sublist G.bidsL ∧ G'.asksL.Sublist G.asksL ∧
      LevelFrame s (s.deleteOrder id sd) := by
  cases hmap : s.order_map_ (id % MAX_ORDERS) with
  | none =>
    have hstate : s.deleteOrder id sd = s := by
      simp only [OrderBook.deleteOrder, hmap]
    rw [hstate]
    exact ⟨G, hwf, List.Sublist.refl _, List.Sublist.refl _, levelFrame_refl s⟩
  | some oh =>
    by_cases hid : (derefOrder s oh).order_id ≠ id
    · have hstate : s.deleteOrder id sd = s := by
        simp only [OrderBook.deleteOrder, hmap]
        rw [if_pos hid]
      rw [hstate]
      exact ⟨G, hwf, List.Sublist.refl _, List.Sublist.refl _, levelFrame_refl s⟩
    · obtain ⟨hoh, -⟩ := hwf.mapToOrd _ oh hmap
      obtain ⟨lh0, hlh0, hmemF⟩ := hwf.ordInFifo oh hoh
      have hfindeq : s.findPriceLevel (derefOrder s oh).price = some lh0 := by
        rw [hwf.fifoPrice lh0 hlh0 oh hmemF]
        exact bookWF_find hwf hlh0
      by_cases hsole : (derefOrder s oh).next = oh
      · have hfifo : G.fifo lh0 = [oh] :=
          isCycle_eq_singleton (hwf.fifoCyc lh0 hlh0) (hwf.fifoNodup lh0 hlh0) hmemF
            (fun b hr => by rw [← hr.1, hsole])
        obtain ⟨G', hG', hsb, hsa, hLF⟩ :=
          bookWF_delete_core_sole hwf hoh hmap hlh0 hfifo
        simp only [OrderBook.deleteOrder, hmap]
        rw [if_neg hid]
        simp only [hfindeq]
        rw [if_pos hsole]
        exact ⟨G', bookWF_updateBBOSide hG' _ _, hsb, hsa,
          levelFrame_updateBBOSide _ _ hLF⟩
      · obtain ⟨G', hG', hsb, hsa, hLF⟩ :=
          bookWF_delete_core_multi hwf hoh hmap hlh0 hmemF hsole
        simp only [OrderBook.deleteOrder, hmap]
        rw [if_neg hid]
        simp only [hfindeq]
        rw [if_neg hsole]
        exact ⟨G', bookWF_updateBBOSide hG' _ _, hsb, hsa,
          levelFrame_updateBBOSide _ _ hLF⟩

/-- A write through an order handle that keeps the id, price and the two
intrusive pointers preserves the invariant. -/
theorem bookWF_setOrder_keep {s : OrderBook} {G : BookShape} {oh : Nat}
    (hwf : BookWF s G) (hoh : (s.order_pool_.storage oh).isSome) (f : Order → Order)
    (hf : ∀ x, (f x).order_id = x.order_id ∧ (f x).price = x.price ∧
      (f x).prev = x.prev ∧ (f x).next = x.next) :
    BookWF (setOrder s oh f) G := by
  have hder : ∀ k, (derefOrder (setOrder s oh f) k).order_id = (derefOrder s k).order_id ∧
      (derefOrder (setOrder s oh f) k).price = (derefOrder s k).price ∧
      (derefOrder (setOrder s oh f) k).prev = (derefOrder s k).prev ∧
      (derefOrder (setOrder s oh f) k).next = (derefOrder s k).next := by
    intro k
    by_cases hk : k = oh
    · rw [hk, derefOrder_setOrder_same]
      exact hf _
    · rw [derefOrder_setOrder_ne _ _ _ hk]
      exact ⟨rfl, rfl, rfl, rfl⟩
  have hlive : ∀ k, ((setOrder s oh f).order_pool_.storage k).isSome =
      (s.order_pool_.storage k).isSome := setOrder_storage_isSome s oh f hoh
  have hderL : ∀ k, derefLevel (setOrder s oh f) k = derefLevel s k := fun k => rfl
  refine ⟨levelsWF_congr (show (setOrder s oh f).level_pool_ = s.level_pool_ from rfl)
    (show (setOrder s oh f).price_level_map_ = s.price_level_map_ from rfl)
    (show (setOrder s oh f).bids_ = s.bids_ from rfl)
    (show (setOrder s oh f).asks_ = s.asks_ from rfl) hwf.levels,
    ?_, ?_, ?_, ?_, ?_, ?_, ?_, ?_, ?_, ?_, ?_⟩
  · intro lh hl
    refine isCycle_congr (hwf.fifoCyc lh hl) ?_
    intro a b _ _ hr
    exact ⟨by rw [(hder a).2.2.2]; exact hr.1, by rw [(hder b).2.2.1]; exact hr.2⟩
  · exact hwf.fifoNodup
  · intro lh hl
    rw [hderL lh]
    exact hwf.fifoHead lh hl
  · intro lh hl
    rw [hderL lh]
    exact hwf.fifoCount lh hl
  · intro lh hl k hk
    rw [hlive k]
    exact hwf.fifoLive lh hl k hk
  · intro lh hl k hk
    rw [(hder k).2.1, hderL lh]
    exact hwf.fifoPrice lh hl k hk
  · exact hwf.fifoDisj
  · intro i k hik
    obtain ⟨h1, h2⟩ := hwf.mapToOrd i k hik
    rw [hlive k, (hder k).1]
    exact ⟨h1, h2⟩
  · intro k hk
    rw [hlive k] at hk
    rw [(hder k).1]
    exact hwf.ordToMap k hk
  · intro k hk
    rw [hlive k] at hk
    exact hwf.ordInFifo k hk
  · obtain ⟨w, hw⟩ := Option.isSome_iff_exists.mp hoh
    exact poolWF_overwrite hwf.opool hw

/-- A write through a level handle that keeps the price, side, FIFO head,
order count and the two intrusive pointers preserves the invariant. -/
theorem bookWF_setLevel_keep {s : OrderBook} {G : BookShape} {lh : Nat}
    (hwf : BookWF s G) (hlh : (s.level_pool_.storage lh).isSome)
    (f : PriceLevel → PriceLevel)
    (hf : ∀ x, (f x).price = x.price ∧ (f x).side = x.side ∧
      (f x).first_order = x.first_order ∧ (f x).order_count = x.order_count ∧
      (f x).prev = x.prev ∧ (f x).next = x.next) :
    BookWF (setLevel s lh f) G := by
  have hder : ∀ k, (derefLevel (setLevel s lh f) k).price = (derefLevel s k).price ∧
      (derefLevel (setLevel s lh f) k).side = (derefLevel s k).side ∧
      (derefLevel (setLevel s lh f) k).first_order = (derefLevel s k).first_order ∧
      (derefLevel (setLevel s lh f) k).order_count = (derefLevel s k).order_count ∧
      (derefLevel (setLevel s lh f) k).prev = (derefLevel s k).prev ∧
      (derefLevel (setLevel s lh f) k).next = (derefLevel s k).next := by
    intro k
    by_cases hk : k = lh
    · rw [hk, derefLevel_setLevel_same]
      exact hf _
    · rw [derefLevel_setLevel_ne _ _ _ hk]
      exact ⟨rfl, rfl, rfl, rfl, rfl, rfl⟩
  have hlive : ∀ k, ((setLevel s lh f).level_pool_.storage k).isSome =
      (s.level_pool_.storage k).isSome := setLevel_storage_isSome s lh f hlh
  have hderO : ∀ k, derefOrder (setLevel s lh f) k = derefOrder s k := fun k => rfl
  refine ⟨⟨?_, ?_, hwf.levels.lvlNodup, hwf.levels.bidsHead, hwf.levels.asksHead, ?_,
      ?_, ?_, ?_, ?_, ?_⟩, ?_, ?_, ?_, ?_, ?_, ?_, ?_, ?_, ?_, ?_, hwf.opool⟩
  · refine isCycle_congr hwf.levels.bidsCyc ?_
    intro a b _ _ hr
    exact ⟨by rw [(hder a).2.2.2.2.2]; exact hr.1, by rw [(hder b).2.2.2.2.1]; exact hr.2⟩
  · refine isCycle_congr hwf.levels.asksCyc ?_
    intro a b _ _ hr
    exact ⟨by rw [(hder a).2.2.2.2.2]; exact hr.1, by rw [(hder b).2.2.2.2.1]; exact hr.2⟩
  · intro k
    rw [hlive k]
    exact hwf.levels.lvlLive k
  · intro k hk
    rw [(hder k).2.1]
    exact hwf.levels.bidsSide k hk
  · intro k hk
    rw [(hder k).2.1]
    exact hwf.levels.asksSide k hk
  · intro i k hik
    obtain ⟨h1, h2⟩ := hwf.levels.mapToLvl i k hik
    rw [hlive k, (hder k).1]
    exact ⟨h1, h2⟩
  · intro k hk
    rw [hlive k] at hk
    rw [(hder k).1]
    exact hwf.levels.lvlToMap k hk
  · obtain ⟨w, hw⟩ := Option.isSome_iff_exists.mp hlh
    exact poolWF_overwrite hwf.levels.lpool hw
  · intro lh2 hl
    rw [hlive lh2] at hl
    refine isCycle_congr (hwf.fifoCyc lh2 hl) ?_
    intro a b _ _ hr
    exact hr
  · intro lh2 hl
    rw [hlive lh2] at hl
    exact hwf.fifoNodup lh2 hl
  · intro lh2 hl
    rw [hlive lh2] at hl
    rw [(hder lh2).2.2.1]
    exact hwf.fifoHead lh2 hl
  · intro lh2 hl
    rw [hlive lh2] at hl
    rw [(hder lh2).2.2.2.1]
    exact hwf.fifoCount lh2 hl
  · intro lh2 hl k hk
    rw [hlive lh2] at hl
    exact hwf.fifoLive lh2 hl k hk
  · intro lh2 hl k hk
    rw [hlive lh2] at hl
    rw [(hder lh2).1]
    exact hwf.fifoPrice lh2 hl k hk
  · intro lh1 lh2 h1 h2 k hk1 hk2
    rw [hlive lh1] at h1
    rw [hlive lh2] at h2
    exact hwf.fifoDisj lh1 lh2 h1 h2 k hk1 hk2
  · exact hwf.mapToOrd
  · intro k hk
    exact hwf.ordToMap k hk
  · intro k hk
    obtain ⟨lh2, hl, hm⟩ := hwf.ordInFifo k hk
    refine ⟨lh2, ?_, hm⟩
    rw [hlive lh2]
    exact hl

theorem findPriceLevel_some_live {s : OrderBook} {G : BookShape} (hwf : LevelsWF s G)
    {p : Int} {lh : Nat} (h : s.findPriceLevel p = some lh) :
    (s.level_pool_.storage lh).isSome ∧ (derefLevel s lh).price = p := by
  rw [OrderBook.findPriceLevel] at h
  cases hm : s.price_level_map_ (priceToIndex p) with
  | none =>
    simp only [hm] at h
    exact Option.noConfusion h
  | some k =>
    simp only [hm] at h
    by_cases hp : (derefLevel s k).price = p
    · rw [if_pos hp] at h
      cases h
      exact ⟨(hwf.mapToLvl _ _ hm).1, hp⟩
    · rw [if_neg hp] at h
      cases h

/-- `processTrade` preserves the invariant. -/
theorem bookWF_processTrade {s : OrderBook} {G : BookShape} (hwf : BookWF s G)
    (id tid : Nat) (p : Int) (q : Nat) (sd : Side) (ts : Nat) :
    ∃ G' : BookShape, BookWF (s.processTrade id tid p q sd ts) G' ∧
      G'.bidsL.Sublist G.bidsL ∧ G'.asksL.Sublist G.asksL ∧
      LevelFrame s (s.processTrade id tid p q sd ts) := by
  cases hmap : s.order_map_ (id % MAX_ORDERS) with
  | none =>
    have hstate : s.processTrade id tid p q sd ts = s := by
      simp only [OrderBook.processTrade, hmap]
    rw [hstate]
    exact ⟨G, hwf, List.Sublist.refl _, List.Sublist.refl _, levelFrame_refl s⟩
  | some oh =>
    by_cases hid : (derefOrder s oh).order_id ≠ id
    · have hstate : s.processTrade id tid p q sd ts = s := by
        simp only [OrderBook.processTrade, hmap]
        rw [if_pos hid]
      rw [hstate]
      exact ⟨G, hwf, List.Sublist.refl _, List.Sublist.refl _, levelFrame_refl s⟩
    · obtain ⟨hoh, -⟩ := hwf.mapToOrd _ oh hmap
      have hwf1 : BookWF ({ s with window_stats_ := s.window_stats_.recordTrade ts p q }) G :=
        bookWF_congr (show ({ s with window_stats_ := s.window_stats_.recordTrade ts p q }).order_pool_ = s.order_pool_ from rfl)
          (show ({ s with window_stats_ := s.window_stats_.recordTrade ts p q }).level_pool_ = s.level_pool_ from rfl)
          (show ({ s with window_stats_ := s.window_stats_.recordTrade ts p q }).order_map_ = s.order_map_ from rfl)
          (show ({ s with window_stats_ := s.window_stats_.recordTrade ts p q }).price_level_map_ = s.price_level_map_ from rfl)
          (show ({ s with window_stats_ := s.window_stats_.recordTrade ts p q }).bids_ = s.bids_ from rfl)
          (show ({ s with window_stats_ := s.window_stats_.recordTrade ts p q }).asks_ = s.asks_ from rfl) hwf
      by_cases hfill : (derefOrder s oh).qty ≤ q
      · obtain ⟨G', hG', hsb, hsa, hLF⟩ := bookWF_deleteOrder hwf1 id sd
        simp only [OrderBook.processTrade, hmap]
        rw [if_neg hid]
        rw [if_pos hfill]
        exact ⟨G', bookWF_updateBBOSide hG' _ _, hsb, hsa,
          levelFrame_updateBBOSide _ _ hLF⟩
      · have hwf2 : BookWF (setOrder { s with window_stats_ := s.window_stats_.recordTrade ts p q } oh (fun x => { x with qty := x.qty - q })) G :=
          bookWF_setOrder_keep hwf1 hoh (fun x => { x with qty := x.qty - q })
            (fun x => ⟨rfl, rfl, rfl, rfl⟩)
        simp only [OrderBook.processTrade, hmap]
        rw [if_neg hid]
        rw [if_neg hfill]
        split
        · rename_i lh hfind
          obtain ⟨hlh, -⟩ := findPriceLevel_some_live hwf2.levels hfind
          have hwf3 := bookWF_setLevel_keep hwf2 hlh
            (fun l => { l with total_qty := u32sub l.total_qty q })
            (fun x => ⟨rfl, rfl, rfl, rfl, rfl, rfl⟩)
          refine ⟨G, bookWF_updateBBOSide hwf3 _ _, List.Sublist.refl _,
            List.Sublist.refl _, levelFrame_updateBBOSide _ _ ?_⟩
          intro k hk
          by_cases hkl : k = lh
          · rw [hkl, derefLevel_setLevel_same]
            exact ⟨rfl, rfl⟩
          · rw [derefLevel_setLevel_ne _ _ _ hkl]
            exact ⟨rfl, rfl⟩
        · exact ⟨G, bookWF_updateBBOSide hwf2 _ _, List.Sublist.refl _,
            List.Sublist.refl _, levelFrame_updateBBOSide _ _ (fun k hk => ⟨rfl, rfl⟩)⟩

/-- Generic insertion of a fresh element `y` "before the head" of a
doubly-linked cycle (the FIFO append and the front insert of a level both
write these four links).  The same links make both `L ++ [y]` and `y :: L`
cycles. -/
theorem cycle_snoc_update (n p n' p' : Nat → Nat) {L : List Nat} {x y : Nat}
    (hc : IsCycle (fun a b => n a = b ∧ p b = a) L)
    (hnd : L.Nodup) (hy : y ∉ L) (hx : L.head? = some x)
    (hn'last : n' (p x) = y)
    (hp'y : p' y = p x) (hn'y : n' y = x) (hp'x : p' x = y)
    (hrn : ∀ k, k ∈ L → k ≠ p x → n' k = n k)
    (hrp : ∀ k, k ∈ L → k ≠ x → p' k = p k) :
    p x ∈ L ∧
    IsCycle (fun a b => n' a = b ∧ p' b = a) (L ++ [y]) ∧
    IsCycle (fun a b => n' a = b ∧ p' b = a) (y :: L) := by
  obtain ⟨xs, rfl⟩ : ∃ xs, L = x :: xs := by
    cases L with
    | nil => cases hx
    | cons a as =>
      rw [List.head?_cons] at hx
      exact ⟨as, by rw [Option.some.inj hx]⟩
  obtain ⟨pv, hpv_mem, hpv⟩ := isCycle_prev_mem hc (List.mem_cons_self x xs)
  have hpv_eq : pv = p x := hpv.2.symm
  have hpmem : p x ∈ x :: xs := hpv_eq ▸ hpv_mem
  have hnpx : n (p x) = x := by
    rw [← hpv_eq]
    exact hpv.1
  have h1 : ∀ a b, a ∈ x :: xs → b ∈ xs →
      (n a = b ∧ p b = a) → (n' a = b ∧ p' b = a) := by
    intro a b ha hb hr
    have hanp : a ≠ p x := by
      intro he
      rw [he, hnpx] at hr
      have : x ∈ xs := hr.1 ▸ hb
      exact (List.nodup_cons.mp hnd).1 this
    have hbx : b ≠ x := by
      intro he
      exact (List.nodup_cons.mp hnd).1 (he ▸ hb)
    exact ⟨by rw [hrn a ha hanp]; exact hr.1, by rw [hrp b (List.mem_cons_of_mem x hb) hbx]; exact hr.2⟩
  have h2 : ∀ a, a ∈ x :: xs → (n a = x ∧ p x = a) → (n' a = y ∧ p' y = a) := by
    intro a ha hr
    have hae : a = p x := hr.2.symm
    constructor
    · rw [hae, hn'last]
    · rw [hp'y, hae]
  have h3 : (n' y = x ∧ p' x = y) := ⟨hn'y, hp'x⟩
  refine ⟨hpmem, isCycle_snoc x xs y hc h1 h2 h3, ?_⟩
  -- the fresh element as new head
  rw [IsCycle_cons]
  rw [show (x :: xs) ++ [y] = x :: (xs ++ [y]) from rfl, List.chain_cons]
  refine ⟨h3, ?_⟩
  rw [IsCycle_cons] at hc
  exact chain_replace_end x y xs x hc h1 h2

/-- Generic insertion of a fresh element `y` right after a member `c` of a
doubly-linked cycle. -/
theorem cycle_insertAfter_update (n p n' p' : Nat → Nat) {L : List Nat} {c y : Nat}
    (hc : IsCycle (fun a b => n a = b ∧ p b = a) L)
    (hnd : L.Nodup) (hcL : c ∈ L) (hy : y ∉ L)
    (hn'c : n' c = y) (hp'y : p' y = c) (hn'y : n' y = n c) (hp'nc : p' (n c) = y)
    (hrn : ∀ k, k ∈ L → k ≠ c → n' k = n k)
    (hrp : ∀ k, k ∈ L → k ≠ n c → p' k = p k) :
    ∃ A B, L = A ++ c :: B ∧
      IsCycle (fun a b => n' a = b ∧ p' b = a) (A ++ c :: y :: B) ∧
      (A ++ c :: y :: B).head? = L.head? ∧ n c ∈ L := by
  obtain ⟨A, B, hdec⟩ := List.append_of_mem hcL
  obtain ⟨nx, hnx_mem, hnx⟩ := isCycle_next_mem hc hcL
  have hnx_eq : nx = n c := hnx.1.symm
  have hnmem : n c ∈ L := hnx_eq ▸ hnx_mem
  have hpnc : p (n c) = c := by
    rw [← hnx_eq]
    exact hnx.2
  refine ⟨A, B, hdec, ?_, ?_, hnmem⟩
  · rw [hdec] at hc hnd
    refine isCycle_insertAfter c y A B hnd hc ?_ ⟨hn'c, hp'y⟩ ?_
    · intro a b ha hb hr hac
      have hbnc : b ≠ n c := by
        intro he
        rw [he, hpnc] at hr
        exact hac hr.2.symm
      exact ⟨by rw [hrn a (by rw [hdec]; exact ha) hac]; exact hr.1,
        by rw [hrp b (by rw [hdec]; exact hb) hbnc]; exact hr.2⟩
    · intro b hr
      have hbe : b = n c := hr.1.symm
      subst hbe
      exact ⟨hn'y, hp'nc⟩
  · rw [hdec]
    cases A with
    | nil => rfl
    | cons a A' => rfl

/-- Append-to-existing-level core of `addOrder`: after a successful order
allocation the new order is spliced in front of `first_order` (i.e. at the
FIFO tail) and the level's totals are bumped; the invariant is preserved
with the level lists unchanged. -/
theorem bookWF_add_core_append {s : OrderBook} {G : BookShape} {id q : Nat} {sd : Side}
    {p : Int} {oh lh0 : Nat}
    (hwf : BookWF s G)
    (hslot : s.order_map_ (id % MAX_ORDERS) = none)
    (hohdead : s.order_pool_.storage oh = none)
    (hopool : poolWF (⟨Function.update s.order_pool_.storage oh
        (some ⟨id, p, q, sd, oh, oh⟩), s.order_pool_.freeArr,
        s.order_pool_.freeCount - 1⟩ : Pool Order) MAX_ORDERS)
    (hlh0 : (s.level_pool_.storage lh0).isSome)
    (hfind : s.findPriceLevel p = some lh0) :
    ∃ G' : BookShape, BookWF (setLevel (setOrder (setOrder (setOrder { s with order_pool_ := ⟨Function.update s.order_pool_.storage oh (some ⟨id, p, q, sd, oh, oh⟩), s.order_pool_.freeArr, s.order_pool_.freeCount - 1⟩, order_map_ := Function.update s.order_map_ (id % MAX_ORDERS) (some oh) } oh (fun o => { o with prev := (derefOrder { s with order_pool_ := ⟨Function.update s.order_pool_.storage oh (some ⟨id, p, q, sd, oh, oh⟩), s.order_pool_.freeArr, s.order_pool_.freeCount - 1⟩, order_map_ := Function.update s.order_map_ (id % MAX_ORDERS) (some oh) } (derefLevel { s with order_pool_ := ⟨Function.update s.order_pool_.storage oh (some ⟨id, p, q, sd, oh, oh⟩), s.order_pool_.freeArr, s.order_pool_.freeCount - 1⟩, order_map_ := Function.update s.order_map_ (id % MAX_ORDERS) (some oh) } lh0).first_order).prev, next := (derefLevel { s with order_pool_ := ⟨Function.update s.order_pool_.storage oh (some ⟨id, p, q, sd, oh, oh⟩), s.order_pool_.freeArr, s.order_pool_.freeCount - 1⟩, order_map_ := Function.update s.order_map_ (id % MAX_ORDERS) (some oh) } lh0).first_order })) (derefOrder { s with order_pool_ := ⟨Function.update s.order_pool_.storage oh (some ⟨id, p, q, sd, oh, oh⟩), s.order_pool_.freeArr, s.order_pool_.freeCount - 1⟩, order_map_ := Function.update s.order_map_ (id % MAX_ORDERS) (some oh) } (derefLevel { s with order_pool_ := ⟨Function.update s.order_pool_.storage oh (some ⟨id, p, q, sd, oh, oh⟩), s.order_pool_.freeArr, s.order_pool_.freeCount - 1⟩, order_map_ := Function.update s.order_map_ (id % MAX_ORDERS) (some oh) } lh0).first_order).prev (fun o => { o with next := oh })) (derefLevel { s with order_pool_ := ⟨Function.update s.order_pool_.storage oh (some ⟨id, p, q, sd, oh, oh⟩), s.order_pool_.freeArr, s.order_pool_.freeCount - 1⟩, order_map_ := Function.update s.order_map_ (id % MAX_ORDERS) (some oh) } lh0).first_order (fun o => { o with prev := oh })) lh0 (fun x => { x with total_qty := u32add x.total_qty q, order_count := x.order_count + 1 })) G' ∧ G'.bidsL = G.bidsL ∧ G'.asksL = G.asksL ∧
      LevelFrame s (setLevel (setOrder (setOrder (setOrder { s with order_pool_ := ⟨Function.update s.order_pool_.storage oh (some ⟨id, p, q, sd, oh, oh⟩), s.order_pool_.freeArr, s.order_pool_.freeCount - 1⟩, order_map_ := Function.update s.order_map_ (id % MAX_ORDERS) (some oh) } oh (fun o => { o with prev := (derefOrder { s with order_pool_ := ⟨Function.update s.order_pool_.storage oh (some ⟨id, p, q, sd, oh, oh⟩), s.order_pool_.freeArr, s.order_pool_.freeCount - 1⟩, order_map_ := Function.update s.order_map_ (id % MAX_ORDERS) (some oh) } (derefLevel { s with order_pool_ := ⟨Function.update s.order_pool_.storage oh (some ⟨id, p, q, sd, oh, oh⟩), s.order_pool_.freeArr, s.order_pool_.freeCount - 1⟩, order_map_ := Function.update s.order_map_ (id % MAX_ORDERS) (some oh) } lh0).first_order).prev, next := (derefLevel { s with order_pool_ := ⟨Function.update s.order_pool_.storage oh (some ⟨id, p, q, sd, oh, oh⟩), s.order_pool_.freeArr, s.order_pool_.freeCount - 1⟩, order_map_ := Function.update s.order_map_ (id % MAX_ORDERS) (some oh) } lh0).first_order })) (derefOrder { s with order_pool_ := ⟨Function.update s.order_pool_.storage oh (some ⟨id, p, q, sd, oh, oh⟩), s.order_pool_.freeArr, s.order_pool_.freeCount - 1⟩, order_map_ := Function.update s.order_map_ (id % MAX_ORDERS) (some oh) } (derefLevel { s with order_pool_ := ⟨Function.update s.order_pool_.storage oh (some ⟨id, p, q, sd, oh, oh⟩), s.order_pool_.freeArr, s.order_pool_.freeCount - 1⟩, order_map_ := Function.update s.order_map_ (id % MAX_ORDERS) (some oh) } lh0).first_order).prev (fun o => { o with next := oh })) (derefLevel { s with order_pool_ := ⟨Function.update s.order_pool_.storage oh (some ⟨id, p, q, sd, oh, oh⟩), s.order_pool_.freeArr, s.order_pool_.freeCount - 1⟩, order_map_ := Function.update s.order_map_ (id % MAX_ORDERS) (some oh) } lh0).first_order (fun o => { o with prev := oh })) lh0 (fun x => { x with total_qty := u32add x.total_qty q, order_count := x.order_count + 1 })) := by
  have hpx : (derefLevel s lh0).price = p := (findPriceLevel_some_live hwf.levels hfind).2
  have hohnotlive : ∀ lh, (s.level_pool_.storage lh).isSome → oh ∉ G.fifo lh := by
    intro lh hl hmem
    have := hwf.fifoLive lh hl oh hmem
    rw [hohdead] at this
    cases this
  have hF := hwf.fifoCyc lh0 hlh0
  have hndF := hwf.fifoNodup lh0 hlh0
  have hheadF := hwf.fifoHead lh0 hlh0
  have hderS1L : ∀ k, derefLevel ({ s with order_pool_ := ⟨Function.update s.order_pool_.storage oh (some ⟨id, p, q, sd, oh, oh⟩), s.order_pool_.freeArr, s.order_pool_.freeCount - 1⟩, order_map_ := Function.update s.order_map_ (id % MAX_ORDERS) (some oh) }) k = derefLevel s k := fun k => rfl
  have hS1st : ∀ k, k ≠ oh → ({ s with order_pool_ := ⟨Function.update s.order_pool_.storage oh (some ⟨id, p, q, sd, oh, oh⟩), s.order_pool_.freeArr, s.order_pool_.freeCount - 1⟩, order_map_ := Function.update s.order_map_ (id % MAX_ORDERS) (some oh) }).order_pool_.storage k = s.order_pool_.storage k := by
    intro k hk
    show Function.update s.order_pool_.storage oh (some ⟨id, p, q, sd, oh, oh⟩) k = _
    rw [Function.update_noteq hk]
  have hderS1 : ∀ k, k ≠ oh → derefOrder ({ s with order_pool_ := ⟨Function.update s.order_pool_.storage oh (some ⟨id, p, q, sd, oh, oh⟩), s.order_pool_.freeArr, s.order_pool_.freeCount - 1⟩, order_map_ := Function.update s.order_map_ (id % MAX_ORDERS) (some oh) }) k = derefOrder s k := by
    intro k hk
    show (({ s with order_pool_ := ⟨Function.update s.order_pool_.storage oh (some ⟨id, p, q, sd, oh, oh⟩), s.order_pool_.freeArr, s.order_pool_.freeCount - 1⟩, order_map_ := Function.update s.order_map_ (id % MAX_ORDERS) (some oh) }).order_pool_.storage k).getD defaultOrder = derefOrder s k
    rw [hS1st k hk]
    rfl
  have hS1ohst : ({ s with order_pool_ := ⟨Function.update s.order_pool_.storage oh (some ⟨id, p, q, sd, oh, oh⟩), s.order_pool_.freeArr, s.order_pool_.freeCount - 1⟩, order_map_ := Function.update s.order_map_ (id % MAX_ORDERS) (some oh) }).order_pool_.storage oh = some ⟨id, p, q, sd, oh, oh⟩ := by
    show Function.update s.order_pool_.storage oh (some ⟨id, p, q, sd, oh, oh⟩) oh = _
    rw [Function.update_same]
  have hS1oh : derefOrder ({ s with order_pool_ := ⟨Function.update s.order_pool_.storage oh (some ⟨id, p, q, sd, oh, oh⟩), s.order_pool_.freeArr, s.order_pool_.freeCount - 1⟩, order_map_ := Function.update s.order_map_ (id % MAX_ORDERS) (some oh) }) oh = ⟨id, p, q, sd, oh, oh⟩ := by
    show (({ s with order_pool_ := ⟨Function.update s.order_pool_.storage oh (some ⟨id, p, q, sd, oh, oh⟩), s.order_pool_.freeArr, s.order_pool_.freeCount - 1⟩, order_map_ := Function.update s.order_map_ (id % MAX_ORDERS) (some oh) }).order_pool_.storage oh).getD defaultOrder = _
    rw [hS1ohst]
    rfl
  have hS1ohIsSome : (({ s with order_pool_ := ⟨Function.update s.order_pool_.storage oh (some ⟨id, p, q, sd, oh, oh⟩), s.order_pool_.freeArr, s.order_pool_.freeCount - 1⟩, order_map_ := Function.update s.order_map_ (id % MAX_ORDERS) (some oh) }).order_pool_.storage oh).isSome := by
    rw [hS1ohst]
    rfl
  have hFH : (G.fifo lh0).head? = some ((derefLevel { s with order_pool_ := ⟨Function.update s.order_pool_.storage oh (some ⟨id, p, q, sd, oh, oh⟩), s.order_pool_.freeArr, s.order_pool_.freeCount - 1⟩, order_map_ := Function.update s.order_map_ (id % MAX_ORDERS) (some oh) } lh0).first_order) := by
    rw [hderS1L lh0]
    exact hheadF
  have hFHmem : ((derefLevel { s with order_pool_ := ⟨Function.update s.order_pool_.storage oh (some ⟨id, p, q, sd, oh, oh⟩), s.order_pool_.freeArr, s.order_pool_.freeCount - 1⟩, order_map_ := Function.update s.order_map_ (id % MAX_ORDERS) (some oh) } lh0).first_order) ∈ G.fifo lh0 := by
    cases hFF : G.fifo lh0 with
    | nil =>
      rw [hFF] at hFH
      cases hFH
    | cons f rest =>
      rw [hFF] at hFH
      rw [List.head?_cons] at hFH
      rw [Option.some.inj hFH]
      simp [hFF]
  have hFHne : ((derefLevel { s with order_pool_ := ⟨Function.update s.order_pool_.storage oh (some ⟨id, p, q, sd, oh, oh⟩), s.order_pool_.freeArr, s.order_pool_.freeCount - 1⟩, order_map_ := Function.update s.order_map_ (id % MAX_ORDERS) (some oh) } lh0).first_order) ≠ oh := by
    intro he
    exact hohnotlive lh0 hlh0 (he ▸ hFHmem)
  have hTHeq : ((derefOrder { s with order_pool_ := ⟨Function.update s.order_pool_.storage oh (some ⟨id, p, q, sd, oh, oh⟩), s.order_pool_.freeArr, s.order_pool_.freeCount - 1⟩, order_map_ := Function.update s.order_map_ (id % MAX_ORDERS) (some oh) } (derefLevel { s with order_pool_ := ⟨Function.update s.order_pool_.storage oh (some ⟨id, p, q, sd, oh, oh⟩), s.order_pool_.freeArr, s.order_pool_.freeCount - 1⟩, order_map_ := Function.update s.order_map_ (id % MAX_ORDERS) (some oh) } lh0).first_order).prev) = (derefOrder s ((derefLevel { s with order_pool_ := ⟨Function.update s.order_pool_.storage oh (some ⟨id, p, q, sd, oh, oh⟩), s.order_pool_.freeArr, s.order_pool_.freeCount - 1⟩, order_map_ := Function.update s.order_map_ (id % MAX_ORDERS) (some oh) } lh0).first_order)).prev := by
    rw [hderS1 _ hFHne]
  obtain ⟨pv, hpv_mem, hpv⟩ := isCycle_prev_mem hF hFHmem
  have hpv_eq : pv = (derefOrder s ((derefLevel { s with order_pool_ := ⟨Function.update s.order_pool_.storage oh (some ⟨id, p, q, sd, oh, oh⟩), s.order_pool_.freeArr, s.order_pool_.freeCount - 1⟩, order_map_ := Function.update s.order_map_ (id % MAX_ORDERS) (some oh) } lh0).first_order)).prev := hpv.2.symm
  have hTHmem : ((derefOrder { s with order_pool_ := ⟨Function.update s.order_pool_.storage oh (some ⟨id, p, q, sd, oh, oh⟩), s.order_pool_.freeArr, s.order_pool_.freeCount - 1⟩, order_map_ := Function.update s.order_map_ (id % MAX_ORDERS) (some oh) } (derefLevel { s with order_pool_ := ⟨Function.update s.order_pool_.storage oh (some ⟨id, p, q, sd, oh, oh⟩), s.order_pool_.freeArr, s.order_pool_.freeCount - 1⟩, order_map_ := Function.update s.order_map_ (id % MAX_ORDERS) (some oh) } lh0).first_order).prev) ∈ G.fifo lh0 := by
    rw [hTHeq, ← hpv_eq]
    exact hpv_mem
  have hTHne : ((derefOrder { s with order_pool_ := ⟨Function.update s.order_pool_.storage oh (some ⟨id, p, q, sd, oh, oh⟩), s.order_pool_.freeArr, s.order_pool_.freeCount - 1⟩, order_map_ := Function.update s.order_map_ (id % MAX_ORDERS) (some oh) } (derefLevel { s with order_pool_ := ⟨Function.update s.order_pool_.storage oh (some ⟨id, p, q, sd, oh, oh⟩), s.order_pool_.freeArr, s.order_pool_.freeCount - 1⟩, order_map_ := Function.update s.order_map_ (id % MAX_ORDERS) (some oh) } lh0).first_order).prev) ≠ oh := by
    intro he
    exact hohnotlive lh0 hlh0 (he ▸ hTHmem)
  have hTHlive : (s.order_pool_.storage ((derefOrder { s with order_pool_ := ⟨Function.update s.order_pool_.storage oh (some ⟨id, p, q, sd, oh, oh⟩), s.order_pool_.freeArr, s.order_pool_.freeCount - 1⟩, order_map_ := Function.update s.order_map_ (id % MAX_ORDERS) (some oh) } (derefLevel { s with order_pool_ := ⟨Function.update s.order_pool_.storage oh (some ⟨id, p, q, sd, oh, oh⟩), s.order_pool_.freeArr, s.order_pool_.freeCount - 1⟩, order_map_ := Function.update s.order_map_ (id % MAX_ORDERS) (some oh) } lh0).first_order).prev)).isSome := hwf.fifoLive lh0 hlh0 _ hTHmem
  have hFHlive : (s.order_pool_.storage ((derefLevel { s with order_pool_ := ⟨Function.update s.order_pool_.storage oh (some ⟨id, p, q, sd, oh, oh⟩), s.order_pool_.freeArr, s.order_pool_.freeCount - 1⟩, order_map_ := Function.update s.order_map_ (id % MAX_ORDERS) (some oh) } lh0).first_order)).isSome := hwf.fifoLive lh0 hlh0 _ hFHmem
  -- level-side facts about the final state
  have hderS5L_same : derefLevel (setLevel (setOrder (setOrder (setOrder { s with order_pool_ := ⟨Function.update s.order_pool_.storage oh (some ⟨id, p, q, sd, oh, oh⟩), s.order_pool_.freeArr, s.order_pool_.freeCount - 1⟩, order_map_ := Function.update s.order_map_ (id % MAX_ORDERS) (some oh) } oh (fun o => { o with prev := (derefOrder { s with order_pool_ := ⟨Function.update s.order_pool_.storage oh (some ⟨id, p, q, sd, oh, oh⟩), s.order_pool_.freeArr, s.order_pool_.freeCount - 1⟩, order_map_ := Function.update s.order_map_ (id % MAX_ORDERS) (some oh) } (derefLevel { s with order_pool_ := ⟨Function.update s.order_pool_.storage oh (some ⟨id, p, q, sd, oh, oh⟩), s.order_pool_.freeArr, s.order_pool_.freeCount - 1⟩, order_map_ := Function.update s.order_map_ (id % MAX_ORDERS) (some oh) } lh0).first_order).prev, next := (derefLevel { s with order_pool_ := ⟨Function.update s.order_pool_.storage oh (some ⟨id, p, q, sd, oh, oh⟩), s.order_pool_.freeArr, s.order_pool_.freeCount - 1⟩, order_map_ := Function.update s.order_map_ (id % MAX_ORDERS) (some oh) } lh0).first_order })) (derefOrder { s with order_pool_ := ⟨Function.update s.order_pool_.storage oh (some ⟨id, p, q, sd, oh, oh⟩), s.order_pool_.freeArr, s.order_pool_.freeCount - 1⟩, order_map_ := Function.update s.order_map_ (id % MAX_ORDERS) (some oh) } (derefLevel { s with order_pool_ := ⟨Function.update s.order_pool_.storage oh (some ⟨id, p, q, sd, oh, oh⟩), s.order_pool_.freeArr, s.order_pool_.freeCount - 1⟩, order_map_ := Function.update s.order_map_ (id % MAX_ORDERS) (some oh) } lh0).first_order).prev (fun o => { o with next := oh })) (derefLevel { s with order_pool_ := ⟨Function.update s.order_pool_.storage oh (some ⟨id, p, q, sd, oh, oh⟩), s.order_pool_.freeArr, s.order_pool_.freeCount - 1⟩, order_map_ := Function.update s.order_map_ (id % MAX_ORDERS) (some oh) } lh0).first_order (fun o => { o with prev := oh })) lh0 (fun x => { x with total_qty := u32add x.total_qty q, order_count := x.order_count + 1 })) lh0 = { derefLevel s lh0 with total_qty := u32add (derefLevel s lh0).total_qty q, order_count := (derefLevel s lh0).order_count + 1 } := by
    rw [derefLevel_setLevel_same]
    rfl
  have hderS5L_ne : ∀ k, k ≠ lh0 → derefLevel (setLevel (setOrder (setOrder (setOrder { s with order_pool_ := ⟨Function.update s.order_pool_.storage oh (some ⟨id, p, q, sd, oh, oh⟩), s.order_pool_.freeArr, s.order_pool_.freeCount - 1⟩, order_map_ := Function.update s.order_map_ (id % MAX_ORDERS) (some oh) } oh (fun o => { o with prev := (derefOrder { s with order_pool_ := ⟨Function.update s.order_pool_.storage oh (some ⟨id, p, q, sd, oh, oh⟩), s.order_pool_.freeArr, s.order_pool_.freeCount - 1⟩, order_map_ := Function.update s.order_map_ (id % MAX_ORDERS) (some oh) } (derefLevel { s with order_pool_ := ⟨Function.update s.order_pool_.storage oh (some ⟨id, p, q, sd, oh, oh⟩), s.order_pool_.freeArr, s.order_pool_.freeCount - 1⟩, order_map_ := Function.update s.order_map_ (id % MAX_ORDERS) (some oh) } lh0).first_order).prev, next := (derefLevel { s with order_pool_ := ⟨Function.update s.order_pool_.storage oh (some ⟨id, p, q, sd, oh, oh⟩), s.order_pool_.freeArr, s.order_pool_.freeCount - 1⟩, order_map_ := Function.update s.order_map_ (id % MAX_ORDERS) (some oh) } lh0).first_order })) (derefOrder { s with order_pool_ := ⟨Function.update s.order_pool_.storage oh (some ⟨id, p, q, sd, oh, oh⟩), s.order_pool_.freeArr, s.order_pool_.freeCount - 1⟩, order_map_ := Function.update s.order_map_ (id % MAX_ORDERS) (some oh) } (derefLevel { s with order_pool_ := ⟨Function.update s.order_pool_.storage oh (some ⟨id, p, q, sd, oh, oh⟩), s.order_pool_.freeArr, s.order_pool_.freeCount - 1⟩, order_map_ := Function.update s.order_map_ (id % MAX_ORDERS) (some oh) } lh0).first_order).prev (fun o => { o with next := oh })) (derefLevel { s with order_pool_ := ⟨Function.update s.order_pool_.storage oh (some ⟨id, p, q, sd, oh, oh⟩), s.order_pool_.freeArr, s.order_pool_.freeCount - 1⟩, order_map_ := Function.update s.order_map_ (id % MAX_ORDERS) (some oh) } lh0).first_order (fun o => { o with prev := oh })) lh0 (fun x => { x with total_qty := u32add x.total_qty q, order_count := x.order_count + 1 })) k = derefLevel s k := by
    intro k hk
    rw [derefLevel_setLevel_ne _ _ _ hk]
    rfl
  have hFO5 : (derefLevel (setLevel (setOrder (setOrder (setOrder { s with order_pool_ := ⟨Function.update s.order_pool_.storage oh (some ⟨id, p, q, sd, oh, oh⟩), s.order_pool_.freeArr, s.order_pool_.freeCount - 1⟩, order_map_ := Function.update s.order_map_ (id % MAX_ORDERS) (some oh) } oh (fun o => { o with prev := (derefOrder { s with order_pool_ := ⟨Function.update s.order_pool_.storage oh (some ⟨id, p, q, sd, oh, oh⟩), s.order_pool_.freeArr, s.order_pool_.freeCount - 1⟩, order_map_ := Function.update s.order_map_ (id % MAX_ORDERS) (some oh) } (derefLevel { s with order_pool_ := ⟨Function.update s.order_pool_.storage oh (some ⟨id, p, q, sd, oh, oh⟩), s.order_pool_.freeArr, s.order_pool_.freeCount - 1⟩, order_map_ := Function.update s.order_map_ (id % MAX_ORDERS) (some oh) } lh0).first_order).prev, next := (derefLevel { s with order_pool_ := ⟨Function.update s.order_pool_.storage oh (some ⟨id, p, q, sd, oh, oh⟩), s.order_pool_.freeArr, s.order_pool_.freeCount - 1⟩, order_map_ := Function.update s.order_map_ (id % MAX_ORDERS) (some oh) } lh0).first_order })) (derefOrder { s with order_pool_ := ⟨Function.update s.order_pool_.storage oh (some ⟨id, p, q, sd, oh, oh⟩), s.order_pool_.freeArr, s.order_pool_.freeCount - 1⟩, order_map_ := Function.update s.order_map_ (id % MAX_ORDERS) (some oh) } (derefLevel { s with order_pool_ := ⟨Function.update s.order_pool_.storage oh (some ⟨id, p, q, sd, oh, oh⟩), s.order_pool_.freeArr, s.order_pool_.freeCount - 1⟩, order_map_ := Function.update s.order_map_ (id % MAX_ORDERS) (some oh) } lh0).first_order).prev (fun o => { o with next := oh })) (derefLevel { s with order_pool_ := ⟨Function.update s.order_pool_.storage oh (some ⟨id, p, q, sd, oh, oh⟩), s.order_pool_.freeArr, s.order_pool_.freeCount - 1⟩, order_map_ := Function.update s.order_map_ (id % MAX_ORDERS) (some oh) } lh0).first_order (fun o => { o with prev := oh })) lh0 (fun x => { x with total_qty := u32add x.total_qty q, order_count := x.order_count + 1 })) lh0).first_order = (derefLevel s lh0).first_order := by
    rw [hderS5L_same]
  have hLrel : ∀ k, (derefLevel (setLevel (setOrder (setOrder (setOrder { s with order_pool_ := ⟨Function.update s.order_pool_.storage oh (some ⟨id, p, q, sd, oh, oh⟩), s.order_pool_.freeArr, s.order_pool_.freeCount - 1⟩, order_map_ := Function.update s.order_map_ (id % MAX_ORDERS) (some oh) } oh (fun o => { o with prev := (derefOrder { s with order_pool_ := ⟨Function.update s.order_pool_.storage oh (some ⟨id, p, q, sd, oh, oh⟩), s.order_pool_.freeArr, s.order_pool_.freeCount - 1⟩, order_map_ := Function.update s.order_map_ (id % MAX_ORDERS) (some oh) } (derefLevel { s with order_pool_ := ⟨Function.update s.order_pool_.storage oh (some ⟨id, p, q, sd, oh, oh⟩), s.order_pool_.freeArr, s.order_pool_.freeCount - 1⟩, order_map_ := Function.update s.order_map_ (id % MAX_ORDERS) (some oh) } lh0).first_order).prev, next := (derefLevel { s with order_pool_ := ⟨Function.update s.order_pool_.storage oh (some ⟨id, p, q, sd, oh, oh⟩), s.order_pool_.freeArr, s.order_pool_.freeCount - 1⟩, order_map_ := Function.update s.order_map_ (id % MAX_ORDERS) (some oh) } lh0).first_order })) (derefOrder { s with order_pool_ := ⟨Function.update s.order_pool_.storage oh (some ⟨id, p, q, sd, oh, oh⟩), s.order_pool_.freeArr, s.order_pool_.freeCount - 1⟩, order_map_ := Function.update s.order_map_ (id % MAX_ORDERS) (some oh) } (derefLevel { s with order_pool_ := ⟨Function.update s.order_pool_.storage oh (some ⟨id, p, q, sd, oh, oh⟩), s.order_pool_.freeArr, s.order_pool_.freeCount - 1⟩, order_map_ := Function.update s.order_map_ (id % MAX_ORDERS) (some oh) } lh0).first_order).prev (fun o => { o with next := oh })) (derefLevel { s with order_pool_ := ⟨Function.update s.order_pool_.storage oh (some ⟨id, p, q, sd, oh, oh⟩), s.order_pool_.freeArr, s.order_pool_.freeCount - 1⟩, order_map_ := Function.update s.order_map_ (id % MAX_ORDERS) (some oh) } lh0).first_order (fun o => { o with prev := oh })) lh0 (fun x => { x with total_qty := u32add x.total_qty q, order_count := x.order_count + 1 })) k).next = (derefLevel s k).next ∧
      (derefLevel (setLevel (setOrder (setOrder (setOrder { s with order_pool_ := ⟨Function.update s.order_pool_.storage oh (some ⟨id, p, q, sd, oh, oh⟩), s.order_pool_.freeArr, s.order_pool_.freeCount - 1⟩, order_map_ := Function.update s.order_map_ (id % MAX_ORDERS) (some oh) } oh (fun o => { o with prev := (derefOrder { s with order_pool_ := ⟨Function.update s.order_pool_.storage oh (some ⟨id, p, q, sd, oh, oh⟩), s.order_pool_.freeArr, s.order_pool_.freeCount - 1⟩, order_map_ := Function.update s.order_map_ (id % MAX_ORDERS) (some oh) } (derefLevel { s with order_pool_ := ⟨Function.update s.order_pool_.storage oh (some ⟨id, p, q, sd, oh, oh⟩), s.order_pool_.freeArr, s.order_pool_.freeCount - 1⟩, order_map_ := Function.update s.order_map_ (id % MAX_ORDERS) (some oh) } lh0).first_order).prev, next := (derefLevel { s with order_pool_ := ⟨Function.update s.order_pool_.storage oh (some ⟨id, p, q, sd, oh, oh⟩), s.order_pool_.freeArr, s.order_pool_.freeCount - 1⟩, order_map_ := Function.update s.order_map_ (id % MAX_ORDERS) (some oh) } lh0).first_order })) (derefOrder { s with order_pool_ := ⟨Function.update s.order_pool_.storage oh (some ⟨id, p, q, sd, oh, oh⟩), s.order_pool_.freeArr, s.order_pool_.freeCount - 1⟩, order_map_ := Function.update s.order_map_ (id % MAX_ORDERS) (some oh) } (derefLevel { s with order_pool_ := ⟨Function.update s.order_pool_.storage oh (some ⟨id, p, q, sd, oh, oh⟩), s.order_pool_.freeArr, s.order_pool_.freeCount - 1⟩, order_map_ := Function.update s.order_map_ (id % MAX_ORDERS) (some oh) } lh0).first_order).prev (fun o => { o with next := oh })) (derefLevel { s with order_pool_ := ⟨Function.update s.order_pool_.storage oh (some ⟨id, p, q, sd, oh, oh⟩), s.order_pool_.freeArr, s.order_pool_.freeCount - 1⟩, order_map_ := Function.update s.order_map_ (id % MAX_ORDERS) (some oh) } lh0).first_order (fun o => { o with prev := oh })) lh0 (fun x => { x with total_qty := u32add x.total_qty q, order_count := x.order_count + 1 })) k).prev = (derefLevel s k).prev := by
    intro k
    by_cases hk : k = lh0
    · rw [hk, hderS5L_same]
      exact ⟨rfl, rfl⟩
    · rw [hderS5L_ne k hk]
      exact ⟨rfl, rfl⟩
  have hLfields5 : ∀ k, (derefLevel (setLevel (setOrder (setOrder (setOrder { s with order_pool_ := ⟨Function.update s.order_pool_.storage oh (some ⟨id, p, q, sd, oh, oh⟩), s.order_pool_.freeArr, s.order_pool_.freeCount - 1⟩, order_map_ := Function.update s.order_map_ (id % MAX_ORDERS) (some oh) } oh (fun o => { o with prev := (derefOrder { s with order_pool_ := ⟨Function.update s.order_pool_.storage oh (some ⟨id, p, q, sd, oh, oh⟩), s.order_pool_.freeArr, s.order_pool_.freeCount - 1⟩, order_map_ := Function.update s.order_map_ (id % MAX_ORDERS) (some oh) } (derefLevel { s with order_pool_ := ⟨Function.update s.order_pool_.storage oh (some ⟨id, p, q, sd, oh, oh⟩), s.order_pool_.freeArr, s.order_pool_.freeCount - 1⟩, order_map_ := Function.update s.order_map_ (id % MAX_ORDERS) (some oh) } lh0).first_order).prev, next := (derefLevel { s with order_pool_ := ⟨Function.update s.order_pool_.storage oh (some ⟨id, p, q, sd, oh, oh⟩), s.order_pool_.freeArr, s.order_pool_.freeCount - 1⟩, order_map_ := Function.update s.order_map_ (id % MAX_ORDERS) (some oh) } lh0).first_order })) (derefOrder { s with order_pool_ := ⟨Function.update s.order_pool_.storage oh (some ⟨id, p, q, sd, oh, oh⟩), s.order_pool_.freeArr, s.order_pool_.freeCount - 1⟩, order_map_ := Function.update s.order_map_ (id % MAX_ORDERS) (some oh) } (derefLevel { s with order_pool_ := ⟨Function.update s.order_pool_.storage oh (some ⟨id, p, q, sd, oh, oh⟩), s.order_pool_.freeArr, s.order_pool_.freeCount - 1⟩, order_map_ := Function.update s.order_map_ (id % MAX_ORDERS) (some oh) } lh0).first_order).prev (fun o => { o with next := oh })) (derefLevel { s with order_pool_ := ⟨Function.update s.order_pool_.storage oh (some ⟨id, p, q, sd, oh, oh⟩), s.order_pool_.freeArr, s.order_pool_.freeCount - 1⟩, order_map_ := Function.update s.order_map_ (id % MAX_ORDERS) (some oh) } lh0).first_order (fun o => { o with prev := oh })) lh0 (fun x => { x with total_qty := u32add x.total_qty q, order_count := x.order_count + 1 })) k).price = (derefLevel s k).price ∧
      (derefLevel (setLevel (setOrder (setOrder (setOrder { s with order_pool_ := ⟨Function.update s.order_pool_.storage oh (some ⟨id, p, q, sd, oh, oh⟩), s.order_pool_.freeArr, s.order_pool_.freeCount - 1⟩, order_map_ := Function.update s.order_map_ (id % MAX_ORDERS) (some oh) } oh (fun o => { o with prev := (derefOrder { s with order_pool_ := ⟨Function.update s.order_pool_.storage oh (some ⟨id, p, q, sd, oh, oh⟩), s.order_pool_.freeArr, s.order_pool_.freeCount - 1⟩, order_map_ := Function.update s.order_map_ (id % MAX_ORDERS) (some oh) } (derefLevel { s with order_pool_ := ⟨Function.update s.order_pool_.storage oh (some ⟨id, p, q, sd, oh, oh⟩), s.order_pool_.freeArr, s.order_pool_.freeCount - 1⟩, order_map_ := Function.update s.order_map_ (id % MAX_ORDERS) (some oh) } lh0).first_order).prev, next := (derefLevel { s with order_pool_ := ⟨Function.update s.order_pool_.storage oh (some ⟨id, p, q, sd, oh, oh⟩), s.order_pool_.freeArr, s.order_pool_.freeCount - 1⟩, order_map_ := Function.update s.order_map_ (id % MAX_ORDERS) (some oh) } lh0).first_order })) (derefOrder { s with order_pool_ := ⟨Function.update s.order_pool_.storage oh (some ⟨id, p, q, sd, oh, oh⟩), s.order_pool_.freeArr, s.order_pool_.freeCount - 1⟩, order_map_ := Function.update s.order_map_ (id % MAX_ORDERS) (some oh) } (derefLevel { s with order_pool_ := ⟨Function.update s.order_pool_.storage oh (some ⟨id, p, q, sd, oh, oh⟩), s.order_pool_.freeArr, s.order_pool_.freeCount - 1⟩, order_map_ := Function.update s.order_map_ (id % MAX_ORDERS) (some oh) } lh0).first_order).prev (fun o => { o with next := oh })) (derefLevel { s with order_pool_ := ⟨Function.update s.order_pool_.storage oh (some ⟨id, p, q, sd, oh, oh⟩), s.order_pool_.freeArr, s.order_pool_.freeCount - 1⟩, order_map_ := Function.update s.order_map_ (id % MAX_ORDERS) (some oh) } lh0).first_order (fun o => { o with prev := oh })) lh0 (fun x => { x with total_qty := u32add x.total_qty q, order_count := x.order_count + 1 })) k).side = (derefLevel s k).side := by
    intro k
    by_cases hk : k = lh0
    · rw [hk, hderS5L_same]
      exact ⟨rfl, rfl⟩
    · rw [hderS5L_ne k hk]
      exact ⟨rfl, rfl⟩
  have hliveL5 : ∀ k, ((setLevel (setOrder (setOrder (setOrder { s with order_pool_ := ⟨Function.update s.order_pool_.storage oh (some ⟨id, p, q, sd, oh, oh⟩), s.order_pool_.freeArr, s.order_pool_.freeCount - 1⟩, order_map_ := Function.update s.order_map_ (id % MAX_ORDERS) (some oh) } oh (fun o => { o with prev := (derefOrder { s with order_pool_ := ⟨Function.update s.order_pool_.storage oh (some ⟨id, p, q, sd, oh, oh⟩), s.order_pool_.freeArr, s.order_pool_.freeCount - 1⟩, order_map_ := Function.update s.order_map_ (id % MAX_ORDERS) (some oh) } (derefLevel { s with order_pool_ := ⟨Function.update s.order_pool_.storage oh (some ⟨id, p, q, sd, oh, oh⟩), s.order_pool_.freeArr, s.order_pool_.freeCount - 1⟩, order_map_ := Function.update s.order_map_ (id % MAX_ORDERS) (some oh) } lh0).first_order).prev, next := (derefLevel { s with order_pool_ := ⟨Function.update s.order_pool_.storage oh (some ⟨id, p, q, sd, oh, oh⟩), s.order_pool_.freeArr, s.order_pool_.freeCount - 1⟩, order_map_ := Function.update s.order_map_ (id % MAX_ORDERS) (some oh) } lh0).first_order })) (derefOrder { s with order_pool_ := ⟨Function.update s.order_pool_.storage oh (some ⟨id, p, q, sd, oh, oh⟩), s.order_pool_.freeArr, s.order_pool_.freeCount - 1⟩, order_map_ := Function.update s.order_map_ (id % MAX_ORDERS) (some oh) } (derefLevel { s with order_pool_ := ⟨Function.update s.order_pool_.storage oh (some ⟨id, p, q, sd, oh, oh⟩), s.order_pool_.freeArr, s.order_pool_.freeCount - 1⟩, order_map_ := Function.update s.order_map_ (id % MAX_ORDERS) (some oh) } lh0).first_order).prev (fun o => { o with next := oh })) (derefLevel { s with order_pool_ := ⟨Function.update s.order_pool_.storage oh (some ⟨id, p, q, sd, oh, oh⟩), s.order_pool_.freeArr, s.order_pool_.freeCount - 1⟩, order_map_ := Function.update s.order_map_ (id % MAX_ORDERS) (some oh) } lh0).first_order (fun o => { o with prev := oh })) lh0 (fun x => { x with total_qty := u32add x.total_qty q, order_count := x.order_count + 1 })).level_pool_.storage k).isSome = (s.level_pool_.storage k).isSome := by
    intro k
    exact setLevel_storage_isSome (setOrder (setOrder (setOrder { s with order_pool_ := ⟨Function.update s.order_pool_.storage oh (some ⟨id, p, q, sd, oh, oh⟩), s.order_pool_.freeArr, s.order_pool_.freeCount - 1⟩, order_map_ := Function.update s.order_map_ (id % MAX_ORDERS) (some oh) } oh (fun o => { o with prev := (derefOrder { s with order_pool_ := ⟨Function.update s.order_pool_.storage oh (some ⟨id, p, q, sd, oh, oh⟩), s.order_pool_.freeArr, s.order_pool_.freeCount - 1⟩, order_map_ := Function.update s.order_map_ (id % MAX_ORDERS) (some oh) } (derefLevel { s with order_pool_ := ⟨Function.update s.order_pool_.storage oh (some ⟨id, p, q, sd, oh, oh⟩), s.order_pool_.freeArr, s.order_pool_.freeCount - 1⟩, order_map_ := Function.update s.order_map_ (id % MAX_ORDERS) (some oh) } lh0).first_order).prev, next := (derefLevel { s with order_pool_ := ⟨Function.update s.order_pool_.storage oh (some ⟨id, p, q, sd, oh, oh⟩), s.order_pool_.freeArr, s.order_pool_.freeCount - 1⟩, order_map_ := Function.update s.order_map_ (id % MAX_ORDERS) (some oh) } lh0).first_order })) (derefOrder { s with order_pool_ := ⟨Function.update s.order_pool_.storage oh (some ⟨id, p, q, sd, oh, oh⟩), s.order_pool_.freeArr, s.order_pool_.freeCount - 1⟩, order_map_ := Function.update s.order_map_ (id % MAX_ORDERS) (some oh) } (derefLevel { s with order_pool_ := ⟨Function.update s.order_pool_.storage oh (some ⟨id, p, q, sd, oh, oh⟩), s.order_pool_.freeArr, s.order_pool_.freeCount - 1⟩, order_map_ := Function.update s.order_map_ (id % MAX_ORDERS) (some oh) } lh0).first_order).prev (fun o => { o with next := oh })) (derefLevel { s with order_pool_ := ⟨Function.update s.order_pool_.storage oh (some ⟨id, p, q, sd, oh, oh⟩), s.order_pool_.freeArr, s.order_pool_.freeCount - 1⟩, order_map_ := Function.update s.order_map_ (id % MAX_ORDERS) (some oh) } lh0).first_order (fun o => { o with prev := oh })) lh0 _ hlh0 k
  -- order-side facts about the final state
  have hderS5O : ∀ k, derefOrder (setLevel (setOrder (setOrder (setOrder { s with order_pool_ := ⟨Function.update s.order_pool_.storage oh (some ⟨id, p, q, sd, oh, oh⟩), s.order_pool_.freeArr, s.order_pool_.freeCount - 1⟩, order_map_ := Function.update s.order_map_ (id % MAX_ORDERS) (some oh) } oh (fun o => { o with prev := (derefOrder { s with order_pool_ := ⟨Function.update s.order_pool_.storage oh (some ⟨id, p, q, sd, oh, oh⟩), s.order_pool_.freeArr, s.order_pool_.freeCount - 1⟩, order_map_ := Function.update s.order_map_ (id % MAX_ORDERS) (some oh) } (derefLevel { s with order_pool_ := ⟨Function.update s.order_pool_.storage oh (some ⟨id, p, q, sd, oh, oh⟩), s.order_pool_.freeArr, s.order_pool_.freeCount - 1⟩, order_map_ := Function.update s.order_map_ (id % MAX_ORDERS) (some oh) } lh0).first_order).prev, next := (derefLevel { s with order_pool_ := ⟨Function.update s.order_pool_.storage oh (some ⟨id, p, q, sd, oh, oh⟩), s.order_pool_.freeArr, s.order_pool_.freeCount - 1⟩, order_map_ := Function.update s.order_map_ (id % MAX_ORDERS) (some oh) } lh0).first_order })) (derefOrder { s with order_pool_ := ⟨Function.update s.order_pool_.storage oh (some ⟨id, p, q, sd, oh, oh⟩), s.order_pool_.freeArr, s.order_pool_.freeCount - 1⟩, order_map_ := Function.update s.order_map_ (id % MAX_ORDERS) (some oh) } (derefLevel { s with order_pool_ := ⟨Function.update s.order_pool_.storage oh (some ⟨id, p, q, sd, oh, oh⟩), s.order_pool_.freeArr, s.order_pool_.freeCount - 1⟩, order_map_ := Function.update s.order_map_ (id % MAX_ORDERS) (some oh) } lh0).first_order).prev (fun o => { o with next := oh })) (derefLevel { s with order_pool_ := ⟨Function.update s.order_pool_.storage oh (some ⟨id, p, q, sd, oh, oh⟩), s.order_pool_.freeArr, s.order_pool_.freeCount - 1⟩, order_map_ := Function.update s.order_map_ (id % MAX_ORDERS) (some oh) } lh0).first_order (fun o => { o with prev := oh })) lh0 (fun x => { x with total_qty := u32add x.total_qty q, order_count := x.order_count + 1 })) k = derefOrder (setOrder (setOrder (setOrder { s with order_pool_ := ⟨Function.update s.order_pool_.storage oh (some ⟨id, p, q, sd, oh, oh⟩), s.order_pool_.freeArr, s.order_pool_.freeCount - 1⟩, order_map_ := Function.update s.order_map_ (id % MAX_ORDERS) (some oh) } oh (fun o => { o with prev := (derefOrder { s with order_pool_ := ⟨Function.update s.order_pool_.storage oh (some ⟨id, p, q, sd, oh, oh⟩), s.order_pool_.freeArr, s.order_pool_.freeCount - 1⟩, order_map_ := Function.update s.order_map_ (id % MAX_ORDERS) (some oh) } (derefLevel { s with order_pool_ := ⟨Function.update s.order_pool_.storage oh (some ⟨id, p, q, sd, oh, oh⟩), s.order_pool_.freeArr, s.order_pool_.freeCount - 1⟩, order_map_ := Function.update s.order_map_ (id % MAX_ORDERS) (some oh) } lh0).first_order).prev, next := (derefLevel { s with order_pool_ := ⟨Function.update s.order_pool_.storage oh (some ⟨id, p, q, sd, oh, oh⟩), s.order_pool_.freeArr, s.order_pool_.freeCount - 1⟩, order_map_ := Function.update s.order_map_ (id % MAX_ORDERS) (some oh) } lh0).first_order })) (derefOrder { s with order_pool_ := ⟨Function.update s.order_pool_.storage oh (some ⟨id, p, q, sd, oh, oh⟩), s.order_pool_.freeArr, s.order_pool_.freeCount - 1⟩, order_map_ := Function.update s.order_map_ (id % MAX_ORDERS) (some oh) } (derefLevel { s with order_pool_ := ⟨Function.update s.order_pool_.storage oh (some ⟨id, p, q, sd, oh, oh⟩), s.order_pool_.freeArr, s.order_pool_.freeCount - 1⟩, order_map_ := Function.update s.order_map_ (id % MAX_ORDERS) (some oh) } lh0).first_order).prev (fun o => { o with next := oh })) (derefLevel { s with order_pool_ := ⟨Function.update s.order_pool_.storage oh (some ⟨id, p, q, sd, oh, oh⟩), s.order_pool_.freeArr, s.order_pool_.freeCount - 1⟩, order_map_ := Function.update s.order_map_ (id % MAX_ORDERS) (some oh) } lh0).first_order (fun o => { o with prev := oh })) k := fun k => rfl
  have hfieldsS5 : ∀ k, k ≠ oh →
      (derefOrder (setLevel (setOrder (setOrder (setOrder { s with order_pool_ := ⟨Function.update s.order_pool_.storage oh (some ⟨id, p, q, sd, oh, oh⟩), s.order_pool_.freeArr, s.order_pool_.freeCount - 1⟩, order_map_ := Function.update s.order_map_ (id % MAX_ORDERS) (some oh) } oh (fun o => { o with prev := (derefOrder { s with order_pool_ := ⟨Function.update s.order_pool_.storage oh (some ⟨id, p, q, sd, oh, oh⟩), s.order_pool_.freeArr, s.order_pool_.freeCount - 1⟩, order_map_ := Function.update s.order_map_ (id % MAX_ORDERS) (some oh) } (derefLevel { s with order_pool_ := ⟨Function.update s.order_pool_.storage oh (some ⟨id, p, q, sd, oh, oh⟩), s.order_pool_.freeArr, s.order_pool_.freeCount - 1⟩, order_map_ := Function.update s.order_map_ (id % MAX_ORDERS) (some oh) } lh0).first_order).prev, next := (derefLevel { s with order_pool_ := ⟨Function.update s.order_pool_.storage oh (some ⟨id, p, q, sd, oh, oh⟩), s.order_pool_.freeArr, s.order_pool_.freeCount - 1⟩, order_map_ := Function.update s.order_map_ (id % MAX_ORDERS) (some oh) } lh0).first_order })) (derefOrder { s with order_pool_ := ⟨Function.update s.order_pool_.storage oh (some ⟨id, p, q, sd, oh, oh⟩), s.order_pool_.freeArr, s.order_pool_.freeCount - 1⟩, order_map_ := Function.update s.order_map_ (id % MAX_ORDERS) (some oh) } (derefLevel { s with order_pool_ := ⟨Function.update s.order_pool_.storage oh (some ⟨id, p, q, sd, oh, oh⟩), s.order_pool_.freeArr, s.order_pool_.freeCount - 1⟩, order_map_ := Function.update s.order_map_ (id % MAX_ORDERS) (some oh) } lh0).first_order).prev (fun o => { o with next := oh })) (derefLevel { s with order_pool_ := ⟨Function.update s.order_pool_.storage oh (some ⟨id, p, q, sd, oh, oh⟩), s.order_pool_.freeArr, s.order_pool_.freeCount - 1⟩, order_map_ := Function.update s.order_map_ (id % MAX_ORDERS) (some oh) } lh0).first_order (fun o => { o with prev := oh })) lh0 (fun x => { x with total_qty := u32add x.total_qty q, order_count := x.order_count + 1 })) k).order_id = (derefOrder s k).order_id ∧
      (derefOrder (setLevel (setOrder (setOrder (setOrder { s with order_pool_ := ⟨Function.update s.order_pool_.storage oh (some ⟨id, p, q, sd, oh, oh⟩), s.order_pool_.freeArr, s.order_pool_.freeCount - 1⟩, order_map_ := Function.update s.order_map_ (id % MAX_ORDERS) (some oh) } oh (fun o => { o with prev := (derefOrder { s with order_pool_ := ⟨Function.update s.order_pool_.storage oh (some ⟨id, p, q, sd, oh, oh⟩), s.order_pool_.freeArr, s.order_pool_.freeCount - 1⟩, order_map_ := Function.update s.order_map_ (id % MAX_ORDERS) (some oh) } (derefLevel { s with order_pool_ := ⟨Function.update s.order_pool_.storage oh (some ⟨id, p, q, sd, oh, oh⟩), s.order_pool_.freeArr, s.order_pool_.freeCount - 1⟩, order_map_ := Function.update s.order_map_ (id % MAX_ORDERS) (some oh) } lh0).first_order).prev, next := (derefLevel { s with order_pool_ := ⟨Function.update s.order_pool_.storage oh (some ⟨id, p, q, sd, oh, oh⟩), s.order_pool_.freeArr, s.order_pool_.freeCount - 1⟩, order_map_ := Function.update s.order_map_ (id % MAX_ORDERS) (some oh) } lh0).first_order })) (derefOrder { s with order_pool_ := ⟨Function.update s.order_pool_.storage oh (some ⟨id, p, q, sd, oh, oh⟩), s.order_pool_.freeArr, s.order_pool_.freeCount - 1⟩, order_map_ := Function.update s.order_map_ (id % MAX_ORDERS) (some oh) } (derefLevel { s with order_pool_ := ⟨Function.update s.order_pool_.storage oh (some ⟨id, p, q, sd, oh, oh⟩), s.order_pool_.freeArr, s.order_pool_.freeCount - 1⟩, order_map_ := Function.update s.order_map_ (id % MAX_ORDERS) (some oh) } lh0).first_order).prev (fun o => { o with next := oh })) (derefLevel { s with order_pool_ := ⟨Function.update s.order_pool_.storage oh (some ⟨id, p, q, sd, oh, oh⟩), s.order_pool_.freeArr, s.order_pool_.freeCount - 1⟩, order_map_ := Function.update s.order_map_ (id % MAX_ORDERS) (some oh) } lh0).first_order (fun o => { o with prev := oh })) lh0 (fun x => { x with total_qty := u32add x.total_qty q, order_count := x.order_count + 1 })) k).price = (derefOrder s k).price := by
    intro k h1
    rw [hderS5O k]
    by_cases h3 : k = ((derefLevel { s with order_pool_ := ⟨Function.update s.order_pool_.storage oh (some ⟨id, p, q, sd, oh, oh⟩), s.order_pool_.freeArr, s.order_pool_.freeCount - 1⟩, order_map_ := Function.update s.order_map_ (id % MAX_ORDERS) (some oh) } lh0).first_order)
    · rw [h3, derefOrder_setOrder_same]
      by_cases h2 : ((derefLevel { s with order_pool_ := ⟨Function.update s.order_pool_.storage oh (some ⟨id, p, q, sd, oh, oh⟩), s.order_pool_.freeArr, s.order_pool_.freeCount - 1⟩, order_map_ := Function.update s.order_map_ (id % MAX_ORDERS) (some oh) } lh0).first_order) = ((derefOrder { s with order_pool_ := ⟨Function.update s.order_pool_.storage oh (some ⟨id, p, q, sd, oh, oh⟩), s.order_pool_.freeArr, s.order_pool_.freeCount - 1⟩, order_map_ := Function.update s.order_map_ (id % MAX_ORDERS) (some oh) } (derefLevel { s with order_pool_ := ⟨Function.update s.order_pool_.storage oh (some ⟨id, p, q, sd, oh, oh⟩), s.order_pool_.freeArr, s.order_pool_.freeCount - 1⟩, order_map_ := Function.update s.order_map_ (id % MAX_ORDERS) (some oh) } lh0).first_order).prev)
      · rw [← h2, derefOrder_setOrder_same, derefOrder_setOrder_ne _ _ _ hFHne, hderS1 _ hFHne]
        exact ⟨rfl, rfl⟩
      · rw [derefOrder_setOrder_ne _ _ _ h2, derefOrder_setOrder_ne _ _ _ hFHne, hderS1 _ hFHne]
        exact ⟨rfl, rfl⟩
    · rw [derefOrder_setOrder_ne _ _ _ h3]
      by_cases h2 : k = ((derefOrder { s with order_pool_ := ⟨Function.update s.order_pool_.storage oh (some ⟨id, p, q, sd, oh, oh⟩), s.order_pool_.freeArr, s.order_pool_.freeCount - 1⟩, order_map_ := Function.update s.order_map_ (id % MAX_ORDERS) (some oh) } (derefLevel { s with order_pool_ := ⟨Function.update s.order_pool_.storage oh (some ⟨id, p, q, sd, oh, oh⟩), s.order_pool_.freeArr, s.order_pool_.freeCount - 1⟩, order_map_ := Function.update s.order_map_ (id % MAX_ORDERS) (some oh) } lh0).first_order).prev)
      · rw [h2, derefOrder_setOrder_same, derefOrder_setOrder_ne _ _ _ hTHne, hderS1 _ hTHne]
        exact ⟨rfl, rfl⟩
      · rw [derefOrder_setOrder_ne _ _ _ h2, derefOrder_setOrder_ne _ _ _ h1, hderS1 k h1]
        exact ⟨rfl, rfl⟩
  have hohS5der : derefOrder (setLevel (setOrder (setOrder (setOrder { s with order_pool_ := ⟨Function.update s.order_pool_.storage oh (some ⟨id, p, q, sd, oh, oh⟩), s.order_pool_.freeArr, s.order_pool_.freeCount - 1⟩, order_map_ := Function.update s.order_map_ (id % MAX_ORDERS) (some oh) } oh (fun o => { o with prev := (derefOrder { s with order_pool_ := ⟨Function.update s.order_pool_.storage oh (some ⟨id, p, q, sd, oh, oh⟩), s.order_pool_.freeArr, s.order_pool_.freeCount - 1⟩, order_map_ := Function.update s.order_map_ (id % MAX_ORDERS) (some oh) } (derefLevel { s with order_pool_ := ⟨Function.update s.order_pool_.storage oh (some ⟨id, p, q, sd, oh, oh⟩), s.order_pool_.freeArr, s.order_pool_.freeCount - 1⟩, order_map_ := Function.update s.order_map_ (id % MAX_ORDERS) (some oh) } lh0).first_order).prev, next := (derefLevel { s with order_pool_ := ⟨Function.update s.order_pool_.storage oh (some ⟨id, p, q, sd, oh, oh⟩), s.order_pool_.freeArr, s.order_pool_.freeCount - 1⟩, order_map_ := Function.update s.order_map_ (id % MAX_ORDERS) (some oh) } lh0).first_order })) (derefOrder { s with order_pool_ := ⟨Function.update s.order_pool_.storage oh (some ⟨id, p, q, sd, oh, oh⟩), s.order_pool_.freeArr, s.order_pool_.freeCount - 1⟩, order_map_ := Function.update s.order_map_ (id % MAX_ORDERS) (some oh) } (derefLevel { s with order_pool_ := ⟨Function.update s.order_pool_.storage oh (some ⟨id, p, q, sd, oh, oh⟩), s.order_pool_.freeArr, s.order_pool_.freeCount - 1⟩, order_map_ := Function.update s.order_map_ (id % MAX_ORDERS) (some oh) } lh0).first_order).prev (fun o => { o with next := oh })) (derefLevel { s with order_pool_ := ⟨Function.update s.order_pool_.storage oh (some ⟨id, p, q, sd, oh, oh⟩), s.order_pool_.freeArr, s.order_pool_.freeCount - 1⟩, order_map_ := Function.update s.order_map_ (id % MAX_ORDERS) (some oh) } lh0).first_order (fun o => { o with prev := oh })) lh0 (fun x => { x with total_qty := u32add x.total_qty q, order_count := x.order_count + 1 })) oh = { (⟨id, p, q, sd, oh, oh⟩ : Order) with prev := ((derefOrder { s with order_pool_ := ⟨Function.update s.order_pool_.storage oh (some ⟨id, p, q, sd, oh, oh⟩), s.order_pool_.freeArr, s.order_pool_.freeCount - 1⟩, order_map_ := Function.update s.order_map_ (id % MAX_ORDERS) (some oh) } (derefLevel { s with order_pool_ := ⟨Function.update s.order_pool_.storage oh (some ⟨id, p, q, sd, oh, oh⟩), s.order_pool_.freeArr, s.order_pool_.freeCount - 1⟩, order_map_ := Function.update s.order_map_ (id % MAX_ORDERS) (some oh) } lh0).first_order).prev), next := ((derefLevel { s with order_pool_ := ⟨Function.update s.order_pool_.storage oh (some ⟨id, p, q, sd, oh, oh⟩), s.order_pool_.freeArr, s.order_pool_.freeCount - 1⟩, order_map_ := Function.update s.order_map_ (id % MAX_ORDERS) (some oh) } lh0).first_order) } := by
    rw [hderS5O oh, derefOrder_setOrder_ne _ _ _ (Ne.symm hFHne), derefOrder_setOrder_ne _ _ _ (Ne.symm hTHne), derefOrder_setOrder_same, hS1oh]
  have hohFacts : (derefOrder (setLevel (setOrder (setOrder (setOrder { s with order_pool_ := ⟨Function.update s.order_pool_.storage oh (some ⟨id, p, q, sd, oh, oh⟩), s.order_pool_.freeArr, s.order_pool_.freeCount - 1⟩, order_map_ := Function.update s.order_map_ (id % MAX_ORDERS) (some oh) } oh (fun o => { o with prev := (derefOrder { s with order_pool_ := ⟨Function.update s.order_pool_.storage oh (some ⟨id, p, q, sd, oh, oh⟩), s.order_pool_.freeArr, s.order_pool_.freeCount - 1⟩, order_map_ := Function.update s.order_map_ (id % MAX_ORDERS) (some oh) } (derefLevel { s with order_pool_ := ⟨Function.update s.order_pool_.storage oh (some ⟨id, p, q, sd, oh, oh⟩), s.order_pool_.freeArr, s.order_pool_.freeCount - 1⟩, order_map_ := Function.update s.order_map_ (id % MAX_ORDERS) (some oh) } lh0).first_order).prev, next := (derefLevel { s with order_pool_ := ⟨Function.update s.order_pool_.storage oh (some ⟨id, p, q, sd, oh, oh⟩), s.order_pool_.freeArr, s.order_pool_.freeCount - 1⟩, order_map_ := Function.update s.order_map_ (id % MAX_ORDERS) (some oh) } lh0).first_order })) (derefOrder { s with order_pool_ := ⟨Function.update s.order_pool_.storage oh (some ⟨id, p, q, sd, oh, oh⟩), s.order_pool_.freeArr, s.order_pool_.freeCount - 1⟩, order_map_ := Function.update s.order_map_ (id % MAX_ORDERS) (some oh) } (derefLevel { s with order_pool_ := ⟨Function.update s.order_pool_.storage oh (some ⟨id, p, q, sd, oh, oh⟩), s.order_pool_.freeArr, s.order_pool_.freeCount - 1⟩, order_map_ := Function.update s.order_map_ (id % MAX_ORDERS) (some oh) } lh0).first_order).prev (fun o => { o with next := oh })) (derefLevel { s with order_pool_ := ⟨Function.update s.order_pool_.storage oh (some ⟨id, p, q, sd, oh, oh⟩), s.order_pool_.freeArr, s.order_pool_.freeCount - 1⟩, order_map_ := Function.update s.order_map_ (id % MAX_ORDERS) (some oh) } lh0).first_order (fun o => { o with prev := oh })) lh0 (fun x => { x with total_qty := u32add x.total_qty q, order_count := x.order_count + 1 })) oh).order_id = id ∧ (derefOrder (setLevel (setOrder (setOrder (setOrder { s with order_pool_ := ⟨Function.update s.order_pool_.storage oh (some ⟨id, p, q, sd, oh, oh⟩), s.order_pool_.freeArr, s.order_pool_.freeCount - 1⟩, order_map_ := Function.update s.order_map_ (id % MAX_ORDERS) (some oh) } oh (fun o => { o with prev := (derefOrder { s with order_pool_ := ⟨Function.update s.order_pool_.storage oh (some ⟨id, p, q, sd, oh, oh⟩), s.order_pool_.freeArr, s.order_pool_.freeCount - 1⟩, order_map_ := Function.update s.order_map_ (id % MAX_ORDERS) (some oh) } (derefLevel { s with order_pool_ := ⟨Function.update s.order_pool_.storage oh (some ⟨id, p, q, sd, oh, oh⟩), s.order_pool_.freeArr, s.order_pool_.freeCount - 1⟩, order_map_ := Function.update s.order_map_ (id % MAX_ORDERS) (some oh) } lh0).first_order).prev, next := (derefLevel { s with order_pool_ := ⟨Function.update s.order_pool_.storage oh (some ⟨id, p, q, sd, oh, oh⟩), s.order_pool_.freeArr, s.order_pool_.freeCount - 1⟩, order_map_ := Function.update s.order_map_ (id % MAX_ORDERS) (some oh) } lh0).first_order })) (derefOrder { s with order_pool_ := ⟨Function.update s.order_pool_.storage oh (some ⟨id, p, q, sd, oh, oh⟩), s.order_pool_.freeArr, s.order_pool_.freeCount - 1⟩, order_map_ := Function.update s.order_map_ (id % MAX_ORDERS) (some oh) } (derefLevel { s with order_pool_ := ⟨Function.update s.order_pool_.storage oh (some ⟨id, p, q, sd, oh, oh⟩), s.order_pool_.freeArr, s.order_pool_.freeCount - 1⟩, order_map_ := Function.update s.order_map_ (id % MAX_ORDERS) (some oh) } lh0).first_order).prev (fun o => { o with next := oh })) (derefLevel { s with order_pool_ := ⟨Function.update s.order_pool_.storage oh (some ⟨id, p, q, sd, oh, oh⟩), s.order_pool_.freeArr, s.order_pool_.freeCount - 1⟩, order_map_ := Function.update s.order_map_ (id % MAX_ORDERS) (some oh) } lh0).first_order (fun o => { o with prev := oh })) lh0 (fun x => { x with total_qty := u32add x.total_qty q, order_count := x.order_count + 1 })) oh).price = p ∧ (derefOrder (setLevel (setOrder (setOrder (setOrder { s with order_pool_ := ⟨Function.update s.order_pool_.storage oh (some ⟨id, p, q, sd, oh, oh⟩), s.order_pool_.freeArr, s.order_pool_.freeCount - 1⟩, order_map_ := Function.update s.order_map_ (id % MAX_ORDERS) (some oh) } oh (fun o => { o with prev := (derefOrder { s with order_pool_ := ⟨Function.update s.order_pool_.storage oh (some ⟨id, p, q, sd, oh, oh⟩), s.order_pool_.freeArr, s.order_pool_.freeCount - 1⟩, order_map_ := Function.update s.order_map_ (id % MAX_ORDERS) (some oh) } (derefLevel { s with order_pool_ := ⟨Function.update s.order_pool_.storage oh (some ⟨id, p, q, sd, oh, oh⟩), s.order_pool_.freeArr, s.order_pool_.freeCount - 1⟩, order_map_ := Function.update s.order_map_ (id % MAX_ORDERS) (some oh) } lh0).first_order).prev, next := (derefLevel { s with order_pool_ := ⟨Function.update s.order_pool_.storage oh (some ⟨id, p, q, sd, oh, oh⟩), s.order_pool_.freeArr, s.order_pool_.freeCount - 1⟩, order_map_ := Function.update s.order_map_ (id % MAX_ORDERS) (some oh) } lh0).first_order })) (derefOrder { s with order_pool_ := ⟨Function.update s.order_pool_.storage oh (some ⟨id, p, q, sd, oh, oh⟩), s.order_pool_.freeArr, s.order_pool_.freeCount - 1⟩, order_map_ := Function.update s.order_map_ (id % MAX_ORDERS) (some oh) } (derefLevel { s with order_pool_ := ⟨Function.update s.order_pool_.storage oh (some ⟨id, p, q, sd, oh, oh⟩), s.order_pool_.freeArr, s.order_pool_.freeCount - 1⟩, order_map_ := Function.update s.order_map_ (id % MAX_ORDERS) (some oh) } lh0).first_order).prev (fun o => { o with next := oh })) (derefLevel { s with order_pool_ := ⟨Function.update s.order_pool_.storage oh (some ⟨id, p, q, sd, oh, oh⟩), s.order_pool_.freeArr, s.order_pool_.freeCount - 1⟩, order_map_ := Function.update s.order_map_ (id % MAX_ORDERS) (some oh) } lh0).first_order (fun o => { o with prev := oh })) lh0 (fun x => { x with total_qty := u32add x.total_qty q, order_count := x.order_count + 1 })) oh).prev = ((derefOrder { s with order_pool_ := ⟨Function.update s.order_pool_.storage oh (some ⟨id, p, q, sd, oh, oh⟩), s.order_pool_.freeArr, s.order_pool_.freeCount - 1⟩, order_map_ := Function.update s.order_map_ (id % MAX_ORDERS) (some oh) } (derefLevel { s with order_pool_ := ⟨Function.update s.order_pool_.storage oh (some ⟨id, p, q, sd, oh, oh⟩), s.order_pool_.freeArr, s.order_pool_.freeCount - 1⟩, order_map_ := Function.update s.order_map_ (id % MAX_ORDERS) (some oh) } lh0).first_order).prev) ∧ (derefOrder (setLevel (setOrder (setOrder (setOrder { s with order_pool_ := ⟨Function.update s.order_pool_.storage oh (some ⟨id, p, q, sd, oh, oh⟩), s.order_pool_.freeArr, s.order_pool_.freeCount - 1⟩, order_map_ := Function.update s.order_map_ (id % MAX_ORDERS) (some oh) } oh (fun o => { o with prev := (derefOrder { s with order_pool_ := ⟨Function.update s.order_pool_.storage oh (some ⟨id, p, q, sd, oh, oh⟩), s.order_pool_.freeArr, s.order_pool_.freeCount - 1⟩, order_map_ := Function.update s.order_map_ (id % MAX_ORDERS) (some oh) } (derefLevel { s with order_pool_ := ⟨Function.update s.order_pool_.storage oh (some ⟨id, p, q, sd, oh, oh⟩), s.order_pool_.freeArr, s.order_pool_.freeCount - 1⟩, order_map_ := Function.update s.order_map_ (id % MAX_ORDERS) (some oh) } lh0).first_order).prev, next := (derefLevel { s with order_pool_ := ⟨Function.update s.order_pool_.storage oh (some ⟨id, p, q, sd, oh, oh⟩), s.order_pool_.freeArr, s.order_pool_.freeCount - 1⟩, order_map_ := Function.update s.order_map_ (id % MAX_ORDERS) (some oh) } lh0).first_order })) (derefOrder { s with order_pool_ := ⟨Function.update s.order_pool_.storage oh (some ⟨id, p, q, sd, oh, oh⟩), s.order_pool_.freeArr, s.order_pool_.freeCount - 1⟩, order_map_ := Function.update s.order_map_ (id % MAX_ORDERS) (some oh) } (derefLevel { s with order_pool_ := ⟨Function.update s.order_pool_.storage oh (some ⟨id, p, q, sd, oh, oh⟩), s.order_pool_.freeArr, s.order_pool_.freeCount - 1⟩, order_map_ := Function.update s.order_map_ (id % MAX_ORDERS) (some oh) } lh0).first_order).prev (fun o => { o with next := oh })) (derefLevel { s with order_pool_ := ⟨Function.update s.order_pool_.storage oh (some ⟨id, p, q, sd, oh, oh⟩), s.order_pool_.freeArr, s.order_pool_.freeCount - 1⟩, order_map_ := Function.update s.order_map_ (id % MAX_ORDERS) (some oh) } lh0).first_order (fun o => { o with prev := oh })) lh0 (fun x => { x with total_qty := u32add x.total_qty q, order_count := x.order_count + 1 })) oh).next = ((derefLevel { s with order_pool_ := ⟨Function.update s.order_pool_.storage oh (some ⟨id, p, q, sd, oh, oh⟩), s.order_pool_.freeArr, s.order_pool_.freeCount - 1⟩, order_map_ := Function.update s.order_map_ (id % MAX_ORDERS) (some oh) } lh0).first_order) := by
    rw [hohS5der]
    exact ⟨rfl, rfl, rfl, rfl⟩
  obtain ⟨hohId, hohPx, hohPrev, hohNext⟩ := hohFacts
  have hnTH : (derefOrder (setLevel (setOrder (setOrder (setOrder { s with order_pool_ := ⟨Function.update s.order_pool_.storage oh (some ⟨id, p, q, sd, oh, oh⟩), s.order_pool_.freeArr, s.order_pool_.freeCount - 1⟩, order_map_ := Function.update s.order_map_ (id % MAX_ORDERS) (some oh) } oh (fun o => { o with prev := (derefOrder { s with order_pool_ := ⟨Function.update s.order_pool_.storage oh (some ⟨id, p, q, sd, oh, oh⟩), s.order_pool_.freeArr, s.order_pool_.freeCount - 1⟩, order_map_ := Function.update s.order_map_ (id % MAX_ORDERS) (some oh) } (derefLevel { s with order_pool_ := ⟨Function.update s.order_pool_.storage oh (some ⟨id, p, q, sd, oh, oh⟩), s.order_pool_.freeArr, s.order_pool_.freeCount - 1⟩, order_map_ := Function.update s.order_map_ (id % MAX_ORDERS) (some oh) } lh0).first_order).prev, next := (derefLevel { s with order_pool_ := ⟨Function.update s.order_pool_.storage oh (some ⟨id, p, q, sd, oh, oh⟩), s.order_pool_.freeArr, s.order_pool_.freeCount - 1⟩, order_map_ := Function.update s.order_map_ (id % MAX_ORDERS) (some oh) } lh0).first_order })) (derefOrder { s with order_pool_ := ⟨Function.update s.order_pool_.storage oh (some ⟨id, p, q, sd, oh, oh⟩), s.order_pool_.freeArr, s.order_pool_.freeCount - 1⟩, order_map_ := Function.update s.order_map_ (id % MAX_ORDERS) (some oh) } (derefLevel { s with order_pool_ := ⟨Function.update s.order_pool_.storage oh (some ⟨id, p, q, sd, oh, oh⟩), s.order_pool_.freeArr, s.order_pool_.freeCount - 1⟩, order_map_ := Function.update s.order_map_ (id % MAX_ORDERS) (some oh) } lh0).first_order).prev (fun o => { o with next := oh })) (derefLevel { s with order_pool_ := ⟨Function.update s.order_pool_.storage oh (some ⟨id, p, q, sd, oh, oh⟩), s.order_pool_.freeArr, s.order_pool_.freeCount - 1⟩, order_map_ := Function.update s.order_map_ (id % MAX_ORDERS) (some oh) } lh0).first_order (fun o => { o with prev := oh })) lh0 (fun x => { x with total_qty := u32add x.total_qty q, order_count := x.order_count + 1 })) ((derefOrder { s with order_pool_ := ⟨Function.update s.order_pool_.storage oh (some ⟨id, p, q, sd, oh, oh⟩), s.order_pool_.freeArr, s.order_pool_.freeCount - 1⟩, order_map_ := Function.update s.order_map_ (id % MAX_ORDERS) (some oh) } (derefLevel { s with order_pool_ := ⟨Function.update s.order_pool_.storage oh (some ⟨id, p, q, sd, oh, oh⟩), s.order_pool_.freeArr, s.order_pool_.freeCount - 1⟩, order_map_ := Function.update s.order_map_ (id % MAX_ORDERS) (some oh) } lh0).first_order).prev)).next = oh := by
    rw [hderS5O]
    by_cases h3 : ((derefOrder { s with order_pool_ := ⟨Function.update s.order_pool_.storage oh (some ⟨id, p, q, sd, oh, oh⟩), s.order_pool_.freeArr, s.order_pool_.freeCount - 1⟩, order_map_ := Function.update s.order_map_ (id % MAX_ORDERS) (some oh) } (derefLevel { s with order_pool_ := ⟨Function.update s.order_pool_.storage oh (some ⟨id, p, q, sd, oh, oh⟩), s.order_pool_.freeArr, s.order_pool_.freeCount - 1⟩, order_map_ := Function.update s.order_map_ (id % MAX_ORDERS) (some oh) } lh0).first_order).prev) = ((derefLevel { s with order_pool_ := ⟨Function.update s.order_pool_.storage oh (some ⟨id, p, q, sd, oh, oh⟩), s.order_pool_.freeArr, s.order_pool_.freeCount - 1⟩, order_map_ := Function.update s.order_map_ (id % MAX_ORDERS) (some oh) } lh0).first_order)
    · rw [h3, derefOrder_setOrder_same, derefOrder_setOrder_same]
    · rw [derefOrder_setOrder_ne _ _ _ h3, derefOrder_setOrder_same]
  have hpFH : (derefOrder (setLevel (setOrder (setOrder (setOrder { s with order_pool_ := ⟨Function.update s.order_pool_.storage oh (some ⟨id, p, q, sd, oh, oh⟩), s.order_pool_.freeArr, s.order_pool_.freeCount - 1⟩, order_map_ := Function.update s.order_map_ (id % MAX_ORDERS) (some oh) } oh (fun o => { o with prev := (derefOrder { s with order_pool_ := ⟨Function.update s.order_pool_.storage oh (some ⟨id, p, q, sd, oh, oh⟩), s.order_pool_.freeArr, s.order_pool_.freeCount - 1⟩, order_map_ := Function.update s.order_map_ (id % MAX_ORDERS) (some oh) } (derefLevel { s with order_pool_ := ⟨Function.update s.order_pool_.storage oh (some ⟨id, p, q, sd, oh, oh⟩), s.order_pool_.freeArr, s.order_pool_.freeCount - 1⟩, order_map_ := Function.update s.order_map_ (id % MAX_ORDERS) (some oh) } lh0).first_order).prev, next := (derefLevel { s with order_pool_ := ⟨Function.update s.order_pool_.storage oh (some ⟨id, p, q, sd, oh, oh⟩), s.order_pool_.freeArr, s.order_pool_.freeCount - 1⟩, order_map_ := Function.update s.order_map_ (id % MAX_ORDERS) (some oh) } lh0).first_order })) (derefOrder { s with order_pool_ := ⟨Function.update s.order_pool_.storage oh (some ⟨id, p, q, sd, oh, oh⟩), s.order_pool_.freeArr, s.order_pool_.freeCount - 1⟩, order_map_ := Function.update s.order_map_ (id % MAX_ORDERS) (some oh) } (derefLevel { s with order_pool_ := ⟨Function.update s.order_pool_.storage oh (some ⟨id, p, q, sd, oh, oh⟩), s.order_pool_.freeArr, s.order_pool_.freeCount - 1⟩, order_map_ := Function.update s.order_map_ (id % MAX_ORDERS) (some oh) } lh0).first_order).prev (fun o => { o with next := oh })) (derefLevel { s with order_pool_ := ⟨Function.update s.order_pool_.storage oh (some ⟨id, p, q, sd, oh, oh⟩), s.order_pool_.freeArr, s.order_pool_.freeCount - 1⟩, order_map_ := Function.update s.order_map_ (id % MAX_ORDERS) (some oh) } lh0).first_order (fun o => { o with prev := oh })) lh0 (fun x => { x with total_qty := u32add x.total_qty q, order_count := x.order_count + 1 })) ((derefLevel { s with order_pool_ := ⟨Function.update s.order_pool_.storage oh (some ⟨id, p, q, sd, oh, oh⟩), s.order_pool_.freeArr, s.order_pool_.freeCount - 1⟩, order_map_ := Function.update s.order_map_ (id % MAX_ORDERS) (some oh) } lh0).first_order)).prev = oh := by
    rw [hderS5O, derefOrder_setOrder_same]
  have hrnS5 : ∀ k, k ≠ oh → k ≠ ((derefOrder { s with order_pool_ := ⟨Function.update s.order_pool_.storage oh (some ⟨id, p, q, sd, oh, oh⟩), s.order_pool_.freeArr, s.order_pool_.freeCount - 1⟩, order_map_ := Function.update s.order_map_ (id % MAX_ORDERS) (some oh) } (derefLevel { s with order_pool_ := ⟨Function.update s.order_pool_.storage oh (some ⟨id, p, q, sd, oh, oh⟩), s.order_pool_.freeArr, s.order_pool_.freeCount - 1⟩, order_map_ := Function.update s.order_map_ (id % MAX_ORDERS) (some oh) } lh0).first_order).prev) →
      (derefOrder (setLevel (setOrder (setOrder (setOrder { s with order_pool_ := ⟨Function.update s.order_pool_.storage oh (some ⟨id, p, q, sd, oh, oh⟩), s.order_pool_.freeArr, s.order_pool_.freeCount - 1⟩, order_map_ := Function.update s.order_map_ (id % MAX_ORDERS) (some oh) } oh (fun o => { o with prev := (derefOrder { s with order_pool_ := ⟨Function.update s.order_pool_.storage oh (some ⟨id, p, q, sd, oh, oh⟩), s.order_pool_.freeArr, s.order_pool_.freeCount - 1⟩, order_map_ := Function.update s.order_map_ (id % MAX_ORDERS) (some oh) } (derefLevel { s with order_pool_ := ⟨Function.update s.order_pool_.storage oh (some ⟨id, p, q, sd, oh, oh⟩), s.order_pool_.freeArr, s.order_pool_.freeCount - 1⟩, order_map_ := Function.update s.order_map_ (id % MAX_ORDERS) (some oh) } lh0).first_order).prev, next := (derefLevel { s with order_pool_ := ⟨Function.update s.order_pool_.storage oh (some ⟨id, p, q, sd, oh, oh⟩), s.order_pool_.freeArr, s.order_pool_.freeCount - 1⟩, order_map_ := Function.update s.order_map_ (id % MAX_ORDERS) (some oh) } lh0).first_order })) (derefOrder { s with order_pool_ := ⟨Function.update s.order_pool_.storage oh (some ⟨id, p, q, sd, oh, oh⟩), s.order_pool_.freeArr, s.order_pool_.freeCount - 1⟩, order_map_ := Function.update s.order_map_ (id % MAX_ORDERS) (some oh) } (derefLevel { s with order_pool_ := ⟨Function.update s.order_pool_.storage oh (some ⟨id, p, q, sd, oh, oh⟩), s.order_pool_.freeArr, s.order_pool_.freeCount - 1⟩, order_map_ := Function.update s.order_map_ (id % MAX_ORDERS) (some oh) } lh0).first_order).prev (fun o => { o with next := oh })) (derefLevel { s with order_pool_ := ⟨Function.update s.order_pool_.storage oh (some ⟨id, p, q, sd, oh, oh⟩), s.order_pool_.freeArr, s.order_pool_.freeCount - 1⟩, order_map_ := Function.update s.order_map_ (id % MAX_ORDERS) (some oh) } lh0).first_order (fun o => { o with prev := oh })) lh0 (fun x => { x with total_qty := u32add x.total_qty q, order_count := x.order_count + 1 })) k).next = (derefOrder s k).next := by
    intro k hkoh hkTH
    rw [hderS5O k]
    by_cases h3 : k = ((derefLevel { s with order_pool_ := ⟨Function.update s.order_pool_.storage oh (some ⟨id, p, q, sd, oh, oh⟩), s.order_pool_.freeArr, s.order_pool_.freeCount - 1⟩, order_map_ := Function.update s.order_map_ (id % MAX_ORDERS) (some oh) } lh0).first_order)
    · rw [h3, derefOrder_setOrder_same, derefOrder_setOrder_ne _ _ _ (h3 ▸ hkTH), derefOrder_setOrder_ne _ _ _ hFHne, hderS1 _ hFHne]
    · rw [derefOrder_setOrder_ne _ _ _ h3, derefOrder_setOrder_ne _ _ _ hkTH, derefOrder_setOrder_ne _ _ _ hkoh, hderS1 k hkoh]
  have hrpS5 : ∀ k, k ≠ oh → k ≠ ((derefLevel { s with order_pool_ := ⟨Function.update s.order_pool_.storage oh (some ⟨id, p, q, sd, oh, oh⟩), s.order_pool_.freeArr, s.order_pool_.freeCount - 1⟩, order_map_ := Function.update s.order_map_ (id % MAX_ORDERS) (some oh) } lh0).first_order) →
      (derefOrder (setLevel (setOrder (setOrder (setOrder { s with order_pool_ := ⟨Function.update s.order_pool_.storage oh (some ⟨id, p, q, sd, oh, oh⟩), s.order_pool_.freeArr, s.order_pool_.freeCount - 1⟩, order_map_ := Function.update s.order_map_ (id % MAX_ORDERS) (some oh) } oh (fun o => { o with prev := (derefOrder { s with order_pool_ := ⟨Function.update s.order_pool_.storage oh (some ⟨id, p, q, sd, oh, oh⟩), s.order_pool_.freeArr, s.order_pool_.freeCount - 1⟩, order_map_ := Function.update s.order_map_ (id % MAX_ORDERS) (some oh) } (derefLevel { s with order_pool_ := ⟨Function.update s.order_pool_.storage oh (some ⟨id, p, q, sd, oh, oh⟩), s.order_pool_.freeArr, s.order_pool_.freeCount - 1⟩, order_map_ := Function.update s.order_map_ (id % MAX_ORDERS) (some oh) } lh0).first_order).prev, next := (derefLevel { s with order_pool_ := ⟨Function.update s.order_pool_.storage oh (some ⟨id, p, q, sd, oh, oh⟩), s.order_pool_.freeArr, s.order_pool_.freeCount - 1⟩, order_map_ := Function.update s.order_map_ (id % MAX_ORDERS) (some oh) } lh0).first_order })) (derefOrder { s with order_pool_ := ⟨Function.update s.order_pool_.storage oh (some ⟨id, p, q, sd, oh, oh⟩), s.order_pool_.freeArr, s.order_pool_.freeCount - 1⟩, order_map_ := Function.update s.order_map_ (id % MAX_ORDERS) (some oh) } (derefLevel { s with order_pool_ := ⟨Function.update s.order_pool_.storage oh (some ⟨id, p, q, sd, oh, oh⟩), s.order_pool_.freeArr, s.order_pool_.freeCount - 1⟩, order_map_ := Function.update s.order_map_ (id % MAX_ORDERS) (some oh) } lh0).first_order).prev (fun o => { o with next := oh })) (derefLevel { s with order_pool_ := ⟨Function.update s.order_pool_.storage oh (some ⟨id, p, q, sd, oh, oh⟩), s.order_pool_.freeArr, s.order_pool_.freeCount - 1⟩, order_map_ := Function.update s.order_map_ (id % MAX_ORDERS) (some oh) } lh0).first_order (fun o => { o with prev := oh })) lh0 (fun x => { x with total_qty := u32add x.total_qty q, order_count := x.order_count + 1 })) k).prev = (derefOrder s k).prev := by
    intro k hkoh hkFH
    rw [hderS5O k, derefOrder_setOrder_ne _ _ _ hkFH]
    by_cases h2 : k = ((derefOrder { s with order_pool_ := ⟨Function.update s.order_pool_.storage oh (some ⟨id, p, q, sd, oh, oh⟩), s.order_pool_.freeArr, s.order_pool_.freeCount - 1⟩, order_map_ := Function.update s.order_map_ (id % MAX_ORDERS) (some oh) } (derefLevel { s with order_pool_ := ⟨Function.update s.order_pool_.storage oh (some ⟨id, p, q, sd, oh, oh⟩), s.order_pool_.freeArr, s.order_pool_.freeCount - 1⟩, order_map_ := Function.update s.order_map_ (id % MAX_ORDERS) (some oh) } lh0).first_order).prev)
    · rw [h2, derefOrder_setOrder_same, derefOrder_setOrder_ne _ _ _ hTHne, hderS1 _ hTHne]
    · rw [derefOrder_setOrder_ne _ _ _ h2, derefOrder_setOrder_ne _ _ _ hkoh, hderS1 k hkoh]
  -- order-pool liveness through the chain of writes
  have hS1THsome : (({ s with order_pool_ := ⟨Function.update s.order_pool_.storage oh (some ⟨id, p, q, sd, oh, oh⟩), s.order_pool_.freeArr, s.order_pool_.freeCount - 1⟩, order_map_ := Function.update s.order_map_ (id % MAX_ORDERS) (some oh) }).order_pool_.storage ((derefOrder { s with order_pool_ := ⟨Function.update s.order_pool_.storage oh (some ⟨id, p, q, sd, oh, oh⟩), s.order_pool_.freeArr, s.order_pool_.freeCount - 1⟩, order_map_ := Function.update s.order_map_ (id % MAX_ORDERS) (some oh) } (derefLevel { s with order_pool_ := ⟨Function.update s.order_pool_.storage oh (some ⟨id, p, q, sd, oh, oh⟩), s.order_pool_.freeArr, s.order_pool_.freeCount - 1⟩, order_map_ := Function.update s.order_map_ (id % MAX_ORDERS) (some oh) } lh0).first_order).prev)).isSome := by
    rw [hS1st _ hTHne]
    exact hTHlive
  have hS1FHsome : (({ s with order_pool_ := ⟨Function.update s.order_pool_.storage oh (some ⟨id, p, q, sd, oh, oh⟩), s.order_pool_.freeArr, s.order_pool_.freeCount - 1⟩, order_map_ := Function.update s.order_map_ (id % MAX_ORDERS) (some oh) }).order_pool_.storage ((derefLevel { s with order_pool_ := ⟨Function.update s.order_pool_.storage oh (some ⟨id, p, q, sd, oh, oh⟩), s.order_pool_.freeArr, s.order_pool_.freeCount - 1⟩, order_map_ := Function.update s.order_map_ (id % MAX_ORDERS) (some oh) } lh0).first_order)).isSome := by
    rw [hS1st _ hFHne]
    exact hFHlive
  have hlive2 : ∀ k, ((setOrder { s with order_pool_ := ⟨Function.update s.order_pool_.storage oh (some ⟨id, p, q, sd, oh, oh⟩), s.order_pool_.freeArr, s.order_pool_.freeCount - 1⟩, order_map_ := Function.update s.order_map_ (id % MAX_ORDERS) (some oh) } oh (fun o => { o with prev := (derefOrder { s with order_pool_ := ⟨Function.update s.order_pool_.storage oh (some ⟨id, p, q, sd, oh, oh⟩), s.order_pool_.freeArr, s.order_pool_.freeCount - 1⟩, order_map_ := Function.update s.order_map_ (id % MAX_ORDERS) (some oh) } (derefLevel { s with order_pool_ := ⟨Function.update s.order_pool_.storage oh (some ⟨id, p, q, sd, oh, oh⟩), s.order_pool_.freeArr, s.order_pool_.freeCount - 1⟩, order_map_ := Function.update s.order_map_ (id % MAX_ORDERS) (some oh) } lh0).first_order).prev, next := (derefLevel { s with order_pool_ := ⟨Function.update s.order_pool_.storage oh (some ⟨id, p, q, sd, oh, oh⟩), s.order_pool_.freeArr, s.order_pool_.freeCount - 1⟩, order_map_ := Function.update s.order_map_ (id % MAX_ORDERS) (some oh) } lh0).first_order })).order_pool_.storage k).isSome = (({ s with order_pool_ := ⟨Function.update s.order_pool_.storage oh (some ⟨id, p, q, sd, oh, oh⟩), s.order_pool_.freeArr, s.order_pool_.freeCount - 1⟩, order_map_ := Function.update s.order_map_ (id % MAX_ORDERS) (some oh) }).order_pool_.storage k).isSome :=
    setOrder_storage_isSome ({ s with order_pool_ := ⟨Function.update s.order_pool_.storage oh (some ⟨id, p, q, sd, oh, oh⟩), s.order_pool_.freeArr, s.order_pool_.freeCount - 1⟩, order_map_ := Function.update s.order_map_ (id % MAX_ORDERS) (some oh) }) oh _ hS1ohIsSome
  have hS2THsome : ((setOrder { s with order_pool_ := ⟨Function.update s.order_pool_.storage oh (some ⟨id, p, q, sd, oh, oh⟩), s.order_pool_.freeArr, s.order_pool_.freeCount - 1⟩, order_map_ := Function.update s.order_map_ (id % MAX_ORDERS) (some oh) } oh (fun o => { o with prev := (derefOrder { s with order_pool_ := ⟨Function.update s.order_pool_.storage oh (some ⟨id, p, q, sd, oh, oh⟩), s.order_pool_.freeArr, s.order_pool_.freeCount - 1⟩, order_map_ := Function.update s.order_map_ (id % MAX_ORDERS) (some oh) } (derefLevel { s with order_pool_ := ⟨Function.update s.order_pool_.storage oh (some ⟨id, p, q, sd, oh, oh⟩), s.order_pool_.freeArr, s.order_pool_.freeCount - 1⟩, order_map_ := Function.update s.order_map_ (id % MAX_ORDERS) (some oh) } lh0).first_order).prev, next := (derefLevel { s with order_pool_ := ⟨Function.update s.order_pool_.storage oh (some ⟨id, p, q, sd, oh, oh⟩), s.order_pool_.freeArr, s.order_pool_.freeCount - 1⟩, order_map_ := Function.update s.order_map_ (id % MAX_ORDERS) (some oh) } lh0).first_order })).order_pool_.storage ((derefOrder { s with order_pool_ := ⟨Function.update s.order_pool_.storage oh (some ⟨id, p, q, sd, oh, oh⟩), s.order_pool_.freeArr, s.order_pool_.freeCount - 1⟩, order_map_ := Function.update s.order_map_ (id % MAX_ORDERS) (some oh) } (derefLevel { s with order_pool_ := ⟨Function.update s.order_pool_.storage oh (some ⟨id, p, q, sd, oh, oh⟩), s.order_pool_.freeArr, s.order_pool_.freeCount - 1⟩, order_map_ := Function.update s.order_map_ (id % MAX_ORDERS) (some oh) } lh0).first_order).prev)).isSome := by
    rw [hlive2]
    exact hS1THsome
  have hlive3 : ∀ k, ((setOrder (setOrder { s with order_pool_ := ⟨Function.update s.order_pool_.storage oh (some ⟨id, p, q, sd, oh, oh⟩), s.order_pool_.freeArr, s.order_pool_.freeCount - 1⟩, order_map_ := Function.update s.order_map_ (id % MAX_ORDERS) (some oh) } oh (fun o => { o with prev := (derefOrder { s with order_pool_ := ⟨Function.update s.order_pool_.storage oh (some ⟨id, p, q, sd, oh, oh⟩), s.order_pool_.freeArr, s.order_pool_.freeCount - 1⟩, order_map_ := Function.update s.order_map_ (id % MAX_ORDERS) (some oh) } (derefLevel { s with order_pool_ := ⟨Function.update s.order_pool_.storage oh (some ⟨id, p, q, sd, oh, oh⟩), s.order_pool_.freeArr, s.order_pool_.freeCount - 1⟩, order_map_ := Function.update s.order_map_ (id % MAX_ORDERS) (some oh) } lh0).first_order).prev, next := (derefLevel { s with order_pool_ := ⟨Function.update s.order_pool_.storage oh (some ⟨id, p, q, sd, oh, oh⟩), s.order_pool_.freeArr, s.order_pool_.freeCount - 1⟩, order_map_ := Function.update s.order_map_ (id % MAX_ORDERS) (some oh) } lh0).first_order })) (derefOrder { s with order_pool_ := ⟨Function.update s.order_pool_.storage oh (some ⟨id, p, q, sd, oh, oh⟩), s.order_pool_.freeArr, s.order_pool_.freeCount - 1⟩, order_map_ := Function.update s.order_map_ (id % MAX_ORDERS) (some oh) } (derefLevel { s with order_pool_ := ⟨Function.update s.order_pool_.storage oh (some ⟨id, p, q, sd, oh, oh⟩), s.order_pool_.freeArr, s.order_pool_.freeCount - 1⟩, order_map_ := Function.update s.order_map_ (id % MAX_ORDERS) (some oh) } lh0).first_order).prev (fun o => { o with next := oh })).order_pool_.storage k).isSome = ((setOrder { s with order_pool_ := ⟨Function.update s.order_pool_.storage oh (some ⟨id, p, q, sd, oh, oh⟩), s.order_pool_.freeArr, s.order_pool_.freeCount - 1⟩, order_map_ := Function.update s.order_map_ (id % MAX_ORDERS) (some oh) } oh (fun o => { o with prev := (derefOrder { s with order_pool_ := ⟨Function.update s.order_pool_.storage oh (some ⟨id, p, q, sd, oh, oh⟩), s.order_pool_.freeArr, s.order_pool_.freeCount - 1⟩, order_map_ := Function.update s.order_map_ (id % MAX_ORDERS) (some oh) } (derefLevel { s with order_pool_ := ⟨Function.update s.order_pool_.storage oh (some ⟨id, p, q, sd, oh, oh⟩), s.order_pool_.freeArr, s.order_pool_.freeCount - 1⟩, order_map_ := Function.update s.order_map_ (id % MAX_ORDERS) (some oh) } lh0).first_order).prev, next := (derefLevel { s with order_pool_ := ⟨Function.update s.order_pool_.storage oh (some ⟨id, p, q, sd, oh, oh⟩), s.order_pool_.freeArr, s.order_pool_.freeCount - 1⟩, order_map_ := Function.update s.order_map_ (id % MAX_ORDERS) (some oh) } lh0).first_order })).order_pool_.storage k).isSome :=
    setOrder_storage_isSome (setOrder { s with order_pool_ := ⟨Function.update s.order_pool_.storage oh (some ⟨id, p, q, sd, oh, oh⟩), s.order_pool_.freeArr, s.order_pool_.freeCount - 1⟩, order_map_ := Function.update s.order_map_ (id % MAX_ORDERS) (some oh) } oh (fun o => { o with prev := (derefOrder { s with order_pool_ := ⟨Function.update s.order_pool_.storage oh (some ⟨id, p, q, sd, oh, oh⟩), s.order_pool_.freeArr, s.order_pool_.freeCount - 1⟩, order_map_ := Function.update s.order_map_ (id % MAX_ORDERS) (some oh) } (derefLevel { s with order_pool_ := ⟨Function.update s.order_pool_.storage oh (some ⟨id, p, q, sd, oh, oh⟩), s.order_pool_.freeArr, s.order_pool_.freeCount - 1⟩, order_map_ := Function.update s.order_map_ (id % MAX_ORDERS) (some oh) } lh0).first_order).prev, next := (derefLevel { s with order_pool_ := ⟨Function.update s.order_pool_.storage oh (some ⟨id, p, q, sd, oh, oh⟩), s.order_pool_.freeArr, s.order_pool_.freeCount - 1⟩, order_map_ := Function.update s.order_map_ (id % MAX_ORDERS) (some oh) } lh0).first_order })) ((derefOrder { s with order_pool_ := ⟨Function.update s.order_pool_.storage oh (some ⟨id, p, q, sd, oh, oh⟩), s.order_pool_.freeArr, s.order_pool_.freeCount - 1⟩, order_map_ := Function.update s.order_map_ (id % MAX_ORDERS) (some oh) } (derefLevel { s with order_pool_ := ⟨Function.update s.order_pool_.storage oh (some ⟨id, p, q, sd, oh, oh⟩), s.order_pool_.freeArr, s.order_pool_.freeCount - 1⟩, order_map_ := Function.update s.order_map_ (id % MAX_ORDERS) (some oh) } lh0).first_order).prev) _ hS2THsome
  have hS3FHsome : ((setOrder (setOrder { s with order_pool_ := ⟨Function.update s.order_pool_.storage oh (some ⟨id, p, q, sd, oh, oh⟩), s.order_pool_.freeArr, s.order_pool_.freeCount - 1⟩, order_map_ := Function.update s.order_map_ (id % MAX_ORDERS) (some oh) } oh (fun o => { o with prev := (derefOrder { s with order_pool_ := ⟨Function.update s.order_pool_.storage oh (some ⟨id, p, q, sd, oh, oh⟩), s.order_pool_.freeArr, s.order_pool_.freeCount - 1⟩, order_map_ := Function.update s.order_map_ (id % MAX_ORDERS) (some oh) } (derefLevel { s with order_pool_ := ⟨Function.update s.order_pool_.storage oh (some ⟨id, p, q, sd, oh, oh⟩), s.order_pool_.freeArr, s.order_pool_.freeCount - 1⟩, order_map_ := Function.update s.order_map_ (id % MAX_ORDERS) (some oh) } lh0).first_order).prev, next := (derefLevel { s with order_pool_ := ⟨Function.update s.order_pool_.storage oh (some ⟨id, p, q, sd, oh, oh⟩), s.order_pool_.freeArr, s.order_pool_.freeCount - 1⟩, order_map_ := Function.update s.order_map_ (id % MAX_ORDERS) (some oh) } lh0).first_order })) (derefOrder { s with order_pool_ := ⟨Function.update s.order_pool_.storage oh (some ⟨id, p, q, sd, oh, oh⟩), s.order_pool_.freeArr, s.order_pool_.freeCount - 1⟩, order_map_ := Function.update s.order_map_ (id % MAX_ORDERS) (some oh) } (derefLevel { s with order_pool_ := ⟨Function.update s.order_pool_.storage oh (some ⟨id, p, q, sd, oh, oh⟩), s.order_pool_.freeArr, s.order_pool_.freeCount - 1⟩, order_map_ := Function.update s.order_map_ (id % MAX_ORDERS) (some oh) } lh0).first_order).prev (fun o => { o with next := oh })).order_pool_.storage ((derefLevel { s with order_pool_ := ⟨Function.update s.order_pool_.storage oh (some ⟨id, p, q, sd, oh, oh⟩), s.order_pool_.freeArr, s.order_pool_.freeCount - 1⟩, order_map_ := Function.update s.order_map_ (id % MAX_ORDERS) (some oh) } lh0).first_order)).isSome := by
    rw [hlive3, hlive2]
    exact hS1FHsome
  have hlive4 : ∀ k, ((setOrder (setOrder (setOrder { s with order_pool_ := ⟨Function.update s.order_pool_.storage oh (some ⟨id, p, q, sd, oh, oh⟩), s.order_pool_.freeArr, s.order_pool_.freeCount - 1⟩, order_map_ := Function.update s.order_map_ (id % MAX_ORDERS) (some oh) } oh (fun o => { o with prev := (derefOrder { s with order_pool_ := ⟨Function.update s.order_pool_.storage oh (some ⟨id, p, q, sd, oh, oh⟩), s.order_pool_.freeArr, s.order_pool_.freeCount - 1⟩, order_map_ := Function.update s.order_map_ (id % MAX_ORDERS) (some oh) } (derefLevel { s with order_pool_ := ⟨Function.update s.order_pool_.storage oh (some ⟨id, p, q, sd, oh, oh⟩), s.order_pool_.freeArr, s.order_pool_.freeCount - 1⟩, order_map_ := Function.update s.order_map_ (id % MAX_ORDERS) (some oh) } lh0).first_order).prev, next := (derefLevel { s with order_pool_ := ⟨Function.update s.order_pool_.storage oh (some ⟨id, p, q, sd, oh, oh⟩), s.order_pool_.freeArr, s.order_pool_.freeCount - 1⟩, order_map_ := Function.update s.order_map_ (id % MAX_ORDERS) (some oh) } lh0).first_order })) (derefOrder { s with order_pool_ := ⟨Function.update s.order_pool_.storage oh (some ⟨id, p, q, sd, oh, oh⟩), s.order_pool_.freeArr, s.order_pool_.freeCount - 1⟩, order_map_ := Function.update s.order_map_ (id % MAX_ORDERS) (some oh) } (derefLevel { s with order_pool_ := ⟨Function.update s.order_pool_.storage oh (some ⟨id, p, q, sd, oh, oh⟩), s.order_pool_.freeArr, s.order_pool_.freeCount - 1⟩, order_map_ := Function.update s.order_map_ (id % MAX_ORDERS) (some oh) } lh0).first_order).prev (fun o => { o with next := oh })) (derefLevel { s with order_pool_ := ⟨Function.update s.order_pool_.storage oh (some ⟨id, p, q, sd, oh, oh⟩), s.order_pool_.freeArr, s.order_pool_.freeCount - 1⟩, order_map_ := Function.update s.order_map_ (id % MAX_ORDERS) (some oh) } lh0).first_order (fun o => { o with prev := oh })).order_pool_.storage k).isSome = ((setOrder (setOrder { s with order_pool_ := ⟨Function.update s.order_pool_.storage oh (some ⟨id, p, q, sd, oh, oh⟩), s.order_pool_.freeArr, s.order_pool_.freeCount - 1⟩, order_map_ := Function.update s.order_map_ (id % MAX_ORDERS) (some oh) } oh (fun o => { o with prev := (derefOrder { s with order_pool_ := ⟨Function.update s.order_pool_.storage oh (some ⟨id, p, q, sd, oh, oh⟩), s.order_pool_.freeArr, s.order_pool_.freeCount - 1⟩, order_map_ := Function.update s.order_map_ (id % MAX_ORDERS) (some oh) } (derefLevel { s with order_pool_ := ⟨Function.update s.order_pool_.storage oh (some ⟨id, p, q, sd, oh, oh⟩), s.order_pool_.freeArr, s.order_pool_.freeCount - 1⟩, order_map_ := Function.update s.order_map_ (id % MAX_ORDERS) (some oh) } lh0).first_order).prev, next := (derefLevel { s with order_pool_ := ⟨Function.update s.order_pool_.storage oh (some ⟨id, p, q, sd, oh, oh⟩), s.order_pool_.freeArr, s.order_pool_.freeCount - 1⟩, order_map_ := Function.update s.order_map_ (id % MAX_ORDERS) (some oh) } lh0).first_order })) (derefOrder { s with order_pool_ := ⟨Function.update s.order_pool_.storage oh (some ⟨id, p, q, sd, oh, oh⟩), s.order_pool_.freeArr, s.order_pool_.freeCount - 1⟩, order_map_ := Function.update s.order_map_ (id % MAX_ORDERS) (some oh) } (derefLevel { s with order_pool_ := ⟨Function.update s.order_pool_.storage oh (some ⟨id, p, q, sd, oh, oh⟩), s.order_pool_.freeArr, s.order_pool_.freeCount - 1⟩, order_map_ := Function.update s.order_map_ (id % MAX_ORDERS) (some oh) } lh0).first_order).prev (fun o => { o with next := oh })).order_pool_.storage k).isSome :=
    setOrder_storage_isSome (setOrder (setOrder { s with order_pool_ := ⟨Function.update s.order_pool_.storage oh (some ⟨id, p, q, sd, oh, oh⟩), s.order_pool_.freeArr, s.order_pool_.freeCount - 1⟩, order_map_ := Function.update s.order_map_ (id % MAX_ORDERS) (some oh) } oh (fun o => { o with prev := (derefOrder { s with order_pool_ := ⟨Function.update s.order_pool_.storage oh (some ⟨id, p, q, sd, oh, oh⟩), s.order_pool_.freeArr, s.order_pool_.freeCount - 1⟩, order_map_ := Function.update s.order_map_ (id % MAX_ORDERS) (some oh) } (derefLevel { s with order_pool_ := ⟨Function.update s.order_pool_.storage oh (some ⟨id, p, q, sd, oh, oh⟩), s.order_pool_.freeArr, s.order_pool_.freeCount - 1⟩, order_map_ := Function.update s.order_map_ (id % MAX_ORDERS) (some oh) } lh0).first_order).prev, next := (derefLevel { s with order_pool_ := ⟨Function.update s.order_pool_.storage oh (some ⟨id, p, q, sd, oh, oh⟩), s.order_pool_.freeArr, s.order_pool_.freeCount - 1⟩, order_map_ := Function.update s.order_map_ (id % MAX_ORDERS) (some oh) } lh0).first_order })) (derefOrder { s with order_pool_ := ⟨Function.update s.order_pool_.storage oh (some ⟨id, p, q, sd, oh, oh⟩), s.order_pool_.freeArr, s.order_pool_.freeCount - 1⟩, order_map_ := Function.update s.order_map_ (id % MAX_ORDERS) (some oh) } (derefLevel { s with order_pool_ := ⟨Function.update s.order_pool_.storage oh (some ⟨id, p, q, sd, oh, oh⟩), s.order_pool_.freeArr, s.order_pool_.freeCount - 1⟩, order_map_ := Function.update s.order_map_ (id % MAX_ORDERS) (some oh) } lh0).first_order).prev (fun o => { o with next := oh })) ((derefLevel { s with order_pool_ := ⟨Function.update s.order_pool_.storage oh (some ⟨id, p, q, sd, oh, oh⟩), s.order_pool_.freeArr, s.order_pool_.freeCount - 1⟩, order_map_ := Function.update s.order_map_ (id % MAX_ORDERS) (some oh) } lh0).first_order) _ hS3FHsome
  have hliveO5 : ∀ k, ((setLevel (setOrder (setOrder (setOrder { s with order_pool_ := ⟨Function.update s.order_pool_.storage oh (some ⟨id, p, q, sd, oh, oh⟩), s.order_pool_.freeArr, s.order_pool_.freeCount - 1⟩, order_map_ := Function.update s.order_map_ (id % MAX_ORDERS) (some oh) } oh (fun o => { o with prev := (derefOrder { s with order_pool_ := ⟨Function.update s.order_pool_.storage oh (some ⟨id, p, q, sd, oh, oh⟩), s.order_pool_.freeArr, s.order_pool_.freeCount - 1⟩, order_map_ := Function.update s.order_map_ (id % MAX_ORDERS) (some oh) } (derefLevel { s with order_pool_ := ⟨Function.update s.order_pool_.storage oh (some ⟨id, p, q, sd, oh, oh⟩), s.order_pool_.freeArr, s.order_pool_.freeCount - 1⟩, order_map_ := Function.update s.order_map_ (id % MAX_ORDERS) (some oh) } lh0).first_order).prev, next := (derefLevel { s with order_pool_ := ⟨Function.update s.order_pool_.storage oh (some ⟨id, p, q, sd, oh, oh⟩), s.order_pool_.freeArr, s.order_pool_.freeCount - 1⟩, order_map_ := Function.update s.order_map_ (id % MAX_ORDERS) (some oh) } lh0).first_order })) (derefOrder { s with order_pool_ := ⟨Function.update s.order_pool_.storage oh (some ⟨id, p, q, sd, oh, oh⟩), s.order_pool_.freeArr, s.order_pool_.freeCount - 1⟩, order_map_ := Function.update s.order_map_ (id % MAX_ORDERS) (some oh) } (derefLevel { s with order_pool_ := ⟨Function.update s.order_pool_.storage oh (some ⟨id, p, q, sd, oh, oh⟩), s.order_pool_.freeArr, s.order_pool_.freeCount - 1⟩, order_map_ := Function.update s.order_map_ (id % MAX_ORDERS) (some oh) } lh0).first_order).prev (fun o => { o with next := oh })) (derefLevel { s with order_pool_ := ⟨Function.update s.order_pool_.storage oh (some ⟨id, p, q, sd, oh, oh⟩), s.order_pool_.freeArr, s.order_pool_.freeCount - 1⟩, order_map_ := Function.update s.order_map_ (id % MAX_ORDERS) (some oh) } lh0).first_order (fun o => { o with prev := oh })) lh0 (fun x => { x with total_qty := u32add x.total_qty q, order_count := x.order_count + 1 })).order_pool_.storage k).isSome = (({ s with order_pool_ := ⟨Function.update s.order_pool_.storage oh (some ⟨id, p, q, sd, oh, oh⟩), s.order_pool_.freeArr, s.order_pool_.freeCount - 1⟩, order_map_ := Function.update s.order_map_ (id % MAX_ORDERS) (some oh) }).order_pool_.storage k).isSome := by
    intro k
    show ((setOrder (setOrder (setOrder { s with order_pool_ := ⟨Function.update s.order_pool_.storage oh (some ⟨id, p, q, sd, oh, oh⟩), s.order_pool_.freeArr, s.order_pool_.freeCount - 1⟩, order_map_ := Function.update s.order_map_ (id % MAX_ORDERS) (some oh) } oh (fun o => { o with prev := (derefOrder { s with order_pool_ := ⟨Function.update s.order_pool_.storage oh (some ⟨id, p, q, sd, oh, oh⟩), s.order_pool_.freeArr, s.order_pool_.freeCount - 1⟩, order_map_ := Function.update s.order_map_ (id % MAX_ORDERS) (some oh) } (derefLevel { s with order_pool_ := ⟨Function.update s.order_pool_.storage oh (some ⟨id, p, q, sd, oh, oh⟩), s.order_pool_.freeArr, s.order_pool_.freeCount - 1⟩, order_map_ := Function.update s.order_map_ (id % MAX_ORDERS) (some oh) } lh0).first_order).prev, next := (derefLevel { s with order_pool_ := ⟨Function.update s.order_pool_.storage oh (some ⟨id, p, q, sd, oh, oh⟩), s.order_pool_.freeArr, s.order_pool_.freeCount - 1⟩, order_map_ := Function.update s.order_map_ (id % MAX_ORDERS) (some oh) } lh0).first_order })) (derefOrder { s with order_pool_ := ⟨Function.update s.order_pool_.storage oh (some ⟨id, p, q, sd, oh, oh⟩), s.order_pool_.freeArr, s.order_pool_.freeCount - 1⟩, order_map_ := Function.update s.order_map_ (id % MAX_ORDERS) (some oh) } (derefLevel { s with order_pool_ := ⟨Function.update s.order_pool_.storage oh (some ⟨id, p, q, sd, oh, oh⟩), s.order_pool_.freeArr, s.order_pool_.freeCount - 1⟩, order_map_ := Function.update s.order_map_ (id % MAX_ORDERS) (some oh) } lh0).first_order).prev (fun o => { o with next := oh })) (derefLevel { s with order_pool_ := ⟨Function.update s.order_pool_.storage oh (some ⟨id, p, q, sd, oh, oh⟩), s.order_pool_.freeArr, s.order_pool_.freeCount - 1⟩, order_map_ := Function.update s.order_map_ (id % MAX_ORDERS) (some oh) } lh0).first_order (fun o => { o with prev := oh })).order_pool_.storage k).isSome = _
    rw [hlive4 k, hlive3 k, hlive2 k]
  have hS1liveiff : ∀ k, (({ s with order_pool_ := ⟨Function.update s.order_pool_.storage oh (some ⟨id, p, q, sd, oh, oh⟩), s.order_pool_.freeArr, s.order_pool_.freeCount - 1⟩, order_map_ := Function.update s.order_map_ (id % MAX_ORDERS) (some oh) }).order_pool_.storage k).isSome ↔
      ((s.order_pool_.storage k).isSome ∨ k = oh) := by
    intro k
    by_cases hk : k = oh
    · rw [hk, hS1ohst]
      simp
    · rw [hS1st k hk]
      simp [hk]
  -- the extended FIFO cycle
  have hsnoc := cycle_snoc_update
    (fun k => (derefOrder s k).next) (fun k => (derefOrder s k).prev)
    (fun k => (derefOrder (setLevel (setOrder (setOrder (setOrder { s with order_pool_ := ⟨Function.update s.order_pool_.storage oh (some ⟨id, p, q, sd, oh, oh⟩), s.order_pool_.freeArr, s.order_pool_.freeCount - 1⟩, order_map_ := Function.update s.order_map_ (id % MAX_ORDERS) (some oh) } oh (fun o => { o with prev := (derefOrder { s with order_pool_ := ⟨Function.update s.order_pool_.storage oh (some ⟨id, p, q, sd, oh, oh⟩), s.order_pool_.freeArr, s.order_pool_.freeCount - 1⟩, order_map_ := Function.update s.order_map_ (id % MAX_ORDERS) (some oh) } (derefLevel { s with order_pool_ := ⟨Function.update s.order_pool_.storage oh (some ⟨id, p, q, sd, oh, oh⟩), s.order_pool_.freeArr, s.order_pool_.freeCount - 1⟩, order_map_ := Function.update s.order_map_ (id % MAX_ORDERS) (some oh) } lh0).first_order).prev, next := (derefLevel { s with order_pool_ := ⟨Function.update s.order_pool_.storage oh (some ⟨id, p, q, sd, oh, oh⟩), s.order_pool_.freeArr, s.order_pool_.freeCount - 1⟩, order_map_ := Function.update s.order_map_ (id % MAX_ORDERS) (some oh) } lh0).first_order })) (derefOrder { s with order_pool_ := ⟨Function.update s.order_pool_.storage oh (some ⟨id, p, q, sd, oh, oh⟩), s.order_pool_.freeArr, s.order_pool_.freeCount - 1⟩, order_map_ := Function.update s.order_map_ (id % MAX_ORDERS) (some oh) } (derefLevel { s with order_pool_ := ⟨Function.update s.order_pool_.storage oh (some ⟨id, p, q, sd, oh, oh⟩), s.order_pool_.freeArr, s.order_pool_.freeCount - 1⟩, order_map_ := Function.update s.order_map_ (id % MAX_ORDERS) (some oh) } lh0).first_order).prev (fun o => { o with next := oh })) (derefLevel { s with order_pool_ := ⟨Function.update s.order_pool_.storage oh (some ⟨id, p, q, sd, oh, oh⟩), s.order_pool_.freeArr, s.order_pool_.freeCount - 1⟩, order_map_ := Function.update s.order_map_ (id % MAX_ORDERS) (some oh) } lh0).first_order (fun o => { o with prev := oh })) lh0 (fun x => { x with total_qty := u32add x.total_qty q, order_count := x.order_count + 1 })) k).next) (fun k => (derefOrder (setLevel (setOrder (setOrder (setOrder { s with order_pool_ := ⟨Function.update s.order_pool_.storage oh (some ⟨id, p, q, sd, oh, oh⟩), s.order_pool_.freeArr, s.order_pool_.freeCount - 1⟩, order_map_ := Function.update s.order_map_ (id % MAX_ORDERS) (some oh) } oh (fun o => { o with prev := (derefOrder { s with order_pool_ := ⟨Function.update s.order_pool_.storage oh (some ⟨id, p, q, sd, oh, oh⟩), s.order_pool_.freeArr, s.order_pool_.freeCount - 1⟩, order_map_ := Function.update s.order_map_ (id % MAX_ORDERS) (some oh) } (derefLevel { s with order_pool_ := ⟨Function.update s.order_pool_.storage oh (some ⟨id, p, q, sd, oh, oh⟩), s.order_pool_.freeArr, s.order_pool_.freeCount - 1⟩, order_map_ := Function.update s.order_map_ (id % MAX_ORDERS) (some oh) } lh0).first_order).prev, next := (derefLevel { s with order_pool_ := ⟨Function.update s.order_pool_.storage oh (some ⟨id, p, q, sd, oh, oh⟩), s.order_pool_.freeArr, s.order_pool_.freeCount - 1⟩, order_map_ := Function.update s.order_map_ (id % MAX_ORDERS) (some oh) } lh0).first_order })) (derefOrder { s with order_pool_ := ⟨Function.update s.order_pool_.storage oh (some ⟨id, p, q, sd, oh, oh⟩), s.order_pool_.freeArr, s.order_pool_.freeCount - 1⟩, order_map_ := Function.update s.order_map_ (id % MAX_ORDERS) (some oh) } (derefLevel { s with order_pool_ := ⟨Function.update s.order_pool_.storage oh (some ⟨id, p, q, sd, oh, oh⟩), s.order_pool_.freeArr, s.order_pool_.freeCount - 1⟩, order_map_ := Function.update s.order_map_ (id % MAX_ORDERS) (some oh) } lh0).first_order).prev (fun o => { o with next := oh })) (derefLevel { s with order_pool_ := ⟨Function.update s.order_pool_.storage oh (some ⟨id, p, q, sd, oh, oh⟩), s.order_pool_.freeArr, s.order_pool_.freeCount - 1⟩, order_map_ := Function.update s.order_map_ (id % MAX_ORDERS) (some oh) } lh0).first_order (fun o => { o with prev := oh })) lh0 (fun x => { x with total_qty := u32add x.total_qty q, order_count := x.order_count + 1 })) k).prev)
    hF hndF (hohnotlive lh0 hlh0) hFH
    (by show (derefOrder (setLevel (setOrder (setOrder (setOrder { s with order_pool_ := ⟨Function.update s.order_pool_.storage oh (some ⟨id, p, q, sd, oh, oh⟩), s.order_pool_.freeArr, s.order_pool_.freeCount - 1⟩, order_map_ := Function.update s.order_map_ (id % MAX_ORDERS) (some oh) } oh (fun o => { o with prev := (derefOrder { s with order_pool_ := ⟨Function.update s.order_pool_.storage oh (some ⟨id, p, q, sd, oh, oh⟩), s.order_pool_.freeArr, s.order_pool_.freeCount - 1⟩, order_map_ := Function.update s.order_map_ (id % MAX_ORDERS) (some oh) } (derefLevel { s with order_pool_ := ⟨Function.update s.order_pool_.storage oh (some ⟨id, p, q, sd, oh, oh⟩), s.order_pool_.freeArr, s.order_pool_.freeCount - 1⟩, order_map_ := Function.update s.order_map_ (id % MAX_ORDERS) (some oh) } lh0).first_order).prev, next := (derefLevel { s with order_pool_ := ⟨Function.update s.order_pool_.storage oh (some ⟨id, p, q, sd, oh, oh⟩), s.order_pool_.freeArr, s.order_pool_.freeCount - 1⟩, order_map_ := Function.update s.order_map_ (id % MAX_ORDERS) (some oh) } lh0).first_order })) (derefOrder { s with order_pool_ := ⟨Function.update s.order_pool_.storage oh (some ⟨id, p, q, sd, oh, oh⟩), s.order_pool_.freeArr, s.order_pool_.freeCount - 1⟩, order_map_ := Function.update s.order_map_ (id % MAX_ORDERS) (some oh) } (derefLevel { s with order_pool_ := ⟨Function.update s.order_pool_.storage oh (some ⟨id, p, q, sd, oh, oh⟩), s.order_pool_.freeArr, s.order_pool_.freeCount - 1⟩, order_map_ := Function.update s.order_map_ (id % MAX_ORDERS) (some oh) } lh0).first_order).prev (fun o => { o with next := oh })) (derefLevel { s with order_pool_ := ⟨Function.update s.order_pool_.storage oh (some ⟨id, p, q, sd, oh, oh⟩), s.order_pool_.freeArr, s.order_pool_.freeCount - 1⟩, order_map_ := Function.update s.order_map_ (id % MAX_ORDERS) (some oh) } lh0).first_order (fun o => { o with prev := oh })) lh0 (fun x => { x with total_qty := u32add x.total_qty q, order_count := x.order_count + 1 })) ((derefOrder s ((derefLevel { s with order_pool_ := ⟨Function.update s.order_pool_.storage oh (some ⟨id, p, q, sd, oh, oh⟩), s.order_pool_.freeArr, s.order_pool_.freeCount - 1⟩, order_map_ := Function.update s.order_map_ (id % MAX_ORDERS) (some oh) } lh0).first_order)).prev)).next = oh
        rw [← hTHeq]
        exact hnTH)
    (by show (derefOrder (setLevel (setOrder (setOrder (setOrder { s with order_pool_ := ⟨Function.update s.order_pool_.storage oh (some ⟨id, p, q, sd, oh, oh⟩), s.order_pool_.freeArr, s.order_pool_.freeCount - 1⟩, order_map_ := Function.update s.order_map_ (id % MAX_ORDERS) (some oh) } oh (fun o => { o with prev := (derefOrder { s with order_pool_ := ⟨Function.update s.order_pool_.storage oh (some ⟨id, p, q, sd, oh, oh⟩), s.order_pool_.freeArr, s.order_pool_.freeCount - 1⟩, order_map_ := Function.update s.order_map_ (id % MAX_ORDERS) (some oh) } (derefLevel { s with order_pool_ := ⟨Function.update s.order_pool_.storage oh (some ⟨id, p, q, sd, oh, oh⟩), s.order_pool_.freeArr, s.order_pool_.freeCount - 1⟩, order_map_ := Function.update s.order_map_ (id % MAX_ORDERS) (some oh) } lh0).first_order).prev, next := (derefLevel { s with order_pool_ := ⟨Function.update s.order_pool_.storage oh (some ⟨id, p, q, sd, oh, oh⟩), s.order_pool_.freeArr, s.order_pool_.freeCount - 1⟩, order_map_ := Function.update s.order_map_ (id % MAX_ORDERS) (some oh) } lh0).first_order })) (derefOrder { s with order_pool_ := ⟨Function.update s.order_pool_.storage oh (some ⟨id, p, q, sd, oh, oh⟩), s.order_pool_.freeArr, s.order_pool_.freeCount - 1⟩, order_map_ := Function.update s.order_map_ (id % MAX_ORDERS) (some oh) } (derefLevel { s with order_pool_ := ⟨Function.update s.order_pool_.storage oh (some ⟨id, p, q, sd, oh, oh⟩), s.order_pool_.freeArr, s.order_pool_.freeCount - 1⟩, order_map_ := Function.update s.order_map_ (id % MAX_ORDERS) (some oh) } lh0).first_order).prev (fun o => { o with next := oh })) (derefLevel { s with order_pool_ := ⟨Function.update s.order_pool_.storage oh (some ⟨id, p, q, sd, oh, oh⟩), s.order_pool_.freeArr, s.order_pool_.freeCount - 1⟩, order_map_ := Function.update s.order_map_ (id % MAX_ORDERS) (some oh) } lh0).first_order (fun o => { o with prev := oh })) lh0 (fun x => { x with total_qty := u32add x.total_qty q, order_count := x.order_count + 1 })) oh).prev = (derefOrder s ((derefLevel { s with order_pool_ := ⟨Function.update s.order_pool_.storage oh (some ⟨id, p, q, sd, oh, oh⟩), s.order_pool_.freeArr, s.order_pool_.freeCount - 1⟩, order_map_ := Function.update s.order_map_ (id % MAX_ORDERS) (some oh) } lh0).first_order)).prev
        rw [hohPrev, hTHeq])
    (by show (derefOrder (setLevel (setOrder (setOrder (setOrder { s with order_pool_ := ⟨Function.update s.order_pool_.storage oh (some ⟨id, p, q, sd, oh, oh⟩), s.order_pool_.freeArr, s.order_pool_.freeCount - 1⟩, order_map_ := Function.update s.order_map_ (id % MAX_ORDERS) (some oh) } oh (fun o => { o with prev := (derefOrder { s with order_pool_ := ⟨Function.update s.order_pool_.storage oh (some ⟨id, p, q, sd, oh, oh⟩), s.order_pool_.freeArr, s.order_pool_.freeCount - 1⟩, order_map_ := Function.update s.order_map_ (id % MAX_ORDERS) (some oh) } (derefLevel { s with order_pool_ := ⟨Function.update s.order_pool_.storage oh (some ⟨id, p, q, sd, oh, oh⟩), s.order_pool_.freeArr, s.order_pool_.freeCount - 1⟩, order_map_ := Function.update s.order_map_ (id % MAX_ORDERS) (some oh) } lh0).first_order).prev, next := (derefLevel { s with order_pool_ := ⟨Function.update s.order_pool_.storage oh (some ⟨id, p, q, sd, oh, oh⟩), s.order_pool_.freeArr, s.order_pool_.freeCount - 1⟩, order_map_ := Function.update s.order_map_ (id % MAX_ORDERS) (some oh) } lh0).first_order })) (derefOrder { s with order_pool_ := ⟨Function.update s.order_pool_.storage oh (some ⟨id, p, q, sd, oh, oh⟩), s.order_pool_.freeArr, s.order_pool_.freeCount - 1⟩, order_map_ := Function.update s.order_map_ (id % MAX_ORDERS) (some oh) } (derefLevel { s with order_pool_ := ⟨Function.update s.order_pool_.storage oh (some ⟨id, p, q, sd, oh, oh⟩), s.order_pool_.freeArr, s.order_pool_.freeCount - 1⟩, order_map_ := Function.update s.order_map_ (id % MAX_ORDERS) (some oh) } lh0).first_order).prev (fun o => { o with next := oh })) (derefLevel { s with order_pool_ := ⟨Function.update s.order_pool_.storage oh (some ⟨id, p, q, sd, oh, oh⟩), s.order_pool_.freeArr, s.order_pool_.freeCount - 1⟩, order_map_ := Function.update s.order_map_ (id % MAX_ORDERS) (some oh) } lh0).first_order (fun o => { o with prev := oh })) lh0 (fun x => { x with total_qty := u32add x.total_qty q, order_count := x.order_count + 1 })) oh).next = ((derefLevel { s with order_pool_ := ⟨Function.update s.order_pool_.storage oh (some ⟨id, p, q, sd, oh, oh⟩), s.order_pool_.freeArr, s.order_pool_.freeCount - 1⟩, order_map_ := Function.update s.order_map_ (id % MAX_ORDERS) (some oh) } lh0).first_order)
        exact hohNext)
    (by show (derefOrder (setLevel (setOrder (setOrder (setOrder { s with order_pool_ := ⟨Function.update s.order_pool_.storage oh (some ⟨id, p, q, sd, oh, oh⟩), s.order_pool_.freeArr, s.order_pool_.freeCount - 1⟩, order_map_ := Function.update s.order_map_ (id % MAX_ORDERS) (some oh) } oh (fun o => { o with prev := (derefOrder { s with order_pool_ := ⟨Function.update s.order_pool_.storage oh (some ⟨id, p, q, sd, oh, oh⟩), s.order_pool_.freeArr, s.order_pool_.freeCount - 1⟩, order_map_ := Function.update s.order_map_ (id % MAX_ORDERS) (some oh) } (derefLevel { s with order_pool_ := ⟨Function.update s.order_pool_.storage oh (some ⟨id, p, q, sd, oh, oh⟩), s.order_pool_.freeArr, s.order_pool_.freeCount - 1⟩, order_map_ := Function.update s.order_map_ (id % MAX_ORDERS) (some oh) } lh0).first_order).prev, next := (derefLevel { s with order_pool_ := ⟨Function.update s.order_pool_.storage oh (some ⟨id, p, q, sd, oh, oh⟩), s.order_pool_.freeArr, s.order_pool_.freeCount - 1⟩, order_map_ := Function.update s.order_map_ (id % MAX_ORDERS) (some oh) } lh0).first_order })) (derefOrder { s with order_pool_ := ⟨Function.update s.order_pool_.storage oh (some ⟨id, p, q, sd, oh, oh⟩), s.order_pool_.freeArr, s.order_pool_.freeCount - 1⟩, order_map_ := Function.update s.order_map_ (id % MAX_ORDERS) (some oh) } (derefLevel { s with order_pool_ := ⟨Function.update s.order_pool_.storage oh (some ⟨id, p, q, sd, oh, oh⟩), s.order_pool_.freeArr, s.order_pool_.freeCount - 1⟩, order_map_ := Function.update s.order_map_ (id % MAX_ORDERS) (some oh) } lh0).first_order).prev (fun o => { o with next := oh })) (derefLevel { s with order_pool_ := ⟨Function.update s.order_pool_.storage oh (some ⟨id, p, q, sd, oh, oh⟩), s.order_pool_.freeArr, s.order_pool_.freeCount - 1⟩, order_map_ := Function.update s.order_map_ (id % MAX_ORDERS) (some oh) } lh0).first_order (fun o => { o with prev := oh })) lh0 (fun x => { x with total_qty := u32add x.total_qty q, order_count := x.order_count + 1 })) ((derefLevel { s with order_pool_ := ⟨Function.update s.order_pool_.storage oh (some ⟨id, p, q, sd, oh, oh⟩), s.order_pool_.freeArr, s.order_pool_.freeCount - 1⟩, order_map_ := Function.update s.order_map_ (id % MAX_ORDERS) (some oh) } lh0).first_order)).prev = oh
        exact hpFH)
    (fun k hk hkp => by
      show (derefOrder (setLevel (setOrder (setOrder (setOrder { s with order_pool_ := ⟨Function.update s.order_pool_.storage oh (some ⟨id, p, q, sd, oh, oh⟩), s.order_pool_.freeArr, s.order_pool_.freeCount - 1⟩, order_map_ := Function.update s.order_map_ (id % MAX_ORDERS) (some oh) } oh (fun o => { o with prev := (derefOrder { s with order_pool_ := ⟨Function.update s.order_pool_.storage oh (some ⟨id, p, q, sd, oh, oh⟩), s.order_pool_.freeArr, s.order_pool_.freeCount - 1⟩, order_map_ := Function.update s.order_map_ (id % MAX_ORDERS) (some oh) } (derefLevel { s with order_pool_ := ⟨Function.update s.order_pool_.storage oh (some ⟨id, p, q, sd, oh, oh⟩), s.order_pool_.freeArr, s.order_pool_.freeCount - 1⟩, order_map_ := Function.update s.order_map_ (id % MAX_ORDERS) (some oh) } lh0).first_order).prev, next := (derefLevel { s with order_pool_ := ⟨Function.update s.order_pool_.storage oh (some ⟨id, p, q, sd, oh, oh⟩), s.order_pool_.freeArr, s.order_pool_.freeCount - 1⟩, order_map_ := Function.update s.order_map_ (id % MAX_ORDERS) (some oh) } lh0).first_order })) (derefOrder { s with order_pool_ := ⟨Function.update s.order_pool_.storage oh (some ⟨id, p, q, sd, oh, oh⟩), s.order_pool_.freeArr, s.order_pool_.freeCount - 1⟩, order_map_ := Function.update s.order_map_ (id % MAX_ORDERS) (some oh) } (derefLevel { s with order_pool_ := ⟨Function.update s.order_pool_.storage oh (some ⟨id, p, q, sd, oh, oh⟩), s.order_pool_.freeArr, s.order_pool_.freeCount - 1⟩, order_map_ := Function.update s.order_map_ (id % MAX_ORDERS) (some oh) } lh0).first_order).prev (fun o => { o with next := oh })) (derefLevel { s with order_pool_ := ⟨Function.update s.order_pool_.storage oh (some ⟨id, p, q, sd, oh, oh⟩), s.order_pool_.freeArr, s.order_pool_.freeCount - 1⟩, order_map_ := Function.update s.order_map_ (id % MAX_ORDERS) (some oh) } lh0).first_order (fun o => { o with prev := oh })) lh0 (fun x => { x with total_qty := u32add x.total_qty q, order_count := x.order_count + 1 })) k).next = (derefOrder s k).next
      refine hrnS5 k (fun he => hohnotlive lh0 hlh0 (he ▸ hk)) (fun he => hkp ?_)
      show k = (derefOrder s ((derefLevel { s with order_pool_ := ⟨Function.update s.order_pool_.storage oh (some ⟨id, p, q, sd, oh, oh⟩), s.order_pool_.freeArr, s.order_pool_.freeCount - 1⟩, order_map_ := Function.update s.order_map_ (id % MAX_ORDERS) (some oh) } lh0).first_order)).prev
      rw [← hTHeq]
      exact he)
    (fun k hk hkx => by
      show (derefOrder (setLevel (setOrder (setOrder (setOrder { s with order_pool_ := ⟨Function.update s.order_pool_.storage oh (some ⟨id, p, q, sd, oh, oh⟩), s.order_pool_.freeArr, s.order_pool_.freeCount - 1⟩, order_map_ := Function.update s.order_map_ (id % MAX_ORDERS) (some oh) } oh (fun o => { o with prev := (derefOrder { s with order_pool_ := ⟨Function.update s.order_pool_.storage oh (some ⟨id, p, q, sd, oh, oh⟩), s.order_pool_.freeArr, s.order_pool_.freeCount - 1⟩, order_map_ := Function.update s.order_map_ (id % MAX_ORDERS) (some oh) } (derefLevel { s with order_pool_ := ⟨Function.update s.order_pool_.storage oh (some ⟨id, p, q, sd, oh, oh⟩), s.order_pool_.freeArr, s.order_pool_.freeCount - 1⟩, order_map_ := Function.update s.order_map_ (id % MAX_ORDERS) (some oh) } lh0).first_order).prev, next := (derefLevel { s with order_pool_ := ⟨Function.update s.order_pool_.storage oh (some ⟨id, p, q, sd, oh, oh⟩), s.order_pool_.freeArr, s.order_pool_.freeCount - 1⟩, order_map_ := Function.update s.order_map_ (id % MAX_ORDERS) (some oh) } lh0).first_order })) (derefOrder { s with order_pool_ := ⟨Function.update s.order_pool_.storage oh (some ⟨id, p, q, sd, oh, oh⟩), s.order_pool_.freeArr, s.order_pool_.freeCount - 1⟩, order_map_ := Function.update s.order_map_ (id % MAX_ORDERS) (some oh) } (derefLevel { s with order_pool_ := ⟨Function.update s.order_pool_.storage oh (some ⟨id, p, q, sd, oh, oh⟩), s.order_pool_.freeArr, s.order_pool_.freeCount - 1⟩, order_map_ := Function.update s.order_map_ (id % MAX_ORDERS) (some oh) } lh0).first_order).prev (fun o => { o with next := oh })) (derefLevel { s with order_pool_ := ⟨Function.update s.order_pool_.storage oh (some ⟨id, p, q, sd, oh, oh⟩), s.order_pool_.freeArr, s.order_pool_.freeCount - 1⟩, order_map_ := Function.update s.order_map_ (id % MAX_ORDERS) (some oh) } lh0).first_order (fun o => { o with prev := oh })) lh0 (fun x => { x with total_qty := u32add x.total_qty q, order_count := x.order_count + 1 })) k).prev = (derefOrder s k).prev
      exact hrpS5 k (fun he => hohnotlive lh0 hlh0 (he ▸ hk)) hkx)
  obtain ⟨hTHmem2, hcycApp, hcycCons⟩ := hsnoc
  -- distant levels never mention the three rewritten handles
  have hfar : ∀ lh, lh ≠ lh0 → (s.level_pool_.storage lh).isSome →
      ∀ m ∈ G.fifo lh, m ≠ oh ∧ m ≠ ((derefOrder { s with order_pool_ := ⟨Function.update s.order_pool_.storage oh (some ⟨id, p, q, sd, oh, oh⟩), s.order_pool_.freeArr, s.order_pool_.freeCount - 1⟩, order_map_ := Function.update s.order_map_ (id % MAX_ORDERS) (some oh) } (derefLevel { s with order_pool_ := ⟨Function.update s.order_pool_.storage oh (some ⟨id, p, q, sd, oh, oh⟩), s.order_pool_.freeArr, s.order_pool_.freeCount - 1⟩, order_map_ := Function.update s.order_map_ (id % MAX_ORDERS) (some oh) } lh0).first_order).prev) ∧ m ≠ ((derefLevel { s with order_pool_ := ⟨Function.update s.order_pool_.storage oh (some ⟨id, p, q, sd, oh, oh⟩), s.order_pool_.freeArr, s.order_pool_.freeCount - 1⟩, order_map_ := Function.update s.order_map_ (id % MAX_ORDERS) (some oh) } lh0).first_order) := by
    intro lh hne hl m hm
    refine ⟨?_, ?_, ?_⟩
    · intro he
      exact hohnotlive lh hl (he ▸ hm)
    · intro he
      exact hne (hwf.fifoDisj lh lh0 hl hlh0 m hm (he ▸ hTHmem))
    · intro he
      exact hne (hwf.fifoDisj lh lh0 hl hlh0 m hm (he ▸ hFHmem))
  -- projections of the final state
  have hPM5 : (setLevel (setOrder (setOrder (setOrder { s with order_pool_ := ⟨Function.update s.order_pool_.storage oh (some ⟨id, p, q, sd, oh, oh⟩), s.order_pool_.freeArr, s.order_pool_.freeCount - 1⟩, order_map_ := Function.update s.order_map_ (id % MAX_ORDERS) (some oh) } oh (fun o => { o with prev := (derefOrder { s with order_pool_ := ⟨Function.update s.order_pool_.storage oh (some ⟨id, p, q, sd, oh, oh⟩), s.order_pool_.freeArr, s.order_pool_.freeCount - 1⟩, order_map_ := Function.update s.order_map_ (id % MAX_ORDERS) (some oh) } (derefLevel { s with order_pool_ := ⟨Function.update s.order_pool_.storage oh (some ⟨id, p, q, sd, oh, oh⟩), s.order_pool_.freeArr, s.order_pool_.freeCount - 1⟩, order_map_ := Function.update s.order_map_ (id % MAX_ORDERS) (some oh) } lh0).first_order).prev, next := (derefLevel { s with order_pool_ := ⟨Function.update s.order_pool_.storage oh (some ⟨id, p, q, sd, oh, oh⟩), s.order_pool_.freeArr, s.order_pool_.freeCount - 1⟩, order_map_ := Function.update s.order_map_ (id % MAX_ORDERS) (some oh) } lh0).first_order })) (derefOrder { s with order_pool_ := ⟨Function.update s.order_pool_.storage oh (some ⟨id, p, q, sd, oh, oh⟩), s.order_pool_.freeArr, s.order_pool_.freeCount - 1⟩, order_map_ := Function.update s.order_map_ (id % MAX_ORDERS) (some oh) } (derefLevel { s with order_pool_ := ⟨Function.update s.order_pool_.storage oh (some ⟨id, p, q, sd, oh, oh⟩), s.order_pool_.freeArr, s.order_pool_.freeCount - 1⟩, order_map_ := Function.update s.order_map_ (id % MAX_ORDERS) (some oh) } lh0).first_order).prev (fun o => { o with next := oh })) (derefLevel { s with order_pool_ := ⟨Function.update s.order_pool_.storage oh (some ⟨id, p, q, sd, oh, oh⟩), s.order_pool_.freeArr, s.order_pool_.freeCount - 1⟩, order_map_ := Function.update s.order_map_ (id % MAX_ORDERS) (some oh) } lh0).first_order (fun o => { o with prev := oh })) lh0 (fun x => { x with total_qty := u32add x.total_qty q, order_count := x.order_count + 1 })).price_level_map_ = s.price_level_map_ := rfl
  have hB5 : (setLevel (setOrder (setOrder (setOrder { s with order_pool_ := ⟨Function.update s.order_pool_.storage oh (some ⟨id, p, q, sd, oh, oh⟩), s.order_pool_.freeArr, s.order_pool_.freeCount - 1⟩, order_map_ := Function.update s.order_map_ (id % MAX_ORDERS) (some oh) } oh (fun o => { o with prev := (derefOrder { s with order_pool_ := ⟨Function.update s.order_pool_.storage oh (some ⟨id, p, q, sd, oh, oh⟩), s.order_pool_.freeArr, s.order_pool_.freeCount - 1⟩, order_map_ := Function.update s.order_map_ (id % MAX_ORDERS) (some oh) } (derefLevel { s with order_pool_ := ⟨Function.update s.order_pool_.storage oh (some ⟨id, p, q, sd, oh, oh⟩), s.order_pool_.freeArr, s.order_pool_.freeCount - 1⟩, order_map_ := Function.update s.order_map_ (id % MAX_ORDERS) (some oh) } lh0).first_order).prev, next := (derefLevel { s with order_pool_ := ⟨Function.update s.order_pool_.storage oh (some ⟨id, p, q, sd, oh, oh⟩), s.order_pool_.freeArr, s.order_pool_.freeCount - 1⟩, order_map_ := Function.update s.order_map_ (id % MAX_ORDERS) (some oh) } lh0).first_order })) (derefOrder { s with order_pool_ := ⟨Function.update s.order_pool_.storage oh (some ⟨id, p, q, sd, oh, oh⟩), s.order_pool_.freeArr, s.order_pool_.freeCount - 1⟩, order_map_ := Function.update s.order_map_ (id % MAX_ORDERS) (some oh) } (derefLevel { s with order_pool_ := ⟨Function.update s.order_pool_.storage oh (some ⟨id, p, q, sd, oh, oh⟩), s.order_pool_.freeArr, s.order_pool_.freeCount - 1⟩, order_map_ := Function.update s.order_map_ (id % MAX_ORDERS) (some oh) } lh0).first_order).prev (fun o => { o with next := oh })) (derefLevel { s with order_pool_ := ⟨Function.update s.order_pool_.storage oh (some ⟨id, p, q, sd, oh, oh⟩), s.order_pool_.freeArr, s.order_pool_.freeCount - 1⟩, order_map_ := Function.update s.order_map_ (id % MAX_ORDERS) (some oh) } lh0).first_order (fun o => { o with prev := oh })) lh0 (fun x => { x with total_qty := u32add x.total_qty q, order_count := x.order_count + 1 })).bids_ = s.bids_ := rfl
  have hA5 : (setLevel (setOrder (setOrder (setOrder { s with order_pool_ := ⟨Function.update s.order_pool_.storage oh (some ⟨id, p, q, sd, oh, oh⟩), s.order_pool_.freeArr, s.order_pool_.freeCount - 1⟩, order_map_ := Function.update s.order_map_ (id % MAX_ORDERS) (some oh) } oh (fun o => { o with prev := (derefOrder { s with order_pool_ := ⟨Function.update s.order_pool_.storage oh (some ⟨id, p, q, sd, oh, oh⟩), s.order_pool_.freeArr, s.order_pool_.freeCount - 1⟩, order_map_ := Function.update s.order_map_ (id % MAX_ORDERS) (some oh) } (derefLevel { s with order_pool_ := ⟨Function.update s.order_pool_.storage oh (some ⟨id, p, q, sd, oh, oh⟩), s.order_pool_.freeArr, s.order_pool_.freeCount - 1⟩, order_map_ := Function.update s.order_map_ (id % MAX_ORDERS) (some oh) } lh0).first_order).prev, next := (derefLevel { s with order_pool_ := ⟨Function.update s.order_pool_.storage oh (some ⟨id, p, q, sd, oh, oh⟩), s.order_pool_.freeArr, s.order_pool_.freeCount - 1⟩, order_map_ := Function.update s.order_map_ (id % MAX_ORDERS) (some oh) } lh0).first_order })) (derefOrder { s with order_pool_ := ⟨Function.update s.order_pool_.storage oh (some ⟨id, p, q, sd, oh, oh⟩), s.order_pool_.freeArr, s.order_pool_.freeCount - 1⟩, order_map_ := Function.update s.order_map_ (id % MAX_ORDERS) (some oh) } (derefLevel { s with order_pool_ := ⟨Function.update s.order_pool_.storage oh (some ⟨id, p, q, sd, oh, oh⟩), s.order_pool_.freeArr, s.order_pool_.freeCount - 1⟩, order_map_ := Function.update s.order_map_ (id % MAX_ORDERS) (some oh) } lh0).first_order).prev (fun o => { o with next := oh })) (derefLevel { s with order_pool_ := ⟨Function.update s.order_pool_.storage oh (some ⟨id, p, q, sd, oh, oh⟩), s.order_pool_.freeArr, s.order_pool_.freeCount - 1⟩, order_map_ := Function.update s.order_map_ (id % MAX_ORDERS) (some oh) } lh0).first_order (fun o => { o with prev := oh })) lh0 (fun x => { x with total_qty := u32add x.total_qty q, order_count := x.order_count + 1 })).asks_ = s.asks_ := rfl
  have hOM5 : (setLevel (setOrder (setOrder (setOrder { s with order_pool_ := ⟨Function.update s.order_pool_.storage oh (some ⟨id, p, q, sd, oh, oh⟩), s.order_pool_.freeArr, s.order_pool_.freeCount - 1⟩, order_map_ := Function.update s.order_map_ (id % MAX_ORDERS) (some oh) } oh (fun o => { o with prev := (derefOrder { s with order_pool_ := ⟨Function.update s.order_pool_.storage oh (some ⟨id, p, q, sd, oh, oh⟩), s.order_pool_.freeArr, s.order_pool_.freeCount - 1⟩, order_map_ := Function.update s.order_map_ (id % MAX_ORDERS) (some oh) } (derefLevel { s with order_pool_ := ⟨Function.update s.order_pool_.storage oh (some ⟨id, p, q, sd, oh, oh⟩), s.order_pool_.freeArr, s.order_pool_.freeCount - 1⟩, order_map_ := Function.update s.order_map_ (id % MAX_ORDERS) (some oh) } lh0).first_order).prev, next := (derefLevel { s with order_pool_ := ⟨Function.update s.order_pool_.storage oh (some ⟨id, p, q, sd, oh, oh⟩), s.order_pool_.freeArr, s.order_pool_.freeCount - 1⟩, order_map_ := Function.update s.order_map_ (id % MAX_ORDERS) (some oh) } lh0).first_order })) (derefOrder { s with order_pool_ := ⟨Function.update s.order_pool_.storage oh (some ⟨id, p, q, sd, oh, oh⟩), s.order_pool_.freeArr, s.order_pool_.freeCount - 1⟩, order_map_ := Function.update s.order_map_ (id % MAX_ORDERS) (some oh) } (derefLevel { s with order_pool_ := ⟨Function.update s.order_pool_.storage oh (some ⟨id, p, q, sd, oh, oh⟩), s.order_pool_.freeArr, s.order_pool_.freeCount - 1⟩, order_map_ := Function.update s.order_map_ (id % MAX_ORDERS) (some oh) } lh0).first_order).prev (fun o => { o with next := oh })) (derefLevel { s with order_pool_ := ⟨Function.update s.order_pool_.storage oh (some ⟨id, p, q, sd, oh, oh⟩), s.order_pool_.freeArr, s.order_pool_.freeCount - 1⟩, order_map_ := Function.update s.order_map_ (id % MAX_ORDERS) (some oh) } lh0).first_order (fun o => { o with prev := oh })) lh0 (fun x => { x with total_qty := u32add x.total_qty q, order_count := x.order_count + 1 })).order_map_ = Function.update s.order_map_ (id % MAX_ORDERS) (some oh) := rfl
  refine ⟨⟨G.bidsL, G.asksL, Function.update G.fifo lh0 (G.fifo lh0 ++ [oh])⟩, ?_, rfl, rfl, ?_⟩
  swap
  · intro k hk
    rw [hliveL5 k] at hk
    exact hLfields5 k
  have hGf : (⟨G.bidsL, G.asksL, Function.update G.fifo lh0 (G.fifo lh0 ++ [oh])⟩ :
      BookShape).fifo = Function.update G.fifo lh0 (G.fifo lh0 ++ [oh]) := rfl
  obtain ⟨wl, hwl⟩ := Option.isSome_iff_exists.mp hlh0
  refine ⟨⟨?_, ?_, hwf.levels.lvlNodup, ?_, ?_, ?_, ?_, ?_, ?_, ?_, ?_⟩,
    ?_, ?_, ?_, ?_, ?_, ?_, ?_, ?_, ?_, ?_, ?_⟩
  · refine isCycle_congr hwf.levels.bidsCyc ?_
    intro a b _ _ hr
    exact ⟨by rw [(hLrel a).1]; exact hr.1, by rw [(hLrel b).2]; exact hr.2⟩
  · refine isCycle_congr hwf.levels.asksCyc ?_
    intro a b _ _ hr
    exact ⟨by rw [(hLrel a).1]; exact hr.1, by rw [(hLrel b).2]; exact hr.2⟩
  · rw [hB5]
    exact hwf.levels.bidsHead
  · rw [hA5]
    exact hwf.levels.asksHead
  · intro k
    rw [hliveL5 k]
    exact hwf.levels.lvlLive k
  · intro k hk
    rw [(hLfields5 k).2]
    exact hwf.levels.bidsSide k hk
  · intro k hk
    rw [(hLfields5 k).2]
    exact hwf.levels.asksSide k hk
  · intro i k hik
    rw [hPM5] at hik
    obtain ⟨h1, h2⟩ := hwf.levels.mapToLvl i k hik
    rw [hliveL5 k, (hLfields5 k).1]
    exact ⟨h1, h2⟩
  · intro k hk
    rw [hliveL5 k] at hk
    rw [hPM5, (hLfields5 k).1]
    exact hwf.levels.lvlToMap k hk
  · show poolWF (⟨Function.update s.level_pool_.storage lh0 _, s.level_pool_.freeArr,
      s.level_pool_.freeCount⟩ : Pool PriceLevel) MAX_PRICE_LEVELS
    exact poolWF_overwrite hwf.levels.lpool hwl
  · intro lh hl
    rw [hliveL5 lh] at hl
    rw [hGf]
    by_cases hne : lh = lh0
    · subst hne
      rw [Function.update_same]
      exact hcycApp
    · rw [Function.update_noteq hne]
      refine isCycle_congr (hwf.fifoCyc lh hl) ?_
      intro a b ha hb hr
      obtain ⟨ha1, ha2, -⟩ := hfar lh hne hl a ha
      obtain ⟨hb1, -, hb3⟩ := hfar lh hne hl b hb
      exact ⟨by rw [hrnS5 a ha1 ha2]; exact hr.1, by rw [hrpS5 b hb1 hb3]; exact hr.2⟩
  · intro lh hl
    rw [hliveL5 lh] at hl
    rw [hGf]
    by_cases hne : lh = lh0
    · subst hne
      rw [Function.update_same]
      refine List.Nodup.append hndF (List.nodup_singleton oh) ?_
      intro a ha hb
      rw [List.mem_singleton] at hb
      exact hohnotlive lh hl (hb ▸ ha)
    · rw [Function.update_noteq hne]
      exact hwf.fifoNodup lh hl
  · intro lh hl
    rw [hliveL5 lh] at hl
    rw [hGf]
    by_cases hne : lh = lh0
    · subst hne
      rw [Function.update_same, hFO5]
      obtain ⟨rest, hdec⟩ : ∃ rest, G.fifo lh = (derefLevel s lh).first_order :: rest := by
        cases hFF : G.fifo lh with
        | nil =>
          rw [hFF] at hheadF
          cases hheadF
        | cons a as =>
          rw [hFF, List.head?_cons] at hheadF
          exact ⟨as, by rw [Option.some.inj hheadF]⟩
      rw [hdec, List.cons_append, List.head?_cons]
    · rw [Function.update_noteq hne, hderS5L_ne lh hne]
      exact hwf.fifoHead lh hl
  · intro lh hl
    rw [hliveL5 lh] at hl
    rw [hGf]
    by_cases hne : lh = lh0
    · subst hne
      rw [Function.update_same, hderS5L_same]
      show (derefLevel s lh).order_count + 1 = _
      rw [hwf.fifoCount lh hl, List.length_append]
      rfl
    · rw [Function.update_noteq hne, hderS5L_ne lh hne]
      exact hwf.fifoCount lh hl
  · intro lh hl m hm
    rw [hliveL5 lh] at hl
    rw [hGf] at hm
    by_cases hne : lh = lh0
    · subst hne
      rw [Function.update_same] at hm
      rw [hliveO5 m, hS1liveiff m]
      rcases List.mem_append.mp hm with hmo | hmo
      · exact Or.inl (hwf.fifoLive lh hl m hmo)
      · rw [List.mem_singleton] at hmo
        exact Or.inr hmo
    · rw [Function.update_noteq hne] at hm
      rw [hliveO5 m, hS1liveiff m]
      exact Or.inl (hwf.fifoLive lh hl m hm)
  · intro lh hl m hm
    rw [hliveL5 lh] at hl
    rw [hGf] at hm
    by_cases hne : lh = lh0
    · subst hne
      rw [Function.update_same] at hm
      rcases List.mem_append.mp hm with hmo | hmo
      · have hmoh : m ≠ oh := fun he => hohnotlive lh hl (he ▸ hmo)
        rw [(hfieldsS5 m hmoh).2, (hLfields5 lh).1]
        exact hwf.fifoPrice lh hl m hmo
      · rw [List.mem_singleton] at hmo
        rw [hmo, hohPx, (hLfields5 lh).1, hpx]
    · rw [Function.update_noteq hne] at hm
      obtain ⟨hm1, -, -⟩ := hfar lh hne hl m hm
      rw [(hfieldsS5 m hm1).2, (hLfields5 lh).1]
      exact hwf.fifoPrice lh hl m hm
  · intro lh1 lh2 h1 h2 m hm1 hm2
    rw [hliveL5 lh1] at h1
    rw [hliveL5 lh2] at h2
    rw [hGf] at hm1 hm2
    have hred : ∀ lh, m ∈ Function.update G.fifo lh0 (G.fifo lh0 ++ [oh]) lh →
        m ∈ G.fifo lh ∨ (m = oh ∧ lh = lh0) := by
      intro lh hmm
      by_cases hne : lh = lh0
      · rw [hne, Function.update_same] at hmm
        rcases List.mem_append.mp hmm with h | h
        · rw [hne]
          exact Or.inl h
        · rw [List.mem_singleton] at h
          exact Or.inr ⟨h, hne⟩
      · rw [Function.update_noteq hne] at hmm
        exact Or.inl hmm
    rcases hred lh1 hm1 with ha | ⟨haoh, hal⟩
    · rcases hred lh2 hm2 with hb | ⟨hboh, hbl⟩
      · exact hwf.fifoDisj lh1 lh2 h1 h2 m ha hb
      · exact absurd (hboh ▸ ha) (hohnotlive lh1 h1)
    · rcases hred lh2 hm2 with hb | ⟨hboh, hbl⟩
      · exact absurd (haoh ▸ hb) (hohnotlive lh2 h2)
      · rw [hal, hbl]
  · intro i k hik
    rw [hOM5] at hik
    by_cases hi : i = id % MAX_ORDERS
    · rw [hi, Function.update_same] at hik
      obtain rfl : k = oh := (Option.some.inj hik).symm
      constructor
      · rw [hliveO5 k, hS1liveiff k]
        exact Or.inr rfl
      · rw [hohId, hi]
    · rw [Function.update_noteq hi] at hik
      obtain ⟨hk1, hk2⟩ := hwf.mapToOrd i k hik
      have hkoh : k ≠ oh := by
        intro he
        rw [he, hohdead] at hk1
        cases hk1
      constructor
      · rw [hliveO5 k, hS1liveiff k]
        exact Or.inl hk1
      · rw [(hfieldsS5 k hkoh).1]
        exact hk2
  · intro k hk
    rw [hliveO5 k, hS1liveiff k] at hk
    by_cases hkoh : k = oh
    · rw [hkoh, hOM5, hohId, Function.update_same]
    · rcases hk with hk | hk
      · rw [hOM5, (hfieldsS5 k hkoh).1]
        have hne2 : (derefOrder s k).order_id % MAX_ORDERS ≠ id % MAX_ORDERS := by
          intro he
          have h2 := hwf.ordToMap k hk
          rw [he, hslot] at h2
          cases h2
        rw [Function.update_noteq hne2]
        exact hwf.ordToMap k hk
      · exact absurd hk hkoh
  · intro k hk
    rw [hliveO5 k, hS1liveiff k] at hk
    by_cases hkoh : k = oh
    · refine ⟨lh0, by rw [hliveL5 lh0]; exact hlh0, ?_⟩
      rw [hGf, Function.update_same]
      refine List.mem_append.mpr (Or.inr ?_)
      rw [hkoh]
      exact List.mem_singleton.mpr rfl
    · rcases hk with hk | hk
      · obtain ⟨lh, hl, hm⟩ := hwf.ordInFifo k hk
        refine ⟨lh, by rw [hliveL5 lh]; exact hl, ?_⟩
        rw [hGf]
        by_cases hne : lh = lh0
        · rw [hne, Function.update_same]
          refine List.mem_append.mpr (Or.inl ?_)
          rw [hne] at hm
          exact hm
        · rw [Function.update_noteq hne]
          exact hm
      · exact absurd hk hkoh
  · obtain ⟨w2, hw2⟩ := Option.isSome_iff_exists.mp hS2THsome
    obtain ⟨w3, hw3⟩ := Option.isSome_iff_exists.mp hS3FHsome
    exact poolWF_overwrite (poolWF_overwrite (poolWF_overwrite hopool hS1ohst) hw2) hw3

/-- One-step stop of the `updateQty` loop: the starting order already points
back to `first`. -/
theorem updateQtyLoop_stop {ost : Nat → Option Order} {first cur : Nat} {o : Order}
    (h : ost cur = some o) (hn : o.next = first) (fuel tq oc : Nat) :
    updateQtyLoop ost first (fuel + 1) cur tq oc = (u32add tq o.qty, oc + 1) := by
  simp [updateQtyLoop, h, hn]

/-- The bid-side insertion walk stays inside the bid cycle. -/
theorem levelWalkBids_mem {s : OrderBook} {L : List Nat} (hc : IsCycle (lvlRel s) L)
    (head : Nat) (pr : Int) :
    ∀ fuel cur, cur ∈ L → levelWalkBids s head pr fuel cur ∈ L := by
  intro fuel
  induction fuel with
  | zero =>
    intro cur hcur
    exact hcur
  | succ f ih =>
    intro cur hcur
    rw [levelWalkBids]
    by_cases h1 : (derefLevel s cur).next = head
    · rw [if_pos h1]
      exact hcur
    · rw [if_neg h1]
      by_cases h2 : pr < (derefLevel s (derefLevel s cur).next).price
      · rw [if_pos h2]
        obtain ⟨nx, hnx_mem, hnx⟩ := isCycle_next_mem hc hcur
        rw [hnx.1]
        exact ih nx hnx_mem
      · rw [if_neg h2]
        exact hcur

/-- The ask-side insertion walk stays inside the ask cycle. -/
theorem levelWalkAsks_mem {s : OrderBook} {L : List Nat} (hc : IsCycle (lvlRel s) L)
    (head : Nat) (pr : Int) :
    ∀ fuel cur, cur ∈ L → levelWalkAsks s head pr fuel cur ∈ L := by
  intro fuel
  induction fuel with
  | zero =>
    intro cur hcur
    exact hcur
  | succ f ih =>
    intro cur hcur
    rw [levelWalkAsks]
    by_cases h1 : (derefLevel s cur).next = head
    · rw [if_pos h1]
      exact hcur
    · rw [if_neg h1]
      by_cases h2 : (derefLevel s (derefLevel s cur).next).price < pr
      · rw [if_pos h2]
        obtain ⟨nx, hnx_mem, hnx⟩ := isCycle_next_mem hc hcur
        rw [hnx.1]
        exact ih nx hnx_mem
      · rw [if_neg h2]
        exact hcur

/-- New-level core of `addOrder`, BUY side with an empty buy list: the fresh
level becomes the sole element of the side cycle and the new order its
singleton FIFO. -/
theorem bookWF_add_core_newEmptyBuy {s : OrderBook} {G : BookShape} {id q : Nat}
    {p : Int} {oh lh : Nat}
    (hwf : BookWF s G)
    (hslot : s.order_map_ (id % MAX_ORDERS) = none)
    (hohdead : s.order_pool_.storage oh = none)
    (hOP1wf : poolWF (⟨Function.update s.order_pool_.storage oh (some ⟨id, p, q, Side.BUY, oh, oh⟩), s.order_pool_.freeArr, s.order_pool_.freeCount - 1⟩ : Pool Order) MAX_ORDERS)
    (hlhdead : s.level_pool_.storage lh = none)
    (hLP2wf : poolWF (⟨Function.update s.level_pool_.storage lh (some ⟨p, Side.BUY, u32add 0 q, 1, oh, lh, lh⟩), s.level_pool_.freeArr, s.level_pool_.freeCount - 1⟩ : Pool PriceLevel) MAX_PRICE_LEVELS)
    (hmapidx : s.price_level_map_ (priceToIndex p) = none)
    (hheads : s.bids_ = none) :
    ∃ G2 : BookShape, BookWF ({ setLevel { s with order_pool_ := ⟨Function.update s.order_pool_.storage oh (some ⟨id, p, q, Side.BUY, oh, oh⟩), s.order_pool_.freeArr, s.order_pool_.freeCount - 1⟩, level_pool_ := ⟨Function.update s.level_pool_.storage lh (some ⟨p, Side.BUY, u32add 0 q, 1, oh, lh, lh⟩), s.level_pool_.freeArr, s.level_pool_.freeCount - 1⟩, order_map_ := Function.update s.order_map_ (id % MAX_ORDERS) (some oh), price_level_map_ := Function.update s.price_level_map_ (priceToIndex p) (some lh) } lh (fun l => { l with prev := lh, next := lh }) with bids_ := some lh }) G2 := by
  have hGnil : G.bidsL = [] := by
    refine List.head?_eq_none_iff.mp ?_
    rw [← hwf.levels.bidsHead]
    exact hheads
  have hOst : ∀ k, k ≠ oh → ({ setLevel { s with order_pool_ := ⟨Function.update s.order_pool_.storage oh (some ⟨id, p, q, Side.BUY, oh, oh⟩), s.order_pool_.freeArr, s.order_pool_.freeCount - 1⟩, level_pool_ := ⟨Function.update s.level_pool_.storage lh (some ⟨p, Side.BUY, u32add 0 q, 1, oh, lh, lh⟩), s.level_pool_.freeArr, s.level_pool_.freeCount - 1⟩, order_map_ := Function.update s.order_map_ (id % MAX_ORDERS) (some oh), price_level_map_ := Function.update s.price_level_map_ (priceToIndex p) (some lh) } lh (fun l => { l with prev := lh, next := lh }) with bids_ := some lh }).order_pool_.storage k = s.order_pool_.storage k := by
    intro k hk
    show Function.update s.order_pool_.storage oh (some ⟨id, p, q, Side.BUY, oh, oh⟩) k = _
    rw [Function.update_noteq hk]
  have hderO : ∀ k, k ≠ oh → derefOrder ({ setLevel { s with order_pool_ := ⟨Function.update s.order_pool_.storage oh (some ⟨id, p, q, Side.BUY, oh, oh⟩), s.order_pool_.freeArr, s.order_pool_.freeCount - 1⟩, level_pool_ := ⟨Function.update s.level_pool_.storage lh (some ⟨p, Side.BUY, u32add 0 q, 1, oh, lh, lh⟩), s.level_pool_.freeArr, s.level_pool_.freeCount - 1⟩, order_map_ := Function.update s.order_map_ (id % MAX_ORDERS) (some oh), price_level_map_ := Function.update s.price_level_map_ (priceToIndex p) (some lh) } lh (fun l => { l with prev := lh, next := lh }) with bids_ := some lh }) k = derefOrder s k := by
    intro k hk
    show (({ setLevel { s with order_pool_ := ⟨Function.update s.order_pool_.storage oh (some ⟨id, p, q, Side.BUY, oh, oh⟩), s.order_pool_.freeArr, s.order_pool_.freeCount - 1⟩, level_pool_ := ⟨Function.update s.level_pool_.storage lh (some ⟨p, Side.BUY, u32add 0 q, 1, oh, lh, lh⟩), s.level_pool_.freeArr, s.level_pool_.freeCount - 1⟩, order_map_ := Function.update s.order_map_ (id % MAX_ORDERS) (some oh), price_level_map_ := Function.update s.price_level_map_ (priceToIndex p) (some lh) } lh (fun l => { l with prev := lh, next := lh }) with bids_ := some lh }).order_pool_.storage k).getD defaultOrder = _
    rw [hOst k hk]
    rfl
  have hOoh : ({ setLevel { s with order_pool_ := ⟨Function.update s.order_pool_.storage oh (some ⟨id, p, q, Side.BUY, oh, oh⟩), s.order_pool_.freeArr, s.order_pool_.freeCount - 1⟩, level_pool_ := ⟨Function.update s.level_pool_.storage lh (some ⟨p, Side.BUY, u32add 0 q, 1, oh, lh, lh⟩), s.level_pool_.freeArr, s.level_pool_.freeCount - 1⟩, order_map_ := Function.update s.order_map_ (id % MAX_ORDERS) (some oh), price_level_map_ := Function.update s.price_level_map_ (priceToIndex p) (some lh) } lh (fun l => { l with prev := lh, next := lh }) with bids_ := some lh }).order_pool_.storage oh = some ⟨id, p, q, Side.BUY, oh, oh⟩ := by
    show Function.update s.order_pool_.storage oh (some ⟨id, p, q, Side.BUY, oh, oh⟩) oh = _
    rw [Function.update_same]
  have hderOoh : derefOrder ({ setLevel { s with order_pool_ := ⟨Function.update s.order_pool_.storage oh (some ⟨id, p, q, Side.BUY, oh, oh⟩), s.order_pool_.freeArr, s.order_pool_.freeCount - 1⟩, level_pool_ := ⟨Function.update s.level_pool_.storage lh (some ⟨p, Side.BUY, u32add 0 q, 1, oh, lh, lh⟩), s.level_pool_.freeArr, s.level_pool_.freeCount - 1⟩, order_map_ := Function.update s.order_map_ (id % MAX_ORDERS) (some oh), price_level_map_ := Function.update s.price_level_map_ (priceToIndex p) (some lh) } lh (fun l => { l with prev := lh, next := lh }) with bids_ := some lh }) oh = ⟨id, p, q, Side.BUY, oh, oh⟩ := by
    show (({ setLevel { s with order_pool_ := ⟨Function.update s.order_pool_.storage oh (some ⟨id, p, q, Side.BUY, oh, oh⟩), s.order_pool_.freeArr, s.order_pool_.freeCount - 1⟩, level_pool_ := ⟨Function.update s.level_pool_.storage lh (some ⟨p, Side.BUY, u32add 0 q, 1, oh, lh, lh⟩), s.level_pool_.freeArr, s.level_pool_.freeCount - 1⟩, order_map_ := Function.update s.order_map_ (id % MAX_ORDERS) (some oh), price_level_map_ := Function.update s.price_level_map_ (priceToIndex p) (some lh) } lh (fun l => { l with prev := lh, next := lh }) with bids_ := some lh }).order_pool_.storage oh).getD defaultOrder = _
    rw [hOoh]
    rfl
  have hliveOF : ∀ k, (({ setLevel { s with order_pool_ := ⟨Function.update s.order_pool_.storage oh (some ⟨id, p, q, Side.BUY, oh, oh⟩), s.order_pool_.freeArr, s.order_pool_.freeCount - 1⟩, level_pool_ := ⟨Function.update s.level_pool_.storage lh (some ⟨p, Side.BUY, u32add 0 q, 1, oh, lh, lh⟩), s.level_pool_.freeArr, s.level_pool_.freeCount - 1⟩, order_map_ := Function.update s.order_map_ (id % MAX_ORDERS) (some oh), price_level_map_ := Function.update s.price_level_map_ (priceToIndex p) (some lh) } lh (fun l => { l with prev := lh, next := lh }) with bids_ := some lh }).order_pool_.storage k).isSome ↔
      ((s.order_pool_.storage k).isSome ∨ k = oh) := by
    intro k
    by_cases hk : k = oh
    · rw [hk, hOoh]
      simp
    · rw [hOst k hk]
      simp [hk]
  have hohnotlive : ∀ lh2, (s.level_pool_.storage lh2).isSome → oh ∉ G.fifo lh2 := by
    intro lh2 hl hmem
    have := hwf.fifoLive lh2 hl oh hmem
    rw [hohdead] at this
    cases this
  have hT0lh : derefLevel ({ s with order_pool_ := ⟨Function.update s.order_pool_.storage oh (some ⟨id, p, q, Side.BUY, oh, oh⟩), s.order_pool_.freeArr, s.order_pool_.freeCount - 1⟩, level_pool_ := ⟨Function.update s.level_pool_.storage lh (some ⟨p, Side.BUY, u32add 0 q, 1, oh, lh, lh⟩), s.level_pool_.freeArr, s.level_pool_.freeCount - 1⟩, order_map_ := Function.update s.order_map_ (id % MAX_ORDERS) (some oh), price_level_map_ := Function.update s.price_level_map_ (priceToIndex p) (some lh) }) lh = ⟨p, Side.BUY, u32add 0 q, 1, oh, lh, lh⟩ := by
    show (Function.update s.level_pool_.storage lh (some ⟨p, Side.BUY, u32add 0 q, 1, oh, lh, lh⟩) lh).getD defaultLevel = _
    rw [Function.update_same]
    rfl
  have hFlh : derefLevel ({ setLevel { s with order_pool_ := ⟨Function.update s.order_pool_.storage oh (some ⟨id, p, q, Side.BUY, oh, oh⟩), s.order_pool_.freeArr, s.order_pool_.freeCount - 1⟩, level_pool_ := ⟨Function.update s.level_pool_.storage lh (some ⟨p, Side.BUY, u32add 0 q, 1, oh, lh, lh⟩), s.level_pool_.freeArr, s.level_pool_.freeCount - 1⟩, order_map_ := Function.update s.order_map_ (id % MAX_ORDERS) (some oh), price_level_map_ := Function.update s.price_level_map_ (priceToIndex p) (some lh) } lh (fun l => { l with prev := lh, next := lh }) with bids_ := some lh }) lh = (⟨p, Side.BUY, u32add 0 q, 1, oh, lh, lh⟩ : PriceLevel) := by
    show (Function.update ({ s with order_pool_ := ⟨Function.update s.order_pool_.storage oh (some ⟨id, p, q, Side.BUY, oh, oh⟩), s.order_pool_.freeArr, s.order_pool_.freeCount - 1⟩, level_pool_ := ⟨Function.update s.level_pool_.storage lh (some ⟨p, Side.BUY, u32add 0 q, 1, oh, lh, lh⟩), s.level_pool_.freeArr, s.level_pool_.freeCount - 1⟩, order_map_ := Function.update s.order_map_ (id % MAX_ORDERS) (some oh), price_level_map_ := Function.update s.price_level_map_ (priceToIndex p) (some lh) }).level_pool_.storage lh _ lh).getD defaultLevel = _
    rw [Function.update_same, hT0lh]
    rfl
  have hLne : ∀ k, k ≠ lh → derefLevel ({ setLevel { s with order_pool_ := ⟨Function.update s.order_pool_.storage oh (some ⟨id, p, q, Side.BUY, oh, oh⟩), s.order_pool_.freeArr, s.order_pool_.freeCount - 1⟩, level_pool_ := ⟨Function.update s.level_pool_.storage lh (some ⟨p, Side.BUY, u32add 0 q, 1, oh, lh, lh⟩), s.level_pool_.freeArr, s.level_pool_.freeCount - 1⟩, order_map_ := Function.update s.order_map_ (id % MAX_ORDERS) (some oh), price_level_map_ := Function.update s.price_level_map_ (priceToIndex p) (some lh) } lh (fun l => { l with prev := lh, next := lh }) with bids_ := some lh }) k = derefLevel s k := by
    intro k hk
    show (Function.update ({ s with order_pool_ := ⟨Function.update s.order_pool_.storage oh (some ⟨id, p, q, Side.BUY, oh, oh⟩), s.order_pool_.freeArr, s.order_pool_.freeCount - 1⟩, level_pool_ := ⟨Function.update s.level_pool_.storage lh (some ⟨p, Side.BUY, u32add 0 q, 1, oh, lh, lh⟩), s.level_pool_.freeArr, s.level_pool_.freeCount - 1⟩, order_map_ := Function.update s.order_map_ (id % MAX_ORDERS) (some oh), price_level_map_ := Function.update s.price_level_map_ (priceToIndex p) (some lh) }).level_pool_.storage lh _ k).getD defaultLevel = _
    rw [Function.update_noteq hk]
    show (Function.update s.level_pool_.storage lh (some ⟨p, Side.BUY, u32add 0 q, 1, oh, lh, lh⟩) k).getD defaultLevel = _
    rw [Function.update_noteq hk]
    rfl
  have hS1Llive : ∀ k, (({ s with order_pool_ := ⟨Function.update s.order_pool_.storage oh (some ⟨id, p, q, Side.BUY, oh, oh⟩), s.order_pool_.freeArr, s.order_pool_.freeCount - 1⟩, level_pool_ := ⟨Function.update s.level_pool_.storage lh (some ⟨p, Side.BUY, u32add 0 q, 1, oh, lh, lh⟩), s.level_pool_.freeArr, s.level_pool_.freeCount - 1⟩, order_map_ := Function.update s.order_map_ (id % MAX_ORDERS) (some oh), price_level_map_ := Function.update s.price_level_map_ (priceToIndex p) (some lh) }).level_pool_.storage k).isSome ↔
      ((s.level_pool_.storage k).isSome ∨ k = lh) := by
    intro k
    by_cases hk : k = lh
    · show (Function.update s.level_pool_.storage lh (some ⟨p, Side.BUY, u32add 0 q, 1, oh, lh, lh⟩) k).isSome ↔ _
      rw [hk, Function.update_same]
      simp [hk]
    · show (Function.update s.level_pool_.storage lh (some ⟨p, Side.BUY, u32add 0 q, 1, oh, lh, lh⟩) k).isSome ↔ _
      rw [Function.update_noteq hk]
      simp [hk]
  have hliveLF : ∀ k, (({ setLevel { s with order_pool_ := ⟨Function.update s.order_pool_.storage oh (some ⟨id, p, q, Side.BUY, oh, oh⟩), s.order_pool_.freeArr, s.order_pool_.freeCount - 1⟩, level_pool_ := ⟨Function.update s.level_pool_.storage lh (some ⟨p, Side.BUY, u32add 0 q, 1, oh, lh, lh⟩), s.level_pool_.freeArr, s.level_pool_.freeCount - 1⟩, order_map_ := Function.update s.order_map_ (id % MAX_ORDERS) (some oh), price_level_map_ := Function.update s.price_level_map_ (priceToIndex p) (some lh) } lh (fun l => { l with prev := lh, next := lh }) with bids_ := some lh }).level_pool_.storage k).isSome =
      (({ s with order_pool_ := ⟨Function.update s.order_pool_.storage oh (some ⟨id, p, q, Side.BUY, oh, oh⟩), s.order_pool_.freeArr, s.order_pool_.freeCount - 1⟩, level_pool_ := ⟨Function.update s.level_pool_.storage lh (some ⟨p, Side.BUY, u32add 0 q, 1, oh, lh, lh⟩), s.level_pool_.freeArr, s.level_pool_.freeCount - 1⟩, order_map_ := Function.update s.order_map_ (id % MAX_ORDERS) (some oh), price_level_map_ := Function.update s.price_level_map_ (priceToIndex p) (some lh) }).level_pool_.storage k).isSome := by
    intro k
    show ((setLevel ({ s with order_pool_ := ⟨Function.update s.order_pool_.storage oh (some ⟨id, p, q, Side.BUY, oh, oh⟩), s.order_pool_.freeArr, s.order_pool_.freeCount - 1⟩, level_pool_ := ⟨Function.update s.level_pool_.storage lh (some ⟨p, Side.BUY, u32add 0 q, 1, oh, lh, lh⟩), s.level_pool_.freeArr, s.level_pool_.freeCount - 1⟩, order_map_ := Function.update s.order_map_ (id % MAX_ORDERS) (some oh), price_level_map_ := Function.update s.price_level_map_ (priceToIndex p) (some lh) }) lh (fun l => { l with prev := lh, next := lh })).level_pool_.storage k).isSome = _
    refine setLevel_storage_isSome ({ s with order_pool_ := ⟨Function.update s.order_pool_.storage oh (some ⟨id, p, q, Side.BUY, oh, oh⟩), s.order_pool_.freeArr, s.order_pool_.freeCount - 1⟩, level_pool_ := ⟨Function.update s.level_pool_.storage lh (some ⟨p, Side.BUY, u32add 0 q, 1, oh, lh, lh⟩), s.level_pool_.freeArr, s.level_pool_.freeCount - 1⟩, order_map_ := Function.update s.order_map_ (id % MAX_ORDERS) (some oh), price_level_map_ := Function.update s.price_level_map_ (priceToIndex p) (some lh) }) lh _ ?_ k
    show (Function.update s.level_pool_.storage lh (some ⟨p, Side.BUY, u32add 0 q, 1, oh, lh, lh⟩) lh).isSome
    rw [Function.update_same]
    rfl
  have hnotlh : ∀ k, (s.level_pool_.storage k).isSome → k ≠ lh := by
    intro k hk he
    rw [he, hlhdead] at hk
    cases hk
  have hmemo : ∀ k, k ∈ G.asksL → (s.level_pool_.storage k).isSome := by
    intro k hk
    refine (hwf.levels.lvlLive k).mpr ?_
    exact List.mem_append.mpr (Or.inr hk)
  refine ⟨⟨[lh], G.asksL, Function.update G.fifo lh [oh]⟩,
    ⟨?_, ?_, ?_, ?_, ?_, ?_, ?_, ?_, ?_, ?_, ?_⟩, ?_, ?_, ?_, ?_, ?_, ?_, ?_, ?_, ?_, ?_, ?_⟩
  · -- the new singleton bid cycle
    refine isCycle_singleton ?_
    refine ⟨?_, ?_⟩
    · rw [hFlh]
    · rw [hFlh]
  · -- the untouched ask cycle
    refine isCycle_congr hwf.levels.asksCyc ?_
    intro a b ha hb hr
    have hane : a ≠ lh := hnotlh a (hmemo a ha)
    have hbne : b ≠ lh := hnotlh b (hmemo b hb)
    exact ⟨by rw [(hLne a hane)]; exact hr.1, by rw [(hLne b hbne)]; exact hr.2⟩
  · -- [lh] ++ asks is duplicate-free
    have hole : ([] ++ G.asksL).Nodup := by
      rw [← hGnil]
      exact hwf.levels.lvlNodup
    rw [List.nil_append] at hole
    refine List.nodup_cons.mpr ⟨?_, hole⟩
    intro hmem
    exact hnotlh lh (hmemo lh hmem) rfl
  · -- new bid head
    rfl
  · -- ask head unchanged
    show s.asks_ = _
    exact hwf.levels.asksHead
  · -- live levels are the new side lists
    intro k
    show (({ setLevel { s with order_pool_ := ⟨Function.update s.order_pool_.storage oh (some ⟨id, p, q, Side.BUY, oh, oh⟩), s.order_pool_.freeArr, s.order_pool_.freeCount - 1⟩, level_pool_ := ⟨Function.update s.level_pool_.storage lh (some ⟨p, Side.BUY, u32add 0 q, 1, oh, lh, lh⟩), s.level_pool_.freeArr, s.level_pool_.freeCount - 1⟩, order_map_ := Function.update s.order_map_ (id % MAX_ORDERS) (some oh), price_level_map_ := Function.update s.price_level_map_ (priceToIndex p) (some lh) } lh (fun l => { l with prev := lh, next := lh }) with bids_ := some lh }).level_pool_.storage k).isSome ↔ k ∈ [lh] ++ G.asksL
    rw [hliveLF k, hS1Llive k]
    by_cases hk : k = lh
    · simp [hk]
    · rw [hwf.levels.lvlLive k, hGnil]
      simp [hk]
  · -- the new level is on the BUY side
    intro k hk
    rw [List.mem_singleton] at hk
    rw [hk, hFlh]
  · -- ask-side markers unchanged
    intro k hk
    rw [hLne k (hnotlh k (hmemo k hk))]
    exact hwf.levels.asksSide k hk
  · -- price map entries point at live levels with the right hash
    intro i k hik
    have hik2 : Function.update s.price_level_map_ (priceToIndex p) (some lh) i = some k := hik
    by_cases hi : i = priceToIndex p
    · rw [hi, Function.update_same] at hik2
      obtain rfl : k = lh := (Option.some.inj hik2).symm
      constructor
      · rw [hliveLF k, hS1Llive k]
        simp
      · rw [hFlh, hi]
    · rw [Function.update_noteq hi] at hik2
      obtain ⟨h1, h2⟩ := hwf.levels.mapToLvl i k hik2
      constructor
      · rw [hliveLF k, hS1Llive k]
        exact Or.inl h1
      · rw [hLne k (hnotlh k h1)]
        exact h2
  · -- live levels are found through the price map
    intro k hk
    rw [hliveLF k, hS1Llive k] at hk
    show Function.update s.price_level_map_ (priceToIndex p) (some lh)
      (priceToIndex (derefLevel ({ setLevel { s with order_pool_ := ⟨Function.update s.order_pool_.storage oh (some ⟨id, p, q, Side.BUY, oh, oh⟩), s.order_pool_.freeArr, s.order_pool_.freeCount - 1⟩, level_pool_ := ⟨Function.update s.level_pool_.storage lh (some ⟨p, Side.BUY, u32add 0 q, 1, oh, lh, lh⟩), s.level_pool_.freeArr, s.level_pool_.freeCount - 1⟩, order_map_ := Function.update s.order_map_ (id % MAX_ORDERS) (some oh), price_level_map_ := Function.update s.price_level_map_ (priceToIndex p) (some lh) } lh (fun l => { l with prev := lh, next := lh }) with bids_ := some lh }) k).price) = some k
    by_cases hk0 : k = lh
    · rw [hk0, hFlh]
      show Function.update s.price_level_map_ (priceToIndex p) (some lh) (priceToIndex p) = _
      rw [Function.update_same]
    · rcases hk with hk | hk
      · rw [hLne k hk0]
        have hne2 : priceToIndex (derefLevel s k).price ≠ priceToIndex p := by
          intro he
          have h2 := hwf.levels.lvlToMap k hk
          rw [he, hmapidx] at h2
          cases h2
        rw [Function.update_noteq hne2]
        exact hwf.levels.lvlToMap k hk
      · exact absurd hk hk0
  · -- level pool well-formed
    refine poolWF_overwrite hLP2wf (?_ : (⟨Function.update s.level_pool_.storage lh (some ⟨p, Side.BUY, u32add 0 q, 1, oh, lh, lh⟩), s.level_pool_.freeArr, s.level_pool_.freeCount - 1⟩ : Pool PriceLevel).storage lh = some ⟨p, Side.BUY, u32add 0 q, 1, oh, lh, lh⟩)
    show Function.update s.level_pool_.storage lh (some ⟨p, Side.BUY, u32add 0 q, 1, oh, lh, lh⟩) lh = _
    rw [Function.update_same]
  · -- FIFO cycles
    intro lh2 hl
    rw [hliveLF lh2, hS1Llive lh2] at hl
    show IsCycle _ (Function.update G.fifo lh [oh] lh2)
    by_cases hne : lh2 = lh
    · rw [hne, Function.update_same]
      refine isCycle_singleton ?_
      refine ⟨?_, ?_⟩
      · rw [hderOoh]
      · rw [hderOoh]
    · rcases hl with hl | hl
      · rw [Function.update_noteq hne]
        refine isCycle_congr (hwf.fifoCyc lh2 hl) ?_
        intro a b ha hb hr
        have han : a ≠ oh := fun he => hohnotlive lh2 hl (he ▸ ha)
        have hbn : b ≠ oh := fun he => hohnotlive lh2 hl (he ▸ hb)
        exact ⟨by rw [hderO a han]; exact hr.1, by rw [hderO b hbn]; exact hr.2⟩
      · exact absurd hl hne
  · -- FIFO lists are duplicate-free
    intro lh2 hl
    rw [hliveLF lh2, hS1Llive lh2] at hl
    show (Function.update G.fifo lh [oh] lh2).Nodup
    by_cases hne : lh2 = lh
    · rw [hne, Function.update_same]
      exact List.nodup_singleton oh
    · rcases hl with hl | hl
      · rw [Function.update_noteq hne]
        exact hwf.fifoNodup lh2 hl
      · exact absurd hl hne
  · -- FIFO heads
    intro lh2 hl
    rw [hliveLF lh2, hS1Llive lh2] at hl
    show (Function.update G.fifo lh [oh] lh2).head? = _
    by_cases hne : lh2 = lh
    · rw [hne, Function.update_same, hFlh]
      rfl
    · rcases hl with hl | hl
      · rw [Function.update_noteq hne, hLne lh2 hne]
        exact hwf.fifoHead lh2 hl
      · exact absurd hl hne
  · -- FIFO counts
    intro lh2 hl
    rw [hliveLF lh2, hS1Llive lh2] at hl
    show (derefLevel ({ setLevel { s with order_pool_ := ⟨Function.update s.order_pool_.storage oh (some ⟨id, p, q, Side.BUY, oh, oh⟩), s.order_pool_.freeArr, s.order_pool_.freeCount - 1⟩, level_pool_ := ⟨Function.update s.level_pool_.storage lh (some ⟨p, Side.BUY, u32add 0 q, 1, oh, lh, lh⟩), s.level_pool_.freeArr, s.level_pool_.freeCount - 1⟩, order_map_ := Function.update s.order_map_ (id % MAX_ORDERS) (some oh), price_level_map_ := Function.update s.price_level_map_ (priceToIndex p) (some lh) } lh (fun l => { l with prev := lh, next := lh }) with bids_ := some lh }) lh2).order_count = (Function.update G.fifo lh [oh] lh2).length
    by_cases hne : lh2 = lh
    · rw [hne, Function.update_same, hFlh]
      rfl
    · rcases hl with hl | hl
      · rw [Function.update_noteq hne, hLne lh2 hne]
        exact hwf.fifoCount lh2 hl
      · exact absurd hl hne
  · -- FIFO members are live orders
    intro lh2 hl m hm
    rw [hliveLF lh2, hS1Llive lh2] at hl
    have hm2 : m ∈ Function.update G.fifo lh [oh] lh2 := hm
    rw [hliveOF m]
    by_cases hne : lh2 = lh
    · rw [hne, Function.update_same, List.mem_singleton] at hm2
      exact Or.inr hm2
    · rcases hl with hl | hl
      · rw [Function.update_noteq hne] at hm2
        exact Or.inl (hwf.fifoLive lh2 hl m hm2)
      · exact absurd hl hne
  · -- FIFO members carry the level price
    intro lh2 hl m hm
    rw [hliveLF lh2, hS1Llive lh2] at hl
    have hm2 : m ∈ Function.update G.fifo lh [oh] lh2 := hm
    by_cases hne : lh2 = lh
    · rw [hne, Function.update_same, List.mem_singleton] at hm2
      rw [hne, hm2, hderOoh, hFlh]
    · rcases hl with hl | hl
      · rw [Function.update_noteq hne] at hm2
        have hmn : m ≠ oh := fun he => hohnotlive lh2 hl (he ▸ hm2)
        rw [hderO m hmn, hLne lh2 hne]
        exact hwf.fifoPrice lh2 hl m hm2
      · exact absurd hl hne
  · -- FIFOs are disjoint
    intro lh1 lh2 h1 h2 m hm1 hm2
    rw [hliveLF lh1, hS1Llive lh1] at h1
    rw [hliveLF lh2, hS1Llive lh2] at h2
    have hm1b : m ∈ Function.update G.fifo lh [oh] lh1 := hm1
    have hm2b : m ∈ Function.update G.fifo lh [oh] lh2 := hm2
    have hred : ∀ lh3, m ∈ Function.update G.fifo lh [oh] lh3 →
        (m ∈ G.fifo lh3 ∧ lh3 ≠ lh) ∨ (m = oh ∧ lh3 = lh) := by
      intro lh3 hmm
      by_cases hne : lh3 = lh
      · rw [hne, Function.update_same, List.mem_singleton] at hmm
        exact Or.inr ⟨hmm, hne⟩
      · rw [Function.update_noteq hne] at hmm
        exact Or.inl ⟨hmm, hne⟩
    have hlv : ∀ lh3, ((s.level_pool_.storage lh3).isSome ∨ lh3 = lh) → lh3 ≠ lh →
        (s.level_pool_.storage lh3).isSome := by
      intro lh3 hh hne
      rcases hh with hh | hh
      · exact hh
      · exact absurd hh hne
    rcases hred lh1 hm1b with ⟨ha, hane⟩ | ⟨haoh, hal⟩
    · rcases hred lh2 hm2b with ⟨hb, hbne⟩ | ⟨hboh, hbl⟩
      · exact hwf.fifoDisj lh1 lh2 (hlv lh1 h1 hane) (hlv lh2 h2 hbne) m ha hb
      · exact absurd (hboh ▸ ha) (hohnotlive lh1 (hlv lh1 h1 hane))
    · rcases hred lh2 hm2b with ⟨hb, hbne⟩ | ⟨hboh, hbl⟩
      · exact absurd (haoh ▸ hb) (hohnotlive lh2 (hlv lh2 h2 hbne))
      · rw [hal, hbl]
  · -- order map entries point at live orders with the right slot
    intro i k hik
    have hik2 : Function.update s.order_map_ (id % MAX_ORDERS) (some oh) i = some k := hik
    by_cases hi : i = id % MAX_ORDERS
    · rw [hi, Function.update_same] at hik2
      obtain rfl : k = oh := (Option.some.inj hik2).symm
      constructor
      · rw [hliveOF k]
        exact Or.inr rfl
      · rw [hderOoh, hi]
    · rw [Function.update_noteq hi] at hik2
      obtain ⟨hk1, hk2⟩ := hwf.mapToOrd i k hik2
      have hkoh : k ≠ oh := by
        intro he
        rw [he, hohdead] at hk1
        cases hk1
      constructor
      · rw [hliveOF k]
        exact Or.inl hk1
      · rw [hderO k hkoh]
        exact hk2
  · -- live orders are found through the order map
    intro k hk
    rw [hliveOF k] at hk
    by_cases hkoh : k = oh
    · rw [hkoh]
      show Function.update s.order_map_ (id % MAX_ORDERS) (some oh)
        ((derefOrder ({ setLevel { s with order_pool_ := ⟨Function.update s.order_pool_.storage oh (some ⟨id, p, q, Side.BUY, oh, oh⟩), s.order_pool_.freeArr, s.order_pool_.freeCount - 1⟩, level_pool_ := ⟨Function.update s.level_pool_.storage lh (some ⟨p, Side.BUY, u32add 0 q, 1, oh, lh, lh⟩), s.level_pool_.freeArr, s.level_pool_.freeCount - 1⟩, order_map_ := Function.update s.order_map_ (id % MAX_ORDERS) (some oh), price_level_map_ := Function.update s.price_level_map_ (priceToIndex p) (some lh) } lh (fun l => { l with prev := lh, next := lh }) with bids_ := some lh }) oh).order_id % MAX_ORDERS) = some oh
      rw [hderOoh, Function.update_same]
    · rcases hk with hk | hk
      · show Function.update s.order_map_ (id % MAX_ORDERS) (some oh)
          ((derefOrder ({ setLevel { s with order_pool_ := ⟨Function.update s.order_pool_.storage oh (some ⟨id, p, q, Side.BUY, oh, oh⟩), s.order_pool_.freeArr, s.order_pool_.freeCount - 1⟩, level_pool_ := ⟨Function.update s.level_pool_.storage lh (some ⟨p, Side.BUY, u32add 0 q, 1, oh, lh, lh⟩), s.level_pool_.freeArr, s.level_pool_.freeCount - 1⟩, order_map_ := Function.update s.order_map_ (id % MAX_ORDERS) (some oh), price_level_map_ := Function.update s.price_level_map_ (priceToIndex p) (some lh) } lh (fun l => { l with prev := lh, next := lh }) with bids_ := some lh }) k).order_id % MAX_ORDERS) = some k
        rw [hderO k hkoh]
        have hne2 : (derefOrder s k).order_id % MAX_ORDERS ≠ id % MAX_ORDERS := by
          intro he
          have h2 := hwf.ordToMap k hk
          rw [he, hslot] at h2
          cases h2
        rw [Function.update_noteq hne2]
        exact hwf.ordToMap k hk
      · exact absurd hk hkoh
  · -- every live order sits in some FIFO
    intro k hk
    rw [hliveOF k] at hk
    by_cases hkoh : k = oh
    · refine ⟨lh, ?_, ?_⟩
      · rw [hliveLF lh, hS1Llive lh]
        exact Or.inr rfl
      · show k ∈ Function.update G.fifo lh [oh] lh
        rw [Function.update_same, hkoh]
        exact List.mem_singleton.mpr rfl
    · rcases hk with hk | hk
      · obtain ⟨lh2, hl, hm⟩ := hwf.ordInFifo k hk
        refine ⟨lh2, ?_, ?_⟩
        · rw [hliveLF lh2, hS1Llive lh2]
          exact Or.inl hl
        · show k ∈ Function.update G.fifo lh [oh] lh2
          rw [Function.update_noteq (hnotlh lh2 hl)]
          exact hm
      · exact absurd hk hkoh
  · -- order pool well-formed
    exact hOP1wf

/-- New-level core of `addOrder`, SELL side with an empty sell list: the fresh
level becomes the sole element of the side cycle and the new order its
singleton FIFO. -/
theorem bookWF_add_core_newEmptySell {s : OrderBook} {G : BookShape} {id q : Nat}
    {p : Int} {oh lh : Nat}
    (hwf : BookWF s G)
    (hslot : s.order_map_ (id % MAX_ORDERS) = none)
    (hohdead : s.order_pool_.storage oh = none)
    (hOP1wf : poolWF (⟨Function.update s.order_pool_.storage oh (some ⟨id, p, q, Side.SELL, oh, oh⟩), s.order_pool_.freeArr, s.order_pool_.freeCount - 1⟩ : Pool Order) MAX_ORDERS)
    (hlhdead : s.level_pool_.storage lh = none)
    (hLP2wf : poolWF (⟨Function.update s.level_pool_.storage lh (some ⟨p, Side.SELL, u32add 0 q, 1, oh, lh, lh⟩), s.level_pool_.freeArr, s.level_pool_.freeCount - 1⟩ : Pool PriceLevel) MAX_PRICE_LEVELS)
    (hmapidx : s.price_level_map_ (priceToIndex p) = none)
    (hheads : s.asks_ = none) :
    ∃ G2 : BookShape, BookWF ({ setLevel { s with order_pool_ := ⟨Function.update s.order_pool_.storage oh (some ⟨id, p, q, Side.SELL, oh, oh⟩), s.order_pool_.freeArr, s.order_pool_.freeCount - 1⟩, level_pool_ := ⟨Function.update s.level_pool_.storage lh (some ⟨p, Side.SELL, u32add 0 q, 1, oh, lh, lh⟩), s.level_pool_.freeArr, s.level_pool_.freeCount - 1⟩, order_map_ := Function.update s.order_map_ (id % MAX_ORDERS) (some oh), price_level_map_ := Function.update s.price_level_map_ (priceToIndex p) (some lh) } lh (fun l => { l with prev := lh, next := lh }) with asks_ := some lh }) G2 := by
  have hGnil : G.asksL = [] := by
    refine List.head?_eq_none_iff.mp ?_
    rw [← hwf.levels.asksHead]
    exact hheads
  have hOst : ∀ k, k ≠ oh → ({ setLevel { s with order_pool_ := ⟨Function.update s.order_pool_.storage oh (some ⟨id, p, q, Side.SELL, oh, oh⟩), s.order_pool_.freeArr, s.order_pool_.freeCount - 1⟩, level_pool_ := ⟨Function.update s.level_pool_.storage lh (some ⟨p, Side.SELL, u32add 0 q, 1, oh, lh, lh⟩), s.level_pool_.freeArr, s.level_pool_.freeCount - 1⟩, order_map_ := Function.update s.order_map_ (id % MAX_ORDERS) (some oh), price_level_map_ := Function.update s.price_level_map_ (priceToIndex p) (some lh) } lh (fun l => { l with prev := lh, next := lh }) with asks_ := some lh }).order_pool_.storage k = s.order_pool_.storage k := by
    intro k hk
    show Function.update s.order_pool_.storage oh (some ⟨id, p, q, Side.SELL, oh, oh⟩) k = _
    rw [Function.update_noteq hk]
  have hderO : ∀ k, k ≠ oh → derefOrder ({ setLevel { s with order_pool_ := ⟨Function.update s.order_pool_.storage oh (some ⟨id, p, q, Side.SELL, oh, oh⟩), s.order_pool_.freeArr, s.order_pool_.freeCount - 1⟩, level_pool_ := ⟨Function.update s.level_pool_.storage lh (some ⟨p, Side.SELL, u32add 0 q, 1, oh, lh, lh⟩), s.level_pool_.freeArr, s.level_pool_.freeCount - 1⟩, order_map_ := Function.update s.order_map_ (id % MAX_ORDERS) (some oh), price_level_map_ := Function.update s.price_level_map_ (priceToIndex p) (some lh) } lh (fun l => { l with prev := lh, next := lh }) with asks_ := some lh }) k = derefOrder s k := by
    intro k hk
    show (({ setLevel { s with order_pool_ := ⟨Function.update s.order_pool_.storage oh (some ⟨id, p, q, Side.SELL, oh, oh⟩), s.order_pool_.freeArr, s.order_pool_.freeCount - 1⟩, level_pool_ := ⟨Function.update s.level_pool_.storage lh (some ⟨p, Side.SELL, u32add 0 q, 1, oh, lh, lh⟩), s.level_pool_.freeArr, s.level_pool_.freeCount - 1⟩, order_map_ := Function.update s.order_map_ (id % MAX_ORDERS) (some oh), price_level_map_ := Function.update s.price_level_map_ (priceToIndex p) (some lh) } lh (fun l => { l with prev := lh, next := lh }) with asks_ := some lh }).order_pool_.storage k).getD defaultOrder = _
    rw [hOst k hk]
    rfl
  have hOoh : ({ setLevel { s with order_pool_ := ⟨Function.update s.order_pool_.storage oh (some ⟨id, p, q, Side.SELL, oh, oh⟩), s.order_pool_.freeArr, s.order_pool_.freeCount - 1⟩, level_pool_ := ⟨Function.update s.level_pool_.storage lh (some ⟨p, Side.SELL, u32add 0 q, 1, oh, lh, lh⟩), s.level_pool_.freeArr, s.level_pool_.freeCount - 1⟩, order_map_ := Function.update s.order_map_ (id % MAX_ORDERS) (some oh), price_level_map_ := Function.update s.price_level_map_ (priceToIndex p) (some lh) } lh (fun l => { l with prev := lh, next := lh }) with asks_ := some lh }).order_pool_.storage oh = some ⟨id, p, q, Side.SELL, oh, oh⟩ := by
    show Function.update s.order_pool_.storage oh (some ⟨id, p, q, Side.SELL, oh, oh⟩) oh = _
    rw [Function.update_same]
  have hderOoh : derefOrder ({ setLevel { s with order_pool_ := ⟨Function.update s.order_pool_.storage oh (some ⟨id, p, q, Side.SELL, oh, oh⟩), s.order_pool_.freeArr, s.order_pool_.freeCount - 1⟩, level_pool_ := ⟨Function.update s.level_pool_.storage lh (some ⟨p, Side.SELL, u32add 0 q, 1, oh, lh, lh⟩), s.level_pool_.freeArr, s.level_pool_.freeCount - 1⟩, order_map_ := Function.update s.order_map_ (id % MAX_ORDERS) (some oh), price_level_map_ := Function.update s.price_level_map_ (priceToIndex p) (some lh) } lh (fun l => { l with prev := lh, next := lh }) with asks_ := some lh }) oh = ⟨id, p, q, Side.SELL, oh, oh⟩ := by
    show (({ setLevel { s with order_pool_ := ⟨Function.update s.order_pool_.storage oh (some ⟨id, p, q, Side.SELL, oh, oh⟩), s.order_pool_.freeArr, s.order_pool_.freeCount - 1⟩, level_pool_ := ⟨Function.update s.level_pool_.storage lh (some ⟨p, Side.SELL, u32add 0 q, 1, oh, lh, lh⟩), s.level_pool_.freeArr, s.level_pool_.freeCount - 1⟩, order_map_ := Function.update s.order_map_ (id % MAX_ORDERS) (some oh), price_level_map_ := Function.update s.price_level_map_ (priceToIndex p) (some lh) } lh (fun l => { l with prev := lh, next := lh }) with asks_ := some lh }).order_pool_.storage oh).getD defaultOrder = _
    rw [hOoh]
    rfl
  have hliveOF : ∀ k, (({ setLevel { s with order_pool_ := ⟨Function.update s.order_pool_.storage oh (some ⟨id, p, q, Side.SELL, oh, oh⟩), s.order_pool_.freeArr, s.order_pool_.freeCount - 1⟩, level_pool_ := ⟨Function.update s.level_pool_.storage lh (some ⟨p, Side.SELL, u32add 0 q, 1, oh, lh, lh⟩), s.level_pool_.freeArr, s.level_pool_.freeCount - 1⟩, order_map_ := Function.update s.order_map_ (id % MAX_ORDERS) (some oh), price_level_map_ := Function.update s.price_level_map_ (priceToIndex p) (some lh) } lh (fun l => { l with prev := lh, next := lh }) with asks_ := some lh }).order_pool_.storage k).isSome ↔
      ((s.order_pool_.storage k).isSome ∨ k = oh) := by
    intro k
    by_cases hk : k = oh
    · rw [hk, hOoh]
      simp
    · rw [hOst k hk]
      simp [hk]
  have hohnotlive : ∀ lh2, (s.level_pool_.storage lh2).isSome → oh ∉ G.fifo lh2 := by
    intro lh2 hl hmem
    have := hwf.fifoLive lh2 hl oh hmem
    rw [hohdead] at this
    cases this
  have hT0lh : derefLevel ({ s with order_pool_ := ⟨Function.update s.order_pool_.storage oh (some ⟨id, p, q, Side.SELL, oh, oh⟩), s.order_pool_.freeArr, s.order_pool_.freeCount - 1⟩, level_pool_ := ⟨Function.update s.level_pool_.storage lh (some ⟨p, Side.SELL, u32add 0 q, 1, oh, lh, lh⟩), s.level_pool_.freeArr, s.level_pool_.freeCount - 1⟩, order_map_ := Function.update s.order_map_ (id % MAX_ORDERS) (some oh), price_level_map_ := Function.update s.price_level_map_ (priceToIndex p) (some lh) }) lh = ⟨p, Side.SELL, u32add 0 q, 1, oh, lh, lh⟩ := by
    show (Function.update s.level_pool_.storage lh (some ⟨p, Side.SELL, u32add 0 q, 1, oh, lh, lh⟩) lh).getD defaultLevel = _
    rw [Function.update_same]
    rfl
  have hFlh : derefLevel ({ setLevel { s with order_pool_ := ⟨Function.update s.order_pool_.storage oh (some ⟨id, p, q, Side.SELL, oh, oh⟩), s.order_pool_.freeArr, s.order_pool_.freeCount - 1⟩, level_pool_ := ⟨Function.update s.level_pool_.storage lh (some ⟨p, Side.SELL, u32add 0 q, 1, oh, lh, lh⟩), s.level_pool_.freeArr, s.level_pool_.freeCount - 1⟩, order_map_ := Function.update s.order_map_ (id % MAX_ORDERS) (some oh), price_level_map_ := Function.update s.price_level_map_ (priceToIndex p) (some lh) } lh (fun l => { l with prev := lh, next := lh }) with asks_ := some lh }) lh = (⟨p, Side.SELL, u32add 0 q, 1, oh, lh, lh⟩ : PriceLevel) := by
    show (Function.update ({ s with order_pool_ := ⟨Function.update s.order_pool_.storage oh (some ⟨id, p, q, Side.SELL, oh, oh⟩), s.order_pool_.freeArr, s.order_pool_.freeCount - 1⟩, level_pool_ := ⟨Function.update s.level_pool_.storage lh (some ⟨p, Side.SELL, u32add 0 q, 1, oh, lh, lh⟩), s.level_pool_.freeArr, s.level_pool_.freeCount - 1⟩, order_map_ := Function.update s.order_map_ (id % MAX_ORDERS) (some oh), price_level_map_ := Function.update s.price_level_map_ (priceToIndex p) (some lh) }).level_pool_.storage lh _ lh).getD defaultLevel = _
    rw [Function.update_same, hT0lh]
    rfl
  have hLne : ∀ k, k ≠ lh → derefLevel ({ setLevel { s with order_pool_ := ⟨Function.update s.order_pool_.storage oh (some ⟨id, p, q, Side.SELL, oh, oh⟩), s.order_pool_.freeArr, s.order_pool_.freeCount - 1⟩, level_pool_ := ⟨Function.update s.level_pool_.storage lh (some ⟨p, Side.SELL, u32add 0 q, 1, oh, lh, lh⟩), s.level_pool_.freeArr, s.level_pool_.freeCount - 1⟩, order_map_ := Function.update s.order_map_ (id % MAX_ORDERS) (some oh), price_level_map_ := Function.update s.price_level_map_ (priceToIndex p) (some lh) } lh (fun l => { l with prev := lh, next := lh }) with asks_ := some lh }) k = derefLevel s k := by
    intro k hk
    show (Function.update ({ s with order_pool_ := ⟨Function.update s.order_pool_.storage oh (some ⟨id, p, q, Side.SELL, oh, oh⟩), s.order_pool_.freeArr, s.order_pool_.freeCount - 1⟩, level_pool_ := ⟨Function.update s.level_pool_.storage lh (some ⟨p, Side.SELL, u32add 0 q, 1, oh, lh, lh⟩), s.level_pool_.freeArr, s.level_pool_.freeCount - 1⟩, order_map_ := Function.update s.order_map_ (id % MAX_ORDERS) (some oh), price_level_map_ := Function.update s.price_level_map_ (priceToIndex p) (some lh) }).level_pool_.storage lh _ k).getD defaultLevel = _
    rw [Function.update_noteq hk]
    show (Function.update s.level_pool_.storage lh (some ⟨p, Side.SELL, u32add 0 q, 1, oh, lh, lh⟩) k).getD defaultLevel = _
    rw [Function.update_noteq hk]
    rfl
  have hS1Llive : ∀ k, (({ s with order_pool_ := ⟨Function.update s.order_pool_.storage oh (some ⟨id, p, q, Side.SELL, oh, oh⟩), s.order_pool_.freeArr, s.order_pool_.freeCount - 1⟩, level_pool_ := ⟨Function.update s.level_pool_.storage lh (some ⟨p, Side.SELL, u32add 0 q, 1, oh, lh, lh⟩), s.level_pool_.freeArr, s.level_pool_.freeCount - 1⟩, order_map_ := Function.update s.order_map_ (id % MAX_ORDERS) (some oh), price_level_map_ := Function.update s.price_level_map_ (priceToIndex p) (some lh) }).level_pool_.storage k).isSome ↔
      ((s.level_pool_.storage k).isSome ∨ k = lh) := by
    intro k
    by_cases hk : k = lh
    · show (Function.update s.level_pool_.storage lh (some ⟨p, Side.SELL, u32add 0 q, 1, oh, lh, lh⟩) k).isSome ↔ _
      rw [hk, Function.update_same]
      simp [hk]
    · show (Function.update s.level_pool_.storage lh (some ⟨p, Side.SELL, u32add 0 q, 1, oh, lh, lh⟩) k).isSome ↔ _
      rw [Function.update_noteq hk]
      simp [hk]
  have hliveLF : ∀ k, (({ setLevel { s with order_pool_ := ⟨Function.update s.order_pool_.storage oh (some ⟨id, p, q, Side.SELL, oh, oh⟩), s.order_pool_.freeArr, s.order_pool_.freeCount - 1⟩, level_pool_ := ⟨Function.update s.level_pool_.storage lh (some ⟨p, Side.SELL, u32add 0 q, 1, oh, lh, lh⟩), s.level_pool_.freeArr, s.level_pool_.freeCount - 1⟩, order_map_ := Function.update s.order_map_ (id % MAX_ORDERS) (some oh), price_level_map_ := Function.update s.price_level_map_ (priceToIndex p) (some lh) } lh (fun l => { l with prev := lh, next := lh }) with asks_ := some lh }).level_pool_.storage k).isSome =
      (({ s with order_pool_ := ⟨Function.update s.order_pool_.storage oh (some ⟨id, p, q, Side.SELL, oh, oh⟩), s.order_pool_.freeArr, s.order_pool_.freeCount - 1⟩, level_pool_ := ⟨Function.update s.level_pool_.storage lh (some ⟨p, Side.SELL, u32add 0 q, 1, oh, lh, lh⟩), s.level_pool_.freeArr, s.level_pool_.freeCount - 1⟩, order_map_ := Function.update s.order_map_ (id % MAX_ORDERS) (some oh), price_level_map_ := Function.update s.price_level_map_ (priceToIndex p) (some lh) }).level_pool_.storage k).isSome := by
    intro k
    show ((setLevel ({ s with order_pool_ := ⟨Function.update s.order_pool_.storage oh (some ⟨id, p, q, Side.SELL, oh, oh⟩), s.order_pool_.freeArr, s.order_pool_.freeCount - 1⟩, level_pool_ := ⟨Function.update s.level_pool_.storage lh (some ⟨p, Side.SELL, u32add 0 q, 1, oh, lh, lh⟩), s.level_pool_.freeArr, s.level_pool_.freeCount - 1⟩, order_map_ := Function.update s.order_map_ (id % MAX_ORDERS) (some oh), price_level_map_ := Function.update s.price_level_map_ (priceToIndex p) (some lh) }) lh (fun l => { l with prev := lh, next := lh })).level_pool_.storage k).isSome = _
    refine setLevel_storage_isSome ({ s with order_pool_ := ⟨Function.update s.order_pool_.storage oh (some ⟨id, p, q, Side.SELL, oh, oh⟩), s.order_pool_.freeArr, s.order_pool_.freeCount - 1⟩, level_pool_ := ⟨Function.update s.level_pool_.storage lh (some ⟨p, Side.SELL, u32add 0 q, 1, oh, lh, lh⟩), s.level_pool_.freeArr, s.level_pool_.freeCount - 1⟩, order_map_ := Function.update s.order_map_ (id % MAX_ORDERS) (some oh), price_level_map_ := Function.update s.price_level_map_ (priceToIndex p) (some lh) }) lh _ ?_ k
    show (Function.update s.level_pool_.storage lh (some ⟨p, Side.SELL, u32add 0 q, 1, oh, lh, lh⟩) lh).isSome
    rw [Function.update_same]
    rfl
  have hnotlh : ∀ k, (s.level_pool_.storage k).isSome → k ≠ lh := by
    intro k hk he
    rw [he, hlhdead] at hk
    cases hk
  have hmemo : ∀ k, k ∈ G.bidsL → (s.level_pool_.storage k).isSome := by
    intro k hk
    refine (hwf.levels.lvlLive k).mpr ?_
    exact List.mem_append.mpr (Or.inl hk)
  refine ⟨⟨G.bidsL, [lh], Function.update G.fifo lh [oh]⟩,
    ⟨?_, ?_, ?_, ?_, ?_, ?_, ?_, ?_, ?_, ?_, ?_⟩, ?_, ?_, ?_, ?_, ?_, ?_, ?_, ?_, ?_, ?_, ?_⟩
  · -- the untouched bid cycle
    refine isCycle_congr hwf.levels.bidsCyc ?_
    intro a b ha hb hr
    have hane : a ≠ lh := hnotlh a (hmemo a ha)
    have hbne : b ≠ lh := hnotlh b (hmemo b hb)
    exact ⟨by rw [(hLne a hane)]; exact hr.1, by rw [(hLne b hbne)]; exact hr.2⟩
  · -- the new singleton ask cycle
    refine isCycle_singleton ?_
    refine ⟨?_, ?_⟩
    · rw [hFlh]
    · rw [hFlh]
  · -- bids ++ [lh] is duplicate-free
    have hole : (G.bidsL ++ []).Nodup := by
      rw [← hGnil]
      exact hwf.levels.lvlNodup
    rw [List.append_nil] at hole
    refine List.Nodup.append hole (List.nodup_singleton lh) ?_
    intro a ha hb
    rw [List.mem_singleton] at hb
    exact hnotlh a (hmemo a ha) hb
  · -- bid head unchanged
    show s.bids_ = _
    exact hwf.levels.bidsHead
  · -- new ask head
    rfl
  · -- live levels are the new side lists
    intro k
    show (({ setLevel { s with order_pool_ := ⟨Function.update s.order_pool_.storage oh (some ⟨id, p, q, Side.SELL, oh, oh⟩), s.order_pool_.freeArr, s.order_pool_.freeCount - 1⟩, level_pool_ := ⟨Function.update s.level_pool_.storage lh (some ⟨p, Side.SELL, u32add 0 q, 1, oh, lh, lh⟩), s.level_pool_.freeArr, s.level_pool_.freeCount - 1⟩, order_map_ := Function.update s.order_map_ (id % MAX_ORDERS) (some oh), price_level_map_ := Function.update s.price_level_map_ (priceToIndex p) (some lh) } lh (fun l => { l with prev := lh, next := lh }) with asks_ := some lh }).level_pool_.storage k).isSome ↔ k ∈ G.bidsL ++ [lh]
    rw [hliveLF k, hS1Llive k]
    by_cases hk : k = lh
    · simp [hk]
    · rw [hwf.levels.lvlLive k, hGnil]
      simp [hk]
  · -- bid-side markers unchanged
    intro k hk
    rw [hLne k (hnotlh k (hmemo k hk))]
    exact hwf.levels.bidsSide k hk
  · -- the new level is on the SELL side
    intro k hk
    rw [List.mem_singleton] at hk
    rw [hk, hFlh]
  · -- price map entries point at live levels with the right hash
    intro i k hik
    have hik2 : Function.update s.price_level_map_ (priceToIndex p) (some lh) i = some k := hik
    by_cases hi : i = priceToIndex p
    · rw [hi, Function.update_same] at hik2
      obtain rfl : k = lh := (Option.some.inj hik2).symm
      constructor
      · rw [hliveLF k, hS1Llive k]
        simp
      · rw [hFlh, hi]
    · rw [Function.update_noteq hi] at hik2
      obtain ⟨h1, h2⟩ := hwf.levels.mapToLvl i k hik2
      constructor
      · rw [hliveLF k, hS1Llive k]
        exact Or.inl h1
      · rw [hLne k (hnotlh k h1)]
        exact h2
  · -- live levels are found through the price map
    intro k hk
    rw [hliveLF k, hS1Llive k] at hk
    show Function.update s.price_level_map_ (priceToIndex p) (some lh)
      (priceToIndex (derefLevel ({ setLevel { s with order_pool_ := ⟨Function.update s.order_pool_.storage oh (some ⟨id, p, q, Side.SELL, oh, oh⟩), s.order_pool_.freeArr, s.order_pool_.freeCount - 1⟩, level_pool_ := ⟨Function.update s.level_pool_.storage lh (some ⟨p, Side.SELL, u32add 0 q, 1, oh, lh, lh⟩), s.level_pool_.freeArr, s.level_pool_.freeCount - 1⟩, order_map_ := Function.update s.order_map_ (id % MAX_ORDERS) (some oh), price_level_map_ := Function.update s.price_level_map_ (priceToIndex p) (some lh) } lh (fun l => { l with prev := lh, next := lh }) with asks_ := some lh }) k).price) = some k
    by_cases hk0 : k = lh
    · rw [hk0, hFlh]
      show Function.update s.price_level_map_ (priceToIndex p) (some lh) (priceToIndex p) = _
      rw [Function.update_same]
    · rcases hk with hk | hk
      · rw [hLne k hk0]
        have hne2 : priceToIndex (derefLevel s k).price ≠ priceToIndex p := by
          intro he
          have h2 := hwf.levels.lvlToMap k hk
          rw [he, hmapidx] at h2
          cases h2
        rw [Function.update_noteq hne2]
        exact hwf.levels.lvlToMap k hk
      · exact absurd hk hk0
  · -- level pool well-formed
    refine poolWF_overwrite hLP2wf (?_ : (⟨Function.update s.level_pool_.storage lh (some ⟨p, Side.SELL, u32add 0 q, 1, oh, lh, lh⟩), s.level_pool_.freeArr, s.level_pool_.freeCount - 1⟩ : Pool PriceLevel).storage lh = some ⟨p, Side.SELL, u32add 0 q, 1, oh, lh, lh⟩)
    show Function.update s.level_pool_.storage lh (some ⟨p, Side.SELL, u32add 0 q, 1, oh, lh, lh⟩) lh = _
    rw [Function.update_same]
  · -- FIFO cycles
    intro lh2 hl
    rw [hliveLF lh2, hS1Llive lh2] at hl
    show IsCycle _ (Function.update G.fifo lh [oh] lh2)
    by_cases hne : lh2 = lh
    · rw [hne, Function.update_same]
      refine isCycle_singleton ?_
      refine ⟨?_, ?_⟩
      · rw [hderOoh]
      · rw [hderOoh]
    · rcases hl with hl | hl
      · rw [Function.update_noteq hne]
        refine isCycle_congr (hwf.fifoCyc lh2 hl) ?_
        intro a b ha hb hr
        have han : a ≠ oh := fun he => hohnotlive lh2 hl (he ▸ ha)
        have hbn : b ≠ oh := fun he => hohnotlive lh2 hl (he ▸ hb)
        exact ⟨by rw [hderO a han]; exact hr.1, by rw [hderO b hbn]; exact hr.2⟩
      · exact absurd hl hne
  · -- FIFO lists are duplicate-free
    intro lh2 hl
    rw [hliveLF lh2, hS1Llive lh2] at hl
    show (Function.update G.fifo lh [oh] lh2).Nodup
    by_cases hne : lh2 = lh
    · rw [hne, Function.update_same]
      exact List.nodup_singleton oh
    · rcases hl with hl | hl
      · rw [Function.update_noteq hne]
        exact hwf.fifoNodup lh2 hl
      · exact absurd hl hne
  · -- FIFO heads
    intro lh2 hl
    rw [hliveLF lh2, hS1Llive lh2] at hl
    show (Function.update G.fifo lh [oh] lh2).head? = _
    by_cases hne : lh2 = lh
    · rw [hne, Function.update_same, hFlh]
      rfl
    · rcases hl with hl | hl
      · rw [Function.update_noteq hne, hLne lh2 hne]
        exact hwf.fifoHead lh2 hl
      · exact absurd hl hne
  · -- FIFO counts
    intro lh2 hl
    rw [hliveLF lh2, hS1Llive lh2] at hl
    show (derefLevel ({ setLevel { s with order_pool_ := ⟨Function.update s.order_pool_.storage oh (some ⟨id, p, q, Side.SELL, oh, oh⟩), s.order_pool_.freeArr, s.order_pool_.freeCount - 1⟩, level_pool_ := ⟨Function.update s.level_pool_.storage lh (some ⟨p, Side.SELL, u32add 0 q, 1, oh, lh, lh⟩), s.level_pool_.freeArr, s.level_pool_.freeCount - 1⟩, order_map_ := Function.update s.order_map_ (id % MAX_ORDERS) (some oh), price_level_map_ := Function.update s.price_level_map_ (priceToIndex p) (some lh) } lh (fun l => { l with prev := lh, next := lh }) with asks_ := some lh }) lh2).order_count = (Function.update G.fifo lh [oh] lh2).length
    by_cases hne : lh2 = lh
    · rw [hne, Function.update_same, hFlh]
      rfl
    · rcases hl with hl | hl
      · rw [Function.update_noteq hne, hLne lh2 hne]
        exact hwf.fifoCount lh2 hl
      · exact absurd hl hne
  · -- FIFO members are live orders
    intro lh2 hl m hm
    rw [hliveLF lh2, hS1Llive lh2] at hl
    have hm2 : m ∈ Function.update G.fifo lh [oh] lh2 := hm
    rw [hliveOF m]
    by_cases hne : lh2 = lh
    · rw [hne, Function.update_same, List.mem_singleton] at hm2
      exact Or.inr hm2
    · rcases hl with hl | hl
      · rw [Function.update_noteq hne] at hm2
        exact Or.inl (hwf.fifoLive lh2 hl m hm2)
      · exact absurd hl hne
  · -- FIFO members carry the level price
    intro lh2 hl m hm
    rw [hliveLF lh2, hS1Llive lh2] at hl
    have hm2 : m ∈ Function.update G.fifo lh [oh] lh2 := hm
    by_cases hne : lh2 = lh
    · rw [hne, Function.update_same, List.mem_singleton] at hm2
      rw [hne, hm2, hderOoh, hFlh]
    · rcases hl with hl | hl
      · rw [Function.update_noteq hne] at hm2
        have hmn : m ≠ oh := fun he => hohnotlive lh2 hl (he ▸ hm2)
        rw [hderO m hmn, hLne lh2 hne]
        exact hwf.fifoPrice lh2 hl m hm2
      · exact absurd hl hne
  · -- FIFOs are disjoint
    intro lh1 lh2 h1 h2 m hm1 hm2
    rw [hliveLF lh1, hS1Llive lh1] at h1
    rw [hliveLF lh2, hS1Llive lh2] at h2
    have hm1b : m ∈ Function.update G.fifo lh [oh] lh1 := hm1
    have hm2b : m ∈ Function.update G.fifo lh [oh] lh2 := hm2
    have hred : ∀ lh3, m ∈ Function.update G.fifo lh [oh] lh3 →
        (m ∈ G.fifo lh3 ∧ lh3 ≠ lh) ∨ (m = oh ∧ lh3 = lh) := by
      intro lh3 hmm
      by_cases hne : lh3 = lh
      · rw [hne, Function.update_same, List.mem_singleton] at hmm
        exact Or.inr ⟨hmm, hne⟩
      · rw [Function.update_noteq hne] at hmm
        exact Or.inl ⟨hmm, hne⟩
    have hlv : ∀ lh3, ((s.level_pool_.storage lh3).isSome ∨ lh3 = lh) → lh3 ≠ lh →
        (s.level_pool_.storage lh3).isSome := by
      intro lh3 hh hne
      rcases hh with hh | hh
      · exact hh
      · exact absurd hh hne
    rcases hred lh1 hm1b with ⟨ha, hane⟩ | ⟨haoh, hal⟩
    · rcases hred lh2 hm2b with ⟨hb, hbne⟩ | ⟨hboh, hbl⟩
      · exact hwf.fifoDisj lh1 lh2 (hlv lh1 h1 hane) (hlv lh2 h2 hbne) m ha hb
      · exact absurd (hboh ▸ ha) (hohnotlive lh1 (hlv lh1 h1 hane))
    · rcases hred lh2 hm2b with ⟨hb, hbne⟩ | ⟨hboh, hbl⟩
      · exact absurd (haoh ▸ hb) (hohnotlive lh2 (hlv lh2 h2 hbne))
      · rw [hal, hbl]
  · -- order map entries point at live orders with the right slot
    intro i k hik
    have hik2 : Function.update s.order_map_ (id % MAX_ORDERS) (some oh) i = some k := hik
    by_cases hi : i = id % MAX_ORDERS
    · rw [hi, Function.update_same] at hik2
      obtain rfl : k = oh := (Option.some.inj hik2).symm
      constructor
      · rw [hliveOF k]
        exact Or.inr rfl
      · rw [hderOoh, hi]
    · rw [Function.update_noteq hi] at hik2
      obtain ⟨hk1, hk2⟩ := hwf.mapToOrd i k hik2
      have hkoh : k ≠ oh := by
        intro he
        rw [he, hohdead] at hk1
        cases hk1
      constructor
      · rw [hliveOF k]
        exact Or.inl hk1
      · rw [hderO k hkoh]
        exact hk2
  · -- live orders are found through the order map
    intro k hk
    rw [hliveOF k] at hk
    by_cases hkoh : k = oh
    · rw [hkoh]
      show Function.update s.order_map_ (id % MAX_ORDERS) (some oh)
        ((derefOrder ({ setLevel { s with order_pool_ := ⟨Function.update s.order_pool_.storage oh (some ⟨id, p, q, Side.SELL, oh, oh⟩), s.order_pool_.freeArr, s.order_pool_.freeCount - 1⟩, level_pool_ := ⟨Function.update s.level_pool_.storage lh (some ⟨p, Side.SELL, u32add 0 q, 1, oh, lh, lh⟩), s.level_pool_.freeArr, s.level_pool_.freeCount - 1⟩, order_map_ := Function.update s.order_map_ (id % MAX_ORDERS) (some oh), price_level_map_ := Function.update s.price_level_map_ (priceToIndex p) (some lh) } lh (fun l => { l with prev := lh, next := lh }) with asks_ := some lh }) oh).order_id % MAX_ORDERS) = some oh
      rw [hderOoh, Function.update_same]
    · rcases hk with hk | hk
      · show Function.update s.order_map_ (id % MAX_ORDERS) (some oh)
          ((derefOrder ({ setLevel { s with order_pool_ := ⟨Function.update s.order_pool_.storage oh (some ⟨id, p, q, Side.SELL, oh, oh⟩), s.order_pool_.freeArr, s.order_pool_.freeCount - 1⟩, level_pool_ := ⟨Function.update s.level_pool_.storage lh (some ⟨p, Side.SELL, u32add 0 q, 1, oh, lh, lh⟩), s.level_pool_.freeArr, s.level_pool_.freeCount - 1⟩, order_map_ := Function.update s.order_map_ (id % MAX_ORDERS) (some oh), price_level_map_ := Function.update s.price_level_map_ (priceToIndex p) (some lh) } lh (fun l => { l with prev := lh, next := lh }) with asks_ := some lh }) k).order_id % MAX_ORDERS) = some k
        rw [hderO k hkoh]
        have hne2 : (derefOrder s k).order_id % MAX_ORDERS ≠ id % MAX_ORDERS := by
          intro he
          have h2 := hwf.ordToMap k hk
          rw [he, hslot] at h2
          cases h2
        rw [Function.update_noteq hne2]
        exact hwf.ordToMap k hk
      · exact absurd hk hkoh
  · -- every live order sits in some FIFO
    intro k hk
    rw [hliveOF k] at hk
    by_cases hkoh : k = oh
    · refine ⟨lh, ?_, ?_⟩
      · rw [hliveLF lh, hS1Llive lh]
        exact Or.inr rfl
      · show k ∈ Function.update G.fifo lh [oh] lh
        rw [Function.update_same, hkoh]
        exact List.mem_singleton.mpr rfl
    · rcases hk with hk | hk
      · obtain ⟨lh2, hl, hm⟩ := hwf.ordInFifo k hk
        refine ⟨lh2, ?_, ?_⟩
        · rw [hliveLF lh2, hS1Llive lh2]
          exact Or.inl hl
        · show k ∈ Function.update G.fifo lh [oh] lh2
          rw [Function.update_noteq (hnotlh lh2 hl)]
          exact hm
      · exact absurd hk hkoh
  · -- order pool well-formed
    exact hOP1wf

/-- New-level core of `addOrder`, BUY side, insertion in front of the current
head (the new best level): the fresh level is linked before the head so the
side cycle becomes `lh :: L`, and the new order is its singleton FIFO. -/
theorem bookWF_add_core_frontBuy {s : OrderBook} {G : BookShape} {id q : Nat}
    {p : Int} {oh lh hd : Nat}
    (hwf : BookWF s G)
    (hslot : s.order_map_ (id % MAX_ORDERS) = none)
    (hohdead : s.order_pool_.storage oh = none)
    (hOP1wf : poolWF (⟨Function.update s.order_pool_.storage oh (some ⟨id, p, q, Side.BUY, oh, oh⟩), s.order_pool_.freeArr, s.order_pool_.freeCount - 1⟩ : Pool Order) MAX_ORDERS)
    (hlhdead : s.level_pool_.storage lh = none)
    (hLP2wf : poolWF (⟨Function.update s.level_pool_.storage lh (some ⟨p, Side.BUY, u32add 0 q, 1, oh, lh, lh⟩), s.level_pool_.freeArr, s.level_pool_.freeCount - 1⟩ : Pool PriceLevel) MAX_PRICE_LEVELS)
    (hmapidx : s.price_level_map_ (priceToIndex p) = none)
    (hheads : s.bids_ = some hd) :
    ∃ G2 : BookShape, BookWF ({ setLevel (setLevel (setLevel { s with order_pool_ := ⟨Function.update s.order_pool_.storage oh (some ⟨id, p, q, Side.BUY, oh, oh⟩), s.order_pool_.freeArr, s.order_pool_.freeCount - 1⟩, level_pool_ := ⟨Function.update s.level_pool_.storage lh (some ⟨p, Side.BUY, u32add 0 q, 1, oh, lh, lh⟩), s.level_pool_.freeArr, s.level_pool_.freeCount - 1⟩, order_map_ := Function.update s.order_map_ (id % MAX_ORDERS) (some oh), price_level_map_ := Function.update s.price_level_map_ (priceToIndex p) (some lh) } lh (fun l => { l with prev := (derefLevel { s with order_pool_ := ⟨Function.update s.order_pool_.storage oh (some ⟨id, p, q, Side.BUY, oh, oh⟩), s.order_pool_.freeArr, s.order_pool_.freeCount - 1⟩, level_pool_ := ⟨Function.update s.level_pool_.storage lh (some ⟨p, Side.BUY, u32add 0 q, 1, oh, lh, lh⟩), s.level_pool_.freeArr, s.level_pool_.freeCount - 1⟩, order_map_ := Function.update s.order_map_ (id % MAX_ORDERS) (some oh), price_level_map_ := Function.update s.price_level_map_ (priceToIndex p) (some lh) } hd).prev, next := hd })) (derefLevel { s with order_pool_ := ⟨Function.update s.order_pool_.storage oh (some ⟨id, p, q, Side.BUY, oh, oh⟩), s.order_pool_.freeArr, s.order_pool_.freeCount - 1⟩, level_pool_ := ⟨Function.update s.level_pool_.storage lh (some ⟨p, Side.BUY, u32add 0 q, 1, oh, lh, lh⟩), s.level_pool_.freeArr, s.level_pool_.freeCount - 1⟩, order_map_ := Function.update s.order_map_ (id % MAX_ORDERS) (some oh), price_level_map_ := Function.update s.price_level_map_ (priceToIndex p) (some lh) } hd).prev (fun l => { l with next := lh })) hd (fun l => { l with prev := lh }) with bids_ := some lh }) G2 := by
  have hnotlh : ∀ k, (s.level_pool_.storage k).isSome → k ≠ lh := by
    intro k hk he
    rw [he, hlhdead] at hk
    cases hk
  have hheadB : (G.bidsL).head? = some hd := by
    rw [← hwf.levels.bidsHead]
    exact hheads
  have hhdmem : hd ∈ G.bidsL := by
    cases hFF : G.bidsL with
    | nil =>
      rw [hFF] at hheadB
      cases hheadB
    | cons f rest =>
      rw [hFF, List.head?_cons] at hheadB
      rw [← Option.some.inj hheadB]
      exact List.mem_cons_self f rest
  have hhdlive : (s.level_pool_.storage hd).isSome :=
    (hwf.levels.lvlLive hd).mpr (List.mem_append.mpr (Or.inl hhdmem))
  have hhdne : hd ≠ lh := hnotlh hd hhdlive
  -- order-side facts
  have hOst : ∀ k, k ≠ oh → ({ setLevel (setLevel (setLevel { s with order_pool_ := ⟨Function.update s.order_pool_.storage oh (some ⟨id, p, q, Side.BUY, oh, oh⟩), s.order_pool_.freeArr, s.order_pool_.freeCount - 1⟩, level_pool_ := ⟨Function.update s.level_pool_.storage lh (some ⟨p, Side.BUY, u32add 0 q, 1, oh, lh, lh⟩), s.level_pool_.freeArr, s.level_pool_.freeCount - 1⟩, order_map_ := Function.update s.order_map_ (id % MAX_ORDERS) (some oh), price_level_map_ := Function.update s.price_level_map_ (priceToIndex p) (some lh) } lh (fun l => { l with prev := (derefLevel { s with order_pool_ := ⟨Function.update s.order_pool_.storage oh (some ⟨id, p, q, Side.BUY, oh, oh⟩), s.order_pool_.freeArr, s.order_pool_.freeCount - 1⟩, level_pool_ := ⟨Function.update s.level_pool_.storage lh (some ⟨p, Side.BUY, u32add 0 q, 1, oh, lh, lh⟩), s.level_pool_.freeArr, s.level_pool_.freeCount - 1⟩, order_map_ := Function.update s.order_map_ (id % MAX_ORDERS) (some oh), price_level_map_ := Function.update s.price_level_map_ (priceToIndex p) (some lh) } hd).prev, next := hd })) (derefLevel { s with order_pool_ := ⟨Function.update s.order_pool_.storage oh (some ⟨id, p, q, Side.BUY, oh, oh⟩), s.order_pool_.freeArr, s.order_pool_.freeCount - 1⟩, level_pool_ := ⟨Function.update s.level_pool_.storage lh (some ⟨p, Side.BUY, u32add 0 q, 1, oh, lh, lh⟩), s.level_pool_.freeArr, s.level_pool_.freeCount - 1⟩, order_map_ := Function.update s.order_map_ (id % MAX_ORDERS) (some oh), price_level_map_ := Function.update s.price_level_map_ (priceToIndex p) (some lh) } hd).prev (fun l => { l with next := lh })) hd (fun l => { l with prev := lh }) with bids_ := some lh }).order_pool_.storage k = s.order_pool_.storage k := by
    intro k hk
    show Function.update s.order_pool_.storage oh (some ⟨id, p, q, Side.BUY, oh, oh⟩) k = _
    rw [Function.update_noteq hk]
  have hderO : ∀ k, k ≠ oh → derefOrder ({ setLevel (setLevel (setLevel { s with order_pool_ := ⟨Function.update s.order_pool_.storage oh (some ⟨id, p, q, Side.BUY, oh, oh⟩), s.order_pool_.freeArr, s.order_pool_.freeCount - 1⟩, level_pool_ := ⟨Function.update s.level_pool_.storage lh (some ⟨p, Side.BUY, u32add 0 q, 1, oh, lh, lh⟩), s.level_pool_.freeArr, s.level_pool_.freeCount - 1⟩, order_map_ := Function.update s.order_map_ (id % MAX_ORDERS) (some oh), price_level_map_ := Function.update s.price_level_map_ (priceToIndex p) (some lh) } lh (fun l => { l with prev := (derefLevel { s with order_pool_ := ⟨Function.update s.order_pool_.storage oh (some ⟨id, p, q, Side.BUY, oh, oh⟩), s.order_pool_.freeArr, s.order_pool_.freeCount - 1⟩, level_pool_ := ⟨Function.update s.level_pool_.storage lh (some ⟨p, Side.BUY, u32add 0 q, 1, oh, lh, lh⟩), s.level_pool_.freeArr, s.level_pool_.freeCount - 1⟩, order_map_ := Function.update s.order_map_ (id % MAX_ORDERS) (some oh), price_level_map_ := Function.update s.price_level_map_ (priceToIndex p) (some lh) } hd).prev, next := hd })) (derefLevel { s with order_pool_ := ⟨Function.update s.order_pool_.storage oh (some ⟨id, p, q, Side.BUY, oh, oh⟩), s.order_pool_.freeArr, s.order_pool_.freeCount - 1⟩, level_pool_ := ⟨Function.update s.level_pool_.storage lh (some ⟨p, Side.BUY, u32add 0 q, 1, oh, lh, lh⟩), s.level_pool_.freeArr, s.level_pool_.freeCount - 1⟩, order_map_ := Function.update s.order_map_ (id % MAX_ORDERS) (some oh), price_level_map_ := Function.update s.price_level_map_ (priceToIndex p) (some lh) } hd).prev (fun l => { l with next := lh })) hd (fun l => { l with prev := lh }) with bids_ := some lh }) k = derefOrder s k := by
    intro k hk
    show (({ setLevel (setLevel (setLevel { s with order_pool_ := ⟨Function.update s.order_pool_.storage oh (some ⟨id, p, q, Side.BUY, oh, oh⟩), s.order_pool_.freeArr, s.order_pool_.freeCount - 1⟩, level_pool_ := ⟨Function.update s.level_pool_.storage lh (some ⟨p, Side.BUY, u32add 0 q, 1, oh, lh, lh⟩), s.level_pool_.freeArr, s.level_pool_.freeCount - 1⟩, order_map_ := Function.update s.order_map_ (id % MAX_ORDERS) (some oh), price_level_map_ := Function.update s.price_level_map_ (priceToIndex p) (some lh) } lh (fun l => { l with prev := (derefLevel { s with order_pool_ := ⟨Function.update s.order_pool_.storage oh (some ⟨id, p, q, Side.BUY, oh, oh⟩), s.order_pool_.freeArr, s.order_pool_.freeCount - 1⟩, level_pool_ := ⟨Function.update s.level_pool_.storage lh (some ⟨p, Side.BUY, u32add 0 q, 1, oh, lh, lh⟩), s.level_pool_.freeArr, s.level_pool_.freeCount - 1⟩, order_map_ := Function.update s.order_map_ (id % MAX_ORDERS) (some oh), price_level_map_ := Function.update s.price_level_map_ (priceToIndex p) (some lh) } hd).prev, next := hd })) (derefLevel { s with order_pool_ := ⟨Function.update s.order_pool_.storage oh (some ⟨id, p, q, Side.BUY, oh, oh⟩), s.order_pool_.freeArr, s.order_pool_.freeCount - 1⟩, level_pool_ := ⟨Function.update s.level_pool_.storage lh (some ⟨p, Side.BUY, u32add 0 q, 1, oh, lh, lh⟩), s.level_pool_.freeArr, s.level_pool_.freeCount - 1⟩, order_map_ := Function.update s.order_map_ (id % MAX_ORDERS) (some oh), price_level_map_ := Function.update s.price_level_map_ (priceToIndex p) (some lh) } hd).prev (fun l => { l with next := lh })) hd (fun l => { l with prev := lh }) with bids_ := some lh }).order_pool_.storage k).getD defaultOrder = _
    rw [hOst k hk]
    rfl
  have hOoh : ({ setLevel (setLevel (setLevel { s with order_pool_ := ⟨Function.update s.order_pool_.storage oh (some ⟨id, p, q, Side.BUY, oh, oh⟩), s.order_pool_.freeArr, s.order_pool_.freeCount - 1⟩, level_pool_ := ⟨Function.update s.level_pool_.storage lh (some ⟨p, Side.BUY, u32add 0 q, 1, oh, lh, lh⟩), s.level_pool_.freeArr, s.level_pool_.freeCount - 1⟩, order_map_ := Function.update s.order_map_ (id % MAX_ORDERS) (some oh), price_level_map_ := Function.update s.price_level_map_ (priceToIndex p) (some lh) } lh (fun l => { l with prev := (derefLevel { s with order_pool_ := ⟨Function.update s.order_pool_.storage oh (some ⟨id, p, q, Side.BUY, oh, oh⟩), s.order_pool_.freeArr, s.order_pool_.freeCount - 1⟩, level_pool_ := ⟨Function.update s.level_pool_.storage lh (some ⟨p, Side.BUY, u32add 0 q, 1, oh, lh, lh⟩), s.level_pool_.freeArr, s.level_pool_.freeCount - 1⟩, order_map_ := Function.update s.order_map_ (id % MAX_ORDERS) (some oh), price_level_map_ := Function.update s.price_level_map_ (priceToIndex p) (some lh) } hd).prev, next := hd })) (derefLevel { s with order_pool_ := ⟨Function.update s.order_pool_.storage oh (some ⟨id, p, q, Side.BUY, oh, oh⟩), s.order_pool_.freeArr, s.order_pool_.freeCount - 1⟩, level_pool_ := ⟨Function.update s.level_pool_.storage lh (some ⟨p, Side.BUY, u32add 0 q, 1, oh, lh, lh⟩), s.level_pool_.freeArr, s.level_pool_.freeCount - 1⟩, order_map_ := Function.update s.order_map_ (id % MAX_ORDERS) (some oh), price_level_map_ := Function.update s.price_level_map_ (priceToIndex p) (some lh) } hd).prev (fun l => { l with next := lh })) hd (fun l => { l with prev := lh }) with bids_ := some lh }).order_pool_.storage oh = some ⟨id, p, q, Side.BUY, oh, oh⟩ := by
    show Function.update s.order_pool_.storage oh (some ⟨id, p, q, Side.BUY, oh, oh⟩) oh = _
    rw [Function.update_same]
  have hderOoh : derefOrder ({ setLevel (setLevel (setLevel { s with order_pool_ := ⟨Function.update s.order_pool_.storage oh (some ⟨id, p, q, Side.BUY, oh, oh⟩), s.order_pool_.freeArr, s.order_pool_.freeCount - 1⟩, level_pool_ := ⟨Function.update s.level_pool_.storage lh (some ⟨p, Side.BUY, u32add 0 q, 1, oh, lh, lh⟩), s.level_pool_.freeArr, s.level_pool_.freeCount - 1⟩, order_map_ := Function.update s.order_map_ (id % MAX_ORDERS) (some oh), price_level_map_ := Function.update s.price_level_map_ (priceToIndex p) (some lh) } lh (fun l => { l with prev := (derefLevel { s with order_pool_ := ⟨Function.update s.order_pool_.storage oh (some ⟨id, p, q, Side.BUY, oh, oh⟩), s.order_pool_.freeArr, s.order_pool_.freeCount - 1⟩, level_pool_ := ⟨Function.update s.level_pool_.storage lh (some ⟨p, Side.BUY, u32add 0 q, 1, oh, lh, lh⟩), s.level_pool_.freeArr, s.level_pool_.freeCount - 1⟩, order_map_ := Function.update s.order_map_ (id % MAX_ORDERS) (some oh), price_level_map_ := Function.update s.price_level_map_ (priceToIndex p) (some lh) } hd).prev, next := hd })) (derefLevel { s with order_pool_ := ⟨Function.update s.order_pool_.storage oh (some ⟨id, p, q, Side.BUY, oh, oh⟩), s.order_pool_.freeArr, s.order_pool_.freeCount - 1⟩, level_pool_ := ⟨Function.update s.level_pool_.storage lh (some ⟨p, Side.BUY, u32add 0 q, 1, oh, lh, lh⟩), s.level_pool_.freeArr, s.level_pool_.freeCount - 1⟩, order_map_ := Function.update s.order_map_ (id % MAX_ORDERS) (some oh), price_level_map_ := Function.update s.price_level_map_ (priceToIndex p) (some lh) } hd).prev (fun l => { l with next := lh })) hd (fun l => { l with prev := lh }) with bids_ := some lh }) oh = ⟨id, p, q, Side.BUY, oh, oh⟩ := by
    show (({ setLevel (setLevel (setLevel { s with order_pool_ := ⟨Function.update s.order_pool_.storage oh (some ⟨id, p, q, Side.BUY, oh, oh⟩), s.order_pool_.freeArr, s.order_pool_.freeCount - 1⟩, level_pool_ := ⟨Function.update s.level_pool_.storage lh (some ⟨p, Side.BUY, u32add 0 q, 1, oh, lh, lh⟩), s.level_pool_.freeArr, s.level_pool_.freeCount - 1⟩, order_map_ := Function.update s.order_map_ (id % MAX_ORDERS) (some oh), price_level_map_ := Function.update s.price_level_map_ (priceToIndex p) (some lh) } lh (fun l => { l with prev := (derefLevel { s with order_pool_ := ⟨Function.update s.order_pool_.storage oh (some ⟨id, p, q, Side.BUY, oh, oh⟩), s.order_pool_.freeArr, s.order_pool_.freeCount - 1⟩, level_pool_ := ⟨Function.update s.level_pool_.storage lh (some ⟨p, Side.BUY, u32add 0 q, 1, oh, lh, lh⟩), s.level_pool_.freeArr, s.level_pool_.freeCount - 1⟩, order_map_ := Function.update s.order_map_ (id % MAX_ORDERS) (some oh), price_level_map_ := Function.update s.price_level_map_ (priceToIndex p) (some lh) } hd).prev, next := hd })) (derefLevel { s with order_pool_ := ⟨Function.update s.order_pool_.storage oh (some ⟨id, p, q, Side.BUY, oh, oh⟩), s.order_pool_.freeArr, s.order_pool_.freeCount - 1⟩, level_pool_ := ⟨Function.update s.level_pool_.storage lh (some ⟨p, Side.BUY, u32add 0 q, 1, oh, lh, lh⟩), s.level_pool_.freeArr, s.level_pool_.freeCount - 1⟩, order_map_ := Function.update s.order_map_ (id % MAX_ORDERS) (some oh), price_level_map_ := Function.update s.price_level_map_ (priceToIndex p) (some lh) } hd).prev (fun l => { l with next := lh })) hd (fun l => { l with prev := lh }) with bids_ := some lh }).order_pool_.storage oh).getD defaultOrder = _
    rw [hOoh]
    rfl
  have hliveOF : ∀ k, (({ setLevel (setLevel (setLevel { s with order_pool_ := ⟨Function.update s.order_pool_.storage oh (some ⟨id, p, q, Side.BUY, oh, oh⟩), s.order_pool_.freeArr, s.order_pool_.freeCount - 1⟩, level_pool_ := ⟨Function.update s.level_pool_.storage lh (some ⟨p, Side.BUY, u32add 0 q, 1, oh, lh, lh⟩), s.level_pool_.freeArr, s.level_pool_.freeCount - 1⟩, order_map_ := Function.update s.order_map_ (id % MAX_ORDERS) (some oh), price_level_map_ := Function.update s.price_level_map_ (priceToIndex p) (some lh) } lh (fun l => { l with prev := (derefLevel { s with order_pool_ := ⟨Function.update s.order_pool_.storage oh (some ⟨id, p, q, Side.BUY, oh, oh⟩), s.order_pool_.freeArr, s.order_pool_.freeCount - 1⟩, level_pool_ := ⟨Function.update s.level_pool_.storage lh (some ⟨p, Side.BUY, u32add 0 q, 1, oh, lh, lh⟩), s.level_pool_.freeArr, s.level_pool_.freeCount - 1⟩, order_map_ := Function.update s.order_map_ (id % MAX_ORDERS) (some oh), price_level_map_ := Function.update s.price_level_map_ (priceToIndex p) (some lh) } hd).prev, next := hd })) (derefLevel { s with order_pool_ := ⟨Function.update s.order_pool_.storage oh (some ⟨id, p, q, Side.BUY, oh, oh⟩), s.order_pool_.freeArr, s.order_pool_.freeCount - 1⟩, level_pool_ := ⟨Function.update s.level_pool_.storage lh (some ⟨p, Side.BUY, u32add 0 q, 1, oh, lh, lh⟩), s.level_pool_.freeArr, s.level_pool_.freeCount - 1⟩, order_map_ := Function.update s.order_map_ (id % MAX_ORDERS) (some oh), price_level_map_ := Function.update s.price_level_map_ (priceToIndex p) (some lh) } hd).prev (fun l => { l with next := lh })) hd (fun l => { l with prev := lh }) with bids_ := some lh }).order_pool_.storage k).isSome ↔
      ((s.order_pool_.storage k).isSome ∨ k = oh) := by
    intro k
    by_cases hk : k = oh
    · rw [hk, hOoh]
      simp
    · rw [hOst k hk]
      simp [hk]
  have hohnotlive : ∀ lh2, (s.level_pool_.storage lh2).isSome → oh ∉ G.fifo lh2 := by
    intro lh2 hl hmem
    have := hwf.fifoLive lh2 hl oh hmem
    rw [hohdead] at this
    cases this
  -- level dereferencing in the base and final states
  have hT0L : ∀ k, k ≠ lh → derefLevel ({ s with order_pool_ := ⟨Function.update s.order_pool_.storage oh (some ⟨id, p, q, Side.BUY, oh, oh⟩), s.order_pool_.freeArr, s.order_pool_.freeCount - 1⟩, level_pool_ := ⟨Function.update s.level_pool_.storage lh (some ⟨p, Side.BUY, u32add 0 q, 1, oh, lh, lh⟩), s.level_pool_.freeArr, s.level_pool_.freeCount - 1⟩, order_map_ := Function.update s.order_map_ (id % MAX_ORDERS) (some oh), price_level_map_ := Function.update s.price_level_map_ (priceToIndex p) (some lh) }) k = derefLevel s k := by
    intro k hk
    show (Function.update s.level_pool_.storage lh (some ⟨p, Side.BUY, u32add 0 q, 1, oh, lh, lh⟩) k).getD defaultLevel = _
    rw [Function.update_noteq hk]
    rfl
  have hT0lh : derefLevel ({ s with order_pool_ := ⟨Function.update s.order_pool_.storage oh (some ⟨id, p, q, Side.BUY, oh, oh⟩), s.order_pool_.freeArr, s.order_pool_.freeCount - 1⟩, level_pool_ := ⟨Function.update s.level_pool_.storage lh (some ⟨p, Side.BUY, u32add 0 q, 1, oh, lh, lh⟩), s.level_pool_.freeArr, s.level_pool_.freeCount - 1⟩, order_map_ := Function.update s.order_map_ (id % MAX_ORDERS) (some oh), price_level_map_ := Function.update s.price_level_map_ (priceToIndex p) (some lh) }) lh = ⟨p, Side.BUY, u32add 0 q, 1, oh, lh, lh⟩ := by
    show (Function.update s.level_pool_.storage lh (some ⟨p, Side.BUY, u32add 0 q, 1, oh, lh, lh⟩) lh).getD defaultLevel = _
    rw [Function.update_same]
    rfl
  have hTLeq : ((derefLevel { s with order_pool_ := ⟨Function.update s.order_pool_.storage oh (some ⟨id, p, q, Side.BUY, oh, oh⟩), s.order_pool_.freeArr, s.order_pool_.freeCount - 1⟩, level_pool_ := ⟨Function.update s.level_pool_.storage lh (some ⟨p, Side.BUY, u32add 0 q, 1, oh, lh, lh⟩), s.level_pool_.freeArr, s.level_pool_.freeCount - 1⟩, order_map_ := Function.update s.order_map_ (id % MAX_ORDERS) (some oh), price_level_map_ := Function.update s.price_level_map_ (priceToIndex p) (some lh) } hd).prev) = (derefLevel s hd).prev := by
    rw [hT0L hd hhdne]
  have hndB : (G.bidsL).Nodup := hwf.levels.lvlNodup.sublist (List.sublist_append_left _ _)
  obtain ⟨pv, hpv_mem, hpv⟩ := isCycle_prev_mem hwf.levels.bidsCyc hhdmem
  have hpv_eq : pv = (derefLevel s hd).prev := hpv.2.symm
  have hTLmem : ((derefLevel { s with order_pool_ := ⟨Function.update s.order_pool_.storage oh (some ⟨id, p, q, Side.BUY, oh, oh⟩), s.order_pool_.freeArr, s.order_pool_.freeCount - 1⟩, level_pool_ := ⟨Function.update s.level_pool_.storage lh (some ⟨p, Side.BUY, u32add 0 q, 1, oh, lh, lh⟩), s.level_pool_.freeArr, s.level_pool_.freeCount - 1⟩, order_map_ := Function.update s.order_map_ (id % MAX_ORDERS) (some oh), price_level_map_ := Function.update s.price_level_map_ (priceToIndex p) (some lh) } hd).prev) ∈ G.bidsL := by
    rw [hTLeq, ← hpv_eq]
    exact hpv_mem
  have hTLlive : (s.level_pool_.storage ((derefLevel { s with order_pool_ := ⟨Function.update s.order_pool_.storage oh (some ⟨id, p, q, Side.BUY, oh, oh⟩), s.order_pool_.freeArr, s.order_pool_.freeCount - 1⟩, level_pool_ := ⟨Function.update s.level_pool_.storage lh (some ⟨p, Side.BUY, u32add 0 q, 1, oh, lh, lh⟩), s.level_pool_.freeArr, s.level_pool_.freeCount - 1⟩, order_map_ := Function.update s.order_map_ (id % MAX_ORDERS) (some oh), price_level_map_ := Function.update s.price_level_map_ (priceToIndex p) (some lh) } hd).prev)).isSome :=
    (hwf.levels.lvlLive _).mpr (List.mem_append.mpr (Or.inl hTLmem))
  have hTLne : ((derefLevel { s with order_pool_ := ⟨Function.update s.order_pool_.storage oh (some ⟨id, p, q, Side.BUY, oh, oh⟩), s.order_pool_.freeArr, s.order_pool_.freeCount - 1⟩, level_pool_ := ⟨Function.update s.level_pool_.storage lh (some ⟨p, Side.BUY, u32add 0 q, 1, oh, lh, lh⟩), s.level_pool_.freeArr, s.level_pool_.freeCount - 1⟩, order_map_ := Function.update s.order_map_ (id % MAX_ORDERS) (some oh), price_level_map_ := Function.update s.price_level_map_ (priceToIndex p) (some lh) } hd).prev) ≠ lh := hnotlh _ hTLlive
  have hderF_L3 : ∀ k, derefLevel ({ setLevel (setLevel (setLevel { s with order_pool_ := ⟨Function.update s.order_pool_.storage oh (some ⟨id, p, q, Side.BUY, oh, oh⟩), s.order_pool_.freeArr, s.order_pool_.freeCount - 1⟩, level_pool_ := ⟨Function.update s.level_pool_.storage lh (some ⟨p, Side.BUY, u32add 0 q, 1, oh, lh, lh⟩), s.level_pool_.freeArr, s.level_pool_.freeCount - 1⟩, order_map_ := Function.update s.order_map_ (id % MAX_ORDERS) (some oh), price_level_map_ := Function.update s.price_level_map_ (priceToIndex p) (some lh) } lh (fun l => { l with prev := (derefLevel { s with order_pool_ := ⟨Function.update s.order_pool_.storage oh (some ⟨id, p, q, Side.BUY, oh, oh⟩), s.order_pool_.freeArr, s.order_pool_.freeCount - 1⟩, level_pool_ := ⟨Function.update s.level_pool_.storage lh (some ⟨p, Side.BUY, u32add 0 q, 1, oh, lh, lh⟩), s.level_pool_.freeArr, s.level_pool_.freeCount - 1⟩, order_map_ := Function.update s.order_map_ (id % MAX_ORDERS) (some oh), price_level_map_ := Function.update s.price_level_map_ (priceToIndex p) (some lh) } hd).prev, next := hd })) (derefLevel { s with order_pool_ := ⟨Function.update s.order_pool_.storage oh (some ⟨id, p, q, Side.BUY, oh, oh⟩), s.order_pool_.freeArr, s.order_pool_.freeCount - 1⟩, level_pool_ := ⟨Function.update s.level_pool_.storage lh (some ⟨p, Side.BUY, u32add 0 q, 1, oh, lh, lh⟩), s.level_pool_.freeArr, s.level_pool_.freeCount - 1⟩, order_map_ := Function.update s.order_map_ (id % MAX_ORDERS) (some oh), price_level_map_ := Function.update s.price_level_map_ (priceToIndex p) (some lh) } hd).prev (fun l => { l with next := lh })) hd (fun l => { l with prev := lh }) with bids_ := some lh }) k = derefLevel (setLevel (setLevel (setLevel { s with order_pool_ := ⟨Function.update s.order_pool_.storage oh (some ⟨id, p, q, Side.BUY, oh, oh⟩), s.order_pool_.freeArr, s.order_pool_.freeCount - 1⟩, level_pool_ := ⟨Function.update s.level_pool_.storage lh (some ⟨p, Side.BUY, u32add 0 q, 1, oh, lh, lh⟩), s.level_pool_.freeArr, s.level_pool_.freeCount - 1⟩, order_map_ := Function.update s.order_map_ (id % MAX_ORDERS) (some oh), price_level_map_ := Function.update s.price_level_map_ (priceToIndex p) (some lh) } lh (fun l => { l with prev := (derefLevel { s with order_pool_ := ⟨Function.update s.order_pool_.storage oh (some ⟨id, p, q, Side.BUY, oh, oh⟩), s.order_pool_.freeArr, s.order_pool_.freeCount - 1⟩, level_pool_ := ⟨Function.update s.level_pool_.storage lh (some ⟨p, Side.BUY, u32add 0 q, 1, oh, lh, lh⟩), s.level_pool_.freeArr, s.level_pool_.freeCount - 1⟩, order_map_ := Function.update s.order_map_ (id % MAX_ORDERS) (some oh), price_level_map_ := Function.update s.price_level_map_ (priceToIndex p) (some lh) } hd).prev, next := hd })) (derefLevel { s with order_pool_ := ⟨Function.update s.order_pool_.storage oh (some ⟨id, p, q, Side.BUY, oh, oh⟩), s.order_pool_.freeArr, s.order_pool_.freeCount - 1⟩, level_pool_ := ⟨Function.update s.level_pool_.storage lh (some ⟨p, Side.BUY, u32add 0 q, 1, oh, lh, lh⟩), s.level_pool_.freeArr, s.level_pool_.freeCount - 1⟩, order_map_ := Function.update s.order_map_ (id % MAX_ORDERS) (some oh), price_level_map_ := Function.update s.price_level_map_ (priceToIndex p) (some lh) } hd).prev (fun l => { l with next := lh })) hd (fun l => { l with prev := lh })) k := fun k => rfl
  have hFlh : derefLevel ({ setLevel (setLevel (setLevel { s with order_pool_ := ⟨Function.update s.order_pool_.storage oh (some ⟨id, p, q, Side.BUY, oh, oh⟩), s.order_pool_.freeArr, s.order_pool_.freeCount - 1⟩, level_pool_ := ⟨Function.update s.level_pool_.storage lh (some ⟨p, Side.BUY, u32add 0 q, 1, oh, lh, lh⟩), s.level_pool_.freeArr, s.level_pool_.freeCount - 1⟩, order_map_ := Function.update s.order_map_ (id % MAX_ORDERS) (some oh), price_level_map_ := Function.update s.price_level_map_ (priceToIndex p) (some lh) } lh (fun l => { l with prev := (derefLevel { s with order_pool_ := ⟨Function.update s.order_pool_.storage oh (some ⟨id, p, q, Side.BUY, oh, oh⟩), s.order_pool_.freeArr, s.order_pool_.freeCount - 1⟩, level_pool_ := ⟨Function.update s.level_pool_.storage lh (some ⟨p, Side.BUY, u32add 0 q, 1, oh, lh, lh⟩), s.level_pool_.freeArr, s.level_pool_.freeCount - 1⟩, order_map_ := Function.update s.order_map_ (id % MAX_ORDERS) (some oh), price_level_map_ := Function.update s.price_level_map_ (priceToIndex p) (some lh) } hd).prev, next := hd })) (derefLevel { s with order_pool_ := ⟨Function.update s.order_pool_.storage oh (some ⟨id, p, q, Side.BUY, oh, oh⟩), s.order_pool_.freeArr, s.order_pool_.freeCount - 1⟩, level_pool_ := ⟨Function.update s.level_pool_.storage lh (some ⟨p, Side.BUY, u32add 0 q, 1, oh, lh, lh⟩), s.level_pool_.freeArr, s.level_pool_.freeCount - 1⟩, order_map_ := Function.update s.order_map_ (id % MAX_ORDERS) (some oh), price_level_map_ := Function.update s.price_level_map_ (priceToIndex p) (some lh) } hd).prev (fun l => { l with next := lh })) hd (fun l => { l with prev := lh }) with bids_ := some lh }) lh = (⟨p, Side.BUY, u32add 0 q, 1, oh, (derefLevel { s with order_pool_ := ⟨Function.update s.order_pool_.storage oh (some ⟨id, p, q, Side.BUY, oh, oh⟩), s.order_pool_.freeArr, s.order_pool_.freeCount - 1⟩, level_pool_ := ⟨Function.update s.level_pool_.storage lh (some ⟨p, Side.BUY, u32add 0 q, 1, oh, lh, lh⟩), s.level_pool_.freeArr, s.level_pool_.freeCount - 1⟩, order_map_ := Function.update s.order_map_ (id % MAX_ORDERS) (some oh), price_level_map_ := Function.update s.price_level_map_ (priceToIndex p) (some lh) } hd).prev, hd⟩ : PriceLevel) := by
    rw [hderF_L3 lh, derefLevel_setLevel_ne _ _ _ (Ne.symm hhdne),
      derefLevel_setLevel_ne _ _ _ (Ne.symm hTLne), derefLevel_setLevel_same, hT0lh]
  have hfieldsF : ∀ k, k ≠ lh →
      (derefLevel ({ setLevel (setLevel (setLevel { s with order_pool_ := ⟨Function.update s.order_pool_.storage oh (some ⟨id, p, q, Side.BUY, oh, oh⟩), s.order_pool_.freeArr, s.order_pool_.freeCount - 1⟩, level_pool_ := ⟨Function.update s.level_pool_.storage lh (some ⟨p, Side.BUY, u32add 0 q, 1, oh, lh, lh⟩), s.level_pool_.freeArr, s.level_pool_.freeCount - 1⟩, order_map_ := Function.update s.order_map_ (id % MAX_ORDERS) (some oh), price_level_map_ := Function.update s.price_level_map_ (priceToIndex p) (some lh) } lh (fun l => { l with prev := (derefLevel { s with order_pool_ := ⟨Function.update s.order_pool_.storage oh (some ⟨id, p, q, Side.BUY, oh, oh⟩), s.order_pool_.freeArr, s.order_pool_.freeCount - 1⟩, level_pool_ := ⟨Function.update s.level_pool_.storage lh (some ⟨p, Side.BUY, u32add 0 q, 1, oh, lh, lh⟩), s.level_pool_.freeArr, s.level_pool_.freeCount - 1⟩, order_map_ := Function.update s.order_map_ (id % MAX_ORDERS) (some oh), price_level_map_ := Function.update s.price_level_map_ (priceToIndex p) (some lh) } hd).prev, next := hd })) (derefLevel { s with order_pool_ := ⟨Function.update s.order_pool_.storage oh (some ⟨id, p, q, Side.BUY, oh, oh⟩), s.order_pool_.freeArr, s.order_pool_.freeCount - 1⟩, level_pool_ := ⟨Function.update s.level_pool_.storage lh (some ⟨p, Side.BUY, u32add 0 q, 1, oh, lh, lh⟩), s.level_pool_.freeArr, s.level_pool_.freeCount - 1⟩, order_map_ := Function.update s.order_map_ (id % MAX_ORDERS) (some oh), price_level_map_ := Function.update s.price_level_map_ (priceToIndex p) (some lh) } hd).prev (fun l => { l with next := lh })) hd (fun l => { l with prev := lh }) with bids_ := some lh }) k).price = (derefLevel s k).price ∧
      (derefLevel ({ setLevel (setLevel (setLevel { s with order_pool_ := ⟨Function.update s.order_pool_.storage oh (some ⟨id, p, q, Side.BUY, oh, oh⟩), s.order_pool_.freeArr, s.order_pool_.freeCount - 1⟩, level_pool_ := ⟨Function.update s.level_pool_.storage lh (some ⟨p, Side.BUY, u32add 0 q, 1, oh, lh, lh⟩), s.level_pool_.freeArr, s.level_pool_.freeCount - 1⟩, order_map_ := Function.update s.order_map_ (id % MAX_ORDERS) (some oh), price_level_map_ := Function.update s.price_level_map_ (priceToIndex p) (some lh) } lh (fun l => { l with prev := (derefLevel { s with order_pool_ := ⟨Function.update s.order_pool_.storage oh (some ⟨id, p, q, Side.BUY, oh, oh⟩), s.order_pool_.freeArr, s.order_pool_.freeCount - 1⟩, level_pool_ := ⟨Function.update s.level_pool_.storage lh (some ⟨p, Side.BUY, u32add 0 q, 1, oh, lh, lh⟩), s.level_pool_.freeArr, s.level_pool_.freeCount - 1⟩, order_map_ := Function.update s.order_map_ (id % MAX_ORDERS) (some oh), price_level_map_ := Function.update s.price_level_map_ (priceToIndex p) (some lh) } hd).prev, next := hd })) (derefLevel { s with order_pool_ := ⟨Function.update s.order_pool_.storage oh (some ⟨id, p, q, Side.BUY, oh, oh⟩), s.order_pool_.freeArr, s.order_pool_.freeCount - 1⟩, level_pool_ := ⟨Function.update s.level_pool_.storage lh (some ⟨p, Side.BUY, u32add 0 q, 1, oh, lh, lh⟩), s.level_pool_.freeArr, s.level_pool_.freeCount - 1⟩, order_map_ := Function.update s.order_map_ (id % MAX_ORDERS) (some oh), price_level_map_ := Function.update s.price_level_map_ (priceToIndex p) (some lh) } hd).prev (fun l => { l with next := lh })) hd (fun l => { l with prev := lh }) with bids_ := some lh }) k).side = (derefLevel s k).side ∧
      (derefLevel ({ setLevel (setLevel (setLevel { s with order_pool_ := ⟨Function.update s.order_pool_.storage oh (some ⟨id, p, q, Side.BUY, oh, oh⟩), s.order_pool_.freeArr, s.order_pool_.freeCount - 1⟩, level_pool_ := ⟨Function.update s.level_pool_.storage lh (some ⟨p, Side.BUY, u32add 0 q, 1, oh, lh, lh⟩), s.level_pool_.freeArr, s.level_pool_.freeCount - 1⟩, order_map_ := Function.update s.order_map_ (id % MAX_ORDERS) (some oh), price_level_map_ := Function.update s.price_level_map_ (priceToIndex p) (some lh) } lh (fun l => { l with prev := (derefLevel { s with order_pool_ := ⟨Function.update s.order_pool_.storage oh (some ⟨id, p, q, Side.BUY, oh, oh⟩), s.order_pool_.freeArr, s.order_pool_.freeCount - 1⟩, level_pool_ := ⟨Function.update s.level_pool_.storage lh (some ⟨p, Side.BUY, u32add 0 q, 1, oh, lh, lh⟩), s.level_pool_.freeArr, s.level_pool_.freeCount - 1⟩, order_map_ := Function.update s.order_map_ (id % MAX_ORDERS) (some oh), price_level_map_ := Function.update s.price_level_map_ (priceToIndex p) (some lh) } hd).prev, next := hd })) (derefLevel { s with order_pool_ := ⟨Function.update s.order_pool_.storage oh (some ⟨id, p, q, Side.BUY, oh, oh⟩), s.order_pool_.freeArr, s.order_pool_.freeCount - 1⟩, level_pool_ := ⟨Function.update s.level_pool_.storage lh (some ⟨p, Side.BUY, u32add 0 q, 1, oh, lh, lh⟩), s.level_pool_.freeArr, s.level_pool_.freeCount - 1⟩, order_map_ := Function.update s.order_map_ (id % MAX_ORDERS) (some oh), price_level_map_ := Function.update s.price_level_map_ (priceToIndex p) (some lh) } hd).prev (fun l => { l with next := lh })) hd (fun l => { l with prev := lh }) with bids_ := some lh }) k).first_order = (derefLevel s k).first_order ∧
      (derefLevel ({ setLevel (setLevel (setLevel { s with order_pool_ := ⟨Function.update s.order_pool_.storage oh (some ⟨id, p, q, Side.BUY, oh, oh⟩), s.order_pool_.freeArr, s.order_pool_.freeCount - 1⟩, level_pool_ := ⟨Function.update s.level_pool_.storage lh (some ⟨p, Side.BUY, u32add 0 q, 1, oh, lh, lh⟩), s.level_pool_.freeArr, s.level_pool_.freeCount - 1⟩, order_map_ := Function.update s.order_map_ (id % MAX_ORDERS) (some oh), price_level_map_ := Function.update s.price_level_map_ (priceToIndex p) (some lh) } lh (fun l => { l with prev := (derefLevel { s with order_pool_ := ⟨Function.update s.order_pool_.storage oh (some ⟨id, p, q, Side.BUY, oh, oh⟩), s.order_pool_.freeArr, s.order_pool_.freeCount - 1⟩, level_pool_ := ⟨Function.update s.level_pool_.storage lh (some ⟨p, Side.BUY, u32add 0 q, 1, oh, lh, lh⟩), s.level_pool_.freeArr, s.level_pool_.freeCount - 1⟩, order_map_ := Function.update s.order_map_ (id % MAX_ORDERS) (some oh), price_level_map_ := Function.update s.price_level_map_ (priceToIndex p) (some lh) } hd).prev, next := hd })) (derefLevel { s with order_pool_ := ⟨Function.update s.order_pool_.storage oh (some ⟨id, p, q, Side.BUY, oh, oh⟩), s.order_pool_.freeArr, s.order_pool_.freeCount - 1⟩, level_pool_ := ⟨Function.update s.level_pool_.storage lh (some ⟨p, Side.BUY, u32add 0 q, 1, oh, lh, lh⟩), s.level_pool_.freeArr, s.level_pool_.freeCount - 1⟩, order_map_ := Function.update s.order_map_ (id % MAX_ORDERS) (some oh), price_level_map_ := Function.update s.price_level_map_ (priceToIndex p) (some lh) } hd).prev (fun l => { l with next := lh })) hd (fun l => { l with prev := lh }) with bids_ := some lh }) k).order_count = (derefLevel s k).order_count := by
    intro k h1
    rw [hderF_L3 k]
    by_cases h3 : k = hd
    · rw [h3, derefLevel_setLevel_same]
      by_cases h2 : hd = ((derefLevel { s with order_pool_ := ⟨Function.update s.order_pool_.storage oh (some ⟨id, p, q, Side.BUY, oh, oh⟩), s.order_pool_.freeArr, s.order_pool_.freeCount - 1⟩, level_pool_ := ⟨Function.update s.level_pool_.storage lh (some ⟨p, Side.BUY, u32add 0 q, 1, oh, lh, lh⟩), s.level_pool_.freeArr, s.level_pool_.freeCount - 1⟩, order_map_ := Function.update s.order_map_ (id % MAX_ORDERS) (some oh), price_level_map_ := Function.update s.price_level_map_ (priceToIndex p) (some lh) } hd).prev)
      · rw [← h2, derefLevel_setLevel_same, derefLevel_setLevel_ne _ _ _ hhdne, hT0L _ hhdne]
        exact ⟨rfl, rfl, rfl, rfl⟩
      · rw [derefLevel_setLevel_ne _ _ _ h2, derefLevel_setLevel_ne _ _ _ hhdne, hT0L _ hhdne]
        exact ⟨rfl, rfl, rfl, rfl⟩
    · rw [derefLevel_setLevel_ne _ _ _ h3]
      by_cases h2 : k = ((derefLevel { s with order_pool_ := ⟨Function.update s.order_pool_.storage oh (some ⟨id, p, q, Side.BUY, oh, oh⟩), s.order_pool_.freeArr, s.order_pool_.freeCount - 1⟩, level_pool_ := ⟨Function.update s.level_pool_.storage lh (some ⟨p, Side.BUY, u32add 0 q, 1, oh, lh, lh⟩), s.level_pool_.freeArr, s.level_pool_.freeCount - 1⟩, order_map_ := Function.update s.order_map_ (id % MAX_ORDERS) (some oh), price_level_map_ := Function.update s.price_level_map_ (priceToIndex p) (some lh) } hd).prev)
      · rw [h2, derefLevel_setLevel_same, derefLevel_setLevel_ne _ _ _ hTLne, hT0L _ hTLne]
        exact ⟨rfl, rfl, rfl, rfl⟩
      · rw [derefLevel_setLevel_ne _ _ _ h2, derefLevel_setLevel_ne _ _ _ h1, hT0L k h1]
        exact ⟨rfl, rfl, rfl, rfl⟩
  have hnTL : (derefLevel ({ setLevel (setLevel (setLevel { s with order_pool_ := ⟨Function.update s.order_pool_.storage oh (some ⟨id, p, q, Side.BUY, oh, oh⟩), s.order_pool_.freeArr, s.order_pool_.freeCount - 1⟩, level_pool_ := ⟨Function.update s.level_pool_.storage lh (some ⟨p, Side.BUY, u32add 0 q, 1, oh, lh, lh⟩), s.level_pool_.freeArr, s.level_pool_.freeCount - 1⟩, order_map_ := Function.update s.order_map_ (id % MAX_ORDERS) (some oh), price_level_map_ := Function.update s.price_level_map_ (priceToIndex p) (some lh) } lh (fun l => { l with prev := (derefLevel { s with order_pool_ := ⟨Function.update s.order_pool_.storage oh (some ⟨id, p, q, Side.BUY, oh, oh⟩), s.order_pool_.freeArr, s.order_pool_.freeCount - 1⟩, level_pool_ := ⟨Function.update s.level_pool_.storage lh (some ⟨p, Side.BUY, u32add 0 q, 1, oh, lh, lh⟩), s.level_pool_.freeArr, s.level_pool_.freeCount - 1⟩, order_map_ := Function.update s.order_map_ (id % MAX_ORDERS) (some oh), price_level_map_ := Function.update s.price_level_map_ (priceToIndex p) (some lh) } hd).prev, next := hd })) (derefLevel { s with order_pool_ := ⟨Function.update s.order_pool_.storage oh (some ⟨id, p, q, Side.BUY, oh, oh⟩), s.order_pool_.freeArr, s.order_pool_.freeCount - 1⟩, level_pool_ := ⟨Function.update s.level_pool_.storage lh (some ⟨p, Side.BUY, u32add 0 q, 1, oh, lh, lh⟩), s.level_pool_.freeArr, s.level_pool_.freeCount - 1⟩, order_map_ := Function.update s.order_map_ (id % MAX_ORDERS) (some oh), price_level_map_ := Function.update s.price_level_map_ (priceToIndex p) (some lh) } hd).prev (fun l => { l with next := lh })) hd (fun l => { l with prev := lh }) with bids_ := some lh }) ((derefLevel { s with order_pool_ := ⟨Function.update s.order_pool_.storage oh (some ⟨id, p, q, Side.BUY, oh, oh⟩), s.order_pool_.freeArr, s.order_pool_.freeCount - 1⟩, level_pool_ := ⟨Function.update s.level_pool_.storage lh (some ⟨p, Side.BUY, u32add 0 q, 1, oh, lh, lh⟩), s.level_pool_.freeArr, s.level_pool_.freeCount - 1⟩, order_map_ := Function.update s.order_map_ (id % MAX_ORDERS) (some oh), price_level_map_ := Function.update s.price_level_map_ (priceToIndex p) (some lh) } hd).prev)).next = lh := by
    rw [hderF_L3]
    by_cases h3 : ((derefLevel { s with order_pool_ := ⟨Function.update s.order_pool_.storage oh (some ⟨id, p, q, Side.BUY, oh, oh⟩), s.order_pool_.freeArr, s.order_pool_.freeCount - 1⟩, level_pool_ := ⟨Function.update s.level_pool_.storage lh (some ⟨p, Side.BUY, u32add 0 q, 1, oh, lh, lh⟩), s.level_pool_.freeArr, s.level_pool_.freeCount - 1⟩, order_map_ := Function.update s.order_map_ (id % MAX_ORDERS) (some oh), price_level_map_ := Function.update s.price_level_map_ (priceToIndex p) (some lh) } hd).prev) = hd
    · rw [h3, derefLevel_setLevel_same, derefLevel_setLevel_same]
    · rw [derefLevel_setLevel_ne _ _ _ h3, derefLevel_setLevel_same]
  have hpHD : (derefLevel ({ setLevel (setLevel (setLevel { s with order_pool_ := ⟨Function.update s.order_pool_.storage oh (some ⟨id, p, q, Side.BUY, oh, oh⟩), s.order_pool_.freeArr, s.order_pool_.freeCount - 1⟩, level_pool_ := ⟨Function.update s.level_pool_.storage lh (some ⟨p, Side.BUY, u32add 0 q, 1, oh, lh, lh⟩), s.level_pool_.freeArr, s.level_pool_.freeCount - 1⟩, order_map_ := Function.update s.order_map_ (id % MAX_ORDERS) (some oh), price_level_map_ := Function.update s.price_level_map_ (priceToIndex p) (some lh) } lh (fun l => { l with prev := (derefLevel { s with order_pool_ := ⟨Function.update s.order_pool_.storage oh (some ⟨id, p, q, Side.BUY, oh, oh⟩), s.order_pool_.freeArr, s.order_pool_.freeCount - 1⟩, level_pool_ := ⟨Function.update s.level_pool_.storage lh (some ⟨p, Side.BUY, u32add 0 q, 1, oh, lh, lh⟩), s.level_pool_.freeArr, s.level_pool_.freeCount - 1⟩, order_map_ := Function.update s.order_map_ (id % MAX_ORDERS) (some oh), price_level_map_ := Function.update s.price_level_map_ (priceToIndex p) (some lh) } hd).prev, next := hd })) (derefLevel { s with order_pool_ := ⟨Function.update s.order_pool_.storage oh (some ⟨id, p, q, Side.BUY, oh, oh⟩), s.order_pool_.freeArr, s.order_pool_.freeCount - 1⟩, level_pool_ := ⟨Function.update s.level_pool_.storage lh (some ⟨p, Side.BUY, u32add 0 q, 1, oh, lh, lh⟩), s.level_pool_.freeArr, s.level_pool_.freeCount - 1⟩, order_map_ := Function.update s.order_map_ (id % MAX_ORDERS) (some oh), price_level_map_ := Function.update s.price_level_map_ (priceToIndex p) (some lh) } hd).prev (fun l => { l with next := lh })) hd (fun l => { l with prev := lh }) with bids_ := some lh }) hd).prev = lh := by
    rw [hderF_L3, derefLevel_setLevel_same]
  have hrnF : ∀ k, k ≠ lh → k ≠ ((derefLevel { s with order_pool_ := ⟨Function.update s.order_pool_.storage oh (some ⟨id, p, q, Side.BUY, oh, oh⟩), s.order_pool_.freeArr, s.order_pool_.freeCount - 1⟩, level_pool_ := ⟨Function.update s.level_pool_.storage lh (some ⟨p, Side.BUY, u32add 0 q, 1, oh, lh, lh⟩), s.level_pool_.freeArr, s.level_pool_.freeCount - 1⟩, order_map_ := Function.update s.order_map_ (id % MAX_ORDERS) (some oh), price_level_map_ := Function.update s.price_level_map_ (priceToIndex p) (some lh) } hd).prev) →
      (derefLevel ({ setLevel (setLevel (setLevel { s with order_pool_ := ⟨Function.update s.order_pool_.storage oh (some ⟨id, p, q, Side.BUY, oh, oh⟩), s.order_pool_.freeArr, s.order_pool_.freeCount - 1⟩, level_pool_ := ⟨Function.update s.level_pool_.storage lh (some ⟨p, Side.BUY, u32add 0 q, 1, oh, lh, lh⟩), s.level_pool_.freeArr, s.level_pool_.freeCount - 1⟩, order_map_ := Function.update s.order_map_ (id % MAX_ORDERS) (some oh), price_level_map_ := Function.update s.price_level_map_ (priceToIndex p) (some lh) } lh (fun l => { l with prev := (derefLevel { s with order_pool_ := ⟨Function.update s.order_pool_.storage oh (some ⟨id, p, q, Side.BUY, oh, oh⟩), s.order_pool_.freeArr, s.order_pool_.freeCount - 1⟩, level_pool_ := ⟨Function.update s.level_pool_.storage lh (some ⟨p, Side.BUY, u32add 0 q, 1, oh, lh, lh⟩), s.level_pool_.freeArr, s.level_pool_.freeCount - 1⟩, order_map_ := Function.update s.order_map_ (id % MAX_ORDERS) (some oh), price_level_map_ := Function.update s.price_level_map_ (priceToIndex p) (some lh) } hd).prev, next := hd })) (derefLevel { s with order_pool_ := ⟨Function.update s.order_pool_.storage oh (some ⟨id, p, q, Side.BUY, oh, oh⟩), s.order_pool_.freeArr, s.order_pool_.freeCount - 1⟩, level_pool_ := ⟨Function.update s.level_pool_.storage lh (some ⟨p, Side.BUY, u32add 0 q, 1, oh, lh, lh⟩), s.level_pool_.freeArr, s.level_pool_.freeCount - 1⟩, order_map_ := Function.update s.order_map_ (id % MAX_ORDERS) (some oh), price_level_map_ := Function.update s.price_level_map_ (priceToIndex p) (some lh) } hd).prev (fun l => { l with next := lh })) hd (fun l => { l with prev := lh }) with bids_ := some lh }) k).next = (derefLevel s k).next := by
    intro k hkl hkTL
    rw [hderF_L3 k]
    by_cases h3 : k = hd
    · rw [h3, derefLevel_setLevel_same, derefLevel_setLevel_ne _ _ _ (h3 ▸ hkTL),
        derefLevel_setLevel_ne _ _ _ hhdne, hT0L _ hhdne]
    · rw [derefLevel_setLevel_ne _ _ _ h3, derefLevel_setLevel_ne _ _ _ hkTL,
        derefLevel_setLevel_ne _ _ _ hkl, hT0L k hkl]
  have hrpF : ∀ k, k ≠ lh → k ≠ hd →
      (derefLevel ({ setLevel (setLevel (setLevel { s with order_pool_ := ⟨Function.update s.order_pool_.storage oh (some ⟨id, p, q, Side.BUY, oh, oh⟩), s.order_pool_.freeArr, s.order_pool_.freeCount - 1⟩, level_pool_ := ⟨Function.update s.level_pool_.storage lh (some ⟨p, Side.BUY, u32add 0 q, 1, oh, lh, lh⟩), s.level_pool_.freeArr, s.level_pool_.freeCount - 1⟩, order_map_ := Function.update s.order_map_ (id % MAX_ORDERS) (some oh), price_level_map_ := Function.update s.price_level_map_ (priceToIndex p) (some lh) } lh (fun l => { l with prev := (derefLevel { s with order_pool_ := ⟨Function.update s.order_pool_.storage oh (some ⟨id, p, q, Side.BUY, oh, oh⟩), s.order_pool_.freeArr, s.order_pool_.freeCount - 1⟩, level_pool_ := ⟨Function.update s.level_pool_.storage lh (some ⟨p, Side.BUY, u32add 0 q, 1, oh, lh, lh⟩), s.level_pool_.freeArr, s.level_pool_.freeCount - 1⟩, order_map_ := Function.update s.order_map_ (id % MAX_ORDERS) (some oh), price_level_map_ := Function.update s.price_level_map_ (priceToIndex p) (some lh) } hd).prev, next := hd })) (derefLevel { s with order_pool_ := ⟨Function.update s.order_pool_.storage oh (some ⟨id, p, q, Side.BUY, oh, oh⟩), s.order_pool_.freeArr, s.order_pool_.freeCount - 1⟩, level_pool_ := ⟨Function.update s.level_pool_.storage lh (some ⟨p, Side.BUY, u32add 0 q, 1, oh, lh, lh⟩), s.level_pool_.freeArr, s.level_pool_.freeCount - 1⟩, order_map_ := Function.update s.order_map_ (id % MAX_ORDERS) (some oh), price_level_map_ := Function.update s.price_level_map_ (priceToIndex p) (some lh) } hd).prev (fun l => { l with next := lh })) hd (fun l => { l with prev := lh }) with bids_ := some lh }) k).prev = (derefLevel s k).prev := by
    intro k hkl hkhd
    rw [hderF_L3 k, derefLevel_setLevel_ne _ _ _ hkhd]
    by_cases h2 : k = ((derefLevel { s with order_pool_ := ⟨Function.update s.order_pool_.storage oh (some ⟨id, p, q, Side.BUY, oh, oh⟩), s.order_pool_.freeArr, s.order_pool_.freeCount - 1⟩, level_pool_ := ⟨Function.update s.level_pool_.storage lh (some ⟨p, Side.BUY, u32add 0 q, 1, oh, lh, lh⟩), s.level_pool_.freeArr, s.level_pool_.freeCount - 1⟩, order_map_ := Function.update s.order_map_ (id % MAX_ORDERS) (some oh), price_level_map_ := Function.update s.price_level_map_ (priceToIndex p) (some lh) } hd).prev)
    · rw [h2, derefLevel_setLevel_same, derefLevel_setLevel_ne _ _ _ hTLne, hT0L _ hTLne]
    · rw [derefLevel_setLevel_ne _ _ _ h2, derefLevel_setLevel_ne _ _ _ hkl, hT0L k hkl]
  -- level-pool liveness through the chain of writes
  have hS1Llive : ∀ k, (({ s with order_pool_ := ⟨Function.update s.order_pool_.storage oh (some ⟨id, p, q, Side.BUY, oh, oh⟩), s.order_pool_.freeArr, s.order_pool_.freeCount - 1⟩, level_pool_ := ⟨Function.update s.level_pool_.storage lh (some ⟨p, Side.BUY, u32add 0 q, 1, oh, lh, lh⟩), s.level_pool_.freeArr, s.level_pool_.freeCount - 1⟩, order_map_ := Function.update s.order_map_ (id % MAX_ORDERS) (some oh), price_level_map_ := Function.update s.price_level_map_ (priceToIndex p) (some lh) }).level_pool_.storage k).isSome ↔
      ((s.level_pool_.storage k).isSome ∨ k = lh) := by
    intro k
    by_cases hk : k = lh
    · show (Function.update s.level_pool_.storage lh (some ⟨p, Side.BUY, u32add 0 q, 1, oh, lh, lh⟩) k).isSome ↔ _
      rw [hk, Function.update_same]
      simp [hk]
    · show (Function.update s.level_pool_.storage lh (some ⟨p, Side.BUY, u32add 0 q, 1, oh, lh, lh⟩) k).isSome ↔ _
      rw [Function.update_noteq hk]
      simp [hk]
  have hT0lhIsSome : (({ s with order_pool_ := ⟨Function.update s.order_pool_.storage oh (some ⟨id, p, q, Side.BUY, oh, oh⟩), s.order_pool_.freeArr, s.order_pool_.freeCount - 1⟩, level_pool_ := ⟨Function.update s.level_pool_.storage lh (some ⟨p, Side.BUY, u32add 0 q, 1, oh, lh, lh⟩), s.level_pool_.freeArr, s.level_pool_.freeCount - 1⟩, order_map_ := Function.update s.order_map_ (id % MAX_ORDERS) (some oh), price_level_map_ := Function.update s.price_level_map_ (priceToIndex p) (some lh) }).level_pool_.storage lh).isSome := by
    show (Function.update s.level_pool_.storage lh (some ⟨p, Side.BUY, u32add 0 q, 1, oh, lh, lh⟩) lh).isSome
    rw [Function.update_same]
    rfl
  have hlive1 : ∀ k, ((setLevel { s with order_pool_ := ⟨Function.update s.order_pool_.storage oh (some ⟨id, p, q, Side.BUY, oh, oh⟩), s.order_pool_.freeArr, s.order_pool_.freeCount - 1⟩, level_pool_ := ⟨Function.update s.level_pool_.storage lh (some ⟨p, Side.BUY, u32add 0 q, 1, oh, lh, lh⟩), s.level_pool_.freeArr, s.level_pool_.freeCount - 1⟩, order_map_ := Function.update s.order_map_ (id % MAX_ORDERS) (some oh), price_level_map_ := Function.update s.price_level_map_ (priceToIndex p) (some lh) } lh (fun l => { l with prev := (derefLevel { s with order_pool_ := ⟨Function.update s.order_pool_.storage oh (some ⟨id, p, q, Side.BUY, oh, oh⟩), s.order_pool_.freeArr, s.order_pool_.freeCount - 1⟩, level_pool_ := ⟨Function.update s.level_pool_.storage lh (some ⟨p, Side.BUY, u32add 0 q, 1, oh, lh, lh⟩), s.level_pool_.freeArr, s.level_pool_.freeCount - 1⟩, order_map_ := Function.update s.order_map_ (id % MAX_ORDERS) (some oh), price_level_map_ := Function.update s.price_level_map_ (priceToIndex p) (some lh) } hd).prev, next := hd })).level_pool_.storage k).isSome =
      (({ s with order_pool_ := ⟨Function.update s.order_pool_.storage oh (some ⟨id, p, q, Side.BUY, oh, oh⟩), s.order_pool_.freeArr, s.order_pool_.freeCount - 1⟩, level_pool_ := ⟨Function.update s.level_pool_.storage lh (some ⟨p, Side.BUY, u32add 0 q, 1, oh, lh, lh⟩), s.level_pool_.freeArr, s.level_pool_.freeCount - 1⟩, order_map_ := Function.update s.order_map_ (id % MAX_ORDERS) (some oh), price_level_map_ := Function.update s.price_level_map_ (priceToIndex p) (some lh) }).level_pool_.storage k).isSome :=
    setLevel_storage_isSome ({ s with order_pool_ := ⟨Function.update s.order_pool_.storage oh (some ⟨id, p, q, Side.BUY, oh, oh⟩), s.order_pool_.freeArr, s.order_pool_.freeCount - 1⟩, level_pool_ := ⟨Function.update s.level_pool_.storage lh (some ⟨p, Side.BUY, u32add 0 q, 1, oh, lh, lh⟩), s.level_pool_.freeArr, s.level_pool_.freeCount - 1⟩, order_map_ := Function.update s.order_map_ (id % MAX_ORDERS) (some oh), price_level_map_ := Function.update s.price_level_map_ (priceToIndex p) (some lh) }) lh _ hT0lhIsSome
  have hTLliveT0 : (({ s with order_pool_ := ⟨Function.update s.order_pool_.storage oh (some ⟨id, p, q, Side.BUY, oh, oh⟩), s.order_pool_.freeArr, s.order_pool_.freeCount - 1⟩, level_pool_ := ⟨Function.update s.level_pool_.storage lh (some ⟨p, Side.BUY, u32add 0 q, 1, oh, lh, lh⟩), s.level_pool_.freeArr, s.level_pool_.freeCount - 1⟩, order_map_ := Function.update s.order_map_ (id % MAX_ORDERS) (some oh), price_level_map_ := Function.update s.price_level_map_ (priceToIndex p) (some lh) }).level_pool_.storage ((derefLevel { s with order_pool_ := ⟨Function.update s.order_pool_.storage oh (some ⟨id, p, q, Side.BUY, oh, oh⟩), s.order_pool_.freeArr, s.order_pool_.freeCount - 1⟩, level_pool_ := ⟨Function.update s.level_pool_.storage lh (some ⟨p, Side.BUY, u32add 0 q, 1, oh, lh, lh⟩), s.level_pool_.freeArr, s.level_pool_.freeCount - 1⟩, order_map_ := Function.update s.order_map_ (id % MAX_ORDERS) (some oh), price_level_map_ := Function.update s.price_level_map_ (priceToIndex p) (some lh) } hd).prev)).isSome :=
    (hS1Llive _).mpr (Or.inl hTLlive)
  have hTLliveL1 : ((setLevel { s with order_pool_ := ⟨Function.update s.order_pool_.storage oh (some ⟨id, p, q, Side.BUY, oh, oh⟩), s.order_pool_.freeArr, s.order_pool_.freeCount - 1⟩, level_pool_ := ⟨Function.update s.level_pool_.storage lh (some ⟨p, Side.BUY, u32add 0 q, 1, oh, lh, lh⟩), s.level_pool_.freeArr, s.level_pool_.freeCount - 1⟩, order_map_ := Function.update s.order_map_ (id % MAX_ORDERS) (some oh), price_level_map_ := Function.update s.price_level_map_ (priceToIndex p) (some lh) } lh (fun l => { l with prev := (derefLevel { s with order_pool_ := ⟨Function.update s.order_pool_.storage oh (some ⟨id, p, q, Side.BUY, oh, oh⟩), s.order_pool_.freeArr, s.order_pool_.freeCount - 1⟩, level_pool_ := ⟨Function.update s.level_pool_.storage lh (some ⟨p, Side.BUY, u32add 0 q, 1, oh, lh, lh⟩), s.level_pool_.freeArr, s.level_pool_.freeCount - 1⟩, order_map_ := Function.update s.order_map_ (id % MAX_ORDERS) (some oh), price_level_map_ := Function.update s.price_level_map_ (priceToIndex p) (some lh) } hd).prev, next := hd })).level_pool_.storage ((derefLevel { s with order_pool_ := ⟨Function.update s.order_pool_.storage oh (some ⟨id, p, q, Side.BUY, oh, oh⟩), s.order_pool_.freeArr, s.order_pool_.freeCount - 1⟩, level_pool_ := ⟨Function.update s.level_pool_.storage lh (some ⟨p, Side.BUY, u32add 0 q, 1, oh, lh, lh⟩), s.level_pool_.freeArr, s.level_pool_.freeCount - 1⟩, order_map_ := Function.update s.order_map_ (id % MAX_ORDERS) (some oh), price_level_map_ := Function.update s.price_level_map_ (priceToIndex p) (some lh) } hd).prev)).isSome := by
    rw [hlive1]
    exact hTLliveT0
  have hlive2 : ∀ k, ((setLevel (setLevel { s with order_pool_ := ⟨Function.update s.order_pool_.storage oh (some ⟨id, p, q, Side.BUY, oh, oh⟩), s.order_pool_.freeArr, s.order_pool_.freeCount - 1⟩, level_pool_ := ⟨Function.update s.level_pool_.storage lh (some ⟨p, Side.BUY, u32add 0 q, 1, oh, lh, lh⟩), s.level_pool_.freeArr, s.level_pool_.freeCount - 1⟩, order_map_ := Function.update s.order_map_ (id % MAX_ORDERS) (some oh), price_level_map_ := Function.update s.price_level_map_ (priceToIndex p) (some lh) } lh (fun l => { l with prev := (derefLevel { s with order_pool_ := ⟨Function.update s.order_pool_.storage oh (some ⟨id, p, q, Side.BUY, oh, oh⟩), s.order_pool_.freeArr, s.order_pool_.freeCount - 1⟩, level_pool_ := ⟨Function.update s.level_pool_.storage lh (some ⟨p, Side.BUY, u32add 0 q, 1, oh, lh, lh⟩), s.level_pool_.freeArr, s.level_pool_.freeCount - 1⟩, order_map_ := Function.update s.order_map_ (id % MAX_ORDERS) (some oh), price_level_map_ := Function.update s.price_level_map_ (priceToIndex p) (some lh) } hd).prev, next := hd })) (derefLevel { s with order_pool_ := ⟨Function.update s.order_pool_.storage oh (some ⟨id, p, q, Side.BUY, oh, oh⟩), s.order_pool_.freeArr, s.order_pool_.freeCount - 1⟩, level_pool_ := ⟨Function.update s.level_pool_.storage lh (some ⟨p, Side.BUY, u32add 0 q, 1, oh, lh, lh⟩), s.level_pool_.freeArr, s.level_pool_.freeCount - 1⟩, order_map_ := Function.update s.order_map_ (id % MAX_ORDERS) (some oh), price_level_map_ := Function.update s.price_level_map_ (priceToIndex p) (some lh) } hd).prev (fun l => { l with next := lh })).level_pool_.storage k).isSome =
      ((setLevel { s with order_pool_ := ⟨Function.update s.order_pool_.storage oh (some ⟨id, p, q, Side.BUY, oh, oh⟩), s.order_pool_.freeArr, s.order_pool_.freeCount - 1⟩, level_pool_ := ⟨Function.update s.level_pool_.storage lh (some ⟨p, Side.BUY, u32add 0 q, 1, oh, lh, lh⟩), s.level_pool_.freeArr, s.level_pool_.freeCount - 1⟩, order_map_ := Function.update s.order_map_ (id % MAX_ORDERS) (some oh), price_level_map_ := Function.update s.price_level_map_ (priceToIndex p) (some lh) } lh (fun l => { l with prev := (derefLevel { s with order_pool_ := ⟨Function.update s.order_pool_.storage oh (some ⟨id, p, q, Side.BUY, oh, oh⟩), s.order_pool_.freeArr, s.order_pool_.freeCount - 1⟩, level_pool_ := ⟨Function.update s.level_pool_.storage lh (some ⟨p, Side.BUY, u32add 0 q, 1, oh, lh, lh⟩), s.level_pool_.freeArr, s.level_pool_.freeCount - 1⟩, order_map_ := Function.update s.order_map_ (id % MAX_ORDERS) (some oh), price_level_map_ := Function.update s.price_level_map_ (priceToIndex p) (some lh) } hd).prev, next := hd })).level_pool_.storage k).isSome :=
    setLevel_storage_isSome (setLevel { s with order_pool_ := ⟨Function.update s.order_pool_.storage oh (some ⟨id, p, q, Side.BUY, oh, oh⟩), s.order_pool_.freeArr, s.order_pool_.freeCount - 1⟩, level_pool_ := ⟨Function.update s.level_pool_.storage lh (some ⟨p, Side.BUY, u32add 0 q, 1, oh, lh, lh⟩), s.level_pool_.freeArr, s.level_pool_.freeCount - 1⟩, order_map_ := Function.update s.order_map_ (id % MAX_ORDERS) (some oh), price_level_map_ := Function.update s.price_level_map_ (priceToIndex p) (some lh) } lh (fun l => { l with prev := (derefLevel { s with order_pool_ := ⟨Function.update s.order_pool_.storage oh (some ⟨id, p, q, Side.BUY, oh, oh⟩), s.order_pool_.freeArr, s.order_pool_.freeCount - 1⟩, level_pool_ := ⟨Function.update s.level_pool_.storage lh (some ⟨p, Side.BUY, u32add 0 q, 1, oh, lh, lh⟩), s.level_pool_.freeArr, s.level_pool_.freeCount - 1⟩, order_map_ := Function.update s.order_map_ (id % MAX_ORDERS) (some oh), price_level_map_ := Function.update s.price_level_map_ (priceToIndex p) (some lh) } hd).prev, next := hd })) ((derefLevel { s with order_pool_ := ⟨Function.update s.order_pool_.storage oh (some ⟨id, p, q, Side.BUY, oh, oh⟩), s.order_pool_.freeArr, s.order_pool_.freeCount - 1⟩, level_pool_ := ⟨Function.update s.level_pool_.storage lh (some ⟨p, Side.BUY, u32add 0 q, 1, oh, lh, lh⟩), s.level_pool_.freeArr, s.level_pool_.freeCount - 1⟩, order_map_ := Function.update s.order_map_ (id % MAX_ORDERS) (some oh), price_level_map_ := Function.update s.price_level_map_ (priceToIndex p) (some lh) } hd).prev) _ hTLliveL1
  have hhdliveT0 : (({ s with order_pool_ := ⟨Function.update s.order_pool_.storage oh (some ⟨id, p, q, Side.BUY, oh, oh⟩), s.order_pool_.freeArr, s.order_pool_.freeCount - 1⟩, level_pool_ := ⟨Function.update s.level_pool_.storage lh (some ⟨p, Side.BUY, u32add 0 q, 1, oh, lh, lh⟩), s.level_pool_.freeArr, s.level_pool_.freeCount - 1⟩, order_map_ := Function.update s.order_map_ (id % MAX_ORDERS) (some oh), price_level_map_ := Function.update s.price_level_map_ (priceToIndex p) (some lh) }).level_pool_.storage hd).isSome :=
    (hS1Llive _).mpr (Or.inl hhdlive)
  have hhdliveL2 : ((setLevel (setLevel { s with order_pool_ := ⟨Function.update s.order_pool_.storage oh (some ⟨id, p, q, Side.BUY, oh, oh⟩), s.order_pool_.freeArr, s.order_pool_.freeCount - 1⟩, level_pool_ := ⟨Function.update s.level_pool_.storage lh (some ⟨p, Side.BUY, u32add 0 q, 1, oh, lh, lh⟩), s.level_pool_.freeArr, s.level_pool_.freeCount - 1⟩, order_map_ := Function.update s.order_map_ (id % MAX_ORDERS) (some oh), price_level_map_ := Function.update s.price_level_map_ (priceToIndex p) (some lh) } lh (fun l => { l with prev := (derefLevel { s with order_pool_ := ⟨Function.update s.order_pool_.storage oh (some ⟨id, p, q, Side.BUY, oh, oh⟩), s.order_pool_.freeArr, s.order_pool_.freeCount - 1⟩, level_pool_ := ⟨Function.update s.level_pool_.storage lh (some ⟨p, Side.BUY, u32add 0 q, 1, oh, lh, lh⟩), s.level_pool_.freeArr, s.level_pool_.freeCount - 1⟩, order_map_ := Function.update s.order_map_ (id % MAX_ORDERS) (some oh), price_level_map_ := Function.update s.price_level_map_ (priceToIndex p) (some lh) } hd).prev, next := hd })) (derefLevel { s with order_pool_ := ⟨Function.update s.order_pool_.storage oh (some ⟨id, p, q, Side.BUY, oh, oh⟩), s.order_pool_.freeArr, s.order_pool_.freeCount - 1⟩, level_pool_ := ⟨Function.update s.level_pool_.storage lh (some ⟨p, Side.BUY, u32add 0 q, 1, oh, lh, lh⟩), s.level_pool_.freeArr, s.level_pool_.freeCount - 1⟩, order_map_ := Function.update s.order_map_ (id % MAX_ORDERS) (some oh), price_level_map_ := Function.update s.price_level_map_ (priceToIndex p) (some lh) } hd).prev (fun l => { l with next := lh })).level_pool_.storage hd).isSome := by
    rw [hlive2, hlive1]
    exact hhdliveT0
  have hlive3 : ∀ k, ((setLevel (setLevel (setLevel { s with order_pool_ := ⟨Function.update s.order_pool_.storage oh (some ⟨id, p, q, Side.BUY, oh, oh⟩), s.order_pool_.freeArr, s.order_pool_.freeCount - 1⟩, level_pool_ := ⟨Function.update s.level_pool_.storage lh (some ⟨p, Side.BUY, u32add 0 q, 1, oh, lh, lh⟩), s.level_pool_.freeArr, s.level_pool_.freeCount - 1⟩, order_map_ := Function.update s.order_map_ (id % MAX_ORDERS) (some oh), price_level_map_ := Function.update s.price_level_map_ (priceToIndex p) (some lh) } lh (fun l => { l with prev := (derefLevel { s with order_pool_ := ⟨Function.update s.order_pool_.storage oh (some ⟨id, p, q, Side.BUY, oh, oh⟩), s.order_pool_.freeArr, s.order_pool_.freeCount - 1⟩, level_pool_ := ⟨Function.update s.level_pool_.storage lh (some ⟨p, Side.BUY, u32add 0 q, 1, oh, lh, lh⟩), s.level_pool_.freeArr, s.level_pool_.freeCount - 1⟩, order_map_ := Function.update s.order_map_ (id % MAX_ORDERS) (some oh), price_level_map_ := Function.update s.price_level_map_ (priceToIndex p) (some lh) } hd).prev, next := hd })) (derefLevel { s with order_pool_ := ⟨Function.update s.order_pool_.storage oh (some ⟨id, p, q, Side.BUY, oh, oh⟩), s.order_pool_.freeArr, s.order_pool_.freeCount - 1⟩, level_pool_ := ⟨Function.update s.level_pool_.storage lh (some ⟨p, Side.BUY, u32add 0 q, 1, oh, lh, lh⟩), s.level_pool_.freeArr, s.level_pool_.freeCount - 1⟩, order_map_ := Function.update s.order_map_ (id % MAX_ORDERS) (some oh), price_level_map_ := Function.update s.price_level_map_ (priceToIndex p) (some lh) } hd).prev (fun l => { l with next := lh })) hd (fun l => { l with prev := lh })).level_pool_.storage k).isSome =
      ((setLevel (setLevel { s with order_pool_ := ⟨Function.update s.order_pool_.storage oh (some ⟨id, p, q, Side.BUY, oh, oh⟩), s.order_pool_.freeArr, s.order_pool_.freeCount - 1⟩, level_pool_ := ⟨Function.update s.level_pool_.storage lh (some ⟨p, Side.BUY, u32add 0 q, 1, oh, lh, lh⟩), s.level_pool_.freeArr, s.level_pool_.freeCount - 1⟩, order_map_ := Function.update s.order_map_ (id % MAX_ORDERS) (some oh), price_level_map_ := Function.update s.price_level_map_ (priceToIndex p) (some lh) } lh (fun l => { l with prev := (derefLevel { s with order_pool_ := ⟨Function.update s.order_pool_.storage oh (some ⟨id, p, q, Side.BUY, oh, oh⟩), s.order_pool_.freeArr, s.order_pool_.freeCount - 1⟩, level_pool_ := ⟨Function.update s.level_pool_.storage lh (some ⟨p, Side.BUY, u32add 0 q, 1, oh, lh, lh⟩), s.level_pool_.freeArr, s.level_pool_.freeCount - 1⟩, order_map_ := Function.update s.order_map_ (id % MAX_ORDERS) (some oh), price_level_map_ := Function.update s.price_level_map_ (priceToIndex p) (some lh) } hd).prev, next := hd })) (derefLevel { s with order_pool_ := ⟨Function.update s.order_pool_.storage oh (some ⟨id, p, q, Side.BUY, oh, oh⟩), s.order_pool_.freeArr, s.order_pool_.freeCount - 1⟩, level_pool_ := ⟨Function.update s.level_pool_.storage lh (some ⟨p, Side.BUY, u32add 0 q, 1, oh, lh, lh⟩), s.level_pool_.freeArr, s.level_pool_.freeCount - 1⟩, order_map_ := Function.update s.order_map_ (id % MAX_ORDERS) (some oh), price_level_map_ := Function.update s.price_level_map_ (priceToIndex p) (some lh) } hd).prev (fun l => { l with next := lh })).level_pool_.storage k).isSome :=
    setLevel_storage_isSome (setLevel (setLevel { s with order_pool_ := ⟨Function.update s.order_pool_.storage oh (some ⟨id, p, q, Side.BUY, oh, oh⟩), s.order_pool_.freeArr, s.order_pool_.freeCount - 1⟩, level_pool_ := ⟨Function.update s.level_pool_.storage lh (some ⟨p, Side.BUY, u32add 0 q, 1, oh, lh, lh⟩), s.level_pool_.freeArr, s.level_pool_.freeCount - 1⟩, order_map_ := Function.update s.order_map_ (id % MAX_ORDERS) (some oh), price_level_map_ := Function.update s.price_level_map_ (priceToIndex p) (some lh) } lh (fun l => { l with prev := (derefLevel { s with order_pool_ := ⟨Function.update s.order_pool_.storage oh (some ⟨id, p, q, Side.BUY, oh, oh⟩), s.order_pool_.freeArr, s.order_pool_.freeCount - 1⟩, level_pool_ := ⟨Function.update s.level_pool_.storage lh (some ⟨p, Side.BUY, u32add 0 q, 1, oh, lh, lh⟩), s.level_pool_.freeArr, s.level_pool_.freeCount - 1⟩, order_map_ := Function.update s.order_map_ (id % MAX_ORDERS) (some oh), price_level_map_ := Function.update s.price_level_map_ (priceToIndex p) (some lh) } hd).prev, next := hd })) (derefLevel { s with order_pool_ := ⟨Function.update s.order_pool_.storage oh (some ⟨id, p, q, Side.BUY, oh, oh⟩), s.order_pool_.freeArr, s.order_pool_.freeCount - 1⟩, level_pool_ := ⟨Function.update s.level_pool_.storage lh (some ⟨p, Side.BUY, u32add 0 q, 1, oh, lh, lh⟩), s.level_pool_.freeArr, s.level_pool_.freeCount - 1⟩, order_map_ := Function.update s.order_map_ (id % MAX_ORDERS) (some oh), price_level_map_ := Function.update s.price_level_map_ (priceToIndex p) (some lh) } hd).prev (fun l => { l with next := lh })) hd _ hhdliveL2
  have hliveLF : ∀ k, (({ setLevel (setLevel (setLevel { s with order_pool_ := ⟨Function.update s.order_pool_.storage oh (some ⟨id, p, q, Side.BUY, oh, oh⟩), s.order_pool_.freeArr, s.order_pool_.freeCount - 1⟩, level_pool_ := ⟨Function.update s.level_pool_.storage lh (some ⟨p, Side.BUY, u32add 0 q, 1, oh, lh, lh⟩), s.level_pool_.freeArr, s.level_pool_.freeCount - 1⟩, order_map_ := Function.update s.order_map_ (id % MAX_ORDERS) (some oh), price_level_map_ := Function.update s.price_level_map_ (priceToIndex p) (some lh) } lh (fun l => { l with prev := (derefLevel { s with order_pool_ := ⟨Function.update s.order_pool_.storage oh (some ⟨id, p, q, Side.BUY, oh, oh⟩), s.order_pool_.freeArr, s.order_pool_.freeCount - 1⟩, level_pool_ := ⟨Function.update s.level_pool_.storage lh (some ⟨p, Side.BUY, u32add 0 q, 1, oh, lh, lh⟩), s.level_pool_.freeArr, s.level_pool_.freeCount - 1⟩, order_map_ := Function.update s.order_map_ (id % MAX_ORDERS) (some oh), price_level_map_ := Function.update s.price_level_map_ (priceToIndex p) (some lh) } hd).prev, next := hd })) (derefLevel { s with order_pool_ := ⟨Function.update s.order_pool_.storage oh (some ⟨id, p, q, Side.BUY, oh, oh⟩), s.order_pool_.freeArr, s.order_pool_.freeCount - 1⟩, level_pool_ := ⟨Function.update s.level_pool_.storage lh (some ⟨p, Side.BUY, u32add 0 q, 1, oh, lh, lh⟩), s.level_pool_.freeArr, s.level_pool_.freeCount - 1⟩, order_map_ := Function.update s.order_map_ (id % MAX_ORDERS) (some oh), price_level_map_ := Function.update s.price_level_map_ (priceToIndex p) (some lh) } hd).prev (fun l => { l with next := lh })) hd (fun l => { l with prev := lh }) with bids_ := some lh }).level_pool_.storage k).isSome =
      (({ s with order_pool_ := ⟨Function.update s.order_pool_.storage oh (some ⟨id, p, q, Side.BUY, oh, oh⟩), s.order_pool_.freeArr, s.order_pool_.freeCount - 1⟩, level_pool_ := ⟨Function.update s.level_pool_.storage lh (some ⟨p, Side.BUY, u32add 0 q, 1, oh, lh, lh⟩), s.level_pool_.freeArr, s.level_pool_.freeCount - 1⟩, order_map_ := Function.update s.order_map_ (id % MAX_ORDERS) (some oh), price_level_map_ := Function.update s.price_level_map_ (priceToIndex p) (some lh) }).level_pool_.storage k).isSome := by
    intro k
    show ((setLevel (setLevel (setLevel { s with order_pool_ := ⟨Function.update s.order_pool_.storage oh (some ⟨id, p, q, Side.BUY, oh, oh⟩), s.order_pool_.freeArr, s.order_pool_.freeCount - 1⟩, level_pool_ := ⟨Function.update s.level_pool_.storage lh (some ⟨p, Side.BUY, u32add 0 q, 1, oh, lh, lh⟩), s.level_pool_.freeArr, s.level_pool_.freeCount - 1⟩, order_map_ := Function.update s.order_map_ (id % MAX_ORDERS) (some oh), price_level_map_ := Function.update s.price_level_map_ (priceToIndex p) (some lh) } lh (fun l => { l with prev := (derefLevel { s with order_pool_ := ⟨Function.update s.order_pool_.storage oh (some ⟨id, p, q, Side.BUY, oh, oh⟩), s.order_pool_.freeArr, s.order_pool_.freeCount - 1⟩, level_pool_ := ⟨Function.update s.level_pool_.storage lh (some ⟨p, Side.BUY, u32add 0 q, 1, oh, lh, lh⟩), s.level_pool_.freeArr, s.level_pool_.freeCount - 1⟩, order_map_ := Function.update s.order_map_ (id % MAX_ORDERS) (some oh), price_level_map_ := Function.update s.price_level_map_ (priceToIndex p) (some lh) } hd).prev, next := hd })) (derefLevel { s with order_pool_ := ⟨Function.update s.order_pool_.storage oh (some ⟨id, p, q, Side.BUY, oh, oh⟩), s.order_pool_.freeArr, s.order_pool_.freeCount - 1⟩, level_pool_ := ⟨Function.update s.level_pool_.storage lh (some ⟨p, Side.BUY, u32add 0 q, 1, oh, lh, lh⟩), s.level_pool_.freeArr, s.level_pool_.freeCount - 1⟩, order_map_ := Function.update s.order_map_ (id % MAX_ORDERS) (some oh), price_level_map_ := Function.update s.price_level_map_ (priceToIndex p) (some lh) } hd).prev (fun l => { l with next := lh })) hd (fun l => { l with prev := lh })).level_pool_.storage k).isSome = _
    rw [hlive3 k, hlive2 k, hlive1 k]
  -- the extended side cycle
  have hlhnotmem : lh ∉ G.bidsL := by
    intro hm
    exact hnotlh lh ((hwf.levels.lvlLive lh).mpr (List.mem_append.mpr (Or.inl hm))) rfl
  have hsnoc := cycle_snoc_update
    (fun k => (derefLevel s k).next) (fun k => (derefLevel s k).prev)
    (fun k => (derefLevel ({ setLevel (setLevel (setLevel { s with order_pool_ := ⟨Function.update s.order_pool_.storage oh (some ⟨id, p, q, Side.BUY, oh, oh⟩), s.order_pool_.freeArr, s.order_pool_.freeCount - 1⟩, level_pool_ := ⟨Function.update s.level_pool_.storage lh (some ⟨p, Side.BUY, u32add 0 q, 1, oh, lh, lh⟩), s.level_pool_.freeArr, s.level_pool_.freeCount - 1⟩, order_map_ := Function.update s.order_map_ (id % MAX_ORDERS) (some oh), price_level_map_ := Function.update s.price_level_map_ (priceToIndex p) (some lh) } lh (fun l => { l with prev := (derefLevel { s with order_pool_ := ⟨Function.update s.order_pool_.storage oh (some ⟨id, p, q, Side.BUY, oh, oh⟩), s.order_pool_.freeArr, s.order_pool_.freeCount - 1⟩, level_pool_ := ⟨Function.update s.level_pool_.storage lh (some ⟨p, Side.BUY, u32add 0 q, 1, oh, lh, lh⟩), s.level_pool_.freeArr, s.level_pool_.freeCount - 1⟩, order_map_ := Function.update s.order_map_ (id % MAX_ORDERS) (some oh), price_level_map_ := Function.update s.price_level_map_ (priceToIndex p) (some lh) } hd).prev, next := hd })) (derefLevel { s with order_pool_ := ⟨Function.update s.order_pool_.storage oh (some ⟨id, p, q, Side.BUY, oh, oh⟩), s.order_pool_.freeArr, s.order_pool_.freeCount - 1⟩, level_pool_ := ⟨Function.update s.level_pool_.storage lh (some ⟨p, Side.BUY, u32add 0 q, 1, oh, lh, lh⟩), s.level_pool_.freeArr, s.level_pool_.freeCount - 1⟩, order_map_ := Function.update s.order_map_ (id % MAX_ORDERS) (some oh), price_level_map_ := Function.update s.price_level_map_ (priceToIndex p) (some lh) } hd).prev (fun l => { l with next := lh })) hd (fun l => { l with prev := lh }) with bids_ := some lh }) k).next) (fun k => (derefLevel ({ setLevel (setLevel (setLevel { s with order_pool_ := ⟨Function.update s.order_pool_.storage oh (some ⟨id, p, q, Side.BUY, oh, oh⟩), s.order_pool_.freeArr, s.order_pool_.freeCount - 1⟩, level_pool_ := ⟨Function.update s.level_pool_.storage lh (some ⟨p, Side.BUY, u32add 0 q, 1, oh, lh, lh⟩), s.level_pool_.freeArr, s.level_pool_.freeCount - 1⟩, order_map_ := Function.update s.order_map_ (id % MAX_ORDERS) (some oh), price_level_map_ := Function.update s.price_level_map_ (priceToIndex p) (some lh) } lh (fun l => { l with prev := (derefLevel { s with order_pool_ := ⟨Function.update s.order_pool_.storage oh (some ⟨id, p, q, Side.BUY, oh, oh⟩), s.order_pool_.freeArr, s.order_pool_.freeCount - 1⟩, level_pool_ := ⟨Function.update s.level_pool_.storage lh (some ⟨p, Side.BUY, u32add 0 q, 1, oh, lh, lh⟩), s.level_pool_.freeArr, s.level_pool_.freeCount - 1⟩, order_map_ := Function.update s.order_map_ (id % MAX_ORDERS) (some oh), price_level_map_ := Function.update s.price_level_map_ (priceToIndex p) (some lh) } hd).prev, next := hd })) (derefLevel { s with order_pool_ := ⟨Function.update s.order_pool_.storage oh (some ⟨id, p, q, Side.BUY, oh, oh⟩), s.order_pool_.freeArr, s.order_pool_.freeCount - 1⟩, level_pool_ := ⟨Function.update s.level_pool_.storage lh (some ⟨p, Side.BUY, u32add 0 q, 1, oh, lh, lh⟩), s.level_pool_.freeArr, s.level_pool_.freeCount - 1⟩, order_map_ := Function.update s.order_map_ (id % MAX_ORDERS) (some oh), price_level_map_ := Function.update s.price_level_map_ (priceToIndex p) (some lh) } hd).prev (fun l => { l with next := lh })) hd (fun l => { l with prev := lh }) with bids_ := some lh }) k).prev)
    hwf.levels.bidsCyc hndB hlhnotmem hheadB
    (by show (derefLevel ({ setLevel (setLevel (setLevel { s with order_pool_ := ⟨Function.update s.order_pool_.storage oh (some ⟨id, p, q, Side.BUY, oh, oh⟩), s.order_pool_.freeArr, s.order_pool_.freeCount - 1⟩, level_pool_ := ⟨Function.update s.level_pool_.storage lh (some ⟨p, Side.BUY, u32add 0 q, 1, oh, lh, lh⟩), s.level_pool_.freeArr, s.level_pool_.freeCount - 1⟩, order_map_ := Function.update s.order_map_ (id % MAX_ORDERS) (some oh), price_level_map_ := Function.update s.price_level_map_ (priceToIndex p) (some lh) } lh (fun l => { l with prev := (derefLevel { s with order_pool_ := ⟨Function.update s.order_pool_.storage oh (some ⟨id, p, q, Side.BUY, oh, oh⟩), s.order_pool_.freeArr, s.order_pool_.freeCount - 1⟩, level_pool_ := ⟨Function.update s.level_pool_.storage lh (some ⟨p, Side.BUY, u32add 0 q, 1, oh, lh, lh⟩), s.level_pool_.freeArr, s.level_pool_.freeCount - 1⟩, order_map_ := Function.update s.order_map_ (id % MAX_ORDERS) (some oh), price_level_map_ := Function.update s.price_level_map_ (priceToIndex p) (some lh) } hd).prev, next := hd })) (derefLevel { s with order_pool_ := ⟨Function.update s.order_pool_.storage oh (some ⟨id, p, q, Side.BUY, oh, oh⟩), s.order_pool_.freeArr, s.order_pool_.freeCount - 1⟩, level_pool_ := ⟨Function.update s.level_pool_.storage lh (some ⟨p, Side.BUY, u32add 0 q, 1, oh, lh, lh⟩), s.level_pool_.freeArr, s.level_pool_.freeCount - 1⟩, order_map_ := Function.update s.order_map_ (id % MAX_ORDERS) (some oh), price_level_map_ := Function.update s.price_level_map_ (priceToIndex p) (some lh) } hd).prev (fun l => { l with next := lh })) hd (fun l => { l with prev := lh }) with bids_ := some lh }) ((derefLevel s hd).prev)).next = lh
        rw [← hTLeq]
        exact hnTL)
    (by show (derefLevel ({ setLevel (setLevel (setLevel { s with order_pool_ := ⟨Function.update s.order_pool_.storage oh (some ⟨id, p, q, Side.BUY, oh, oh⟩), s.order_pool_.freeArr, s.order_pool_.freeCount - 1⟩, level_pool_ := ⟨Function.update s.level_pool_.storage lh (some ⟨p, Side.BUY, u32add 0 q, 1, oh, lh, lh⟩), s.level_pool_.freeArr, s.level_pool_.freeCount - 1⟩, order_map_ := Function.update s.order_map_ (id % MAX_ORDERS) (some oh), price_level_map_ := Function.update s.price_level_map_ (priceToIndex p) (some lh) } lh (fun l => { l with prev := (derefLevel { s with order_pool_ := ⟨Function.update s.order_pool_.storage oh (some ⟨id, p, q, Side.BUY, oh, oh⟩), s.order_pool_.freeArr, s.order_pool_.freeCount - 1⟩, level_pool_ := ⟨Function.update s.level_pool_.storage lh (some ⟨p, Side.BUY, u32add 0 q, 1, oh, lh, lh⟩), s.level_pool_.freeArr, s.level_pool_.freeCount - 1⟩, order_map_ := Function.update s.order_map_ (id % MAX_ORDERS) (some oh), price_level_map_ := Function.update s.price_level_map_ (priceToIndex p) (some lh) } hd).prev, next := hd })) (derefLevel { s with order_pool_ := ⟨Function.update s.order_pool_.storage oh (some ⟨id, p, q, Side.BUY, oh, oh⟩), s.order_pool_.freeArr, s.order_pool_.freeCount - 1⟩, level_pool_ := ⟨Function.update s.level_pool_.storage lh (some ⟨p, Side.BUY, u32add 0 q, 1, oh, lh, lh⟩), s.level_pool_.freeArr, s.level_pool_.freeCount - 1⟩, order_map_ := Function.update s.order_map_ (id % MAX_ORDERS) (some oh), price_level_map_ := Function.update s.price_level_map_ (priceToIndex p) (some lh) } hd).prev (fun l => { l with next := lh })) hd (fun l => { l with prev := lh }) with bids_ := some lh }) lh).prev = (derefLevel s hd).prev
        rw [hFlh, hTLeq])
    (by show (derefLevel ({ setLevel (setLevel (setLevel { s with order_pool_ := ⟨Function.update s.order_pool_.storage oh (some ⟨id, p, q, Side.BUY, oh, oh⟩), s.order_pool_.freeArr, s.order_pool_.freeCount - 1⟩, level_pool_ := ⟨Function.update s.level_pool_.storage lh (some ⟨p, Side.BUY, u32add 0 q, 1, oh, lh, lh⟩), s.level_pool_.freeArr, s.level_pool_.freeCount - 1⟩, order_map_ := Function.update s.order_map_ (id % MAX_ORDERS) (some oh), price_level_map_ := Function.update s.price_level_map_ (priceToIndex p) (some lh) } lh (fun l => { l with prev := (derefLevel { s with order_pool_ := ⟨Function.update s.order_pool_.storage oh (some ⟨id, p, q, Side.BUY, oh, oh⟩), s.order_pool_.freeArr, s.order_pool_.freeCount - 1⟩, level_pool_ := ⟨Function.update s.level_pool_.storage lh (some ⟨p, Side.BUY, u32add 0 q, 1, oh, lh, lh⟩), s.level_pool_.freeArr, s.level_pool_.freeCount - 1⟩, order_map_ := Function.update s.order_map_ (id % MAX_ORDERS) (some oh), price_level_map_ := Function.update s.price_level_map_ (priceToIndex p) (some lh) } hd).prev, next := hd })) (derefLevel { s with order_pool_ := ⟨Function.update s.order_pool_.storage oh (some ⟨id, p, q, Side.BUY, oh, oh⟩), s.order_pool_.freeArr, s.order_pool_.freeCount - 1⟩, level_pool_ := ⟨Function.update s.level_pool_.storage lh (some ⟨p, Side.BUY, u32add 0 q, 1, oh, lh, lh⟩), s.level_pool_.freeArr, s.level_pool_.freeCount - 1⟩, order_map_ := Function.update s.order_map_ (id % MAX_ORDERS) (some oh), price_level_map_ := Function.update s.price_level_map_ (priceToIndex p) (some lh) } hd).prev (fun l => { l with next := lh })) hd (fun l => { l with prev := lh }) with bids_ := some lh }) lh).next = hd
        rw [hFlh])
    (by show (derefLevel ({ setLevel (setLevel (setLevel { s with order_pool_ := ⟨Function.update s.order_pool_.storage oh (some ⟨id, p, q, Side.BUY, oh, oh⟩), s.order_pool_.freeArr, s.order_pool_.freeCount - 1⟩, level_pool_ := ⟨Function.update s.level_pool_.storage lh (some ⟨p, Side.BUY, u32add 0 q, 1, oh, lh, lh⟩), s.level_pool_.freeArr, s.level_pool_.freeCount - 1⟩, order_map_ := Function.update s.order_map_ (id % MAX_ORDERS) (some oh), price_level_map_ := Function.update s.price_level_map_ (priceToIndex p) (some lh) } lh (fun l => { l with prev := (derefLevel { s with order_pool_ := ⟨Function.update s.order_pool_.storage oh (some ⟨id, p, q, Side.BUY, oh, oh⟩), s.order_pool_.freeArr, s.order_pool_.freeCount - 1⟩, level_pool_ := ⟨Function.update s.level_pool_.storage lh (some ⟨p, Side.BUY, u32add 0 q, 1, oh, lh, lh⟩), s.level_pool_.freeArr, s.level_pool_.freeCount - 1⟩, order_map_ := Function.update s.order_map_ (id % MAX_ORDERS) (some oh), price_level_map_ := Function.update s.price_level_map_ (priceToIndex p) (some lh) } hd).prev, next := hd })) (derefLevel { s with order_pool_ := ⟨Function.update s.order_pool_.storage oh (some ⟨id, p, q, Side.BUY, oh, oh⟩), s.order_pool_.freeArr, s.order_pool_.freeCount - 1⟩, level_pool_ := ⟨Function.update s.level_pool_.storage lh (some ⟨p, Side.BUY, u32add 0 q, 1, oh, lh, lh⟩), s.level_pool_.freeArr, s.level_pool_.freeCount - 1⟩, order_map_ := Function.update s.order_map_ (id % MAX_ORDERS) (some oh), price_level_map_ := Function.update s.price_level_map_ (priceToIndex p) (some lh) } hd).prev (fun l => { l with next := lh })) hd (fun l => { l with prev := lh }) with bids_ := some lh }) hd).prev = lh
        exact hpHD)
    (fun k hk hkp => by
      show (derefLevel ({ setLevel (setLevel (setLevel { s with order_pool_ := ⟨Function.update s.order_pool_.storage oh (some ⟨id, p, q, Side.BUY, oh, oh⟩), s.order_pool_.freeArr, s.order_pool_.freeCount - 1⟩, level_pool_ := ⟨Function.update s.level_pool_.storage lh (some ⟨p, Side.BUY, u32add 0 q, 1, oh, lh, lh⟩), s.level_pool_.freeArr, s.level_pool_.freeCount - 1⟩, order_map_ := Function.update s.order_map_ (id % MAX_ORDERS) (some oh), price_level_map_ := Function.update s.price_level_map_ (priceToIndex p) (some lh) } lh (fun l => { l with prev := (derefLevel { s with order_pool_ := ⟨Function.update s.order_pool_.storage oh (some ⟨id, p, q, Side.BUY, oh, oh⟩), s.order_pool_.freeArr, s.order_pool_.freeCount - 1⟩, level_pool_ := ⟨Function.update s.level_pool_.storage lh (some ⟨p, Side.BUY, u32add 0 q, 1, oh, lh, lh⟩), s.level_pool_.freeArr, s.level_pool_.freeCount - 1⟩, order_map_ := Function.update s.order_map_ (id % MAX_ORDERS) (some oh), price_level_map_ := Function.update s.price_level_map_ (priceToIndex p) (some lh) } hd).prev, next := hd })) (derefLevel { s with order_pool_ := ⟨Function.update s.order_pool_.storage oh (some ⟨id, p, q, Side.BUY, oh, oh⟩), s.order_pool_.freeArr, s.order_pool_.freeCount - 1⟩, level_pool_ := ⟨Function.update s.level_pool_.storage lh (some ⟨p, Side.BUY, u32add 0 q, 1, oh, lh, lh⟩), s.level_pool_.freeArr, s.level_pool_.freeCount - 1⟩, order_map_ := Function.update s.order_map_ (id % MAX_ORDERS) (some oh), price_level_map_ := Function.update s.price_level_map_ (priceToIndex p) (some lh) } hd).prev (fun l => { l with next := lh })) hd (fun l => { l with prev := lh }) with bids_ := some lh }) k).next = (derefLevel s k).next
      refine hrnF k (fun he => hlhnotmem (he ▸ hk)) (fun he => hkp ?_)
      show k = (derefLevel s hd).prev
      rw [← hTLeq]
      exact he)
    (fun k hk hkx => by
      show (derefLevel ({ setLevel (setLevel (setLevel { s with order_pool_ := ⟨Function.update s.order_pool_.storage oh (some ⟨id, p, q, Side.BUY, oh, oh⟩), s.order_pool_.freeArr, s.order_pool_.freeCount - 1⟩, level_pool_ := ⟨Function.update s.level_pool_.storage lh (some ⟨p, Side.BUY, u32add 0 q, 1, oh, lh, lh⟩), s.level_pool_.freeArr, s.level_pool_.freeCount - 1⟩, order_map_ := Function.update s.order_map_ (id % MAX_ORDERS) (some oh), price_level_map_ := Function.update s.price_level_map_ (priceToIndex p) (some lh) } lh (fun l => { l with prev := (derefLevel { s with order_pool_ := ⟨Function.update s.order_pool_.storage oh (some ⟨id, p, q, Side.BUY, oh, oh⟩), s.order_pool_.freeArr, s.order_pool_.freeCount - 1⟩, level_pool_ := ⟨Function.update s.level_pool_.storage lh (some ⟨p, Side.BUY, u32add 0 q, 1, oh, lh, lh⟩), s.level_pool_.freeArr, s.level_pool_.freeCount - 1⟩, order_map_ := Function.update s.order_map_ (id % MAX_ORDERS) (some oh), price_level_map_ := Function.update s.price_level_map_ (priceToIndex p) (some lh) } hd).prev, next := hd })) (derefLevel { s with order_pool_ := ⟨Function.update s.order_pool_.storage oh (some ⟨id, p, q, Side.BUY, oh, oh⟩), s.order_pool_.freeArr, s.order_pool_.freeCount - 1⟩, level_pool_ := ⟨Function.update s.level_pool_.storage lh (some ⟨p, Side.BUY, u32add 0 q, 1, oh, lh, lh⟩), s.level_pool_.freeArr, s.level_pool_.freeCount - 1⟩, order_map_ := Function.update s.order_map_ (id % MAX_ORDERS) (some oh), price_level_map_ := Function.update s.price_level_map_ (priceToIndex p) (some lh) } hd).prev (fun l => { l with next := lh })) hd (fun l => { l with prev := lh }) with bids_ := some lh }) k).prev = (derefLevel s k).prev
      exact hrpF k (fun he => hlhnotmem (he ▸ hk)) hkx)
  obtain ⟨-, -, hsnocCons⟩ := hsnoc
  -- the other side never mentions the three rewritten level handles
  have hfarA : ∀ a ∈ G.asksL, a ≠ lh ∧ a ≠ ((derefLevel { s with order_pool_ := ⟨Function.update s.order_pool_.storage oh (some ⟨id, p, q, Side.BUY, oh, oh⟩), s.order_pool_.freeArr, s.order_pool_.freeCount - 1⟩, level_pool_ := ⟨Function.update s.level_pool_.storage lh (some ⟨p, Side.BUY, u32add 0 q, 1, oh, lh, lh⟩), s.level_pool_.freeArr, s.level_pool_.freeCount - 1⟩, order_map_ := Function.update s.order_map_ (id % MAX_ORDERS) (some oh), price_level_map_ := Function.update s.price_level_map_ (priceToIndex p) (some lh) } hd).prev) ∧ a ≠ hd := by
    intro a ha
    have halive : (s.level_pool_.storage a).isSome :=
      (hwf.levels.lvlLive a).mpr (List.mem_append.mpr (Or.inr ha))
    have hdisj := (List.nodup_append.mp hwf.levels.lvlNodup).2.2
    refine ⟨hnotlh a halive, ?_, ?_⟩
    · intro he
      exact hdisj hTLmem (he ▸ ha)
    · intro he
      exact hdisj hhdmem (he ▸ ha)
  refine ⟨⟨lh :: G.bidsL, G.asksL, Function.update G.fifo lh [oh]⟩,
    ⟨?_, ?_, ?_, ?_, ?_, ?_, ?_, ?_, ?_, ?_, ?_⟩, ?_, ?_, ?_, ?_, ?_, ?_, ?_, ?_, ?_, ?_, ?_⟩
  · -- the bid cycle gains the fresh level at the front
    exact hsnocCons
  · -- the untouched ask cycle
    refine isCycle_congr hwf.levels.asksCyc ?_
    intro a b ha hb hr
    obtain ⟨ha1, ha2, -⟩ := hfarA a ha
    obtain ⟨hb1, -, hb3⟩ := hfarA b hb
    exact ⟨by rw [hrnF a ha1 ha2]; exact hr.1, by rw [hrpF b hb1 hb3]; exact hr.2⟩
  · -- lh :: bids ++ asks is duplicate-free
    show ((lh :: G.bidsL) ++ G.asksL).Nodup
    rw [List.cons_append]
    refine List.nodup_cons.mpr ⟨?_, hwf.levels.lvlNodup⟩
    intro hmem
    exact hnotlh lh ((hwf.levels.lvlLive lh).mpr hmem) rfl
  · -- new bid head
    rfl
  · -- ask head unchanged
    show s.asks_ = _
    exact hwf.levels.asksHead
  · -- live levels are the new side lists
    intro k
    show (({ setLevel (setLevel (setLevel { s with order_pool_ := ⟨Function.update s.order_pool_.storage oh (some ⟨id, p, q, Side.BUY, oh, oh⟩), s.order_pool_.freeArr, s.order_pool_.freeCount - 1⟩, level_pool_ := ⟨Function.update s.level_pool_.storage lh (some ⟨p, Side.BUY, u32add 0 q, 1, oh, lh, lh⟩), s.level_pool_.freeArr, s.level_pool_.freeCount - 1⟩, order_map_ := Function.update s.order_map_ (id % MAX_ORDERS) (some oh), price_level_map_ := Function.update s.price_level_map_ (priceToIndex p) (some lh) } lh (fun l => { l with prev := (derefLevel { s with order_pool_ := ⟨Function.update s.order_pool_.storage oh (some ⟨id, p, q, Side.BUY, oh, oh⟩), s.order_pool_.freeArr, s.order_pool_.freeCount - 1⟩, level_pool_ := ⟨Function.update s.level_pool_.storage lh (some ⟨p, Side.BUY, u32add 0 q, 1, oh, lh, lh⟩), s.level_pool_.freeArr, s.level_pool_.freeCount - 1⟩, order_map_ := Function.update s.order_map_ (id % MAX_ORDERS) (some oh), price_level_map_ := Function.update s.price_level_map_ (priceToIndex p) (some lh) } hd).prev, next := hd })) (derefLevel { s with order_pool_ := ⟨Function.update s.order_pool_.storage oh (some ⟨id, p, q, Side.BUY, oh, oh⟩), s.order_pool_.freeArr, s.order_pool_.freeCount - 1⟩, level_pool_ := ⟨Function.update s.level_pool_.storage lh (some ⟨p, Side.BUY, u32add 0 q, 1, oh, lh, lh⟩), s.level_pool_.freeArr, s.level_pool_.freeCount - 1⟩, order_map_ := Function.update s.order_map_ (id % MAX_ORDERS) (some oh), price_level_map_ := Function.update s.price_level_map_ (priceToIndex p) (some lh) } hd).prev (fun l => { l with next := lh })) hd (fun l => { l with prev := lh }) with bids_ := some lh }).level_pool_.storage k).isSome ↔ k ∈ (lh :: G.bidsL) ++ (G.asksL)
    rw [hliveLF k, hS1Llive k, hwf.levels.lvlLive k]
    simp only [List.mem_append, List.mem_cons]
    tauto
  · -- the BUY side gains the new level
    intro k hk
    have hk2 : k ∈ lh :: G.bidsL := hk
    rcases List.mem_cons.mp hk2 with hk3 | hk3
    · rw [hk3, hFlh]
    · have hkl : k ≠ lh := hnotlh k ((hwf.levels.lvlLive k).mpr (List.mem_append.mpr (Or.inl hk3)))
      rw [(hfieldsF k hkl).2.1]
      exact hwf.levels.bidsSide k hk3
  · -- ask-side markers unchanged
    intro k hk
    obtain ⟨hk1, -, -⟩ := hfarA k hk
    rw [(hfieldsF k hk1).2.1]
    exact hwf.levels.asksSide k hk
  · -- price map entries point at live levels with the right hash
    intro i k hik
    have hik2 : Function.update s.price_level_map_ (priceToIndex p) (some lh) i = some k := hik
    by_cases hi : i = priceToIndex p
    · rw [hi, Function.update_same] at hik2
      obtain rfl : k = lh := (Option.some.inj hik2).symm
      constructor
      · rw [hliveLF k, hS1Llive k]
        simp
      · rw [hFlh, hi]
    · rw [Function.update_noteq hi] at hik2
      obtain ⟨h1, h2⟩ := hwf.levels.mapToLvl i k hik2
      constructor
      · rw [hliveLF k, hS1Llive k]
        exact Or.inl h1
      · rw [(hfieldsF k (hnotlh k h1)).1]
        exact h2
  · -- live levels are found through the price map
    intro k hk
    rw [hliveLF k, hS1Llive k] at hk
    show Function.update s.price_level_map_ (priceToIndex p) (some lh)
      (priceToIndex (derefLevel ({ setLevel (setLevel (setLevel { s with order_pool_ := ⟨Function.update s.order_pool_.storage oh (some ⟨id, p, q, Side.BUY, oh, oh⟩), s.order_pool_.freeArr, s.order_pool_.freeCount - 1⟩, level_pool_ := ⟨Function.update s.level_pool_.storage lh (some ⟨p, Side.BUY, u32add 0 q, 1, oh, lh, lh⟩), s.level_pool_.freeArr, s.level_pool_.freeCount - 1⟩, order_map_ := Function.update s.order_map_ (id % MAX_ORDERS) (some oh), price_level_map_ := Function.update s.price_level_map_ (priceToIndex p) (some lh) } lh (fun l => { l with prev := (derefLevel { s with order_pool_ := ⟨Function.update s.order_pool_.storage oh (some ⟨id, p, q, Side.BUY, oh, oh⟩), s.order_pool_.freeArr, s.order_pool_.freeCount - 1⟩, level_pool_ := ⟨Function.update s.level_pool_.storage lh (some ⟨p, Side.BUY, u32add 0 q, 1, oh, lh, lh⟩), s.level_pool_.freeArr, s.level_pool_.freeCount - 1⟩, order_map_ := Function.update s.order_map_ (id % MAX_ORDERS) (some oh), price_level_map_ := Function.update s.price_level_map_ (priceToIndex p) (some lh) } hd).prev, next := hd })) (derefLevel { s with order_pool_ := ⟨Function.update s.order_pool_.storage oh (some ⟨id, p, q, Side.BUY, oh, oh⟩), s.order_pool_.freeArr, s.order_pool_.freeCount - 1⟩, level_pool_ := ⟨Function.update s.level_pool_.storage lh (some ⟨p, Side.BUY, u32add 0 q, 1, oh, lh, lh⟩), s.level_pool_.freeArr, s.level_pool_.freeCount - 1⟩, order_map_ := Function.update s.order_map_ (id % MAX_ORDERS) (some oh), price_level_map_ := Function.update s.price_level_map_ (priceToIndex p) (some lh) } hd).prev (fun l => { l with next := lh })) hd (fun l => { l with prev := lh }) with bids_ := some lh }) k).price) = some k
    by_cases hk0 : k = lh
    · rw [hk0, hFlh]
      show Function.update s.price_level_map_ (priceToIndex p) (some lh) (priceToIndex p) = _
      rw [Function.update_same]
    · rcases hk with hk | hk
      · rw [(hfieldsF k hk0).1]
        have hne2 : priceToIndex (derefLevel s k).price ≠ priceToIndex p := by
          intro he
          have h2 := hwf.levels.lvlToMap k hk
          rw [he, hmapidx] at h2
          cases h2
        rw [Function.update_noteq hne2]
        exact hwf.levels.lvlToMap k hk
      · exact absurd hk hk0
  · -- level pool well-formed
    have hLP2lh : (⟨Function.update s.level_pool_.storage lh (some ⟨p, Side.BUY, u32add 0 q, 1, oh, lh, lh⟩), s.level_pool_.freeArr, s.level_pool_.freeCount - 1⟩ : Pool PriceLevel).storage lh = some ⟨p, Side.BUY, u32add 0 q, 1, oh, lh, lh⟩ := by
      show Function.update s.level_pool_.storage lh (some ⟨p, Side.BUY, u32add 0 q, 1, oh, lh, lh⟩) lh = _
      rw [Function.update_same]
    obtain ⟨w2, hw2⟩ := Option.isSome_iff_exists.mp hTLliveL1
    obtain ⟨w3, hw3⟩ := Option.isSome_iff_exists.mp hhdliveL2
    exact poolWF_overwrite (poolWF_overwrite (poolWF_overwrite hLP2wf hLP2lh) hw2) hw3
  · -- FIFO cycles
    intro lh2 hl
    rw [hliveLF lh2, hS1Llive lh2] at hl
    show IsCycle _ (Function.update G.fifo lh [oh] lh2)
    by_cases hne : lh2 = lh
    · rw [hne, Function.update_same]
      refine isCycle_singleton ?_
      refine ⟨?_, ?_⟩
      · rw [hderOoh]
      · rw [hderOoh]
    · rcases hl with hl | hl
      · rw [Function.update_noteq hne]
        refine isCycle_congr (hwf.fifoCyc lh2 hl) ?_
        intro a b ha hb hr
        have han : a ≠ oh := fun he => hohnotlive lh2 hl (he ▸ ha)
        have hbn : b ≠ oh := fun he => hohnotlive lh2 hl (he ▸ hb)
        exact ⟨by rw [hderO a han]; exact hr.1, by rw [hderO b hbn]; exact hr.2⟩
      · exact absurd hl hne
  · -- FIFO lists are duplicate-free
    intro lh2 hl
    rw [hliveLF lh2, hS1Llive lh2] at hl
    show (Function.update G.fifo lh [oh] lh2).Nodup
    by_cases hne : lh2 = lh
    · rw [hne, Function.update_same]
      exact List.nodup_singleton oh
    · rcases hl with hl | hl
      · rw [Function.update_noteq hne]
        exact hwf.fifoNodup lh2 hl
      · exact absurd hl hne
  · -- FIFO heads
    intro lh2 hl
    rw [hliveLF lh2, hS1Llive lh2] at hl
    show (Function.update G.fifo lh [oh] lh2).head? = _
    by_cases hne : lh2 = lh
    · rw [hne, Function.update_same, hFlh]
      rfl
    · rcases hl with hl | hl
      · rw [Function.update_noteq hne, (hfieldsF lh2 hne).2.2.1]
        exact hwf.fifoHead lh2 hl
      · exact absurd hl hne
  · -- FIFO counts
    intro lh2 hl
    rw [hliveLF lh2, hS1Llive lh2] at hl
    show (derefLevel ({ setLevel (setLevel (setLevel { s with order_pool_ := ⟨Function.update s.order_pool_.storage oh (some ⟨id, p, q, Side.BUY, oh, oh⟩), s.order_pool_.freeArr, s.order_pool_.freeCount - 1⟩, level_pool_ := ⟨Function.update s.level_pool_.storage lh (some ⟨p, Side.BUY, u32add 0 q, 1, oh, lh, lh⟩), s.level_pool_.freeArr, s.level_pool_.freeCount - 1⟩, order_map_ := Function.update s.order_map_ (id % MAX_ORDERS) (some oh), price_level_map_ := Function.update s.price_level_map_ (priceToIndex p) (some lh) } lh (fun l => { l with prev := (derefLevel { s with order_pool_ := ⟨Function.update s.order_pool_.storage oh (some ⟨id, p, q, Side.BUY, oh, oh⟩), s.order_pool_.freeArr, s.order_pool_.freeCount - 1⟩, level_pool_ := ⟨Function.update s.level_pool_.storage lh (some ⟨p, Side.BUY, u32add 0 q, 1, oh, lh, lh⟩), s.level_pool_.freeArr, s.level_pool_.freeCount - 1⟩, order_map_ := Function.update s.order_map_ (id % MAX_ORDERS) (some oh), price_level_map_ := Function.update s.price_level_map_ (priceToIndex p) (some lh) } hd).prev, next := hd })) (derefLevel { s with order_pool_ := ⟨Function.update s.order_pool_.storage oh (some ⟨id, p, q, Side.BUY, oh, oh⟩), s.order_pool_.freeArr, s.order_pool_.freeCount - 1⟩, level_pool_ := ⟨Function.update s.level_pool_.storage lh (some ⟨p, Side.BUY, u32add 0 q, 1, oh, lh, lh⟩), s.level_pool_.freeArr, s.level_pool_.freeCount - 1⟩, order_map_ := Function.update s.order_map_ (id % MAX_ORDERS) (some oh), price_level_map_ := Function.update s.price_level_map_ (priceToIndex p) (some lh) } hd).prev (fun l => { l with next := lh })) hd (fun l => { l with prev := lh }) with bids_ := some lh }) lh2).order_count = (Function.update G.fifo lh [oh] lh2).length
    by_cases hne : lh2 = lh
    · rw [hne, Function.update_same, hFlh]
      rfl
    · rcases hl with hl | hl
      · rw [Function.update_noteq hne, (hfieldsF lh2 hne).2.2.2]
        exact hwf.fifoCount lh2 hl
      · exact absurd hl hne
  · -- FIFO members are live orders
    intro lh2 hl m hm
    rw [hliveLF lh2, hS1Llive lh2] at hl
    have hm2 : m ∈ Function.update G.fifo lh [oh] lh2 := hm
    rw [hliveOF m]
    by_cases hne : lh2 = lh
    · rw [hne, Function.update_same, List.mem_singleton] at hm2
      exact Or.inr hm2
    · rcases hl with hl | hl
      · rw [Function.update_noteq hne] at hm2
        exact Or.inl (hwf.fifoLive lh2 hl m hm2)
      · exact absurd hl hne
  · -- FIFO members carry the level price
    intro lh2 hl m hm
    rw [hliveLF lh2, hS1Llive lh2] at hl
    have hm2 : m ∈ Function.update G.fifo lh [oh] lh2 := hm
    by_cases hne : lh2 = lh
    · rw [hne, Function.update_same, List.mem_singleton] at hm2
      rw [hne, hm2, hderOoh, hFlh]
    · rcases hl with hl | hl
      · rw [Function.update_noteq hne] at hm2
        have hmn : m ≠ oh := fun he => hohnotlive lh2 hl (he ▸ hm2)
        rw [hderO m hmn, (hfieldsF lh2 hne).1]
        exact hwf.fifoPrice lh2 hl m hm2
      · exact absurd hl hne
  · -- FIFOs are disjoint
    intro lh1 lh2 h1 h2 m hm1 hm2
    rw [hliveLF lh1, hS1Llive lh1] at h1
    rw [hliveLF lh2, hS1Llive lh2] at h2
    have hm1b : m ∈ Function.update G.fifo lh [oh] lh1 := hm1
    have hm2b : m ∈ Function.update G.fifo lh [oh] lh2 := hm2
    have hred : ∀ lh3, m ∈ Function.update G.fifo lh [oh] lh3 →
        (m ∈ G.fifo lh3 ∧ lh3 ≠ lh) ∨ (m = oh ∧ lh3 = lh) := by
      intro lh3 hmm
      by_cases hne : lh3 = lh
      · rw [hne, Function.update_same, List.mem_singleton] at hmm
        exact Or.inr ⟨hmm, hne⟩
      · rw [Function.update_noteq hne] at hmm
        exact Or.inl ⟨hmm, hne⟩
    have hlv : ∀ lh3, ((s.level_pool_.storage lh3).isSome ∨ lh3 = lh) → lh3 ≠ lh →
        (s.level_pool_.storage lh3).isSome := by
      intro lh3 hh hne
      rcases hh with hh | hh
      · exact hh
      · exact absurd hh hne
    rcases hred lh1 hm1b with ⟨ha, hane⟩ | ⟨haoh, hal⟩
    · rcases hred lh2 hm2b with ⟨hb, hbne⟩ | ⟨hboh, hbl⟩
      · exact hwf.fifoDisj lh1 lh2 (hlv lh1 h1 hane) (hlv lh2 h2 hbne) m ha hb
      · exact absurd (hboh ▸ ha) (hohnotlive lh1 (hlv lh1 h1 hane))
    · rcases hred lh2 hm2b with ⟨hb, hbne⟩ | ⟨hboh, hbl⟩
      · exact absurd (haoh ▸ hb) (hohnotlive lh2 (hlv lh2 h2 hbne))
      · rw [hal, hbl]
  · -- order map entries point at live orders with the right slot
    intro i k hik
    have hik2 : Function.update s.order_map_ (id % MAX_ORDERS) (some oh) i = some k := hik
    by_cases hi : i = id % MAX_ORDERS
    · rw [hi, Function.update_same] at hik2
      obtain rfl : k = oh := (Option.some.inj hik2).symm
      constructor
      · rw [hliveOF k]
        exact Or.inr rfl
      · rw [hderOoh, hi]
    · rw [Function.update_noteq hi] at hik2
      obtain ⟨hk1, hk2⟩ := hwf.mapToOrd i k hik2
      have hkoh : k ≠ oh := by
        intro he
        rw [he, hohdead] at hk1
        cases hk1
      constructor
      · rw [hliveOF k]
        exact Or.inl hk1
      · rw [hderO k hkoh]
        exact hk2
  · -- live orders are found through the order map
    intro k hk
    rw [hliveOF k] at hk
    by_cases hkoh : k = oh
    · rw [hkoh]
      show Function.update s.order_map_ (id % MAX_ORDERS) (some oh)
        ((derefOrder ({ setLevel (setLevel (setLevel { s with order_pool_ := ⟨Function.update s.order_pool_.storage oh (some ⟨id, p, q, Side.BUY, oh, oh⟩), s.order_pool_.freeArr, s.order_pool_.freeCount - 1⟩, level_pool_ := ⟨Function.update s.level_pool_.storage lh (some ⟨p, Side.BUY, u32add 0 q, 1, oh, lh, lh⟩), s.level_pool_.freeArr, s.level_pool_.freeCount - 1⟩, order_map_ := Function.update s.order_map_ (id % MAX_ORDERS) (some oh), price_level_map_ := Function.update s.price_level_map_ (priceToIndex p) (some lh) } lh (fun l => { l with prev := (derefLevel { s with order_pool_ := ⟨Function.update s.order_pool_.storage oh (some ⟨id, p, q, Side.BUY, oh, oh⟩), s.order_pool_.freeArr, s.order_pool_.freeCount - 1⟩, level_pool_ := ⟨Function.update s.level_pool_.storage lh (some ⟨p, Side.BUY, u32add 0 q, 1, oh, lh, lh⟩), s.level_pool_.freeArr, s.level_pool_.freeCount - 1⟩, order_map_ := Function.update s.order_map_ (id % MAX_ORDERS) (some oh), price_level_map_ := Function.update s.price_level_map_ (priceToIndex p) (some lh) } hd).prev, next := hd })) (derefLevel { s with order_pool_ := ⟨Function.update s.order_pool_.storage oh (some ⟨id, p, q, Side.BUY, oh, oh⟩), s.order_pool_.freeArr, s.order_pool_.freeCount - 1⟩, level_pool_ := ⟨Function.update s.level_pool_.storage lh (some ⟨p, Side.BUY, u32add 0 q, 1, oh, lh, lh⟩), s.level_pool_.freeArr, s.level_pool_.freeCount - 1⟩, order_map_ := Function.update s.order_map_ (id % MAX_ORDERS) (some oh), price_level_map_ := Function.update s.price_level_map_ (priceToIndex p) (some lh) } hd).prev (fun l => { l with next := lh })) hd (fun l => { l with prev := lh }) with bids_ := some lh }) oh).order_id % MAX_ORDERS) = some oh
      rw [hderOoh, Function.update_same]
    · rcases hk with hk | hk
      · show Function.update s.order_map_ (id % MAX_ORDERS) (some oh)
          ((derefOrder ({ setLevel (setLevel (setLevel { s with order_pool_ := ⟨Function.update s.order_pool_.storage oh (some ⟨id, p, q, Side.BUY, oh, oh⟩), s.order_pool_.freeArr, s.order_pool_.freeCount - 1⟩, level_pool_ := ⟨Function.update s.level_pool_.storage lh (some ⟨p, Side.BUY, u32add 0 q, 1, oh, lh, lh⟩), s.level_pool_.freeArr, s.level_pool_.freeCount - 1⟩, order_map_ := Function.update s.order_map_ (id % MAX_ORDERS) (some oh), price_level_map_ := Function.update s.price_level_map_ (priceToIndex p) (some lh) } lh (fun l => { l with prev := (derefLevel { s with order_pool_ := ⟨Function.update s.order_pool_.storage oh (some ⟨id, p, q, Side.BUY, oh, oh⟩), s.order_pool_.freeArr, s.order_pool_.freeCount - 1⟩, level_pool_ := ⟨Function.update s.level_pool_.storage lh (some ⟨p, Side.BUY, u32add 0 q, 1, oh, lh, lh⟩), s.level_pool_.freeArr, s.level_pool_.freeCount - 1⟩, order_map_ := Function.update s.order_map_ (id % MAX_ORDERS) (some oh), price_level_map_ := Function.update s.price_level_map_ (priceToIndex p) (some lh) } hd).prev, next := hd })) (derefLevel { s with order_pool_ := ⟨Function.update s.order_pool_.storage oh (some ⟨id, p, q, Side.BUY, oh, oh⟩), s.order_pool_.freeArr, s.order_pool_.freeCount - 1⟩, level_pool_ := ⟨Function.update s.level_pool_.storage lh (some ⟨p, Side.BUY, u32add 0 q, 1, oh, lh, lh⟩), s.level_pool_.freeArr, s.level_pool_.freeCount - 1⟩, order_map_ := Function.update s.order_map_ (id % MAX_ORDERS) (some oh), price_level_map_ := Function.update s.price_level_map_ (priceToIndex p) (some lh) } hd).prev (fun l => { l with next := lh })) hd (fun l => { l with prev := lh }) with bids_ := some lh }) k).order_id % MAX_ORDERS) = some k
        rw [hderO k hkoh]
        have hne2 : (derefOrder s k).order_id % MAX_ORDERS ≠ id % MAX_ORDERS := by
          intro he
          have h2 := hwf.ordToMap k hk
          rw [he, hslot] at h2
          cases h2
        rw [Function.update_noteq hne2]
        exact hwf.ordToMap k hk
      · exact absurd hk hkoh
  · -- every live order sits in some FIFO
    intro k hk
    rw [hliveOF k] at hk
    by_cases hkoh : k = oh
    · refine ⟨lh, ?_, ?_⟩
      · rw [hliveLF lh, hS1Llive lh]
        exact Or.inr rfl
      · show k ∈ Function.update G.fifo lh [oh] lh
        rw [Function.update_same, hkoh]
        exact List.mem_singleton.mpr rfl
    · rcases hk with hk | hk
      · obtain ⟨lh2, hl, hm⟩ := hwf.ordInFifo k hk
        refine ⟨lh2, ?_, ?_⟩
        · rw [hliveLF lh2, hS1Llive lh2]
          exact Or.inl hl
        · show k ∈ Function.update G.fifo lh [oh] lh2
          rw [Function.update_noteq (hnotlh lh2 hl)]
          exact hm
      · exact absurd hk hkoh
  · -- order pool well-formed
    exact hOP1wf

/-- New-level core of `addOrder`, SELL side, insertion in front of the current
head (the new best level): the fresh level is linked before the head so the
side cycle becomes `lh :: L`, and the new order is its singleton FIFO. -/
theorem bookWF_add_core_frontSell {s : OrderBook} {G : BookShape} {id q : Nat}
    {p : Int} {oh lh hd : Nat}
    (hwf : BookWF s G)
    (hslot : s.order_map_ (id % MAX_ORDERS) = none)
    (hohdead : s.order_pool_.storage oh = none)
    (hOP1wf : poolWF (⟨Function.update s.order_pool_.storage oh (some ⟨id, p, q, Side.SELL, oh, oh⟩), s.order_pool_.freeArr, s.order_pool_.freeCount - 1⟩ : Pool Order) MAX_ORDERS)
    (hlhdead : s.level_pool_.storage lh = none)
    (hLP2wf : poolWF (⟨Function.update s.level_pool_.storage lh (some ⟨p, Side.SELL, u32add 0 q, 1, oh, lh, lh⟩), s.level_pool_.freeArr, s.level_pool_.freeCount - 1⟩ : Pool PriceLevel) MAX_PRICE_LEVELS)
    (hmapidx : s.price_level_map_ (priceToIndex p) = none)
    (hheads : s.asks_ = some hd) :
    ∃ G2 : BookShape, BookWF ({ setLevel (setLevel (setLevel { s with order_pool_ := ⟨Function.update s.order_pool_.storage oh (some ⟨id, p, q, Side.SELL, oh, oh⟩), s.order_pool_.freeArr, s.order_pool_.freeCount - 1⟩, level_pool_ := ⟨Function.update s.level_pool_.storage lh (some ⟨p, Side.SELL, u32add 0 q, 1, oh, lh, lh⟩), s.level_pool_.freeArr, s.level_pool_.freeCount - 1⟩, order_map_ := Function.update s.order_map_ (id % MAX_ORDERS) (some oh), price_level_map_ := Function.update s.price_level_map_ (priceToIndex p) (some lh) } lh (fun l => { l with prev := (derefLevel { s with order_pool_ := ⟨Function.update s.order_pool_.storage oh (some ⟨id, p, q, Side.SELL, oh, oh⟩), s.order_pool_.freeArr, s.order_pool_.freeCount - 1⟩, level_pool_ := ⟨Function.update s.level_pool_.storage lh (some ⟨p, Side.SELL, u32add 0 q, 1, oh, lh, lh⟩), s.level_pool_.freeArr, s.level_pool_.freeCount - 1⟩, order_map_ := Function.update s.order_map_ (id % MAX_ORDERS) (some oh), price_level_map_ := Function.update s.price_level_map_ (priceToIndex p) (some lh) } hd).prev, next := hd })) (derefLevel { s with order_pool_ := ⟨Function.update s.order_pool_.storage oh (some ⟨id, p, q, Side.SELL, oh, oh⟩), s.order_pool_.freeArr, s.order_pool_.freeCount - 1⟩, level_pool_ := ⟨Function.update s.level_pool_.storage lh (some ⟨p, Side.SELL, u32add 0 q, 1, oh, lh, lh⟩), s.level_pool_.freeArr, s.level_pool_.freeCount - 1⟩, order_map_ := Function.update s.order_map_ (id % MAX_ORDERS) (some oh), price_level_map_ := Function.update s.price_level_map_ (priceToIndex p) (some lh) } hd).prev (fun l => { l with next := lh })) hd (fun l => { l with prev := lh }) with asks_ := some lh }) G2 := by
  have hnotlh : ∀ k, (s.level_pool_.storage k).isSome → k ≠ lh := by
    intro k hk he
    rw [he, hlhdead] at hk
    cases hk
  have hheadB : (G.asksL).head? = some hd := by
    rw [← hwf.levels.asksHead]
    exact hheads
  have hhdmem : hd ∈ G.asksL := by
    cases hFF : G.asksL with
    | nil =>
      rw [hFF] at hheadB
      cases hheadB
    | cons f rest =>
      rw [hFF, List.head?_cons] at hheadB
      rw [← Option.some.inj hheadB]
      exact List.mem_cons_self f rest
  have hhdlive : (s.level_pool_.storage hd).isSome :=
    (hwf.levels.lvlLive hd).mpr (List.mem_append.mpr (Or.inr hhdmem))
  have hhdne : hd ≠ lh := hnotlh hd hhdlive
  -- order-side facts
  have hOst : ∀ k, k ≠ oh → ({ setLevel (setLevel (setLevel { s with order_pool_ := ⟨Function.update s.order_pool_.storage oh (some ⟨id, p, q, Side.SELL, oh, oh⟩), s.order_pool_.freeArr, s.order_pool_.freeCount - 1⟩, level_pool_ := ⟨Function.update s.level_pool_.storage lh (some ⟨p, Side.SELL, u32add 0 q, 1, oh, lh, lh⟩), s.level_pool_.freeArr, s.level_pool_.freeCount - 1⟩, order_map_ := Function.update s.order_map_ (id % MAX_ORDERS) (some oh), price_level_map_ := Function.update s.price_level_map_ (priceToIndex p) (some lh) } lh (fun l => { l with prev := (derefLevel { s with order_pool_ := ⟨Function.update s.order_pool_.storage oh (some ⟨id, p, q, Side.SELL, oh, oh⟩), s.order_pool_.freeArr, s.order_pool_.freeCount - 1⟩, level_pool_ := ⟨Function.update s.level_pool_.storage lh (some ⟨p, Side.SELL, u32add 0 q, 1, oh, lh, lh⟩), s.level_pool_.freeArr, s.level_pool_.freeCount - 1⟩, order_map_ := Function.update s.order_map_ (id % MAX_ORDERS) (some oh), price_level_map_ := Function.update s.price_level_map_ (priceToIndex p) (some lh) } hd).prev, next := hd })) (derefLevel { s with order_pool_ := ⟨Function.update s.order_pool_.storage oh (some ⟨id, p, q, Side.SELL, oh, oh⟩), s.order_pool_.freeArr, s.order_pool_.freeCount - 1⟩, level_pool_ := ⟨Function.update s.level_pool_.storage lh (some ⟨p, Side.SELL, u32add 0 q, 1, oh, lh, lh⟩), s.level_pool_.freeArr, s.level_pool_.freeCount - 1⟩, order_map_ := Function.update s.order_map_ (id % MAX_ORDERS) (some oh), price_level_map_ := Function.update s.price_level_map_ (priceToIndex p) (some lh) } hd).prev (fun l => { l with next := lh })) hd (fun l => { l with prev := lh }) with asks_ := some lh }).order_pool_.storage k = s.order_pool_.storage k := by
    intro k hk
    show Function.update s.order_pool_.storage oh (some ⟨id, p, q, Side.SELL, oh, oh⟩) k = _
    rw [Function.update_noteq hk]
  have hderO : ∀ k, k ≠ oh → derefOrder ({ setLevel (setLevel (setLevel { s with order_pool_ := ⟨Function.update s.order_pool_.storage oh (some ⟨id, p, q, Side.SELL, oh, oh⟩), s.order_pool_.freeArr, s.order_pool_.freeCount - 1⟩, level_pool_ := ⟨Function.update s.level_pool_.storage lh (some ⟨p, Side.SELL, u32add 0 q, 1, oh, lh, lh⟩), s.level_pool_.freeArr, s.level_pool_.freeCount - 1⟩, order_map_ := Function.update s.order_map_ (id % MAX_ORDERS) (some oh), price_level_map_ := Function.update s.price_level_map_ (priceToIndex p) (some lh) } lh (fun l => { l with prev := (derefLevel { s with order_pool_ := ⟨Function.update s.order_pool_.storage oh (some ⟨id, p, q, Side.SELL, oh, oh⟩), s.order_pool_.freeArr, s.order_pool_.freeCount - 1⟩, level_pool_ := ⟨Function.update s.level_pool_.storage lh (some ⟨p, Side.SELL, u32add 0 q, 1, oh, lh, lh⟩), s.level_pool_.freeArr, s.level_pool_.freeCount - 1⟩, order_map_ := Function.update s.order_map_ (id % MAX_ORDERS) (some oh), price_level_map_ := Function.update s.price_level_map_ (priceToIndex p) (some lh) } hd).prev, next := hd })) (derefLevel { s with order_pool_ := ⟨Function.update s.order_pool_.storage oh (some ⟨id, p, q, Side.SELL, oh, oh⟩), s.order_pool_.freeArr, s.order_pool_.freeCount - 1⟩, level_pool_ := ⟨Function.update s.level_pool_.storage lh (some ⟨p, Side.SELL, u32add 0 q, 1, oh, lh, lh⟩), s.level_pool_.freeArr, s.level_pool_.freeCount - 1⟩, order_map_ := Function.update s.order_map_ (id % MAX_ORDERS) (some oh), price_level_map_ := Function.update s.price_level_map_ (priceToIndex p) (some lh) } hd).prev (fun l => { l with next := lh })) hd (fun l => { l with prev := lh }) with asks_ := some lh }) k = derefOrder s k := by
    intro k hk
    show (({ setLevel (setLevel (setLevel { s with order_pool_ := ⟨Function.update s.order_pool_.storage oh (some ⟨id, p, q, Side.SELL, oh, oh⟩), s.order_pool_.freeArr, s.order_pool_.freeCount - 1⟩, level_pool_ := ⟨Function.update s.level_pool_.storage lh (some ⟨p, Side.SELL, u32add 0 q, 1, oh, lh, lh⟩), s.level_pool_.freeArr, s.level_pool_.freeCount - 1⟩, order_map_ := Function.update s.order_map_ (id % MAX_ORDERS) (some oh), price_level_map_ := Function.update s.price_level_map_ (priceToIndex p) (some lh) } lh (fun l => { l with prev := (derefLevel { s with order_pool_ := ⟨Function.update s.order_pool_.storage oh (some ⟨id, p, q, Side.SELL, oh, oh⟩), s.order_pool_.freeArr, s.order_pool_.freeCount - 1⟩, level_pool_ := ⟨Function.update s.level_pool_.storage lh (some ⟨p, Side.SELL, u32add 0 q, 1, oh, lh, lh⟩), s.level_pool_.freeArr, s.level_pool_.freeCount - 1⟩, order_map_ := Function.update s.order_map_ (id % MAX_ORDERS) (some oh), price_level_map_ := Function.update s.price_level_map_ (priceToIndex p) (some lh) } hd).prev, next := hd })) (derefLevel { s with order_pool_ := ⟨Function.update s.order_pool_.storage oh (some ⟨id, p, q, Side.SELL, oh, oh⟩), s.order_pool_.freeArr, s.order_pool_.freeCount - 1⟩, level_pool_ := ⟨Function.update s.level_pool_.storage lh (some ⟨p, Side.SELL, u32add 0 q, 1, oh, lh, lh⟩), s.level_pool_.freeArr, s.level_pool_.freeCount - 1⟩, order_map_ := Function.update s.order_map_ (id % MAX_ORDERS) (some oh), price_level_map_ := Function.update s.price_level_map_ (priceToIndex p) (some lh) } hd).prev (fun l => { l with next := lh })) hd (fun l => { l with prev := lh }) with asks_ := some lh }).order_pool_.storage k).getD defaultOrder = _
    rw [hOst k hk]
    rfl
  have hOoh : ({ setLevel (setLevel (setLevel { s with order_pool_ := ⟨Function.update s.order_pool_.storage oh (some ⟨id, p, q, Side.SELL, oh, oh⟩), s.order_pool_.freeArr, s.order_pool_.freeCount - 1⟩, level_pool_ := ⟨Function.update s.level_pool_.storage lh (some ⟨p, Side.SELL, u32add 0 q, 1, oh, lh, lh⟩), s.level_pool_.freeArr, s.level_pool_.freeCount - 1⟩, order_map_ := Function.update s.order_map_ (id % MAX_ORDERS) (some oh), price_level_map_ := Function.update s.price_level_map_ (priceToIndex p) (some lh) } lh (fun l => { l with prev := (derefLevel { s with order_pool_ := ⟨Function.update s.order_pool_.storage oh (some ⟨id, p, q, Side.SELL, oh, oh⟩), s.order_pool_.freeArr, s.order_pool_.freeCount - 1⟩, level_pool_ := ⟨Function.update s.level_pool_.storage lh (some ⟨p, Side.SELL, u32add 0 q, 1, oh, lh, lh⟩), s.level_pool_.freeArr, s.level_pool_.freeCount - 1⟩, order_map_ := Function.update s.order_map_ (id % MAX_ORDERS) (some oh), price_level_map_ := Function.update s.price_level_map_ (priceToIndex p) (some lh) } hd).prev, next := hd })) (derefLevel { s with order_pool_ := ⟨Function.update s.order_pool_.storage oh (some ⟨id, p, q, Side.SELL, oh, oh⟩), s.order_pool_.freeArr, s.order_pool_.freeCount - 1⟩, level_pool_ := ⟨Function.update s.level_pool_.storage lh (some ⟨p, Side.SELL, u32add 0 q, 1, oh, lh, lh⟩), s.level_pool_.freeArr, s.level_pool_.freeCount - 1⟩, order_map_ := Function.update s.order_map_ (id % MAX_ORDERS) (some oh), price_level_map_ := Function.update s.price_level_map_ (priceToIndex p) (some lh) } hd).prev (fun l => { l with next := lh })) hd (fun l => { l with prev := lh }) with asks_ := some lh }).order_pool_.storage oh = some ⟨id, p, q, Side.SELL, oh, oh⟩ := by
    show Function.update s.order_pool_.storage oh (some ⟨id, p, q, Side.SELL, oh, oh⟩) oh = _
    rw [Function.update_same]
  have hderOoh : derefOrder ({ setLevel (setLevel (setLevel { s with order_pool_ := ⟨Function.update s.order_pool_.storage oh (some ⟨id, p, q, Side.SELL, oh, oh⟩), s.order_pool_.freeArr, s.order_pool_.freeCount - 1⟩, level_pool_ := ⟨Function.update s.level_pool_.storage lh (some ⟨p, Side.SELL, u32add 0 q, 1, oh, lh, lh⟩), s.level_pool_.freeArr, s.level_pool_.freeCount - 1⟩, order_map_ := Function.update s.order_map_ (id % MAX_ORDERS) (some oh), price_level_map_ := Function.update s.price_level_map_ (priceToIndex p) (some lh) } lh (fun l => { l with prev := (derefLevel { s with order_pool_ := ⟨Function.update s.order_pool_.storage oh (some ⟨id, p, q, Side.SELL, oh, oh⟩), s.order_pool_.freeArr, s.order_pool_.freeCount - 1⟩, level_pool_ := ⟨Function.update s.level_pool_.storage lh (some ⟨p, Side.SELL, u32add 0 q, 1, oh, lh, lh⟩), s.level_pool_.freeArr, s.level_pool_.freeCount - 1⟩, order_map_ := Function.update s.order_map_ (id % MAX_ORDERS) (some oh), price_level_map_ := Function.update s.price_level_map_ (priceToIndex p) (some lh) } hd).prev, next := hd })) (derefLevel { s with order_pool_ := ⟨Function.update s.order_pool_.storage oh (some ⟨id, p, q, Side.SELL, oh, oh⟩), s.order_pool_.freeArr, s.order_pool_.freeCount - 1⟩, level_pool_ := ⟨Function.update s.level_pool_.storage lh (some ⟨p, Side.SELL, u32add 0 q, 1, oh, lh, lh⟩), s.level_pool_.freeArr, s.level_pool_.freeCount - 1⟩, order_map_ := Function.update s.order_map_ (id % MAX_ORDERS) (some oh), price_level_map_ := Function.update s.price_level_map_ (priceToIndex p) (some lh) } hd).prev (fun l => { l with next := lh })) hd (fun l => { l with prev := lh }) with asks_ := some lh }) oh = ⟨id, p, q, Side.SELL, oh, oh⟩ := by
    show (({ setLevel (setLevel (setLevel { s with order_pool_ := ⟨Function.update s.order_pool_.storage oh (some ⟨id, p, q, Side.SELL, oh, oh⟩), s.order_pool_.freeArr, s.order_pool_.freeCount - 1⟩, level_pool_ := ⟨Function.update s.level_pool_.storage lh (some ⟨p, Side.SELL, u32add 0 q, 1, oh, lh, lh⟩), s.level_pool_.freeArr, s.level_pool_.freeCount - 1⟩, order_map_ := Function.update s.order_map_ (id % MAX_ORDERS) (some oh), price_level_map_ := Function.update s.price_level_map_ (priceToIndex p) (some lh) } lh (fun l => { l with prev := (derefLevel { s with order_pool_ := ⟨Function.update s.order_pool_.storage oh (some ⟨id, p, q, Side.SELL, oh, oh⟩), s.order_pool_.freeArr, s.order_pool_.freeCount - 1⟩, level_pool_ := ⟨Function.update s.level_pool_.storage lh (some ⟨p, Side.SELL, u32add 0 q, 1, oh, lh, lh⟩), s.level_pool_.freeArr, s.level_pool_.freeCount - 1⟩, order_map_ := Function.update s.order_map_ (id % MAX_ORDERS) (some oh), price_level_map_ := Function.update s.price_level_map_ (priceToIndex p) (some lh) } hd).prev, next := hd })) (derefLevel { s with order_pool_ := ⟨Function.update s.order_pool_.storage oh (some ⟨id, p, q, Side.SELL, oh, oh⟩), s.order_pool_.freeArr, s.order_pool_.freeCount - 1⟩, level_pool_ := ⟨Function.update s.level_pool_.storage lh (some ⟨p, Side.SELL, u32add 0 q, 1, oh, lh, lh⟩), s.level_pool_.freeArr, s.level_pool_.freeCount - 1⟩, order_map_ := Function.update s.order_map_ (id % MAX_ORDERS) (some oh), price_level_map_ := Function.update s.price_level_map_ (priceToIndex p) (some lh) } hd).prev (fun l => { l with next := lh })) hd (fun l => { l with prev := lh }) with asks_ := some lh }).order_pool_.storage oh).getD defaultOrder = _
    rw [hOoh]
    rfl
  have hliveOF : ∀ k, (({ setLevel (setLevel (setLevel { s with order_pool_ := ⟨Function.update s.order_pool_.storage oh (some ⟨id, p, q, Side.SELL, oh, oh⟩), s.order_pool_.freeArr, s.order_pool_.freeCount - 1⟩, level_pool_ := ⟨Function.update s.level_pool_.storage lh (some ⟨p, Side.SELL, u32add 0 q, 1, oh, lh, lh⟩), s.level_pool_.freeArr, s.level_pool_.freeCount - 1⟩, order_map_ := Function.update s.order_map_ (id % MAX_ORDERS) (some oh), price_level_map_ := Function.update s.price_level_map_ (priceToIndex p) (some lh) } lh (fun l => { l with prev := (derefLevel { s with order_pool_ := ⟨Function.update s.order_pool_.storage oh (some ⟨id, p, q, Side.SELL, oh, oh⟩), s.order_pool_.freeArr, s.order_pool_.freeCount - 1⟩, level_pool_ := ⟨Function.update s.level_pool_.storage lh (some ⟨p, Side.SELL, u32add 0 q, 1, oh, lh, lh⟩), s.level_pool_.freeArr, s.level_pool_.freeCount - 1⟩, order_map_ := Function.update s.order_map_ (id % MAX_ORDERS) (some oh), price_level_map_ := Function.update s.price_level_map_ (priceToIndex p) (some lh) } hd).prev, next := hd })) (derefLevel { s with order_pool_ := ⟨Function.update s.order_pool_.storage oh (some ⟨id, p, q, Side.SELL, oh, oh⟩), s.order_pool_.freeArr, s.order_pool_.freeCount - 1⟩, level_pool_ := ⟨Function.update s.level_pool_.storage lh (some ⟨p, Side.SELL, u32add 0 q, 1, oh, lh, lh⟩), s.level_pool_.freeArr, s.level_pool_.freeCount - 1⟩, order_map_ := Function.update s.order_map_ (id % MAX_ORDERS) (some oh), price_level_map_ := Function.update s.price_level_map_ (priceToIndex p) (some lh) } hd).prev (fun l => { l with next := lh })) hd (fun l => { l with prev := lh }) with asks_ := some lh }).order_pool_.storage k).isSome ↔
      ((s.order_pool_.storage k).isSome ∨ k = oh) := by
    intro k
    by_cases hk : k = oh
    · rw [hk, hOoh]
      simp
    · rw [hOst k hk]
      simp [hk]
  have hohnotlive : ∀ lh2, (s.level_pool_.storage lh2).isSome → oh ∉ G.fifo lh2 := by
    intro lh2 hl hmem
    have := hwf.fifoLive lh2 hl oh hmem
    rw [hohdead] at this
    cases this
  -- level dereferencing in the base and final states
  have hT0L : ∀ k, k ≠ lh → derefLevel ({ s with order_pool_ := ⟨Function.update s.order_pool_.storage oh (some ⟨id, p, q, Side.SELL, oh, oh⟩), s.order_pool_.freeArr, s.order_pool_.freeCount - 1⟩, level_pool_ := ⟨Function.update s.level_pool_.storage lh (some ⟨p, Side.SELL, u32add 0 q, 1, oh, lh, lh⟩), s.level_pool_.freeArr, s.level_pool_.freeCount - 1⟩, order_map_ := Function.update s.order_map_ (id % MAX_ORDERS) (some oh), price_level_map_ := Function.update s.price_level_map_ (priceToIndex p) (some lh) }) k = derefLevel s k := by
    intro k hk
    show (Function.update s.level_pool_.storage lh (some ⟨p, Side.SELL, u32add 0 q, 1, oh, lh, lh⟩) k).getD defaultLevel = _
    rw [Function.update_noteq hk]
    rfl
  have hT0lh : derefLevel ({ s with order_pool_ := ⟨Function.update s.order_pool_.storage oh (some ⟨id, p, q, Side.SELL, oh, oh⟩), s.order_pool_.freeArr, s.order_pool_.freeCount - 1⟩, level_pool_ := ⟨Function.update s.level_pool_.storage lh (some ⟨p, Side.SELL, u32add 0 q, 1, oh, lh, lh⟩), s.level_pool_.freeArr, s.level_pool_.freeCount - 1⟩, order_map_ := Function.update s.order_map_ (id % MAX_ORDERS) (some oh), price_level_map_ := Function.update s.price_level_map_ (priceToIndex p) (some lh) }) lh = ⟨p, Side.SELL, u32add 0 q, 1, oh, lh, lh⟩ := by
    show (Function.update s.level_pool_.storage lh (some ⟨p, Side.SELL, u32add 0 q, 1, oh, lh, lh⟩) lh).getD defaultLevel = _
    rw [Function.update_same]
    rfl
  have hTLeq : ((derefLevel { s with order_pool_ := ⟨Function.update s.order_pool_.storage oh (some ⟨id, p, q, Side.SELL, oh, oh⟩), s.order_pool_.freeArr, s.order_pool_.freeCount - 1⟩, level_pool_ := ⟨Function.update s.level_pool_.storage lh (some ⟨p, Side.SELL, u32add 0 q, 1, oh, lh, lh⟩), s.level_pool_.freeArr, s.level_pool_.freeCount - 1⟩, order_map_ := Function.update s.order_map_ (id % MAX_ORDERS) (some oh), price_level_map_ := Function.update s.price_level_map_ (priceToIndex p) (some lh) } hd).prev) = (derefLevel s hd).prev := by
    rw [hT0L hd hhdne]
  have hndB : (G.asksL).Nodup := hwf.levels.lvlNodup.sublist (List.sublist_append_right _ _)
  obtain ⟨pv, hpv_mem, hpv⟩ := isCycle_prev_mem hwf.levels.asksCyc hhdmem
  have hpv_eq : pv = (derefLevel s hd).prev := hpv.2.symm
  have hTLmem : ((derefLevel { s with order_pool_ := ⟨Function.update s.order_pool_.storage oh (some ⟨id, p, q, Side.SELL, oh, oh⟩), s.order_pool_.freeArr, s.order_pool_.freeCount - 1⟩, level_pool_ := ⟨Function.update s.level_pool_.storage lh (some ⟨p, Side.SELL, u32add 0 q, 1, oh, lh, lh⟩), s.level_pool_.freeArr, s.level_pool_.freeCount - 1⟩, order_map_ := Function.update s.order_map_ (id % MAX_ORDERS) (some oh), price_level_map_ := Function.update s.price_level_map_ (priceToIndex p) (some lh) } hd).prev) ∈ G.asksL := by
    rw [hTLeq, ← hpv_eq]
    exact hpv_mem
  have hTLlive : (s.level_pool_.storage ((derefLevel { s with order_pool_ := ⟨Function.update s.order_pool_.storage oh (some ⟨id, p, q, Side.SELL, oh, oh⟩), s.order_pool_.freeArr, s.order_pool_.freeCount - 1⟩, level_pool_ := ⟨Function.update s.level_pool_.storage lh (some ⟨p, Side.SELL, u32add 0 q, 1, oh, lh, lh⟩), s.level_pool_.freeArr, s.level_pool_.freeCount - 1⟩, order_map_ := Function.update s.order_map_ (id % MAX_ORDERS) (some oh), price_level_map_ := Function.update s.price_level_map_ (priceToIndex p) (some lh) } hd).prev)).isSome :=
    (hwf.levels.lvlLive _).mpr (List.mem_append.mpr (Or.inr hTLmem))
  have hTLne : ((derefLevel { s with order_pool_ := ⟨Function.update s.order_pool_.storage oh (some ⟨id, p, q, Side.SELL, oh, oh⟩), s.order_pool_.freeArr, s.order_pool_.freeCount - 1⟩, level_pool_ := ⟨Function.update s.level_pool_.storage lh (some ⟨p, Side.SELL, u32add 0 q, 1, oh, lh, lh⟩), s.level_pool_.freeArr, s.level_pool_.freeCount - 1⟩, order_map_ := Function.update s.order_map_ (id % MAX_ORDERS) (some oh), price_level_map_ := Function.update s.price_level_map_ (priceToIndex p) (some lh) } hd).prev) ≠ lh := hnotlh _ hTLlive
  have hderF_L3 : ∀ k, derefLevel ({ setLevel (setLevel (setLevel { s with order_pool_ := ⟨Function.update s.order_pool_.storage oh (some ⟨id, p, q, Side.SELL, oh, oh⟩), s.order_pool_.freeArr, s.order_pool_.freeCount - 1⟩, level_pool_ := ⟨Function.update s.level_pool_.storage lh (some ⟨p, Side.SELL, u32add 0 q, 1, oh, lh, lh⟩), s.level_pool_.freeArr, s.level_pool_.freeCount - 1⟩, order_map_ := Function.update s.order_map_ (id % MAX_ORDERS) (some oh), price_level_map_ := Function.update s.price_level_map_ (priceToIndex p) (some lh) } lh (fun l => { l with prev := (derefLevel { s with order_pool_ := ⟨Function.update s.order_pool_.storage oh (some ⟨id, p, q, Side.SELL, oh, oh⟩), s.order_pool_.freeArr, s.order_pool_.freeCount - 1⟩, level_pool_ := ⟨Function.update s.level_pool_.storage lh (some ⟨p, Side.SELL, u32add 0 q, 1, oh, lh, lh⟩), s.level_pool_.freeArr, s.level_pool_.freeCount - 1⟩, order_map_ := Function.update s.order_map_ (id % MAX_ORDERS) (some oh), price_level_map_ := Function.update s.price_level_map_ (priceToIndex p) (some lh) } hd).prev, next := hd })) (derefLevel { s with order_pool_ := ⟨Function.update s.order_pool_.storage oh (some ⟨id, p, q, Side.SELL, oh, oh⟩), s.order_pool_.freeArr, s.order_pool_.freeCount - 1⟩, level_pool_ := ⟨Function.update s.level_pool_.storage lh (some ⟨p, Side.SELL, u32add 0 q, 1, oh, lh, lh⟩), s.level_pool_.freeArr, s.level_pool_.freeCount - 1⟩, order_map_ := Function.update s.order_map_ (id % MAX_ORDERS) (some oh), price_level_map_ := Function.update s.price_level_map_ (priceToIndex p) (some lh) } hd).prev (fun l => { l with next := lh })) hd (fun l => { l with prev := lh }) with asks_ := some lh }) k = derefLevel (setLevel (setLevel (setLevel { s with order_pool_ := ⟨Function.update s.order_pool_.storage oh (some ⟨id, p, q, Side.SELL, oh, oh⟩), s.order_pool_.freeArr, s.order_pool_.freeCount - 1⟩, level_pool_ := ⟨Function.update s.level_pool_.storage lh (some ⟨p, Side.SELL, u32add 0 q, 1, oh, lh, lh⟩), s.level_pool_.freeArr, s.level_pool_.freeCount - 1⟩, order_map_ := Function.update s.order_map_ (id % MAX_ORDERS) (some oh), price_level_map_ := Function.update s.price_level_map_ (priceToIndex p) (some lh) } lh (fun l => { l with prev := (derefLevel { s with order_pool_ := ⟨Function.update s.order_pool_.storage oh (some ⟨id, p, q, Side.SELL, oh, oh⟩), s.order_pool_.freeArr, s.order_pool_.freeCount - 1⟩, level_pool_ := ⟨Function.update s.level_pool_.storage lh (some ⟨p, Side.SELL, u32add 0 q, 1, oh, lh, lh⟩), s.level_pool_.freeArr, s.level_pool_.freeCount - 1⟩, order_map_ := Function.update s.order_map_ (id % MAX_ORDERS) (some oh), price_level_map_ := Function.update s.price_level_map_ (priceToIndex p) (some lh) } hd).prev, next := hd })) (derefLevel { s with order_pool_ := ⟨Function.update s.order_pool_.storage oh (some ⟨id, p, q, Side.SELL, oh, oh⟩), s.order_pool_.freeArr, s.order_pool_.freeCount - 1⟩, level_pool_ := ⟨Function.update s.level_pool_.storage lh (some ⟨p, Side.SELL, u32add 0 q, 1, oh, lh, lh⟩), s.level_pool_.freeArr, s.level_pool_.freeCount - 1⟩, order_map_ := Function.update s.order_map_ (id % MAX_ORDERS) (some oh), price_level_map_ := Function.update s.price_level_map_ (priceToIndex p) (some lh) } hd).prev (fun l => { l with next := lh })) hd (fun l => { l with prev := lh })) k := fun k => rfl
  have hFlh : derefLevel ({ setLevel (setLevel (setLevel { s with order_pool_ := ⟨Function.update s.order_pool_.storage oh (some ⟨id, p, q, Side.SELL, oh, oh⟩), s.order_pool_.freeArr, s.order_pool_.freeCount - 1⟩, level_pool_ := ⟨Function.update s.level_pool_.storage lh (some ⟨p, Side.SELL, u32add 0 q, 1, oh, lh, lh⟩), s.level_pool_.freeArr, s.level_pool_.freeCount - 1⟩, order_map_ := Function.update s.order_map_ (id % MAX_ORDERS) (some oh), price_level_map_ := Function.update s.price_level_map_ (priceToIndex p) (some lh) } lh (fun l => { l with prev := (derefLevel { s with order_pool_ := ⟨Function.update s.order_pool_.storage oh (some ⟨id, p, q, Side.SELL, oh, oh⟩), s.order_pool_.freeArr, s.order_pool_.freeCount - 1⟩, level_pool_ := ⟨Function.update s.level_pool_.storage lh (some ⟨p, Side.SELL, u32add 0 q, 1, oh, lh, lh⟩), s.level_pool_.freeArr, s.level_pool_.freeCount - 1⟩, order_map_ := Function.update s.order_map_ (id % MAX_ORDERS) (some oh), price_level_map_ := Function.update s.price_level_map_ (priceToIndex p) (some lh) } hd).prev, next := hd })) (derefLevel { s with order_pool_ := ⟨Function.update s.order_pool_.storage oh (some ⟨id, p, q, Side.SELL, oh, oh⟩), s.order_pool_.freeArr, s.order_pool_.freeCount - 1⟩, level_pool_ := ⟨Function.update s.level_pool_.storage lh (some ⟨p, Side.SELL, u32add 0 q, 1, oh, lh, lh⟩), s.level_pool_.freeArr, s.level_pool_.freeCount - 1⟩, order_map_ := Function.update s.order_map_ (id % MAX_ORDERS) (some oh), price_level_map_ := Function.update s.price_level_map_ (priceToIndex p) (some lh) } hd).prev (fun l => { l with next := lh })) hd (fun l => { l with prev := lh }) with asks_ := some lh }) lh = (⟨p, Side.SELL, u32add 0 q, 1, oh, (derefLevel { s with order_pool_ := ⟨Function.update s.order_pool_.storage oh (some ⟨id, p, q, Side.SELL, oh, oh⟩), s.order_pool_.freeArr, s.order_pool_.freeCount - 1⟩, level_pool_ := ⟨Function.update s.level_pool_.storage lh (some ⟨p, Side.SELL, u32add 0 q, 1, oh, lh, lh⟩), s.level_pool_.freeArr, s.level_pool_.freeCount - 1⟩, order_map_ := Function.update s.order_map_ (id % MAX_ORDERS) (some oh), price_level_map_ := Function.update s.price_level_map_ (priceToIndex p) (some lh) } hd).prev, hd⟩ : PriceLevel) := by
    rw [hderF_L3 lh, derefLevel_setLevel_ne _ _ _ (Ne.symm hhdne),
      derefLevel_setLevel_ne _ _ _ (Ne.symm hTLne), derefLevel_setLevel_same, hT0lh]
  have hfieldsF : ∀ k, k ≠ lh →
      (derefLevel ({ setLevel (setLevel (setLevel { s with order_pool_ := ⟨Function.update s.order_pool_.storage oh (some ⟨id, p, q, Side.SELL, oh, oh⟩), s.order_pool_.freeArr, s.order_pool_.freeCount - 1⟩, level_pool_ := ⟨Function.update s.level_pool_.storage lh (some ⟨p, Side.SELL, u32add 0 q, 1, oh, lh, lh⟩), s.level_pool_.freeArr, s.level_pool_.freeCount - 1⟩, order_map_ := Function.update s.order_map_ (id % MAX_ORDERS) (some oh), price_level_map_ := Function.update s.price_level_map_ (priceToIndex p) (some lh) } lh (fun l => { l with prev := (derefLevel { s with order_pool_ := ⟨Function.update s.order_pool_.storage oh (some ⟨id, p, q, Side.SELL, oh, oh⟩), s.order_pool_.freeArr, s.order_pool_.freeCount - 1⟩, level_pool_ := ⟨Function.update s.level_pool_.storage lh (some ⟨p, Side.SELL, u32add 0 q, 1, oh, lh, lh⟩), s.level_pool_.freeArr, s.level_pool_.freeCount - 1⟩, order_map_ := Function.update s.order_map_ (id % MAX_ORDERS) (some oh), price_level_map_ := Function.update s.price_level_map_ (priceToIndex p) (some lh) } hd).prev, next := hd })) (derefLevel { s with order_pool_ := ⟨Function.update s.order_pool_.storage oh (some ⟨id, p, q, Side.SELL, oh, oh⟩), s.order_pool_.freeArr, s.order_pool_.freeCount - 1⟩, level_pool_ := ⟨Function.update s.level_pool_.storage lh (some ⟨p, Side.SELL, u32add 0 q, 1, oh, lh, lh⟩), s.level_pool_.freeArr, s.level_pool_.freeCount - 1⟩, order_map_ := Function.update s.order_map_ (id % MAX_ORDERS) (some oh), price_level_map_ := Function.update s.price_level_map_ (priceToIndex p) (some lh) } hd).prev (fun l => { l with next := lh })) hd (fun l => { l with prev := lh }) with asks_ := some lh }) k).price = (derefLevel s k).price ∧
      (derefLevel ({ setLevel (setLevel (setLevel { s with order_pool_ := ⟨Function.update s.order_pool_.storage oh (some ⟨id, p, q, Side.SELL, oh, oh⟩), s.order_pool_.freeArr, s.order_pool_.freeCount - 1⟩, level_pool_ := ⟨Function.update s.level_pool_.storage lh (some ⟨p, Side.SELL, u32add 0 q, 1, oh, lh, lh⟩), s.level_pool_.freeArr, s.level_pool_.freeCount - 1⟩, order_map_ := Function.update s.order_map_ (id % MAX_ORDERS) (some oh), price_level_map_ := Function.update s.price_level_map_ (priceToIndex p) (some lh) } lh (fun l => { l with prev := (derefLevel { s with order_pool_ := ⟨Function.update s.order_pool_.storage oh (some ⟨id, p, q, Side.SELL, oh, oh⟩), s.order_pool_.freeArr, s.order_pool_.freeCount - 1⟩, level_pool_ := ⟨Function.update s.level_pool_.storage lh (some ⟨p, Side.SELL, u32add 0 q, 1, oh, lh, lh⟩), s.level_pool_.freeArr, s.level_pool_.freeCount - 1⟩, order_map_ := Function.update s.order_map_ (id % MAX_ORDERS) (some oh), price_level_map_ := Function.update s.price_level_map_ (priceToIndex p) (some lh) } hd).prev, next := hd })) (derefLevel { s with order_pool_ := ⟨Function.update s.order_pool_.storage oh (some ⟨id, p, q, Side.SELL, oh, oh⟩), s.order_pool_.freeArr, s.order_pool_.freeCount - 1⟩, level_pool_ := ⟨Function.update s.level_pool_.storage lh (some ⟨p, Side.SELL, u32add 0 q, 1, oh, lh, lh⟩), s.level_pool_.freeArr, s.level_pool_.freeCount - 1⟩, order_map_ := Function.update s.order_map_ (id % MAX_ORDERS) (some oh), price_level_map_ := Function.update s.price_level_map_ (priceToIndex p) (some lh) } hd).prev (fun l => { l with next := lh })) hd (fun l => { l with prev := lh }) with asks_ := some lh }) k).side = (derefLevel s k).side ∧
      (derefLevel ({ setLevel (setLevel (setLevel { s with order_pool_ := ⟨Function.update s.order_pool_.storage oh (some ⟨id, p, q, Side.SELL, oh, oh⟩), s.order_pool_.freeArr, s.order_pool_.freeCount - 1⟩, level_pool_ := ⟨Function.update s.level_pool_.storage lh (some ⟨p, Side.SELL, u32add 0 q, 1, oh, lh, lh⟩), s.level_pool_.freeArr, s.level_pool_.freeCount - 1⟩, order_map_ := Function.update s.order_map_ (id % MAX_ORDERS) (some oh), price_level_map_ := Function.update s.price_level_map_ (priceToIndex p) (some lh) } lh (fun l => { l with prev := (derefLevel { s with order_pool_ := ⟨Function.update s.order_pool_.storage oh (some ⟨id, p, q, Side.SELL, oh, oh⟩), s.order_pool_.freeArr, s.order_pool_.freeCount - 1⟩, level_pool_ := ⟨Function.update s.level_pool_.storage lh (some ⟨p, Side.SELL, u32add 0 q, 1, oh, lh, lh⟩), s.level_pool_.freeArr, s.level_pool_.freeCount - 1⟩, order_map_ := Function.update s.order_map_ (id % MAX_ORDERS) (some oh), price_level_map_ := Function.update s.price_level_map_ (priceToIndex p) (some lh) } hd).prev, next := hd })) (derefLevel { s with order_pool_ := ⟨Function.update s.order_pool_.storage oh (some ⟨id, p, q, Side.SELL, oh, oh⟩), s.order_pool_.freeArr, s.order_pool_.freeCount - 1⟩, level_pool_ := ⟨Function.update s.level_pool_.storage lh (some ⟨p, Side.SELL, u32add 0 q, 1, oh, lh, lh⟩), s.level_pool_.freeArr, s.level_pool_.freeCount - 1⟩, order_map_ := Function.update s.order_map_ (id % MAX_ORDERS) (some oh), price_level_map_ := Function.update s.price_level_map_ (priceToIndex p) (some lh) } hd).prev (fun l => { l with next := lh })) hd (fun l => { l with prev := lh }) with asks_ := some lh }) k).first_order = (derefLevel s k).first_order ∧
      (derefLevel ({ setLevel (setLevel (setLevel { s with order_pool_ := ⟨Function.update s.order_pool_.storage oh (some ⟨id, p, q, Side.SELL, oh, oh⟩), s.order_pool_.freeArr, s.order_pool_.freeCount - 1⟩, level_pool_ := ⟨Function.update s.level_pool_.storage lh (some ⟨p, Side.SELL, u32add 0 q, 1, oh, lh, lh⟩), s.level_pool_.freeArr, s.level_pool_.freeCount - 1⟩, order_map_ := Function.update s.order_map_ (id % MAX_ORDERS) (some oh), price_level_map_ := Function.update s.price_level_map_ (priceToIndex p) (some lh) } lh (fun l => { l with prev := (derefLevel { s with order_pool_ := ⟨Function.update s.order_pool_.storage oh (some ⟨id, p, q, Side.SELL, oh, oh⟩), s.order_pool_.freeArr, s.order_pool_.freeCount - 1⟩, level_pool_ := ⟨Function.update s.level_pool_.storage lh (some ⟨p, Side.SELL, u32add 0 q, 1, oh, lh, lh⟩), s.level_pool_.freeArr, s.level_pool_.freeCount - 1⟩, order_map_ := Function.update s.order_map_ (id % MAX_ORDERS) (some oh), price_level_map_ := Function.update s.price_level_map_ (priceToIndex p) (some lh) } hd).prev, next := hd })) (derefLevel { s with order_pool_ := ⟨Function.update s.order_pool_.storage oh (some ⟨id, p, q, Side.SELL, oh, oh⟩), s.order_pool_.freeArr, s.order_pool_.freeCount - 1⟩, level_pool_ := ⟨Function.update s.level_pool_.storage lh (some ⟨p, Side.SELL, u32add 0 q, 1, oh, lh, lh⟩), s.level_pool_.freeArr, s.level_pool_.freeCount - 1⟩, order_map_ := Function.update s.order_map_ (id % MAX_ORDERS) (some oh), price_level_map_ := Function.update s.price_level_map_ (priceToIndex p) (some lh) } hd).prev (fun l => { l with next := lh })) hd (fun l => { l with prev := lh }) with asks_ := some lh }) k).order_count = (derefLevel s k).order_count := by
    intro k h1
    rw [hderF_L3 k]
    by_cases h3 : k = hd
    · rw [h3, derefLevel_setLevel_same]
      by_cases h2 : hd = ((derefLevel { s with order_pool_ := ⟨Function.update s.order_pool_.storage oh (some ⟨id, p, q, Side.SELL, oh, oh⟩), s.order_pool_.freeArr, s.order_pool_.freeCount - 1⟩, level_pool_ := ⟨Function.update s.level_pool_.storage lh (some ⟨p, Side.SELL, u32add 0 q, 1, oh, lh, lh⟩), s.level_pool_.freeArr, s.level_pool_.freeCount - 1⟩, order_map_ := Function.update s.order_map_ (id % MAX_ORDERS) (some oh), price_level_map_ := Function.update s.price_level_map_ (priceToIndex p) (some lh) } hd).prev)
      · rw [← h2, derefLevel_setLevel_same, derefLevel_setLevel_ne _ _ _ hhdne, hT0L _ hhdne]
        exact ⟨rfl, rfl, rfl, rfl⟩
      · rw [derefLevel_setLevel_ne _ _ _ h2, derefLevel_setLevel_ne _ _ _ hhdne, hT0L _ hhdne]
        exact ⟨rfl, rfl, rfl, rfl⟩
    · rw [derefLevel_setLevel_ne _ _ _ h3]
      by_cases h2 : k = ((derefLevel { s with order_pool_ := ⟨Function.update s.order_pool_.storage oh (some ⟨id, p, q, Side.SELL, oh, oh⟩), s.order_pool_.freeArr, s.order_pool_.freeCount - 1⟩, level_pool_ := ⟨Function.update s.level_pool_.storage lh (some ⟨p, Side.SELL, u32add 0 q, 1, oh, lh, lh⟩), s.level_pool_.freeArr, s.level_pool_.freeCount - 1⟩, order_map_ := Function.update s.order_map_ (id % MAX_ORDERS) (some oh), price_level_map_ := Function.update s.price_level_map_ (priceToIndex p) (some lh) } hd).prev)
      · rw [h2, derefLevel_setLevel_same, derefLevel_setLevel_ne _ _ _ hTLne, hT0L _ hTLne]
        exact ⟨rfl, rfl, rfl, rfl⟩
      · rw [derefLevel_setLevel_ne _ _ _ h2, derefLevel_setLevel_ne _ _ _ h1, hT0L k h1]
        exact ⟨rfl, rfl, rfl, rfl⟩
  have hnTL : (derefLevel ({ setLevel (setLevel (setLevel { s with order_pool_ := ⟨Function.update s.order_pool_.storage oh (some ⟨id, p, q, Side.SELL, oh, oh⟩), s.order_pool_.freeArr, s.order_pool_.freeCount - 1⟩, level_pool_ := ⟨Function.update s.level_pool_.storage lh (some ⟨p, Side.SELL, u32add 0 q, 1, oh, lh, lh⟩), s.level_pool_.freeArr, s.level_pool_.freeCount - 1⟩, order_map_ := Function.update s.order_map_ (id % MAX_ORDERS) (some oh), price_level_map_ := Function.update s.price_level_map_ (priceToIndex p) (some lh) } lh (fun l => { l with prev := (derefLevel { s with order_pool_ := ⟨Function.update s.order_pool_.storage oh (some ⟨id, p, q, Side.SELL, oh, oh⟩), s.order_pool_.freeArr, s.order_pool_.freeCount - 1⟩, level_pool_ := ⟨Function.update s.level_pool_.storage lh (some ⟨p, Side.SELL, u32add 0 q, 1, oh, lh, lh⟩), s.level_pool_.freeArr, s.level_pool_.freeCount - 1⟩, order_map_ := Function.update s.order_map_ (id % MAX_ORDERS) (some oh), price_level_map_ := Function.update s.price_level_map_ (priceToIndex p) (some lh) } hd).prev, next := hd })) (derefLevel { s with order_pool_ := ⟨Function.update s.order_pool_.storage oh (some ⟨id, p, q, Side.SELL, oh, oh⟩), s.order_pool_.freeArr, s.order_pool_.freeCount - 1⟩, level_pool_ := ⟨Function.update s.level_pool_.storage lh (some ⟨p, Side.SELL, u32add 0 q, 1, oh, lh, lh⟩), s.level_pool_.freeArr, s.level_pool_.freeCount - 1⟩, order_map_ := Function.update s.order_map_ (id % MAX_ORDERS) (some oh), price_level_map_ := Function.update s.price_level_map_ (priceToIndex p) (some lh) } hd).prev (fun l => { l with next := lh })) hd (fun l => { l with prev := lh }) with asks_ := some lh }) ((derefLevel { s with order_pool_ := ⟨Function.update s.order_pool_.storage oh (some ⟨id, p, q, Side.SELL, oh, oh⟩), s.order_pool_.freeArr, s.order_pool_.freeCount - 1⟩, level_pool_ := ⟨Function.update s.level_pool_.storage lh (some ⟨p, Side.SELL, u32add 0 q, 1, oh, lh, lh⟩), s.level_pool_.freeArr, s.level_pool_.freeCount - 1⟩, order_map_ := Function.update s.order_map_ (id % MAX_ORDERS) (some oh), price_level_map_ := Function.update s.price_level_map_ (priceToIndex p) (some lh) } hd).prev)).next = lh := by
    rw [hderF_L3]
    by_cases h3 : ((derefLevel { s with order_pool_ := ⟨Function.update s.order_pool_.storage oh (some ⟨id, p, q, Side.SELL, oh, oh⟩), s.order_pool_.freeArr, s.order_pool_.freeCount - 1⟩, level_pool_ := ⟨Function.update s.level_pool_.storage lh (some ⟨p, Side.SELL, u32add 0 q, 1, oh, lh, lh⟩), s.level_pool_.freeArr, s.level_pool_.freeCount - 1⟩, order_map_ := Function.update s.order_map_ (id % MAX_ORDERS) (some oh), price_level_map_ := Function.update s.price_level_map_ (priceToIndex p) (some lh) } hd).prev) = hd
    · rw [h3, derefLevel_setLevel_same, derefLevel_setLevel_same]
    · rw [derefLevel_setLevel_ne _ _ _ h3, derefLevel_setLevel_same]
  have hpHD : (derefLevel ({ setLevel (setLevel (setLevel { s with order_pool_ := ⟨Function.update s.order_pool_.storage oh (some ⟨id, p, q, Side.SELL, oh, oh⟩), s.order_pool_.freeArr, s.order_pool_.freeCount - 1⟩, level_pool_ := ⟨Function.update s.level_pool_.storage lh (some ⟨p, Side.SELL, u32add 0 q, 1, oh, lh, lh⟩), s.level_pool_.freeArr, s.level_pool_.freeCount - 1⟩, order_map_ := Function.update s.order_map_ (id % MAX_ORDERS) (some oh), price_level_map_ := Function.update s.price_level_map_ (priceToIndex p) (some lh) } lh (fun l => { l with prev := (derefLevel { s with order_pool_ := ⟨Function.update s.order_pool_.storage oh (some ⟨id, p, q, Side.SELL, oh, oh⟩), s.order_pool_.freeArr, s.order_pool_.freeCount - 1⟩, level_pool_ := ⟨Function.update s.level_pool_.storage lh (some ⟨p, Side.SELL, u32add 0 q, 1, oh, lh, lh⟩), s.level_pool_.freeArr, s.level_pool_.freeCount - 1⟩, order_map_ := Function.update s.order_map_ (id % MAX_ORDERS) (some oh), price_level_map_ := Function.update s.price_level_map_ (priceToIndex p) (some lh) } hd).prev, next := hd })) (derefLevel { s with order_pool_ := ⟨Function.update s.order_pool_.storage oh (some ⟨id, p, q, Side.SELL, oh, oh⟩), s.order_pool_.freeArr, s.order_pool_.freeCount - 1⟩, level_pool_ := ⟨Function.update s.level_pool_.storage lh (some ⟨p, Side.SELL, u32add 0 q, 1, oh, lh, lh⟩), s.level_pool_.freeArr, s.level_pool_.freeCount - 1⟩, order_map_ := Function.update s.order_map_ (id % MAX_ORDERS) (some oh), price_level_map_ := Function.update s.price_level_map_ (priceToIndex p) (some lh) } hd).prev (fun l => { l with next := lh })) hd (fun l => { l with prev := lh }) with asks_ := some lh }) hd).prev = lh := by
    rw [hderF_L3, derefLevel_setLevel_same]
  have hrnF : ∀ k, k ≠ lh → k ≠ ((derefLevel { s with order_pool_ := ⟨Function.update s.order_pool_.storage oh (some ⟨id, p, q, Side.SELL, oh, oh⟩), s.order_pool_.freeArr, s.order_pool_.freeCount - 1⟩, level_pool_ := ⟨Function.update s.level_pool_.storage lh (some ⟨p, Side.SELL, u32add 0 q, 1, oh, lh, lh⟩), s.level_pool_.freeArr, s.level_pool_.freeCount - 1⟩, order_map_ := Function.update s.order_map_ (id % MAX_ORDERS) (some oh), price_level_map_ := Function.update s.price_level_map_ (priceToIndex p) (some lh) } hd).prev) →
      (derefLevel ({ setLevel (setLevel (setLevel { s with order_pool_ := ⟨Function.update s.order_pool_.storage oh (some ⟨id, p, q, Side.SELL, oh, oh⟩), s.order_pool_.freeArr, s.order_pool_.freeCount - 1⟩, level_pool_ := ⟨Function.update s.level_pool_.storage lh (some ⟨p, Side.SELL, u32add 0 q, 1, oh, lh, lh⟩), s.level_pool_.freeArr, s.level_pool_.freeCount - 1⟩, order_map_ := Function.update s.order_map_ (id % MAX_ORDERS) (some oh), price_level_map_ := Function.update s.price_level_map_ (priceToIndex p) (some lh) } lh (fun l => { l with prev := (derefLevel { s with order_pool_ := ⟨Function.update s.order_pool_.storage oh (some ⟨id, p, q, Side.SELL, oh, oh⟩), s.order_pool_.freeArr, s.order_pool_.freeCount - 1⟩, level_pool_ := ⟨Function.update s.level_pool_.storage lh (some ⟨p, Side.SELL, u32add 0 q, 1, oh, lh, lh⟩), s.level_pool_.freeArr, s.level_pool_.freeCount - 1⟩, order_map_ := Function.update s.order_map_ (id % MAX_ORDERS) (some oh), price_level_map_ := Function.update s.price_level_map_ (priceToIndex p) (some lh) } hd).prev, next := hd })) (derefLevel { s with order_pool_ := ⟨Function.update s.order_pool_.storage oh (some ⟨id, p, q, Side.SELL, oh, oh⟩), s.order_pool_.freeArr, s.order_pool_.freeCount - 1⟩, level_pool_ := ⟨Function.update s.level_pool_.storage lh (some ⟨p, Side.SELL, u32add 0 q, 1, oh, lh, lh⟩), s.level_pool_.freeArr, s.level_pool_.freeCount - 1⟩, order_map_ := Function.update s.order_map_ (id % MAX_ORDERS) (some oh), price_level_map_ := Function.update s.price_level_map_ (priceToIndex p) (some lh) } hd).prev (fun l => { l with next := lh })) hd (fun l => { l with prev := lh }) with asks_ := some lh }) k).next = (derefLevel s k).next := by
    intro k hkl hkTL
    rw [hderF_L3 k]
    by_cases h3 : k = hd
    · rw [h3, derefLevel_setLevel_same, derefLevel_setLevel_ne _ _ _ (h3 ▸ hkTL),
        derefLevel_setLevel_ne _ _ _ hhdne, hT0L _ hhdne]
    · rw [derefLevel_setLevel_ne _ _ _ h3, derefLevel_setLevel_ne _ _ _ hkTL,
        derefLevel_setLevel_ne _ _ _ hkl, hT0L k hkl]
  have hrpF : ∀ k, k ≠ lh → k ≠ hd →
      (derefLevel ({ setLevel (setLevel (setLevel { s with order_pool_ := ⟨Function.update s.order_pool_.storage oh (some ⟨id, p, q, Side.SELL, oh, oh⟩), s.order_pool_.freeArr, s.order_pool_.freeCount - 1⟩, level_pool_ := ⟨Function.update s.level_pool_.storage lh (some ⟨p, Side.SELL, u32add 0 q, 1, oh, lh, lh⟩), s.level_pool_.freeArr, s.level_pool_.freeCount - 1⟩, order_map_ := Function.update s.order_map_ (id % MAX_ORDERS) (some oh), price_level_map_ := Function.update s.price_level_map_ (priceToIndex p) (some lh) } lh (fun l => { l with prev := (derefLevel { s with order_pool_ := ⟨Function.update s.order_pool_.storage oh (some ⟨id, p, q, Side.SELL, oh, oh⟩), s.order_pool_.freeArr, s.order_pool_.freeCount - 1⟩, level_pool_ := ⟨Function.update s.level_pool_.storage lh (some ⟨p, Side.SELL, u32add 0 q, 1, oh, lh, lh⟩), s.level_pool_.freeArr, s.level_pool_.freeCount - 1⟩, order_map_ := Function.update s.order_map_ (id % MAX_ORDERS) (some oh), price_level_map_ := Function.update s.price_level_map_ (priceToIndex p) (some lh) } hd).prev, next := hd })) (derefLevel { s with order_pool_ := ⟨Function.update s.order_pool_.storage oh (some ⟨id, p, q, Side.SELL, oh, oh⟩), s.order_pool_.freeArr, s.order_pool_.freeCount - 1⟩, level_pool_ := ⟨Function.update s.level_pool_.storage lh (some ⟨p, Side.SELL, u32add 0 q, 1, oh, lh, lh⟩), s.level_pool_.freeArr, s.level_pool_.freeCount - 1⟩, order_map_ := Function.update s.order_map_ (id % MAX_ORDERS) (some oh), price_level_map_ := Function.update s.price_level_map_ (priceToIndex p) (some lh) } hd).prev (fun l => { l with next := lh })) hd (fun l => { l with prev := lh }) with asks_ := some lh }) k).prev = (derefLevel s k).prev := by
    intro k hkl hkhd
    rw [hderF_L3 k, derefLevel_setLevel_ne _ _ _ hkhd]
    by_cases h2 : k = ((derefLevel { s with order_pool_ := ⟨Function.update s.order_pool_.storage oh (some ⟨id, p, q, Side.SELL, oh, oh⟩), s.order_pool_.freeArr, s.order_pool_.freeCount - 1⟩, level_pool_ := ⟨Function.update s.level_pool_.storage lh (some ⟨p, Side.SELL, u32add 0 q, 1, oh, lh, lh⟩), s.level_pool_.freeArr, s.level_pool_.freeCount - 1⟩, order_map_ := Function.update s.order_map_ (id % MAX_ORDERS) (some oh), price_level_map_ := Function.update s.price_level_map_ (priceToIndex p) (some lh) } hd).prev)
    · rw [h2, derefLevel_setLevel_same, derefLevel_setLevel_ne _ _ _ hTLne, hT0L _ hTLne]
    · rw [derefLevel_setLevel_ne _ _ _ h2, derefLevel_setLevel_ne _ _ _ hkl, hT0L k hkl]
  -- level-pool liveness through the chain of writes
  have hS1Llive : ∀ k, (({ s with order_pool_ := ⟨Function.update s.order_pool_.storage oh (some ⟨id, p, q, Side.SELL, oh, oh⟩), s.order_pool_.freeArr, s.order_pool_.freeCount - 1⟩, level_pool_ := ⟨Function.update s.level_pool_.storage lh (some ⟨p, Side.SELL, u32add 0 q, 1, oh, lh, lh⟩), s.level_pool_.freeArr, s.level_pool_.freeCount - 1⟩, order_map_ := Function.update s.order_map_ (id % MAX_ORDERS) (some oh), price_level_map_ := Function.update s.price_level_map_ (priceToIndex p) (some lh) }).level_pool_.storage k).isSome ↔
      ((s.level_pool_.storage k).isSome ∨ k = lh) := by
    intro k
    by_cases hk : k = lh
    · show (Function.update s.level_pool_.storage lh (some ⟨p, Side.SELL, u32add 0 q, 1, oh, lh, lh⟩) k).isSome ↔ _
      rw [hk, Function.update_same]
      simp [hk]
    · show (Function.update s.level_pool_.storage lh (some ⟨p, Side.SELL, u32add 0 q, 1, oh, lh, lh⟩) k).isSome ↔ _
      rw [Function.update_noteq hk]
      simp [hk]
  have hT0lhIsSome : (({ s with order_pool_ := ⟨Function.update s.order_pool_.storage oh (some ⟨id, p, q, Side.SELL, oh, oh⟩), s.order_pool_.freeArr, s.order_pool_.freeCount - 1⟩, level_pool_ := ⟨Function.update s.level_pool_.storage lh (some ⟨p, Side.SELL, u32add 0 q, 1, oh, lh, lh⟩), s.level_pool_.freeArr, s.level_pool_.freeCount - 1⟩, order_map_ := Function.update s.order_map_ (id % MAX_ORDERS) (some oh), price_level_map_ := Function.update s.price_level_map_ (priceToIndex p) (some lh) }).level_pool_.storage lh).isSome := by
    show (Function.update s.level_pool_.storage lh (some ⟨p, Side.SELL, u32add 0 q, 1, oh, lh, lh⟩) lh).isSome
    rw [Function.update_same]
    rfl
  have hlive1 : ∀ k, ((setLevel { s with order_pool_ := ⟨Function.update s.order_pool_.storage oh (some ⟨id, p, q, Side.SELL, oh, oh⟩), s.order_pool_.freeArr, s.order_pool_.freeCount - 1⟩, level_pool_ := ⟨Function.update s.level_pool_.storage lh (some ⟨p, Side.SELL, u32add 0 q, 1, oh, lh, lh⟩), s.level_pool_.freeArr, s.level_pool_.freeCount - 1⟩, order_map_ := Function.update s.order_map_ (id % MAX_ORDERS) (some oh), price_level_map_ := Function.update s.price_level_map_ (priceToIndex p) (some lh) } lh (fun l => { l with prev := (derefLevel { s with order_pool_ := ⟨Function.update s.order_pool_.storage oh (some ⟨id, p, q, Side.SELL, oh, oh⟩), s.order_pool_.freeArr, s.order_pool_.freeCount - 1⟩, level_pool_ := ⟨Function.update s.level_pool_.storage lh (some ⟨p, Side.SELL, u32add 0 q, 1, oh, lh, lh⟩), s.level_pool_.freeArr, s.level_pool_.freeCount - 1⟩, order_map_ := Function.update s.order_map_ (id % MAX_ORDERS) (some oh), price_level_map_ := Function.update s.price_level_map_ (priceToIndex p) (some lh) } hd).prev, next := hd })).level_pool_.storage k).isSome =
      (({ s with order_pool_ := ⟨Function.update s.order_pool_.storage oh (some ⟨id, p, q, Side.SELL, oh, oh⟩), s.order_pool_.freeArr, s.order_pool_.freeCount - 1⟩, level_pool_ := ⟨Function.update s.level_pool_.storage lh (some ⟨p, Side.SELL, u32add 0 q, 1, oh, lh, lh⟩), s.level_pool_.freeArr, s.level_pool_.freeCount - 1⟩, order_map_ := Function.update s.order_map_ (id % MAX_ORDERS) (some oh), price_level_map_ := Function.update s.price_level_map_ (priceToIndex p) (some lh) }).level_pool_.storage k).isSome :=
    setLevel_storage_isSome ({ s with order_pool_ := ⟨Function.update s.order_pool_.storage oh (some ⟨id, p, q, Side.SELL, oh, oh⟩), s.order_pool_.freeArr, s.order_pool_.freeCount - 1⟩, level_pool_ := ⟨Function.update s.level_pool_.storage lh (some ⟨p, Side.SELL, u32add 0 q, 1, oh, lh, lh⟩), s.level_pool_.freeArr, s.level_pool_.freeCount - 1⟩, order_map_ := Function.update s.order_map_ (id % MAX_ORDERS) (some oh), price_level_map_ := Function.update s.price_level_map_ (priceToIndex p) (some lh) }) lh _ hT0lhIsSome
  have hTLliveT0 : (({ s with order_pool_ := ⟨Function.update s.order_pool_.storage oh (some ⟨id, p, q, Side.SELL, oh, oh⟩), s.order_pool_.freeArr, s.order_pool_.freeCount - 1⟩, level_pool_ := ⟨Function.update s.level_pool_.storage lh (some ⟨p, Side.SELL, u32add 0 q, 1, oh, lh, lh⟩), s.level_pool_.freeArr, s.level_pool_.freeCount - 1⟩, order_map_ := Function.update s.order_map_ (id % MAX_ORDERS) (some oh), price_level_map_ := Function.update s.price_level_map_ (priceToIndex p) (some lh) }).level_pool_.storage ((derefLevel { s with order_pool_ := ⟨Function.update s.order_pool_.storage oh (some ⟨id, p, q, Side.SELL, oh, oh⟩), s.order_pool_.freeArr, s.order_pool_.freeCount - 1⟩, level_pool_ := ⟨Function.update s.level_pool_.storage lh (some ⟨p, Side.SELL, u32add 0 q, 1, oh, lh, lh⟩), s.level_pool_.freeArr, s.level_pool_.freeCount - 1⟩, order_map_ := Function.update s.order_map_ (id % MAX_ORDERS) (some oh), price_level_map_ := Function.update s.price_level_map_ (priceToIndex p) (some lh) } hd).prev)).isSome :=
    (hS1Llive _).mpr (Or.inl hTLlive)
  have hTLliveL1 : ((setLevel { s with order_pool_ := ⟨Function.update s.order_pool_.storage oh (some ⟨id, p, q, Side.SELL, oh, oh⟩), s.order_pool_.freeArr, s.order_pool_.freeCount - 1⟩, level_pool_ := ⟨Function.update s.level_pool_.storage lh (some ⟨p, Side.SELL, u32add 0 q, 1, oh, lh, lh⟩), s.level_pool_.freeArr, s.level_pool_.freeCount - 1⟩, order_map_ := Function.update s.order_map_ (id % MAX_ORDERS) (some oh), price_level_map_ := Function.update s.price_level_map_ (priceToIndex p) (some lh) } lh (fun l => { l with prev := (derefLevel { s with order_pool_ := ⟨Function.update s.order_pool_.storage oh (some ⟨id, p, q, Side.SELL, oh, oh⟩), s.order_pool_.freeArr, s.order_pool_.freeCount - 1⟩, level_pool_ := ⟨Function.update s.level_pool_.storage lh (some ⟨p, Side.SELL, u32add 0 q, 1, oh, lh, lh⟩), s.level_pool_.freeArr, s.level_pool_.freeCount - 1⟩, order_map_ := Function.update s.order_map_ (id % MAX_ORDERS) (some oh), price_level_map_ := Function.update s.price_level_map_ (priceToIndex p) (some lh) } hd).prev, next := hd })).level_pool_.storage ((derefLevel { s with order_pool_ := ⟨Function.update s.order_pool_.storage oh (some ⟨id, p, q, Side.SELL, oh, oh⟩), s.order_pool_.freeArr, s.order_pool_.freeCount - 1⟩, level_pool_ := ⟨Function.update s.level_pool_.storage lh (some ⟨p, Side.SELL, u32add 0 q, 1, oh, lh, lh⟩), s.level_pool_.freeArr, s.level_pool_.freeCount - 1⟩, order_map_ := Function.update s.order_map_ (id % MAX_ORDERS) (some oh), price_level_map_ := Function.update s.price_level_map_ (priceToIndex p) (some lh) } hd).prev)).isSome := by
    rw [hlive1]
    exact hTLliveT0
  have hlive2 : ∀ k, ((setLevel (setLevel { s with order_pool_ := ⟨Function.update s.order_pool_.storage oh (some ⟨id, p, q, Side.SELL, oh, oh⟩), s.order_pool_.freeArr, s.order_pool_.freeCount - 1⟩, level_pool_ := ⟨Function.update s.level_pool_.storage lh (some ⟨p, Side.SELL, u32add 0 q, 1, oh, lh, lh⟩), s.level_pool_.freeArr, s.level_pool_.freeCount - 1⟩, order_map_ := Function.update s.order_map_ (id % MAX_ORDERS) (some oh), price_level_map_ := Function.update s.price_level_map_ (priceToIndex p) (some lh) } lh (fun l => { l with prev := (derefLevel { s with order_pool_ := ⟨Function.update s.order_pool_.storage oh (some ⟨id, p, q, Side.SELL, oh, oh⟩), s.order_pool_.freeArr, s.order_pool_.freeCount - 1⟩, level_pool_ := ⟨Function.update s.level_pool_.storage lh (some ⟨p, Side.SELL, u32add 0 q, 1, oh, lh, lh⟩), s.level_pool_.freeArr, s.level_pool_.freeCount - 1⟩, order_map_ := Function.update s.order_map_ (id % MAX_ORDERS) (some oh), price_level_map_ := Function.update s.price_level_map_ (priceToIndex p) (some lh) } hd).prev, next := hd })) (derefLevel { s with order_pool_ := ⟨Function.update s.order_pool_.storage oh (some ⟨id, p, q, Side.SELL, oh, oh⟩), s.order_pool_.freeArr, s.order_pool_.freeCount - 1⟩, level_pool_ := ⟨Function.update s.level_pool_.storage lh (some ⟨p, Side.SELL, u32add 0 q, 1, oh, lh, lh⟩), s.level_pool_.freeArr, s.level_pool_.freeCount - 1⟩, order_map_ := Function.update s.order_map_ (id % MAX_ORDERS) (some oh), price_level_map_ := Function.update s.price_level_map_ (priceToIndex p) (some lh) } hd).prev (fun l => { l with next := lh })).level_pool_.storage k).isSome =
      ((setLevel { s with order_pool_ := ⟨Function.update s.order_pool_.storage oh (some ⟨id, p, q, Side.SELL, oh, oh⟩), s.order_pool_.freeArr, s.order_pool_.freeCount - 1⟩, level_pool_ := ⟨Function.update s.level_pool_.storage lh (some ⟨p, Side.SELL, u32add 0 q, 1, oh, lh, lh⟩), s.level_pool_.freeArr, s.level_pool_.freeCount - 1⟩, order_map_ := Function.update s.order_map_ (id % MAX_ORDERS) (some oh), price_level_map_ := Function.update s.price_level_map_ (priceToIndex p) (some lh) } lh (fun l => { l with prev := (derefLevel { s with order_pool_ := ⟨Function.update s.order_pool_.storage oh (some ⟨id, p, q, Side.SELL, oh, oh⟩), s.order_pool_.freeArr, s.order_pool_.freeCount - 1⟩, level_pool_ := ⟨Function.update s.level_pool_.storage lh (some ⟨p, Side.SELL, u32add 0 q, 1, oh, lh, lh⟩), s.level_pool_.freeArr, s.level_pool_.freeCount - 1⟩, order_map_ := Function.update s.order_map_ (id % MAX_ORDERS) (some oh), price_level_map_ := Function.update s.price_level_map_ (priceToIndex p) (some lh) } hd).prev, next := hd })).level_pool_.storage k).isSome :=
    setLevel_storage_isSome (setLevel { s with order_pool_ := ⟨Function.update s.order_pool_.storage oh (some ⟨id, p, q, Side.SELL, oh, oh⟩), s.order_pool_.freeArr, s.order_pool_.freeCount - 1⟩, level_pool_ := ⟨Function.update s.level_pool_.storage lh (some ⟨p, Side.SELL, u32add 0 q, 1, oh, lh, lh⟩), s.level_pool_.freeArr, s.level_pool_.freeCount - 1⟩, order_map_ := Function.update s.order_map_ (id % MAX_ORDERS) (some oh), price_level_map_ := Function.update s.price_level_map_ (priceToIndex p) (some lh) } lh (fun l => { l with prev := (derefLevel { s with order_pool_ := ⟨Function.update s.order_pool_.storage oh (some ⟨id, p, q, Side.SELL, oh, oh⟩), s.order_pool_.freeArr, s.order_pool_.freeCount - 1⟩, level_pool_ := ⟨Function.update s.level_pool_.storage lh (some ⟨p, Side.SELL, u32add 0 q, 1, oh, lh, lh⟩), s.level_pool_.freeArr, s.level_pool_.freeCount - 1⟩, order_map_ := Function.update s.order_map_ (id % MAX_ORDERS) (some oh), price_level_map_ := Function.update s.price_level_map_ (priceToIndex p) (some lh) } hd).prev, next := hd })) ((derefLevel { s with order_pool_ := ⟨Function.update s.order_pool_.storage oh (some ⟨id, p, q, Side.SELL, oh, oh⟩), s.order_pool_.freeArr, s.order_pool_.freeCount - 1⟩, level_pool_ := ⟨Function.update s.level_pool_.storage lh (some ⟨p, Side.SELL, u32add 0 q, 1, oh, lh, lh⟩), s.level_pool_.freeArr, s.level_pool_.freeCount - 1⟩, order_map_ := Function.update s.order_map_ (id % MAX_ORDERS) (some oh), price_level_map_ := Function.update s.price_level_map_ (priceToIndex p) (some lh) } hd).prev) _ hTLliveL1
  have hhdliveT0 : (({ s with order_pool_ := ⟨Function.update s.order_pool_.storage oh (some ⟨id, p, q, Side.SELL, oh, oh⟩), s.order_pool_.freeArr, s.order_pool_.freeCount - 1⟩, level_pool_ := ⟨Function.update s.level_pool_.storage lh (some ⟨p, Side.SELL, u32add 0 q, 1, oh, lh, lh⟩), s.level_pool_.freeArr, s.level_pool_.freeCount - 1⟩, order_map_ := Function.update s.order_map_ (id % MAX_ORDERS) (some oh), price_level_map_ := Function.update s.price_level_map_ (priceToIndex p) (some lh) }).level_pool_.storage hd).isSome :=
    (hS1Llive _).mpr (Or.inl hhdlive)
  have hhdliveL2 : ((setLevel (setLevel { s with order_pool_ := ⟨Function.update s.order_pool_.storage oh (some ⟨id, p, q, Side.SELL, oh, oh⟩), s.order_pool_.freeArr, s.order_pool_.freeCount - 1⟩, level_pool_ := ⟨Function.update s.level_pool_.storage lh (some ⟨p, Side.SELL, u32add 0 q, 1, oh, lh, lh⟩), s.level_pool_.freeArr, s.level_pool_.freeCount - 1⟩, order_map_ := Function.update s.order_map_ (id % MAX_ORDERS) (some oh), price_level_map_ := Function.update s.price_level_map_ (priceToIndex p) (some lh) } lh (fun l => { l with prev := (derefLevel { s with order_pool_ := ⟨Function.update s.order_pool_.storage oh (some ⟨id, p, q, Side.SELL, oh, oh⟩), s.order_pool_.freeArr, s.order_pool_.freeCount - 1⟩, level_pool_ := ⟨Function.update s.level_pool_.storage lh (some ⟨p, Side.SELL, u32add 0 q, 1, oh, lh, lh⟩), s.level_pool_.freeArr, s.level_pool_.freeCount - 1⟩, order_map_ := Function.update s.order_map_ (id % MAX_ORDERS) (some oh), price_level_map_ := Function.update s.price_level_map_ (priceToIndex p) (some lh) } hd).prev, next := hd })) (derefLevel { s with order_pool_ := ⟨Function.update s.order_pool_.storage oh (some ⟨id, p, q, Side.SELL, oh, oh⟩), s.order_pool_.freeArr, s.order_pool_.freeCount - 1⟩, level_pool_ := ⟨Function.update s.level_pool_.storage lh (some ⟨p, Side.SELL, u32add 0 q, 1, oh, lh, lh⟩), s.level_pool_.freeArr, s.level_pool_.freeCount - 1⟩, order_map_ := Function.update s.order_map_ (id % MAX_ORDERS) (some oh), price_level_map_ := Function.update s.price_level_map_ (priceToIndex p) (some lh) } hd).prev (fun l => { l with next := lh })).level_pool_.storage hd).isSome := by
    rw [hlive2, hlive1]
    exact hhdliveT0
  have hlive3 : ∀ k, ((setLevel (setLevel (setLevel { s with order_pool_ := ⟨Function.update s.order_pool_.storage oh (some ⟨id, p, q, Side.SELL, oh, oh⟩), s.order_pool_.freeArr, s.order_pool_.freeCount - 1⟩, level_pool_ := ⟨Function.update s.level_pool_.storage lh (some ⟨p, Side.SELL, u32add 0 q, 1, oh, lh, lh⟩), s.level_pool_.freeArr, s.level_pool_.freeCount - 1⟩, order_map_ := Function.update s.order_map_ (id % MAX_ORDERS) (some oh), price_level_map_ := Function.update s.price_level_map_ (priceToIndex p) (some lh) } lh (fun l => { l with prev := (derefLevel { s with order_pool_ := ⟨Function.update s.order_pool_.storage oh (some ⟨id, p, q, Side.SELL, oh, oh⟩), s.order_pool_.freeArr, s.order_pool_.freeCount - 1⟩, level_pool_ := ⟨Function.update s.level_pool_.storage lh (some ⟨p, Side.SELL, u32add 0 q, 1, oh, lh, lh⟩), s.level_pool_.freeArr, s.level_pool_.freeCount - 1⟩, order_map_ := Function.update s.order_map_ (id % MAX_ORDERS) (some oh), price_level_map_ := Function.update s.price_level_map_ (priceToIndex p) (some lh) } hd).prev, next := hd })) (derefLevel { s with order_pool_ := ⟨Function.update s.order_pool_.storage oh (some ⟨id, p, q, Side.SELL, oh, oh⟩), s.order_pool_.freeArr, s.order_pool_.freeCount - 1⟩, level_pool_ := ⟨Function.update s.level_pool_.storage lh (some ⟨p, Side.SELL, u32add 0 q, 1, oh, lh, lh⟩), s.level_pool_.freeArr, s.level_pool_.freeCount - 1⟩, order_map_ := Function.update s.order_map_ (id % MAX_ORDERS) (some oh), price_level_map_ := Function.update s.price_level_map_ (priceToIndex p) (some lh) } hd).prev (fun l => { l with next := lh })) hd (fun l => { l with prev := lh })).level_pool_.storage k).isSome =
      ((setLevel (setLevel { s with order_pool_ := ⟨Function.update s.order_pool_.storage oh (some ⟨id, p, q, Side.SELL, oh, oh⟩), s.order_pool_.freeArr, s.order_pool_.freeCount - 1⟩, level_pool_ := ⟨Function.update s.level_pool_.storage lh (some ⟨p, Side.SELL, u32add 0 q, 1, oh, lh, lh⟩), s.level_pool_.freeArr, s.level_pool_.freeCount - 1⟩, order_map_ := Function.update s.order_map_ (id % MAX_ORDERS) (some oh), price_level_map_ := Function.update s.price_level_map_ (priceToIndex p) (some lh) } lh (fun l => { l with prev := (derefLevel { s with order_pool_ := ⟨Function.update s.order_pool_.storage oh (some ⟨id, p, q, Side.SELL, oh, oh⟩), s.order_pool_.freeArr, s.order_pool_.freeCount - 1⟩, level_pool_ := ⟨Function.update s.level_pool_.storage lh (some ⟨p, Side.SELL, u32add 0 q, 1, oh, lh, lh⟩), s.level_pool_.freeArr, s.level_pool_.freeCount - 1⟩, order_map_ := Function.update s.order_map_ (id % MAX_ORDERS) (some oh), price_level_map_ := Function.update s.price_level_map_ (priceToIndex p) (some lh) } hd).prev, next := hd })) (derefLevel { s with order_pool_ := ⟨Function.update s.order_pool_.storage oh (some ⟨id, p, q, Side.SELL, oh, oh⟩), s.order_pool_.freeArr, s.order_pool_.freeCount - 1⟩, level_pool_ := ⟨Function.update s.level_pool_.storage lh (some ⟨p, Side.SELL, u32add 0 q, 1, oh, lh, lh⟩), s.level_pool_.freeArr, s.level_pool_.freeCount - 1⟩, order_map_ := Function.update s.order_map_ (id % MAX_ORDERS) (some oh), price_level_map_ := Function.update s.price_level_map_ (priceToIndex p) (some lh) } hd).prev (fun l => { l with next := lh })).level_pool_.storage k).isSome :=
    setLevel_storage_isSome (setLevel (setLevel { s with order_pool_ := ⟨Function.update s.order_pool_.storage oh (some ⟨id, p, q, Side.SELL, oh, oh⟩), s.order_pool_.freeArr, s.order_pool_.freeCount - 1⟩, level_pool_ := ⟨Function.update s.level_pool_.storage lh (some ⟨p, Side.SELL, u32add 0 q, 1, oh, lh, lh⟩), s.level_pool_.freeArr, s.level_pool_.freeCount - 1⟩, order_map_ := Function.update s.order_map_ (id % MAX_ORDERS) (some oh), price_level_map_ := Function.update s.price_level_map_ (priceToIndex p) (some lh) } lh (fun l => { l with prev := (derefLevel { s with order_pool_ := ⟨Function.update s.order_pool_.storage oh (some ⟨id, p, q, Side.SELL, oh, oh⟩), s.order_pool_.freeArr, s.order_pool_.freeCount - 1⟩, level_pool_ := ⟨Function.update s.level_pool_.storage lh (some ⟨p, Side.SELL, u32add 0 q, 1, oh, lh, lh⟩), s.level_pool_.freeArr, s.level_pool_.freeCount - 1⟩, order_map_ := Function.update s.order_map_ (id % MAX_ORDERS) (some oh), price_level_map_ := Function.update s.price_level_map_ (priceToIndex p) (some lh) } hd).prev, next := hd })) (derefLevel { s with order_pool_ := ⟨Function.update s.order_pool_.storage oh (some ⟨id, p, q, Side.SELL, oh, oh⟩), s.order_pool_.freeArr, s.order_pool_.freeCount - 1⟩, level_pool_ := ⟨Function.update s.level_pool_.storage lh (some ⟨p, Side.SELL, u32add 0 q, 1, oh, lh, lh⟩), s.level_pool_.freeArr, s.level_pool_.freeCount - 1⟩, order_map_ := Function.update s.order_map_ (id % MAX_ORDERS) (some oh), price_level_map_ := Function.update s.price_level_map_ (priceToIndex p) (some lh) } hd).prev (fun l => { l with next := lh })) hd _ hhdliveL2
  have hliveLF : ∀ k, (({ setLevel (setLevel (setLevel { s with order_pool_ := ⟨Function.update s.order_pool_.storage oh (some ⟨id, p, q, Side.SELL, oh, oh⟩), s.order_pool_.freeArr, s.order_pool_.freeCount - 1⟩, level_pool_ := ⟨Function.update s.level_pool_.storage lh (some ⟨p, Side.SELL, u32add 0 q, 1, oh, lh, lh⟩), s.level_pool_.freeArr, s.level_pool_.freeCount - 1⟩, order_map_ := Function.update s.order_map_ (id % MAX_ORDERS) (some oh), price_level_map_ := Function.update s.price_level_map_ (priceToIndex p) (some lh) } lh (fun l => { l with prev := (derefLevel { s with order_pool_ := ⟨Function.update s.order_pool_.storage oh (some ⟨id, p, q, Side.SELL, oh, oh⟩), s.order_pool_.freeArr, s.order_pool_.freeCount - 1⟩, level_pool_ := ⟨Function.update s.level_pool_.storage lh (some ⟨p, Side.SELL, u32add 0 q, 1, oh, lh, lh⟩), s.level_pool_.freeArr, s.level_pool_.freeCount - 1⟩, order_map_ := Function.update s.order_map_ (id % MAX_ORDERS) (some oh), price_level_map_ := Function.update s.price_level_map_ (priceToIndex p) (some lh) } hd).prev, next := hd })) (derefLevel { s with order_pool_ := ⟨Function.update s.order_pool_.storage oh (some ⟨id, p, q, Side.SELL, oh, oh⟩), s.order_pool_.freeArr, s.order_pool_.freeCount - 1⟩, level_pool_ := ⟨Function.update s.level_pool_.storage lh (some ⟨p, Side.SELL, u32add 0 q, 1, oh, lh, lh⟩), s.level_pool_.freeArr, s.level_pool_.freeCount - 1⟩, order_map_ := Function.update s.order_map_ (id % MAX_ORDERS) (some oh), price_level_map_ := Function.update s.price_level_map_ (priceToIndex p) (some lh) } hd).prev (fun l => { l with next := lh })) hd (fun l => { l with prev := lh }) with asks_ := some lh }).level_pool_.storage k).isSome =
      (({ s with order_pool_ := ⟨Function.update s.order_pool_.storage oh (some ⟨id, p, q, Side.SELL, oh, oh⟩), s.order_pool_.freeArr, s.order_pool_.freeCount - 1⟩, level_pool_ := ⟨Function.update s.level_pool_.storage lh (some ⟨p, Side.SELL, u32add 0 q, 1, oh, lh, lh⟩), s.level_pool_.freeArr, s.level_pool_.freeCount - 1⟩, order_map_ := Function.update s.order_map_ (id % MAX_ORDERS) (some oh), price_level_map_ := Function.update s.price_level_map_ (priceToIndex p) (some lh) }).level_pool_.storage k).isSome := by
    intro k
    show ((setLevel (setLevel (setLevel { s with order_pool_ := ⟨Function.update s.order_pool_.storage oh (some ⟨id, p, q, Side.SELL, oh, oh⟩), s.order_pool_.freeArr, s.order_pool_.freeCount - 1⟩, level_pool_ := ⟨Function.update s.level_pool_.storage lh (some ⟨p, Side.SELL, u32add 0 q, 1, oh, lh, lh⟩), s.level_pool_.freeArr, s.level_pool_.freeCount - 1⟩, order_map_ := Function.update s.order_map_ (id % MAX_ORDERS) (some oh), price_level_map_ := Function.update s.price_level_map_ (priceToIndex p) (some lh) } lh (fun l => { l with prev := (derefLevel { s with order_pool_ := ⟨Function.update s.order_pool_.storage oh (some ⟨id, p, q, Side.SELL, oh, oh⟩), s.order_pool_.freeArr, s.order_pool_.freeCount - 1⟩, level_pool_ := ⟨Function.update s.level_pool_.storage lh (some ⟨p, Side.SELL, u32add 0 q, 1, oh, lh, lh⟩), s.level_pool_.freeArr, s.level_pool_.freeCount - 1⟩, order_map_ := Function.update s.order_map_ (id % MAX_ORDERS) (some oh), price_level_map_ := Function.update s.price_level_map_ (priceToIndex p) (some lh) } hd).prev, next := hd })) (derefLevel { s with order_pool_ := ⟨Function.update s.order_pool_.storage oh (some ⟨id, p, q, Side.SELL, oh, oh⟩), s.order_pool_.freeArr, s.order_pool_.freeCount - 1⟩, level_pool_ := ⟨Function.update s.level_pool_.storage lh (some ⟨p, Side.SELL, u32add 0 q, 1, oh, lh, lh⟩), s.level_pool_.freeArr, s.level_pool_.freeCount - 1⟩, order_map_ := Function.update s.order_map_ (id % MAX_ORDERS) (some oh), price_level_map_ := Function.update s.price_level_map_ (priceToIndex p) (some lh) } hd).prev (fun l => { l with next := lh })) hd (fun l => { l with prev := lh })).level_pool_.storage k).isSome = _
    rw [hlive3 k, hlive2 k, hlive1 k]
  -- the extended side cycle
  have hlhnotmem : lh ∉ G.asksL := by
    intro hm
    exact hnotlh lh ((hwf.levels.lvlLive lh).mpr (List.mem_append.mpr (Or.inr hm))) rfl
  have hsnoc := cycle_snoc_update
    (fun k => (derefLevel s k).next) (fun k => (derefLevel s k).prev)
    (fun k => (derefLevel ({ setLevel (setLevel (setLevel { s with order_pool_ := ⟨Function.update s.order_pool_.storage oh (some ⟨id, p, q, Side.SELL, oh, oh⟩), s.order_pool_.freeArr, s.order_pool_.freeCount - 1⟩, level_pool_ := ⟨Function.update s.level_pool_.storage lh (some ⟨p, Side.SELL, u32add 0 q, 1, oh, lh, lh⟩), s.level_pool_.freeArr, s.level_pool_.freeCount - 1⟩, order_map_ := Function.update s.order_map_ (id % MAX_ORDERS) (some oh), price_level_map_ := Function.update s.price_level_map_ (priceToIndex p) (some lh) } lh (fun l => { l with prev := (derefLevel { s with order_pool_ := ⟨Function.update s.order_pool_.storage oh (some ⟨id, p, q, Side.SELL, oh, oh⟩), s.order_pool_.freeArr, s.order_pool_.freeCount - 1⟩, level_pool_ := ⟨Function.update s.level_pool_.storage lh (some ⟨p, Side.SELL, u32add 0 q, 1, oh, lh, lh⟩), s.level_pool_.freeArr, s.level_pool_.freeCount - 1⟩, order_map_ := Function.update s.order_map_ (id % MAX_ORDERS) (some oh), price_level_map_ := Function.update s.price_level_map_ (priceToIndex p) (some lh) } hd).prev, next := hd })) (derefLevel { s with order_pool_ := ⟨Function.update s.order_pool_.storage oh (some ⟨id, p, q, Side.SELL, oh, oh⟩), s.order_pool_.freeArr, s.order_pool_.freeCount - 1⟩, level_pool_ := ⟨Function.update s.level_pool_.storage lh (some ⟨p, Side.SELL, u32add 0 q, 1, oh, lh, lh⟩), s.level_pool_.freeArr, s.level_pool_.freeCount - 1⟩, order_map_ := Function.update s.order_map_ (id % MAX_ORDERS) (some oh), price_level_map_ := Function.update s.price_level_map_ (priceToIndex p) (some lh) } hd).prev (fun l => { l with next := lh })) hd (fun l => { l with prev := lh }) with asks_ := some lh }) k).next) (fun k => (derefLevel ({ setLevel (setLevel (setLevel { s with order_pool_ := ⟨Function.update s.order_pool_.storage oh (some ⟨id, p, q, Side.SELL, oh, oh⟩), s.order_pool_.freeArr, s.order_pool_.freeCount - 1⟩, level_pool_ := ⟨Function.update s.level_pool_.storage lh (some ⟨p, Side.SELL, u32add 0 q, 1, oh, lh, lh⟩), s.level_pool_.freeArr, s.level_pool_.freeCount - 1⟩, order_map_ := Function.update s.order_map_ (id % MAX_ORDERS) (some oh), price_level_map_ := Function.update s.price_level_map_ (priceToIndex p) (some lh) } lh (fun l => { l with prev := (derefLevel { s with order_pool_ := ⟨Function.update s.order_pool_.storage oh (some ⟨id, p, q, Side.SELL, oh, oh⟩), s.order_pool_.freeArr, s.order_pool_.freeCount - 1⟩, level_pool_ := ⟨Function.update s.level_pool_.storage lh (some ⟨p, Side.SELL, u32add 0 q, 1, oh, lh, lh⟩), s.level_pool_.freeArr, s.level_pool_.freeCount - 1⟩, order_map_ := Function.update s.order_map_ (id % MAX_ORDERS) (some oh), price_level_map_ := Function.update s.price_level_map_ (priceToIndex p) (some lh) } hd).prev, next := hd })) (derefLevel { s with order_pool_ := ⟨Function.update s.order_pool_.storage oh (some ⟨id, p, q, Side.SELL, oh, oh⟩), s.order_pool_.freeArr, s.order_pool_.freeCount - 1⟩, level_pool_ := ⟨Function.update s.level_pool_.storage lh (some ⟨p, Side.SELL, u32add 0 q, 1, oh, lh, lh⟩), s.level_pool_.freeArr, s.level_pool_.freeCount - 1⟩, order_map_ := Function.update s.order_map_ (id % MAX_ORDERS) (some oh), price_level_map_ := Function.update s.price_level_map_ (priceToIndex p) (some lh) } hd).prev (fun l => { l with next := lh })) hd (fun l => { l with prev := lh }) with asks_ := some lh }) k).prev)
    hwf.levels.asksCyc hndB hlhnotmem hheadB
    (by show (derefLevel ({ setLevel (setLevel (setLevel { s with order_pool_ := ⟨Function.update s.order_pool_.storage oh (some ⟨id, p, q, Side.SELL, oh, oh⟩), s.order_pool_.freeArr, s.order_pool_.freeCount - 1⟩, level_pool_ := ⟨Function.update s.level_pool_.storage lh (some ⟨p, Side.SELL, u32add 0 q, 1, oh, lh, lh⟩), s.level_pool_.freeArr, s.level_pool_.freeCount - 1⟩, order_map_ := Function.update s.order_map_ (id % MAX_ORDERS) (some oh), price_level_map_ := Function.update s.price_level_map_ (priceToIndex p) (some lh) } lh (fun l => { l with prev := (derefLevel { s with order_pool_ := ⟨Function.update s.order_pool_.storage oh (some ⟨id, p, q, Side.SELL, oh, oh⟩), s.order_pool_.freeArr, s.order_pool_.freeCount - 1⟩, level_pool_ := ⟨Function.update s.level_pool_.storage lh (some ⟨p, Side.SELL, u32add 0 q, 1, oh, lh, lh⟩), s.level_pool_.freeArr, s.level_pool_.freeCount - 1⟩, order_map_ := Function.update s.order_map_ (id % MAX_ORDERS) (some oh), price_level_map_ := Function.update s.price_level_map_ (priceToIndex p) (some lh) } hd).prev, next := hd })) (derefLevel { s with order_pool_ := ⟨Function.update s.order_pool_.storage oh (some ⟨id, p, q, Side.SELL, oh, oh⟩), s.order_pool_.freeArr, s.order_pool_.freeCount - 1⟩, level_pool_ := ⟨Function.update s.level_pool_.storage lh (some ⟨p, Side.SELL, u32add 0 q, 1, oh, lh, lh⟩), s.level_pool_.freeArr, s.level_pool_.freeCount - 1⟩, order_map_ := Function.update s.order_map_ (id % MAX_ORDERS) (some oh), price_level_map_ := Function.update s.price_level_map_ (priceToIndex p) (some lh) } hd).prev (fun l => { l with next := lh })) hd (fun l => { l with prev := lh }) with asks_ := some lh }) ((derefLevel s hd).prev)).next = lh
        rw [← hTLeq]
        exact hnTL)
    (by show (derefLevel ({ setLevel (setLevel (setLevel { s with order_pool_ := ⟨Function.update s.order_pool_.storage oh (some ⟨id, p, q, Side.SELL, oh, oh⟩), s.order_pool_.freeArr, s.order_pool_.freeCount - 1⟩, level_pool_ := ⟨Function.update s.level_pool_.storage lh (some ⟨p, Side.SELL, u32add 0 q, 1, oh, lh, lh⟩), s.level_pool_.freeArr, s.level_pool_.freeCount - 1⟩, order_map_ := Function.update s.order_map_ (id % MAX_ORDERS) (some oh), price_level_map_ := Function.update s.price_level_map_ (priceToIndex p) (some lh) } lh (fun l => { l with prev := (derefLevel { s with order_pool_ := ⟨Function.update s.order_pool_.storage oh (some ⟨id, p, q, Side.SELL, oh, oh⟩), s.order_pool_.freeArr, s.order_pool_.freeCount - 1⟩, level_pool_ := ⟨Function.update s.level_pool_.storage lh (some ⟨p, Side.SELL, u32add 0 q, 1, oh, lh, lh⟩), s.level_pool_.freeArr, s.level_pool_.freeCount - 1⟩, order_map_ := Function.update s.order_map_ (id % MAX_ORDERS) (some oh), price_level_map_ := Function.update s.price_level_map_ (priceToIndex p) (some lh) } hd).prev, next := hd })) (derefLevel { s with order_pool_ := ⟨Function.update s.order_pool_.storage oh (some ⟨id, p, q, Side.SELL, oh, oh⟩), s.order_pool_.freeArr, s.order_pool_.freeCount - 1⟩, level_pool_ := ⟨Function.update s.level_pool_.storage lh (some ⟨p, Side.SELL, u32add 0 q, 1, oh, lh, lh⟩), s.level_pool_.freeArr, s.level_pool_.freeCount - 1⟩, order_map_ := Function.update s.order_map_ (id % MAX_ORDERS) (some oh), price_level_map_ := Function.update s.price_level_map_ (priceToIndex p) (some lh) } hd).prev (fun l => { l with next := lh })) hd (fun l => { l with prev := lh }) with asks_ := some lh }) lh).prev = (derefLevel s hd).prev
        rw [hFlh, hTLeq])
    (by show (derefLevel ({ setLevel (setLevel (setLevel { s with order_pool_ := ⟨Function.update s.order_pool_.storage oh (some ⟨id, p, q, Side.SELL, oh, oh⟩), s.order_pool_.freeArr, s.order_pool_.freeCount - 1⟩, level_pool_ := ⟨Function.update s.level_pool_.storage lh (some ⟨p, Side.SELL, u32add 0 q, 1, oh, lh, lh⟩), s.level_pool_.freeArr, s.level_pool_.freeCount - 1⟩, order_map_ := Function.update s.order_map_ (id % MAX_ORDERS) (some oh), price_level_map_ := Function.update s.price_level_map_ (priceToIndex p) (some lh) } lh (fun l => { l with prev := (derefLevel { s with order_pool_ := ⟨Function.update s.order_pool_.storage oh (some ⟨id, p, q, Side.SELL, oh, oh⟩), s.order_pool_.freeArr, s.order_pool_.freeCount - 1⟩, level_pool_ := ⟨Function.update s.level_pool_.storage lh (some ⟨p, Side.SELL, u32add 0 q, 1, oh, lh, lh⟩), s.level_pool_.freeArr, s.level_pool_.freeCount - 1⟩, order_map_ := Function.update s.order_map_ (id % MAX_ORDERS) (some oh), price_level_map_ := Function.update s.price_level_map_ (priceToIndex p) (some lh) } hd).prev, next := hd })) (derefLevel { s with order_pool_ := ⟨Function.update s.order_pool_.storage oh (some ⟨id, p, q, Side.SELL, oh, oh⟩), s.order_pool_.freeArr, s.order_pool_.freeCount - 1⟩, level_pool_ := ⟨Function.update s.level_pool_.storage lh (some ⟨p, Side.SELL, u32add 0 q, 1, oh, lh, lh⟩), s.level_pool_.freeArr, s.level_pool_.freeCount - 1⟩, order_map_ := Function.update s.order_map_ (id % MAX_ORDERS) (some oh), price_level_map_ := Function.update s.price_level_map_ (priceToIndex p) (some lh) } hd).prev (fun l => { l with next := lh })) hd (fun l => { l with prev := lh }) with asks_ := some lh }) lh).next = hd
        rw [hFlh])
    (by show (derefLevel ({ setLevel (setLevel (setLevel { s with order_pool_ := ⟨Function.update s.order_pool_.storage oh (some ⟨id, p, q, Side.SELL, oh, oh⟩), s.order_pool_.freeArr, s.order_pool_.freeCount - 1⟩, level_pool_ := ⟨Function.update s.level_pool_.storage lh (some ⟨p, Side.SELL, u32add 0 q, 1, oh, lh, lh⟩), s.level_pool_.freeArr, s.level_pool_.freeCount - 1⟩, order_map_ := Function.update s.order_map_ (id % MAX_ORDERS) (some oh), price_level_map_ := Function.update s.price_level_map_ (priceToIndex p) (some lh) } lh (fun l => { l with prev := (derefLevel { s with order_pool_ := ⟨Function.update s.order_pool_.storage oh (some ⟨id, p, q, Side.SELL, oh, oh⟩), s.order_pool_.freeArr, s.order_pool_.freeCount - 1⟩, level_pool_ := ⟨Function.update s.level_pool_.storage lh (some ⟨p, Side.SELL, u32add 0 q, 1, oh, lh, lh⟩), s.level_pool_.freeArr, s.level_pool_.freeCount - 1⟩, order_map_ := Function.update s.order_map_ (id % MAX_ORDERS) (some oh), price_level_map_ := Function.update s.price_level_map_ (priceToIndex p) (some lh) } hd).prev, next := hd })) (derefLevel { s with order_pool_ := ⟨Function.update s.order_pool_.storage oh (some ⟨id, p, q, Side.SELL, oh, oh⟩), s.order_pool_.freeArr, s.order_pool_.freeCount - 1⟩, level_pool_ := ⟨Function.update s.level_pool_.storage lh (some ⟨p, Side.SELL, u32add 0 q, 1, oh, lh, lh⟩), s.level_pool_.freeArr, s.level_pool_.freeCount - 1⟩, order_map_ := Function.update s.order_map_ (id % MAX_ORDERS) (some oh), price_level_map_ := Function.update s.price_level_map_ (priceToIndex p) (some lh) } hd).prev (fun l => { l with next := lh })) hd (fun l => { l with prev := lh }) with asks_ := some lh }) hd).prev = lh
        exact hpHD)
    (fun k hk hkp => by
      show (derefLevel ({ setLevel (setLevel (setLevel { s with order_pool_ := ⟨Function.update s.order_pool_.storage oh (some ⟨id, p, q, Side.SELL, oh, oh⟩), s.order_pool_.freeArr, s.order_pool_.freeCount - 1⟩, level_pool_ := ⟨Function.update s.level_pool_.storage lh (some ⟨p, Side.SELL, u32add 0 q, 1, oh, lh, lh⟩), s.level_pool_.freeArr, s.level_pool_.freeCount - 1⟩, order_map_ := Function.update s.order_map_ (id % MAX_ORDERS) (some oh), price_level_map_ := Function.update s.price_level_map_ (priceToIndex p) (some lh) } lh (fun l => { l with prev := (derefLevel { s with order_pool_ := ⟨Function.update s.order_pool_.storage oh (some ⟨id, p, q, Side.SELL, oh, oh⟩), s.order_pool_.freeArr, s.order_pool_.freeCount - 1⟩, level_pool_ := ⟨Function.update s.level_pool_.storage lh (some ⟨p, Side.SELL, u32add 0 q, 1, oh, lh, lh⟩), s.level_pool_.freeArr, s.level_pool_.freeCount - 1⟩, order_map_ := Function.update s.order_map_ (id % MAX_ORDERS) (some oh), price_level_map_ := Function.update s.price_level_map_ (priceToIndex p) (some lh) } hd).prev, next := hd })) (derefLevel { s with order_pool_ := ⟨Function.update s.order_pool_.storage oh (some ⟨id, p, q, Side.SELL, oh, oh⟩), s.order_pool_.freeArr, s.order_pool_.freeCount - 1⟩, level_pool_ := ⟨Function.update s.level_pool_.storage lh (some ⟨p, Side.SELL, u32add 0 q, 1, oh, lh, lh⟩), s.level_pool_.freeArr, s.level_pool_.freeCount - 1⟩, order_map_ := Function.update s.order_map_ (id % MAX_ORDERS) (some oh), price_level_map_ := Function.update s.price_level_map_ (priceToIndex p) (some lh) } hd).prev (fun l => { l with next := lh })) hd (fun l => { l with prev := lh }) with asks_ := some lh }) k).next = (derefLevel s k).next
      refine hrnF k (fun he => hlhnotmem (he ▸ hk)) (fun he => hkp ?_)
      show k = (derefLevel s hd).prev
      rw [← hTLeq]
      exact he)
    (fun k hk hkx => by
      show (derefLevel ({ setLevel (setLevel (setLevel { s with order_pool_ := ⟨Function.update s.order_pool_.storage oh (some ⟨id, p, q, Side.SELL, oh, oh⟩), s.order_pool_.freeArr, s.order_pool_.freeCount - 1⟩, level_pool_ := ⟨Function.update s.level_pool_.storage lh (some ⟨p, Side.SELL, u32add 0 q, 1, oh, lh, lh⟩), s.level_pool_.freeArr, s.level_pool_.freeCount - 1⟩, order_map_ := Function.update s.order_map_ (id % MAX_ORDERS) (some oh), price_level_map_ := Function.update s.price_level_map_ (priceToIndex p) (some lh) } lh (fun l => { l with prev := (derefLevel { s with order_pool_ := ⟨Function.update s.order_pool_.storage oh (some ⟨id, p, q, Side.SELL, oh, oh⟩), s.order_pool_.freeArr, s.order_pool_.freeCount - 1⟩, level_pool_ := ⟨Function.update s.level_pool_.storage lh (some ⟨p, Side.SELL, u32add 0 q, 1, oh, lh, lh⟩), s.level_pool_.freeArr, s.level_pool_.freeCount - 1⟩, order_map_ := Function.update s.order_map_ (id % MAX_ORDERS) (some oh), price_level_map_ := Function.update s.price_level_map_ (priceToIndex p) (some lh) } hd).prev, next := hd })) (derefLevel { s with order_pool_ := ⟨Function.update s.order_pool_.storage oh (some ⟨id, p, q, Side.SELL, oh, oh⟩), s.order_pool_.freeArr, s.order_pool_.freeCount - 1⟩, level_pool_ := ⟨Function.update s.level_pool_.storage lh (some ⟨p, Side.SELL, u32add 0 q, 1, oh, lh, lh⟩), s.level_pool_.freeArr, s.level_pool_.freeCount - 1⟩, order_map_ := Function.update s.order_map_ (id % MAX_ORDERS) (some oh), price_level_map_ := Function.update s.price_level_map_ (priceToIndex p) (some lh) } hd).prev (fun l => { l with next := lh })) hd (fun l => { l with prev := lh }) with asks_ := some lh }) k).prev = (derefLevel s k).prev
      exact hrpF k (fun he => hlhnotmem (he ▸ hk)) hkx)
  obtain ⟨-, -, hsnocCons⟩ := hsnoc
  -- the other side never mentions the three rewritten level handles
  have hfarA : ∀ a ∈ G.bidsL, a ≠ lh ∧ a ≠ ((derefLevel { s with order_pool_ := ⟨Function.update s.order_pool_.storage oh (some ⟨id, p, q, Side.SELL, oh, oh⟩), s.order_pool_.freeArr, s.order_pool_.freeCount - 1⟩, level_pool_ := ⟨Function.update s.level_pool_.storage lh (some ⟨p, Side.SELL, u32add 0 q, 1, oh, lh, lh⟩), s.level_pool_.freeArr, s.level_pool_.freeCount - 1⟩, order_map_ := Function.update s.order_map_ (id % MAX_ORDERS) (some oh), price_level_map_ := Function.update s.price_level_map_ (priceToIndex p) (some lh) } hd).prev) ∧ a ≠ hd := by
    intro a ha
    have halive : (s.level_pool_.storage a).isSome :=
      (hwf.levels.lvlLive a).mpr (List.mem_append.mpr (Or.inl ha))
    have hdisj := (List.nodup_append.mp hwf.levels.lvlNodup).2.2
    refine ⟨hnotlh a halive, ?_, ?_⟩
    · intro he
      exact hdisj (he ▸ ha) hTLmem
    · intro he
      exact hdisj (he ▸ ha) hhdmem
  refine ⟨⟨G.bidsL, lh :: G.asksL, Function.update G.fifo lh [oh]⟩,
    ⟨?_, ?_, ?_, ?_, ?_, ?_, ?_, ?_, ?_, ?_, ?_⟩, ?_, ?_, ?_, ?_, ?_, ?_, ?_, ?_, ?_, ?_, ?_⟩
  · -- the untouched bid cycle
    refine isCycle_congr hwf.levels.bidsCyc ?_
    intro a b ha hb hr
    obtain ⟨ha1, ha2, -⟩ := hfarA a ha
    obtain ⟨hb1, -, hb3⟩ := hfarA b hb
    exact ⟨by rw [hrnF a ha1 ha2]; exact hr.1, by rw [hrpF b hb1 hb3]; exact hr.2⟩
  · -- the ask cycle gains the fresh level at the front
    exact hsnocCons
  · -- bids ++ lh :: asks is duplicate-free
    show (G.bidsL ++ (lh :: G.asksL)).Nodup
    refine List.perm_middle.nodup_iff.mpr ?_
    refine List.nodup_cons.mpr ⟨?_, hwf.levels.lvlNodup⟩
    intro hmem
    exact hnotlh lh ((hwf.levels.lvlLive lh).mpr hmem) rfl
  · -- bid head unchanged
    show s.bids_ = _
    exact hwf.levels.bidsHead
  · -- new ask head
    rfl
  · -- live levels are the new side lists
    intro k
    show (({ setLevel (setLevel (setLevel { s with order_pool_ := ⟨Function.update s.order_pool_.storage oh (some ⟨id, p, q, Side.SELL, oh, oh⟩), s.order_pool_.freeArr, s.order_pool_.freeCount - 1⟩, level_pool_ := ⟨Function.update s.level_pool_.storage lh (some ⟨p, Side.SELL, u32add 0 q, 1, oh, lh, lh⟩), s.level_pool_.freeArr, s.level_pool_.freeCount - 1⟩, order_map_ := Function.update s.order_map_ (id % MAX_ORDERS) (some oh), price_level_map_ := Function.update s.price_level_map_ (priceToIndex p) (some lh) } lh (fun l => { l with prev := (derefLevel { s with order_pool_ := ⟨Function.update s.order_pool_.storage oh (some ⟨id, p, q, Side.SELL, oh, oh⟩), s.order_pool_.freeArr, s.order_pool_.freeCount - 1⟩, level_pool_ := ⟨Function.update s.level_pool_.storage lh (some ⟨p, Side.SELL, u32add 0 q, 1, oh, lh, lh⟩), s.level_pool_.freeArr, s.level_pool_.freeCount - 1⟩, order_map_ := Function.update s.order_map_ (id % MAX_ORDERS) (some oh), price_level_map_ := Function.update s.price_level_map_ (priceToIndex p) (some lh) } hd).prev, next := hd })) (derefLevel { s with order_pool_ := ⟨Function.update s.order_pool_.storage oh (some ⟨id, p, q, Side.SELL, oh, oh⟩), s.order_pool_.freeArr, s.order_pool_.freeCount - 1⟩, level_pool_ := ⟨Function.update s.level_pool_.storage lh (some ⟨p, Side.SELL, u32add 0 q, 1, oh, lh, lh⟩), s.level_pool_.freeArr, s.level_pool_.freeCount - 1⟩, order_map_ := Function.update s.order_map_ (id % MAX_ORDERS) (some oh), price_level_map_ := Function.update s.price_level_map_ (priceToIndex p) (some lh) } hd).prev (fun l => { l with next := lh })) hd (fun l => { l with prev := lh }) with asks_ := some lh }).level_pool_.storage k).isSome ↔ k ∈ (G.bidsL) ++ (lh :: G.asksL)
    rw [hliveLF k, hS1Llive k, hwf.levels.lvlLive k]
    simp only [List.mem_append, List.mem_cons]
    tauto
  · -- bid-side markers unchanged
    intro k hk
    obtain ⟨hk1, -, -⟩ := hfarA k hk
    rw [(hfieldsF k hk1).2.1]
    exact hwf.levels.bidsSide k hk
  · -- the SELL side gains the new level
    intro k hk
    have hk2 : k ∈ lh :: G.asksL := hk
    rcases List.mem_cons.mp hk2 with hk3 | hk3
    · rw [hk3, hFlh]
    · have hkl : k ≠ lh := hnotlh k ((hwf.levels.lvlLive k).mpr (List.mem_append.mpr (Or.inr hk3)))
      rw [(hfieldsF k hkl).2.1]
      exact hwf.levels.asksSide k hk3
  · -- price map entries point at live levels with the right hash
    intro i k hik
    have hik2 : Function.update s.price_level_map_ (priceToIndex p) (some lh) i = some k := hik
    by_cases hi : i = priceToIndex p
    · rw [hi, Function.update_same] at hik2
      obtain rfl : k = lh := (Option.some.inj hik2).symm
      constructor
      · rw [hliveLF k, hS1Llive k]
        simp
      · rw [hFlh, hi]
    · rw [Function.update_noteq hi] at hik2
      obtain ⟨h1, h2⟩ := hwf.levels.mapToLvl i k hik2
      constructor
      · rw [hliveLF k, hS1Llive k]
        exact Or.inl h1
      · rw [(hfieldsF k (hnotlh k h1)).1]
        exact h2
  · -- live levels are found through the price map
    intro k hk
    rw [hliveLF k, hS1Llive k] at hk
    show Function.update s.price_level_map_ (priceToIndex p) (some lh)
      (priceToIndex (derefLevel ({ setLevel (setLevel (setLevel { s with order_pool_ := ⟨Function.update s.order_pool_.storage oh (some ⟨id, p, q, Side.SELL, oh, oh⟩), s.order_pool_.freeArr, s.order_pool_.freeCount - 1⟩, level_pool_ := ⟨Function.update s.level_pool_.storage lh (some ⟨p, Side.SELL, u32add 0 q, 1, oh, lh, lh⟩), s.level_pool_.freeArr, s.level_pool_.freeCount - 1⟩, order_map_ := Function.update s.order_map_ (id % MAX_ORDERS) (some oh), price_level_map_ := Function.update s.price_level_map_ (priceToIndex p) (some lh) } lh (fun l => { l with prev := (derefLevel { s with order_pool_ := ⟨Function.update s.order_pool_.storage oh (some ⟨id, p, q, Side.SELL, oh, oh⟩), s.order_pool_.freeArr, s.order_pool_.freeCount - 1⟩, level_pool_ := ⟨Function.update s.level_pool_.storage lh (some ⟨p, Side.SELL, u32add 0 q, 1, oh, lh, lh⟩), s.level_pool_.freeArr, s.level_pool_.freeCount - 1⟩, order_map_ := Function.update s.order_map_ (id % MAX_ORDERS) (some oh), price_level_map_ := Function.update s.price_level_map_ (priceToIndex p) (some lh) } hd).prev, next := hd })) (derefLevel { s with order_pool_ := ⟨Function.update s.order_pool_.storage oh (some ⟨id, p, q, Side.SELL, oh, oh⟩), s.order_pool_.freeArr, s.order_pool_.freeCount - 1⟩, level_pool_ := ⟨Function.update s.level_pool_.storage lh (some ⟨p, Side.SELL, u32add 0 q, 1, oh, lh, lh⟩), s.level_pool_.freeArr, s.level_pool_.freeCount - 1⟩, order_map_ := Function.update s.order_map_ (id % MAX_ORDERS) (some oh), price_level_map_ := Function.update s.price_level_map_ (priceToIndex p) (some lh) } hd).prev (fun l => { l with next := lh })) hd (fun l => { l with prev := lh }) with asks_ := some lh }) k).price) = some k
    by_cases hk0 : k = lh
    · rw [hk0, hFlh]
      show Function.update s.price_level_map_ (priceToIndex p) (some lh) (priceToIndex p) = _
      rw [Function.update_same]
    · rcases hk with hk | hk
      · rw [(hfieldsF k hk0).1]
        have hne2 : priceToIndex (derefLevel s k).price ≠ priceToIndex p := by
          intro he
          have h2 := hwf.levels.lvlToMap k hk
          rw [he, hmapidx] at h2
          cases h2
        rw [Function.update_noteq hne2]
        exact hwf.levels.lvlToMap k hk
      · exact absurd hk hk0
  · -- level pool well-formed
    have hLP2lh : (⟨Function.update s.level_pool_.storage lh (some ⟨p, Side.SELL, u32add 0 q, 1, oh, lh, lh⟩), s.level_pool_.freeArr, s.level_pool_.freeCount - 1⟩ : Pool PriceLevel).storage lh = some ⟨p, Side.SELL, u32add 0 q, 1, oh, lh, lh⟩ := by
      show Function.update s.level_pool_.storage lh (some ⟨p, Side.SELL, u32add 0 q, 1, oh, lh, lh⟩) lh = _
      rw [Function.update_same]
    obtain ⟨w2, hw2⟩ := Option.isSome_iff_exists.mp hTLliveL1
    obtain ⟨w3, hw3⟩ := Option.isSome_iff_exists.mp hhdliveL2
    exact poolWF_overwrite (poolWF_overwrite (poolWF_overwrite hLP2wf hLP2lh) hw2) hw3
  · -- FIFO cycles
    intro lh2 hl
    rw [hliveLF lh2, hS1Llive lh2] at hl
    show IsCycle _ (Function.update G.fifo lh [oh] lh2)
    by_cases hne : lh2 = lh
    · rw [hne, Function.update_same]
      refine isCycle_singleton ?_
      refine ⟨?_, ?_⟩
      · rw [hderOoh]
      · rw [hderOoh]
    · rcases hl with hl | hl
      · rw [Function.update_noteq hne]
        refine isCycle_congr (hwf.fifoCyc lh2 hl) ?_
        intro a b ha hb hr
        have han : a ≠ oh := fun he => hohnotlive lh2 hl (he ▸ ha)
        have hbn : b ≠ oh := fun he => hohnotlive lh2 hl (he ▸ hb)
        exact ⟨by rw [hderO a han]; exact hr.1, by rw [hderO b hbn]; exact hr.2⟩
      · exact absurd hl hne
  · -- FIFO lists are duplicate-free
    intro lh2 hl
    rw [hliveLF lh2, hS1Llive lh2] at hl
    show (Function.update G.fifo lh [oh] lh2).Nodup
    by_cases hne : lh2 = lh
    · rw [hne, Function.update_same]
      exact List.nodup_singleton oh
    · rcases hl with hl | hl
      · rw [Function.update_noteq hne]
        exact hwf.fifoNodup lh2 hl
      · exact absurd hl hne
  · -- FIFO heads
    intro lh2 hl
    rw [hliveLF lh2, hS1Llive lh2] at hl
    show (Function.update G.fifo lh [oh] lh2).head? = _
    by_cases hne : lh2 = lh
    · rw [hne, Function.update_same, hFlh]
      rfl
    · rcases hl with hl | hl
      · rw [Function.update_noteq hne, (hfieldsF lh2 hne).2.2.1]
        exact hwf.fifoHead lh2 hl
      · exact absurd hl hne
  · -- FIFO counts
    intro lh2 hl
    rw [hliveLF lh2, hS1Llive lh2] at hl
    show (derefLevel ({ setLevel (setLevel (setLevel { s with order_pool_ := ⟨Function.update s.order_pool_.storage oh (some ⟨id, p, q, Side.SELL, oh, oh⟩), s.order_pool_.freeArr, s.order_pool_.freeCount - 1⟩, level_pool_ := ⟨Function.update s.level_pool_.storage lh (some ⟨p, Side.SELL, u32add 0 q, 1, oh, lh, lh⟩), s.level_pool_.freeArr, s.level_pool_.freeCount - 1⟩, order_map_ := Function.update s.order_map_ (id % MAX_ORDERS) (some oh), price_level_map_ := Function.update s.price_level_map_ (priceToIndex p) (some lh) } lh (fun l => { l with prev := (derefLevel { s with order_pool_ := ⟨Function.update s.order_pool_.storage oh (some ⟨id, p, q, Side.SELL, oh, oh⟩), s.order_pool_.freeArr, s.order_pool_.freeCount - 1⟩, level_pool_ := ⟨Function.update s.level_pool_.storage lh (some ⟨p, Side.SELL, u32add 0 q, 1, oh, lh, lh⟩), s.level_pool_.freeArr, s.level_pool_.freeCount - 1⟩, order_map_ := Function.update s.order_map_ (id % MAX_ORDERS) (some oh), price_level_map_ := Function.update s.price_level_map_ (priceToIndex p) (some lh) } hd).prev, next := hd })) (derefLevel { s with order_pool_ := ⟨Function.update s.order_pool_.storage oh (some ⟨id, p, q, Side.SELL, oh, oh⟩), s.order_pool_.freeArr, s.order_pool_.freeCount - 1⟩, level_pool_ := ⟨Function.update s.level_pool_.storage lh (some ⟨p, Side.SELL, u32add 0 q, 1, oh, lh, lh⟩), s.level_pool_.freeArr, s.level_pool_.freeCount - 1⟩, order_map_ := Function.update s.order_map_ (id % MAX_ORDERS) (some oh), price_level_map_ := Function.update s.price_level_map_ (priceToIndex p) (some lh) } hd).prev (fun l => { l with next := lh })) hd (fun l => { l with prev := lh }) with asks_ := some lh }) lh2).order_count = (Function.update G.fifo lh [oh] lh2).length
    by_cases hne : lh2 = lh
    · rw [hne, Function.update_same, hFlh]
      rfl
    · rcases hl with hl | hl
      · rw [Function.update_noteq hne, (hfieldsF lh2 hne).2.2.2]
        exact hwf.fifoCount lh2 hl
      · exact absurd hl hne
  · -- FIFO members are live orders
    intro lh2 hl m hm
    rw [hliveLF lh2, hS1Llive lh2] at hl
    have hm2 : m ∈ Function.update G.fifo lh [oh] lh2 := hm
    rw [hliveOF m]
    by_cases hne : lh2 = lh
    · rw [hne, Function.update_same, List.mem_singleton] at hm2
      exact Or.inr hm2
    · rcases hl with hl | hl
      · rw [Function.update_noteq hne] at hm2
        exact Or.inl (hwf.fifoLive lh2 hl m hm2)
      · exact absurd hl hne
  · -- FIFO members carry the level price
    intro lh2 hl m hm
    rw [hliveLF lh2, hS1Llive lh2] at hl
    have hm2 : m ∈ Function.update G.fifo lh [oh] lh2 := hm
    by_cases hne : lh2 = lh
    · rw [hne, Function.update_same, List.mem_singleton] at hm2
      rw [hne, hm2, hderOoh, hFlh]
    · rcases hl with hl | hl
      · rw [Function.update_noteq hne] at hm2
        have hmn : m ≠ oh := fun he => hohnotlive lh2 hl (he ▸ hm2)
        rw [hderO m hmn, (hfieldsF lh2 hne).1]
        exact hwf.fifoPrice lh2 hl m hm2
      · exact absurd hl hne
  · -- FIFOs are disjoint
    intro lh1 lh2 h1 h2 m hm1 hm2
    rw [hliveLF lh1, hS1Llive lh1] at h1
    rw [hliveLF lh2, hS1Llive lh2] at h2
    have hm1b : m ∈ Function.update G.fifo lh [oh] lh1 := hm1
    have hm2b : m ∈ Function.update G.fifo lh [oh] lh2 := hm2
    have hred : ∀ lh3, m ∈ Function.update G.fifo lh [oh] lh3 →
        (m ∈ G.fifo lh3 ∧ lh3 ≠ lh) ∨ (m = oh ∧ lh3 = lh) := by
      intro lh3 hmm
      by_cases hne : lh3 = lh
      · rw [hne, Function.update_same, List.mem_singleton] at hmm
        exact Or.inr ⟨hmm, hne⟩
      · rw [Function.update_noteq hne] at hmm
        exact Or.inl ⟨hmm, hne⟩
    have hlv : ∀ lh3, ((s.level_pool_.storage lh3).isSome ∨ lh3 = lh) → lh3 ≠ lh →
        (s.level_pool_.storage lh3).isSome := by
      intro lh3 hh hne
      rcases hh with hh | hh
      · exact hh
      · exact absurd hh hne
    rcases hred lh1 hm1b with ⟨ha, hane⟩ | ⟨haoh, hal⟩
    · rcases hred lh2 hm2b with ⟨hb, hbne⟩ | ⟨hboh, hbl⟩
      · exact hwf.fifoDisj lh1 lh2 (hlv lh1 h1 hane) (hlv lh2 h2 hbne) m ha hb
      · exact absurd (hboh ▸ ha) (hohnotlive lh1 (hlv lh1 h1 hane))
    · rcases hred lh2 hm2b with ⟨hb, hbne⟩ | ⟨hboh, hbl⟩
      · exact absurd (haoh ▸ hb) (hohnotlive lh2 (hlv lh2 h2 hbne))
      · rw [hal, hbl]
  · -- order map entries point at live orders with the right slot
    intro i k hik
    have hik2 : Function.update s.order_map_ (id % MAX_ORDERS) (some oh) i = some k := hik
    by_cases hi : i = id % MAX_ORDERS
    · rw [hi, Function.update_same] at hik2
      obtain rfl : k = oh := (Option.some.inj hik2).symm
      constructor
      · rw [hliveOF k]
        exact Or.inr rfl
      · rw [hderOoh, hi]
    · rw [Function.update_noteq hi] at hik2
      obtain ⟨hk1, hk2⟩ := hwf.mapToOrd i k hik2
      have hkoh : k ≠ oh := by
        intro he
        rw [he, hohdead] at hk1
        cases hk1
      constructor
      · rw [hliveOF k]
        exact Or.inl hk1
      · rw [hderO k hkoh]
        exact hk2
  · -- live orders are found through the order map
    intro k hk
    rw [hliveOF k] at hk
    by_cases hkoh : k = oh
    · rw [hkoh]
      show Function.update s.order_map_ (id % MAX_ORDERS) (some oh)
        ((derefOrder ({ setLevel (setLevel (setLevel { s with order_pool_ := ⟨Function.update s.order_pool_.storage oh (some ⟨id, p, q, Side.SELL, oh, oh⟩), s.order_pool_.freeArr, s.order_pool_.freeCount - 1⟩, level_pool_ := ⟨Function.update s.level_pool_.storage lh (some ⟨p, Side.SELL, u32add 0 q, 1, oh, lh, lh⟩), s.level_pool_.freeArr, s.level_pool_.freeCount - 1⟩, order_map_ := Function.update s.order_map_ (id % MAX_ORDERS) (some oh), price_level_map_ := Function.update s.price_level_map_ (priceToIndex p) (some lh) } lh (fun l => { l with prev := (derefLevel { s with order_pool_ := ⟨Function.update s.order_pool_.storage oh (some ⟨id, p, q, Side.SELL, oh, oh⟩), s.order_pool_.freeArr, s.order_pool_.freeCount - 1⟩, level_pool_ := ⟨Function.update s.level_pool_.storage lh (some ⟨p, Side.SELL, u32add 0 q, 1, oh, lh, lh⟩), s.level_pool_.freeArr, s.level_pool_.freeCount - 1⟩, order_map_ := Function.update s.order_map_ (id % MAX_ORDERS) (some oh), price_level_map_ := Function.update s.price_level_map_ (priceToIndex p) (some lh) } hd).prev, next := hd })) (derefLevel { s with order_pool_ := ⟨Function.update s.order_pool_.storage oh (some ⟨id, p, q, Side.SELL, oh, oh⟩), s.order_pool_.freeArr, s.order_pool_.freeCount - 1⟩, level_pool_ := ⟨Function.update s.level_pool_.storage lh (some ⟨p, Side.SELL, u32add 0 q, 1, oh, lh, lh⟩), s.level_pool_.freeArr, s.level_pool_.freeCount - 1⟩, order_map_ := Function.update s.order_map_ (id % MAX_ORDERS) (some oh), price_level_map_ := Function.update s.price_level_map_ (priceToIndex p) (some lh) } hd).prev (fun l => { l with next := lh })) hd (fun l => { l with prev := lh }) with asks_ := some lh }) oh).order_id % MAX_ORDERS) = some oh
      rw [hderOoh, Function.update_same]
    · rcases hk with hk | hk
      · show Function.update s.order_map_ (id % MAX_ORDERS) (some oh)
          ((derefOrder ({ setLevel (setLevel (setLevel { s with order_pool_ := ⟨Function.update s.order_pool_.storage oh (some ⟨id, p, q, Side.SELL, oh, oh⟩), s.order_pool_.freeArr, s.order_pool_.freeCount - 1⟩, level_pool_ := ⟨Function.update s.level_pool_.storage lh (some ⟨p, Side.SELL, u32add 0 q, 1, oh, lh, lh⟩), s.level_pool_.freeArr, s.level_pool_.freeCount - 1⟩, order_map_ := Function.update s.order_map_ (id % MAX_ORDERS) (some oh), price_level_map_ := Function.update s.price_level_map_ (priceToIndex p) (some lh) } lh (fun l => { l with prev := (derefLevel { s with order_pool_ := ⟨Function.update s.order_pool_.storage oh (some ⟨id, p, q, Side.SELL, oh, oh⟩), s.order_pool_.freeArr, s.order_pool_.freeCount - 1⟩, level_pool_ := ⟨Function.update s.level_pool_.storage lh (some ⟨p, Side.SELL, u32add 0 q, 1, oh, lh, lh⟩), s.level_pool_.freeArr, s.level_pool_.freeCount - 1⟩, order_map_ := Function.update s.order_map_ (id % MAX_ORDERS) (some oh), price_level_map_ := Function.update s.price_level_map_ (priceToIndex p) (some lh) } hd).prev, next := hd })) (derefLevel { s with order_pool_ := ⟨Function.update s.order_pool_.storage oh (some ⟨id, p, q, Side.SELL, oh, oh⟩), s.order_pool_.freeArr, s.order_pool_.freeCount - 1⟩, level_pool_ := ⟨Function.update s.level_pool_.storage lh (some ⟨p, Side.SELL, u32add 0 q, 1, oh, lh, lh⟩), s.level_pool_.freeArr, s.level_pool_.freeCount - 1⟩, order_map_ := Function.update s.order_map_ (id % MAX_ORDERS) (some oh), price_level_map_ := Function.update s.price_level_map_ (priceToIndex p) (some lh) } hd).prev (fun l => { l with next := lh })) hd (fun l => { l with prev := lh }) with asks_ := some lh }) k).order_id % MAX_ORDERS) = some k
        rw [hderO k hkoh]
        have hne2 : (derefOrder s k).order_id % MAX_ORDERS ≠ id % MAX_ORDERS := by
          intro he
          have h2 := hwf.ordToMap k hk
          rw [he, hslot] at h2
          cases h2
        rw [Function.update_noteq hne2]
        exact hwf.ordToMap k hk
      · exact absurd hk hkoh
  · -- every live order sits in some FIFO
    intro k hk
    rw [hliveOF k] at hk
    by_cases hkoh : k = oh
    · refine ⟨lh, ?_, ?_⟩
      · rw [hliveLF lh, hS1Llive lh]
        exact Or.inr rfl
      · show k ∈ Function.update G.fifo lh [oh] lh
        rw [Function.update_same, hkoh]
        exact List.mem_singleton.mpr rfl
    · rcases hk with hk | hk
      · obtain ⟨lh2, hl, hm⟩ := hwf.ordInFifo k hk
        refine ⟨lh2, ?_, ?_⟩
        · rw [hliveLF lh2, hS1Llive lh2]
          exact Or.inl hl
        · show k ∈ Function.update G.fifo lh [oh] lh2
          rw [Function.update_noteq (hnotlh lh2 hl)]
          exact hm
      · exact absurd hk hkoh
  · -- order pool well-formed
    exact hOP1wf

/-- New-level core of `addOrder`, BUY side, insertion after the sorted-walk
position `cur` inside the side cycle (the `spliceLevelAfter` path); the new
order is the fresh level's singleton FIFO. -/
theorem bookWF_add_core_spliceBuy {s : OrderBook} {G : BookShape} {id q : Nat}
    {p : Int} {oh lh cur : Nat}
    (hwf : BookWF s G)
    (hslot : s.order_map_ (id % MAX_ORDERS) = none)
    (hohdead : s.order_pool_.storage oh = none)
    (hOP1wf : poolWF (⟨Function.update s.order_pool_.storage oh (some ⟨id, p, q, Side.BUY, oh, oh⟩), s.order_pool_.freeArr, s.order_pool_.freeCount - 1⟩ : Pool Order) MAX_ORDERS)
    (hlhdead : s.level_pool_.storage lh = none)
    (hLP2wf : poolWF (⟨Function.update s.level_pool_.storage lh (some ⟨p, Side.BUY, u32add 0 q, 1, oh, lh, lh⟩), s.level_pool_.freeArr, s.level_pool_.freeCount - 1⟩ : Pool PriceLevel) MAX_PRICE_LEVELS)
    (hmapidx : s.price_level_map_ (priceToIndex p) = none)
    (hcur : cur ∈ G.bidsL) :
    ∃ G2 : BookShape, BookWF (setLevel (setLevel (setLevel { s with order_pool_ := ⟨Function.update s.order_pool_.storage oh (some ⟨id, p, q, Side.BUY, oh, oh⟩), s.order_pool_.freeArr, s.order_pool_.freeCount - 1⟩, level_pool_ := ⟨Function.update s.level_pool_.storage lh (some ⟨p, Side.BUY, u32add 0 q, 1, oh, lh, lh⟩), s.level_pool_.freeArr, s.level_pool_.freeCount - 1⟩, order_map_ := Function.update s.order_map_ (id % MAX_ORDERS) (some oh), price_level_map_ := Function.update s.price_level_map_ (priceToIndex p) (some lh) } lh (fun l => { l with prev := cur, next := (derefLevel { s with order_pool_ := ⟨Function.update s.order_pool_.storage oh (some ⟨id, p, q, Side.BUY, oh, oh⟩), s.order_pool_.freeArr, s.order_pool_.freeCount - 1⟩, level_pool_ := ⟨Function.update s.level_pool_.storage lh (some ⟨p, Side.BUY, u32add 0 q, 1, oh, lh, lh⟩), s.level_pool_.freeArr, s.level_pool_.freeCount - 1⟩, order_map_ := Function.update s.order_map_ (id % MAX_ORDERS) (some oh), price_level_map_ := Function.update s.price_level_map_ (priceToIndex p) (some lh) } cur).next })) (derefLevel { s with order_pool_ := ⟨Function.update s.order_pool_.storage oh (some ⟨id, p, q, Side.BUY, oh, oh⟩), s.order_pool_.freeArr, s.order_pool_.freeCount - 1⟩, level_pool_ := ⟨Function.update s.level_pool_.storage lh (some ⟨p, Side.BUY, u32add 0 q, 1, oh, lh, lh⟩), s.level_pool_.freeArr, s.level_pool_.freeCount - 1⟩, order_map_ := Function.update s.order_map_ (id % MAX_ORDERS) (some oh), price_level_map_ := Function.update s.price_level_map_ (priceToIndex p) (some lh) } cur).next (fun l => { l with prev := lh })) cur (fun l => { l with next := lh })) G2 := by
  have hnotlh : ∀ k, (s.level_pool_.storage k).isSome → k ≠ lh := by
    intro k hk he
    rw [he, hlhdead] at hk
    cases hk
  have hcurlive : (s.level_pool_.storage cur).isSome :=
    (hwf.levels.lvlLive cur).mpr (List.mem_append.mpr (Or.inl hcur))
  have hcurne : cur ≠ lh := hnotlh cur hcurlive
  -- order-side facts
  have hOst : ∀ k, k ≠ oh → (setLevel (setLevel (setLevel { s with order_pool_ := ⟨Function.update s.order_pool_.storage oh (some ⟨id, p, q, Side.BUY, oh, oh⟩), s.order_pool_.freeArr, s.order_pool_.freeCount - 1⟩, level_pool_ := ⟨Function.update s.level_pool_.storage lh (some ⟨p, Side.BUY, u32add 0 q, 1, oh, lh, lh⟩), s.level_pool_.freeArr, s.level_pool_.freeCount - 1⟩, order_map_ := Function.update s.order_map_ (id % MAX_ORDERS) (some oh), price_level_map_ := Function.update s.price_level_map_ (priceToIndex p) (some lh) } lh (fun l => { l with prev := cur, next := (derefLevel { s with order_pool_ := ⟨Function.update s.order_pool_.storage oh (some ⟨id, p, q, Side.BUY, oh, oh⟩), s.order_pool_.freeArr, s.order_pool_.freeCount - 1⟩, level_pool_ := ⟨Function.update s.level_pool_.storage lh (some ⟨p, Side.BUY, u32add 0 q, 1, oh, lh, lh⟩), s.level_pool_.freeArr, s.level_pool_.freeCount - 1⟩, order_map_ := Function.update s.order_map_ (id % MAX_ORDERS) (some oh), price_level_map_ := Function.update s.price_level_map_ (priceToIndex p) (some lh) } cur).next })) (derefLevel { s with order_pool_ := ⟨Function.update s.order_pool_.storage oh (some ⟨id, p, q, Side.BUY, oh, oh⟩), s.order_pool_.freeArr, s.order_pool_.freeCount - 1⟩, level_pool_ := ⟨Function.update s.level_pool_.storage lh (some ⟨p, Side.BUY, u32add 0 q, 1, oh, lh, lh⟩), s.level_pool_.freeArr, s.level_pool_.freeCount - 1⟩, order_map_ := Function.update s.order_map_ (id % MAX_ORDERS) (some oh), price_level_map_ := Function.update s.price_level_map_ (priceToIndex p) (some lh) } cur).next (fun l => { l with prev := lh })) cur (fun l => { l with next := lh })).order_pool_.storage k = s.order_pool_.storage k := by
    intro k hk
    show Function.update s.order_pool_.storage oh (some ⟨id, p, q, Side.BUY, oh, oh⟩) k = _
    rw [Function.update_noteq hk]
  have hderO : ∀ k, k ≠ oh → derefOrder (setLevel (setLevel (setLevel { s with order_pool_ := ⟨Function.update s.order_pool_.storage oh (some ⟨id, p, q, Side.BUY, oh, oh⟩), s.order_pool_.freeArr, s.order_pool_.freeCount - 1⟩, level_pool_ := ⟨Function.update s.level_pool_.storage lh (some ⟨p, Side.BUY, u32add 0 q, 1, oh, lh, lh⟩), s.level_pool_.freeArr, s.level_pool_.freeCount - 1⟩, order_map_ := Function.update s.order_map_ (id % MAX_ORDERS) (some oh), price_level_map_ := Function.update s.price_level_map_ (priceToIndex p) (some lh) } lh (fun l => { l with prev := cur, next := (derefLevel { s with order_pool_ := ⟨Function.update s.order_pool_.storage oh (some ⟨id, p, q, Side.BUY, oh, oh⟩), s.order_pool_.freeArr, s.order_pool_.freeCount - 1⟩, level_pool_ := ⟨Function.update s.level_pool_.storage lh (some ⟨p, Side.BUY, u32add 0 q, 1, oh, lh, lh⟩), s.level_pool_.freeArr, s.level_pool_.freeCount - 1⟩, order_map_ := Function.update s.order_map_ (id % MAX_ORDERS) (some oh), price_level_map_ := Function.update s.price_level_map_ (priceToIndex p) (some lh) } cur).next })) (derefLevel { s with order_pool_ := ⟨Function.update s.order_pool_.storage oh (some ⟨id, p, q, Side.BUY, oh, oh⟩), s.order_pool_.freeArr, s.order_pool_.freeCount - 1⟩, level_pool_ := ⟨Function.update s.level_pool_.storage lh (some ⟨p, Side.BUY, u32add 0 q, 1, oh, lh, lh⟩), s.level_pool_.freeArr, s.level_pool_.freeCount - 1⟩, order_map_ := Function.update s.order_map_ (id % MAX_ORDERS) (some oh), price_level_map_ := Function.update s.price_level_map_ (priceToIndex p) (some lh) } cur).next (fun l => { l with prev := lh })) cur (fun l => { l with next := lh })) k = derefOrder s k := by
    intro k hk
    show ((setLevel (setLevel (setLevel { s with order_pool_ := ⟨Function.update s.order_pool_.storage oh (some ⟨id, p, q, Side.BUY, oh, oh⟩), s.order_pool_.freeArr, s.order_pool_.freeCount - 1⟩, level_pool_ := ⟨Function.update s.level_pool_.storage lh (some ⟨p, Side.BUY, u32add 0 q, 1, oh, lh, lh⟩), s.level_pool_.freeArr, s.level_pool_.freeCount - 1⟩, order_map_ := Function.update s.order_map_ (id % MAX_ORDERS) (some oh), price_level_map_ := Function.update s.price_level_map_ (priceToIndex p) (some lh) } lh (fun l => { l with prev := cur, next := (derefLevel { s with order_pool_ := ⟨Function.update s.order_pool_.storage oh (some ⟨id, p, q, Side.BUY, oh, oh⟩), s.order_pool_.freeArr, s.order_pool_.freeCount - 1⟩, level_pool_ := ⟨Function.update s.level_pool_.storage lh (some ⟨p, Side.BUY, u32add 0 q, 1, oh, lh, lh⟩), s.level_pool_.freeArr, s.level_pool_.freeCount - 1⟩, order_map_ := Function.update s.order_map_ (id % MAX_ORDERS) (some oh), price_level_map_ := Function.update s.price_level_map_ (priceToIndex p) (some lh) } cur).next })) (derefLevel { s with order_pool_ := ⟨Function.update s.order_pool_.storage oh (some ⟨id, p, q, Side.BUY, oh, oh⟩), s.order_pool_.freeArr, s.order_pool_.freeCount - 1⟩, level_pool_ := ⟨Function.update s.level_pool_.storage lh (some ⟨p, Side.BUY, u32add 0 q, 1, oh, lh, lh⟩), s.level_pool_.freeArr, s.level_pool_.freeCount - 1⟩, order_map_ := Function.update s.order_map_ (id % MAX_ORDERS) (some oh), price_level_map_ := Function.update s.price_level_map_ (priceToIndex p) (some lh) } cur).next (fun l => { l with prev := lh })) cur (fun l => { l with next := lh })).order_pool_.storage k).getD defaultOrder = _
    rw [hOst k hk]
    rfl
  have hOoh : (setLevel (setLevel (setLevel { s with order_pool_ := ⟨Function.update s.order_pool_.storage oh (some ⟨id, p, q, Side.BUY, oh, oh⟩), s.order_pool_.freeArr, s.order_pool_.freeCount - 1⟩, level_pool_ := ⟨Function.update s.level_pool_.storage lh (some ⟨p, Side.BUY, u32add 0 q, 1, oh, lh, lh⟩), s.level_pool_.freeArr, s.level_pool_.freeCount - 1⟩, order_map_ := Function.update s.order_map_ (id % MAX_ORDERS) (some oh), price_level_map_ := Function.update s.price_level_map_ (priceToIndex p) (some lh) } lh (fun l => { l with prev := cur, next := (derefLevel { s with order_pool_ := ⟨Function.update s.order_pool_.storage oh (some ⟨id, p, q, Side.BUY, oh, oh⟩), s.order_pool_.freeArr, s.order_pool_.freeCount - 1⟩, level_pool_ := ⟨Function.update s.level_pool_.storage lh (some ⟨p, Side.BUY, u32add 0 q, 1, oh, lh, lh⟩), s.level_pool_.freeArr, s.level_pool_.freeCount - 1⟩, order_map_ := Function.update s.order_map_ (id % MAX_ORDERS) (some oh), price_level_map_ := Function.update s.price_level_map_ (priceToIndex p) (some lh) } cur).next })) (derefLevel { s with order_pool_ := ⟨Function.update s.order_pool_.storage oh (some ⟨id, p, q, Side.BUY, oh, oh⟩), s.order_pool_.freeArr, s.order_pool_.freeCount - 1⟩, level_pool_ := ⟨Function.update s.level_pool_.storage lh (some ⟨p, Side.BUY, u32add 0 q, 1, oh, lh, lh⟩), s.level_pool_.freeArr, s.level_pool_.freeCount - 1⟩, order_map_ := Function.update s.order_map_ (id % MAX_ORDERS) (some oh), price_level_map_ := Function.update s.price_level_map_ (priceToIndex p) (some lh) } cur).next (fun l => { l with prev := lh })) cur (fun l => { l with next := lh })).order_pool_.storage oh = some ⟨id, p, q, Side.BUY, oh, oh⟩ := by
    show Function.update s.order_pool_.storage oh (some ⟨id, p, q, Side.BUY, oh, oh⟩) oh = _
    rw [Function.update_same]
  have hderOoh : derefOrder (setLevel (setLevel (setLevel { s with order_pool_ := ⟨Function.update s.order_pool_.storage oh (some ⟨id, p, q, Side.BUY, oh, oh⟩), s.order_pool_.freeArr, s.order_pool_.freeCount - 1⟩, level_pool_ := ⟨Function.update s.level_pool_.storage lh (some ⟨p, Side.BUY, u32add 0 q, 1, oh, lh, lh⟩), s.level_pool_.freeArr, s.level_pool_.freeCount - 1⟩, order_map_ := Function.update s.order_map_ (id % MAX_ORDERS) (some oh), price_level_map_ := Function.update s.price_level_map_ (priceToIndex p) (some lh) } lh (fun l => { l with prev := cur, next := (derefLevel { s with order_pool_ := ⟨Function.update s.order_pool_.storage oh (some ⟨id, p, q, Side.BUY, oh, oh⟩), s.order_pool_.freeArr, s.order_pool_.freeCount - 1⟩, level_pool_ := ⟨Function.update s.level_pool_.storage lh (some ⟨p, Side.BUY, u32add 0 q, 1, oh, lh, lh⟩), s.level_pool_.freeArr, s.level_pool_.freeCount - 1⟩, order_map_ := Function.update s.order_map_ (id % MAX_ORDERS) (some oh), price_level_map_ := Function.update s.price_level_map_ (priceToIndex p) (some lh) } cur).next })) (derefLevel { s with order_pool_ := ⟨Function.update s.order_pool_.storage oh (some ⟨id, p, q, Side.BUY, oh, oh⟩), s.order_pool_.freeArr, s.order_pool_.freeCount - 1⟩, level_pool_ := ⟨Function.update s.level_pool_.storage lh (some ⟨p, Side.BUY, u32add 0 q, 1, oh, lh, lh⟩), s.level_pool_.freeArr, s.level_pool_.freeCount - 1⟩, order_map_ := Function.update s.order_map_ (id % MAX_ORDERS) (some oh), price_level_map_ := Function.update s.price_level_map_ (priceToIndex p) (some lh) } cur).next (fun l => { l with prev := lh })) cur (fun l => { l with next := lh })) oh = ⟨id, p, q, Side.BUY, oh, oh⟩ := by
    show ((setLevel (setLevel (setLevel { s with order_pool_ := ⟨Function.update s.order_pool_.storage oh (some ⟨id, p, q, Side.BUY, oh, oh⟩), s.order_pool_.freeArr, s.order_pool_.freeCount - 1⟩, level_pool_ := ⟨Function.update s.level_pool_.storage lh (some ⟨p, Side.BUY, u32add 0 q, 1, oh, lh, lh⟩), s.level_pool_.freeArr, s.level_pool_.freeCount - 1⟩, order_map_ := Function.update s.order_map_ (id % MAX_ORDERS) (some oh), price_level_map_ := Function.update s.price_level_map_ (priceToIndex p) (some lh) } lh (fun l => { l with prev := cur, next := (derefLevel { s with order_pool_ := ⟨Function.update s.order_pool_.storage oh (some ⟨id, p, q, Side.BUY, oh, oh⟩), s.order_pool_.freeArr, s.order_pool_.freeCount - 1⟩, level_pool_ := ⟨Function.update s.level_pool_.storage lh (some ⟨p, Side.BUY, u32add 0 q, 1, oh, lh, lh⟩), s.level_pool_.freeArr, s.level_pool_.freeCount - 1⟩, order_map_ := Function.update s.order_map_ (id % MAX_ORDERS) (some oh), price_level_map_ := Function.update s.price_level_map_ (priceToIndex p) (some lh) } cur).next })) (derefLevel { s with order_pool_ := ⟨Function.update s.order_pool_.storage oh (some ⟨id, p, q, Side.BUY, oh, oh⟩), s.order_pool_.freeArr, s.order_pool_.freeCount - 1⟩, level_pool_ := ⟨Function.update s.level_pool_.storage lh (some ⟨p, Side.BUY, u32add 0 q, 1, oh, lh, lh⟩), s.level_pool_.freeArr, s.level_pool_.freeCount - 1⟩, order_map_ := Function.update s.order_map_ (id % MAX_ORDERS) (some oh), price_level_map_ := Function.update s.price_level_map_ (priceToIndex p) (some lh) } cur).next (fun l => { l with prev := lh })) cur (fun l => { l with next := lh })).order_pool_.storage oh).getD defaultOrder = _
    rw [hOoh]
    rfl
  have hliveOF : ∀ k, ((setLevel (setLevel (setLevel { s with order_pool_ := ⟨Function.update s.order_pool_.storage oh (some ⟨id, p, q, Side.BUY, oh, oh⟩), s.order_pool_.freeArr, s.order_pool_.freeCount - 1⟩, level_pool_ := ⟨Function.update s.level_pool_.storage lh (some ⟨p, Side.BUY, u32add 0 q, 1, oh, lh, lh⟩), s.level_pool_.freeArr, s.level_pool_.freeCount - 1⟩, order_map_ := Function.update s.order_map_ (id % MAX_ORDERS) (some oh), price_level_map_ := Function.update s.price_level_map_ (priceToIndex p) (some lh) } lh (fun l => { l with prev := cur, next := (derefLevel { s with order_pool_ := ⟨Function.update s.order_pool_.storage oh (some ⟨id, p, q, Side.BUY, oh, oh⟩), s.order_pool_.freeArr, s.order_pool_.freeCount - 1⟩, level_pool_ := ⟨Function.update s.level_pool_.storage lh (some ⟨p, Side.BUY, u32add 0 q, 1, oh, lh, lh⟩), s.level_pool_.freeArr, s.level_pool_.freeCount - 1⟩, order_map_ := Function.update s.order_map_ (id % MAX_ORDERS) (some oh), price_level_map_ := Function.update s.price_level_map_ (priceToIndex p) (some lh) } cur).next })) (derefLevel { s with order_pool_ := ⟨Function.update s.order_pool_.storage oh (some ⟨id, p, q, Side.BUY, oh, oh⟩), s.order_pool_.freeArr, s.order_pool_.freeCount - 1⟩, level_pool_ := ⟨Function.update s.level_pool_.storage lh (some ⟨p, Side.BUY, u32add 0 q, 1, oh, lh, lh⟩), s.level_pool_.freeArr, s.level_pool_.freeCount - 1⟩, order_map_ := Function.update s.order_map_ (id % MAX_ORDERS) (some oh), price_level_map_ := Function.update s.price_level_map_ (priceToIndex p) (some lh) } cur).next (fun l => { l with prev := lh })) cur (fun l => { l with next := lh })).order_pool_.storage k).isSome ↔
      ((s.order_pool_.storage k).isSome ∨ k = oh) := by
    intro k
    by_cases hk : k = oh
    · rw [hk, hOoh]
      simp
    · rw [hOst k hk]
      simp [hk]
  have hohnotlive : ∀ lh2, (s.level_pool_.storage lh2).isSome → oh ∉ G.fifo lh2 := by
    intro lh2 hl hmem
    have := hwf.fifoLive lh2 hl oh hmem
    rw [hohdead] at this
    cases this
  -- level dereferencing
  have hT0L : ∀ k, k ≠ lh → derefLevel ({ s with order_pool_ := ⟨Function.update s.order_pool_.storage oh (some ⟨id, p, q, Side.BUY, oh, oh⟩), s.order_pool_.freeArr, s.order_pool_.freeCount - 1⟩, level_pool_ := ⟨Function.update s.level_pool_.storage lh (some ⟨p, Side.BUY, u32add 0 q, 1, oh, lh, lh⟩), s.level_pool_.freeArr, s.level_pool_.freeCount - 1⟩, order_map_ := Function.update s.order_map_ (id % MAX_ORDERS) (some oh), price_level_map_ := Function.update s.price_level_map_ (priceToIndex p) (some lh) }) k = derefLevel s k := by
    intro k hk
    show (Function.update s.level_pool_.storage lh (some ⟨p, Side.BUY, u32add 0 q, 1, oh, lh, lh⟩) k).getD defaultLevel = _
    rw [Function.update_noteq hk]
    rfl
  have hT0lh : derefLevel ({ s with order_pool_ := ⟨Function.update s.order_pool_.storage oh (some ⟨id, p, q, Side.BUY, oh, oh⟩), s.order_pool_.freeArr, s.order_pool_.freeCount - 1⟩, level_pool_ := ⟨Function.update s.level_pool_.storage lh (some ⟨p, Side.BUY, u32add 0 q, 1, oh, lh, lh⟩), s.level_pool_.freeArr, s.level_pool_.freeCount - 1⟩, order_map_ := Function.update s.order_map_ (id % MAX_ORDERS) (some oh), price_level_map_ := Function.update s.price_level_map_ (priceToIndex p) (some lh) }) lh = ⟨p, Side.BUY, u32add 0 q, 1, oh, lh, lh⟩ := by
    show (Function.update s.level_pool_.storage lh (some ⟨p, Side.BUY, u32add 0 q, 1, oh, lh, lh⟩) lh).getD defaultLevel = _
    rw [Function.update_same]
    rfl
  have hNXTeq : ((derefLevel { s with order_pool_ := ⟨Function.update s.order_pool_.storage oh (some ⟨id, p, q, Side.BUY, oh, oh⟩), s.order_pool_.freeArr, s.order_pool_.freeCount - 1⟩, level_pool_ := ⟨Function.update s.level_pool_.storage lh (some ⟨p, Side.BUY, u32add 0 q, 1, oh, lh, lh⟩), s.level_pool_.freeArr, s.level_pool_.freeCount - 1⟩, order_map_ := Function.update s.order_map_ (id % MAX_ORDERS) (some oh), price_level_map_ := Function.update s.price_level_map_ (priceToIndex p) (some lh) } cur).next) = (derefLevel s cur).next := by
    rw [hT0L cur hcurne]
  have hndB : (G.bidsL).Nodup := hwf.levels.lvlNodup.sublist (List.sublist_append_left _ _)
  obtain ⟨nx, hnx_mem, hnx⟩ := isCycle_next_mem hwf.levels.bidsCyc hcur
  have hnx_eq : nx = (derefLevel s cur).next := hnx.1.symm
  have hNXTmem : ((derefLevel { s with order_pool_ := ⟨Function.update s.order_pool_.storage oh (some ⟨id, p, q, Side.BUY, oh, oh⟩), s.order_pool_.freeArr, s.order_pool_.freeCount - 1⟩, level_pool_ := ⟨Function.update s.level_pool_.storage lh (some ⟨p, Side.BUY, u32add 0 q, 1, oh, lh, lh⟩), s.level_pool_.freeArr, s.level_pool_.freeCount - 1⟩, order_map_ := Function.update s.order_map_ (id % MAX_ORDERS) (some oh), price_level_map_ := Function.update s.price_level_map_ (priceToIndex p) (some lh) } cur).next) ∈ G.bidsL := by
    rw [hNXTeq, ← hnx_eq]
    exact hnx_mem
  have hNXTlive : (s.level_pool_.storage ((derefLevel { s with order_pool_ := ⟨Function.update s.order_pool_.storage oh (some ⟨id, p, q, Side.BUY, oh, oh⟩), s.order_pool_.freeArr, s.order_pool_.freeCount - 1⟩, level_pool_ := ⟨Function.update s.level_pool_.storage lh (some ⟨p, Side.BUY, u32add 0 q, 1, oh, lh, lh⟩), s.level_pool_.freeArr, s.level_pool_.freeCount - 1⟩, order_map_ := Function.update s.order_map_ (id % MAX_ORDERS) (some oh), price_level_map_ := Function.update s.price_level_map_ (priceToIndex p) (some lh) } cur).next)).isSome :=
    (hwf.levels.lvlLive _).mpr (List.mem_append.mpr (Or.inl hNXTmem))
  have hNXTne : ((derefLevel { s with order_pool_ := ⟨Function.update s.order_pool_.storage oh (some ⟨id, p, q, Side.BUY, oh, oh⟩), s.order_pool_.freeArr, s.order_pool_.freeCount - 1⟩, level_pool_ := ⟨Function.update s.level_pool_.storage lh (some ⟨p, Side.BUY, u32add 0 q, 1, oh, lh, lh⟩), s.level_pool_.freeArr, s.level_pool_.freeCount - 1⟩, order_map_ := Function.update s.order_map_ (id % MAX_ORDERS) (some oh), price_level_map_ := Function.update s.price_level_map_ (priceToIndex p) (some lh) } cur).next) ≠ lh := hnotlh _ hNXTlive
  have hFlh : derefLevel (setLevel (setLevel (setLevel { s with order_pool_ := ⟨Function.update s.order_pool_.storage oh (some ⟨id, p, q, Side.BUY, oh, oh⟩), s.order_pool_.freeArr, s.order_pool_.freeCount - 1⟩, level_pool_ := ⟨Function.update s.level_pool_.storage lh (some ⟨p, Side.BUY, u32add 0 q, 1, oh, lh, lh⟩), s.level_pool_.freeArr, s.level_pool_.freeCount - 1⟩, order_map_ := Function.update s.order_map_ (id % MAX_ORDERS) (some oh), price_level_map_ := Function.update s.price_level_map_ (priceToIndex p) (some lh) } lh (fun l => { l with prev := cur, next := (derefLevel { s with order_pool_ := ⟨Function.update s.order_pool_.storage oh (some ⟨id, p, q, Side.BUY, oh, oh⟩), s.order_pool_.freeArr, s.order_pool_.freeCount - 1⟩, level_pool_ := ⟨Function.update s.level_pool_.storage lh (some ⟨p, Side.BUY, u32add 0 q, 1, oh, lh, lh⟩), s.level_pool_.freeArr, s.level_pool_.freeCount - 1⟩, order_map_ := Function.update s.order_map_ (id % MAX_ORDERS) (some oh), price_level_map_ := Function.update s.price_level_map_ (priceToIndex p) (some lh) } cur).next })) (derefLevel { s with order_pool_ := ⟨Function.update s.order_pool_.storage oh (some ⟨id, p, q, Side.BUY, oh, oh⟩), s.order_pool_.freeArr, s.order_pool_.freeCount - 1⟩, level_pool_ := ⟨Function.update s.level_pool_.storage lh (some ⟨p, Side.BUY, u32add 0 q, 1, oh, lh, lh⟩), s.level_pool_.freeArr, s.level_pool_.freeCount - 1⟩, order_map_ := Function.update s.order_map_ (id % MAX_ORDERS) (some oh), price_level_map_ := Function.update s.price_level_map_ (priceToIndex p) (some lh) } cur).next (fun l => { l with prev := lh })) cur (fun l => { l with next := lh })) lh = (⟨p, Side.BUY, u32add 0 q, 1, oh, cur, (derefLevel { s with order_pool_ := ⟨Function.update s.order_pool_.storage oh (some ⟨id, p, q, Side.BUY, oh, oh⟩), s.order_pool_.freeArr, s.order_pool_.freeCount - 1⟩, level_pool_ := ⟨Function.update s.level_pool_.storage lh (some ⟨p, Side.BUY, u32add 0 q, 1, oh, lh, lh⟩), s.level_pool_.freeArr, s.level_pool_.freeCount - 1⟩, order_map_ := Function.update s.order_map_ (id % MAX_ORDERS) (some oh), price_level_map_ := Function.update s.price_level_map_ (priceToIndex p) (some lh) } cur).next⟩ : PriceLevel) := by
    rw [derefLevel_setLevel_ne _ _ _ (Ne.symm hcurne),
      derefLevel_setLevel_ne _ _ _ (Ne.symm hNXTne), derefLevel_setLevel_same, hT0lh]
  have hfieldsF : ∀ k, k ≠ lh →
      (derefLevel (setLevel (setLevel (setLevel { s with order_pool_ := ⟨Function.update s.order_pool_.storage oh (some ⟨id, p, q, Side.BUY, oh, oh⟩), s.order_pool_.freeArr, s.order_pool_.freeCount - 1⟩, level_pool_ := ⟨Function.update s.level_pool_.storage lh (some ⟨p, Side.BUY, u32add 0 q, 1, oh, lh, lh⟩), s.level_pool_.freeArr, s.level_pool_.freeCount - 1⟩, order_map_ := Function.update s.order_map_ (id % MAX_ORDERS) (some oh), price_level_map_ := Function.update s.price_level_map_ (priceToIndex p) (some lh) } lh (fun l => { l with prev := cur, next := (derefLevel { s with order_pool_ := ⟨Function.update s.order_pool_.storage oh (some ⟨id, p, q, Side.BUY, oh, oh⟩), s.order_pool_.freeArr, s.order_pool_.freeCount - 1⟩, level_pool_ := ⟨Function.update s.level_pool_.storage lh (some ⟨p, Side.BUY, u32add 0 q, 1, oh, lh, lh⟩), s.level_pool_.freeArr, s.level_pool_.freeCount - 1⟩, order_map_ := Function.update s.order_map_ (id % MAX_ORDERS) (some oh), price_level_map_ := Function.update s.price_level_map_ (priceToIndex p) (some lh) } cur).next })) (derefLevel { s with order_pool_ := ⟨Function.update s.order_pool_.storage oh (some ⟨id, p, q, Side.BUY, oh, oh⟩), s.order_pool_.freeArr, s.order_pool_.freeCount - 1⟩, level_pool_ := ⟨Function.update s.level_pool_.storage lh (some ⟨p, Side.BUY, u32add 0 q, 1, oh, lh, lh⟩), s.level_pool_.freeArr, s.level_pool_.freeCount - 1⟩, order_map_ := Function.update s.order_map_ (id % MAX_ORDERS) (some oh), price_level_map_ := Function.update s.price_level_map_ (priceToIndex p) (some lh) } cur).next (fun l => { l with prev := lh })) cur (fun l => { l with next := lh })) k).price = (derefLevel s k).price ∧
      (derefLevel (setLevel (setLevel (setLevel { s with order_pool_ := ⟨Function.update s.order_pool_.storage oh (some ⟨id, p, q, Side.BUY, oh, oh⟩), s.order_pool_.freeArr, s.order_pool_.freeCount - 1⟩, level_pool_ := ⟨Function.update s.level_pool_.storage lh (some ⟨p, Side.BUY, u32add 0 q, 1, oh, lh, lh⟩), s.level_pool_.freeArr, s.level_pool_.freeCount - 1⟩, order_map_ := Function.update s.order_map_ (id % MAX_ORDERS) (some oh), price_level_map_ := Function.update s.price_level_map_ (priceToIndex p) (some lh) } lh (fun l => { l with prev := cur, next := (derefLevel { s with order_pool_ := ⟨Function.update s.order_pool_.storage oh (some ⟨id, p, q, Side.BUY, oh, oh⟩), s.order_pool_.freeArr, s.order_pool_.freeCount - 1⟩, level_pool_ := ⟨Function.update s.level_pool_.storage lh (some ⟨p, Side.BUY, u32add 0 q, 1, oh, lh, lh⟩), s.level_pool_.freeArr, s.level_pool_.freeCount - 1⟩, order_map_ := Function.update s.order_map_ (id % MAX_ORDERS) (some oh), price_level_map_ := Function.update s.price_level_map_ (priceToIndex p) (some lh) } cur).next })) (derefLevel { s with order_pool_ := ⟨Function.update s.order_pool_.storage oh (some ⟨id, p, q, Side.BUY, oh, oh⟩), s.order_pool_.freeArr, s.order_pool_.freeCount - 1⟩, level_pool_ := ⟨Function.update s.level_pool_.storage lh (some ⟨p, Side.BUY, u32add 0 q, 1, oh, lh, lh⟩), s.level_pool_.freeArr, s.level_pool_.freeCount - 1⟩, order_map_ := Function.update s.order_map_ (id % MAX_ORDERS) (some oh), price_level_map_ := Function.update s.price_level_map_ (priceToIndex p) (some lh) } cur).next (fun l => { l with prev := lh })) cur (fun l => { l with next := lh })) k).side = (derefLevel s k).side ∧
      (derefLevel (setLevel (setLevel (setLevel { s with order_pool_ := ⟨Function.update s.order_pool_.storage oh (some ⟨id, p, q, Side.BUY, oh, oh⟩), s.order_pool_.freeArr, s.order_pool_.freeCount - 1⟩, level_pool_ := ⟨Function.update s.level_pool_.storage lh (some ⟨p, Side.BUY, u32add 0 q, 1, oh, lh, lh⟩), s.level_pool_.freeArr, s.level_pool_.freeCount - 1⟩, order_map_ := Function.update s.order_map_ (id % MAX_ORDERS) (some oh), price_level_map_ := Function.update s.price_level_map_ (priceToIndex p) (some lh) } lh (fun l => { l with prev := cur, next := (derefLevel { s with order_pool_ := ⟨Function.update s.order_pool_.storage oh (some ⟨id, p, q, Side.BUY, oh, oh⟩), s.order_pool_.freeArr, s.order_pool_.freeCount - 1⟩, level_pool_ := ⟨Function.update s.level_pool_.storage lh (some ⟨p, Side.BUY, u32add 0 q, 1, oh, lh, lh⟩), s.level_pool_.freeArr, s.level_pool_.freeCount - 1⟩, order_map_ := Function.update s.order_map_ (id % MAX_ORDERS) (some oh), price_level_map_ := Function.update s.price_level_map_ (priceToIndex p) (some lh) } cur).next })) (derefLevel { s with order_pool_ := ⟨Function.update s.order_pool_.storage oh (some ⟨id, p, q, Side.BUY, oh, oh⟩), s.order_pool_.freeArr, s.order_pool_.freeCount - 1⟩, level_pool_ := ⟨Function.update s.level_pool_.storage lh (some ⟨p, Side.BUY, u32add 0 q, 1, oh, lh, lh⟩), s.level_pool_.freeArr, s.level_pool_.freeCount - 1⟩, order_map_ := Function.update s.order_map_ (id % MAX_ORDERS) (some oh), price_level_map_ := Function.update s.price_level_map_ (priceToIndex p) (some lh) } cur).next (fun l => { l with prev := lh })) cur (fun l => { l with next := lh })) k).first_order = (derefLevel s k).first_order ∧
      (derefLevel (setLevel (setLevel (setLevel { s with order_pool_ := ⟨Function.update s.order_pool_.storage oh (some ⟨id, p, q, Side.BUY, oh, oh⟩), s.order_pool_.freeArr, s.order_pool_.freeCount - 1⟩, level_pool_ := ⟨Function.update s.level_pool_.storage lh (some ⟨p, Side.BUY, u32add 0 q, 1, oh, lh, lh⟩), s.level_pool_.freeArr, s.level_pool_.freeCount - 1⟩, order_map_ := Function.update s.order_map_ (id % MAX_ORDERS) (some oh), price_level_map_ := Function.update s.price_level_map_ (priceToIndex p) (some lh) } lh (fun l => { l with prev := cur, next := (derefLevel { s with order_pool_ := ⟨Function.update s.order_pool_.storage oh (some ⟨id, p, q, Side.BUY, oh, oh⟩), s.order_pool_.freeArr, s.order_pool_.freeCount - 1⟩, level_pool_ := ⟨Function.update s.level_pool_.storage lh (some ⟨p, Side.BUY, u32add 0 q, 1, oh, lh, lh⟩), s.level_pool_.freeArr, s.level_pool_.freeCount - 1⟩, order_map_ := Function.update s.order_map_ (id % MAX_ORDERS) (some oh), price_level_map_ := Function.update s.price_level_map_ (priceToIndex p) (some lh) } cur).next })) (derefLevel { s with order_pool_ := ⟨Function.update s.order_pool_.storage oh (some ⟨id, p, q, Side.BUY, oh, oh⟩), s.order_pool_.freeArr, s.order_pool_.freeCount - 1⟩, level_pool_ := ⟨Function.update s.level_pool_.storage lh (some ⟨p, Side.BUY, u32add 0 q, 1, oh, lh, lh⟩), s.level_pool_.freeArr, s.level_pool_.freeCount - 1⟩, order_map_ := Function.update s.order_map_ (id % MAX_ORDERS) (some oh), price_level_map_ := Function.update s.price_level_map_ (priceToIndex p) (some lh) } cur).next (fun l => { l with prev := lh })) cur (fun l => { l with next := lh })) k).order_count = (derefLevel s k).order_count := by
    intro k h1
    by_cases h3 : k = cur
    · rw [h3, derefLevel_setLevel_same]
      by_cases h2 : cur = ((derefLevel { s with order_pool_ := ⟨Function.update s.order_pool_.storage oh (some ⟨id, p, q, Side.BUY, oh, oh⟩), s.order_pool_.freeArr, s.order_pool_.freeCount - 1⟩, level_pool_ := ⟨Function.update s.level_pool_.storage lh (some ⟨p, Side.BUY, u32add 0 q, 1, oh, lh, lh⟩), s.level_pool_.freeArr, s.level_pool_.freeCount - 1⟩, order_map_ := Function.update s.order_map_ (id % MAX_ORDERS) (some oh), price_level_map_ := Function.update s.price_level_map_ (priceToIndex p) (some lh) } cur).next)
      · rw [← h2, derefLevel_setLevel_same, derefLevel_setLevel_ne _ _ _ hcurne, hT0L _ hcurne]
        exact ⟨rfl, rfl, rfl, rfl⟩
      · rw [derefLevel_setLevel_ne _ _ _ h2, derefLevel_setLevel_ne _ _ _ hcurne, hT0L _ hcurne]
        exact ⟨rfl, rfl, rfl, rfl⟩
    · rw [derefLevel_setLevel_ne _ _ _ h3]
      by_cases h2 : k = ((derefLevel { s with order_pool_ := ⟨Function.update s.order_pool_.storage oh (some ⟨id, p, q, Side.BUY, oh, oh⟩), s.order_pool_.freeArr, s.order_pool_.freeCount - 1⟩, level_pool_ := ⟨Function.update s.level_pool_.storage lh (some ⟨p, Side.BUY, u32add 0 q, 1, oh, lh, lh⟩), s.level_pool_.freeArr, s.level_pool_.freeCount - 1⟩, order_map_ := Function.update s.order_map_ (id % MAX_ORDERS) (some oh), price_level_map_ := Function.update s.price_level_map_ (priceToIndex p) (some lh) } cur).next)
      · rw [h2, derefLevel_setLevel_same, derefLevel_setLevel_ne _ _ _ hNXTne, hT0L _ hNXTne]
        exact ⟨rfl, rfl, rfl, rfl⟩
      · rw [derefLevel_setLevel_ne _ _ _ h2, derefLevel_setLevel_ne _ _ _ h1, hT0L k h1]
        exact ⟨rfl, rfl, rfl, rfl⟩
  have hnCUR : (derefLevel (setLevel (setLevel (setLevel { s with order_pool_ := ⟨Function.update s.order_pool_.storage oh (some ⟨id, p, q, Side.BUY, oh, oh⟩), s.order_pool_.freeArr, s.order_pool_.freeCount - 1⟩, level_pool_ := ⟨Function.update s.level_pool_.storage lh (some ⟨p, Side.BUY, u32add 0 q, 1, oh, lh, lh⟩), s.level_pool_.freeArr, s.level_pool_.freeCount - 1⟩, order_map_ := Function.update s.order_map_ (id % MAX_ORDERS) (some oh), price_level_map_ := Function.update s.price_level_map_ (priceToIndex p) (some lh) } lh (fun l => { l with prev := cur, next := (derefLevel { s with order_pool_ := ⟨Function.update s.order_pool_.storage oh (some ⟨id, p, q, Side.BUY, oh, oh⟩), s.order_pool_.freeArr, s.order_pool_.freeCount - 1⟩, level_pool_ := ⟨Function.update s.level_pool_.storage lh (some ⟨p, Side.BUY, u32add 0 q, 1, oh, lh, lh⟩), s.level_pool_.freeArr, s.level_pool_.freeCount - 1⟩, order_map_ := Function.update s.order_map_ (id % MAX_ORDERS) (some oh), price_level_map_ := Function.update s.price_level_map_ (priceToIndex p) (some lh) } cur).next })) (derefLevel { s with order_pool_ := ⟨Function.update s.order_pool_.storage oh (some ⟨id, p, q, Side.BUY, oh, oh⟩), s.order_pool_.freeArr, s.order_pool_.freeCount - 1⟩, level_pool_ := ⟨Function.update s.level_pool_.storage lh (some ⟨p, Side.BUY, u32add 0 q, 1, oh, lh, lh⟩), s.level_pool_.freeArr, s.level_pool_.freeCount - 1⟩, order_map_ := Function.update s.order_map_ (id % MAX_ORDERS) (some oh), price_level_map_ := Function.update s.price_level_map_ (priceToIndex p) (some lh) } cur).next (fun l => { l with prev := lh })) cur (fun l => { l with next := lh })) cur).next = lh := by
    rw [derefLevel_setLevel_same]
  have hpNXT : (derefLevel (setLevel (setLevel (setLevel { s with order_pool_ := ⟨Function.update s.order_pool_.storage oh (some ⟨id, p, q, Side.BUY, oh, oh⟩), s.order_pool_.freeArr, s.order_pool_.freeCount - 1⟩, level_pool_ := ⟨Function.update s.level_pool_.storage lh (some ⟨p, Side.BUY, u32add 0 q, 1, oh, lh, lh⟩), s.level_pool_.freeArr, s.level_pool_.freeCount - 1⟩, order_map_ := Function.update s.order_map_ (id % MAX_ORDERS) (some oh), price_level_map_ := Function.update s.price_level_map_ (priceToIndex p) (some lh) } lh (fun l => { l with prev := cur, next := (derefLevel { s with order_pool_ := ⟨Function.update s.order_pool_.storage oh (some ⟨id, p, q, Side.BUY, oh, oh⟩), s.order_pool_.freeArr, s.order_pool_.freeCount - 1⟩, level_pool_ := ⟨Function.update s.level_pool_.storage lh (some ⟨p, Side.BUY, u32add 0 q, 1, oh, lh, lh⟩), s.level_pool_.freeArr, s.level_pool_.freeCount - 1⟩, order_map_ := Function.update s.order_map_ (id % MAX_ORDERS) (some oh), price_level_map_ := Function.update s.price_level_map_ (priceToIndex p) (some lh) } cur).next })) (derefLevel { s with order_pool_ := ⟨Function.update s.order_pool_.storage oh (some ⟨id, p, q, Side.BUY, oh, oh⟩), s.order_pool_.freeArr, s.order_pool_.freeCount - 1⟩, level_pool_ := ⟨Function.update s.level_pool_.storage lh (some ⟨p, Side.BUY, u32add 0 q, 1, oh, lh, lh⟩), s.level_pool_.freeArr, s.level_pool_.freeCount - 1⟩, order_map_ := Function.update s.order_map_ (id % MAX_ORDERS) (some oh), price_level_map_ := Function.update s.price_level_map_ (priceToIndex p) (some lh) } cur).next (fun l => { l with prev := lh })) cur (fun l => { l with next := lh })) ((derefLevel { s with order_pool_ := ⟨Function.update s.order_pool_.storage oh (some ⟨id, p, q, Side.BUY, oh, oh⟩), s.order_pool_.freeArr, s.order_pool_.freeCount - 1⟩, level_pool_ := ⟨Function.update s.level_pool_.storage lh (some ⟨p, Side.BUY, u32add 0 q, 1, oh, lh, lh⟩), s.level_pool_.freeArr, s.level_pool_.freeCount - 1⟩, order_map_ := Function.update s.order_map_ (id % MAX_ORDERS) (some oh), price_level_map_ := Function.update s.price_level_map_ (priceToIndex p) (some lh) } cur).next)).prev = lh := by
    by_cases h3 : ((derefLevel { s with order_pool_ := ⟨Function.update s.order_pool_.storage oh (some ⟨id, p, q, Side.BUY, oh, oh⟩), s.order_pool_.freeArr, s.order_pool_.freeCount - 1⟩, level_pool_ := ⟨Function.update s.level_pool_.storage lh (some ⟨p, Side.BUY, u32add 0 q, 1, oh, lh, lh⟩), s.level_pool_.freeArr, s.level_pool_.freeCount - 1⟩, order_map_ := Function.update s.order_map_ (id % MAX_ORDERS) (some oh), price_level_map_ := Function.update s.price_level_map_ (priceToIndex p) (some lh) } cur).next) = cur
    · rw [h3, derefLevel_setLevel_same, derefLevel_setLevel_same]
    · rw [derefLevel_setLevel_ne _ _ _ h3, derefLevel_setLevel_same]
  have hrnF : ∀ k, k ≠ lh → k ≠ cur →
      (derefLevel (setLevel (setLevel (setLevel { s with order_pool_ := ⟨Function.update s.order_pool_.storage oh (some ⟨id, p, q, Side.BUY, oh, oh⟩), s.order_pool_.freeArr, s.order_pool_.freeCount - 1⟩, level_pool_ := ⟨Function.update s.level_pool_.storage lh (some ⟨p, Side.BUY, u32add 0 q, 1, oh, lh, lh⟩), s.level_pool_.freeArr, s.level_pool_.freeCount - 1⟩, order_map_ := Function.update s.order_map_ (id % MAX_ORDERS) (some oh), price_level_map_ := Function.update s.price_level_map_ (priceToIndex p) (some lh) } lh (fun l => { l with prev := cur, next := (derefLevel { s with order_pool_ := ⟨Function.update s.order_pool_.storage oh (some ⟨id, p, q, Side.BUY, oh, oh⟩), s.order_pool_.freeArr, s.order_pool_.freeCount - 1⟩, level_pool_ := ⟨Function.update s.level_pool_.storage lh (some ⟨p, Side.BUY, u32add 0 q, 1, oh, lh, lh⟩), s.level_pool_.freeArr, s.level_pool_.freeCount - 1⟩, order_map_ := Function.update s.order_map_ (id % MAX_ORDERS) (some oh), price_level_map_ := Function.update s.price_level_map_ (priceToIndex p) (some lh) } cur).next })) (derefLevel { s with order_pool_ := ⟨Function.update s.order_pool_.storage oh (some ⟨id, p, q, Side.BUY, oh, oh⟩), s.order_pool_.freeArr, s.order_pool_.freeCount - 1⟩, level_pool_ := ⟨Function.update s.level_pool_.storage lh (some ⟨p, Side.BUY, u32add 0 q, 1, oh, lh, lh⟩), s.level_pool_.freeArr, s.level_pool_.freeCount - 1⟩, order_map_ := Function.update s.order_map_ (id % MAX_ORDERS) (some oh), price_level_map_ := Function.update s.price_level_map_ (priceToIndex p) (some lh) } cur).next (fun l => { l with prev := lh })) cur (fun l => { l with next := lh })) k).next = (derefLevel s k).next := by
    intro k hkl hkc
    rw [derefLevel_setLevel_ne _ _ _ hkc]
    by_cases h2 : k = ((derefLevel { s with order_pool_ := ⟨Function.update s.order_pool_.storage oh (some ⟨id, p, q, Side.BUY, oh, oh⟩), s.order_pool_.freeArr, s.order_pool_.freeCount - 1⟩, level_pool_ := ⟨Function.update s.level_pool_.storage lh (some ⟨p, Side.BUY, u32add 0 q, 1, oh, lh, lh⟩), s.level_pool_.freeArr, s.level_pool_.freeCount - 1⟩, order_map_ := Function.update s.order_map_ (id % MAX_ORDERS) (some oh), price_level_map_ := Function.update s.price_level_map_ (priceToIndex p) (some lh) } cur).next)
    · rw [h2, derefLevel_setLevel_same, derefLevel_setLevel_ne _ _ _ hNXTne, hT0L _ hNXTne]
    · rw [derefLevel_setLevel_ne _ _ _ h2, derefLevel_setLevel_ne _ _ _ hkl, hT0L k hkl]
  have hrpF : ∀ k, k ≠ lh → k ≠ ((derefLevel { s with order_pool_ := ⟨Function.update s.order_pool_.storage oh (some ⟨id, p, q, Side.BUY, oh, oh⟩), s.order_pool_.freeArr, s.order_pool_.freeCount - 1⟩, level_pool_ := ⟨Function.update s.level_pool_.storage lh (some ⟨p, Side.BUY, u32add 0 q, 1, oh, lh, lh⟩), s.level_pool_.freeArr, s.level_pool_.freeCount - 1⟩, order_map_ := Function.update s.order_map_ (id % MAX_ORDERS) (some oh), price_level_map_ := Function.update s.price_level_map_ (priceToIndex p) (some lh) } cur).next) →
      (derefLevel (setLevel (setLevel (setLevel { s with order_pool_ := ⟨Function.update s.order_pool_.storage oh (some ⟨id, p, q, Side.BUY, oh, oh⟩), s.order_pool_.freeArr, s.order_pool_.freeCount - 1⟩, level_pool_ := ⟨Function.update s.level_pool_.storage lh (some ⟨p, Side.BUY, u32add 0 q, 1, oh, lh, lh⟩), s.level_pool_.freeArr, s.level_pool_.freeCount - 1⟩, order_map_ := Function.update s.order_map_ (id % MAX_ORDERS) (some oh), price_level_map_ := Function.update s.price_level_map_ (priceToIndex p) (some lh) } lh (fun l => { l with prev := cur, next := (derefLevel { s with order_pool_ := ⟨Function.update s.order_pool_.storage oh (some ⟨id, p, q, Side.BUY, oh, oh⟩), s.order_pool_.freeArr, s.order_pool_.freeCount - 1⟩, level_pool_ := ⟨Function.update s.level_pool_.storage lh (some ⟨p, Side.BUY, u32add 0 q, 1, oh, lh, lh⟩), s.level_pool_.freeArr, s.level_pool_.freeCount - 1⟩, order_map_ := Function.update s.order_map_ (id % MAX_ORDERS) (some oh), price_level_map_ := Function.update s.price_level_map_ (priceToIndex p) (some lh) } cur).next })) (derefLevel { s with order_pool_ := ⟨Function.update s.order_pool_.storage oh (some ⟨id, p, q, Side.BUY, oh, oh⟩), s.order_pool_.freeArr, s.order_pool_.freeCount - 1⟩, level_pool_ := ⟨Function.update s.level_pool_.storage lh (some ⟨p, Side.BUY, u32add 0 q, 1, oh, lh, lh⟩), s.level_pool_.freeArr, s.level_pool_.freeCount - 1⟩, order_map_ := Function.update s.order_map_ (id % MAX_ORDERS) (some oh), price_level_map_ := Function.update s.price_level_map_ (priceToIndex p) (some lh) } cur).next (fun l => { l with prev := lh })) cur (fun l => { l with next := lh })) k).prev = (derefLevel s k).prev := by
    intro k hkl hkn
    by_cases h3 : k = cur
    · rw [h3, derefLevel_setLevel_same, derefLevel_setLevel_ne _ _ _ (h3 ▸ hkn),
        derefLevel_setLevel_ne _ _ _ hcurne, hT0L _ hcurne]
    · rw [derefLevel_setLevel_ne _ _ _ h3, derefLevel_setLevel_ne _ _ _ hkn,
        derefLevel_setLevel_ne _ _ _ hkl, hT0L k hkl]
  -- level-pool liveness through the chain of writes
  have hS1Llive : ∀ k, (({ s with order_pool_ := ⟨Function.update s.order_pool_.storage oh (some ⟨id, p, q, Side.BUY, oh, oh⟩), s.order_pool_.freeArr, s.order_pool_.freeCount - 1⟩, level_pool_ := ⟨Function.update s.level_pool_.storage lh (some ⟨p, Side.BUY, u32add 0 q, 1, oh, lh, lh⟩), s.level_pool_.freeArr, s.level_pool_.freeCount - 1⟩, order_map_ := Function.update s.order_map_ (id % MAX_ORDERS) (some oh), price_level_map_ := Function.update s.price_level_map_ (priceToIndex p) (some lh) }).level_pool_.storage k).isSome ↔
      ((s.level_pool_.storage k).isSome ∨ k = lh) := by
    intro k
    by_cases hk : k = lh
    · show (Function.update s.level_pool_.storage lh (some ⟨p, Side.BUY, u32add 0 q, 1, oh, lh, lh⟩) k).isSome ↔ _
      rw [hk, Function.update_same]
      simp [hk]
    · show (Function.update s.level_pool_.storage lh (some ⟨p, Side.BUY, u32add 0 q, 1, oh, lh, lh⟩) k).isSome ↔ _
      rw [Function.update_noteq hk]
      simp [hk]
  have hT0lhIsSome : (({ s with order_pool_ := ⟨Function.update s.order_pool_.storage oh (some ⟨id, p, q, Side.BUY, oh, oh⟩), s.order_pool_.freeArr, s.order_pool_.freeCount - 1⟩, level_pool_ := ⟨Function.update s.level_pool_.storage lh (some ⟨p, Side.BUY, u32add 0 q, 1, oh, lh, lh⟩), s.level_pool_.freeArr, s.level_pool_.freeCount - 1⟩, order_map_ := Function.update s.order_map_ (id % MAX_ORDERS) (some oh), price_level_map_ := Function.update s.price_level_map_ (priceToIndex p) (some lh) }).level_pool_.storage lh).isSome := by
    show (Function.update s.level_pool_.storage lh (some ⟨p, Side.BUY, u32add 0 q, 1, oh, lh, lh⟩) lh).isSome
    rw [Function.update_same]
    rfl
  have hlive1 : ∀ k, ((setLevel { s with order_pool_ := ⟨Function.update s.order_pool_.storage oh (some ⟨id, p, q, Side.BUY, oh, oh⟩), s.order_pool_.freeArr, s.order_pool_.freeCount - 1⟩, level_pool_ := ⟨Function.update s.level_pool_.storage lh (some ⟨p, Side.BUY, u32add 0 q, 1, oh, lh, lh⟩), s.level_pool_.freeArr, s.level_pool_.freeCount - 1⟩, order_map_ := Function.update s.order_map_ (id % MAX_ORDERS) (some oh), price_level_map_ := Function.update s.price_level_map_ (priceToIndex p) (some lh) } lh (fun l => { l with prev := cur, next := (derefLevel { s with order_pool_ := ⟨Function.update s.order_pool_.storage oh (some ⟨id, p, q, Side.BUY, oh, oh⟩), s.order_pool_.freeArr, s.order_pool_.freeCount - 1⟩, level_pool_ := ⟨Function.update s.level_pool_.storage lh (some ⟨p, Side.BUY, u32add 0 q, 1, oh, lh, lh⟩), s.level_pool_.freeArr, s.level_pool_.freeCount - 1⟩, order_map_ := Function.update s.order_map_ (id % MAX_ORDERS) (some oh), price_level_map_ := Function.update s.price_level_map_ (priceToIndex p) (some lh) } cur).next })).level_pool_.storage k).isSome =
      (({ s with order_pool_ := ⟨Function.update s.order_pool_.storage oh (some ⟨id, p, q, Side.BUY, oh, oh⟩), s.order_pool_.freeArr, s.order_pool_.freeCount - 1⟩, level_pool_ := ⟨Function.update s.level_pool_.storage lh (some ⟨p, Side.BUY, u32add 0 q, 1, oh, lh, lh⟩), s.level_pool_.freeArr, s.level_pool_.freeCount - 1⟩, order_map_ := Function.update s.order_map_ (id % MAX_ORDERS) (some oh), price_level_map_ := Function.update s.price_level_map_ (priceToIndex p) (some lh) }).level_pool_.storage k).isSome :=
    setLevel_storage_isSome ({ s with order_pool_ := ⟨Function.update s.order_pool_.storage oh (some ⟨id, p, q, Side.BUY, oh, oh⟩), s.order_pool_.freeArr, s.order_pool_.freeCount - 1⟩, level_pool_ := ⟨Function.update s.level_pool_.storage lh (some ⟨p, Side.BUY, u32add 0 q, 1, oh, lh, lh⟩), s.level_pool_.freeArr, s.level_pool_.freeCount - 1⟩, order_map_ := Function.update s.order_map_ (id % MAX_ORDERS) (some oh), price_level_map_ := Function.update s.price_level_map_ (priceToIndex p) (some lh) }) lh _ hT0lhIsSome
  have hNXTliveP1 : ((setLevel { s with order_pool_ := ⟨Function.update s.order_pool_.storage oh (some ⟨id, p, q, Side.BUY, oh, oh⟩), s.order_pool_.freeArr, s.order_pool_.freeCount - 1⟩, level_pool_ := ⟨Function.update s.level_pool_.storage lh (some ⟨p, Side.BUY, u32add 0 q, 1, oh, lh, lh⟩), s.level_pool_.freeArr, s.level_pool_.freeCount - 1⟩, order_map_ := Function.update s.order_map_ (id % MAX_ORDERS) (some oh), price_level_map_ := Function.update s.price_level_map_ (priceToIndex p) (some lh) } lh (fun l => { l with prev := cur, next := (derefLevel { s with order_pool_ := ⟨Function.update s.order_pool_.storage oh (some ⟨id, p, q, Side.BUY, oh, oh⟩), s.order_pool_.freeArr, s.order_pool_.freeCount - 1⟩, level_pool_ := ⟨Function.update s.level_pool_.storage lh (some ⟨p, Side.BUY, u32add 0 q, 1, oh, lh, lh⟩), s.level_pool_.freeArr, s.level_pool_.freeCount - 1⟩, order_map_ := Function.update s.order_map_ (id % MAX_ORDERS) (some oh), price_level_map_ := Function.update s.price_level_map_ (priceToIndex p) (some lh) } cur).next })).level_pool_.storage ((derefLevel { s with order_pool_ := ⟨Function.update s.order_pool_.storage oh (some ⟨id, p, q, Side.BUY, oh, oh⟩), s.order_pool_.freeArr, s.order_pool_.freeCount - 1⟩, level_pool_ := ⟨Function.update s.level_pool_.storage lh (some ⟨p, Side.BUY, u32add 0 q, 1, oh, lh, lh⟩), s.level_pool_.freeArr, s.level_pool_.freeCount - 1⟩, order_map_ := Function.update s.order_map_ (id % MAX_ORDERS) (some oh), price_level_map_ := Function.update s.price_level_map_ (priceToIndex p) (some lh) } cur).next)).isSome := by
    rw [hlive1]
    exact (hS1Llive _).mpr (Or.inl hNXTlive)
  have hlive2 : ∀ k, ((setLevel (setLevel { s with order_pool_ := ⟨Function.update s.order_pool_.storage oh (some ⟨id, p, q, Side.BUY, oh, oh⟩), s.order_pool_.freeArr, s.order_pool_.freeCount - 1⟩, level_pool_ := ⟨Function.update s.level_pool_.storage lh (some ⟨p, Side.BUY, u32add 0 q, 1, oh, lh, lh⟩), s.level_pool_.freeArr, s.level_pool_.freeCount - 1⟩, order_map_ := Function.update s.order_map_ (id % MAX_ORDERS) (some oh), price_level_map_ := Function.update s.price_level_map_ (priceToIndex p) (some lh) } lh (fun l => { l with prev := cur, next := (derefLevel { s with order_pool_ := ⟨Function.update s.order_pool_.storage oh (some ⟨id, p, q, Side.BUY, oh, oh⟩), s.order_pool_.freeArr, s.order_pool_.freeCount - 1⟩, level_pool_ := ⟨Function.update s.level_pool_.storage lh (some ⟨p, Side.BUY, u32add 0 q, 1, oh, lh, lh⟩), s.level_pool_.freeArr, s.level_pool_.freeCount - 1⟩, order_map_ := Function.update s.order_map_ (id % MAX_ORDERS) (some oh), price_level_map_ := Function.update s.price_level_map_ (priceToIndex p) (some lh) } cur).next })) (derefLevel { s with order_pool_ := ⟨Function.update s.order_pool_.storage oh (some ⟨id, p, q, Side.BUY, oh, oh⟩), s.order_pool_.freeArr, s.order_pool_.freeCount - 1⟩, level_pool_ := ⟨Function.update s.level_pool_.storage lh (some ⟨p, Side.BUY, u32add 0 q, 1, oh, lh, lh⟩), s.level_pool_.freeArr, s.level_pool_.freeCount - 1⟩, order_map_ := Function.update s.order_map_ (id % MAX_ORDERS) (some oh), price_level_map_ := Function.update s.price_level_map_ (priceToIndex p) (some lh) } cur).next (fun l => { l with prev := lh })).level_pool_.storage k).isSome =
      ((setLevel { s with order_pool_ := ⟨Function.update s.order_pool_.storage oh (some ⟨id, p, q, Side.BUY, oh, oh⟩), s.order_pool_.freeArr, s.order_pool_.freeCount - 1⟩, level_pool_ := ⟨Function.update s.level_pool_.storage lh (some ⟨p, Side.BUY, u32add 0 q, 1, oh, lh, lh⟩), s.level_pool_.freeArr, s.level_pool_.freeCount - 1⟩, order_map_ := Function.update s.order_map_ (id % MAX_ORDERS) (some oh), price_level_map_ := Function.update s.price_level_map_ (priceToIndex p) (some lh) } lh (fun l => { l with prev := cur, next := (derefLevel { s with order_pool_ := ⟨Function.update s.order_pool_.storage oh (some ⟨id, p, q, Side.BUY, oh, oh⟩), s.order_pool_.freeArr, s.order_pool_.freeCount - 1⟩, level_pool_ := ⟨Function.update s.level_pool_.storage lh (some ⟨p, Side.BUY, u32add 0 q, 1, oh, lh, lh⟩), s.level_pool_.freeArr, s.level_pool_.freeCount - 1⟩, order_map_ := Function.update s.order_map_ (id % MAX_ORDERS) (some oh), price_level_map_ := Function.update s.price_level_map_ (priceToIndex p) (some lh) } cur).next })).level_pool_.storage k).isSome :=
    setLevel_storage_isSome (setLevel { s with order_pool_ := ⟨Function.update s.order_pool_.storage oh (some ⟨id, p, q, Side.BUY, oh, oh⟩), s.order_pool_.freeArr, s.order_pool_.freeCount - 1⟩, level_pool_ := ⟨Function.update s.level_pool_.storage lh (some ⟨p, Side.BUY, u32add 0 q, 1, oh, lh, lh⟩), s.level_pool_.freeArr, s.level_pool_.freeCount - 1⟩, order_map_ := Function.update s.order_map_ (id % MAX_ORDERS) (some oh), price_level_map_ := Function.update s.price_level_map_ (priceToIndex p) (some lh) } lh (fun l => { l with prev := cur, next := (derefLevel { s with order_pool_ := ⟨Function.update s.order_pool_.storage oh (some ⟨id, p, q, Side.BUY, oh, oh⟩), s.order_pool_.freeArr, s.order_pool_.freeCount - 1⟩, level_pool_ := ⟨Function.update s.level_pool_.storage lh (some ⟨p, Side.BUY, u32add 0 q, 1, oh, lh, lh⟩), s.level_pool_.freeArr, s.level_pool_.freeCount - 1⟩, order_map_ := Function.update s.order_map_ (id % MAX_ORDERS) (some oh), price_level_map_ := Function.update s.price_level_map_ (priceToIndex p) (some lh) } cur).next })) ((derefLevel { s with order_pool_ := ⟨Function.update s.order_pool_.storage oh (some ⟨id, p, q, Side.BUY, oh, oh⟩), s.order_pool_.freeArr, s.order_pool_.freeCount - 1⟩, level_pool_ := ⟨Function.update s.level_pool_.storage lh (some ⟨p, Side.BUY, u32add 0 q, 1, oh, lh, lh⟩), s.level_pool_.freeArr, s.level_pool_.freeCount - 1⟩, order_map_ := Function.update s.order_map_ (id % MAX_ORDERS) (some oh), price_level_map_ := Function.update s.price_level_map_ (priceToIndex p) (some lh) } cur).next) _ hNXTliveP1
  have hcurliveP2 : ((setLevel (setLevel { s with order_pool_ := ⟨Function.update s.order_pool_.storage oh (some ⟨id, p, q, Side.BUY, oh, oh⟩), s.order_pool_.freeArr, s.order_pool_.freeCount - 1⟩, level_pool_ := ⟨Function.update s.level_pool_.storage lh (some ⟨p, Side.BUY, u32add 0 q, 1, oh, lh, lh⟩), s.level_pool_.freeArr, s.level_pool_.freeCount - 1⟩, order_map_ := Function.update s.order_map_ (id % MAX_ORDERS) (some oh), price_level_map_ := Function.update s.price_level_map_ (priceToIndex p) (some lh) } lh (fun l => { l with prev := cur, next := (derefLevel { s with order_pool_ := ⟨Function.update s.order_pool_.storage oh (some ⟨id, p, q, Side.BUY, oh, oh⟩), s.order_pool_.freeArr, s.order_pool_.freeCount - 1⟩, level_pool_ := ⟨Function.update s.level_pool_.storage lh (some ⟨p, Side.BUY, u32add 0 q, 1, oh, lh, lh⟩), s.level_pool_.freeArr, s.level_pool_.freeCount - 1⟩, order_map_ := Function.update s.order_map_ (id % MAX_ORDERS) (some oh), price_level_map_ := Function.update s.price_level_map_ (priceToIndex p) (some lh) } cur).next })) (derefLevel { s with order_pool_ := ⟨Function.update s.order_pool_.storage oh (some ⟨id, p, q, Side.BUY, oh, oh⟩), s.order_pool_.freeArr, s.order_pool_.freeCount - 1⟩, level_pool_ := ⟨Function.update s.level_pool_.storage lh (some ⟨p, Side.BUY, u32add 0 q, 1, oh, lh, lh⟩), s.level_pool_.freeArr, s.level_pool_.freeCount - 1⟩, order_map_ := Function.update s.order_map_ (id % MAX_ORDERS) (some oh), price_level_map_ := Function.update s.price_level_map_ (priceToIndex p) (some lh) } cur).next (fun l => { l with prev := lh })).level_pool_.storage cur).isSome := by
    rw [hlive2, hlive1]
    exact (hS1Llive _).mpr (Or.inl hcurlive)
  have hlive3 : ∀ k, ((setLevel (setLevel (setLevel { s with order_pool_ := ⟨Function.update s.order_pool_.storage oh (some ⟨id, p, q, Side.BUY, oh, oh⟩), s.order_pool_.freeArr, s.order_pool_.freeCount - 1⟩, level_pool_ := ⟨Function.update s.level_pool_.storage lh (some ⟨p, Side.BUY, u32add 0 q, 1, oh, lh, lh⟩), s.level_pool_.freeArr, s.level_pool_.freeCount - 1⟩, order_map_ := Function.update s.order_map_ (id % MAX_ORDERS) (some oh), price_level_map_ := Function.update s.price_level_map_ (priceToIndex p) (some lh) } lh (fun l => { l with prev := cur, next := (derefLevel { s with order_pool_ := ⟨Function.update s.order_pool_.storage oh (some ⟨id, p, q, Side.BUY, oh, oh⟩), s.order_pool_.freeArr, s.order_pool_.freeCount - 1⟩, level_pool_ := ⟨Function.update s.level_pool_.storage lh (some ⟨p, Side.BUY, u32add 0 q, 1, oh, lh, lh⟩), s.level_pool_.freeArr, s.level_pool_.freeCount - 1⟩, order_map_ := Function.update s.order_map_ (id % MAX_ORDERS) (some oh), price_level_map_ := Function.update s.price_level_map_ (priceToIndex p) (some lh) } cur).next })) (derefLevel { s with order_pool_ := ⟨Function.update s.order_pool_.storage oh (some ⟨id, p, q, Side.BUY, oh, oh⟩), s.order_pool_.freeArr, s.order_pool_.freeCount - 1⟩, level_pool_ := ⟨Function.update s.level_pool_.storage lh (some ⟨p, Side.BUY, u32add 0 q, 1, oh, lh, lh⟩), s.level_pool_.freeArr, s.level_pool_.freeCount - 1⟩, order_map_ := Function.update s.order_map_ (id % MAX_ORDERS) (some oh), price_level_map_ := Function.update s.price_level_map_ (priceToIndex p) (some lh) } cur).next (fun l => { l with prev := lh })) cur (fun l => { l with next := lh })).level_pool_.storage k).isSome =
      ((setLevel (setLevel { s with order_pool_ := ⟨Function.update s.order_pool_.storage oh (some ⟨id, p, q, Side.BUY, oh, oh⟩), s.order_pool_.freeArr, s.order_pool_.freeCount - 1⟩, level_pool_ := ⟨Function.update s.level_pool_.storage lh (some ⟨p, Side.BUY, u32add 0 q, 1, oh, lh, lh⟩), s.level_pool_.freeArr, s.level_pool_.freeCount - 1⟩, order_map_ := Function.update s.order_map_ (id % MAX_ORDERS) (some oh), price_level_map_ := Function.update s.price_level_map_ (priceToIndex p) (some lh) } lh (fun l => { l with prev := cur, next := (derefLevel { s with order_pool_ := ⟨Function.update s.order_pool_.storage oh (some ⟨id, p, q, Side.BUY, oh, oh⟩), s.order_pool_.freeArr, s.order_pool_.freeCount - 1⟩, level_pool_ := ⟨Function.update s.level_pool_.storage lh (some ⟨p, Side.BUY, u32add 0 q, 1, oh, lh, lh⟩), s.level_pool_.freeArr, s.level_pool_.freeCount - 1⟩, order_map_ := Function.update s.order_map_ (id % MAX_ORDERS) (some oh), price_level_map_ := Function.update s.price_level_map_ (priceToIndex p) (some lh) } cur).next })) (derefLevel { s with order_pool_ := ⟨Function.update s.order_pool_.storage oh (some ⟨id, p, q, Side.BUY, oh, oh⟩), s.order_pool_.freeArr, s.order_pool_.freeCount - 1⟩, level_pool_ := ⟨Function.update s.level_pool_.storage lh (some ⟨p, Side.BUY, u32add 0 q, 1, oh, lh, lh⟩), s.level_pool_.freeArr, s.level_pool_.freeCount - 1⟩, order_map_ := Function.update s.order_map_ (id % MAX_ORDERS) (some oh), price_level_map_ := Function.update s.price_level_map_ (priceToIndex p) (some lh) } cur).next (fun l => { l with prev := lh })).level_pool_.storage k).isSome :=
    setLevel_storage_isSome (setLevel (setLevel { s with order_pool_ := ⟨Function.update s.order_pool_.storage oh (some ⟨id, p, q, Side.BUY, oh, oh⟩), s.order_pool_.freeArr, s.order_pool_.freeCount - 1⟩, level_pool_ := ⟨Function.update s.level_pool_.storage lh (some ⟨p, Side.BUY, u32add 0 q, 1, oh, lh, lh⟩), s.level_pool_.freeArr, s.level_pool_.freeCount - 1⟩, order_map_ := Function.update s.order_map_ (id % MAX_ORDERS) (some oh), price_level_map_ := Function.update s.price_level_map_ (priceToIndex p) (some lh) } lh (fun l => { l with prev := cur, next := (derefLevel { s with order_pool_ := ⟨Function.update s.order_pool_.storage oh (some ⟨id, p, q, Side.BUY, oh, oh⟩), s.order_pool_.freeArr, s.order_pool_.freeCount - 1⟩, level_pool_ := ⟨Function.update s.level_pool_.storage lh (some ⟨p, Side.BUY, u32add 0 q, 1, oh, lh, lh⟩), s.level_pool_.freeArr, s.level_pool_.freeCount - 1⟩, order_map_ := Function.update s.order_map_ (id % MAX_ORDERS) (some oh), price_level_map_ := Function.update s.price_level_map_ (priceToIndex p) (some lh) } cur).next })) (derefLevel { s with order_pool_ := ⟨Function.update s.order_pool_.storage oh (some ⟨id, p, q, Side.BUY, oh, oh⟩), s.order_pool_.freeArr, s.order_pool_.freeCount - 1⟩, level_pool_ := ⟨Function.update s.level_pool_.storage lh (some ⟨p, Side.BUY, u32add 0 q, 1, oh, lh, lh⟩), s.level_pool_.freeArr, s.level_pool_.freeCount - 1⟩, order_map_ := Function.update s.order_map_ (id % MAX_ORDERS) (some oh), price_level_map_ := Function.update s.price_level_map_ (priceToIndex p) (some lh) } cur).next (fun l => { l with prev := lh })) cur _ hcurliveP2
  have hliveLF : ∀ k, ((setLevel (setLevel (setLevel { s with order_pool_ := ⟨Function.update s.order_pool_.storage oh (some ⟨id, p, q, Side.BUY, oh, oh⟩), s.order_pool_.freeArr, s.order_pool_.freeCount - 1⟩, level_pool_ := ⟨Function.update s.level_pool_.storage lh (some ⟨p, Side.BUY, u32add 0 q, 1, oh, lh, lh⟩), s.level_pool_.freeArr, s.level_pool_.freeCount - 1⟩, order_map_ := Function.update s.order_map_ (id % MAX_ORDERS) (some oh), price_level_map_ := Function.update s.price_level_map_ (priceToIndex p) (some lh) } lh (fun l => { l with prev := cur, next := (derefLevel { s with order_pool_ := ⟨Function.update s.order_pool_.storage oh (some ⟨id, p, q, Side.BUY, oh, oh⟩), s.order_pool_.freeArr, s.order_pool_.freeCount - 1⟩, level_pool_ := ⟨Function.update s.level_pool_.storage lh (some ⟨p, Side.BUY, u32add 0 q, 1, oh, lh, lh⟩), s.level_pool_.freeArr, s.level_pool_.freeCount - 1⟩, order_map_ := Function.update s.order_map_ (id % MAX_ORDERS) (some oh), price_level_map_ := Function.update s.price_level_map_ (priceToIndex p) (some lh) } cur).next })) (derefLevel { s with order_pool_ := ⟨Function.update s.order_pool_.storage oh (some ⟨id, p, q, Side.BUY, oh, oh⟩), s.order_pool_.freeArr, s.order_pool_.freeCount - 1⟩, level_pool_ := ⟨Function.update s.level_pool_.storage lh (some ⟨p, Side.BUY, u32add 0 q, 1, oh, lh, lh⟩), s.level_pool_.freeArr, s.level_pool_.freeCount - 1⟩, order_map_ := Function.update s.order_map_ (id % MAX_ORDERS) (some oh), price_level_map_ := Function.update s.price_level_map_ (priceToIndex p) (some lh) } cur).next (fun l => { l with prev := lh })) cur (fun l => { l with next := lh })).level_pool_.storage k).isSome =
      (({ s with order_pool_ := ⟨Function.update s.order_pool_.storage oh (some ⟨id, p, q, Side.BUY, oh, oh⟩), s.order_pool_.freeArr, s.order_pool_.freeCount - 1⟩, level_pool_ := ⟨Function.update s.level_pool_.storage lh (some ⟨p, Side.BUY, u32add 0 q, 1, oh, lh, lh⟩), s.level_pool_.freeArr, s.level_pool_.freeCount - 1⟩, order_map_ := Function.update s.order_map_ (id % MAX_ORDERS) (some oh), price_level_map_ := Function.update s.price_level_map_ (priceToIndex p) (some lh) }).level_pool_.storage k).isSome := by
    intro k
    rw [hlive3 k, hlive2 k, hlive1 k]
  -- the side cycle with the fresh level inserted after cur
  have hlhnotmem : lh ∉ G.bidsL := by
    intro hm
    exact hnotlh lh ((hwf.levels.lvlLive lh).mpr (List.mem_append.mpr (Or.inl hm))) rfl
  have hins := cycle_insertAfter_update
    (fun k => (derefLevel s k).next) (fun k => (derefLevel s k).prev)
    (fun k => (derefLevel (setLevel (setLevel (setLevel { s with order_pool_ := ⟨Function.update s.order_pool_.storage oh (some ⟨id, p, q, Side.BUY, oh, oh⟩), s.order_pool_.freeArr, s.order_pool_.freeCount - 1⟩, level_pool_ := ⟨Function.update s.level_pool_.storage lh (some ⟨p, Side.BUY, u32add 0 q, 1, oh, lh, lh⟩), s.level_pool_.freeArr, s.level_pool_.freeCount - 1⟩, order_map_ := Function.update s.order_map_ (id % MAX_ORDERS) (some oh), price_level_map_ := Function.update s.price_level_map_ (priceToIndex p) (some lh) } lh (fun l => { l with prev := cur, next := (derefLevel { s with order_pool_ := ⟨Function.update s.order_pool_.storage oh (some ⟨id, p, q, Side.BUY, oh, oh⟩), s.order_pool_.freeArr, s.order_pool_.freeCount - 1⟩, level_pool_ := ⟨Function.update s.level_pool_.storage lh (some ⟨p, Side.BUY, u32add 0 q, 1, oh, lh, lh⟩), s.level_pool_.freeArr, s.level_pool_.freeCount - 1⟩, order_map_ := Function.update s.order_map_ (id % MAX_ORDERS) (some oh), price_level_map_ := Function.update s.price_level_map_ (priceToIndex p) (some lh) } cur).next })) (derefLevel { s with order_pool_ := ⟨Function.update s.order_pool_.storage oh (some ⟨id, p, q, Side.BUY, oh, oh⟩), s.order_pool_.freeArr, s.order_pool_.freeCount - 1⟩, level_pool_ := ⟨Function.update s.level_pool_.storage lh (some ⟨p, Side.BUY, u32add 0 q, 1, oh, lh, lh⟩), s.level_pool_.freeArr, s.level_pool_.freeCount - 1⟩, order_map_ := Function.update s.order_map_ (id % MAX_ORDERS) (some oh), price_level_map_ := Function.update s.price_level_map_ (priceToIndex p) (some lh) } cur).next (fun l => { l with prev := lh })) cur (fun l => { l with next := lh })) k).next) (fun k => (derefLevel (setLevel (setLevel (setLevel { s with order_pool_ := ⟨Function.update s.order_pool_.storage oh (some ⟨id, p, q, Side.BUY, oh, oh⟩), s.order_pool_.freeArr, s.order_pool_.freeCount - 1⟩, level_pool_ := ⟨Function.update s.level_pool_.storage lh (some ⟨p, Side.BUY, u32add 0 q, 1, oh, lh, lh⟩), s.level_pool_.freeArr, s.level_pool_.freeCount - 1⟩, order_map_ := Function.update s.order_map_ (id % MAX_ORDERS) (some oh), price_level_map_ := Function.update s.price_level_map_ (priceToIndex p) (some lh) } lh (fun l => { l with prev := cur, next := (derefLevel { s with order_pool_ := ⟨Function.update s.order_pool_.storage oh (some ⟨id, p, q, Side.BUY, oh, oh⟩), s.order_pool_.freeArr, s.order_pool_.freeCount - 1⟩, level_pool_ := ⟨Function.update s.level_pool_.storage lh (some ⟨p, Side.BUY, u32add 0 q, 1, oh, lh, lh⟩), s.level_pool_.freeArr, s.level_pool_.freeCount - 1⟩, order_map_ := Function.update s.order_map_ (id % MAX_ORDERS) (some oh), price_level_map_ := Function.update s.price_level_map_ (priceToIndex p) (some lh) } cur).next })) (derefLevel { s with order_pool_ := ⟨Function.update s.order_pool_.storage oh (some ⟨id, p, q, Side.BUY, oh, oh⟩), s.order_pool_.freeArr, s.order_pool_.freeCount - 1⟩, level_pool_ := ⟨Function.update s.level_pool_.storage lh (some ⟨p, Side.BUY, u32add 0 q, 1, oh, lh, lh⟩), s.level_pool_.freeArr, s.level_pool_.freeCount - 1⟩, order_map_ := Function.update s.order_map_ (id % MAX_ORDERS) (some oh), price_level_map_ := Function.update s.price_level_map_ (priceToIndex p) (some lh) } cur).next (fun l => { l with prev := lh })) cur (fun l => { l with next := lh })) k).prev)
    hwf.levels.bidsCyc hndB hcur hlhnotmem
    (by show (derefLevel (setLevel (setLevel (setLevel { s with order_pool_ := ⟨Function.update s.order_pool_.storage oh (some ⟨id, p, q, Side.BUY, oh, oh⟩), s.order_pool_.freeArr, s.order_pool_.freeCount - 1⟩, level_pool_ := ⟨Function.update s.level_pool_.storage lh (some ⟨p, Side.BUY, u32add 0 q, 1, oh, lh, lh⟩), s.level_pool_.freeArr, s.level_pool_.freeCount - 1⟩, order_map_ := Function.update s.order_map_ (id % MAX_ORDERS) (some oh), price_level_map_ := Function.update s.price_level_map_ (priceToIndex p) (some lh) } lh (fun l => { l with prev := cur, next := (derefLevel { s with order_pool_ := ⟨Function.update s.order_pool_.storage oh (some ⟨id, p, q, Side.BUY, oh, oh⟩), s.order_pool_.freeArr, s.order_pool_.freeCount - 1⟩, level_pool_ := ⟨Function.update s.level_pool_.storage lh (some ⟨p, Side.BUY, u32add 0 q, 1, oh, lh, lh⟩), s.level_pool_.freeArr, s.level_pool_.freeCount - 1⟩, order_map_ := Function.update s.order_map_ (id % MAX_ORDERS) (some oh), price_level_map_ := Function.update s.price_level_map_ (priceToIndex p) (some lh) } cur).next })) (derefLevel { s with order_pool_ := ⟨Function.update s.order_pool_.storage oh (some ⟨id, p, q, Side.BUY, oh, oh⟩), s.order_pool_.freeArr, s.order_pool_.freeCount - 1⟩, level_pool_ := ⟨Function.update s.level_pool_.storage lh (some ⟨p, Side.BUY, u32add 0 q, 1, oh, lh, lh⟩), s.level_pool_.freeArr, s.level_pool_.freeCount - 1⟩, order_map_ := Function.update s.order_map_ (id % MAX_ORDERS) (some oh), price_level_map_ := Function.update s.price_level_map_ (priceToIndex p) (some lh) } cur).next (fun l => { l with prev := lh })) cur (fun l => { l with next := lh })) cur).next = lh
        exact hnCUR)
    (by show (derefLevel (setLevel (setLevel (setLevel { s with order_pool_ := ⟨Function.update s.order_pool_.storage oh (some ⟨id, p, q, Side.BUY, oh, oh⟩), s.order_pool_.freeArr, s.order_pool_.freeCount - 1⟩, level_pool_ := ⟨Function.update s.level_pool_.storage lh (some ⟨p, Side.BUY, u32add 0 q, 1, oh, lh, lh⟩), s.level_pool_.freeArr, s.level_pool_.freeCount - 1⟩, order_map_ := Function.update s.order_map_ (id % MAX_ORDERS) (some oh), price_level_map_ := Function.update s.price_level_map_ (priceToIndex p) (some lh) } lh (fun l => { l with prev := cur, next := (derefLevel { s with order_pool_ := ⟨Function.update s.order_pool_.storage oh (some ⟨id, p, q, Side.BUY, oh, oh⟩), s.order_pool_.freeArr, s.order_pool_.freeCount - 1⟩, level_pool_ := ⟨Function.update s.level_pool_.storage lh (some ⟨p, Side.BUY, u32add 0 q, 1, oh, lh, lh⟩), s.level_pool_.freeArr, s.level_pool_.freeCount - 1⟩, order_map_ := Function.update s.order_map_ (id % MAX_ORDERS) (some oh), price_level_map_ := Function.update s.price_level_map_ (priceToIndex p) (some lh) } cur).next })) (derefLevel { s with order_pool_ := ⟨Function.update s.order_pool_.storage oh (some ⟨id, p, q, Side.BUY, oh, oh⟩), s.order_pool_.freeArr, s.order_pool_.freeCount - 1⟩, level_pool_ := ⟨Function.update s.level_pool_.storage lh (some ⟨p, Side.BUY, u32add 0 q, 1, oh, lh, lh⟩), s.level_pool_.freeArr, s.level_pool_.freeCount - 1⟩, order_map_ := Function.update s.order_map_ (id % MAX_ORDERS) (some oh), price_level_map_ := Function.update s.price_level_map_ (priceToIndex p) (some lh) } cur).next (fun l => { l with prev := lh })) cur (fun l => { l with next := lh })) lh).prev = cur
        rw [hFlh])
    (by show (derefLevel (setLevel (setLevel (setLevel { s with order_pool_ := ⟨Function.update s.order_pool_.storage oh (some ⟨id, p, q, Side.BUY, oh, oh⟩), s.order_pool_.freeArr, s.order_pool_.freeCount - 1⟩, level_pool_ := ⟨Function.update s.level_pool_.storage lh (some ⟨p, Side.BUY, u32add 0 q, 1, oh, lh, lh⟩), s.level_pool_.freeArr, s.level_pool_.freeCount - 1⟩, order_map_ := Function.update s.order_map_ (id % MAX_ORDERS) (some oh), price_level_map_ := Function.update s.price_level_map_ (priceToIndex p) (some lh) } lh (fun l => { l with prev := cur, next := (derefLevel { s with order_pool_ := ⟨Function.update s.order_pool_.storage oh (some ⟨id, p, q, Side.BUY, oh, oh⟩), s.order_pool_.freeArr, s.order_pool_.freeCount - 1⟩, level_pool_ := ⟨Function.update s.level_pool_.storage lh (some ⟨p, Side.BUY, u32add 0 q, 1, oh, lh, lh⟩), s.level_pool_.freeArr, s.level_pool_.freeCount - 1⟩, order_map_ := Function.update s.order_map_ (id % MAX_ORDERS) (some oh), price_level_map_ := Function.update s.price_level_map_ (priceToIndex p) (some lh) } cur).next })) (derefLevel { s with order_pool_ := ⟨Function.update s.order_pool_.storage oh (some ⟨id, p, q, Side.BUY, oh, oh⟩), s.order_pool_.freeArr, s.order_pool_.freeCount - 1⟩, level_pool_ := ⟨Function.update s.level_pool_.storage lh (some ⟨p, Side.BUY, u32add 0 q, 1, oh, lh, lh⟩), s.level_pool_.freeArr, s.level_pool_.freeCount - 1⟩, order_map_ := Function.update s.order_map_ (id % MAX_ORDERS) (some oh), price_level_map_ := Function.update s.price_level_map_ (priceToIndex p) (some lh) } cur).next (fun l => { l with prev := lh })) cur (fun l => { l with next := lh })) lh).next = (derefLevel s cur).next
        rw [hFlh]
        exact hNXTeq)
    (by show (derefLevel (setLevel (setLevel (setLevel { s with order_pool_ := ⟨Function.update s.order_pool_.storage oh (some ⟨id, p, q, Side.BUY, oh, oh⟩), s.order_pool_.freeArr, s.order_pool_.freeCount - 1⟩, level_pool_ := ⟨Function.update s.level_pool_.storage lh (some ⟨p, Side.BUY, u32add 0 q, 1, oh, lh, lh⟩), s.level_pool_.freeArr, s.level_pool_.freeCount - 1⟩, order_map_ := Function.update s.order_map_ (id % MAX_ORDERS) (some oh), price_level_map_ := Function.update s.price_level_map_ (priceToIndex p) (some lh) } lh (fun l => { l with prev := cur, next := (derefLevel { s with order_pool_ := ⟨Function.update s.order_pool_.storage oh (some ⟨id, p, q, Side.BUY, oh, oh⟩), s.order_pool_.freeArr, s.order_pool_.freeCount - 1⟩, level_pool_ := ⟨Function.update s.level_pool_.storage lh (some ⟨p, Side.BUY, u32add 0 q, 1, oh, lh, lh⟩), s.level_pool_.freeArr, s.level_pool_.freeCount - 1⟩, order_map_ := Function.update s.order_map_ (id % MAX_ORDERS) (some oh), price_level_map_ := Function.update s.price_level_map_ (priceToIndex p) (some lh) } cur).next })) (derefLevel { s with order_pool_ := ⟨Function.update s.order_pool_.storage oh (some ⟨id, p, q, Side.BUY, oh, oh⟩), s.order_pool_.freeArr, s.order_pool_.freeCount - 1⟩, level_pool_ := ⟨Function.update s.level_pool_.storage lh (some ⟨p, Side.BUY, u32add 0 q, 1, oh, lh, lh⟩), s.level_pool_.freeArr, s.level_pool_.freeCount - 1⟩, order_map_ := Function.update s.order_map_ (id % MAX_ORDERS) (some oh), price_level_map_ := Function.update s.price_level_map_ (priceToIndex p) (some lh) } cur).next (fun l => { l with prev := lh })) cur (fun l => { l with next := lh })) ((derefLevel s cur).next)).prev = lh
        rw [← hNXTeq]
        exact hpNXT)
    (fun k hk hkc => by
      show (derefLevel (setLevel (setLevel (setLevel { s with order_pool_ := ⟨Function.update s.order_pool_.storage oh (some ⟨id, p, q, Side.BUY, oh, oh⟩), s.order_pool_.freeArr, s.order_pool_.freeCount - 1⟩, level_pool_ := ⟨Function.update s.level_pool_.storage lh (some ⟨p, Side.BUY, u32add 0 q, 1, oh, lh, lh⟩), s.level_pool_.freeArr, s.level_pool_.freeCount - 1⟩, order_map_ := Function.update s.order_map_ (id % MAX_ORDERS) (some oh), price_level_map_ := Function.update s.price_level_map_ (priceToIndex p) (some lh) } lh (fun l => { l with prev := cur, next := (derefLevel { s with order_pool_ := ⟨Function.update s.order_pool_.storage oh (some ⟨id, p, q, Side.BUY, oh, oh⟩), s.order_pool_.freeArr, s.order_pool_.freeCount - 1⟩, level_pool_ := ⟨Function.update s.level_pool_.storage lh (some ⟨p, Side.BUY, u32add 0 q, 1, oh, lh, lh⟩), s.level_pool_.freeArr, s.level_pool_.freeCount - 1⟩, order_map_ := Function.update s.order_map_ (id % MAX_ORDERS) (some oh), price_level_map_ := Function.update s.price_level_map_ (priceToIndex p) (some lh) } cur).next })) (derefLevel { s with order_pool_ := ⟨Function.update s.order_pool_.storage oh (some ⟨id, p, q, Side.BUY, oh, oh⟩), s.order_pool_.freeArr, s.order_pool_.freeCount - 1⟩, level_pool_ := ⟨Function.update s.level_pool_.storage lh (some ⟨p, Side.BUY, u32add 0 q, 1, oh, lh, lh⟩), s.level_pool_.freeArr, s.level_pool_.freeCount - 1⟩, order_map_ := Function.update s.order_map_ (id % MAX_ORDERS) (some oh), price_level_map_ := Function.update s.price_level_map_ (priceToIndex p) (some lh) } cur).next (fun l => { l with prev := lh })) cur (fun l => { l with next := lh })) k).next = (derefLevel s k).next
      exact hrnF k (fun he => hlhnotmem (he ▸ hk)) hkc)
    (fun k hk hkn => by
      show (derefLevel (setLevel (setLevel (setLevel { s with order_pool_ := ⟨Function.update s.order_pool_.storage oh (some ⟨id, p, q, Side.BUY, oh, oh⟩), s.order_pool_.freeArr, s.order_pool_.freeCount - 1⟩, level_pool_ := ⟨Function.update s.level_pool_.storage lh (some ⟨p, Side.BUY, u32add 0 q, 1, oh, lh, lh⟩), s.level_pool_.freeArr, s.level_pool_.freeCount - 1⟩, order_map_ := Function.update s.order_map_ (id % MAX_ORDERS) (some oh), price_level_map_ := Function.update s.price_level_map_ (priceToIndex p) (some lh) } lh (fun l => { l with prev := cur, next := (derefLevel { s with order_pool_ := ⟨Function.update s.order_pool_.storage oh (some ⟨id, p, q, Side.BUY, oh, oh⟩), s.order_pool_.freeArr, s.order_pool_.freeCount - 1⟩, level_pool_ := ⟨Function.update s.level_pool_.storage lh (some ⟨p, Side.BUY, u32add 0 q, 1, oh, lh, lh⟩), s.level_pool_.freeArr, s.level_pool_.freeCount - 1⟩, order_map_ := Function.update s.order_map_ (id % MAX_ORDERS) (some oh), price_level_map_ := Function.update s.price_level_map_ (priceToIndex p) (some lh) } cur).next })) (derefLevel { s with order_pool_ := ⟨Function.update s.order_pool_.storage oh (some ⟨id, p, q, Side.BUY, oh, oh⟩), s.order_pool_.freeArr, s.order_pool_.freeCount - 1⟩, level_pool_ := ⟨Function.update s.level_pool_.storage lh (some ⟨p, Side.BUY, u32add 0 q, 1, oh, lh, lh⟩), s.level_pool_.freeArr, s.level_pool_.freeCount - 1⟩, order_map_ := Function.update s.order_map_ (id % MAX_ORDERS) (some oh), price_level_map_ := Function.update s.price_level_map_ (priceToIndex p) (some lh) } cur).next (fun l => { l with prev := lh })) cur (fun l => { l with next := lh })) k).prev = (derefLevel s k).prev
      refine hrpF k (fun he => hlhnotmem (he ▸ hk)) (fun he => hkn ?_)
      show k = (derefLevel s cur).next
      rw [← hNXTeq]
      exact he)
  obtain ⟨A, B, hdec, hcycIns, hheadPres, hncmem⟩ := hins
  have hback : ∀ k, k ∈ A ++ cur :: lh :: B → k ≠ lh → k ∈ G.bidsL := by
    intro k hk2 hkl
    rw [hdec]
    have hk3 := hk2
    simp only [List.mem_append, List.mem_cons] at hk3 ⊢
    rcases hk3 with h | h | h | h
    · exact Or.inl h
    · exact Or.inr (Or.inl h)
    · exact absurd h hkl
    · exact Or.inr (Or.inr h)
  have hfarA : ∀ a ∈ G.asksL, a ≠ lh ∧ a ≠ cur ∧ a ≠ ((derefLevel { s with order_pool_ := ⟨Function.update s.order_pool_.storage oh (some ⟨id, p, q, Side.BUY, oh, oh⟩), s.order_pool_.freeArr, s.order_pool_.freeCount - 1⟩, level_pool_ := ⟨Function.update s.level_pool_.storage lh (some ⟨p, Side.BUY, u32add 0 q, 1, oh, lh, lh⟩), s.level_pool_.freeArr, s.level_pool_.freeCount - 1⟩, order_map_ := Function.update s.order_map_ (id % MAX_ORDERS) (some oh), price_level_map_ := Function.update s.price_level_map_ (priceToIndex p) (some lh) } cur).next) := by
    intro a ha
    have halive : (s.level_pool_.storage a).isSome :=
      (hwf.levels.lvlLive a).mpr (List.mem_append.mpr (Or.inr ha))
    have hdisj := (List.nodup_append.mp hwf.levels.lvlNodup).2.2
    refine ⟨hnotlh a halive, ?_, ?_⟩
    · intro he
      exact hdisj hcur (he ▸ ha)
    · intro he
      exact hdisj hNXTmem (he ▸ ha)
  have hperm : List.Perm (A ++ cur :: lh :: B) (lh :: (A ++ cur :: B)) := by
    have h1 : A ++ cur :: lh :: B = (A ++ [cur]) ++ lh :: B := by simp
    have h2 : lh :: (A ++ cur :: B) = lh :: ((A ++ [cur]) ++ B) := by simp
    rw [h1, h2]
    exact List.perm_middle
  refine ⟨⟨A ++ cur :: lh :: B, G.asksL, Function.update G.fifo lh [oh]⟩,
    ⟨?_, ?_, ?_, ?_, ?_, ?_, ?_, ?_, ?_, ?_, ?_⟩, ?_, ?_, ?_, ?_, ?_, ?_, ?_, ?_, ?_, ?_, ?_⟩
  · -- the bid cycle gains the fresh level after cur
    exact hcycIns
  · -- the untouched ask cycle
    refine isCycle_congr hwf.levels.asksCyc ?_
    intro a b ha hb hr
    obtain ⟨ha1, ha2, -⟩ := hfarA a ha
    obtain ⟨hb1, -, hb3⟩ := hfarA b hb
    exact ⟨by rw [hrnF a ha1 ha2]; exact hr.1, by rw [hrpF b hb1 hb3]; exact hr.2⟩
  · -- the flat level list stays duplicate-free
    show ((A ++ cur :: lh :: B) ++ G.asksL).Nodup
    have hperm2 := hperm.append_right G.asksL
    refine hperm2.nodup_iff.mpr ?_
    show ((lh :: (A ++ cur :: B)) ++ G.asksL).Nodup
    rw [List.cons_append]
    refine List.nodup_cons.mpr ⟨?_, ?_⟩
    · intro hmem
      rw [← hdec] at hmem
      exact hnotlh lh ((hwf.levels.lvlLive lh).mpr hmem) rfl
    · rw [← hdec]
      exact hwf.levels.lvlNodup
  · -- bid head preserved by the mid-list insertion
    show s.bids_ = _
    rw [hheadPres]
    exact hwf.levels.bidsHead
  · -- ask head unchanged
    show s.asks_ = _
    exact hwf.levels.asksHead
  · -- live levels are the new side lists
    intro k
    show ((setLevel (setLevel (setLevel { s with order_pool_ := ⟨Function.update s.order_pool_.storage oh (some ⟨id, p, q, Side.BUY, oh, oh⟩), s.order_pool_.freeArr, s.order_pool_.freeCount - 1⟩, level_pool_ := ⟨Function.update s.level_pool_.storage lh (some ⟨p, Side.BUY, u32add 0 q, 1, oh, lh, lh⟩), s.level_pool_.freeArr, s.level_pool_.freeCount - 1⟩, order_map_ := Function.update s.order_map_ (id % MAX_ORDERS) (some oh), price_level_map_ := Function.update s.price_level_map_ (priceToIndex p) (some lh) } lh (fun l => { l with prev := cur, next := (derefLevel { s with order_pool_ := ⟨Function.update s.order_pool_.storage oh (some ⟨id, p, q, Side.BUY, oh, oh⟩), s.order_pool_.freeArr, s.order_pool_.freeCount - 1⟩, level_pool_ := ⟨Function.update s.level_pool_.storage lh (some ⟨p, Side.BUY, u32add 0 q, 1, oh, lh, lh⟩), s.level_pool_.freeArr, s.level_pool_.freeCount - 1⟩, order_map_ := Function.update s.order_map_ (id % MAX_ORDERS) (some oh), price_level_map_ := Function.update s.price_level_map_ (priceToIndex p) (some lh) } cur).next })) (derefLevel { s with order_pool_ := ⟨Function.update s.order_pool_.storage oh (some ⟨id, p, q, Side.BUY, oh, oh⟩), s.order_pool_.freeArr, s.order_pool_.freeCount - 1⟩, level_pool_ := ⟨Function.update s.level_pool_.storage lh (some ⟨p, Side.BUY, u32add 0 q, 1, oh, lh, lh⟩), s.level_pool_.freeArr, s.level_pool_.freeCount - 1⟩, order_map_ := Function.update s.order_map_ (id % MAX_ORDERS) (some oh), price_level_map_ := Function.update s.price_level_map_ (priceToIndex p) (some lh) } cur).next (fun l => { l with prev := lh })) cur (fun l => { l with next := lh })).level_pool_.storage k).isSome ↔ k ∈ (A ++ cur :: lh :: B) ++ (G.asksL)
    rw [hliveLF k, hS1Llive k, hwf.levels.lvlLive k, hdec]
    simp only [List.mem_append, List.mem_cons]
    tauto
  · -- the BUY side keeps its markers and gains the new level
    intro k hk
    have hk2 : k ∈ A ++ cur :: lh :: B := hk
    by_cases hkl : k = lh
    · rw [hkl, hFlh]
    · have hkb : k ∈ G.bidsL := hback k hk2 hkl
      rw [(hfieldsF k hkl).2.1]
      exact hwf.levels.bidsSide k hkb
  · -- ask-side markers unchanged
    intro k hk
    obtain ⟨hk1, -, -⟩ := hfarA k hk
    rw [(hfieldsF k hk1).2.1]
    exact hwf.levels.asksSide k hk
  · -- price map entries point at live levels with the right hash
    intro i k hik
    have hik2 : Function.update s.price_level_map_ (priceToIndex p) (some lh) i = some k := hik
    by_cases hi : i = priceToIndex p
    · rw [hi, Function.update_same] at hik2
      obtain rfl : k = lh := (Option.some.inj hik2).symm
      constructor
      · rw [hliveLF k, hS1Llive k]
        simp
      · rw [hFlh, hi]
    · rw [Function.update_noteq hi] at hik2
      obtain ⟨h1, h2⟩ := hwf.levels.mapToLvl i k hik2
      constructor
      · rw [hliveLF k, hS1Llive k]
        exact Or.inl h1
      · rw [(hfieldsF k (hnotlh k h1)).1]
        exact h2
  · -- live levels are found through the price map
    intro k hk
    rw [hliveLF k, hS1Llive k] at hk
    show Function.update s.price_level_map_ (priceToIndex p) (some lh)
      (priceToIndex (derefLevel (setLevel (setLevel (setLevel { s with order_pool_ := ⟨Function.update s.order_pool_.storage oh (some ⟨id, p, q, Side.BUY, oh, oh⟩), s.order_pool_.freeArr, s.order_pool_.freeCount - 1⟩, level_pool_ := ⟨Function.update s.level_pool_.storage lh (some ⟨p, Side.BUY, u32add 0 q, 1, oh, lh, lh⟩), s.level_pool_.freeArr, s.level_pool_.freeCount - 1⟩, order_map_ := Function.update s.order_map_ (id % MAX_ORDERS) (some oh), price_level_map_ := Function.update s.price_level_map_ (priceToIndex p) (some lh) } lh (fun l => { l with prev := cur, next := (derefLevel { s with order_pool_ := ⟨Function.update s.order_pool_.storage oh (some ⟨id, p, q, Side.BUY, oh, oh⟩), s.order_pool_.freeArr, s.order_pool_.freeCount - 1⟩, level_pool_ := ⟨Function.update s.level_pool_.storage lh (some ⟨p, Side.BUY, u32add 0 q, 1, oh, lh, lh⟩), s.level_pool_.freeArr, s.level_pool_.freeCount - 1⟩, order_map_ := Function.update s.order_map_ (id % MAX_ORDERS) (some oh), price_level_map_ := Function.update s.price_level_map_ (priceToIndex p) (some lh) } cur).next })) (derefLevel { s with order_pool_ := ⟨Function.update s.order_pool_.storage oh (some ⟨id, p, q, Side.BUY, oh, oh⟩), s.order_pool_.freeArr, s.order_pool_.freeCount - 1⟩, level_pool_ := ⟨Function.update s.level_pool_.storage lh (some ⟨p, Side.BUY, u32add 0 q, 1, oh, lh, lh⟩), s.level_pool_.freeArr, s.level_pool_.freeCount - 1⟩, order_map_ := Function.update s.order_map_ (id % MAX_ORDERS) (some oh), price_level_map_ := Function.update s.price_level_map_ (priceToIndex p) (some lh) } cur).next (fun l => { l with prev := lh })) cur (fun l => { l with next := lh })) k).price) = some k
    by_cases hk0 : k = lh
    · rw [hk0, hFlh]
      show Function.update s.price_level_map_ (priceToIndex p) (some lh) (priceToIndex p) = _
      rw [Function.update_same]
    · rcases hk with hk | hk
      · rw [(hfieldsF k hk0).1]
        have hne2 : priceToIndex (derefLevel s k).price ≠ priceToIndex p := by
          intro he
          have h2 := hwf.levels.lvlToMap k hk
          rw [he, hmapidx] at h2
          cases h2
        rw [Function.update_noteq hne2]
        exact hwf.levels.lvlToMap k hk
      · exact absurd hk hk0
  · -- level pool well-formed
    have hLP2lh : (⟨Function.update s.level_pool_.storage lh (some ⟨p, Side.BUY, u32add 0 q, 1, oh, lh, lh⟩), s.level_pool_.freeArr, s.level_pool_.freeCount - 1⟩ : Pool PriceLevel).storage lh = some ⟨p, Side.BUY, u32add 0 q, 1, oh, lh, lh⟩ := by
      show Function.update s.level_pool_.storage lh (some ⟨p, Side.BUY, u32add 0 q, 1, oh, lh, lh⟩) lh = _
      rw [Function.update_same]
    obtain ⟨w2, hw2⟩ := Option.isSome_iff_exists.mp hNXTliveP1
    obtain ⟨w3, hw3⟩ := Option.isSome_iff_exists.mp hcurliveP2
    exact poolWF_overwrite (poolWF_overwrite (poolWF_overwrite hLP2wf hLP2lh) hw2) hw3
  · -- FIFO cycles
    intro lh2 hl
    rw [hliveLF lh2, hS1Llive lh2] at hl
    show IsCycle _ (Function.update G.fifo lh [oh] lh2)
    by_cases hne : lh2 = lh
    · rw [hne, Function.update_same]
      refine isCycle_singleton ?_
      refine ⟨?_, ?_⟩
      · rw [hderOoh]
      · rw [hderOoh]
    · rcases hl with hl | hl
      · rw [Function.update_noteq hne]
        refine isCycle_congr (hwf.fifoCyc lh2 hl) ?_
        intro a b ha hb hr
        have han : a ≠ oh := fun he => hohnotlive lh2 hl (he ▸ ha)
        have hbn : b ≠ oh := fun he => hohnotlive lh2 hl (he ▸ hb)
        exact ⟨by rw [hderO a han]; exact hr.1, by rw [hderO b hbn]; exact hr.2⟩
      · exact absurd hl hne
  · -- FIFO lists are duplicate-free
    intro lh2 hl
    rw [hliveLF lh2, hS1Llive lh2] at hl
    show (Function.update G.fifo lh [oh] lh2).Nodup
    by_cases hne : lh2 = lh
    · rw [hne, Function.update_same]
      exact List.nodup_singleton oh
    · rcases hl with hl | hl
      · rw [Function.update_noteq hne]
        exact hwf.fifoNodup lh2 hl
      · exact absurd hl hne
  · -- FIFO heads
    intro lh2 hl
    rw [hliveLF lh2, hS1Llive lh2] at hl
    show (Function.update G.fifo lh [oh] lh2).head? = _
    by_cases hne : lh2 = lh
    · rw [hne, Function.update_same, hFlh]
      rfl
    · rcases hl with hl | hl
      · rw [Function.update_noteq hne, (hfieldsF lh2 hne).2.2.1]
        exact hwf.fifoHead lh2 hl
      · exact absurd hl hne
  · -- FIFO counts
    intro lh2 hl
    rw [hliveLF lh2, hS1Llive lh2] at hl
    show (derefLevel (setLevel (setLevel (setLevel { s with order_pool_ := ⟨Function.update s.order_pool_.storage oh (some ⟨id, p, q, Side.BUY, oh, oh⟩), s.order_pool_.freeArr, s.order_pool_.freeCount - 1⟩, level_pool_ := ⟨Function.update s.level_pool_.storage lh (some ⟨p, Side.BUY, u32add 0 q, 1, oh, lh, lh⟩), s.level_pool_.freeArr, s.level_pool_.freeCount - 1⟩, order_map_ := Function.update s.order_map_ (id % MAX_ORDERS) (some oh), price_level_map_ := Function.update s.price_level_map_ (priceToIndex p) (some lh) } lh (fun l => { l with prev := cur, next := (derefLevel { s with order_pool_ := ⟨Function.update s.order_pool_.storage oh (some ⟨id, p, q, Side.BUY, oh, oh⟩), s.order_pool_.freeArr, s.order_pool_.freeCount - 1⟩, level_pool_ := ⟨Function.update s.level_pool_.storage lh (some ⟨p, Side.BUY, u32add 0 q, 1, oh, lh, lh⟩), s.level_pool_.freeArr, s.level_pool_.freeCount - 1⟩, order_map_ := Function.update s.order_map_ (id % MAX_ORDERS) (some oh), price_level_map_ := Function.update s.price_level_map_ (priceToIndex p) (some lh) } cur).next })) (derefLevel { s with order_pool_ := ⟨Function.update s.order_pool_.storage oh (some ⟨id, p, q, Side.BUY, oh, oh⟩), s.order_pool_.freeArr, s.order_pool_.freeCount - 1⟩, level_pool_ := ⟨Function.update s.level_pool_.storage lh (some ⟨p, Side.BUY, u32add 0 q, 1, oh, lh, lh⟩), s.level_pool_.freeArr, s.level_pool_.freeCount - 1⟩, order_map_ := Function.update s.order_map_ (id % MAX_ORDERS) (some oh), price_level_map_ := Function.update s.price_level_map_ (priceToIndex p) (some lh) } cur).next (fun l => { l with prev := lh })) cur (fun l => { l with next := lh })) lh2).order_count = (Function.update G.fifo lh [oh] lh2).length
    by_cases hne : lh2 = lh
    · rw [hne, Function.update_same, hFlh]
      rfl
    · rcases hl with hl | hl
      · rw [Function.update_noteq hne, (hfieldsF lh2 hne).2.2.2]
        exact hwf.fifoCount lh2 hl
      · exact absurd hl hne
  · -- FIFO members are live orders
    intro lh2 hl m hm
    rw [hliveLF lh2, hS1Llive lh2] at hl
    have hm2 : m ∈ Function.update G.fifo lh [oh] lh2 := hm
    rw [hliveOF m]
    by_cases hne : lh2 = lh
    · rw [hne, Function.update_same, List.mem_singleton] at hm2
      exact Or.inr hm2
    · rcases hl with hl | hl
      · rw [Function.update_noteq hne] at hm2
        exact Or.inl (hwf.fifoLive lh2 hl m hm2)
      · exact absurd hl hne
  · -- FIFO members carry the level price
    intro lh2 hl m hm
    rw [hliveLF lh2, hS1Llive lh2] at hl
    have hm2 : m ∈ Function.update G.fifo lh [oh] lh2 := hm
    by_cases hne : lh2 = lh
    · rw [hne, Function.update_same, List.mem_singleton] at hm2
      rw [hne, hm2, hderOoh, hFlh]
    · rcases hl with hl | hl
      · rw [Function.update_noteq hne] at hm2
        have hmn : m ≠ oh := fun he => hohnotlive lh2 hl (he ▸ hm2)
        rw [hderO m hmn, (hfieldsF lh2 hne).1]
        exact hwf.fifoPrice lh2 hl m hm2
      · exact absurd hl hne
  · -- FIFOs are disjoint
    intro lh1 lh2 h1 h2 m hm1 hm2
    rw [hliveLF lh1, hS1Llive lh1] at h1
    rw [hliveLF lh2, hS1Llive lh2] at h2
    have hm1b : m ∈ Function.update G.fifo lh [oh] lh1 := hm1
    have hm2b : m ∈ Function.update G.fifo lh [oh] lh2 := hm2
    have hred : ∀ lh3, m ∈ Function.update G.fifo lh [oh] lh3 →
        (m ∈ G.fifo lh3 ∧ lh3 ≠ lh) ∨ (m = oh ∧ lh3 = lh) := by
      intro lh3 hmm
      by_cases hne : lh3 = lh
      · rw [hne, Function.update_same, List.mem_singleton] at hmm
        exact Or.inr ⟨hmm, hne⟩
      · rw [Function.update_noteq hne] at hmm
        exact Or.inl ⟨hmm, hne⟩
    have hlv : ∀ lh3, ((s.level_pool_.storage lh3).isSome ∨ lh3 = lh) → lh3 ≠ lh →
        (s.level_pool_.storage lh3).isSome := by
      intro lh3 hh hne
      rcases hh with hh | hh
      · exact hh
      · exact absurd hh hne
    rcases hred lh1 hm1b with ⟨ha, hane⟩ | ⟨haoh, hal⟩
    · rcases hred lh2 hm2b with ⟨hb, hbne⟩ | ⟨hboh, hbl⟩
      · exact hwf.fifoDisj lh1 lh2 (hlv lh1 h1 hane) (hlv lh2 h2 hbne) m ha hb
      · exact absurd (hboh ▸ ha) (hohnotlive lh1 (hlv lh1 h1 hane))
    · rcases hred lh2 hm2b with ⟨hb, hbne⟩ | ⟨hboh, hbl⟩
      · exact absurd (haoh ▸ hb) (hohnotlive lh2 (hlv lh2 h2 hbne))
      · rw [hal, hbl]
  · -- order map entries point at live orders with the right slot
    intro i k hik
    have hik2 : Function.update s.order_map_ (id % MAX_ORDERS) (some oh) i = some k := hik
    by_cases hi : i = id % MAX_ORDERS
    · rw [hi, Function.update_same] at hik2
      obtain rfl : k = oh := (Option.some.inj hik2).symm
      constructor
      · rw [hliveOF k]
        exact Or.inr rfl
      · rw [hderOoh, hi]
    · rw [Function.update_noteq hi] at hik2
      obtain ⟨hk1, hk2⟩ := hwf.mapToOrd i k hik2
      have hkoh : k ≠ oh := by
        intro he
        rw [he, hohdead] at hk1
        cases hk1
      constructor
      · rw [hliveOF k]
        exact Or.inl hk1
      · rw [hderO k hkoh]
        exact hk2
  · -- live orders are found through the order map
    intro k hk
    rw [hliveOF k] at hk
    by_cases hkoh : k = oh
    · rw [hkoh]
      show Function.update s.order_map_ (id % MAX_ORDERS) (some oh)
        ((derefOrder (setLevel (setLevel (setLevel { s with order_pool_ := ⟨Function.update s.order_pool_.storage oh (some ⟨id, p, q, Side.BUY, oh, oh⟩), s.order_pool_.freeArr, s.order_pool_.freeCount - 1⟩, level_pool_ := ⟨Function.update s.level_pool_.storage lh (some ⟨p, Side.BUY, u32add 0 q, 1, oh, lh, lh⟩), s.level_pool_.freeArr, s.level_pool_.freeCount - 1⟩, order_map_ := Function.update s.order_map_ (id % MAX_ORDERS) (some oh), price_level_map_ := Function.update s.price_level_map_ (priceToIndex p) (some lh) } lh (fun l => { l with prev := cur, next := (derefLevel { s with order_pool_ := ⟨Function.update s.order_pool_.storage oh (some ⟨id, p, q, Side.BUY, oh, oh⟩), s.order_pool_.freeArr, s.order_pool_.freeCount - 1⟩, level_pool_ := ⟨Function.update s.level_pool_.storage lh (some ⟨p, Side.BUY, u32add 0 q, 1, oh, lh, lh⟩), s.level_pool_.freeArr, s.level_pool_.freeCount - 1⟩, order_map_ := Function.update s.order_map_ (id % MAX_ORDERS) (some oh), price_level_map_ := Function.update s.price_level_map_ (priceToIndex p) (some lh) } cur).next })) (derefLevel { s with order_pool_ := ⟨Function.update s.order_pool_.storage oh (some ⟨id, p, q, Side.BUY, oh, oh⟩), s.order_pool_.freeArr, s.order_pool_.freeCount - 1⟩, level_pool_ := ⟨Function.update s.level_pool_.storage lh (some ⟨p, Side.BUY, u32add 0 q, 1, oh, lh, lh⟩), s.level_pool_.freeArr, s.level_pool_.freeCount - 1⟩, order_map_ := Function.update s.order_map_ (id % MAX_ORDERS) (some oh), price_level_map_ := Function.update s.price_level_map_ (priceToIndex p) (some lh) } cur).next (fun l => { l with prev := lh })) cur (fun l => { l with next := lh })) oh).order_id % MAX_ORDERS) = some oh
      rw [hderOoh, Function.update_same]
    · rcases hk with hk | hk
      · show Function.update s.order_map_ (id % MAX_ORDERS) (some oh)
          ((derefOrder (setLevel (setLevel (setLevel { s with order_pool_ := ⟨Function.update s.order_pool_.storage oh (some ⟨id, p, q, Side.BUY, oh, oh⟩), s.order_pool_.freeArr, s.order_pool_.freeCount - 1⟩, level_pool_ := ⟨Function.update s.level_pool_.storage lh (some ⟨p, Side.BUY, u32add 0 q, 1, oh, lh, lh⟩), s.level_pool_.freeArr, s.level_pool_.freeCount - 1⟩, order_map_ := Function.update s.order_map_ (id % MAX_ORDERS) (some oh), price_level_map_ := Function.update s.price_level_map_ (priceToIndex p) (some lh) } lh (fun l => { l with prev := cur, next := (derefLevel { s with order_pool_ := ⟨Function.update s.order_pool_.storage oh (some ⟨id, p, q, Side.BUY, oh, oh⟩), s.order_pool_.freeArr, s.order_pool_.freeCount - 1⟩, level_pool_ := ⟨Function.update s.level_pool_.storage lh (some ⟨p, Side.BUY, u32add 0 q, 1, oh, lh, lh⟩), s.level_pool_.freeArr, s.level_pool_.freeCount - 1⟩, order_map_ := Function.update s.order_map_ (id % MAX_ORDERS) (some oh), price_level_map_ := Function.update s.price_level_map_ (priceToIndex p) (some lh) } cur).next })) (derefLevel { s with order_pool_ := ⟨Function.update s.order_pool_.storage oh (some ⟨id, p, q, Side.BUY, oh, oh⟩), s.order_pool_.freeArr, s.order_pool_.freeCount - 1⟩, level_pool_ := ⟨Function.update s.level_pool_.storage lh (some ⟨p, Side.BUY, u32add 0 q, 1, oh, lh, lh⟩), s.level_pool_.freeArr, s.level_pool_.freeCount - 1⟩, order_map_ := Function.update s.order_map_ (id % MAX_ORDERS) (some oh), price_level_map_ := Function.update s.price_level_map_ (priceToIndex p) (some lh) } cur).next (fun l => { l with prev := lh })) cur (fun l => { l with next := lh })) k).order_id % MAX_ORDERS) = some k
        rw [hderO k hkoh]
        have hne2 : (derefOrder s k).order_id % MAX_ORDERS ≠ id % MAX_ORDERS := by
          intro he
          have h2 := hwf.ordToMap k hk
          rw [he, hslot] at h2
          cases h2
        rw [Function.update_noteq hne2]
        exact hwf.ordToMap k hk
      · exact absurd hk hkoh
  · -- every live order sits in some FIFO
    intro k hk
    rw [hliveOF k] at hk
    by_cases hkoh : k = oh
    · refine ⟨lh, ?_, ?_⟩
      · rw [hliveLF lh, hS1Llive lh]
        exact Or.inr rfl
      · show k ∈ Function.update G.fifo lh [oh] lh
        rw [Function.update_same, hkoh]
        exact List.mem_singleton.mpr rfl
    · rcases hk with hk | hk
      · obtain ⟨lh2, hl, hm⟩ := hwf.ordInFifo k hk
        refine ⟨lh2, ?_, ?_⟩
        · rw [hliveLF lh2, hS1Llive lh2]
          exact Or.inl hl
        · show k ∈ Function.update G.fifo lh [oh] lh2
          rw [Function.update_noteq (hnotlh lh2 hl)]
          exact hm
      · exact absurd hk hkoh
  · -- order pool well-formed
    exact hOP1wf


/-- New-level core of `addOrder`, SELL side, insertion after the sorted-walk
position `cur` inside the side cycle (the `spliceLevelAfter` path); the new
order is the fresh level's singleton FIFO. -/
theorem bookWF_add_core_spliceSell {s : OrderBook} {G : BookShape} {id q : Nat}
    {p : Int} {oh lh cur : Nat}
    (hwf : BookWF s G)
    (hslot : s.order_map_ (id % MAX_ORDERS) = none)
    (hohdead : s.order_pool_.storage oh = none)
    (hOP1wf : poolWF (⟨Function.update s.order_pool_.storage oh (some ⟨id, p, q, Side.SELL, oh, oh⟩), s.order_pool_.freeArr, s.order_pool_.freeCount - 1⟩ : Pool Order) MAX_ORDERS)
    (hlhdead : s.level_pool_.storage lh = none)
    (hLP2wf : poolWF (⟨Function.update s.level_pool_.storage lh (some ⟨p, Side.SELL, u32add 0 q, 1, oh, lh, lh⟩), s.level_pool_.freeArr, s.level_pool_.freeCount - 1⟩ : Pool PriceLevel) MAX_PRICE_LEVELS)
    (hmapidx : s.price_level_map_ (priceToIndex p) = none)
    (hcur : cur ∈ G.asksL) :
    ∃ G2 : BookShape, BookWF (setLevel (setLevel (setLevel { s with order_pool_ := ⟨Function.update s.order_pool_.storage oh (some ⟨id, p, q, Side.SELL, oh, oh⟩), s.order_pool_.freeArr, s.order_pool_.freeCount - 1⟩, level_pool_ := ⟨Function.update s.level_pool_.storage lh (some ⟨p, Side.SELL, u32add 0 q, 1, oh, lh, lh⟩), s.level_pool_.freeArr, s.level_pool_.freeCount - 1⟩, order_map_ := Function.update s.order_map_ (id % MAX_ORDERS) (some oh), price_level_map_ := Function.update s.price_level_map_ (priceToIndex p) (some lh) } lh (fun l => { l with prev := cur, next := (derefLevel { s with order_pool_ := ⟨Function.update s.order_pool_.storage oh (some ⟨id, p, q, Side.SELL, oh, oh⟩), s.order_pool_.freeArr, s.order_pool_.freeCount - 1⟩, level_pool_ := ⟨Function.update s.level_pool_.storage lh (some ⟨p, Side.SELL, u32add 0 q, 1, oh, lh, lh⟩), s.level_pool_.freeArr, s.level_pool_.freeCount - 1⟩, order_map_ := Function.update s.order_map_ (id % MAX_ORDERS) (some oh), price_level_map_ := Function.update s.price_level_map_ (priceToIndex p) (some lh) } cur).next })) (derefLevel { s with order_pool_ := ⟨Function.update s.order_pool_.storage oh (some ⟨id, p, q, Side.SELL, oh, oh⟩), s.order_pool_.freeArr, s.order_pool_.freeCount - 1⟩, level_pool_ := ⟨Function.update s.level_pool_.storage lh (some ⟨p, Side.SELL, u32add 0 q, 1, oh, lh, lh⟩), s.level_pool_.freeArr, s.level_pool_.freeCount - 1⟩, order_map_ := Function.update s.order_map_ (id % MAX_ORDERS) (some oh), price_level_map_ := Function.update s.price_level_map_ (priceToIndex p) (some lh) } cur).next (fun l => { l with prev := lh })) cur (fun l => { l with next := lh })) G2 := by
  have hnotlh : ∀ k, (s.level_pool_.storage k).isSome → k ≠ lh := by
    intro k hk he
    rw [he, hlhdead] at hk
    cases hk
  have hcurlive : (s.level_pool_.storage cur).isSome :=
    (hwf.levels.lvlLive cur).mpr (List.mem_append.mpr (Or.inr hcur))
  have hcurne : cur ≠ lh := hnotlh cur hcurlive
  -- order-side facts
  have hOst : ∀ k, k ≠ oh → (setLevel (setLevel (setLevel { s with order_pool_ := ⟨Function.update s.order_pool_.storage oh (some ⟨id, p, q, Side.SELL, oh, oh⟩), s.order_pool_.freeArr, s.order_pool_.freeCount - 1⟩, level_pool_ := ⟨Function.update s.level_pool_.storage lh (some ⟨p, Side.SELL, u32add 0 q, 1, oh, lh, lh⟩), s.level_pool_.freeArr, s.level_pool_.freeCount - 1⟩, order_map_ := Function.update s.order_map_ (id % MAX_ORDERS) (some oh), price_level_map_ := Function.update s.price_level_map_ (priceToIndex p) (some lh) } lh (fun l => { l with prev := cur, next := (derefLevel { s with order_pool_ := ⟨Function.update s.order_pool_.storage oh (some ⟨id, p, q, Side.SELL, oh, oh⟩), s.order_pool_.freeArr, s.order_pool_.freeCount - 1⟩, level_pool_ := ⟨Function.update s.level_pool_.storage lh (some ⟨p, Side.SELL, u32add 0 q, 1, oh, lh, lh⟩), s.level_pool_.freeArr, s.level_pool_.freeCount - 1⟩, order_map_ := Function.update s.order_map_ (id % MAX_ORDERS) (some oh), price_level_map_ := Function.update s.price_level_map_ (priceToIndex p) (some lh) } cur).next })) (derefLevel { s with order_pool_ := ⟨Function.update s.order_pool_.storage oh (some ⟨id, p, q, Side.SELL, oh, oh⟩), s.order_pool_.freeArr, s.order_pool_.freeCount - 1⟩, level_pool_ := ⟨Function.update s.level_pool_.storage lh (some ⟨p, Side.SELL, u32add 0 q, 1, oh, lh, lh⟩), s.level_pool_.freeArr, s.level_pool_.freeCount - 1⟩, order_map_ := Function.update s.order_map_ (id % MAX_ORDERS) (some oh), price_level_map_ := Function.update s.price_level_map_ (priceToIndex p) (some lh) } cur).next (fun l => { l with prev := lh })) cur (fun l => { l with next := lh })).order_pool_.storage k = s.order_pool_.storage k := by
    intro k hk
    show Function.update s.order_pool_.storage oh (some ⟨id, p, q, Side.SELL, oh, oh⟩) k = _
    rw [Function.update_noteq hk]
  have hderO : ∀ k, k ≠ oh → derefOrder (setLevel (setLevel (setLevel { s with order_pool_ := ⟨Function.update s.order_pool_.storage oh (some ⟨id, p, q, Side.SELL, oh, oh⟩), s.order_pool_.freeArr, s.order_pool_.freeCount - 1⟩, level_pool_ := ⟨Function.update s.level_pool_.storage lh (some ⟨p, Side.SELL, u32add 0 q, 1, oh, lh, lh⟩), s.level_pool_.freeArr, s.level_pool_.freeCount - 1⟩, order_map_ := Function.update s.order_map_ (id % MAX_ORDERS) (some oh), price_level_map_ := Function.update s.price_level_map_ (priceToIndex p) (some lh) } lh (fun l => { l with prev := cur, next := (derefLevel { s with order_pool_ := ⟨Function.update s.order_pool_.storage oh (some ⟨id, p, q, Side.SELL, oh, oh⟩), s.order_pool_.freeArr, s.order_pool_.freeCount - 1⟩, level_pool_ := ⟨Function.update s.level_pool_.storage lh (some ⟨p, Side.SELL, u32add 0 q, 1, oh, lh, lh⟩), s.level_pool_.freeArr, s.level_pool_.freeCount - 1⟩, order_map_ := Function.update s.order_map_ (id % MAX_ORDERS) (some oh), price_level_map_ := Function.update s.price_level_map_ (priceToIndex p) (some lh) } cur).next })) (derefLevel { s with order_pool_ := ⟨Function.update s.order_pool_.storage oh (some ⟨id, p, q, Side.SELL, oh, oh⟩), s.order_pool_.freeArr, s.order_pool_.freeCount - 1⟩, level_pool_ := ⟨Function.update s.level_pool_.storage lh (some ⟨p, Side.SELL, u32add 0 q, 1, oh, lh, lh⟩), s.level_pool_.freeArr, s.level_pool_.freeCount - 1⟩, order_map_ := Function.update s.order_map_ (id % MAX_ORDERS) (some oh), price_level_map_ := Function.update s.price_level_map_ (priceToIndex p) (some lh) } cur).next (fun l => { l with prev := lh })) cur (fun l => { l with next := lh })) k = derefOrder s k := by
    intro k hk
    show ((setLevel (setLevel (setLevel { s with order_pool_ := ⟨Function.update s.order_pool_.storage oh (some ⟨id, p, q, Side.SELL, oh, oh⟩), s.order_pool_.freeArr, s.order_pool_.freeCount - 1⟩, level_pool_ := ⟨Function.update s.level_pool_.storage lh (some ⟨p, Side.SELL, u32add 0 q, 1, oh, lh, lh⟩), s.level_pool_.freeArr, s.level_pool_.freeCount - 1⟩, order_map_ := Function.update s.order_map_ (id % MAX_ORDERS) (some oh), price_level_map_ := Function.update s.price_level_map_ (priceToIndex p) (some lh) } lh (fun l => { l with prev := cur, next := (derefLevel { s with order_pool_ := ⟨Function.update s.order_pool_.storage oh (some ⟨id, p, q, Side.SELL, oh, oh⟩), s.order_pool_.freeArr, s.order_pool_.freeCount - 1⟩, level_pool_ := ⟨Function.update s.level_pool_.storage lh (some ⟨p, Side.SELL, u32add 0 q, 1, oh, lh, lh⟩), s.level_pool_.freeArr, s.level_pool_.freeCount - 1⟩, order_map_ := Function.update s.order_map_ (id % MAX_ORDERS) (some oh), price_level_map_ := Function.update s.price_level_map_ (priceToIndex p) (some lh) } cur).next })) (derefLevel { s with order_pool_ := ⟨Function.update s.order_pool_.storage oh (some ⟨id, p, q, Side.SELL, oh, oh⟩), s.order_pool_.freeArr, s.order_pool_.freeCount - 1⟩, level_pool_ := ⟨Function.update s.level_pool_.storage lh (some ⟨p, Side.SELL, u32add 0 q, 1, oh, lh, lh⟩), s.level_pool_.freeArr, s.level_pool_.freeCount - 1⟩, order_map_ := Function.update s.order_map_ (id % MAX_ORDERS) (some oh), price_level_map_ := Function.update s.price_level_map_ (priceToIndex p) (some lh) } cur).next (fun l => { l with prev := lh })) cur (fun l => { l with next := lh })).order_pool_.storage k).getD defaultOrder = _
    rw [hOst k hk]
    rfl
  have hOoh : (setLevel (setLevel (setLevel { s with order_pool_ := ⟨Function.update s.order_pool_.storage oh (some ⟨id, p, q, Side.SELL, oh, oh⟩), s.order_pool_.freeArr, s.order_pool_.freeCount - 1⟩, level_pool_ := ⟨Function.update s.level_pool_.storage lh (some ⟨p, Side.SELL, u32add 0 q, 1, oh, lh, lh⟩), s.level_pool_.freeArr, s.level_pool_.freeCount - 1⟩, order_map_ := Function.update s.order_map_ (id % MAX_ORDERS) (some oh), price_level_map_ := Function.update s.price_level_map_ (priceToIndex p) (some lh) } lh (fun l => { l with prev := cur, next := (derefLevel { s with order_pool_ := ⟨Function.update s.order_pool_.storage oh (some ⟨id, p, q, Side.SELL, oh, oh⟩), s.order_pool_.freeArr, s.order_pool_.freeCount - 1⟩, level_pool_ := ⟨Function.update s.level_pool_.storage lh (some ⟨p, Side.SELL, u32add 0 q, 1, oh, lh, lh⟩), s.level_pool_.freeArr, s.level_pool_.freeCount - 1⟩, order_map_ := Function.update s.order_map_ (id % MAX_ORDERS) (some oh), price_level_map_ := Function.update s.price_level_map_ (priceToIndex p) (some lh) } cur).next })) (derefLevel { s with order_pool_ := ⟨Function.update s.order_pool_.storage oh (some ⟨id, p, q, Side.SELL, oh, oh⟩), s.order_pool_.freeArr, s.order_pool_.freeCount - 1⟩, level_pool_ := ⟨Function.update s.level_pool_.storage lh (some ⟨p, Side.SELL, u32add 0 q, 1, oh, lh, lh⟩), s.level_pool_.freeArr, s.level_pool_.freeCount - 1⟩, order_map_ := Function.update s.order_map_ (id % MAX_ORDERS) (some oh), price_level_map_ := Function.update s.price_level_map_ (priceToIndex p) (some lh) } cur).next (fun l => { l with prev := lh })) cur (fun l => { l with next := lh })).order_pool_.storage oh = some ⟨id, p, q, Side.SELL, oh, oh⟩ := by
    show Function.update s.order_pool_.storage oh (some ⟨id, p, q, Side.SELL, oh, oh⟩) oh = _
    rw [Function.update_same]
  have hderOoh : derefOrder (setLevel (setLevel (setLevel { s with order_pool_ := ⟨Function.update s.order_pool_.storage oh (some ⟨id, p, q, Side.SELL, oh, oh⟩), s.order_pool_.freeArr, s.order_pool_.freeCount - 1⟩, level_pool_ := ⟨Function.update s.level_pool_.storage lh (some ⟨p, Side.SELL, u32add 0 q, 1, oh, lh, lh⟩), s.level_pool_.freeArr, s.level_pool_.freeCount - 1⟩, order_map_ := Function.update s.order_map_ (id % MAX_ORDERS) (some oh), price_level_map_ := Function.update s.price_level_map_ (priceToIndex p) (some lh) } lh (fun l => { l with prev := cur, next := (derefLevel { s with order_pool_ := ⟨Function.update s.order_pool_.storage oh (some ⟨id, p, q, Side.SELL, oh, oh⟩), s.order_pool_.freeArr, s.order_pool_.freeCount - 1⟩, level_pool_ := ⟨Function.update s.level_pool_.storage lh (some ⟨p, Side.SELL, u32add 0 q, 1, oh, lh, lh⟩), s.level_pool_.freeArr, s.level_pool_.freeCount - 1⟩, order_map_ := Function.update s.order_map_ (id % MAX_ORDERS) (some oh), price_level_map_ := Function.update s.price_level_map_ (priceToIndex p) (some lh) } cur).next })) (derefLevel { s with order_pool_ := ⟨Function.update s.order_pool_.storage oh (some ⟨id, p, q, Side.SELL, oh, oh⟩), s.order_pool_.freeArr, s.order_pool_.freeCount - 1⟩, level_pool_ := ⟨Function.update s.level_pool_.storage lh (some ⟨p, Side.SELL, u32add 0 q, 1, oh, lh, lh⟩), s.level_pool_.freeArr, s.level_pool_.freeCount - 1⟩, order_map_ := Function.update s.order_map_ (id % MAX_ORDERS) (some oh), price_level_map_ := Function.update s.price_level_map_ (priceToIndex p) (some lh) } cur).next (fun l => { l with prev := lh })) cur (fun l => { l with next := lh })) oh = ⟨id, p, q, Side.SELL, oh, oh⟩ := by
    show ((setLevel (setLevel (setLevel { s with order_pool_ := ⟨Function.update s.order_pool_.storage oh (some ⟨id, p, q, Side.SELL, oh, oh⟩), s.order_pool_.freeArr, s.order_pool_.freeCount - 1⟩, level_pool_ := ⟨Function.update s.level_pool_.storage lh (some ⟨p, Side.SELL, u32add 0 q, 1, oh, lh, lh⟩), s.level_pool_.freeArr, s.level_pool_.freeCount - 1⟩, order_map_ := Function.update s.order_map_ (id % MAX_ORDERS) (some oh), price_level_map_ := Function.update s.price_level_map_ (priceToIndex p) (some lh) } lh (fun l => { l with prev := cur, next := (derefLevel { s with order_pool_ := ⟨Function.update s.order_pool_.storage oh (some ⟨id, p, q, Side.SELL, oh, oh⟩), s.order_pool_.freeArr, s.order_pool_.freeCount - 1⟩, level_pool_ := ⟨Function.update s.level_pool_.storage lh (some ⟨p, Side.SELL, u32add 0 q, 1, oh, lh, lh⟩), s.level_pool_.freeArr, s.level_pool_.freeCount - 1⟩, order_map_ := Function.update s.order_map_ (id % MAX_ORDERS) (some oh), price_level_map_ := Function.update s.price_level_map_ (priceToIndex p) (some lh) } cur).next })) (derefLevel { s with order_pool_ := ⟨Function.update s.order_pool_.storage oh (some ⟨id, p, q, Side.SELL, oh, oh⟩), s.order_pool_.freeArr, s.order_pool_.freeCount - 1⟩, level_pool_ := ⟨Function.update s.level_pool_.storage lh (some ⟨p, Side.SELL, u32add 0 q, 1, oh, lh, lh⟩), s.level_pool_.freeArr, s.level_pool_.freeCount - 1⟩, order_map_ := Function.update s.order_map_ (id % MAX_ORDERS) (some oh), price_level_map_ := Function.update s.price_level_map_ (priceToIndex p) (some lh) } cur).next (fun l => { l with prev := lh })) cur (fun l => { l with next := lh })).order_pool_.storage oh).getD defaultOrder = _
    rw [hOoh]
    rfl
  have hliveOF : ∀ k, ((setLevel (setLevel (setLevel { s with order_pool_ := ⟨Function.update s.order_pool_.storage oh (some ⟨id, p, q, Side.SELL, oh, oh⟩), s.order_pool_.freeArr, s.order_pool_.freeCount - 1⟩, level_pool_ := ⟨Function.update s.level_pool_.storage lh (some ⟨p, Side.SELL, u32add 0 q, 1, oh, lh, lh⟩), s.level_pool_.freeArr, s.level_pool_.freeCount - 1⟩, order_map_ := Function.update s.order_map_ (id % MAX_ORDERS) (some oh), price_level_map_ := Function.update s.price_level_map_ (priceToIndex p) (some lh) } lh (fun l => { l with prev := cur, next := (derefLevel { s with order_pool_ := ⟨Function.update s.order_pool_.storage oh (some ⟨id, p, q, Side.SELL, oh, oh⟩), s.order_pool_.freeArr, s.order_pool_.freeCount - 1⟩, level_pool_ := ⟨Function.update s.level_pool_.storage lh (some ⟨p, Side.SELL, u32add 0 q, 1, oh, lh, lh⟩), s.level_pool_.freeArr, s.level_pool_.freeCount - 1⟩, order_map_ := Function.update s.order_map_ (id % MAX_ORDERS) (some oh), price_level_map_ := Function.update s.price_level_map_ (priceToIndex p) (some lh) } cur).next })) (derefLevel { s with order_pool_ := ⟨Function.update s.order_pool_.storage oh (some ⟨id, p, q, Side.SELL, oh, oh⟩), s.order_pool_.freeArr, s.order_pool_.freeCount - 1⟩, level_pool_ := ⟨Function.update s.level_pool_.storage lh (some ⟨p, Side.SELL, u32add 0 q, 1, oh, lh, lh⟩), s.level_pool_.freeArr, s.level_pool_.freeCount - 1⟩, order_map_ := Function.update s.order_map_ (id % MAX_ORDERS) (some oh), price_level_map_ := Function.update s.price_level_map_ (priceToIndex p) (some lh) } cur).next (fun l => { l with prev := lh })) cur (fun l => { l with next := lh })).order_pool_.storage k).isSome ↔
      ((s.order_pool_.storage k).isSome ∨ k = oh) := by
    intro k
    by_cases hk : k = oh
    · rw [hk, hOoh]
      simp
    · rw [hOst k hk]
      simp [hk]
  have hohnotlive : ∀ lh2, (s.level_pool_.storage lh2).isSome → oh ∉ G.fifo lh2 := by
    intro lh2 hl hmem
    have := hwf.fifoLive lh2 hl oh hmem
    rw [hohdead] at this
    cases this
  -- level dereferencing
  have hT0L : ∀ k, k ≠ lh → derefLevel ({ s with order_pool_ := ⟨Function.update s.order_pool_.storage oh (some ⟨id, p, q, Side.SELL, oh, oh⟩), s.order_pool_.freeArr, s.order_pool_.freeCount - 1⟩, level_pool_ := ⟨Function.update s.level_pool_.storage lh (some ⟨p, Side.SELL, u32add 0 q, 1, oh, lh, lh⟩), s.level_pool_.freeArr, s.level_pool_.freeCount - 1⟩, order_map_ := Function.update s.order_map_ (id % MAX_ORDERS) (some oh), price_level_map_ := Function.update s.price_level_map_ (priceToIndex p) (some lh) }) k = derefLevel s k := by
    intro k hk
    show (Function.update s.level_pool_.storage lh (some ⟨p, Side.SELL, u32add 0 q, 1, oh, lh, lh⟩) k).getD defaultLevel = _
    rw [Function.update_noteq hk]
    rfl
  have hT0lh : derefLevel ({ s with order_pool_ := ⟨Function.update s.order_pool_.storage oh (some ⟨id, p, q, Side.SELL, oh, oh⟩), s.order_pool_.freeArr, s.order_pool_.freeCount - 1⟩, level_pool_ := ⟨Function.update s.level_pool_.storage lh (some ⟨p, Side.SELL, u32add 0 q, 1, oh, lh, lh⟩), s.level_pool_.freeArr, s.level_pool_.freeCount - 1⟩, order_map_ := Function.update s.order_map_ (id % MAX_ORDERS) (some oh), price_level_map_ := Function.update s.price_level_map_ (priceToIndex p) (some lh) }) lh = ⟨p, Side.SELL, u32add 0 q, 1, oh, lh, lh⟩ := by
    show (Function.update s.level_pool_.storage lh (some ⟨p, Side.SELL, u32add 0 q, 1, oh, lh, lh⟩) lh).getD defaultLevel = _
    rw [Function.update_same]
    rfl
  have hNXTeq : ((derefLevel { s with order_pool_ := ⟨Function.update s.order_pool_.storage oh (some ⟨id, p, q, Side.SELL, oh, oh⟩), s.order_pool_.freeArr, s.order_pool_.freeCount - 1⟩, level_pool_ := ⟨Function.update s.level_pool_.storage lh (some ⟨p, Side.SELL, u32add 0 q, 1, oh, lh, lh⟩), s.level_pool_.freeArr, s.level_pool_.freeCount - 1⟩, order_map_ := Function.update s.order_map_ (id % MAX_ORDERS) (some oh), price_level_map_ := Function.update s.price_level_map_ (priceToIndex p) (some lh) } cur).next) = (derefLevel s cur).next := by
    rw [hT0L cur hcurne]
  have hndB : (G.asksL).Nodup := hwf.levels.lvlNodup.sublist (List.sublist_append_right _ _)
  obtain ⟨nx, hnx_mem, hnx⟩ := isCycle_next_mem hwf.levels.asksCyc hcur
  have hnx_eq : nx = (derefLevel s cur).next := hnx.1.symm
  have hNXTmem : ((derefLevel { s with order_pool_ := ⟨Function.update s.order_pool_.storage oh (some ⟨id, p, q, Side.SELL, oh, oh⟩), s.order_pool_.freeArr, s.order_pool_.freeCount - 1⟩, level_pool_ := ⟨Function.update s.level_pool_.storage lh (some ⟨p, Side.SELL, u32add 0 q, 1, oh, lh, lh⟩), s.level_pool_.freeArr, s.level_pool_.freeCount - 1⟩, order_map_ := Function.update s.order_map_ (id % MAX_ORDERS) (some oh), price_level_map_ := Function.update s.price_level_map_ (priceToIndex p) (some lh) } cur).next) ∈ G.asksL := by
    rw [hNXTeq, ← hnx_eq]
    exact hnx_mem
  have hNXTlive : (s.level_pool_.storage ((derefLevel { s with order_pool_ := ⟨Function.update s.order_pool_.storage oh (some ⟨id, p, q, Side.SELL, oh, oh⟩), s.order_pool_.freeArr, s.order_pool_.freeCount - 1⟩, level_pool_ := ⟨Function.update s.level_pool_.storage lh (some ⟨p, Side.SELL, u32add 0 q, 1, oh, lh, lh⟩), s.level_pool_.freeArr, s.level_pool_.freeCount - 1⟩, order_map_ := Function.update s.order_map_ (id % MAX_ORDERS) (some oh), price_level_map_ := Function.update s.price_level_map_ (priceToIndex p) (some lh) } cur).next)).isSome :=
    (hwf.levels.lvlLive _).mpr (List.mem_append.mpr (Or.inr hNXTmem))
  have hNXTne : ((derefLevel { s with order_pool_ := ⟨Function.update s.order_pool_.storage oh (some ⟨id, p, q, Side.SELL, oh, oh⟩), s.order_pool_.freeArr, s.order_pool_.freeCount - 1⟩, level_pool_ := ⟨Function.update s.level_pool_.storage lh (some ⟨p, Side.SELL, u32add 0 q, 1, oh, lh, lh⟩), s.level_pool_.freeArr, s.level_pool_.freeCount - 1⟩, order_map_ := Function.update s.order_map_ (id % MAX_ORDERS) (some oh), price_level_map_ := Function.update s.price_level_map_ (priceToIndex p) (some lh) } cur).next) ≠ lh := hnotlh _ hNXTlive
  have hFlh : derefLevel (setLevel (setLevel (setLevel { s with order_pool_ := ⟨Function.update s.order_pool_.storage oh (some ⟨id, p, q, Side.SELL, oh, oh⟩), s.order_pool_.freeArr, s.order_pool_.freeCount - 1⟩, level_pool_ := ⟨Function.update s.level_pool_.storage lh (some ⟨p, Side.SELL, u32add 0 q, 1, oh, lh, lh⟩), s.level_pool_.freeArr, s.level_pool_.freeCount - 1⟩, order_map_ := Function.update s.order_map_ (id % MAX_ORDERS) (some oh), price_level_map_ := Function.update s.price_level_map_ (priceToIndex p) (some lh) } lh (fun l => { l with prev := cur, next := (derefLevel { s with order_pool_ := ⟨Function.update s.order_pool_.storage oh (some ⟨id, p, q, Side.SELL, oh, oh⟩), s.order_pool_.freeArr, s.order_pool_.freeCount - 1⟩, level_pool_ := ⟨Function.update s.level_pool_.storage lh (some ⟨p, Side.SELL, u32add 0 q, 1, oh, lh, lh⟩), s.level_pool_.freeArr, s.level_pool_.freeCount - 1⟩, order_map_ := Function.update s.order_map_ (id % MAX_ORDERS) (some oh), price_level_map_ := Function.update s.price_level_map_ (priceToIndex p) (some lh) } cur).next })) (derefLevel { s with order_pool_ := ⟨Function.update s.order_pool_.storage oh (some ⟨id, p, q, Side.SELL, oh, oh⟩), s.order_pool_.freeArr, s.order_pool_.freeCount - 1⟩, level_pool_ := ⟨Function.update s.level_pool_.storage lh (some ⟨p, Side.SELL, u32add 0 q, 1, oh, lh, lh⟩), s.level_pool_.freeArr, s.level_pool_.freeCount - 1⟩, order_map_ := Function.update s.order_map_ (id % MAX_ORDERS) (some oh), price_level_map_ := Function.update s.price_level_map_ (priceToIndex p) (some lh) } cur).next (fun l => { l with prev := lh })) cur (fun l => { l with next := lh })) lh = (⟨p, Side.SELL, u32add 0 q, 1, oh, cur, (derefLevel { s with order_pool_ := ⟨Function.update s.order_pool_.storage oh (some ⟨id, p, q, Side.SELL, oh, oh⟩), s.order_pool_.freeArr, s.order_pool_.freeCount - 1⟩, level_pool_ := ⟨Function.update s.level_pool_.storage lh (some ⟨p, Side.SELL, u32add 0 q, 1, oh, lh, lh⟩), s.level_pool_.freeArr, s.level_pool_.freeCount - 1⟩, order_map_ := Function.update s.order_map_ (id % MAX_ORDERS) (some oh), price_level_map_ := Function.update s.price_level_map_ (priceToIndex p) (some lh) } cur).next⟩ : PriceLevel) := by
    rw [derefLevel_setLevel_ne _ _ _ (Ne.symm hcurne),
      derefLevel_setLevel_ne _ _ _ (Ne.symm hNXTne), derefLevel_setLevel_same, hT0lh]
  have hfieldsF : ∀ k, k ≠ lh →
      (derefLevel (setLevel (setLevel (setLevel { s with order_pool_ := ⟨Function.update s.order_pool_.storage oh (some ⟨id, p, q, Side.SELL, oh, oh⟩), s.order_pool_.freeArr, s.order_pool_.freeCount - 1⟩, level_pool_ := ⟨Function.update s.level_pool_.storage lh (some ⟨p, Side.SELL, u32add 0 q, 1, oh, lh, lh⟩), s.level_pool_.freeArr, s.level_pool_.freeCount - 1⟩, order_map_ := Function.update s.order_map_ (id % MAX_ORDERS) (some oh), price_level_map_ := Function.update s.price_level_map_ (priceToIndex p) (some lh) } lh (fun l => { l with prev := cur, next := (derefLevel { s with order_pool_ := ⟨Function.update s.order_pool_.storage oh (some ⟨id, p, q, Side.SELL, oh, oh⟩), s.order_pool_.freeArr, s.order_pool_.freeCount - 1⟩, level_pool_ := ⟨Function.update s.level_pool_.storage lh (some ⟨p, Side.SELL, u32add 0 q, 1, oh, lh, lh⟩), s.level_pool_.freeArr, s.level_pool_.freeCount - 1⟩, order_map_ := Function.update s.order_map_ (id % MAX_ORDERS) (some oh), price_level_map_ := Function.update s.price_level_map_ (priceToIndex p) (some lh) } cur).next })) (derefLevel { s with order_pool_ := ⟨Function.update s.order_pool_.storage oh (some ⟨id, p, q, Side.SELL, oh, oh⟩), s.order_pool_.freeArr, s.order_pool_.freeCount - 1⟩, level_pool_ := ⟨Function.update s.level_pool_.storage lh (some ⟨p, Side.SELL, u32add 0 q, 1, oh, lh, lh⟩), s.level_pool_.freeArr, s.level_pool_.freeCount - 1⟩, order_map_ := Function.update s.order_map_ (id % MAX_ORDERS) (some oh), price_level_map_ := Function.update s.price_level_map_ (priceToIndex p) (some lh) } cur).next (fun l => { l with prev := lh })) cur (fun l => { l with next := lh })) k).price = (derefLevel s k).price ∧
      (derefLevel (setLevel (setLevel (setLevel { s with order_pool_ := ⟨Function.update s.order_pool_.storage oh (some ⟨id, p, q, Side.SELL, oh, oh⟩), s.order_pool_.freeArr, s.order_pool_.freeCount - 1⟩, level_pool_ := ⟨Function.update s.level_pool_.storage lh (some ⟨p, Side.SELL, u32add 0 q, 1, oh, lh, lh⟩), s.level_pool_.freeArr, s.level_pool_.freeCount - 1⟩, order_map_ := Function.update s.order_map_ (id % MAX_ORDERS) (some oh), price_level_map_ := Function.update s.price_level_map_ (priceToIndex p) (some lh) } lh (fun l => { l with prev := cur, next := (derefLevel { s with order_pool_ := ⟨Function.update s.order_pool_.storage oh (some ⟨id, p, q, Side.SELL, oh, oh⟩), s.order_pool_.freeArr, s.order_pool_.freeCount - 1⟩, level_pool_ := ⟨Function.update s.level_pool_.storage lh (some ⟨p, Side.SELL, u32add 0 q, 1, oh, lh, lh⟩), s.level_pool_.freeArr, s.level_pool_.freeCount - 1⟩, order_map_ := Function.update s.order_map_ (id % MAX_ORDERS) (some oh), price_level_map_ := Function.update s.price_level_map_ (priceToIndex p) (some lh) } cur).next })) (derefLevel { s with order_pool_ := ⟨Function.update s.order_pool_.storage oh (some ⟨id, p, q, Side.SELL, oh, oh⟩), s.order_pool_.freeArr, s.order_pool_.freeCount - 1⟩, level_pool_ := ⟨Function.update s.level_pool_.storage lh (some ⟨p, Side.SELL, u32add 0 q, 1, oh, lh, lh⟩), s.level_pool_.freeArr, s.level_pool_.freeCount - 1⟩, order_map_ := Function.update s.order_map_ (id % MAX_ORDERS) (some oh), price_level_map_ := Function.update s.price_level_map_ (priceToIndex p) (some lh) } cur).next (fun l => { l with prev := lh })) cur (fun l => { l with next := lh })) k).side = (derefLevel s k).side ∧
      (derefLevel (setLevel (setLevel (setLevel { s with order_pool_ := ⟨Function.update s.order_pool_.storage oh (some ⟨id, p, q, Side.SELL, oh, oh⟩), s.order_pool_.freeArr, s.order_pool_.freeCount - 1⟩, level_pool_ := ⟨Function.update s.level_pool_.storage lh (some ⟨p, Side.SELL, u32add 0 q, 1, oh, lh, lh⟩), s.level_pool_.freeArr, s.level_pool_.freeCount - 1⟩, order_map_ := Function.update s.order_map_ (id % MAX_ORDERS) (some oh), price_level_map_ := Function.update s.price_level_map_ (priceToIndex p) (some lh) } lh (fun l => { l with prev := cur, next := (derefLevel { s with order_pool_ := ⟨Function.update s.order_pool_.storage oh (some ⟨id, p, q, Side.SELL, oh, oh⟩), s.order_pool_.freeArr, s.order_pool_.freeCount - 1⟩, level_pool_ := ⟨Function.update s.level_pool_.storage lh (some ⟨p, Side.SELL, u32add 0 q, 1, oh, lh, lh⟩), s.level_pool_.freeArr, s.level_pool_.freeCount - 1⟩, order_map_ := Function.update s.order_map_ (id % MAX_ORDERS) (some oh), price_level_map_ := Function.update s.price_level_map_ (priceToIndex p) (some lh) } cur).next })) (derefLevel { s with order_pool_ := ⟨Function.update s.order_pool_.storage oh (some ⟨id, p, q, Side.SELL, oh, oh⟩), s.order_pool_.freeArr, s.order_pool_.freeCount - 1⟩, level_pool_ := ⟨Function.update s.level_pool_.storage lh (some ⟨p, Side.SELL, u32add 0 q, 1, oh, lh, lh⟩), s.level_pool_.freeArr, s.level_pool_.freeCount - 1⟩, order_map_ := Function.update s.order_map_ (id % MAX_ORDERS) (some oh), price_level_map_ := Function.update s.price_level_map_ (priceToIndex p) (some lh) } cur).next (fun l => { l with prev := lh })) cur (fun l => { l with next := lh })) k).first_order = (derefLevel s k).first_order ∧
      (derefLevel (setLevel (setLevel (setLevel { s with order_pool_ := ⟨Function.update s.order_pool_.storage oh (some ⟨id, p, q, Side.SELL, oh, oh⟩), s.order_pool_.freeArr, s.order_pool_.freeCount - 1⟩, level_pool_ := ⟨Function.update s.level_pool_.storage lh (some ⟨p, Side.SELL, u32add 0 q, 1, oh, lh, lh⟩), s.level_pool_.freeArr, s.level_pool_.freeCount - 1⟩, order_map_ := Function.update s.order_map_ (id % MAX_ORDERS) (some oh), price_level_map_ := Function.update s.price_level_map_ (priceToIndex p) (some lh) } lh (fun l => { l with prev := cur, next := (derefLevel { s with order_pool_ := ⟨Function.update s.order_pool_.storage oh (some ⟨id, p, q, Side.SELL, oh, oh⟩), s.order_pool_.freeArr, s.order_pool_.freeCount - 1⟩, level_pool_ := ⟨Function.update s.level_pool_.storage lh (some ⟨p, Side.SELL, u32add 0 q, 1, oh, lh, lh⟩), s.level_pool_.freeArr, s.level_pool_.freeCount - 1⟩, order_map_ := Function.update s.order_map_ (id % MAX_ORDERS) (some oh), price_level_map_ := Function.update s.price_level_map_ (priceToIndex p) (some lh) } cur).next })) (derefLevel { s with order_pool_ := ⟨Function.update s.order_pool_.storage oh (some ⟨id, p, q, Side.SELL, oh, oh⟩), s.order_pool_.freeArr, s.order_pool_.freeCount - 1⟩, level_pool_ := ⟨Function.update s.level_pool_.storage lh (some ⟨p, Side.SELL, u32add 0 q, 1, oh, lh, lh⟩), s.level_pool_.freeArr, s.level_pool_.freeCount - 1⟩, order_map_ := Function.update s.order_map_ (id % MAX_ORDERS) (some oh), price_level_map_ := Function.update s.price_level_map_ (priceToIndex p) (some lh) } cur).next (fun l => { l with prev := lh })) cur (fun l => { l with next := lh })) k).order_count = (derefLevel s k).order_count := by
    intro k h1
    by_cases h3 : k = cur
    · rw [h3, derefLevel_setLevel_same]
      by_cases h2 : cur = ((derefLevel { s with order_pool_ := ⟨Function.update s.order_pool_.storage oh (some ⟨id, p, q, Side.SELL, oh, oh⟩), s.order_pool_.freeArr, s.order_pool_.freeCount - 1⟩, level_pool_ := ⟨Function.update s.level_pool_.storage lh (some ⟨p, Side.SELL, u32add 0 q, 1, oh, lh, lh⟩), s.level_pool_.freeArr, s.level_pool_.freeCount - 1⟩, order_map_ := Function.update s.order_map_ (id % MAX_ORDERS) (some oh), price_level_map_ := Function.update s.price_level_map_ (priceToIndex p) (some lh) } cur).next)
      · rw [← h2, derefLevel_setLevel_same, derefLevel_setLevel_ne _ _ _ hcurne, hT0L _ hcurne]
        exact ⟨rfl, rfl, rfl, rfl⟩
      · rw [derefLevel_setLevel_ne _ _ _ h2, derefLevel_setLevel_ne _ _ _ hcurne, hT0L _ hcurne]
        exact ⟨rfl, rfl, rfl, rfl⟩
    · rw [derefLevel_setLevel_ne _ _ _ h3]
      by_cases h2 : k = ((derefLevel { s with order_pool_ := ⟨Function.update s.order_pool_.storage oh (some ⟨id, p, q, Side.SELL, oh, oh⟩), s.order_pool_.freeArr, s.order_pool_.freeCount - 1⟩, level_pool_ := ⟨Function.update s.level_pool_.storage lh (some ⟨p, Side.SELL, u32add 0 q, 1, oh, lh, lh⟩), s.level_pool_.freeArr, s.level_pool_.freeCount - 1⟩, order_map_ := Function.update s.order_map_ (id % MAX_ORDERS) (some oh), price_level_map_ := Function.update s.price_level_map_ (priceToIndex p) (some lh) } cur).next)
      · rw [h2, derefLevel_setLevel_same, derefLevel_setLevel_ne _ _ _ hNXTne, hT0L _ hNXTne]
        exact ⟨rfl, rfl, rfl, rfl⟩
      · rw [derefLevel_setLevel_ne _ _ _ h2, derefLevel_setLevel_ne _ _ _ h1, hT0L k h1]
        exact ⟨rfl, rfl, rfl, rfl⟩
  have hnCUR : (derefLevel (setLevel (setLevel (setLevel { s with order_pool_ := ⟨Function.update s.order_pool_.storage oh (some ⟨id, p, q, Side.SELL, oh, oh⟩), s.order_pool_.freeArr, s.order_pool_.freeCount - 1⟩, level_pool_ := ⟨Function.update s.level_pool_.storage lh (some ⟨p, Side.SELL, u32add 0 q, 1, oh, lh, lh⟩), s.level_pool_.freeArr, s.level_pool_.freeCount - 1⟩, order_map_ := Function.update s.order_map_ (id % MAX_ORDERS) (some oh), price_level_map_ := Function.update s.price_level_map_ (priceToIndex p) (some lh) } lh (fun l => { l with prev := cur, next := (derefLevel { s with order_pool_ := ⟨Function.update s.order_pool_.storage oh (some ⟨id, p, q, Side.SELL, oh, oh⟩), s.order_pool_.freeArr, s.order_pool_.freeCount - 1⟩, level_pool_ := ⟨Function.update s.level_pool_.storage lh (some ⟨p, Side.SELL, u32add 0 q, 1, oh, lh, lh⟩), s.level_pool_.freeArr, s.level_pool_.freeCount - 1⟩, order_map_ := Function.update s.order_map_ (id % MAX_ORDERS) (some oh), price_level_map_ := Function.update s.price_level_map_ (priceToIndex p) (some lh) } cur).next })) (derefLevel { s with order_pool_ := ⟨Function.update s.order_pool_.storage oh (some ⟨id, p, q, Side.SELL, oh, oh⟩), s.order_pool_.freeArr, s.order_pool_.freeCount - 1⟩, level_pool_ := ⟨Function.update s.level_pool_.storage lh (some ⟨p, Side.SELL, u32add 0 q, 1, oh, lh, lh⟩), s.level_pool_.freeArr, s.level_pool_.freeCount - 1⟩, order_map_ := Function.update s.order_map_ (id % MAX_ORDERS) (some oh), price_level_map_ := Function.update s.price_level_map_ (priceToIndex p) (some lh) } cur).next (fun l => { l with prev := lh })) cur (fun l => { l with next := lh })) cur).next = lh := by
    rw [derefLevel_setLevel_same]
  have hpNXT : (derefLevel (setLevel (setLevel (setLevel { s with order_pool_ := ⟨Function.update s.order_pool_.storage oh (some ⟨id, p, q, Side.SELL, oh, oh⟩), s.order_pool_.freeArr, s.order_pool_.freeCount - 1⟩, level_pool_ := ⟨Function.update s.level_pool_.storage lh (some ⟨p, Side.SELL, u32add 0 q, 1, oh, lh, lh⟩), s.level_pool_.freeArr, s.level_pool_.freeCount - 1⟩, order_map_ := Function.update s.order_map_ (id % MAX_ORDERS) (some oh), price_level_map_ := Function.update s.price_level_map_ (priceToIndex p) (some lh) } lh (fun l => { l with prev := cur, next := (derefLevel { s with order_pool_ := ⟨Function.update s.order_pool_.storage oh (some ⟨id, p, q, Side.SELL, oh, oh⟩), s.order_pool_.freeArr, s.order_pool_.freeCount - 1⟩, level_pool_ := ⟨Function.update s.level_pool_.storage lh (some ⟨p, Side.SELL, u32add 0 q, 1, oh, lh, lh⟩), s.level_pool_.freeArr, s.level_pool_.freeCount - 1⟩, order_map_ := Function.update s.order_map_ (id % MAX_ORDERS) (some oh), price_level_map_ := Function.update s.price_level_map_ (priceToIndex p) (some lh) } cur).next })) (derefLevel { s with order_pool_ := ⟨Function.update s.order_pool_.storage oh (some ⟨id, p, q, Side.SELL, oh, oh⟩), s.order_pool_.freeArr, s.order_pool_.freeCount - 1⟩, level_pool_ := ⟨Function.update s.level_pool_.storage lh (some ⟨p, Side.SELL, u32add 0 q, 1, oh, lh, lh⟩), s.level_pool_.freeArr, s.level_pool_.freeCount - 1⟩, order_map_ := Function.update s.order_map_ (id % MAX_ORDERS) (some oh), price_level_map_ := Function.update s.price_level_map_ (priceToIndex p) (some lh) } cur).next (fun l => { l with prev := lh })) cur (fun l => { l with next := lh })) ((derefLevel { s with order_pool_ := ⟨Function.update s.order_pool_.storage oh (some ⟨id, p, q, Side.SELL, oh, oh⟩), s.order_pool_.freeArr, s.order_pool_.freeCount - 1⟩, level_pool_ := ⟨Function.update s.level_pool_.storage lh (some ⟨p, Side.SELL, u32add 0 q, 1, oh, lh, lh⟩), s.level_pool_.freeArr, s.level_pool_.freeCount - 1⟩, order_map_ := Function.update s.order_map_ (id % MAX_ORDERS) (some oh), price_level_map_ := Function.update s.price_level_map_ (priceToIndex p) (some lh) } cur).next)).prev = lh := by
    by_cases h3 : ((derefLevel { s with order_pool_ := ⟨Function.update s.order_pool_.storage oh (some ⟨id, p, q, Side.SELL, oh, oh⟩), s.order_pool_.freeArr, s.order_pool_.freeCount - 1⟩, level_pool_ := ⟨Function.update s.level_pool_.storage lh (some ⟨p, Side.SELL, u32add 0 q, 1, oh, lh, lh⟩), s.level_pool_.freeArr, s.level_pool_.freeCount - 1⟩, order_map_ := Function.update s.order_map_ (id % MAX_ORDERS) (some oh), price_level_map_ := Function.update s.price_level_map_ (priceToIndex p) (some lh) } cur).next) = cur
    · rw [h3, derefLevel_setLevel_same, derefLevel_setLevel_same]
    · rw [derefLevel_setLevel_ne _ _ _ h3, derefLevel_setLevel_same]
  have hrnF : ∀ k, k ≠ lh → k ≠ cur →
      (derefLevel (setLevel (setLevel (setLevel { s with order_pool_ := ⟨Function.update s.order_pool_.storage oh (some ⟨id, p, q, Side.SELL, oh, oh⟩), s.order_pool_.freeArr, s.order_pool_.freeCount - 1⟩, level_pool_ := ⟨Function.update s.level_pool_.storage lh (some ⟨p, Side.SELL, u32add 0 q, 1, oh, lh, lh⟩), s.level_pool_.freeArr, s.level_pool_.freeCount - 1⟩, order_map_ := Function.update s.order_map_ (id % MAX_ORDERS) (some oh), price_level_map_ := Function.update s.price_level_map_ (priceToIndex p) (some lh) } lh (fun l => { l with prev := cur, next := (derefLevel { s with order_pool_ := ⟨Function.update s.order_pool_.storage oh (some ⟨id, p, q, Side.SELL, oh, oh⟩), s.order_pool_.freeArr, s.order_pool_.freeCount - 1⟩, level_pool_ := ⟨Function.update s.level_pool_.storage lh (some ⟨p, Side.SELL, u32add 0 q, 1, oh, lh, lh⟩), s.level_pool_.freeArr, s.level_pool_.freeCount - 1⟩, order_map_ := Function.update s.order_map_ (id % MAX_ORDERS) (some oh), price_level_map_ := Function.update s.price_level_map_ (priceToIndex p) (some lh) } cur).next })) (derefLevel { s with order_pool_ := ⟨Function.update s.order_pool_.storage oh (some ⟨id, p, q, Side.SELL, oh, oh⟩), s.order_pool_.freeArr, s.order_pool_.freeCount - 1⟩, level_pool_ := ⟨Function.update s.level_pool_.storage lh (some ⟨p, Side.SELL, u32add 0 q, 1, oh, lh, lh⟩), s.level_pool_.freeArr, s.level_pool_.freeCount - 1⟩, order_map_ := Function.update s.order_map_ (id % MAX_ORDERS) (some oh), price_level_map_ := Function.update s.price_level_map_ (priceToIndex p) (some lh) } cur).next (fun l => { l with prev := lh })) cur (fun l => { l with next := lh })) k).next = (derefLevel s k).next := by
    intro k hkl hkc
    rw [derefLevel_setLevel_ne _ _ _ hkc]
    by_cases h2 : k = ((derefLevel { s with order_pool_ := ⟨Function.update s.order_pool_.storage oh (some ⟨id, p, q, Side.SELL, oh, oh⟩), s.order_pool_.freeArr, s.order_pool_.freeCount - 1⟩, level_pool_ := ⟨Function.update s.level_pool_.storage lh (some ⟨p, Side.SELL, u32add 0 q, 1, oh, lh, lh⟩), s.level_pool_.freeArr, s.level_pool_.freeCount - 1⟩, order_map_ := Function.update s.order_map_ (id % MAX_ORDERS) (some oh), price_level_map_ := Function.update s.price_level_map_ (priceToIndex p) (some lh) } cur).next)
    · rw [h2, derefLevel_setLevel_same, derefLevel_setLevel_ne _ _ _ hNXTne, hT0L _ hNXTne]
    · rw [derefLevel_setLevel_ne _ _ _ h2, derefLevel_setLevel_ne _ _ _ hkl, hT0L k hkl]
  have hrpF : ∀ k, k ≠ lh → k ≠ ((derefLevel { s with order_pool_ := ⟨Function.update s.order_pool_.storage oh (some ⟨id, p, q, Side.SELL, oh, oh⟩), s.order_pool_.freeArr, s.order_pool_.freeCount - 1⟩, level_pool_ := ⟨Function.update s.level_pool_.storage lh (some ⟨p, Side.SELL, u32add 0 q, 1, oh, lh, lh⟩), s.level_pool_.freeArr, s.level_pool_.freeCount - 1⟩, order_map_ := Function.update s.order_map_ (id % MAX_ORDERS) (some oh), price_level_map_ := Function.update s.price_level_map_ (priceToIndex p) (some lh) } cur).next) →
      (derefLevel (setLevel (setLevel (setLevel { s with order_pool_ := ⟨Function.update s.order_pool_.storage oh (some ⟨id, p, q, Side.SELL, oh, oh⟩), s.order_pool_.freeArr, s.order_pool_.freeCount - 1⟩, level_pool_ := ⟨Function.update s.level_pool_.storage lh (some ⟨p, Side.SELL, u32add 0 q, 1, oh, lh, lh⟩), s.level_pool_.freeArr, s.level_pool_.freeCount - 1⟩, order_map_ := Function.update s.order_map_ (id % MAX_ORDERS) (some oh), price_level_map_ := Function.update s.price_level_map_ (priceToIndex p) (some lh) } lh (fun l => { l with prev := cur, next := (derefLevel { s with order_pool_ := ⟨Function.update s.order_pool_.storage oh (some ⟨id, p, q, Side.SELL, oh, oh⟩), s.order_pool_.freeArr, s.order_pool_.freeCount - 1⟩, level_pool_ := ⟨Function.update s.level_pool_.storage lh (some ⟨p, Side.SELL, u32add 0 q, 1, oh, lh, lh⟩), s.level_pool_.freeArr, s.level_pool_.freeCount - 1⟩, order_map_ := Function.update s.order_map_ (id % MAX_ORDERS) (some oh), price_level_map_ := Function.update s.price_level_map_ (priceToIndex p) (some lh) } cur).next })) (derefLevel { s with order_pool_ := ⟨Function.update s.order_pool_.storage oh (some ⟨id, p, q, Side.SELL, oh, oh⟩), s.order_pool_.freeArr, s.order_pool_.freeCount - 1⟩, level_pool_ := ⟨Function.update s.level_pool_.storage lh (some ⟨p, Side.SELL, u32add 0 q, 1, oh, lh, lh⟩), s.level_pool_.freeArr, s.level_pool_.freeCount - 1⟩, order_map_ := Function.update s.order_map_ (id % MAX_ORDERS) (some oh), price_level_map_ := Function.update s.price_level_map_ (priceToIndex p) (some lh) } cur).next (fun l => { l with prev := lh })) cur (fun l => { l with next := lh })) k).prev = (derefLevel s k).prev := by
    intro k hkl hkn
    by_cases h3 : k = cur
    · rw [h3, derefLevel_setLevel_same, derefLevel_setLevel_ne _ _ _ (h3 ▸ hkn),
        derefLevel_setLevel_ne _ _ _ hcurne, hT0L _ hcurne]
    · rw [derefLevel_setLevel_ne _ _ _ h3, derefLevel_setLevel_ne _ _ _ hkn,
        derefLevel_setLevel_ne _ _ _ hkl, hT0L k hkl]
  -- level-pool liveness through the chain of writes
  have hS1Llive : ∀ k, (({ s with order_pool_ := ⟨Function.update s.order_pool_.storage oh (some ⟨id, p, q, Side.SELL, oh, oh⟩), s.order_pool_.freeArr, s.order_pool_.freeCount - 1⟩, level_pool_ := ⟨Function.update s.level_pool_.storage lh (some ⟨p, Side.SELL, u32add 0 q, 1, oh, lh, lh⟩), s.level_pool_.freeArr, s.level_pool_.freeCount - 1⟩, order_map_ := Function.update s.order_map_ (id % MAX_ORDERS) (some oh), price_level_map_ := Function.update s.price_level_map_ (priceToIndex p) (some lh) }).level_pool_.storage k).isSome ↔
      ((s.level_pool_.storage k).isSome ∨ k = lh) := by
    intro k
    by_cases hk : k = lh
    · show (Function.update s.level_pool_.storage lh (some ⟨p, Side.SELL, u32add 0 q, 1, oh, lh, lh⟩) k).isSome ↔ _
      rw [hk, Function.update_same]
      simp [hk]
    · show (Function.update s.level_pool_.storage lh (some ⟨p, Side.SELL, u32add 0 q, 1, oh, lh, lh⟩) k).isSome ↔ _
      rw [Function.update_noteq hk]
      simp [hk]
  have hT0lhIsSome : (({ s with order_pool_ := ⟨Function.update s.order_pool_.storage oh (some ⟨id, p, q, Side.SELL, oh, oh⟩), s.order_pool_.freeArr, s.order_pool_.freeCount - 1⟩, level_pool_ := ⟨Function.update s.level_pool_.storage lh (some ⟨p, Side.SELL, u32add 0 q, 1, oh, lh, lh⟩), s.level_pool_.freeArr, s.level_pool_.freeCount - 1⟩, order_map_ := Function.update s.order_map_ (id % MAX_ORDERS) (some oh), price_level_map_ := Function.update s.price_level_map_ (priceToIndex p) (some lh) }).level_pool_.storage lh).isSome := by
    show (Function.update s.level_pool_.storage lh (some ⟨p, Side.SELL, u32add 0 q, 1, oh, lh, lh⟩) lh).isSome
    rw [Function.update_same]
    rfl
  have hlive1 : ∀ k, ((setLevel { s with order_pool_ := ⟨Function.update s.order_pool_.storage oh (some ⟨id, p, q, Side.SELL, oh, oh⟩), s.order_pool_.freeArr, s.order_pool_.freeCount - 1⟩, level_pool_ := ⟨Function.update s.level_pool_.storage lh (some ⟨p, Side.SELL, u32add 0 q, 1, oh, lh, lh⟩), s.level_pool_.freeArr, s.level_pool_.freeCount - 1⟩, order_map_ := Function.update s.order_map_ (id % MAX_ORDERS) (some oh), price_level_map_ := Function.update s.price_level_map_ (priceToIndex p) (some lh) } lh (fun l => { l with prev := cur, next := (derefLevel { s with order_pool_ := ⟨Function.update s.order_pool_.storage oh (some ⟨id, p, q, Side.SELL, oh, oh⟩), s.order_pool_.freeArr, s.order_pool_.freeCount - 1⟩, level_pool_ := ⟨Function.update s.level_pool_.storage lh (some ⟨p, Side.SELL, u32add 0 q, 1, oh, lh, lh⟩), s.level_pool_.freeArr, s.level_pool_.freeCount - 1⟩, order_map_ := Function.update s.order_map_ (id % MAX_ORDERS) (some oh), price_level_map_ := Function.update s.price_level_map_ (priceToIndex p) (some lh) } cur).next })).level_pool_.storage k).isSome =
      (({ s with order_pool_ := ⟨Function.update s.order_pool_.storage oh (some ⟨id, p, q, Side.SELL, oh, oh⟩), s.order_pool_.freeArr, s.order_pool_.freeCount - 1⟩, level_pool_ := ⟨Function.update s.level_pool_.storage lh (some ⟨p, Side.SELL, u32add 0 q, 1, oh, lh, lh⟩), s.level_pool_.freeArr, s.level_pool_.freeCount - 1⟩, order_map_ := Function.update s.order_map_ (id % MAX_ORDERS) (some oh), price_level_map_ := Function.update s.price_level_map_ (priceToIndex p) (some lh) }).level_pool_.storage k).isSome :=
    setLevel_storage_isSome ({ s with order_pool_ := ⟨Function.update s.order_pool_.storage oh (some ⟨id, p, q, Side.SELL, oh, oh⟩), s.order_pool_.freeArr, s.order_pool_.freeCount - 1⟩, level_pool_ := ⟨Function.update s.level_pool_.storage lh (some ⟨p, Side.SELL, u32add 0 q, 1, oh, lh, lh⟩), s.level_pool_.freeArr, s.level_pool_.freeCount - 1⟩, order_map_ := Function.update s.order_map_ (id % MAX_ORDERS) (some oh), price_level_map_ := Function.update s.price_level_map_ (priceToIndex p) (some lh) }) lh _ hT0lhIsSome
  have hNXTliveP1 : ((setLevel { s with order_pool_ := ⟨Function.update s.order_pool_.storage oh (some ⟨id, p, q, Side.SELL, oh, oh⟩), s.order_pool_.freeArr, s.order_pool_.freeCount - 1⟩, level_pool_ := ⟨Function.update s.level_pool_.storage lh (some ⟨p, Side.SELL, u32add 0 q, 1, oh, lh, lh⟩), s.level_pool_.freeArr, s.level_pool_.freeCount - 1⟩, order_map_ := Function.update s.order_map_ (id % MAX_ORDERS) (some oh), price_level_map_ := Function.update s.price_level_map_ (priceToIndex p) (some lh) } lh (fun l => { l with prev := cur, next := (derefLevel { s with order_pool_ := ⟨Function.update s.order_pool_.storage oh (some ⟨id, p, q, Side.SELL, oh, oh⟩), s.order_pool_.freeArr, s.order_pool_.freeCount - 1⟩, level_pool_ := ⟨Function.update s.level_pool_.storage lh (some ⟨p, Side.SELL, u32add 0 q, 1, oh, lh, lh⟩), s.level_pool_.freeArr, s.level_pool_.freeCount - 1⟩, order_map_ := Function.update s.order_map_ (id % MAX_ORDERS) (some oh), price_level_map_ := Function.update s.price_level_map_ (priceToIndex p) (some lh) } cur).next })).level_pool_.storage ((derefLevel { s with order_pool_ := ⟨Function.update s.order_pool_.storage oh (some ⟨id, p, q, Side.SELL, oh, oh⟩), s.order_pool_.freeArr, s.order_pool_.freeCount - 1⟩, level_pool_ := ⟨Function.update s.level_pool_.storage lh (some ⟨p, Side.SELL, u32add 0 q, 1, oh, lh, lh⟩), s.level_pool_.freeArr, s.level_pool_.freeCount - 1⟩, order_map_ := Function.update s.order_map_ (id % MAX_ORDERS) (some oh), price_level_map_ := Function.update s.price_level_map_ (priceToIndex p) (some lh) } cur).next)).isSome := by
    rw [hlive1]
    exact (hS1Llive _).mpr (Or.inl hNXTlive)
  have hlive2 : ∀ k, ((setLevel (setLevel { s with order_pool_ := ⟨Function.update s.order_pool_.storage oh (some ⟨id, p, q, Side.SELL, oh, oh⟩), s.order_pool_.freeArr, s.order_pool_.freeCount - 1⟩, level_pool_ := ⟨Function.update s.level_pool_.storage lh (some ⟨p, Side.SELL, u32add 0 q, 1, oh, lh, lh⟩), s.level_pool_.freeArr, s.level_pool_.freeCount - 1⟩, order_map_ := Function.update s.order_map_ (id % MAX_ORDERS) (some oh), price_level_map_ := Function.update s.price_level_map_ (priceToIndex p) (some lh) } lh (fun l => { l with prev := cur, next := (derefLevel { s with order_pool_ := ⟨Function.update s.order_pool_.storage oh (some ⟨id, p, q, Side.SELL, oh, oh⟩), s.order_pool_.freeArr, s.order_pool_.freeCount - 1⟩, level_pool_ := ⟨Function.update s.level_pool_.storage lh (some ⟨p, Side.SELL, u32add 0 q, 1, oh, lh, lh⟩), s.level_pool_.freeArr, s.level_pool_.freeCount - 1⟩, order_map_ := Function.update s.order_map_ (id % MAX_ORDERS) (some oh), price_level_map_ := Function.update s.price_level_map_ (priceToIndex p) (some lh) } cur).next })) (derefLevel { s with order_pool_ := ⟨Function.update s.order_pool_.storage oh (some ⟨id, p, q, Side.SELL, oh, oh⟩), s.order_pool_.freeArr, s.order_pool_.freeCount - 1⟩, level_pool_ := ⟨Function.update s.level_pool_.storage lh (some ⟨p, Side.SELL, u32add 0 q, 1, oh, lh, lh⟩), s.level_pool_.freeArr, s.level_pool_.freeCount - 1⟩, order_map_ := Function.update s.order_map_ (id % MAX_ORDERS) (some oh), price_level_map_ := Function.update s.price_level_map_ (priceToIndex p) (some lh) } cur).next (fun l => { l with prev := lh })).level_pool_.storage k).isSome =
      ((setLevel { s with order_pool_ := ⟨Function.update s.order_pool_.storage oh (some ⟨id, p, q, Side.SELL, oh, oh⟩), s.order_pool_.freeArr, s.order_pool_.freeCount - 1⟩, level_pool_ := ⟨Function.update s.level_pool_.storage lh (some ⟨p, Side.SELL, u32add 0 q, 1, oh, lh, lh⟩), s.level_pool_.freeArr, s.level_pool_.freeCount - 1⟩, order_map_ := Function.update s.order_map_ (id % MAX_ORDERS) (some oh), price_level_map_ := Function.update s.price_level_map_ (priceToIndex p) (some lh) } lh (fun l => { l with prev := cur, next := (derefLevel { s with order_pool_ := ⟨Function.update s.order_pool_.storage oh (some ⟨id, p, q, Side.SELL, oh, oh⟩), s.order_pool_.freeArr, s.order_pool_.freeCount - 1⟩, level_pool_ := ⟨Function.update s.level_pool_.storage lh (some ⟨p, Side.SELL, u32add 0 q, 1, oh, lh, lh⟩), s.level_pool_.freeArr, s.level_pool_.freeCount - 1⟩, order_map_ := Function.update s.order_map_ (id % MAX_ORDERS) (some oh), price_level_map_ := Function.update s.price_level_map_ (priceToIndex p) (some lh) } cur).next })).level_pool_.storage k).isSome :=
    setLevel_storage_isSome (setLevel { s with order_pool_ := ⟨Function.update s.order_pool_.storage oh (some ⟨id, p, q, Side.SELL, oh, oh⟩), s.order_pool_.freeArr, s.order_pool_.freeCount - 1⟩, level_pool_ := ⟨Function.update s.level_pool_.storage lh (some ⟨p, Side.SELL, u32add 0 q, 1, oh, lh, lh⟩), s.level_pool_.freeArr, s.level_pool_.freeCount - 1⟩, order_map_ := Function.update s.order_map_ (id % MAX_ORDERS) (some oh), price_level_map_ := Function.update s.price_level_map_ (priceToIndex p) (some lh) } lh (fun l => { l with prev := cur, next := (derefLevel { s with order_pool_ := ⟨Function.update s.order_pool_.storage oh (some ⟨id, p, q, Side.SELL, oh, oh⟩), s.order_pool_.freeArr, s.order_pool_.freeCount - 1⟩, level_pool_ := ⟨Function.update s.level_pool_.storage lh (some ⟨p, Side.SELL, u32add 0 q, 1, oh, lh, lh⟩), s.level_pool_.freeArr, s.level_pool_.freeCount - 1⟩, order_map_ := Function.update s.order_map_ (id % MAX_ORDERS) (some oh), price_level_map_ := Function.update s.price_level_map_ (priceToIndex p) (some lh) } cur).next })) ((derefLevel { s with order_pool_ := ⟨Function.update s.order_pool_.storage oh (some ⟨id, p, q, Side.SELL, oh, oh⟩), s.order_pool_.freeArr, s.order_pool_.freeCount - 1⟩, level_pool_ := ⟨Function.update s.level_pool_.storage lh (some ⟨p, Side.SELL, u32add 0 q, 1, oh, lh, lh⟩), s.level_pool_.freeArr, s.level_pool_.freeCount - 1⟩, order_map_ := Function.update s.order_map_ (id % MAX_ORDERS) (some oh), price_level_map_ := Function.update s.price_level_map_ (priceToIndex p) (some lh) } cur).next) _ hNXTliveP1
  have hcurliveP2 : ((setLevel (setLevel { s with order_pool_ := ⟨Function.update s.order_pool_.storage oh (some ⟨id, p, q, Side.SELL, oh, oh⟩), s.order_pool_.freeArr, s.order_pool_.freeCount - 1⟩, level_pool_ := ⟨Function.update s.level_pool_.storage lh (some ⟨p, Side.SELL, u32add 0 q, 1, oh, lh, lh⟩), s.level_pool_.freeArr, s.level_pool_.freeCount - 1⟩, order_map_ := Function.update s.order_map_ (id % MAX_ORDERS) (some oh), price_level_map_ := Function.update s.price_level_map_ (priceToIndex p) (some lh) } lh (fun l => { l with prev := cur, next := (derefLevel { s with order_pool_ := ⟨Function.update s.order_pool_.storage oh (some ⟨id, p, q, Side.SELL, oh, oh⟩), s.order_pool_.freeArr, s.order_pool_.freeCount - 1⟩, level_pool_ := ⟨Function.update s.level_pool_.storage lh (some ⟨p, Side.SELL, u32add 0 q, 1, oh, lh, lh⟩), s.level_pool_.freeArr, s.level_pool_.freeCount - 1⟩, order_map_ := Function.update s.order_map_ (id % MAX_ORDERS) (some oh), price_level_map_ := Function.update s.price_level_map_ (priceToIndex p) (some lh) } cur).next })) (derefLevel { s with order_pool_ := ⟨Function.update s.order_pool_.storage oh (some ⟨id, p, q, Side.SELL, oh, oh⟩), s.order_pool_.freeArr, s.order_pool_.freeCount - 1⟩, level_pool_ := ⟨Function.update s.level_pool_.storage lh (some ⟨p, Side.SELL, u32add 0 q, 1, oh, lh, lh⟩), s.level_pool_.freeArr, s.level_pool_.freeCount - 1⟩, order_map_ := Function.update s.order_map_ (id % MAX_ORDERS) (some oh), price_level_map_ := Function.update s.price_level_map_ (priceToIndex p) (some lh) } cur).next (fun l => { l with prev := lh })).level_pool_.storage cur).isSome := by
    rw [hlive2, hlive1]
    exact (hS1Llive _).mpr (Or.inl hcurlive)
  have hlive3 : ∀ k, ((setLevel (setLevel (setLevel { s with order_pool_ := ⟨Function.update s.order_pool_.storage oh (some ⟨id, p, q, Side.SELL, oh, oh⟩), s.order_pool_.freeArr, s.order_pool_.freeCount - 1⟩, level_pool_ := ⟨Function.update s.level_pool_.storage lh (some ⟨p, Side.SELL, u32add 0 q, 1, oh, lh, lh⟩), s.level_pool_.freeArr, s.level_pool_.freeCount - 1⟩, order_map_ := Function.update s.order_map_ (id % MAX_ORDERS) (some oh), price_level_map_ := Function.update s.price_level_map_ (priceToIndex p) (some lh) } lh (fun l => { l with prev := cur, next := (derefLevel { s with order_pool_ := ⟨Function.update s.order_pool_.storage oh (some ⟨id, p, q, Side.SELL, oh, oh⟩), s.order_pool_.freeArr, s.order_pool_.freeCount - 1⟩, level_pool_ := ⟨Function.update s.level_pool_.storage lh (some ⟨p, Side.SELL, u32add 0 q, 1, oh, lh, lh⟩), s.level_pool_.freeArr, s.level_pool_.freeCount - 1⟩, order_map_ := Function.update s.order_map_ (id % MAX_ORDERS) (some oh), price_level_map_ := Function.update s.price_level_map_ (priceToIndex p) (some lh) } cur).next })) (derefLevel { s with order_pool_ := ⟨Function.update s.order_pool_.storage oh (some ⟨id, p, q, Side.SELL, oh, oh⟩), s.order_pool_.freeArr, s.order_pool_.freeCount - 1⟩, level_pool_ := ⟨Function.update s.level_pool_.storage lh (some ⟨p, Side.SELL, u32add 0 q, 1, oh, lh, lh⟩), s.level_pool_.freeArr, s.level_pool_.freeCount - 1⟩, order_map_ := Function.update s.order_map_ (id % MAX_ORDERS) (some oh), price_level_map_ := Function.update s.price_level_map_ (priceToIndex p) (some lh) } cur).next (fun l => { l with prev := lh })) cur (fun l => { l with next := lh })).level_pool_.storage k).isSome =
      ((setLevel (setLevel { s with order_pool_ := ⟨Function.update s.order_pool_.storage oh (some ⟨id, p, q, Side.SELL, oh, oh⟩), s.order_pool_.freeArr, s.order_pool_.freeCount - 1⟩, level_pool_ := ⟨Function.update s.level_pool_.storage lh (some ⟨p, Side.SELL, u32add 0 q, 1, oh, lh, lh⟩), s.level_pool_.freeArr, s.level_pool_.freeCount - 1⟩, order_map_ := Function.update s.order_map_ (id % MAX_ORDERS) (some oh), price_level_map_ := Function.update s.price_level_map_ (priceToIndex p) (some lh) } lh (fun l => { l with prev := cur, next := (derefLevel { s with order_pool_ := ⟨Function.update s.order_pool_.storage oh (some ⟨id, p, q, Side.SELL, oh, oh⟩), s.order_pool_.freeArr, s.order_pool_.freeCount - 1⟩, level_pool_ := ⟨Function.update s.level_pool_.storage lh (some ⟨p, Side.SELL, u32add 0 q, 1, oh, lh, lh⟩), s.level_pool_.freeArr, s.level_pool_.freeCount - 1⟩, order_map_ := Function.update s.order_map_ (id % MAX_ORDERS) (some oh), price_level_map_ := Function.update s.price_level_map_ (priceToIndex p) (some lh) } cur).next })) (derefLevel { s with order_pool_ := ⟨Function.update s.order_pool_.storage oh (some ⟨id, p, q, Side.SELL, oh, oh⟩), s.order_pool_.freeArr, s.order_pool_.freeCount - 1⟩, level_pool_ := ⟨Function.update s.level_pool_.storage lh (some ⟨p, Side.SELL, u32add 0 q, 1, oh, lh, lh⟩), s.level_pool_.freeArr, s.level_pool_.freeCount - 1⟩, order_map_ := Function.update s.order_map_ (id % MAX_ORDERS) (some oh), price_level_map_ := Function.update s.price_level_map_ (priceToIndex p) (some lh) } cur).next (fun l => { l with prev := lh })).level_pool_.storage k).isSome :=
    setLevel_storage_isSome (setLevel (setLevel { s with order_pool_ := ⟨Function.update s.order_pool_.storage oh (some ⟨id, p, q, Side.SELL, oh, oh⟩), s.order_pool_.freeArr, s.order_pool_.freeCount - 1⟩, level_pool_ := ⟨Function.update s.level_pool_.storage lh (some ⟨p, Side.SELL, u32add 0 q, 1, oh, lh, lh⟩), s.level_pool_.freeArr, s.level_pool_.freeCount - 1⟩, order_map_ := Function.update s.order_map_ (id % MAX_ORDERS) (some oh), price_level_map_ := Function.update s.price_level_map_ (priceToIndex p) (some lh) } lh (fun l => { l with prev := cur, next := (derefLevel { s with order_pool_ := ⟨Function.update s.order_pool_.storage oh (some ⟨id, p, q, Side.SELL, oh, oh⟩), s.order_pool_.freeArr, s.order_pool_.freeCount - 1⟩, level_pool_ := ⟨Function.update s.level_pool_.storage lh (some ⟨p, Side.SELL, u32add 0 q, 1, oh, lh, lh⟩), s.level_pool_.freeArr, s.level_pool_.freeCount - 1⟩, order_map_ := Function.update s.order_map_ (id % MAX_ORDERS) (some oh), price_level_map_ := Function.update s.price_level_map_ (priceToIndex p) (some lh) } cur).next })) (derefLevel { s with order_pool_ := ⟨Function.update s.order_pool_.storage oh (some ⟨id, p, q, Side.SELL, oh, oh⟩), s.order_pool_.freeArr, s.order_pool_.freeCount - 1⟩, level_pool_ := ⟨Function.update s.level_pool_.storage lh (some ⟨p, Side.SELL, u32add 0 q, 1, oh, lh, lh⟩), s.level_pool_.freeArr, s.level_pool_.freeCount - 1⟩, order_map_ := Function.update s.order_map_ (id % MAX_ORDERS) (some oh), price_level_map_ := Function.update s.price_level_map_ (priceToIndex p) (some lh) } cur).next (fun l => { l with prev := lh })) cur _ hcurliveP2
  have hliveLF : ∀ k, ((setLevel (setLevel (setLevel { s with order_pool_ := ⟨Function.update s.order_pool_.storage oh (some ⟨id, p, q, Side.SELL, oh, oh⟩), s.order_pool_.freeArr, s.order_pool_.freeCount - 1⟩, level_pool_ := ⟨Function.update s.level_pool_.storage lh (some ⟨p, Side.SELL, u32add 0 q, 1, oh, lh, lh⟩), s.level_pool_.freeArr, s.level_pool_.freeCount - 1⟩, order_map_ := Function.update s.order_map_ (id % MAX_ORDERS) (some oh), price_level_map_ := Function.update s.price_level_map_ (priceToIndex p) (some lh) } lh (fun l => { l with prev := cur, next := (derefLevel { s with order_pool_ := ⟨Function.update s.order_pool_.storage oh (some ⟨id, p, q, Side.SELL, oh, oh⟩), s.order_pool_.freeArr, s.order_pool_.freeCount - 1⟩, level_pool_ := ⟨Function.update s.level_pool_.storage lh (some ⟨p, Side.SELL, u32add 0 q, 1, oh, lh, lh⟩), s.level_pool_.freeArr, s.level_pool_.freeCount - 1⟩, order_map_ := Function.update s.order_map_ (id % MAX_ORDERS) (some oh), price_level_map_ := Function.update s.price_level_map_ (priceToIndex p) (some lh) } cur).next })) (derefLevel { s with order_pool_ := ⟨Function.update s.order_pool_.storage oh (some ⟨id, p, q, Side.SELL, oh, oh⟩), s.order_pool_.freeArr, s.order_pool_.freeCount - 1⟩, level_pool_ := ⟨Function.update s.level_pool_.storage lh (some ⟨p, Side.SELL, u32add 0 q, 1, oh, lh, lh⟩), s.level_pool_.freeArr, s.level_pool_.freeCount - 1⟩, order_map_ := Function.update s.order_map_ (id % MAX_ORDERS) (some oh), price_level_map_ := Function.update s.price_level_map_ (priceToIndex p) (some lh) } cur).next (fun l => { l with prev := lh })) cur (fun l => { l with next := lh })).level_pool_.storage k).isSome =
      (({ s with order_pool_ := ⟨Function.update s.order_pool_.storage oh (some ⟨id, p, q, Side.SELL, oh, oh⟩), s.order_pool_.freeArr, s.order_pool_.freeCount - 1⟩, level_pool_ := ⟨Function.update s.level_pool_.storage lh (some ⟨p, Side.SELL, u32add 0 q, 1, oh, lh, lh⟩), s.level_pool_.freeArr, s.level_pool_.freeCount - 1⟩, order_map_ := Function.update s.order_map_ (id % MAX_ORDERS) (some oh), price_level_map_ := Function.update s.price_level_map_ (priceToIndex p) (some lh) }).level_pool_.storage k).isSome := by
    intro k
    rw [hlive3 k, hlive2 k, hlive1 k]
  -- the side cycle with the fresh level inserted after cur
  have hlhnotmem : lh ∉ G.asksL := by
    intro hm
    exact hnotlh lh ((hwf.levels.lvlLive lh).mpr (List.mem_append.mpr (Or.inr hm))) rfl
  have hins := cycle_insertAfter_update
    (fun k => (derefLevel s k).next) (fun k => (derefLevel s k).prev)
    (fun k => (derefLevel (setLevel (setLevel (setLevel { s with order_pool_ := ⟨Function.update s.order_pool_.storage oh (some ⟨id, p, q, Side.SELL, oh, oh⟩), s.order_pool_.freeArr, s.order_pool_.freeCount - 1⟩, level_pool_ := ⟨Function.update s.level_pool_.storage lh (some ⟨p, Side.SELL, u32add 0 q, 1, oh, lh, lh⟩), s.level_pool_.freeArr, s.level_pool_.freeCount - 1⟩, order_map_ := Function.update s.order_map_ (id % MAX_ORDERS) (some oh), price_level_map_ := Function.update s.price_level_map_ (priceToIndex p) (some lh) } lh (fun l => { l with prev := cur, next := (derefLevel { s with order_pool_ := ⟨Function.update s.order_pool_.storage oh (some ⟨id, p, q, Side.SELL, oh, oh⟩), s.order_pool_.freeArr, s.order_pool_.freeCount - 1⟩, level_pool_ := ⟨Function.update s.level_pool_.storage lh (some ⟨p, Side.SELL, u32add 0 q, 1, oh, lh, lh⟩), s.level_pool_.freeArr, s.level_pool_.freeCount - 1⟩, order_map_ := Function.update s.order_map_ (id % MAX_ORDERS) (some oh), price_level_map_ := Function.update s.price_level_map_ (priceToIndex p) (some lh) } cur).next })) (derefLevel { s with order_pool_ := ⟨Function.update s.order_pool_.storage oh (some ⟨id, p, q, Side.SELL, oh, oh⟩), s.order_pool_.freeArr, s.order_pool_.freeCount - 1⟩, level_pool_ := ⟨Function.update s.level_pool_.storage lh (some ⟨p, Side.SELL, u32add 0 q, 1, oh, lh, lh⟩), s.level_pool_.freeArr, s.level_pool_.freeCount - 1⟩, order_map_ := Function.update s.order_map_ (id % MAX_ORDERS) (some oh), price_level_map_ := Function.update s.price_level_map_ (priceToIndex p) (some lh) } cur).next (fun l => { l with prev := lh })) cur (fun l => { l with next := lh })) k).next) (fun k => (derefLevel (setLevel (setLevel (setLevel { s with order_pool_ := ⟨Function.update s.order_pool_.storage oh (some ⟨id, p, q, Side.SELL, oh, oh⟩), s.order_pool_.freeArr, s.order_pool_.freeCount - 1⟩, level_pool_ := ⟨Function.update s.level_pool_.storage lh (some ⟨p, Side.SELL, u32add 0 q, 1, oh, lh, lh⟩), s.level_pool_.freeArr, s.level_pool_.freeCount - 1⟩, order_map_ := Function.update s.order_map_ (id % MAX_ORDERS) (some oh), price_level_map_ := Function.update s.price_level_map_ (priceToIndex p) (some lh) } lh (fun l => { l with prev := cur, next := (derefLevel { s with order_pool_ := ⟨Function.update s.order_pool_.storage oh (some ⟨id, p, q, Side.SELL, oh, oh⟩), s.order_pool_.freeArr, s.order_pool_.freeCount - 1⟩, level_pool_ := ⟨Function.update s.level_pool_.storage lh (some ⟨p, Side.SELL, u32add 0 q, 1, oh, lh, lh⟩), s.level_pool_.freeArr, s.level_pool_.freeCount - 1⟩, order_map_ := Function.update s.order_map_ (id % MAX_ORDERS) (some oh), price_level_map_ := Function.update s.price_level_map_ (priceToIndex p) (some lh) } cur).next })) (derefLevel { s with order_pool_ := ⟨Function.update s.order_pool_.storage oh (some ⟨id, p, q, Side.SELL, oh, oh⟩), s.order_pool_.freeArr, s.order_pool_.freeCount - 1⟩, level_pool_ := ⟨Function.update s.level_pool_.storage lh (some ⟨p, Side.SELL, u32add 0 q, 1, oh, lh, lh⟩), s.level_pool_.freeArr, s.level_pool_.freeCount - 1⟩, order_map_ := Function.update s.order_map_ (id % MAX_ORDERS) (some oh), price_level_map_ := Function.update s.price_level_map_ (priceToIndex p) (some lh) } cur).next (fun l => { l with prev := lh })) cur (fun l => { l with next := lh })) k).prev)
    hwf.levels.asksCyc hndB hcur hlhnotmem
    (by show (derefLevel (setLevel (setLevel (setLevel { s with order_pool_ := ⟨Function.update s.order_pool_.storage oh (some ⟨id, p, q, Side.SELL, oh, oh⟩), s.order_pool_.freeArr, s.order_pool_.freeCount - 1⟩, level_pool_ := ⟨Function.update s.level_pool_.storage lh (some ⟨p, Side.SELL, u32add 0 q, 1, oh, lh, lh⟩), s.level_pool_.freeArr, s.level_pool_.freeCount - 1⟩, order_map_ := Function.update s.order_map_ (id % MAX_ORDERS) (some oh), price_level_map_ := Function.update s.price_level_map_ (priceToIndex p) (some lh) } lh (fun l => { l with prev := cur, next := (derefLevel { s with order_pool_ := ⟨Function.update s.order_pool_.storage oh (some ⟨id, p, q, Side.SELL, oh, oh⟩), s.order_pool_.freeArr, s.order_pool_.freeCount - 1⟩, level_pool_ := ⟨Function.update s.level_pool_.storage lh (some ⟨p, Side.SELL, u32add 0 q, 1, oh, lh, lh⟩), s.level_pool_.freeArr, s.level_pool_.freeCount - 1⟩, order_map_ := Function.update s.order_map_ (id % MAX_ORDERS) (some oh), price_level_map_ := Function.update s.price_level_map_ (priceToIndex p) (some lh) } cur).next })) (derefLevel { s with order_pool_ := ⟨Function.update s.order_pool_.storage oh (some ⟨id, p, q, Side.SELL, oh, oh⟩), s.order_pool_.freeArr, s.order_pool_.freeCount - 1⟩, level_pool_ := ⟨Function.update s.level_pool_.storage lh (some ⟨p, Side.SELL, u32add 0 q, 1, oh, lh, lh⟩), s.level_pool_.freeArr, s.level_pool_.freeCount - 1⟩, order_map_ := Function.update s.order_map_ (id % MAX_ORDERS) (some oh), price_level_map_ := Function.update s.price_level_map_ (priceToIndex p) (some lh) } cur).next (fun l => { l with prev := lh })) cur (fun l => { l with next := lh })) cur).next = lh
        exact hnCUR)
    (by show (derefLevel (setLevel (setLevel (setLevel { s with order_pool_ := ⟨Function.update s.order_pool_.storage oh (some ⟨id, p, q, Side.SELL, oh, oh⟩), s.order_pool_.freeArr, s.order_pool_.freeCount - 1⟩, level_pool_ := ⟨Function.update s.level_pool_.storage lh (some ⟨p, Side.SELL, u32add 0 q, 1, oh, lh, lh⟩), s.level_pool_.freeArr, s.level_pool_.freeCount - 1⟩, order_map_ := Function.update s.order_map_ (id % MAX_ORDERS) (some oh), price_level_map_ := Function.update s.price_level_map_ (priceToIndex p) (some lh) } lh (fun l => { l with prev := cur, next := (derefLevel { s with order_pool_ := ⟨Function.update s.order_pool_.storage oh (some ⟨id, p, q, Side.SELL, oh, oh⟩), s.order_pool_.freeArr, s.order_pool_.freeCount - 1⟩, level_pool_ := ⟨Function.update s.level_pool_.storage lh (some ⟨p, Side.SELL, u32add 0 q, 1, oh, lh, lh⟩), s.level_pool_.freeArr, s.level_pool_.freeCount - 1⟩, order_map_ := Function.update s.order_map_ (id % MAX_ORDERS) (some oh), price_level_map_ := Function.update s.price_level_map_ (priceToIndex p) (some lh) } cur).next })) (derefLevel { s with order_pool_ := ⟨Function.update s.order_pool_.storage oh (some ⟨id, p, q, Side.SELL, oh, oh⟩), s.order_pool_.freeArr, s.order_pool_.freeCount - 1⟩, level_pool_ := ⟨Function.update s.level_pool_.storage lh (some ⟨p, Side.SELL, u32add 0 q, 1, oh, lh, lh⟩), s.level_pool_.freeArr, s.level_pool_.freeCount - 1⟩, order_map_ := Function.update s.order_map_ (id % MAX_ORDERS) (some oh), price_level_map_ := Function.update s.price_level_map_ (priceToIndex p) (some lh) } cur).next (fun l => { l with prev := lh })) cur (fun l => { l with next := lh })) lh).prev = cur
        rw [hFlh])
    (by show (derefLevel (setLevel (setLevel (setLevel { s with order_pool_ := ⟨Function.update s.order_pool_.storage oh (some ⟨id, p, q, Side.SELL, oh, oh⟩), s.order_pool_.freeArr, s.order_pool_.freeCount - 1⟩, level_pool_ := ⟨Function.update s.level_pool_.storage lh (some ⟨p, Side.SELL, u32add 0 q, 1, oh, lh, lh⟩), s.level_pool_.freeArr, s.level_pool_.freeCount - 1⟩, order_map_ := Function.update s.order_map_ (id % MAX_ORDERS) (some oh), price_level_map_ := Function.update s.price_level_map_ (priceToIndex p) (some lh) } lh (fun l => { l with prev := cur, next := (derefLevel { s with order_pool_ := ⟨Function.update s.order_pool_.storage oh (some ⟨id, p, q, Side.SELL, oh, oh⟩), s.order_pool_.freeArr, s.order_pool_.freeCount - 1⟩, level_pool_ := ⟨Function.update s.level_pool_.storage lh (some ⟨p, Side.SELL, u32add 0 q, 1, oh, lh, lh⟩), s.level_pool_.freeArr, s.level_pool_.freeCount - 1⟩, order_map_ := Function.update s.order_map_ (id % MAX_ORDERS) (some oh), price_level_map_ := Function.update s.price_level_map_ (priceToIndex p) (some lh) } cur).next })) (derefLevel { s with order_pool_ := ⟨Function.update s.order_pool_.storage oh (some ⟨id, p, q, Side.SELL, oh, oh⟩), s.order_pool_.freeArr, s.order_pool_.freeCount - 1⟩, level_pool_ := ⟨Function.update s.level_pool_.storage lh (some ⟨p, Side.SELL, u32add 0 q, 1, oh, lh, lh⟩), s.level_pool_.freeArr, s.level_pool_.freeCount - 1⟩, order_map_ := Function.update s.order_map_ (id % MAX_ORDERS) (some oh), price_level_map_ := Function.update s.price_level_map_ (priceToIndex p) (some lh) } cur).next (fun l => { l with prev := lh })) cur (fun l => { l with next := lh })) lh).next = (derefLevel s cur).next
        rw [hFlh]
        exact hNXTeq)
    (by show (derefLevel (setLevel (setLevel (setLevel { s with order_pool_ := ⟨Function.update s.order_pool_.storage oh (some ⟨id, p, q, Side.SELL, oh, oh⟩), s.order_pool_.freeArr, s.order_pool_.freeCount - 1⟩, level_pool_ := ⟨Function.update s.level_pool_.storage lh (some ⟨p, Side.SELL, u32add 0 q, 1, oh, lh, lh⟩), s.level_pool_.freeArr, s.level_pool_.freeCount - 1⟩, order_map_ := Function.update s.order_map_ (id % MAX_ORDERS) (some oh), price_level_map_ := Function.update s.price_level_map_ (priceToIndex p) (some lh) } lh (fun l => { l with prev := cur, next := (derefLevel { s with order_pool_ := ⟨Function.update s.order_pool_.storage oh (some ⟨id, p, q, Side.SELL, oh, oh⟩), s.order_pool_.freeArr, s.order_pool_.freeCount - 1⟩, level_pool_ := ⟨Function.update s.level_pool_.storage lh (some ⟨p, Side.SELL, u32add 0 q, 1, oh, lh, lh⟩), s.level_pool_.freeArr, s.level_pool_.freeCount - 1⟩, order_map_ := Function.update s.order_map_ (id % MAX_ORDERS) (some oh), price_level_map_ := Function.update s.price_level_map_ (priceToIndex p) (some lh) } cur).next })) (derefLevel { s with order_pool_ := ⟨Function.update s.order_pool_.storage oh (some ⟨id, p, q, Side.SELL, oh, oh⟩), s.order_pool_.freeArr, s.order_pool_.freeCount - 1⟩, level_pool_ := ⟨Function.update s.level_pool_.storage lh (some ⟨p, Side.SELL, u32add 0 q, 1, oh, lh, lh⟩), s.level_pool_.freeArr, s.level_pool_.freeCount - 1⟩, order_map_ := Function.update s.order_map_ (id % MAX_ORDERS) (some oh), price_level_map_ := Function.update s.price_level_map_ (priceToIndex p) (some lh) } cur).next (fun l => { l with prev := lh })) cur (fun l => { l with next := lh })) ((derefLevel s cur).next)).prev = lh
        rw [← hNXTeq]
        exact hpNXT)
    (fun k hk hkc => by
      show (derefLevel (setLevel (setLevel (setLevel { s with order_pool_ := ⟨Function.update s.order_pool_.storage oh (some ⟨id, p, q, Side.SELL, oh, oh⟩), s.order_pool_.freeArr, s.order_pool_.freeCount - 1⟩, level_pool_ := ⟨Function.update s.level_pool_.storage lh (some ⟨p, Side.SELL, u32add 0 q, 1, oh, lh, lh⟩), s.level_pool_.freeArr, s.level_pool_.freeCount - 1⟩, order_map_ := Function.update s.order_map_ (id % MAX_ORDERS) (some oh), price_level_map_ := Function.update s.price_level_map_ (priceToIndex p) (some lh) } lh (fun l => { l with prev := cur, next := (derefLevel { s with order_pool_ := ⟨Function.update s.order_pool_.storage oh (some ⟨id, p, q, Side.SELL, oh, oh⟩), s.order_pool_.freeArr, s.order_pool_.freeCount - 1⟩, level_pool_ := ⟨Function.update s.level_pool_.storage lh (some ⟨p, Side.SELL, u32add 0 q, 1, oh, lh, lh⟩), s.level_pool_.freeArr, s.level_pool_.freeCount - 1⟩, order_map_ := Function.update s.order_map_ (id % MAX_ORDERS) (some oh), price_level_map_ := Function.update s.price_level_map_ (priceToIndex p) (some lh) } cur).next })) (derefLevel { s with order_pool_ := ⟨Function.update s.order_pool_.storage oh (some ⟨id, p, q, Side.SELL, oh, oh⟩), s.order_pool_.freeArr, s.order_pool_.freeCount - 1⟩, level_pool_ := ⟨Function.update s.level_pool_.storage lh (some ⟨p, Side.SELL, u32add 0 q, 1, oh, lh, lh⟩), s.level_pool_.freeArr, s.level_pool_.freeCount - 1⟩, order_map_ := Function.update s.order_map_ (id % MAX_ORDERS) (some oh), price_level_map_ := Function.update s.price_level_map_ (priceToIndex p) (some lh) } cur).next (fun l => { l with prev := lh })) cur (fun l => { l with next := lh })) k).next = (derefLevel s k).next
      exact hrnF k (fun he => hlhnotmem (he ▸ hk)) hkc)
    (fun k hk hkn => by
      show (derefLevel (setLevel (setLevel (setLevel { s with order_pool_ := ⟨Function.update s.order_pool_.storage oh (some ⟨id, p, q, Side.SELL, oh, oh⟩), s.order_pool_.freeArr, s.order_pool_.freeCount - 1⟩, level_pool_ := ⟨Function.update s.level_pool_.storage lh (some ⟨p, Side.SELL, u32add 0 q, 1, oh, lh, lh⟩), s.level_pool_.freeArr, s.level_pool_.freeCount - 1⟩, order_map_ := Function.update s.order_map_ (id % MAX_ORDERS) (some oh), price_level_map_ := Function.update s.price_level_map_ (priceToIndex p) (some lh) } lh (fun l => { l with prev := cur, next := (derefLevel { s with order_pool_ := ⟨Function.update s.order_pool_.storage oh (some ⟨id, p, q, Side.SELL, oh, oh⟩), s.order_pool_.freeArr, s.order_pool_.freeCount - 1⟩, level_pool_ := ⟨Function.update s.level_pool_.storage lh (some ⟨p, Side.SELL, u32add 0 q, 1, oh, lh, lh⟩), s.level_pool_.freeArr, s.level_pool_.freeCount - 1⟩, order_map_ := Function.update s.order_map_ (id % MAX_ORDERS) (some oh), price_level_map_ := Function.update s.price_level_map_ (priceToIndex p) (some lh) } cur).next })) (derefLevel { s with order_pool_ := ⟨Function.update s.order_pool_.storage oh (some ⟨id, p, q, Side.SELL, oh, oh⟩), s.order_pool_.freeArr, s.order_pool_.freeCount - 1⟩, level_pool_ := ⟨Function.update s.level_pool_.storage lh (some ⟨p, Side.SELL, u32add 0 q, 1, oh, lh, lh⟩), s.level_pool_.freeArr, s.level_pool_.freeCount - 1⟩, order_map_ := Function.update s.order_map_ (id % MAX_ORDERS) (some oh), price_level_map_ := Function.update s.price_level_map_ (priceToIndex p) (some lh) } cur).next (fun l => { l with prev := lh })) cur (fun l => { l with next := lh })) k).prev = (derefLevel s k).prev
      refine hrpF k (fun he => hlhnotmem (he ▸ hk)) (fun he => hkn ?_)
      show k = (derefLevel s cur).next
      rw [← hNXTeq]
      exact he)
  obtain ⟨A, B, hdec, hcycIns, hheadPres, hncmem⟩ := hins
  have hback : ∀ k, k ∈ A ++ cur :: lh :: B → k ≠ lh → k ∈ G.asksL := by
    intro k hk2 hkl
    rw [hdec]
    have hk3 := hk2
    simp only [List.mem_append, List.mem_cons] at hk3 ⊢
    rcases hk3 with h | h | h | h
    · exact Or.inl h
    · exact Or.inr (Or.inl h)
    · exact absurd h hkl
    · exact Or.inr (Or.inr h)
  have hfarA : ∀ a ∈ G.bidsL, a ≠ lh ∧ a ≠ cur ∧ a ≠ ((derefLevel { s with order_pool_ := ⟨Function.update s.order_pool_.storage oh (some ⟨id, p, q, Side.SELL, oh, oh⟩), s.order_pool_.freeArr, s.order_pool_.freeCount - 1⟩, level_pool_ := ⟨Function.update s.level_pool_.storage lh (some ⟨p, Side.SELL, u32add 0 q, 1, oh, lh, lh⟩), s.level_pool_.freeArr, s.level_pool_.freeCount - 1⟩, order_map_ := Function.update s.order_map_ (id % MAX_ORDERS) (some oh), price_level_map_ := Function.update s.price_level_map_ (priceToIndex p) (some lh) } cur).next) := by
    intro a ha
    have halive : (s.level_pool_.storage a).isSome :=
      (hwf.levels.lvlLive a).mpr (List.mem_append.mpr (Or.inl ha))
    have hdisj := (List.nodup_append.mp hwf.levels.lvlNodup).2.2
    refine ⟨hnotlh a halive, ?_, ?_⟩
    · intro he
      exact hdisj (he ▸ ha) hcur
    · intro he
      exact hdisj (he ▸ ha) hNXTmem
  have hperm : List.Perm (A ++ cur :: lh :: B) (lh :: (A ++ cur :: B)) := by
    have h1 : A ++ cur :: lh :: B = (A ++ [cur]) ++ lh :: B := by simp
    have h2 : lh :: (A ++ cur :: B) = lh :: ((A ++ [cur]) ++ B) := by simp
    rw [h1, h2]
    exact List.perm_middle
  refine ⟨⟨G.bidsL, A ++ cur :: lh :: B, Function.update G.fifo lh [oh]⟩,
    ⟨?_, ?_, ?_, ?_, ?_, ?_, ?_, ?_, ?_, ?_, ?_⟩, ?_, ?_, ?_, ?_, ?_, ?_, ?_, ?_, ?_, ?_, ?_⟩
  · -- the untouched bid cycle
    refine isCycle_congr hwf.levels.bidsCyc ?_
    intro a b ha hb hr
    obtain ⟨ha1, ha2, -⟩ := hfarA a ha
    obtain ⟨hb1, -, hb3⟩ := hfarA b hb
    exact ⟨by rw [hrnF a ha1 ha2]; exact hr.1, by rw [hrpF b hb1 hb3]; exact hr.2⟩
  · -- the ask cycle gains the fresh level after cur
    exact hcycIns
  · -- the flat level list stays duplicate-free
    show (G.bidsL ++ (A ++ cur :: lh :: B)).Nodup
    have hperm2 := hperm.append_left G.bidsL
    refine hperm2.nodup_iff.mpr ?_
    show (G.bidsL ++ (lh :: (A ++ cur :: B))).Nodup
    refine List.perm_middle.nodup_iff.mpr ?_
    refine List.nodup_cons.mpr ⟨?_, ?_⟩
    · intro hmem
      rw [← hdec] at hmem
      exact hnotlh lh ((hwf.levels.lvlLive lh).mpr hmem) rfl
    · rw [← hdec]
      exact hwf.levels.lvlNodup
  · -- bid head unchanged
    show s.bids_ = _
    exact hwf.levels.bidsHead
  · -- ask head preserved by the mid-list insertion
    show s.asks_ = _
    rw [hheadPres]
    exact hwf.levels.asksHead
  · -- live levels are the new side lists
    intro k
    show ((setLevel (setLevel (setLevel { s with order_pool_ := ⟨Function.update s.order_pool_.storage oh (some ⟨id, p, q, Side.SELL, oh, oh⟩), s.order_pool_.freeArr, s.order_pool_.freeCount - 1⟩, level_pool_ := ⟨Function.update s.level_pool_.storage lh (some ⟨p, Side.SELL, u32add 0 q, 1, oh, lh, lh⟩), s.level_pool_.freeArr, s.level_pool_.freeCount - 1⟩, order_map_ := Function.update s.order_map_ (id % MAX_ORDERS) (some oh), price_level_map_ := Function.update s.price_level_map_ (priceToIndex p) (some lh) } lh (fun l => { l with prev := cur, next := (derefLevel { s with order_pool_ := ⟨Function.update s.order_pool_.storage oh (some ⟨id, p, q, Side.SELL, oh, oh⟩), s.order_pool_.freeArr, s.order_pool_.freeCount - 1⟩, level_pool_ := ⟨Function.update s.level_pool_.storage lh (some ⟨p, Side.SELL, u32add 0 q, 1, oh, lh, lh⟩), s.level_pool_.freeArr, s.level_pool_.freeCount - 1⟩, order_map_ := Function.update s.order_map_ (id % MAX_ORDERS) (some oh), price_level_map_ := Function.update s.price_level_map_ (priceToIndex p) (some lh) } cur).next })) (derefLevel { s with order_pool_ := ⟨Function.update s.order_pool_.storage oh (some ⟨id, p, q, Side.SELL, oh, oh⟩), s.order_pool_.freeArr, s.order_pool_.freeCount - 1⟩, level_pool_ := ⟨Function.update s.level_pool_.storage lh (some ⟨p, Side.SELL, u32add 0 q, 1, oh, lh, lh⟩), s.level_pool_.freeArr, s.level_pool_.freeCount - 1⟩, order_map_ := Function.update s.order_map_ (id % MAX_ORDERS) (some oh), price_level_map_ := Function.update s.price_level_map_ (priceToIndex p) (some lh) } cur).next (fun l => { l with prev := lh })) cur (fun l => { l with next := lh })).level_pool_.storage k).isSome ↔ k ∈ (G.bidsL) ++ (A ++ cur :: lh :: B)
    rw [hliveLF k, hS1Llive k, hwf.levels.lvlLive k, hdec]
    simp only [List.mem_append, List.mem_cons]
    tauto
  · -- bid-side markers unchanged
    intro k hk
    obtain ⟨hk1, -, -⟩ := hfarA k hk
    rw [(hfieldsF k hk1).2.1]
    exact hwf.levels.bidsSide k hk
  · -- the SELL side keeps its markers and gains the new level
    intro k hk
    have hk2 : k ∈ A ++ cur :: lh :: B := hk
    by_cases hkl : k = lh
    · rw [hkl, hFlh]
    · have hkb : k ∈ G.asksL := hback k hk2 hkl
      rw [(hfieldsF k hkl).2.1]
      exact hwf.levels.asksSide k hkb
  · -- price map entries point at live levels with the right hash
    intro i k hik
    have hik2 : Function.update s.price_level_map_ (priceToIndex p) (some lh) i = some k := hik
    by_cases hi : i = priceToIndex p
    · rw [hi, Function.update_same] at hik2
      obtain rfl : k = lh := (Option.some.inj hik2).symm
      constructor
      · rw [hliveLF k, hS1Llive k]
        simp
      · rw [hFlh, hi]
    · rw [Function.update_noteq hi] at hik2
      obtain ⟨h1, h2⟩ := hwf.levels.mapToLvl i k hik2
      constructor
      · rw [hliveLF k, hS1Llive k]
        exact Or.inl h1
      · rw [(hfieldsF k (hnotlh k h1)).1]
        exact h2
  · -- live levels are found through the price map
    intro k hk
    rw [hliveLF k, hS1Llive k] at hk
    show Function.update s.price_level_map_ (priceToIndex p) (some lh)
      (priceToIndex (derefLevel (setLevel (setLevel (setLevel { s with order_pool_ := ⟨Function.update s.order_pool_.storage oh (some ⟨id, p, q, Side.SELL, oh, oh⟩), s.order_pool_.freeArr, s.order_pool_.freeCount - 1⟩, level_pool_ := ⟨Function.update s.level_pool_.storage lh (some ⟨p, Side.SELL, u32add 0 q, 1, oh, lh, lh⟩), s.level_pool_.freeArr, s.level_pool_.freeCount - 1⟩, order_map_ := Function.update s.order_map_ (id % MAX_ORDERS) (some oh), price_level_map_ := Function.update s.price_level_map_ (priceToIndex p) (some lh) } lh (fun l => { l with prev := cur, next := (derefLevel { s with order_pool_ := ⟨Function.update s.order_pool_.storage oh (some ⟨id, p, q, Side.SELL, oh, oh⟩), s.order_pool_.freeArr, s.order_pool_.freeCount - 1⟩, level_pool_ := ⟨Function.update s.level_pool_.storage lh (some ⟨p, Side.SELL, u32add 0 q, 1, oh, lh, lh⟩), s.level_pool_.freeArr, s.level_pool_.freeCount - 1⟩, order_map_ := Function.update s.order_map_ (id % MAX_ORDERS) (some oh), price_level_map_ := Function.update s.price_level_map_ (priceToIndex p) (some lh) } cur).next })) (derefLevel { s with order_pool_ := ⟨Function.update s.order_pool_.storage oh (some ⟨id, p, q, Side.SELL, oh, oh⟩), s.order_pool_.freeArr, s.order_pool_.freeCount - 1⟩, level_pool_ := ⟨Function.update s.level_pool_.storage lh (some ⟨p, Side.SELL, u32add 0 q, 1, oh, lh, lh⟩), s.level_pool_.freeArr, s.level_pool_.freeCount - 1⟩, order_map_ := Function.update s.order_map_ (id % MAX_ORDERS) (some oh), price_level_map_ := Function.update s.price_level_map_ (priceToIndex p) (some lh) } cur).next (fun l => { l with prev := lh })) cur (fun l => { l with next := lh })) k).price) = some k
    by_cases hk0 : k = lh
    · rw [hk0, hFlh]
      show Function.update s.price_level_map_ (priceToIndex p) (some lh) (priceToIndex p) = _
      rw [Function.update_same]
    · rcases hk with hk | hk
      · rw [(hfieldsF k hk0).1]
        have hne2 : priceToIndex (derefLevel s k).price ≠ priceToIndex p := by
          intro he
          have h2 := hwf.levels.lvlToMap k hk
          rw [he, hmapidx] at h2
          cases h2
        rw [Function.update_noteq hne2]
        exact hwf.levels.lvlToMap k hk
      · exact absurd hk hk0
  · -- level pool well-formed
    have hLP2lh : (⟨Function.update s.level_pool_.storage lh (some ⟨p, Side.SELL, u32add 0 q, 1, oh, lh, lh⟩), s.level_pool_.freeArr, s.level_pool_.freeCount - 1⟩ : Pool PriceLevel).storage lh = some ⟨p, Side.SELL, u32add 0 q, 1, oh, lh, lh⟩ := by
      show Function.update s.level_pool_.storage lh (some ⟨p, Side.SELL, u32add 0 q, 1, oh, lh, lh⟩) lh = _
      rw [Function.update_same]
    obtain ⟨w2, hw2⟩ := Option.isSome_iff_exists.mp hNXTliveP1
    obtain ⟨w3, hw3⟩ := Option.isSome_iff_exists.mp hcurliveP2
    exact poolWF_overwrite (poolWF_overwrite (poolWF_overwrite hLP2wf hLP2lh) hw2) hw3
  · -- FIFO cycles
    intro lh2 hl
    rw [hliveLF lh2, hS1Llive lh2] at hl
    show IsCycle _ (Function.update G.fifo lh [oh] lh2)
    by_cases hne : lh2 = lh
    · rw [hne, Function.update_same]
      refine isCycle_singleton ?_
      refine ⟨?_, ?_⟩
      · rw [hderOoh]
      · rw [hderOoh]
    · rcases hl with hl | hl
      · rw [Function.update_noteq hne]
        refine isCycle_congr (hwf.fifoCyc lh2 hl) ?_
        intro a b ha hb hr
        have han : a ≠ oh := fun he => hohnotlive lh2 hl (he ▸ ha)
        have hbn : b ≠ oh := fun he => hohnotlive lh2 hl (he ▸ hb)
        exact ⟨by rw [hderO a han]; exact hr.1, by rw [hderO b hbn]; exact hr.2⟩
      · exact absurd hl hne
  · -- FIFO lists are duplicate-free
    intro lh2 hl
    rw [hliveLF lh2, hS1Llive lh2] at hl
    show (Function.update G.fifo lh [oh] lh2).Nodup
    by_cases hne : lh2 = lh
    · rw [hne, Function.update_same]
      exact List.nodup_singleton oh
    · rcases hl with hl | hl
      · rw [Function.update_noteq hne]
        exact hwf.fifoNodup lh2 hl
      · exact absurd hl hne
  · -- FIFO heads
    intro lh2 hl
    rw [hliveLF lh2, hS1Llive lh2] at hl
    show (Function.update G.fifo lh [oh] lh2).head? = _
    by_cases hne : lh2 = lh
    · rw [hne, Function.update_same, hFlh]
      rfl
    · rcases hl with hl | hl
      · rw [Function.update_noteq hne, (hfieldsF lh2 hne).2.2.1]
        exact hwf.fifoHead lh2 hl
      · exact absurd hl hne
  · -- FIFO counts
    intro lh2 hl
    rw [hliveLF lh2, hS1Llive lh2] at hl
    show (derefLevel (setLevel (setLevel (setLevel { s with order_pool_ := ⟨Function.update s.order_pool_.storage oh (some ⟨id, p, q, Side.SELL, oh, oh⟩), s.order_pool_.freeArr, s.order_pool_.freeCount - 1⟩, level_pool_ := ⟨Function.update s.level_pool_.storage lh (some ⟨p, Side.SELL, u32add 0 q, 1, oh, lh, lh⟩), s.level_pool_.freeArr, s.level_pool_.freeCount - 1⟩, order_map_ := Function.update s.order_map_ (id % MAX_ORDERS) (some oh), price_level_map_ := Function.update s.price_level_map_ (priceToIndex p) (some lh) } lh (fun l => { l with prev := cur, next := (derefLevel { s with order_pool_ := ⟨Function.update s.order_pool_.storage oh (some ⟨id, p, q, Side.SELL, oh, oh⟩), s.order_pool_.freeArr, s.order_pool_.freeCount - 1⟩, level_pool_ := ⟨Function.update s.level_pool_.storage lh (some ⟨p, Side.SELL, u32add 0 q, 1, oh, lh, lh⟩), s.level_pool_.freeArr, s.level_pool_.freeCount - 1⟩, order_map_ := Function.update s.order_map_ (id % MAX_ORDERS) (some oh), price_level_map_ := Function.update s.price_level_map_ (priceToIndex p) (some lh) } cur).next })) (derefLevel { s with order_pool_ := ⟨Function.update s.order_pool_.storage oh (some ⟨id, p, q, Side.SELL, oh, oh⟩), s.order_pool_.freeArr, s.order_pool_.freeCount - 1⟩, level_pool_ := ⟨Function.update s.level_pool_.storage lh (some ⟨p, Side.SELL, u32add 0 q, 1, oh, lh, lh⟩), s.level_pool_.freeArr, s.level_pool_.freeCount - 1⟩, order_map_ := Function.update s.order_map_ (id % MAX_ORDERS) (some oh), price_level_map_ := Function.update s.price_level_map_ (priceToIndex p) (some lh) } cur).next (fun l => { l with prev := lh })) cur (fun l => { l with next := lh })) lh2).order_count = (Function.update G.fifo lh [oh] lh2).length
    by_cases hne : lh2 = lh
    · rw [hne, Function.update_same, hFlh]
      rfl
    · rcases hl with hl | hl
      · rw [Function.update_noteq hne, (hfieldsF lh2 hne).2.2.2]
        exact hwf.fifoCount lh2 hl
      · exact absurd hl hne
  · -- FIFO members are live orders
    intro lh2 hl m hm
    rw [hliveLF lh2, hS1Llive lh2] at hl
    have hm2 : m ∈ Function.update G.fifo lh [oh] lh2 := hm
    rw [hliveOF m]
    by_cases hne : lh2 = lh
    · rw [hne, Function.update_same, List.mem_singleton] at hm2
      exact Or.inr hm2
    · rcases hl with hl | hl
      · rw [Function.update_noteq hne] at hm2
        exact Or.inl (hwf.fifoLive lh2 hl m hm2)
      · exact absurd hl hne
  · -- FIFO members carry the level price
    intro lh2 hl m hm
    rw [hliveLF lh2, hS1Llive lh2] at hl
    have hm2 : m ∈ Function.update G.fifo lh [oh] lh2 := hm
    by_cases hne : lh2 = lh
    · rw [hne, Function.update_same, List.mem_singleton] at hm2
      rw [hne, hm2, hderOoh, hFlh]
    · rcases hl with hl | hl
      · rw [Function.update_noteq hne] at hm2
        have hmn : m ≠ oh := fun he => hohnotlive lh2 hl (he ▸ hm2)
        rw [hderO m hmn, (hfieldsF lh2 hne).1]
        exact hwf.fifoPrice lh2 hl m hm2
      · exact absurd hl hne
  · -- FIFOs are disjoint
    intro lh1 lh2 h1 h2 m hm1 hm2
    rw [hliveLF lh1, hS1Llive lh1] at h1
    rw [hliveLF lh2, hS1Llive lh2] at h2
    have hm1b : m ∈ Function.update G.fifo lh [oh] lh1 := hm1
    have hm2b : m ∈ Function.update G.fifo lh [oh] lh2 := hm2
    have hred : ∀ lh3, m ∈ Function.update G.fifo lh [oh] lh3 →
        (m ∈ G.fifo lh3 ∧ lh3 ≠ lh) ∨ (m = oh ∧ lh3 = lh) := by
      intro lh3 hmm
      by_cases hne : lh3 = lh
      · rw [hne, Function.update_same, List.mem_singleton] at hmm
        exact Or.inr ⟨hmm, hne⟩
      · rw [Function.update_noteq hne] at hmm
        exact Or.inl ⟨hmm, hne⟩
    have hlv : ∀ lh3, ((s.level_pool_.storage lh3).isSome ∨ lh3 = lh) → lh3 ≠ lh →
        (s.level_pool_.storage lh3).isSome := by
      intro lh3 hh hne
      rcases hh with hh | hh
      · exact hh
      · exact absurd hh hne
    rcases hred lh1 hm1b with ⟨ha, hane⟩ | ⟨haoh, hal⟩
    · rcases hred lh2 hm2b with ⟨hb, hbne⟩ | ⟨hboh, hbl⟩
      · exact hwf.fifoDisj lh1 lh2 (hlv lh1 h1 hane) (hlv lh2 h2 hbne) m ha hb
      · exact absurd (hboh ▸ ha) (hohnotlive lh1 (hlv lh1 h1 hane))
    · rcases hred lh2 hm2b with ⟨hb, hbne⟩ | ⟨hboh, hbl⟩
      · exact absurd (haoh ▸ hb) (hohnotlive lh2 (hlv lh2 h2 hbne))
      · rw [hal, hbl]
  · -- order map entries point at live orders with the right slot
    intro i k hik
    have hik2 : Function.update s.order_map_ (id % MAX_ORDERS) (some oh) i = some k := hik
    by_cases hi : i = id % MAX_ORDERS
    · rw [hi, Function.update_same] at hik2
      obtain rfl : k = oh := (Option.some.inj hik2).symm
      constructor
      · rw [hliveOF k]
        exact Or.inr rfl
      · rw [hderOoh, hi]
    · rw [Function.update_noteq hi] at hik2
      obtain ⟨hk1, hk2⟩ := hwf.mapToOrd i k hik2
      have hkoh : k ≠ oh := by
        intro he
        rw [he, hohdead] at hk1
        cases hk1
      constructor
      · rw [hliveOF k]
        exact Or.inl hk1
      · rw [hderO k hkoh]
        exact hk2
  · -- live orders are found through the order map
    intro k hk
    rw [hliveOF k] at hk
    by_cases hkoh : k = oh
    · rw [hkoh]
      show Function.update s.order_map_ (id % MAX_ORDERS) (some oh)
        ((derefOrder (setLevel (setLevel (setLevel { s with order_pool_ := ⟨Function.update s.order_pool_.storage oh (some ⟨id, p, q, Side.SELL, oh, oh⟩), s.order_pool_.freeArr, s.order_pool_.freeCount - 1⟩, level_pool_ := ⟨Function.update s.level_pool_.storage lh (some ⟨p, Side.SELL, u32add 0 q, 1, oh, lh, lh⟩), s.level_pool_.freeArr, s.level_pool_.freeCount - 1⟩, order_map_ := Function.update s.order_map_ (id % MAX_ORDERS) (some oh), price_level_map_ := Function.update s.price_level_map_ (priceToIndex p) (some lh) } lh (fun l => { l with prev := cur, next := (derefLevel { s with order_pool_ := ⟨Function.update s.order_pool_.storage oh (some ⟨id, p, q, Side.SELL, oh, oh⟩), s.order_pool_.freeArr, s.order_pool_.freeCount - 1⟩, level_pool_ := ⟨Function.update s.level_pool_.storage lh (some ⟨p, Side.SELL, u32add 0 q, 1, oh, lh, lh⟩), s.level_pool_.freeArr, s.level_pool_.freeCount - 1⟩, order_map_ := Function.update s.order_map_ (id % MAX_ORDERS) (some oh), price_level_map_ := Function.update s.price_level_map_ (priceToIndex p) (some lh) } cur).next })) (derefLevel { s with order_pool_ := ⟨Function.update s.order_pool_.storage oh (some ⟨id, p, q, Side.SELL, oh, oh⟩), s.order_pool_.freeArr, s.order_pool_.freeCount - 1⟩, level_pool_ := ⟨Function.update s.level_pool_.storage lh (some ⟨p, Side.SELL, u32add 0 q, 1, oh, lh, lh⟩), s.level_pool_.freeArr, s.level_pool_.freeCount - 1⟩, order_map_ := Function.update s.order_map_ (id % MAX_ORDERS) (some oh), price_level_map_ := Function.update s.price_level_map_ (priceToIndex p) (some lh) } cur).next (fun l => { l with prev := lh })) cur (fun l => { l with next := lh })) oh).order_id % MAX_ORDERS) = some oh
      rw [hderOoh, Function.update_same]
    · rcases hk with hk | hk
      · show Function.update s.order_map_ (id % MAX_ORDERS) (some oh)
          ((derefOrder (setLevel (setLevel (setLevel { s with order_pool_ := ⟨Function.update s.order_pool_.storage oh (some ⟨id, p, q, Side.SELL, oh, oh⟩), s.order_pool_.freeArr, s.order_pool_.freeCount - 1⟩, level_pool_ := ⟨Function.update s.level_pool_.storage lh (some ⟨p, Side.SELL, u32add 0 q, 1, oh, lh, lh⟩), s.level_pool_.freeArr, s.level_pool_.freeCount - 1⟩, order_map_ := Function.update s.order_map_ (id % MAX_ORDERS) (some oh), price_level_map_ := Function.update s.price_level_map_ (priceToIndex p) (some lh) } lh (fun l => { l with prev := cur, next := (derefLevel { s with order_pool_ := ⟨Function.update s.order_pool_.storage oh (some ⟨id, p, q, Side.SELL, oh, oh⟩), s.order_pool_.freeArr, s.order_pool_.freeCount - 1⟩, level_pool_ := ⟨Function.update s.level_pool_.storage lh (some ⟨p, Side.SELL, u32add 0 q, 1, oh, lh, lh⟩), s.level_pool_.freeArr, s.level_pool_.freeCount - 1⟩, order_map_ := Function.update s.order_map_ (id % MAX_ORDERS) (some oh), price_level_map_ := Function.update s.price_level_map_ (priceToIndex p) (some lh) } cur).next })) (derefLevel { s with order_pool_ := ⟨Function.update s.order_pool_.storage oh (some ⟨id, p, q, Side.SELL, oh, oh⟩), s.order_pool_.freeArr, s.order_pool_.freeCount - 1⟩, level_pool_ := ⟨Function.update s.level_pool_.storage lh (some ⟨p, Side.SELL, u32add 0 q, 1, oh, lh, lh⟩), s.level_pool_.freeArr, s.level_pool_.freeCount - 1⟩, order_map_ := Function.update s.order_map_ (id % MAX_ORDERS) (some oh), price_level_map_ := Function.update s.price_level_map_ (priceToIndex p) (some lh) } cur).next (fun l => { l with prev := lh })) cur (fun l => { l with next := lh })) k).order_id % MAX_ORDERS) = some k
        rw [hderO k hkoh]
        have hne2 : (derefOrder s k).order_id % MAX_ORDERS ≠ id % MAX_ORDERS := by
          intro he
          have h2 := hwf.ordToMap k hk
          rw [he, hslot] at h2
          cases h2
        rw [Function.update_noteq hne2]
        exact hwf.ordToMap k hk
      · exact absurd hk hkoh
  · -- every live order sits in some FIFO
    intro k hk
    rw [hliveOF k] at hk
    by_cases hkoh : k = oh
    · refine ⟨lh, ?_, ?_⟩
      · rw [hliveLF lh, hS1Llive lh]
        exact Or.inr rfl
      · show k ∈ Function.update G.fifo lh [oh] lh
        rw [Function.update_same, hkoh]
        exact List.mem_singleton.mpr rfl
    · rcases hk with hk | hk
      · obtain ⟨lh2, hl, hm⟩ := hwf.ordInFifo k hk
        refine ⟨lh2, ?_, ?_⟩
        · rw [hliveLF lh2, hS1Llive lh2]
          exact Or.inl hl
        · show k ∈ Function.update G.fifo lh [oh] lh2
          rw [Function.update_noteq (hnotlh lh2 hl)]
          exact hm
      · exact absurd hk hkoh
  · -- order pool well-formed
    exact hOP1wf

/-- The hash-benignity side condition for adding at price `p`: no live level
with a different price occupies `p`'s slot of the price hash map. -/
def addBenign (s : OrderBook) (p : Int) : Prop :=
  ∀ lh, lh < MAX_PRICE_LEVELS → (s.level_pool_.storage lh).isSome →
    priceToIndex (derefLevel s lh).price = priceToIndex p → (derefLevel s lh).price = p

instance (s : OrderBook) (p : Int) : Decidable (addBenign s p) := by
  unfold addBenign
  infer_instance

theorem allocate_success_facts {α : Type} {pool : Pool α} {mk : Nat → α} {idx : Nat}
    {p2 : Pool α} (h : pool.allocate mk = some (idx, p2)) :
    pool.freeCount ≠ 0 ∧ pool.freeArr (pool.freeCount - 1) = idx := by
  rw [Pool.allocate] at h
  by_cases hfc : pool.freeCount = 0
  · simp [hfc] at h
  · simp only [hfc, if_false, Option.some.injEq, Prod.mk.injEq] at h
    exact ⟨hfc, h.1⟩

/-- The level-pool-exhausted rollback of `addOrder` restores the exact
pre-state. -/
theorem addOrder_rollback_state {s : OrderBook} {id : Nat} {p : Int} {q : Nat}
    {sd : Side} {oh : Nat}
    (hfc : s.order_pool_.freeCount ≠ 0)
    (hpop : s.order_pool_.freeArr (s.order_pool_.freeCount - 1) = oh)
    (hdead : s.order_pool_.storage oh = none)
    (hslot : s.order_map_ (id % MAX_ORDERS) = none) :
    ({ { s with order_pool_ := ⟨Function.update s.order_pool_.storage oh (some ⟨id, p, q, sd, oh, oh⟩), s.order_pool_.freeArr, s.order_pool_.freeCount - 1⟩, order_map_ := Function.update s.order_map_ (id % MAX_ORDERS) (some oh) } with order_pool_ := ({ s with order_pool_ := ⟨Function.update s.order_pool_.storage oh (some ⟨id, p, q, sd, oh, oh⟩), s.order_pool_.freeArr, s.order_pool_.freeCount - 1⟩, order_map_ := Function.update s.order_map_ (id % MAX_ORDERS) (some oh) }).order_pool_.deallocate oh, order_map_ := Function.update ({ s with order_pool_ := ⟨Function.update s.order_pool_.storage oh (some ⟨id, p, q, sd, oh, oh⟩), s.order_pool_.freeArr, s.order_pool_.freeCount - 1⟩, order_map_ := Function.update s.order_map_ (id % MAX_ORDERS) (some oh) }).order_map_ (id % MAX_ORDERS) none } : OrderBook) = s := by
  refine OrderBook_ext _ _ ?_ rfl ?_ rfl rfl rfl rfl rfl
  · refine Pool_ext _ _ ?_ ?_ ?_
    · show Function.update (Function.update s.order_pool_.storage oh (some ⟨id, p, q, sd, oh, oh⟩)) oh none = s.order_pool_.storage
      rw [Function.update_idem, ← hdead, Function.update_eq_self]
    · show Function.update s.order_pool_.freeArr (s.order_pool_.freeCount - 1) oh = s.order_pool_.freeArr
      rw [← hpop, Function.update_eq_self]
    · show s.order_pool_.freeCount - 1 + 1 = s.order_pool_.freeCount
      omega
  · show Function.update (Function.update s.order_map_ (id % MAX_ORDERS) (some oh)) (id % MAX_ORDERS) none = s.order_map_
    rw [Function.update_idem, ← hslot, Function.update_eq_self]

/-- `addOrder` preserves the invariant, provided no live level collides with
the new price's hash slot (`addBenign`). -/
theorem bookWF_addOrder {s : OrderBook} {G : BookShape} (hwf : BookWF s G)
    (id : Nat) (p : Int) (q : Nat) (sd : Side) (hben : addBenign s p) :
    ∃ G2 : BookShape, BookWF (s.addOrder id p q sd) G2 := by
  cases hmap : s.order_map_ (id % MAX_ORDERS) with
  | some oh0 =>
    have hstate : s.addOrder id p q sd = s := by
      simp only [OrderBook.addOrder, hmap, Option.isSome_some, if_true]
    rw [hstate]
    exact ⟨G, hwf⟩
  | none =>
    cases halloc : s.order_pool_.allocate (fun h => ⟨id, p, q, sd, h, h⟩) with
    | none =>
      have hstate : s.addOrder id p q sd = s := by
        simp only [OrderBook.addOrder, hmap, Option.isSome_none, Bool.false_eq_true, if_false]
        simp only [halloc]
      rw [hstate]
      exact ⟨G, hwf⟩
    | some pr =>
      obtain ⟨oh, opool⟩ := pr
      obtain ⟨hohdead, hohlt, hOPEQr, hopoolr⟩ := poolWF_allocate hwf.opool halloc
      have hOPEQ : opool = (⟨Function.update s.order_pool_.storage oh (some ⟨id, p, q, sd, oh, oh⟩), s.order_pool_.freeArr, s.order_pool_.freeCount - 1⟩ : Pool Order) := hOPEQr
      have hopool : poolWF (⟨Function.update s.order_pool_.storage oh (some ⟨id, p, q, sd, oh, oh⟩), s.order_pool_.freeArr, s.order_pool_.freeCount - 1⟩ : Pool Order) MAX_ORDERS := by
        rw [← hOPEQ]
        exact hopoolr
      simp only [OrderBook.addOrder, hmap, Option.isSome_none, Bool.false_eq_true, if_false]
      simp only [halloc]
      rw [hOPEQ]
      cases hfind : s.findPriceLevel p with
      | some lh0 =>
        obtain ⟨hlh0, -⟩ := findPriceLevel_some_live hwf.levels hfind
        obtain ⟨G2, hG2, -, -, -⟩ := bookWF_add_core_append hwf hmap hohdead hopool hlh0 hfind
        have hfind1 : ({ s with order_pool_ := ⟨Function.update s.order_pool_.storage oh (some ⟨id, p, q, sd, oh, oh⟩), s.order_pool_.freeArr, s.order_pool_.freeCount - 1⟩, order_map_ := Function.update s.order_map_ (id % MAX_ORDERS) (some oh) } : OrderBook).findPriceLevel p = some lh0 :=
          (findPriceLevel_congr s ({ s with order_pool_ := ⟨Function.update s.order_pool_.storage oh (some ⟨id, p, q, sd, oh, oh⟩), s.order_pool_.freeArr, s.order_pool_.freeCount - 1⟩, order_map_ := Function.update s.order_map_ (id % MAX_ORDERS) (some oh) }) rfl rfl p).trans hfind
        simp only [hfind1]
        exact ⟨G2, bookWF_updateBBOSide hG2 _ _⟩
      | none =>
        have hfind1 : ({ s with order_pool_ := ⟨Function.update s.order_pool_.storage oh (some ⟨id, p, q, sd, oh, oh⟩), s.order_pool_.freeArr, s.order_pool_.freeCount - 1⟩, order_map_ := Function.update s.order_map_ (id % MAX_ORDERS) (some oh) } : OrderBook).findPriceLevel p = none :=
          (findPriceLevel_congr s ({ s with order_pool_ := ⟨Function.update s.order_pool_.storage oh (some ⟨id, p, q, sd, oh, oh⟩), s.order_pool_.freeArr, s.order_pool_.freeCount - 1⟩, order_map_ := Function.update s.order_map_ (id % MAX_ORDERS) (some oh) }) rfl rfl p).trans hfind
        simp only [hfind1]
        have hmapidx : s.price_level_map_ (priceToIndex p) = none := by
          cases hm : s.price_level_map_ (priceToIndex p) with
          | none => rfl
          | some h2 =>
            obtain ⟨hlive, hpi⟩ := hwf.levels.mapToLvl _ h2 hm
            have hlt := bookWF_lvl_bound hwf hlive
            have hpe := hben h2 hlt hlive hpi
            have hcontra : s.findPriceLevel p = some h2 := by
              rw [OrderBook.findPriceLevel]
              simp only [hm]
              rw [if_pos hpe]
            rw [hfind] at hcontra
            cases hcontra
        cases hlalloc : s.level_pool_.allocate (fun h => (⟨p, sd, (updateQtyLoop (Function.update s.order_pool_.storage oh (some ⟨id, p, q, sd, oh, oh⟩)) oh (MAX_ORDERS + 1) oh 0 0).1, (updateQtyLoop (Function.update s.order_pool_.storage oh (some ⟨id, p, q, sd, oh, oh⟩)) oh (MAX_ORDERS + 1) oh 0 0).2, oh, h, h⟩ : PriceLevel)) with
        | none =>
          simp only [hlalloc]
          obtain ⟨hfc, hpop⟩ := allocate_success_facts halloc
          exact ⟨G, (addOrder_rollback_state hfc hpop hohdead hmap).symm ▸ hwf⟩
        | some pr2 =>
          obtain ⟨lh, lpool⟩ := pr2
          simp only [hlalloc]
          obtain ⟨hlhdead, hlhlt, hLPEQr, hlpoolr⟩ := poolWF_allocate hwf.levels.lpool hlalloc
          have hS1ohst : Function.update s.order_pool_.storage oh (some ⟨id, p, q, sd, oh, oh⟩) oh = some ⟨id, p, q, sd, oh, oh⟩ :=
            Function.update_same _ _ _
          have hloop : updateQtyLoop (Function.update s.order_pool_.storage oh (some ⟨id, p, q, sd, oh, oh⟩)) oh (MAX_ORDERS + 1) oh 0 0 = (u32add 0 q, 1) := updateQtyLoop_stop hS1ohst rfl MAX_ORDERS 0 0
          have hLPEQ : lpool = (⟨Function.update s.level_pool_.storage lh (some ⟨p, sd, u32add 0 q, 1, oh, lh, lh⟩), s.level_pool_.freeArr, s.level_pool_.freeCount - 1⟩ : Pool PriceLevel) := by
            rw [hLPEQr]
            show (⟨Function.update s.level_pool_.storage lh (some ⟨p, sd, (updateQtyLoop (Function.update s.order_pool_.storage oh (some ⟨id, p, q, sd, oh, oh⟩)) oh (MAX_ORDERS + 1) oh 0 0).1, (updateQtyLoop (Function.update s.order_pool_.storage oh (some ⟨id, p, q, sd, oh, oh⟩)) oh (MAX_ORDERS + 1) oh 0 0).2, oh, lh, lh⟩), s.level_pool_.freeArr, s.level_pool_.freeCount - 1⟩ : Pool PriceLevel) = _
            rw [hloop]
          rw [hLPEQ]
          have hlpool2 : poolWF (⟨Function.update s.level_pool_.storage lh (some ⟨p, sd, u32add 0 q, 1, oh, lh, lh⟩), s.level_pool_.freeArr, s.level_pool_.freeCount - 1⟩ : Pool PriceLevel) MAX_PRICE_LEVELS := by
            rw [← hLPEQ]
            exact hlpoolr
          have hnotlh : ∀ k, (s.level_pool_.storage k).isSome → k ≠ lh := by
            intro k hk he
            rw [he, hlhdead] at hk
            cases hk
          cases sd with
          | BUY =>
            simp only [OrderBook.addPriceLevel]
            have hs2lh : derefLevel ({ s with order_pool_ := ⟨Function.update s.order_pool_.storage oh (some ⟨id, p, q, Side.BUY, oh, oh⟩), s.order_pool_.freeArr, s.order_pool_.freeCount - 1⟩, level_pool_ := ⟨Function.update s.level_pool_.storage lh (some ⟨p, Side.BUY, u32add 0 q, 1, oh, lh, lh⟩), s.level_pool_.freeArr, s.level_pool_.freeCount - 1⟩, order_map_ := Function.update s.order_map_ (id % MAX_ORDERS) (some oh) }) lh = (⟨p, Side.BUY, u32add 0 q, 1, oh, lh, lh⟩ : PriceLevel) := by
              show (Function.update s.level_pool_.storage lh (some ⟨p, Side.BUY, u32add 0 q, 1, oh, lh, lh⟩) lh).getD defaultLevel = _
              rw [Function.update_same]
              rfl
            simp only [hs2lh]
            cases hbids : s.bids_ with
            | none =>
              simp only [hbids]
              obtain ⟨G2, hG2⟩ :=
                bookWF_add_core_newEmptyBuy hwf hmap hohdead hopool hlhdead hlpool2 hmapidx hbids
              exact ⟨G2, bookWF_updateBBOSide hG2 _ _⟩
            | some hd =>
              simp only [hbids]
              rw [← hbids]
              have hheadB : (G.bidsL).head? = some hd := by
                rw [← hwf.levels.bidsHead]
                exact hbids
              have hhdmem : hd ∈ G.bidsL := by
                cases hFF : G.bidsL with
                | nil =>
                  rw [hFF] at hheadB
                  cases hheadB
                | cons f rest =>
                  rw [hFF, List.head?_cons] at hheadB
                  rw [← Option.some.inj hheadB]
                  exact List.mem_cons_self f rest
              have hhdlive : (s.level_pool_.storage hd).isSome :=
                (hwf.levels.lvlLive hd).mpr (List.mem_append.mpr (Or.inl hhdmem))
              have hhdne : hd ≠ lh := hnotlh hd hhdlive
              have hd0all : ∀ k, k ≠ lh → derefLevel ({ s with order_pool_ := ⟨Function.update s.order_pool_.storage oh (some ⟨id, p, q, Side.BUY, oh, oh⟩), s.order_pool_.freeArr, s.order_pool_.freeCount - 1⟩, level_pool_ := ⟨Function.update s.level_pool_.storage lh (some ⟨p, Side.BUY, u32add 0 q, 1, oh, lh, lh⟩), s.level_pool_.freeArr, s.level_pool_.freeCount - 1⟩, order_map_ := Function.update s.order_map_ (id % MAX_ORDERS) (some oh), price_level_map_ := Function.update s.price_level_map_ (priceToIndex p) (some lh) }) k = derefLevel s k := by
                intro k hk
                show (Function.update s.level_pool_.storage lh (some ⟨p, Side.BUY, u32add 0 q, 1, oh, lh, lh⟩) k).getD defaultLevel = _
                rw [Function.update_noteq hk]
                rfl
              by_cases hlt : (derefLevel ({ s with order_pool_ := ⟨Function.update s.order_pool_.storage oh (some ⟨id, p, q, Side.BUY, oh, oh⟩), s.order_pool_.freeArr, s.order_pool_.freeCount - 1⟩, level_pool_ := ⟨Function.update s.level_pool_.storage lh (some ⟨p, Side.BUY, u32add 0 q, 1, oh, lh, lh⟩), s.level_pool_.freeArr, s.level_pool_.freeCount - 1⟩, order_map_ := Function.update s.order_map_ (id % MAX_ORDERS) (some oh), price_level_map_ := Function.update s.price_level_map_ (priceToIndex p) (some lh) }) hd).price < p
              · rw [if_pos hlt]
                obtain ⟨G2, hG2⟩ :=
                  bookWF_add_core_frontBuy hwf hmap hohdead hopool hlhdead hlpool2 hmapidx hbids
                exact ⟨G2, bookWF_updateBBOSide hG2 _ _⟩
              · rw [if_neg hlt]
                have hcyc0 : IsCycle (lvlRel ({ s with order_pool_ := ⟨Function.update s.order_pool_.storage oh (some ⟨id, p, q, Side.BUY, oh, oh⟩), s.order_pool_.freeArr, s.order_pool_.freeCount - 1⟩, level_pool_ := ⟨Function.update s.level_pool_.storage lh (some ⟨p, Side.BUY, u32add 0 q, 1, oh, lh, lh⟩), s.level_pool_.freeArr, s.level_pool_.freeCount - 1⟩, order_map_ := Function.update s.order_map_ (id % MAX_ORDERS) (some oh), price_level_map_ := Function.update s.price_level_map_ (priceToIndex p) (some lh) })) (G.bidsL) := by
                  refine isCycle_congr hwf.levels.bidsCyc ?_
                  intro a b ha hb hr
                  have hane : a ≠ lh := hnotlh a
                    ((hwf.levels.lvlLive a).mpr (List.mem_append.mpr (Or.inl ha)))
                  have hbne : b ≠ lh := hnotlh b
                    ((hwf.levels.lvlLive b).mpr (List.mem_append.mpr (Or.inl hb)))
                  exact ⟨by rw [hd0all a hane]; exact hr.1, by rw [hd0all b hbne]; exact hr.2⟩
                have hcurmem := levelWalkBids_mem hcyc0 hd p MAX_PRICE_LEVELS hd hhdmem
                obtain ⟨G2, hG2⟩ :=
                  bookWF_add_core_spliceBuy hwf hmap hohdead hopool hlhdead hlpool2 hmapidx hcurmem
                exact ⟨G2, bookWF_updateBBOSide hG2 _ _⟩
          | SELL =>
            simp only [OrderBook.addPriceLevel]
            have hs2lh : derefLevel ({ s with order_pool_ := ⟨Function.update s.order_pool_.storage oh (some ⟨id, p, q, Side.SELL, oh, oh⟩), s.order_pool_.freeArr, s.order_pool_.freeCount - 1⟩, level_pool_ := ⟨Function.update s.level_pool_.storage lh (some ⟨p, Side.SELL, u32add 0 q, 1, oh, lh, lh⟩), s.level_pool_.freeArr, s.level_pool_.freeCount - 1⟩, order_map_ := Function.update s.order_map_ (id % MAX_ORDERS) (some oh) }) lh = (⟨p, Side.SELL, u32add 0 q, 1, oh, lh, lh⟩ : PriceLevel) := by
              show (Function.update s.level_pool_.storage lh (some ⟨p, Side.SELL, u32add 0 q, 1, oh, lh, lh⟩) lh).getD defaultLevel = _
              rw [Function.update_same]
              rfl
            simp only [hs2lh]
            cases hbids : s.asks_ with
            | none =>
              simp only [hbids]
              obtain ⟨G2, hG2⟩ :=
                bookWF_add_core_newEmptySell hwf hmap hohdead hopool hlhdead hlpool2 hmapidx hbids
              exact ⟨G2, bookWF_updateBBOSide hG2 _ _⟩
            | some hd =>
              simp only [hbids]
              rw [← hbids]
              have hheadB : (G.asksL).head? = some hd := by
                rw [← hwf.levels.asksHead]
                exact hbids
              have hhdmem : hd ∈ G.asksL := by
                cases hFF : G.asksL with
                | nil =>
                  rw [hFF] at hheadB
                  cases hheadB
                | cons f rest =>
                  rw [hFF, List.head?_cons] at hheadB
                  rw [← Option.some.inj hheadB]
                  exact List.mem_cons_self f rest
              have hhdlive : (s.level_pool_.storage hd).isSome :=
                (hwf.levels.lvlLive hd).mpr (List.mem_append.mpr (Or.inr hhdmem))
              have hhdne : hd ≠ lh := hnotlh hd hhdlive
              have hd0all : ∀ k, k ≠ lh → derefLevel ({ s with order_pool_ := ⟨Function.update s.order_pool_.storage oh (some ⟨id, p, q, Side.SELL, oh, oh⟩), s.order_pool_.freeArr, s.order_pool_.freeCount - 1⟩, level_pool_ := ⟨Function.update s.level_pool_.storage lh (some ⟨p, Side.SELL, u32add 0 q, 1, oh, lh, lh⟩), s.level_pool_.freeArr, s.level_pool_.freeCount - 1⟩, order_map_ := Function.update s.order_map_ (id % MAX_ORDERS) (some oh), price_level_map_ := Function.update s.price_level_map_ (priceToIndex p) (some lh) }) k = derefLevel s k := by
                intro k hk
                show (Function.update s.level_pool_.storage lh (some ⟨p, Side.SELL, u32add 0 q, 1, oh, lh, lh⟩) k).getD defaultLevel = _
                rw [Function.update_noteq hk]
                rfl
              by_cases hlt : p < (derefLevel ({ s with order_pool_ := ⟨Function.update s.order_pool_.storage oh (some ⟨id, p, q, Side.SELL, oh, oh⟩), s.order_pool_.freeArr, s.order_pool_.freeCount - 1⟩, level_pool_ := ⟨Function.update s.level_pool_.storage lh (some ⟨p, Side.SELL, u32add 0 q, 1, oh, lh, lh⟩), s.level_pool_.freeArr, s.level_pool_.freeCount - 1⟩, order_map_ := Function.update s.order_map_ (id % MAX_ORDERS) (some oh), price_level_map_ := Function.update s.price_level_map_ (priceToIndex p) (some lh) }) hd).price
              · rw [if_pos hlt]
                obtain ⟨G2, hG2⟩ :=
                  bookWF_add_core_frontSell hwf hmap hohdead hopool hlhdead hlpool2 hmapidx hbids
                exact ⟨G2, bookWF_updateBBOSide hG2 _ _⟩
              · rw [if_neg hlt]
                have hcyc0 : IsCycle (lvlRel ({ s with order_pool_ := ⟨Function.update s.order_pool_.storage oh (some ⟨id, p, q, Side.SELL, oh, oh⟩), s.order_pool_.freeArr, s.order_pool_.freeCount - 1⟩, level_pool_ := ⟨Function.update s.level_pool_.storage lh (some ⟨p, Side.SELL, u32add 0 q, 1, oh, lh, lh⟩), s.level_pool_.freeArr, s.level_pool_.freeCount - 1⟩, order_map_ := Function.update s.order_map_ (id % MAX_ORDERS) (some oh), price_level_map_ := Function.update s.price_level_map_ (priceToIndex p) (some lh) })) (G.asksL) := by
                  refine isCycle_congr hwf.levels.asksCyc ?_
                  intro a b ha hb hr
                  have hane : a ≠ lh := hnotlh a
                    ((hwf.levels.lvlLive a).mpr (List.mem_append.mpr (Or.inr ha)))
                  have hbne : b ≠ lh := hnotlh b
                    ((hwf.levels.lvlLive b).mpr (List.mem_append.mpr (Or.inr hb)))
                  exact ⟨by rw [hd0all a hane]; exact hr.1, by rw [hd0all b hbne]; exact hr.2⟩
                have hcurmem := levelWalkAsks_mem hcyc0 hd p MAX_PRICE_LEVELS hd hhdmem
                obtain ⟨G2, hG2⟩ :=
                  bookWF_add_core_spliceSell hwf hmap hohdead hopool hlhdead hlpool2 hmapidx hcurmem
                exact ⟨G2, bookWF_updateBBOSide hG2 _ _⟩


/-! ## Locating an indexed order through the invariant -/

/-- Under the invariant every order-index entry is linked into exactly one
level FIFO, and `findPriceLevel` at the order's price returns that level. -/
theorem bookWF_order_located {s : OrderBook} {G : BookShape} (hwf : BookWF s G)
    {i oh : Nat} (hmap : s.order_map_ i = some oh) :
    ∃ lh, (s.level_pool_.storage lh).isSome ∧ oh ∈ G.fifo lh ∧
      (∀ lh2, (s.level_pool_.storage lh2).isSome → oh ∈ G.fifo lh2 → lh2 = lh) ∧
      s.findPriceLevel (derefOrder s oh).price = some lh := by
  obtain ⟨hoh, -⟩ := hwf.mapToOrd i oh hmap
  obtain ⟨lh, hlh, hm⟩ := hwf.ordInFifo oh hoh
  refine ⟨lh, hlh, hm, ?_, ?_⟩
  · intro lh2 h2 hm2
    exact hwf.fifoDisj lh2 lh h2 hlh oh hm2 hm
  · rw [hwf.fifoPrice lh hlh oh hm]
    exact bookWF_find hwf hlh

/-- The invariant holds after adding one BUY order to the empty book (the
new-level path of `addOrder` on an empty bid side). -/
theorem oneAddBookWF : ∃ G, BookWF (OrderBook.init.addOrder 21 100 10 Side.BUY) G := by
  have hago : OrderBook.init.order_pool_.allocate (fun h => ⟨21, 100, 10, Side.BUY, h, h⟩) =
      some (65535, ⟨Function.update OrderBook.init.order_pool_.storage 65535
        (some ⟨21, 100, 10, Side.BUY, 65535, 65535⟩), OrderBook.init.order_pool_.freeArr,
        OrderBook.init.order_pool_.freeCount - 1⟩) := rfl
  have hOP1wf := (poolWF_allocate bookWF_init.opool hago).2.2.2
  have hagl : OrderBook.init.level_pool_.allocate
      (fun h => (⟨100, Side.BUY, u32add 0 10, 1, 65535, h, h⟩ : PriceLevel)) =
      some (2047, ⟨Function.update OrderBook.init.level_pool_.storage 2047
        (some ⟨100, Side.BUY, u32add 0 10, 1, 65535, 2047, 2047⟩),
        OrderBook.init.level_pool_.freeArr,
        OrderBook.init.level_pool_.freeCount - 1⟩) := rfl
  have hLP2wf := (poolWF_allocate bookWF_init.levels.lpool hagl).2.2.2
  have hslot : OrderBook.init.order_map_ (21 % MAX_ORDERS) = none := rfl
  have hohdead : OrderBook.init.order_pool_.storage 65535 = none := rfl
  have hlhdead : OrderBook.init.level_pool_.storage 2047 = none := rfl
  have hmapidx : OrderBook.init.price_level_map_ (priceToIndex 100) = none := rfl
  have hheads : OrderBook.init.bids_ = none := rfl
  obtain ⟨G2, hG2⟩ :=
    bookWF_add_core_newEmptyBuy bookWF_init hslot hohdead hOP1wf hlhdead hLP2wf hmapidx hheads
  exact ⟨G2, bookWF_updateBBOSide hG2 true false⟩

/-- The invariant holds after a second BUY order at the same price (the
append-to-existing-level path of `addOrder`). -/
theorem twoAddBookWF :
    ∃ G, BookWF ((OrderBook.init.addOrder 21 100 10 Side.BUY).addOrder 22 100 5 Side.BUY) G := by
  obtain ⟨G2, hG2⟩ := oneAddBookWF
  have hslot : (OrderBook.init.addOrder 21 100 10 Side.BUY).order_map_ (22 % MAX_ORDERS) =
      none := by decide
  have hohdead : (OrderBook.init.addOrder 21 100 10 Side.BUY).order_pool_.storage 65534 =
      none := by decide
  have hago2 : (OrderBook.init.addOrder 21 100 10 Side.BUY).order_pool_.allocate
      (fun h => ⟨22, 100, 5, Side.BUY, h, h⟩) =
      some (65534, ⟨Function.update
        (OrderBook.init.addOrder 21 100 10 Side.BUY).order_pool_.storage 65534
        (some ⟨22, 100, 5, Side.BUY, 65534, 65534⟩),
        (OrderBook.init.addOrder 21 100 10 Side.BUY).order_pool_.freeArr,
        (OrderBook.init.addOrder 21 100 10 Side.BUY).order_pool_.freeCount - 1⟩) := rfl
  have hopool := (poolWF_allocate hG2.opool hago2).2.2.2
  have hlh0 : ((OrderBook.init.addOrder 21 100 10 Side.BUY).level_pool_.storage 2047).isSome := by
    decide
  have hfind : (OrderBook.init.addOrder 21 100 10 Side.BUY).findPriceLevel 100 = some 2047 := by
    decide
  obtain ⟨G3, hG3, -, -, -⟩ := bookWF_add_core_append hG2 hslot hohdead hopool hlh0 hfind
  exact ⟨G3, bookWF_updateBBOSide hG3 true false⟩

/-- C3 counterexample: after `add_order(1, 100, ...)` and `add_order(2, 2148, ...)`
(2148 % 2048 = 100, a price-hash collision) the second level allocation
overwrites the price-index slot, so order 1 is still live in the order index
but `findPriceLevel` at its price returns `none`. -/
theorem hashCollision_breaks_price_lookup :
    ((OrderBook.init.addOrder 1 100 10 Side.BUY).addOrder 2 2148 20 Side.BUY).order_map_
        (1 % MAX_ORDERS) = some 65535 ∧
    (derefOrder ((OrderBook.init.addOrder 1 100 10 Side.BUY).addOrder 2 2148 20 Side.BUY)
        65535).order_id = 1 ∧
    (((OrderBook.init.addOrder 1 100 10 Side.BUY).addOrder 2 2148 20 Side.BUY).order_pool_.storage
        65535).isSome ∧
    ((OrderBook.init.addOrder 1 100 10 Side.BUY).addOrder 2 2148 20 Side.BUY).findPriceLevel
      (derefOrder ((OrderBook.init.addOrder 1 100 10 Side.BUY).addOrder 2 2148 20 Side.BUY)
        65535).price = none := by
  decide

/-- C3: in every state satisfying the structural book invariant, every
order-id present in the order index is linked into exactly one level's FIFO,
and looking the order's price up in the price index (`findPriceLevel`)
returns exactly that level's handle. -/
theorem orderIndex_unique_fifo_and_find {s : OrderBook} {G : BookShape} (hwf : BookWF s G)
    {i oh : Nat} (hmap : s.order_map_ i = some oh) :
    ∃ lh, (s.level_pool_.storage lh).isSome ∧ oh ∈ G.fifo lh ∧
      (∀ lh2, (s.level_pool_.storage lh2).isSome → oh ∈ G.fifo lh2 → lh2 = lh) ∧
      s.findPriceLevel (derefOrder s oh).price = some lh :=
  bookWF_order_located hwf hmap

/-- Witness for C3: in the two-order book built by the program, the level
found through the price index at order 65535's price is handle 2047. -/
theorem orderIndex_unique_fifo_and_find_witness :
    ((OrderBook.init.addOrder 21 100 10 Side.BUY).addOrder 22 100 5 Side.BUY).findPriceLevel
      (derefOrder ((OrderBook.init.addOrder 21 100 10 Side.BUY).addOrder 22 100 5 Side.BUY)
        65535).price = some 2047 := by
  obtain ⟨G, hG⟩ := twoAddBookWF
  obtain ⟨lh, hlh, hm, huniq, hfind⟩ := orderIndex_unique_fifo_and_find hG
    (show ((OrderBook.init.addOrder 21 100 10 Side.BUY).addOrder 22 100 5
      Side.BUY).order_map_ 21 = some 65535 from by decide)
  have hlh2047 : lh = 2047 := by
    have h3 : ((OrderBook.init.addOrder 21 100 10 Side.BUY).addOrder 22 100 5
        Side.BUY).findPriceLevel 100 = some 2047 := by decide
    have h4 : (derefOrder ((OrderBook.init.addOrder 21 100 10 Side.BUY).addOrder 22 100 5
        Side.BUY) 65535).price = 100 := by decide
    rw [h4] at hfind
    exact (Option.some.inj (h3.symm.trans hfind)).symm
  rw [← hlh2047]
  exact hfind

/-- C6: under the book invariant `getOrderRank` returns the `order_count` of
the level containing the looked-up live order, and 0 when the id is not live
(empty index slot, or a slot occupied by a different id). -/
theorem getOrderRank_order_count {s : OrderBook} {G : BookShape} (hwf : BookWF s G)
    (id : Nat) :
    (∀ oh lh, s.order_map_ (id % MAX_ORDERS) = some oh →
      (derefOrder s oh).order_id = id →
      (s.level_pool_.storage lh).isSome → oh ∈ G.fifo lh →
      s.getOrderRank id = (derefLevel s lh).order_count) ∧
    (s.order_map_ (id % MAX_ORDERS) = none → s.getOrderRank id = 0) ∧
    (∀ oh, s.order_map_ (id % MAX_ORDERS) = some oh →
      (derefOrder s oh).order_id ≠ id → s.getOrderRank id = 0) := by
  refine ⟨?_, ?_, ?_⟩
  · intro oh lh hmap hid hlh hm
    simp only [OrderBook.getOrderRank, hmap]
    rw [if_neg (fun hne => hne hid)]
    rw [hwf.fifoCount lh hlh]
    exact bookWF_rankWalk hwf hlh hm
  · intro h
    simp only [OrderBook.getOrderRank, h]
  · intro oh hmap hne
    simp only [OrderBook.getOrderRank, hmap]
    rw [if_pos hne]

/-- Witness for C6: both resting orders of the two-order book rank 2, the
containing level's order count. -/
theorem getOrderRank_order_count_witness :
    ((OrderBook.init.addOrder 21 100 10 Side.BUY).addOrder 22 100 5 Side.BUY).getOrderRank 21 =
      2 := by
  obtain ⟨G, hG⟩ := twoAddBookWF
  obtain ⟨lh, hlh, hm, -, hfind⟩ := bookWF_order_located hG
    (show ((OrderBook.init.addOrder 21 100 10 Side.BUY).addOrder 22 100 5
      Side.BUY).order_map_ (21 % MAX_ORDERS) = some 65535 from by decide)
  have hlh2047 : lh = 2047 := by
    have h3 : ((OrderBook.init.addOrder 21 100 10 Side.BUY).addOrder 22 100 5
        Side.BUY).findPriceLevel 100 = some 2047 := by decide
    have h4 : (derefOrder ((OrderBook.init.addOrder 21 100 10 Side.BUY).addOrder 22 100 5
        Side.BUY) 65535).price = 100 := by decide
    rw [h4] at hfind
    exact (Option.some.inj (h3.symm.trans hfind)).symm
  subst hlh2047
  have h5 := (getOrderRank_order_count hG 21).1 65535 2047 (by decide) (by decide) hlh hm
  exact h5.trans (by decide)

/-- C4 counterexample: a SELL order at a price that already has a BUY level
joins that BUY level (`findPriceLevel` ignores the side), bumping the
level's `total_qty` to 15 while the flag discipline leaves the cached
`bbo_.bid_qty` at 10 — the cache no longer equals the (unique, self-linked)
best BUY level. -/
theorem bbo_stale_after_opposite_side_join :
    ((OrderBook.init.addOrder 1 100 10 Side.BUY).addOrder 2 100 5 Side.SELL).bids_ =
      some 2047 ∧
    (derefLevel ((OrderBook.init.addOrder 1 100 10 Side.BUY).addOrder 2 100 5 Side.SELL)
        2047).side = Side.BUY ∧
    (derefLevel ((OrderBook.init.addOrder 1 100 10 Side.BUY).addOrder 2 100 5 Side.SELL)
        2047).next = 2047 ∧
    (derefLevel ((OrderBook.init.addOrder 1 100 10 Side.BUY).addOrder 2 100 5 Side.SELL)
        2047).price = 100 ∧
    (derefLevel ((OrderBook.init.addOrder 1 100 10 Side.BUY).addOrder 2 100 5 Side.SELL)
        2047).total_qty = 15 ∧
    ((OrderBook.init.addOrder 1 100 10 Side.BUY).addOrder 2 100 5 Side.SELL).bbo_.bid_price =
      100 ∧
    ((OrderBook.init.addOrder 1 100 10 Side.BUY).addOrder 2 100 5 Side.SELL).bbo_.bid_qty =
      10 := by
  decide

/-- C4: what the dirty-flag recomputation actually guarantees — after
`updateBBOSide`, a side whose flag is set caches exactly the head level's
price and `total_qty` (or zeros when that side's list is empty), and a side
whose flag is clear keeps its previous cached values. -/
theorem updateBBOSide_flag_semantics (s : OrderBook) (ub ua : Bool) :
    ((s.updateBBOSide ub ua).bbo_.bid_price =
      (if ub then
        (match s.bids_ with
          | some h => (derefLevel s h).price
          | none => 0)
        else s.bbo_.bid_price)) ∧
    ((s.updateBBOSide ub ua).bbo_.bid_qty =
      (if ub then
        (match s.bids_ with
          | some h => (derefLevel s h).total_qty
          | none => 0)
        else s.bbo_.bid_qty)) ∧
    ((s.updateBBOSide ub ua).bbo_.ask_price =
      (if ua then
        (match s.asks_ with
          | some h => (derefLevel s h).price
          | none => 0)
        else s.bbo_.ask_price)) ∧
    ((s.updateBBOSide ub ua).bbo_.ask_qty =
      (if ua then
        (match s.asks_ with
          | some h => (derefLevel s h).total_qty
          | none => 0)
        else s.bbo_.ask_qty)) := by
  cases ub <;> cases ua <;> cases hb : s.bids_ <;> cases ha : s.asks_ <;>
    simp [OrderBook.updateBBOSide, hb, ha, derefLevel]

/-- Witness for C4: recomputing both sides on the one-order book caches the
bid head's quantity. -/
theorem updateBBOSide_flag_semantics_witness :
    ((OrderBook.init.addOrder 1 100 10 Side.BUY).updateBBOSide true true).bbo_.bid_qty = 10 :=
  (updateBBOSide_flag_semantics (OrderBook.init.addOrder 1 100 10 Side.BUY) true
    true).2.1.trans (by decide)

/-- C6 counterexample: on the reachable book built by `add(1,2148)`,
`add(4,2148)`, `add(2,100)`, `add(3,2148)` (2148 % 2048 = 100, so the three
level allocations fight over one price-index slot), `delete(1)` looks its
level up through `findPriceLevel`, which returns order 3's level — a
different live level with the same price — and decrements that level's
`order_count` while unlinking order 1 from its own FIFO.  Afterwards order 3
is live and the sole member of its live level (handle 2045, self-linked
order, `first_order` pointing at it), that level's `order_count` is 0, and
`order_rank(3)` returns 1 ≠ 0. -/
theorem getOrderRank_differs_from_corrupted_order_count :
    (((((OrderBook.init.addOrder 1 2148 10 Side.BUY).addOrder 4 2148 10
        Side.BUY).addOrder 2 100 10 Side.BUY).addOrder 3 2148 10
        Side.BUY).deleteOrder 1 Side.BUY).order_map_ 3 = some 65532 ∧
    derefOrder (((((OrderBook.init.addOrder 1 2148 10 Side.BUY).addOrder 4 2148 10
        Side.BUY).addOrder 2 100 10 Side.BUY).addOrder 3 2148 10
        Side.BUY).deleteOrder 1 Side.BUY) 65532 = ⟨3, 2148, 10, Side.BUY, 65532, 65532⟩ ∧
    (((((OrderBook.init.addOrder 1 2148 10 Side.BUY).addOrder 4 2148 10
        Side.BUY).addOrder 2 100 10 Side.BUY).addOrder 3 2148 10
        Side.BUY).deleteOrder 1 Side.BUY).level_pool_.storage 2045 =
      some ⟨2148, Side.BUY, 0, 0, 65532, 2047, 2046⟩ ∧
    (((((OrderBook.init.addOrder 1 2148 10 Side.BUY).addOrder 4 2148 10
        Side.BUY).addOrder 2 100 10 Side.BUY).addOrder 3 2148 10
        Side.BUY).deleteOrder 1 Side.BUY).getOrderRank 3 = 1 := by
  decide

/-- C8 counterexample: on the reachable stale-BBO book of C4
(`add(1,100,10,BUY)` then `add(2,100,5,SELL)`: the cached `bid_qty` is 10
while the single BUY level totals 15), `modify(1,100,12,BUY)` followed by
`modify(1,100,10,BUY)` restores order 1's qty (10) and the level's
`total_qty` (15) but ends with `bbo_.bid_qty = 15 ≠ 10`: the first modify
hits the BBO level, so `update_bid` is set and the bid cache is recomputed
from the level total the stale cache had never reflected — the round trip
does not restore the book. -/
theorem modifyOrder_roundtrip_bbo_not_restored :
    ((OrderBook.init.addOrder 1 100 10 Side.BUY).addOrder 2 100 5 Side.SELL).order_map_ 1 =
      some 65535 ∧
    derefOrder ((OrderBook.init.addOrder 1 100 10 Side.BUY).addOrder 2 100 5 Side.SELL)
      65535 = ⟨1, 100, 10, Side.BUY, 65534, 65534⟩ ∧
    ((OrderBook.init.addOrder 1 100 10 Side.BUY).addOrder 2 100 5
      Side.SELL).bbo_.bid_qty = 10 ∧
    (derefOrder ((((OrderBook.init.addOrder 1 100 10 Side.BUY).addOrder 2 100 5
      Side.SELL).modifyOrder 1 100 12 Side.BUY).modifyOrder 1 100 10 Side.BUY)
      65535).qty = 10 ∧
    (derefLevel ((((OrderBook.init.addOrder 1 100 10 Side.BUY).addOrder 2 100 5
      Side.SELL).modifyOrder 1 100 12 Side.BUY).modifyOrder 1 100 10 Side.BUY)
      2047).total_qty = 15 ∧
    (derefLevel ((OrderBook.init.addOrder 1 100 10 Side.BUY).addOrder 2 100 5
      Side.SELL) 2047).total_qty = 15 ∧
    ((((OrderBook.init.addOrder 1 100 10 Side.BUY).addOrder 2 100 5
      Side.SELL).modifyOrder 1 100 12 Side.BUY).modifyOrder 1 100 10
      Side.BUY).bbo_.bid_qty = 15 := by
  decide
